import Mathlib

/-!
# Uniaxial concrete material models and the node recorder of OpenSees

Shallow embedding of `SRC/material/uniaxial/Concrete02Thermal.cpp`,
`SRC/material/uniaxial/ConcreteCM.cpp` and of the processed output of
`SRC/recorder/ResidNodeRecorder.cpp`, and theorems about them.

Conventions of the embedding

* A C++ `double` is an exact rational number (`ℚ`): `+ - * /` and the
  comparisons are the exact ones, without rounding, infinities or NaN.
  Division by zero yields `0` (the value of `x / 0` in `ℚ`); a statement that
  depends on a quotient carries the hypothesis that keeps its divisor away
  from zero.
* A C++ `int` is an integer (`Int`), its division is the truncating one
  (`Int.tdiv`); the counts of nodes, dofs and groups are taken to be far
  below `2^31`, where `int` arithmetic does not wrap.
* The C library functions `pow`, `exp` and `log10` are not part of the
  repository.  They are a parameter of the model (`Libm`), and a theorem
  assumes of them only what it states as a hypothesis.
* An object is the record of its data members, a method a function from
  record to record.  A member that a constructor leaves uninitialised keeps
  the value it has in the record passed to the constructor.
* In `ConcreteCM` one statement follows another through `andThen`, whose
  second argument names the object the statement has produced (`fun s =>`).
-/

set_option linter.unusedVariables false

/-- The functions of the C mathematical library used by the material models. -/
structure Libm where
  pow : ℚ → ℚ → ℚ
  exp : ℚ → ℚ
  log10 : ℚ → ℚ

/-- The C function `fabs`. -/
def fabs (x : ℚ) : ℚ := if x < 0 then -x else x

/-- The macro `fmin(a,b)` of `ConcreteCM.cpp`: `((a)<(b))?(a):(b)`. -/
def fmin (a b : ℚ) : ℚ := if a < b then a else b

/-- Power with an integer exponent. -/
def ipow (x : ℚ) (n : Int) : ℚ :=
  if 0 ≤ n then x ^ n.toNat else (x ^ (-n).toNat)⁻¹

/-- A library over the rationals on which the models can be evaluated.  `pow x r` is
the true power when `r` is an integer (in general it is `x` to the integer part of
`r`), `exp 0 = 1`, `log10 1 = 0` and `log10 10 = 1`; elsewhere the values are rational
stand-ins for the true ones. -/
def Libm.sample : Libm where
  pow := fun x r => ipow x (Rat.floor r)
  exp := fun x => if x ≤ 0 then 1 / (1 - x) else 1 + x
  log10 := fun x => (x - 1) / 9

/-- Conversion of a `double` to an `int`: the fractional part is discarded. -/
def toInt (x : ℚ) : Int := if 0 ≤ x then Rat.floor x else -Rat.floor (-x)

namespace Concrete02Thermal

/-- Data members of a `Concrete02Thermal` object. -/
structure State where
  tag : Int
  -- construction-time inputs
  fcT : ℚ
  epsc0T : ℚ
  fcuT : ℚ
  epscuT : ℚ
  rat : ℚ
  ftT : ℚ
  EtsT : ℚ
  -- active (temperature-adjusted) parameters
  fc : ℚ
  epsc0 : ℚ
  fcu : ℚ
  epscu : ℚ
  ft : ℚ
  Ets : ℚ
  -- committed history and state
  ecminP : ℚ
  deptP : ℚ
  epsP : ℚ
  sigP : ℚ
  eP : ℚ
  TempP : ℚ
  -- trial history and state
  ecmin : ℚ
  dept : ℚ
  eps : ℚ
  sig : ℚ
  e : ℚ
  -- temperature bookkeeping
  Temp : ℚ
  Tempmax : ℚ
  strainRatio : ℚ
  ThermalElongation : ℚ
  cooling : Int
  deriving DecidableEq

/-- Constructor `Concrete02Thermal(tag, _fc, _epsc0, _fcu, _epscu, _rat, _ft, _Ets)`
(lines 56-91).  The members `ecmin`, `dept`, `Temp` and `Tempmax` are not
initialised by the constructor: they keep the values they have in `u`. -/
def new (tag : Int) (_fc _epsc0 _fcu _epscu _rat _ft _Ets : ℚ) (u : State) : State :=
  { u with
    tag := tag
    fcT := _fc, epsc0T := _epsc0, fcuT := _fcu, epscuT := _epscu, rat := _rat,
    ftT := _ft, EtsT := _Ets,
    fc := _fc, epsc0 := _epsc0, fcu := _fcu, epscu := _epscu, ft := _ft, Ets := _Ets,
    ecminP := 0, deptP := 0,
    eP := 2 * _fc / _epsc0,
    epsP := 0, sigP := 0,
    eps := 0, sig := 0,
    e := 2 * _fc / _epsc0,
    strainRatio := _epsc0 / 0.0025,
    ThermalElongation := 0,
    cooling := 0,
    TempP := 0 }

/-- Method `getInitialTangent` (lines 115-119). -/
def getInitialTangent (s : State) : ℚ := 2 * s.fc / s.epsc0

/-- Method `Tens_Envlp(epsc, sigc, Ect)` (lines 678-713); the result is the pair
`(sigc, Ect)`. -/
def Tens_Envlp (s : State) (epsc : ℚ) : ℚ × ℚ :=
  let Ec0 := 2 * s.fc / s.epsc0
  let eps0 := s.ft / Ec0
  let epsu := s.ft * (1 / s.Ets + 1 / Ec0)
  if epsc ≤ eps0 then
    (epsc * Ec0, Ec0)
  else if epsc ≤ epsu then
    (s.ft - s.Ets * (epsc - eps0), -s.Ets)
  else
    (0, 1.0e-10)

/-- Method `Compr_Envlp(epsc, sigc, Ect)` (lines 716-757); the result is the pair
`(sigc, Ect)`. -/
def Compr_Envlp (s : State) (epsc : ℚ) : ℚ × ℚ :=
  let Ec0 := 2 * s.fc / s.epsc0
  let ratLocal := epsc / s.epsc0
  if epsc ≥ s.epsc0 then
    (s.fc * ratLocal * (2 - ratLocal), Ec0 * (1 - ratLocal))
  else if epsc > s.epscu then
    ((s.fcu - s.fc) * (epsc - s.epsc0) / (s.epscu - s.epsc0) + s.fc,
      (s.fcu - s.fc) / (s.epscu - s.epsc0))
  else
    (s.fcu, 1.0e-10)

/-- Method `setTrialStrain(trialStrain, FiberTemperature, strainRate)` (lines 121-218);
the last two arguments are not used by the body. -/
def setTrialStrain (s : State) (trialStrain : ℚ) : State :=
  let ec0 := s.fc * 2 / s.epsc0
  let s := { s with ecmin := s.ecminP }
  let s := { s with dept := s.deptP }
  let s := { s with eps := trialStrain }
  let deps := s.eps - s.epsP
  if s.eps < s.ecmin then
    let r := Compr_Envlp s s.eps
    let s := { s with sig := r.1, e := r.2 }
    { s with ecmin := s.eps }
  else
    let epsr := (s.fcu - s.rat * ec0 * s.epscu) / (ec0 * (1 - s.rat))
    let sigmr := ec0 * epsr
    let sigmm := (Compr_Envlp s s.ecmin).1
    let er := (sigmm - sigmr) / (s.ecmin - epsr)
    let ept := s.ecmin - sigmm / er
    if s.eps ≤ ept then
      let sigmin := sigmm + er * (s.eps - s.ecmin)
      let sigmax := er * 0.5 * (s.eps - ept)
      let s := { s with sig := s.sigP + ec0 * deps }
      let s := { s with e := ec0 }
      let s := if s.sig ≤ sigmin then { s with sig := sigmin, e := er } else s
      let s := if s.sig ≥ sigmax then { s with sig := sigmax, e := 0.5 * er } else s
      s
    else
      let epn := ept + s.dept
      if s.eps ≤ epn then
        let r := Tens_Envlp s s.dept
        let sicn := r.1
        let s := { s with e := r.2 }
        let s := if s.dept ≠ 0 then { s with e := sicn / s.dept } else { s with e := ec0 }
        { s with sig := s.e * (s.eps - ept) }
      else
        let epstmp := s.eps - ept
        let r := Tens_Envlp s epstmp
        let s := { s with sig := r.1, e := r.2 }
        { s with dept := s.eps - ept }

/-- Method `getStrain` (lines 222-226). -/
def getStrain (s : State) : ℚ := s.eps

/-- Method `getStress` (lines 228-232). -/
def getStress (s : State) : ℚ := s.sig

/-- Method `getTangent` (lines 234-238). -/
def getTangent (s : State) : ℚ := s.e

/-- Method `commitState` (lines 565-578). -/
def commitState (s : State) : State :=
  let s := { s with ecminP := s.ecmin }
  let s := { s with deptP := s.dept }
  let s := { s with eP := s.e }
  let s := { s with sigP := s.sig }
  let s := { s with epsP := s.eps }
  let s := { s with TempP := s.Temp }
  s

/-- Method `revertToLastCommit` (lines 580-595). -/
def revertToLastCommit (s : State) : State :=
  let s := { s with ecmin := s.ecminP }
  let s := { s with dept := s.deptP }
  let s := { s with e := s.eP }
  let s := { s with sig := s.sigP }
  let s := { s with eps := s.epsP }
  s

/-- The objects after each `setTrialStrain` of a loading history in which every trial
strain of the list is committed (`commitState`) before the next one is set. -/
def loadPath : State → List ℚ → List State
  | _, [] => []
  | s, x :: xs => setTrialStrain s x :: loadPath (commitState (setTrialStrain s x)) xs

/-- An object with every member zero, used as the storage handed to the constructor. -/
def State.zero : State :=
  { tag := 0, fcT := 0, epsc0T := 0, fcuT := 0, epscuT := 0, rat := 0, ftT := 0, EtsT := 0,
    fc := 0, epsc0 := 0, fcu := 0, epscu := 0, ft := 0, Ets := 0,
    ecminP := 0, deptP := 0, epsP := 0, sigP := 0, eP := 0, TempP := 0,
    ecmin := 0, dept := 0, eps := 0, sig := 0, e := 0,
    Temp := 0, Tempmax := 0, strainRatio := 0, ThermalElongation := 0, cooling := 0 }

/-- The local variables of the cooling part of `getElongTangent` (lines 386-392).  They
are declared without an initial value. -/
structure Cooling where
  kappa : ℚ
  fcmax : ℚ
  fcumax : ℚ
  fcamb : ℚ
  fcuamb : ℚ
  epsc0max : ℚ
  epscumax : ℚ
  deriving DecidableEq

/-- Tensile strength `ft` and tension softening stiffness `Ets` at the temperature `Temp` (lines 258-271 of `getElongTangent`). -/
def getElongTangent_L258_L271 (s : State) : State :=
  if s.Temp ≤ 80 then
    { s with ft := s.ftT }
  else if s.Temp ≤ 580 then
    let s := { s with ft := (1 - 1 * (s.Temp - 80) / 500) * s.ftT }
    { s with Ets := (1 - 1 * (s.Temp - 80) / 500) * s.fcT * 1.5 / s.epsc0T }
  else
    let s := { s with ft := 1.0e-3 }
    { s with Ets := 1.0e-3 }

/-- Compressive strength `fc`, strain at strength `epsc0`, crushing strength `fcu` and crushing strain `epscu` at the temperature `Temp`; above 1080 the code only writes a message (lines 276-351 of `getElongTangent`). -/
def getElongTangent_L276_L351 (s : State) : State :=
  if s.Temp ≤ 0 then
    let s := { s with fc := s.fcT }
    let s := { s with epsc0 := -0.0025 }
    let s := { s with fcu := s.fcuT }
    { s with epscu := -0.02 }
  else if s.Temp ≤ 80 then
    let s := { s with fc := s.fcT }
    let s := { s with epsc0 := -(0.0025 + (0.004 - 0.0025) * (s.Temp - 0) / (80 - 0)) }
    let s := { s with fcu := s.fcuT }
    { s with epscu := -(0.0200 + (0.0225 - 0.0200) * (s.Temp - 0) / (80 - 0)) }
  else if s.Temp ≤ 180 then
    let s := { s with fc := s.fcT * (1 - (s.Temp - 80) * 0.05 / 100) }
    let s := { s with epsc0 := -(0.0040 + (0.0055 - 0.0040) * (s.Temp - 80) / 100) }
    let s := { s with fcu := s.fcuT * (1 - (s.Temp - 80) * 0.05 / 100) }
    { s with epscu := -(0.0225 + (0.0225 - 0.0200) * (s.Temp - 80) / 100) }
  else if s.Temp ≤ 280 then
    let s := { s with fc := s.fcT * (0.95 - (s.Temp - 180) * 0.1 / 100) }
    let s := { s with epsc0 := -(0.0055 + (0.0070 - 0.0055) * (s.Temp - 180) / 100) }
    let s := { s with fcu := s.fcuT * (0.95 - (s.Temp - 180) * 0.1 / 100) }
    { s with epscu := -(0.0250 + 0.0025 * (s.Temp - 180) / 100) }
  else if s.Temp ≤ 380 then
    let s := { s with fc := s.fcT * (0.85 - (s.Temp - 280) * 0.1 / 100) }
    let s := { s with epsc0 := -(0.0070 + (0.0100 - 0.0070) * (s.Temp - 280) / 100) }
    let s := { s with fcu := s.fcuT * (0.85 - (s.Temp - 280) * 0.1 / 100) }
    { s with epscu := -(0.0275 + 0.0025 * (s.Temp - 280) / 100) }
  else if s.Temp ≤ 480 then
    let s := { s with fc := s.fcT * (0.75 - (s.Temp - 380) * 0.15 / 100) }
    let s := { s with epsc0 := -(0.0100 + (0.0150 - 0.0100) * (s.Temp - 380) / 100) }
    let s := { s with fcu := s.fcuT * (0.75 - (s.Temp - 380) * 0.15 / 100) }
    { s with epscu := -(0.03 + 0.0025 * (s.Temp - 380) / 100) }
  else if s.Temp ≤ 580 then
    let s := { s with fc := s.fcT * (0.60 - (s.Temp - 480) * 0.15 / 100) }
    let s := { s with epsc0 := -(0.0150 + (0.0250 - 0.0150) * (s.Temp - 480) / 100) }
    let s := { s with fcu := s.fcuT * (0.60 - (s.Temp - 480) * 0.15 / 100) }
    { s with epscu := -(0.0325 + 0.0025 * (s.Temp - 480) / 100) }
  else if s.Temp ≤ 680 then
    let s := { s with fc := s.fcT * (0.45 - (s.Temp - 580) * 0.15 / 100) }
    let s := { s with epsc0 := -0.0250 }
    let s := { s with fcu := s.fcuT * (0.45 - (s.Temp - 580) * 0.15 / 100) }
    { s with epscu := -(0.035 + 0.0025 * (s.Temp - 580) / 100) }
  else if s.Temp ≤ 780 then
    let s := { s with fc := s.fcT * (0.30 - (s.Temp - 680) * 0.15 / 100) }
    let s := { s with epsc0 := -0.0250 }
    let s := { s with fcu := s.fcuT * (0.30 - (s.Temp - 680) * 0.15 / 100) }
    { s with epscu := -(0.0375 + 0.0025 * (s.Temp - 680) / 100) }
  else if s.Temp ≤ 880 then
    let s := { s with fc := s.fcT * (0.15 - (s.Temp - 780) * 0.07 / 100) }
    let s := { s with epsc0 := -0.0250 }
    let s := { s with fcu := s.fcuT * (0.15 - (s.Temp - 780) * 0.07 / 100) }
    { s with epscu := -(0.04 + 0.0025 * (s.Temp - 780) / 100) }
  else if s.Temp ≤ 980 then
    let s := { s with fc := s.fcT * (0.08 - (s.Temp - 880) * 0.04 / 100) }
    let s := { s with epsc0 := -0.0250 }
    let s := { s with fcu := s.fcuT * (0.08 - (s.Temp - 880) * 0.04 / 100) }
    { s with epscu := -(0.0425 + 0.0025 * (s.Temp - 880) / 100) }
  else if s.Temp ≤ 1080 then
    let s := { s with fc := s.fcT * (0.04 - (s.Temp - 980) * 0.03 / 100) }
    let s := { s with epsc0 := -0.0250 }
    let s := { s with fcu := s.fcuT * (0.04 - (s.Temp - 980) * 0.03 / 100) }
    { s with epscu := -(0.045 + 0.0025 * (s.Temp - 980) / 100) }
  else
    s

/-- Thermal elongation at the temperature `Temp`; above 1180 the code only writes a message (lines 358-369 of `getElongTangent`). -/
def getElongTangent_L358_L369 (s : State) : State :=
  if s.Temp ≤ 1 then
    { s with ThermalElongation := (s.Temp - 0) * 9.213e-6 }
  else if s.Temp ≤ 680 then
    { s with ThermalElongation := -1.8e-4 + 9e-6 * (s.Temp + 20) + 2.3e-11 * (s.Temp + 20) * (s.Temp + 20) * (s.Temp + 20) }
  else if s.Temp ≤ 1180 then
    { s with ThermalElongation := 14.009e-3 }
  else
    s

/-- Cooling, first step: `kappa`, `fcmax`, `fcumax` for the maximum temperature `Tempmax`; below 0 and above 1080 the code only writes a message and the locals keep their indeterminate values (lines 400-460 of `getElongTangent`). -/
def getElongTangent_L400_L460 (s : State) (c : Cooling) : Cooling :=
  if s.Tempmax < 0 then
    c
  else if s.Tempmax ≤ 80 then
    let c := { c with kappa := 1 }
    let c := { c with fcmax := s.fcT }
    { c with fcumax := s.fcuT }
  else if s.Tempmax ≤ 180 then
    let c := { c with kappa := 1 - (s.Tempmax - 80) * 0.05 / 100 }
    let c := { c with fcmax := s.fcT * (1 - (s.Tempmax - 80) * 0.05 / 100) }
    { c with fcumax := s.fcuT * (1 - (s.Tempmax - 80) * 0.05 / 100) }
  else if s.Tempmax ≤ 280 then
    let c := { c with kappa := 0.95 - (s.Tempmax - 180) * 0.1 / 100 }
    let c := { c with fcmax := s.fcT * (0.95 - (s.Tempmax - 180) * 0.1 / 100) }
    { c with fcumax := s.fcuT * (0.95 - (s.Tempmax - 180) * 0.1 / 100) }
  else if s.Tempmax ≤ 380 then
    let c := { c with kappa := 0.85 - (s.Tempmax - 280) * 0.1 / 100 }
    let c := { c with fcmax := s.fcT * (0.85 - (s.Tempmax - 280) * 0.1 / 100) }
    { c with fcumax := s.fcuT * (0.85 - (s.Tempmax - 280) * 0.1 / 100) }
  else if s.Tempmax ≤ 480 then
    let c := { c with kappa := 0.75 - (s.Tempmax - 380) * 0.15 / 100 }
    let c := { c with fcmax := s.fcT * (0.75 - (s.Tempmax - 380) * 0.15 / 100) }
    { c with fcumax := s.fcuT * (0.75 - (s.Tempmax - 380) * 0.15 / 100) }
  else if s.Tempmax ≤ 580 then
    let c := { c with kappa := 0.60 - (s.Tempmax - 480) * 0.15 / 100 }
    let c := { c with fcmax := s.fcT * (0.60 - (s.Tempmax - 480) * 0.15 / 100) }
    { c with fcumax := s.fcuT * (0.60 - (s.Tempmax - 480) * 0.15 / 100) }
  else if s.Tempmax ≤ 680 then
    let c := { c with kappa := 0.45 - (s.Tempmax - 580) * 0.15 / 100 }
    let c := { c with fcmax := s.fcT * (0.45 - (s.Tempmax - 580) * 0.15 / 100) }
    { c with fcumax := s.fcuT * (0.45 - (s.Tempmax - 580) * 0.15 / 100) }
  else if s.Tempmax ≤ 780 then
    let c := { c with kappa := 0.30 - (s.Tempmax - 680) * 0.15 / 100 }
    let c := { c with fcmax := s.fcT * (0.30 - (s.Tempmax - 680) * 0.15 / 100) }
    { c with fcumax := s.fcuT * (0.30 - (s.Tempmax - 680) * 0.15 / 100) }
  else if s.Tempmax ≤ 880 then
    let c := { c with kappa := 0.15 - (s.Tempmax - 780) * 0.07 / 100 }
    let c := { c with fcmax := s.fcT * (0.15 - (s.Tempmax - 780) * 0.07 / 100) }
    { c with fcumax := s.fcuT * (0.15 - (s.Tempmax - 780) * 0.07 / 100) }
  else if s.Tempmax ≤ 980 then
    let c := { c with kappa := 0.08 - (s.Tempmax - 880) * 0.04 / 100 }
    let c := { c with fcmax := s.fcT * (0.08 - (s.Tempmax - 880) * 0.04 / 100) }
    { c with fcumax := s.fcuT * (0.08 - (s.Tempmax - 880) * 0.04 / 100) }
  else if s.Tempmax ≤ 1080 then
    let c := { c with kappa := 0.04 - (s.Tempmax - 980) * 0.03 / 100 }
    let c := { c with fcmax := s.fcT * (0.04 - (s.Tempmax - 980) * 0.03 / 100) }
    { c with fcumax := s.fcuT * (0.04 - (s.Tempmax - 980) * 0.03 / 100) }
  else
    c

/-- Cooling, second step: the strengths `fcamb`, `fcuamb` at ambient temperature after cooling (lines 462-479 of `getElongTangent`). -/
def getElongTangent_L462_L479 (s : State) (c : Cooling) : Cooling :=
  if s.Tempmax < 0 then
    c
  else if s.Tempmax ≤ 80 then
    let c := { c with fcamb := c.kappa * s.fcT }
    { c with fcuamb := c.kappa * s.fcuT }
  else if s.Tempmax ≤ 280 then
    let c := { c with fcamb := (1 - (0.235 * (s.Tempmax - 80) / 200)) * s.fcT }
    { c with fcuamb := (1 - (0.235 * (s.Tempmax - 80) / 200)) * s.fcuT }
  else if s.Tempmax ≤ 1080 then
    let c := { c with fcamb := 0.9 * c.kappa * s.fcT }
    { c with fcuamb := 0.9 * c.kappa * s.fcuT }
  else
    c

/-- Cooling: the strains `epsc0max`, `epscumax` for the maximum temperature (lines 488-537 of `getElongTangent`). -/
def getElongTangent_L488_L537 (s : State) (c : Cooling) : Cooling :=
  if s.Tempmax < 0 then
    c
  else if s.Tempmax ≤ 80 then
    let c := { c with epsc0max := -(0.0025 + (0.004 - 0.0025) * (s.Tempmax - 0) / (80 - 0)) }
    { c with epscumax := -(0.0200 + (0.0225 - 0.0200) * (s.Tempmax - 0) / (80 - 0)) }
  else if s.Tempmax ≤ 180 then
    let c := { c with epsc0max := -(0.0040 + (0.0055 - 0.0040) * (s.Tempmax - 80) / 100) }
    { c with epscumax := -(0.0225 + (0.0225 - 0.0200) * (s.Tempmax - 80) / 100) }
  else if s.Tempmax ≤ 280 then
    let c := { c with epsc0max := -(0.0055 + (0.0070 - 0.0055) * (s.Tempmax - 180) / 100) }
    { c with epscumax := -(0.0250 + 0.0025 * (s.Tempmax - 180) / 100) }
  else if s.Tempmax ≤ 380 then
    let c := { c with epsc0max := -(0.0070 + (0.0100 - 0.0070) * (s.Tempmax - 280) / 100) }
    { c with epscumax := -(0.0275 + 0.0025 * (s.Tempmax - 280) / 100) }
  else if s.Tempmax ≤ 480 then
    let c := { c with epsc0max := -(0.0100 + (0.0150 - 0.0100) * (s.Tempmax - 380) / 100) }
    { c with epscumax := -(0.03 + 0.0025 * (s.Tempmax - 380) / 100) }
  else if s.Tempmax ≤ 580 then
    let c := { c with epsc0max := -(0.0150 + (0.0250 - 0.0150) * (s.Tempmax - 480) / 100) }
    { c with epscumax := -(0.0325 + 0.0025 * (s.Tempmax - 480) / 100) }
  else if s.Tempmax ≤ 680 then
    let c := { c with epsc0max := -0.0250 }
    { c with epscumax := -(0.035 + 0.0025 * (s.Tempmax - 580) / 100) }
  else if s.Tempmax ≤ 780 then
    let c := { c with epsc0max := -0.0250 }
    { c with epscumax := -(0.0375 + 0.0025 * (s.Tempmax - 680) / 100) }
  else if s.Tempmax ≤ 880 then
    let c := { c with epsc0max := -0.0250 }
    { c with epscumax := -(0.04 + 0.0025 * (s.Tempmax - 780) / 100) }
  else if s.Tempmax ≤ 980 then
    let c := { c with epsc0max := -0.0250 }
    { c with epscumax := -(0.0425 + 0.0025 * (s.Tempmax - 880) / 100) }
  else if s.Tempmax ≤ 1080 then
    let c := { c with epsc0max := -0.0250 }
    { c with epscumax := -(0.045 + 0.0025 * (s.Tempmax - 980) / 100) }
  else
    c
/-- Results of `getElongTangent`: the object after the call, the reference arguments
`ET` and `Elong`, and the returned status. -/
structure ElongTangent where
  obj : State
  ET : ℚ
  Elong : ℚ
  ret : Int
  deriving DecidableEq

/-- The cooling part of `getElongTangent` (lines 383-550), the body of
`if (Temp < TempP)`.  `u` holds the indeterminate initial values of its local
variables. -/
def getElongTangent_L383_L550 (s : State) (u : Cooling) : State :=
  let c := u
  let c := getElongTangent_L400_L460 s c
  let c := getElongTangent_L462_L479 s c
  let s := { s with fc := c.fcmax - ((c.fcmax - c.fcamb) * (s.Tempmax - s.Temp) / s.Tempmax) }
  let s := { s with fcu := c.fcumax - ((c.fcumax - c.fcuamb) * (s.Tempmax - s.Temp) / s.Tempmax) }
  let c := getElongTangent_L488_L537 s c
  let s := { s with epsc0 := c.epsc0max }
  let s := { s with epscu := s.epsc0 + ((c.epscumax - c.epsc0max) * s.fc / c.fcmax) }
  { s with ft := 0 }

/-- Method `getElongTangent(TempT, ET, Elong, TempTmax)` (lines 246-558).  The if-chains
over the temperature are the definitions `getElongTangent_L..._L...` above. -/
def getElongTangent (s : State) (TempT TempTmax : ℚ) (u : Cooling) : ElongTangent :=
  let s := { s with Temp := TempT }
  let s := { s with Tempmax := TempTmax }
  let s := getElongTangent_L258_L271 s
  let s := getElongTangent_L276_L351 s
  let s := getElongTangent_L358_L369 s
  let ET := 1.5 * s.fc / s.epsc0
  let Elong := s.ThermalElongation
  let s := if s.Temp < s.TempP then getElongTangent_L383_L550 s u else s
  { obj := s, ET := ET, Elong := Elong, ret := 0 }

/-- Default constructor `Concrete02Thermal(void)` (lines 92-96): the base class gets the
tag `0`, and no data member is initialised, so each keeps the value it has in `u`. -/
def newDefault (u : State) : State := { u with tag := 0 }

/-- Method `sendSelf` (lines 613-635): the vector `data` handed to
`theChannel.sendVector`.  The method returns `-1` when the channel reports a negative
status and `0` otherwise. -/
def sendSelf (s : State) : List ℚ :=
  [s.fc, s.epsc0, s.fcu, s.epscu, s.rat, s.ft, s.Ets, s.ecminP, s.deptP, s.epsP, s.sigP,
   s.eP, (s.tag : ℚ)]

/-- Method `recvSelf` (lines 637-669).  `res` is the status returned by
`theChannel.recvVector` and `data` the vector it has filled; the result is the object
after the call and the returned status. -/
def recvSelf (s : State) (res : Int) (data : List ℚ) : State × Int :=
  if res < 0 then
    (s, -1)
  else
    let s := { s with fc := data.getD 0 0 }
    let s := { s with epsc0 := data.getD 1 0 }
    let s := { s with fcu := data.getD 2 0 }
    let s := { s with epscu := data.getD 3 0 }
    let s := { s with rat := data.getD 4 0 }
    let s := { s with ft := data.getD 5 0 }
    let s := { s with Ets := data.getD 6 0 }
    let s := { s with ecminP := data.getD 7 0 }
    let s := { s with deptP := data.getD 8 0 }
    let s := { s with epsP := data.getD 9 0 }
    let s := { s with sigP := data.getD 10 0 }
    let s := { s with eP := data.getD 11 0 }
    let s := { s with tag := toInt (data.getD 12 0) }
    let s := { s with e := s.eP }
    let s := { s with sig := s.sigP }
    let s := { s with eps := s.epsP }
    (s, 0)

/-- A concrete with strength 30 at the strain 0.002, crushing strength 6 at the strain
0.01, tensile strength 3 and tension softening stiffness 1500. -/
def specimen : State := new 1 (-30) (-0.002) (-6) (-0.01) 0.1 3 1500 State.zero

/-- Zero initial values for the local variables of the cooling part. -/
def Cooling.zero : Cooling :=
  { kappa := 0, fcmax := 0, fcumax := 0, fcamb := 0, fcuamb := 0, epsc0max := 0, epscumax := 0 }

/-- The specimen heated to 500 degrees and committed there. -/
def heatedSpecimen : State := commitState (getElongTangent specimen 500 500 Cooling.zero).obj

/-- The local variables `kappa`, `fcmax`, `fcumax`, `fcamb`, `fcuamb` of the cooling part
after lines 400-479, for the maximum temperature `TempTmax`. -/
def coolingStrengths (s : State) (TempTmax : ℚ) (u : Cooling) : Cooling :=
  getElongTangent_L462_L479 { s with Tempmax := TempTmax }
    (getElongTangent_L400_L460 { s with Tempmax := TempTmax } u)

/-- `KeepsCompr s t`: the object `t` has the compression parameters, the temperatures, the
construction-time strengths and the thermal elongation of `s`. -/
def KeepsCompr (s t : State) : Prop :=
  t.fc = s.fc ∧ t.epsc0 = s.epsc0 ∧ t.fcu = s.fcu ∧ t.epscu = s.epscu ∧
  t.Temp = s.Temp ∧ t.TempP = s.TempP ∧ t.fcT = s.fcT ∧ t.fcuT = s.fcuT ∧
  t.Tempmax = s.Tempmax ∧ t.ThermalElongation = s.ThermalElongation

/-- `KeepsTens s t`: the object `t` has the tension parameters, the temperatures, the
construction-time strengths and the thermal elongation of `s`. -/
def KeepsTens (s t : State) : Prop :=
  t.ft = s.ft ∧ t.Ets = s.Ets ∧
  t.Temp = s.Temp ∧ t.TempP = s.TempP ∧ t.fcT = s.fcT ∧ t.fcuT = s.fcuT ∧
  t.Tempmax = s.Tempmax ∧ t.ThermalElongation = s.ThermalElongation

/-- `KeepsParams s t`: the object `t` has the active parameters, the temperatures and the
construction-time strengths of `s`. -/
def KeepsParams (s t : State) : Prop :=
  t.fc = s.fc ∧ t.epsc0 = s.epsc0 ∧ t.fcu = s.fcu ∧ t.epscu = s.epscu ∧
  t.ft = s.ft ∧ t.Ets = s.Ets ∧
  t.Temp = s.Temp ∧ t.TempP = s.TempP ∧ t.fcT = s.fcT ∧ t.fcuT = s.fcuT ∧
  t.Tempmax = s.Tempmax

/-- `LowTable s t`: the compression parameters of `t` are those of the table up to 80
degrees for the object `s`. -/
def LowTable (s t : State) : Prop :=
  t.fc = s.fcT ∧ t.fcu = s.fcuT ∧
  t.epsc0 = (if s.Temp ≤ 0 then -0.0025 else -(0.0025 + 0.0015 * s.Temp / 80)) ∧
  t.epscu = (if s.Temp ≤ 0 then -0.02 else -(0.02 + 0.0025 * s.Temp / 80))

/-- The object before the cooling part: the three tables applied in turn to the object
with the new `Temp` and `Tempmax`. -/
def heated (s : State) (TempT TempTmax : ℚ) : State :=
  getElongTangent_L358_L369 (getElongTangent_L276_L351 (getElongTangent_L258_L271
    { s with Temp := TempT, Tempmax := TempTmax }))

/-- `KappaOK s c`: the reduction factor `kappa` of `c` lies in `(0, 1]`, `fcmax` is `fcT`
reduced by it, and up to 280 degrees it is not below the factor of the cooled concrete. -/
def KappaOK (s : State) (c : Cooling) : Prop :=
  0 < c.kappa ∧ c.kappa ≤ 1 ∧ c.fcmax = s.fcT * c.kappa ∧
  (80 < s.Tempmax → s.Tempmax ≤ 280 → 1 - (0.235 * (s.Tempmax - 80) / 200) ≤ c.kappa)

/-- `AmbOK c d`: the second cooling step has left `fcmax` of `c` in `d`, and the strength
`fcamb` of the cooled concrete is not below it. -/
def AmbOK (c d : Cooling) : Prop := d.fcmax = c.fcmax ∧ c.fcmax ≤ d.fcamb

/-- Method `revertToStart` (lines 597-611). -/
def revertToStart (s : State) : State :=
  let s := { s with ecminP := 0 }
  let s := { s with deptP := 0 }
  let s := { s with eP := 2 * s.fc / s.epsc0 }
  let s := { s with epsP := 0 }
  let s := { s with sigP := 0 }
  let s := { s with eps := 0 }
  let s := { s with sig := 0 }
  let s := { s with e := 2 * s.fc / s.epsc0 }
  s

/-- Method `getCopy` (lines 107-113): the object that the constructor builds from the tag
and the active parameters of `s`, in the storage `u`. -/
def getCopy (s : State) (u : State) : State :=
  new s.tag s.fc s.epsc0 s.fcu s.epscu s.rat s.ft s.Ets u

/-- The local variable `epsr` of `setTrialStrain` (line 154). -/
def epsr (s : State) : ℚ :=
  (s.fcu - s.rat * (s.fc * 2 / s.epsc0) * s.epscu) / ((s.fc * 2 / s.epsc0) * (1 - s.rat))

/-- The local variable `sigmm` of `setTrialStrain` (lines 160-162): the envelope stress at
the minimum strain. -/
def sigmm (s : State) : ℚ := (Compr_Envlp s s.ecminP).1

/-- The local variable `er` of `setTrialStrain` (line 168): the unloading and reloading
slope. -/
def er (s : State) : ℚ :=
  (sigmm s - (s.fc * 2 / s.epsc0) * epsr s) / (s.ecminP - epsr s)

/-- The local variable `ept` of `setTrialStrain` (line 169): the strain at which the
unloading line reaches zero stress. -/
def ept (s : State) : ℚ := s.ecminP - sigmm s / er s

/-- The object `specimen` loaded to the strain `-0.003` and committed there. -/
def crushedSpecimen : State := commitState (setTrialStrain specimen (-0.003))

/-- The factor that the table of lines 276-351 applies to a strength at the temperature
`T`: the strength it stores for the construction-time strength 1. -/
def strengthFactor (T : ℚ) : ℚ :=
  (getElongTangent_L276_L351 { State.zero with Temp := T, fcT := 1, fcuT := 1 }).fc

/-- The strains `epsc0` and `epscu` that the table of lines 276-351 stores at the
temperature `T`. -/
def strainTable (T : ℚ) : ℚ × ℚ :=
  ((getElongTangent_L276_L351 { State.zero with Temp := T }).epsc0,
   (getElongTangent_L276_L351 { State.zero with Temp := T }).epscu)

/-- `FallsBy L d x y`: `y` is not above `x` and is below it by at most `L * d`. -/
def FallsBy (L d x y : ℚ) : Prop := 0 ≤ x - y ∧ x - y ≤ L * d

/-- The value at `T` of the table `rows`: the first row whose bound is not below `T`
gives the value, and `d` is the value above the last bound. -/
def chainEval (rows : List (ℚ × (ℚ → ℚ))) (d T : ℚ) : ℚ :=
  match rows with
  | [] => d
  | r :: rs => if T ≤ r.1 then r.2 T else chainEval rs d T

/-- `ChainOK L lo rows`: the bounds of `rows` do not decrease from `lo` on, each row falls
by at most `L` per unit between the bound before it and its own bound, and each row ends
where the next one starts. -/
def ChainOK (L : ℚ) : ℚ → List (ℚ × (ℚ → ℚ)) → Prop
  | _, [] => True
  | lo, r :: rs =>
    lo ≤ r.1 ∧ (∀ a b, lo ≤ a → a ≤ b → b ≤ r.1 → FallsBy L (b - a) (r.2 a) (r.2 b)) ∧
    (∀ p ∈ rs.head?, r.2 r.1 = p.2 r.1) ∧ ChainOK L r.1 rs

/-- The rows of the table of lines 276-351 for the factor of the strengths: the bound of each
row and the value it stores as a function of the temperature. -/
def strengthRows : List (ℚ × (ℚ → ℚ)) :=
  [(0, fun _ => 1),
   (80, fun _ => 1),
   (180, fun T => 1 - (T - 80) * 0.05 / 100),
   (280, fun T => 0.95 - (T - 180) * 0.1 / 100),
   (380, fun T => 0.85 - (T - 280) * 0.1 / 100),
   (480, fun T => 0.75 - (T - 380) * 0.15 / 100),
   (580, fun T => 0.60 - (T - 480) * 0.15 / 100),
   (680, fun T => 0.45 - (T - 580) * 0.15 / 100),
   (780, fun T => 0.30 - (T - 680) * 0.15 / 100),
   (880, fun T => 0.15 - (T - 780) * 0.07 / 100),
   (980, fun T => 0.08 - (T - 880) * 0.04 / 100),
   (1080, fun T => 0.04 - (T - 980) * 0.03 / 100)]

/-- The rows of the table of lines 276-351 for the strain `epsc0`: the bound of each
row and the value it stores as a function of the temperature. -/
def epsc0Rows : List (ℚ × (ℚ → ℚ)) :=
  [(0, fun _ => -0.0025),
   (80, fun T => -(0.0025 + (0.004 - 0.0025) * (T - 0) / (80 - 0))),
   (180, fun T => -(0.0040 + (0.0055 - 0.0040) * (T - 80) / 100)),
   (280, fun T => -(0.0055 + (0.0070 - 0.0055) * (T - 180) / 100)),
   (380, fun T => -(0.0070 + (0.0100 - 0.0070) * (T - 280) / 100)),
   (480, fun T => -(0.0100 + (0.0150 - 0.0100) * (T - 380) / 100)),
   (580, fun T => -(0.0150 + (0.0250 - 0.0150) * (T - 480) / 100)),
   (680, fun _ => -0.0250),
   (780, fun _ => -0.0250),
   (880, fun _ => -0.0250),
   (980, fun _ => -0.0250),
   (1080, fun _ => -0.0250)]

/-- The rows of the table of lines 276-351 for the strain `epscu`: the bound of each
row and the value it stores as a function of the temperature. -/
def epscuRows : List (ℚ × (ℚ → ℚ)) :=
  [(0, fun _ => -0.02),
   (80, fun T => -(0.0200 + (0.0225 - 0.0200) * (T - 0) / (80 - 0))),
   (180, fun T => -(0.0225 + (0.0225 - 0.0200) * (T - 80) / 100)),
   (280, fun T => -(0.0250 + 0.0025 * (T - 180) / 100)),
   (380, fun T => -(0.0275 + 0.0025 * (T - 280) / 100)),
   (480, fun T => -(0.03 + 0.0025 * (T - 380) / 100)),
   (580, fun T => -(0.0325 + 0.0025 * (T - 480) / 100)),
   (680, fun T => -(0.035 + 0.0025 * (T - 580) / 100)),
   (780, fun T => -(0.0375 + 0.0025 * (T - 680) / 100)),
   (880, fun T => -(0.04 + 0.0025 * (T - 780) / 100)),
   (980, fun T => -(0.0425 + 0.0025 * (T - 880) / 100)),
   (1080, fun T => -(0.045 + 0.0025 * (T - 980) / 100))]

/-- The local variable `eps0` of `Tens_Envlp` (line 696): the strain at the tensile
strength. -/
def Tens_Envlp_eps0 (s : State) : ℚ := s.ft / (2 * s.fc / s.epsc0)

/-- The local variable `epsu` of `Tens_Envlp` (line 697): the strain at the end of the
tension softening. -/
def Tens_Envlp_epsu (s : State) : ℚ := s.ft * (1 / s.Ets + 1 / (2 * s.fc / s.epsc0))

/-- `HistoryOK s`: the committed minimum strain is not positive and not above the committed
strain, and the committed tension depth is not negative. -/
def HistoryOK (s : State) : Prop := s.ecminP ≤ 0 ∧ s.ecminP ≤ s.epsP ∧ 0 ≤ s.deptP

/-- `TrialHistoryOK s`: the trial minimum strain is not positive and not above the trial
strain, and the trial tension depth is not negative. -/
def TrialHistoryOK (s : State) : Prop := s.ecmin ≤ 0 ∧ s.ecmin ≤ s.eps ∧ 0 ≤ s.dept

/-- `Reached U s`: the object `s` is produced by the constructor, from storage `u` that
satisfies `U`, followed by calls of `setTrialStrain`, `commitState` and
`revertToLastCommit`. -/
inductive Reached (U : State → Prop) : State → Prop where
  | new (tag : Int) (fc epsc0 fcu epscu rat ft Ets : ℚ) (u : State) :
      U u → Reached U (new tag fc epsc0 fcu epscu rat ft Ets u)
  | setTrialStrain (s : State) (x : ℚ) : Reached U s → Reached U (setTrialStrain s x)
  | commitState (s : State) : Reached U s → Reached U (commitState s)
  | revertToLastCommit (s : State) : Reached U s → Reached U (revertToLastCommit s)

/-- Storage in which the members `ecmin` and `dept`, which the constructor does not
initialise, hold 1 and -1. -/
def dirtyStorage : State := { State.zero with ecmin := 1, dept := -1 }

/-- The local variables of the cooling part of `getElongTangent` after the three tables of
lines 400-460, 462-479 and 488-537, for the maximum temperature `TempTmax`. -/
def coolingLocals (s : State) (TempTmax : ℚ) (u : Cooling) : Cooling :=
  getElongTangent_L488_L537 { s with Tempmax := TempTmax } (coolingStrengths s TempTmax u)

end Concrete02Thermal
namespace ConcreteCM

/-- Input parameters of a `ConcreteCM` object, and its tag. -/
structure Params where
  tag : Int
  fpcc : ℚ
  epcc : ℚ
  Ec : ℚ
  rc : ℚ
  xcrn : ℚ
  ft : ℚ
  et : ℚ
  rt : ℚ
  xcrp : ℚ
  mon : Int
  Gap : Int
  deriving DecidableEq

/-- Committed history variables and state variables. -/
structure Committed where
  Ceunn : ℚ
  Cfunn : ℚ
  Ceunp : ℚ
  Cfunp : ℚ
  Cer : ℚ
  Cfr : ℚ
  Cer0n : ℚ
  Cfr0n : ℚ
  Cer0p : ℚ
  Cfr0p : ℚ
  Ce0 : ℚ
  Cea : ℚ
  Ceb : ℚ
  Ced : ℚ
  Cinc : ℚ
  Crule : ℚ
  Cstrain : ℚ
  Cstress : ℚ
  Ctangent : ℚ
  deriving DecidableEq

/-- Trial history variables and state variables. -/
structure Trial where
  Teunn : ℚ
  Tfunn : ℚ
  Teunp : ℚ
  Tfunp : ℚ
  Ter : ℚ
  Tfr : ℚ
  Ter0n : ℚ
  Tfr0n : ℚ
  Ter0p : ℚ
  Tfr0p : ℚ
  Te0 : ℚ
  Tea : ℚ
  Teb : ℚ
  Ted : ℚ
  Tinc : ℚ
  Trule : ℚ
  Tstrain : ℚ
  Tstress : ℚ
  Ttangent : ℚ
  deriving DecidableEq

/-- The remaining data members: working storage of the methods, which keeps its values
from one call to the next. -/
structure Scratch where
  delfn : ℚ
  espln : ℚ
  fnewstn : ℚ
  delen : ℚ
  delfp : ℚ
  esplp : ℚ
  fnewstp : ℚ
  delep : ℚ
  Epln : ℚ
  esi : ℚ
  fi : ℚ
  Ei : ℚ
  esf : ℚ
  ff : ℚ
  Ef : ℚ
  A : ℚ
  R : ℚ
  fc : ℚ
  Et : ℚ
  fnewp : ℚ
  Enewp : ℚ
  esrep : ℚ
  frep : ℚ
  Erep : ℚ
  fb : ℚ
  fca : ℚ
  Eta : ℚ
  esrestp : ℚ
  Enewstp : ℚ
  frestp : ℚ
  Erestp : ℚ
  fa : ℚ
  Esecn : ℚ
  Eplp : ℚ
  fnewn : ℚ
  Enewn : ℚ
  Esectest : ℚ
  esren : ℚ
  fren : ℚ
  Eren : ℚ
  esrestn : ℚ
  Enewstn : ℚ
  frestn : ℚ
  Erestn : ℚ
  fcb : ℚ
  Etb : ℚ
  esi10 : ℚ
  fi10 : ℚ
  Ei10 : ℚ
  esf10 : ℚ
  ff10 : ℚ
  Ef10 : ℚ
  R10 : ℚ
  A10 : ℚ
  Esectest10 : ℚ
  esi13 : ℚ
  fi13 : ℚ
  Ei13 : ℚ
  esf13 : ℚ
  ff13 : ℚ
  Ef13 : ℚ
  R13 : ℚ
  A13 : ℚ
  Esectest13 : ℚ
  xn : ℚ
  nn : ℚ
  xsp : ℚ
  y : ℚ
  z : ℚ
  xp : ℚ
  np : ℚ
  xcrk : ℚ
  Esecp : ℚ
  deriving DecidableEq

/-- Data members of a `ConcreteCM` object, grouped by role. -/
structure State where
  par : Params
  C : Committed
  T : Trial
  w : Scratch
  deriving DecidableEq

/-- Sequencing of statements: `andThen t k` continues with `k` from the object `t` that the
statement before has left. -/
def andThen (t : State) (k : State → State) : State := k t

/-- Assignment to the member `Ceunn`. -/
def State.set_Ceunn (s : State) (v : ℚ) : State :=
  { s with C := { s.C with Ceunn := v } }

/-- Assignment to the member `Cfunn`. -/
def State.set_Cfunn (s : State) (v : ℚ) : State :=
  { s with C := { s.C with Cfunn := v } }

/-- Assignment to the member `Ceunp`. -/
def State.set_Ceunp (s : State) (v : ℚ) : State :=
  { s with C := { s.C with Ceunp := v } }

/-- Assignment to the member `Cfunp`. -/
def State.set_Cfunp (s : State) (v : ℚ) : State :=
  { s with C := { s.C with Cfunp := v } }

/-- Assignment to the member `Cer`. -/
def State.set_Cer (s : State) (v : ℚ) : State :=
  { s with C := { s.C with Cer := v } }

/-- Assignment to the member `Cfr`. -/
def State.set_Cfr (s : State) (v : ℚ) : State :=
  { s with C := { s.C with Cfr := v } }

/-- Assignment to the member `Cer0n`. -/
def State.set_Cer0n (s : State) (v : ℚ) : State :=
  { s with C := { s.C with Cer0n := v } }

/-- Assignment to the member `Cfr0n`. -/
def State.set_Cfr0n (s : State) (v : ℚ) : State :=
  { s with C := { s.C with Cfr0n := v } }

/-- Assignment to the member `Cer0p`. -/
def State.set_Cer0p (s : State) (v : ℚ) : State :=
  { s with C := { s.C with Cer0p := v } }

/-- Assignment to the member `Cfr0p`. -/
def State.set_Cfr0p (s : State) (v : ℚ) : State :=
  { s with C := { s.C with Cfr0p := v } }

/-- Assignment to the member `Ce0`. -/
def State.set_Ce0 (s : State) (v : ℚ) : State :=
  { s with C := { s.C with Ce0 := v } }

/-- Assignment to the member `Cea`. -/
def State.set_Cea (s : State) (v : ℚ) : State :=
  { s with C := { s.C with Cea := v } }

/-- Assignment to the member `Ceb`. -/
def State.set_Ceb (s : State) (v : ℚ) : State :=
  { s with C := { s.C with Ceb := v } }

/-- Assignment to the member `Ced`. -/
def State.set_Ced (s : State) (v : ℚ) : State :=
  { s with C := { s.C with Ced := v } }

/-- Assignment to the member `Cinc`. -/
def State.set_Cinc (s : State) (v : ℚ) : State :=
  { s with C := { s.C with Cinc := v } }

/-- Assignment to the member `Crule`. -/
def State.set_Crule (s : State) (v : ℚ) : State :=
  { s with C := { s.C with Crule := v } }

/-- Assignment to the member `Cstrain`. -/
def State.set_Cstrain (s : State) (v : ℚ) : State :=
  { s with C := { s.C with Cstrain := v } }

/-- Assignment to the member `Cstress`. -/
def State.set_Cstress (s : State) (v : ℚ) : State :=
  { s with C := { s.C with Cstress := v } }

/-- Assignment to the member `Ctangent`. -/
def State.set_Ctangent (s : State) (v : ℚ) : State :=
  { s with C := { s.C with Ctangent := v } }

/-- Assignment to the member `Teunn`. -/
def State.set_Teunn (s : State) (v : ℚ) : State :=
  { s with T := { s.T with Teunn := v } }

/-- Assignment to the member `Tfunn`. -/
def State.set_Tfunn (s : State) (v : ℚ) : State :=
  { s with T := { s.T with Tfunn := v } }

/-- Assignment to the member `Teunp`. -/
def State.set_Teunp (s : State) (v : ℚ) : State :=
  { s with T := { s.T with Teunp := v } }

/-- Assignment to the member `Tfunp`. -/
def State.set_Tfunp (s : State) (v : ℚ) : State :=
  { s with T := { s.T with Tfunp := v } }

/-- Assignment to the member `Ter`. -/
def State.set_Ter (s : State) (v : ℚ) : State :=
  { s with T := { s.T with Ter := v } }

/-- Assignment to the member `Tfr`. -/
def State.set_Tfr (s : State) (v : ℚ) : State :=
  { s with T := { s.T with Tfr := v } }

/-- Assignment to the member `Ter0n`. -/
def State.set_Ter0n (s : State) (v : ℚ) : State :=
  { s with T := { s.T with Ter0n := v } }

/-- Assignment to the member `Tfr0n`. -/
def State.set_Tfr0n (s : State) (v : ℚ) : State :=
  { s with T := { s.T with Tfr0n := v } }

/-- Assignment to the member `Ter0p`. -/
def State.set_Ter0p (s : State) (v : ℚ) : State :=
  { s with T := { s.T with Ter0p := v } }

/-- Assignment to the member `Tfr0p`. -/
def State.set_Tfr0p (s : State) (v : ℚ) : State :=
  { s with T := { s.T with Tfr0p := v } }

/-- Assignment to the member `Te0`. -/
def State.set_Te0 (s : State) (v : ℚ) : State :=
  { s with T := { s.T with Te0 := v } }

/-- Assignment to the member `Tea`. -/
def State.set_Tea (s : State) (v : ℚ) : State :=
  { s with T := { s.T with Tea := v } }

/-- Assignment to the member `Teb`. -/
def State.set_Teb (s : State) (v : ℚ) : State :=
  { s with T := { s.T with Teb := v } }

/-- Assignment to the member `Ted`. -/
def State.set_Ted (s : State) (v : ℚ) : State :=
  { s with T := { s.T with Ted := v } }

/-- Assignment to the member `Tinc`. -/
def State.set_Tinc (s : State) (v : ℚ) : State :=
  { s with T := { s.T with Tinc := v } }

/-- Assignment to the member `Trule`. -/
def State.set_Trule (s : State) (v : ℚ) : State :=
  { s with T := { s.T with Trule := v } }

/-- Assignment to the member `Tstrain`. -/
def State.set_Tstrain (s : State) (v : ℚ) : State :=
  { s with T := { s.T with Tstrain := v } }

/-- Assignment to the member `Tstress`. -/
def State.set_Tstress (s : State) (v : ℚ) : State :=
  { s with T := { s.T with Tstress := v } }

/-- Assignment to the member `Ttangent`. -/
def State.set_Ttangent (s : State) (v : ℚ) : State :=
  { s with T := { s.T with Ttangent := v } }

/-- Assignment to the member `delfn`. -/
def State.set_delfn (s : State) (v : ℚ) : State :=
  { s with w := { s.w with delfn := v } }

/-- Assignment to the member `espln`. -/
def State.set_espln (s : State) (v : ℚ) : State :=
  { s with w := { s.w with espln := v } }

/-- Assignment to the member `fnewstn`. -/
def State.set_fnewstn (s : State) (v : ℚ) : State :=
  { s with w := { s.w with fnewstn := v } }

/-- Assignment to the member `delen`. -/
def State.set_delen (s : State) (v : ℚ) : State :=
  { s with w := { s.w with delen := v } }

/-- Assignment to the member `delfp`. -/
def State.set_delfp (s : State) (v : ℚ) : State :=
  { s with w := { s.w with delfp := v } }

/-- Assignment to the member `esplp`. -/
def State.set_esplp (s : State) (v : ℚ) : State :=
  { s with w := { s.w with esplp := v } }

/-- Assignment to the member `fnewstp`. -/
def State.set_fnewstp (s : State) (v : ℚ) : State :=
  { s with w := { s.w with fnewstp := v } }

/-- Assignment to the member `delep`. -/
def State.set_delep (s : State) (v : ℚ) : State :=
  { s with w := { s.w with delep := v } }

/-- Assignment to the member `Epln`. -/
def State.set_Epln (s : State) (v : ℚ) : State :=
  { s with w := { s.w with Epln := v } }

/-- Assignment to the member `esi`. -/
def State.set_esi (s : State) (v : ℚ) : State :=
  { s with w := { s.w with esi := v } }

/-- Assignment to the member `fi`. -/
def State.set_fi (s : State) (v : ℚ) : State :=
  { s with w := { s.w with fi := v } }

/-- Assignment to the member `Ei`. -/
def State.set_Ei (s : State) (v : ℚ) : State :=
  { s with w := { s.w with Ei := v } }

/-- Assignment to the member `esf`. -/
def State.set_esf (s : State) (v : ℚ) : State :=
  { s with w := { s.w with esf := v } }

/-- Assignment to the member `ff`. -/
def State.set_ff (s : State) (v : ℚ) : State :=
  { s with w := { s.w with ff := v } }

/-- Assignment to the member `Ef`. -/
def State.set_Ef (s : State) (v : ℚ) : State :=
  { s with w := { s.w with Ef := v } }

/-- Assignment to the member `A`. -/
def State.set_A (s : State) (v : ℚ) : State :=
  { s with w := { s.w with A := v } }

/-- Assignment to the member `R`. -/
def State.set_R (s : State) (v : ℚ) : State :=
  { s with w := { s.w with R := v } }

/-- Assignment to the member `fc`. -/
def State.set_fc (s : State) (v : ℚ) : State :=
  { s with w := { s.w with fc := v } }

/-- Assignment to the member `Et`. -/
def State.set_Et (s : State) (v : ℚ) : State :=
  { s with w := { s.w with Et := v } }

/-- Assignment to the member `fnewp`. -/
def State.set_fnewp (s : State) (v : ℚ) : State :=
  { s with w := { s.w with fnewp := v } }

/-- Assignment to the member `Enewp`. -/
def State.set_Enewp (s : State) (v : ℚ) : State :=
  { s with w := { s.w with Enewp := v } }

/-- Assignment to the member `esrep`. -/
def State.set_esrep (s : State) (v : ℚ) : State :=
  { s with w := { s.w with esrep := v } }

/-- Assignment to the member `frep`. -/
def State.set_frep (s : State) (v : ℚ) : State :=
  { s with w := { s.w with frep := v } }

/-- Assignment to the member `Erep`. -/
def State.set_Erep (s : State) (v : ℚ) : State :=
  { s with w := { s.w with Erep := v } }

/-- Assignment to the member `fb`. -/
def State.set_fb (s : State) (v : ℚ) : State :=
  { s with w := { s.w with fb := v } }

/-- Assignment to the member `fca`. -/
def State.set_fca (s : State) (v : ℚ) : State :=
  { s with w := { s.w with fca := v } }

/-- Assignment to the member `Eta`. -/
def State.set_Eta (s : State) (v : ℚ) : State :=
  { s with w := { s.w with Eta := v } }

/-- Assignment to the member `esrestp`. -/
def State.set_esrestp (s : State) (v : ℚ) : State :=
  { s with w := { s.w with esrestp := v } }

/-- Assignment to the member `Enewstp`. -/
def State.set_Enewstp (s : State) (v : ℚ) : State :=
  { s with w := { s.w with Enewstp := v } }

/-- Assignment to the member `frestp`. -/
def State.set_frestp (s : State) (v : ℚ) : State :=
  { s with w := { s.w with frestp := v } }

/-- Assignment to the member `Erestp`. -/
def State.set_Erestp (s : State) (v : ℚ) : State :=
  { s with w := { s.w with Erestp := v } }

/-- Assignment to the member `fa`. -/
def State.set_fa (s : State) (v : ℚ) : State :=
  { s with w := { s.w with fa := v } }

/-- Assignment to the member `Esecn`. -/
def State.set_Esecn (s : State) (v : ℚ) : State :=
  { s with w := { s.w with Esecn := v } }

/-- Assignment to the member `Eplp`. -/
def State.set_Eplp (s : State) (v : ℚ) : State :=
  { s with w := { s.w with Eplp := v } }

/-- Assignment to the member `fnewn`. -/
def State.set_fnewn (s : State) (v : ℚ) : State :=
  { s with w := { s.w with fnewn := v } }

/-- Assignment to the member `Enewn`. -/
def State.set_Enewn (s : State) (v : ℚ) : State :=
  { s with w := { s.w with Enewn := v } }

/-- Assignment to the member `Esectest`. -/
def State.set_Esectest (s : State) (v : ℚ) : State :=
  { s with w := { s.w with Esectest := v } }

/-- Assignment to the member `esren`. -/
def State.set_esren (s : State) (v : ℚ) : State :=
  { s with w := { s.w with esren := v } }

/-- Assignment to the member `fren`. -/
def State.set_fren (s : State) (v : ℚ) : State :=
  { s with w := { s.w with fren := v } }

/-- Assignment to the member `Eren`. -/
def State.set_Eren (s : State) (v : ℚ) : State :=
  { s with w := { s.w with Eren := v } }

/-- Assignment to the member `esrestn`. -/
def State.set_esrestn (s : State) (v : ℚ) : State :=
  { s with w := { s.w with esrestn := v } }

/-- Assignment to the member `Enewstn`. -/
def State.set_Enewstn (s : State) (v : ℚ) : State :=
  { s with w := { s.w with Enewstn := v } }

/-- Assignment to the member `frestn`. -/
def State.set_frestn (s : State) (v : ℚ) : State :=
  { s with w := { s.w with frestn := v } }

/-- Assignment to the member `Erestn`. -/
def State.set_Erestn (s : State) (v : ℚ) : State :=
  { s with w := { s.w with Erestn := v } }

/-- Assignment to the member `fcb`. -/
def State.set_fcb (s : State) (v : ℚ) : State :=
  { s with w := { s.w with fcb := v } }

/-- Assignment to the member `Etb`. -/
def State.set_Etb (s : State) (v : ℚ) : State :=
  { s with w := { s.w with Etb := v } }

/-- Assignment to the member `esi10`. -/
def State.set_esi10 (s : State) (v : ℚ) : State :=
  { s with w := { s.w with esi10 := v } }

/-- Assignment to the member `fi10`. -/
def State.set_fi10 (s : State) (v : ℚ) : State :=
  { s with w := { s.w with fi10 := v } }

/-- Assignment to the member `Ei10`. -/
def State.set_Ei10 (s : State) (v : ℚ) : State :=
  { s with w := { s.w with Ei10 := v } }

/-- Assignment to the member `esf10`. -/
def State.set_esf10 (s : State) (v : ℚ) : State :=
  { s with w := { s.w with esf10 := v } }

/-- Assignment to the member `ff10`. -/
def State.set_ff10 (s : State) (v : ℚ) : State :=
  { s with w := { s.w with ff10 := v } }

/-- Assignment to the member `Ef10`. -/
def State.set_Ef10 (s : State) (v : ℚ) : State :=
  { s with w := { s.w with Ef10 := v } }

/-- Assignment to the member `R10`. -/
def State.set_R10 (s : State) (v : ℚ) : State :=
  { s with w := { s.w with R10 := v } }

/-- Assignment to the member `A10`. -/
def State.set_A10 (s : State) (v : ℚ) : State :=
  { s with w := { s.w with A10 := v } }

/-- Assignment to the member `Esectest10`. -/
def State.set_Esectest10 (s : State) (v : ℚ) : State :=
  { s with w := { s.w with Esectest10 := v } }

/-- Assignment to the member `esi13`. -/
def State.set_esi13 (s : State) (v : ℚ) : State :=
  { s with w := { s.w with esi13 := v } }

/-- Assignment to the member `fi13`. -/
def State.set_fi13 (s : State) (v : ℚ) : State :=
  { s with w := { s.w with fi13 := v } }

/-- Assignment to the member `Ei13`. -/
def State.set_Ei13 (s : State) (v : ℚ) : State :=
  { s with w := { s.w with Ei13 := v } }

/-- Assignment to the member `esf13`. -/
def State.set_esf13 (s : State) (v : ℚ) : State :=
  { s with w := { s.w with esf13 := v } }

/-- Assignment to the member `ff13`. -/
def State.set_ff13 (s : State) (v : ℚ) : State :=
  { s with w := { s.w with ff13 := v } }

/-- Assignment to the member `Ef13`. -/
def State.set_Ef13 (s : State) (v : ℚ) : State :=
  { s with w := { s.w with Ef13 := v } }

/-- Assignment to the member `R13`. -/
def State.set_R13 (s : State) (v : ℚ) : State :=
  { s with w := { s.w with R13 := v } }

/-- Assignment to the member `A13`. -/
def State.set_A13 (s : State) (v : ℚ) : State :=
  { s with w := { s.w with A13 := v } }

/-- Assignment to the member `Esectest13`. -/
def State.set_Esectest13 (s : State) (v : ℚ) : State :=
  { s with w := { s.w with Esectest13 := v } }

/-- Assignment to the member `xn`. -/
def State.set_xn (s : State) (v : ℚ) : State :=
  { s with w := { s.w with xn := v } }

/-- Assignment to the member `nn`. -/
def State.set_nn (s : State) (v : ℚ) : State :=
  { s with w := { s.w with nn := v } }

/-- Assignment to the member `xsp`. -/
def State.set_xsp (s : State) (v : ℚ) : State :=
  { s with w := { s.w with xsp := v } }

/-- Assignment to the member `y`. -/
def State.set_y (s : State) (v : ℚ) : State :=
  { s with w := { s.w with y := v } }

/-- Assignment to the member `z`. -/
def State.set_z (s : State) (v : ℚ) : State :=
  { s with w := { s.w with z := v } }

/-- Assignment to the member `xp`. -/
def State.set_xp (s : State) (v : ℚ) : State :=
  { s with w := { s.w with xp := v } }

/-- Assignment to the member `np`. -/
def State.set_np (s : State) (v : ℚ) : State :=
  { s with w := { s.w with np := v } }

/-- Assignment to the member `xcrk`. -/
def State.set_xcrk (s : State) (v : ℚ) : State :=
  { s with w := { s.w with xcrk := v } }

/-- Assignment to the member `Esecp`. -/
def State.set_Esecp (s : State) (v : ℚ) : State :=
  { s with w := { s.w with Esecp := v } }

/-- Method `yf` (lines 3536-3548); `D` is a local variable. -/
def yf (m : Libm) (s : State) (x : ℚ) (n : ℚ) (r : ℚ) : State :=
  let D :=
    if r ≠ 1 then
      1 + (n - r / (r - 1)) * x + (m.pow x r) / (r - 1)
    else
      1 + (n - 1 + (m.log10 x)) * x
  s.set_y (n * x / D)

/-- Method `zf` (lines 3550-3561); `D` is a local variable. -/
def zf (m : Libm) (s : State) (x : ℚ) (n : ℚ) (r : ℚ) : State :=
  let D :=
    if r ≠ 1 then
      1 + (n - r / (r - 1)) * x + (m.pow x r) / (r - 1)
    else
      1 + (n - 1 + (m.log10 x)) * x
  s.set_z ((1 - (m.pow x r)) / (m.pow D 2))

/-- Method `r1f` (lines 3868-3882). -/
def r1f (m : Libm) (s : State) (x : ℚ) (n : ℚ) (r : ℚ) : State :=
  if x < s.par.xcrn then
    andThen (yf m s x n r) fun s =>
    andThen (zf m s x n r) fun s =>
    andThen (s.set_Tstress (s.par.fpcc * s.w.y)) fun s =>
    s.set_Ttangent (s.par.Ec * s.w.z)
  else
    andThen (yf m s s.par.xcrn n r) fun s =>
    andThen (zf m s s.par.xcrn n r) fun s =>
    andThen (s.set_Tstress (s.par.fpcc * (s.w.y + n * s.w.z * (x - s.par.xcrn)))) fun s =>
    s.set_Ttangent (s.par.Ec * s.w.z)

/-- Method `r5f` (lines 3885-3889). -/
def r5f (s : State) (x : ℚ) (n : ℚ) (r : ℚ) : State :=
  andThen (s.set_Tstress 0) fun s =>
  s.set_Ttangent 0

/-- Method `fcEtnf` (lines 3488-3506). -/
def fcEtnf (m : Libm) (s : State) (e : ℚ) : State :=
  andThen (s.set_xn (fabs (e / s.par.epcc))) fun s =>
  andThen (s.set_nn (fabs (s.par.Ec * s.par.epcc / s.par.fpcc))) fun s =>
  andThen (yf m s s.par.xcrn s.w.nn s.par.rc) fun s =>
  andThen (zf m s s.par.xcrn s.w.nn s.par.rc) fun s =>
  andThen (s.set_xsp (fabs (s.par.xcrn - s.w.y / (s.w.nn * s.w.z)))) fun s =>
  if s.w.xn ≤ s.w.xsp then
    andThen (r1f m s s.w.xn s.w.nn s.par.rc) fun s =>
    s.set_Trule 1
  else
    andThen (r5f s s.w.xn s.w.nn s.par.rc) fun s =>
    s.set_Trule 5

/-- Method `r2f` (lines 3892-3906). -/
def r2f (m : Libm) (s : State) (x : ℚ) (n : ℚ) (r : ℚ) : State :=
  if x < s.par.xcrp then
    andThen (yf m s x n r) fun s =>
    andThen (zf m s x n r) fun s =>
    andThen (s.set_Tstress (s.par.ft * s.w.y)) fun s =>
    s.set_Ttangent (s.par.Ec * s.w.z)
  else
    andThen (yf m s s.par.xcrp n r) fun s =>
    andThen (zf m s s.par.xcrp n r) fun s =>
    andThen (s.set_Tstress (s.par.ft * (s.w.y + n * s.w.z * (x - s.par.xcrp)))) fun s =>
    s.set_Ttangent (s.par.Ec * s.w.z)

/-- Method `r6f` (lines 3908-3912). -/
def r6f (s : State) (x : ℚ) (n : ℚ) (r : ℚ) : State :=
  andThen (s.set_Tstress 0) fun s =>
  s.set_Ttangent 0

/-- Method `fcEtpf` (lines 3508-3526). -/
def fcEtpf (m : Libm) (s : State) (e : ℚ) (e0 : ℚ) : State :=
  andThen (s.set_xp (fabs ((e - e0) / s.par.et))) fun s =>
  andThen (s.set_np (s.par.Ec * s.par.et / s.par.ft)) fun s =>
  andThen (yf m s s.par.xcrp s.w.np s.par.rt) fun s =>
  andThen (zf m s s.par.xcrp s.w.np s.par.rt) fun s =>
  andThen (s.set_xcrk (fabs (s.par.xcrp - s.w.y / (s.w.np * s.w.z)))) fun s =>
  if s.w.xp ≤ s.w.xcrk then
    andThen (r2f m s s.w.xp s.w.np s.par.rt) fun s =>
    s.set_Trule 2
  else
    andThen (r6f s s.w.xp s.w.np s.par.rt) fun s =>
    s.set_Trule 6

/-- Method `fcEtpr6f` (lines 3528-3534). -/
def fcEtpr6f (s : State) (e : ℚ) (e0 : ℚ) : State :=
  andThen (s.set_xp (fabs ((e - e0) / s.par.et))) fun s =>
  andThen (s.set_np (s.par.Ec * s.par.et / s.par.ft)) fun s =>
  andThen (r6f s s.w.xp s.w.np s.par.rt) fun s =>
  s.set_Trule 6

/-- Method `Esecnf` (lines 3574-3577). -/
def Esecnf (s : State) (eunn : ℚ) (funn : ℚ) : State :=
  s.set_Esecn (s.par.Ec * (((fabs (funn / (s.par.Ec * s.par.epcc))) + 0.57) / ((fabs (eunn / s.par.epcc)) + 0.57)))

/-- Method `esplnf` (lines 3563-3567). -/
def esplnf (s : State) (eunn : ℚ) (funn : ℚ) : State :=
  andThen (Esecnf s eunn funn) fun s =>
  s.set_espln (eunn - funn / s.w.Esecn)

/-- Method `Eplnf` (lines 3569-3572). -/
def Eplnf (m : Libm) (s : State) (eunn : ℚ) : State :=
  s.set_Epln (0.1 * s.par.Ec * (m.exp (-2 * (fabs (eunn / s.par.epcc)))))

/-- Method `delenf` (lines 3579-3582). -/
def delenf (s : State) (eunn : ℚ) : State :=
  s.set_delen (eunn / (1.15 + 2.75 * (fabs (eunn / s.par.epcc))))

/-- Method `delfnf` (lines 3584-3592). -/
def delfnf (m : Libm) (s : State) (eunn : ℚ) (funn : ℚ) : State :=
  if eunn ≤ s.par.epcc / 10 then
    s.set_delfn (0.09 * funn * (m.pow (fabs (eunn / s.par.epcc)) 0.5))
  else
    s.set_delfn 0

/-- Method `fnewnf` (lines 3594-3598). -/
def fnewnf (m : Libm) (s : State) (eunn : ℚ) (funn : ℚ) : State :=
  andThen (delfnf m s eunn funn) fun s =>
  s.set_fnewn (funn - s.w.delfn)

/-- Method `Enewnf` (lines 3600-3607). -/
def Enewnf (m : Libm) (s : State) (eunn : ℚ) (funn : ℚ) : State :=
  andThen (fnewnf m s eunn funn) fun s =>
  andThen (esplnf s eunn funn) fun s =>
  andThen (s.set_Enewn (fmin s.par.Ec (s.w.fnewn / (eunn - s.w.espln)))) fun s =>
  if eunn = s.w.espln then
    s.set_Enewn s.par.Ec
  else
    s

/-- Method `esrenf` (lines 3609-3613). -/
def esrenf (s : State) (eunn : ℚ) : State :=
  andThen (delenf s eunn) fun s =>
  s.set_esren (eunn + s.w.delen)

/-- Method `freErenf` (lines 3615-3643). -/
def freErenf (m : Libm) (s : State) (eunn : ℚ) : State :=
  andThen (esrenf s eunn) fun s =>
  andThen (s.set_xn (fabs (s.w.esren / s.par.epcc))) fun s =>
  andThen (s.set_nn (fabs (s.par.Ec * s.par.epcc / s.par.fpcc))) fun s =>
  andThen (yf m s s.par.xcrn s.w.nn s.par.rc) fun s =>
  andThen (zf m s s.par.xcrn s.w.nn s.par.rc) fun s =>
  andThen (s.set_xsp (fabs (s.par.xcrn - s.w.y / (s.w.nn * s.w.z)))) fun s =>
  if s.w.xn ≤ s.w.xsp then
    if s.w.xn < s.par.xcrn then
      andThen (yf m s s.w.xn s.w.nn s.par.rc) fun s =>
      andThen (zf m s s.w.xn s.w.nn s.par.rc) fun s =>
      andThen (s.set_fren (s.par.fpcc * s.w.y)) fun s =>
      s.set_Eren (s.par.Ec * s.w.z)
    else
      andThen (yf m s s.par.xcrn s.w.nn s.par.rc) fun s =>
      andThen (zf m s s.par.xcrn s.w.nn s.par.rc) fun s =>
      andThen (s.set_fren (s.par.fpcc * (s.w.y + s.w.nn * s.w.z * (s.w.xn - s.par.xcrn)))) fun s =>
      s.set_Eren (s.par.Ec * s.w.z)
  else
    andThen (s.set_fren 0) fun s =>
    s.set_Eren 0

/-- Method `fnewstnf` (lines 3645-3648). -/
def fnewstnf (s : State) (funn : ℚ) (delfn : ℚ) (eunn : ℚ) (er0n : ℚ) (espln : ℚ) : State :=
  s.set_fnewstn (funn - delfn * ((eunn - er0n) / (eunn - espln)))

/-- Method `Enewstnf` (lines 3650-3653). -/
def Enewstnf (s : State) (fnewstn : ℚ) (fr0n : ℚ) (eunn : ℚ) (er0n : ℚ) : State :=
  s.set_Enewstn ((fnewstn - fr0n) / (eunn - er0n))

/-- Method `esrestnf` (lines 3655-3658). -/
def esrestnf (s : State) (eunn : ℚ) (delen : ℚ) (er0n : ℚ) (espln : ℚ) : State :=
  s.set_esrestn (eunn + delen * (eunn - er0n) / (eunn - espln))

/-- Method `freErestnf` (lines 3660-3690). -/
def freErestnf (m : Libm) (s : State) (eunn : ℚ) (funn : ℚ) (er0n : ℚ) : State :=
  andThen (delenf s eunn) fun s =>
  andThen (esplnf s eunn funn) fun s =>
  andThen (esrestnf s eunn s.w.delen er0n s.w.espln) fun s =>
  andThen (s.set_xn (fabs (s.w.esrestn / s.par.epcc))) fun s =>
  andThen (s.set_nn (fabs (s.par.Ec * s.par.epcc / s.par.fpcc))) fun s =>
  andThen (yf m s s.par.xcrn s.w.nn s.par.rc) fun s =>
  andThen (zf m s s.par.xcrn s.w.nn s.par.rc) fun s =>
  andThen (s.set_xsp (fabs (s.par.xcrn - s.w.y / (s.w.nn * s.w.z)))) fun s =>
  if s.w.xn ≤ s.w.xsp then
    if s.w.xn < s.par.xcrn then
      andThen (yf m s s.w.xn s.w.nn s.par.rc) fun s =>
      andThen (zf m s s.w.xn s.w.nn s.par.rc) fun s =>
      andThen (s.set_frestn (s.par.fpcc * s.w.y)) fun s =>
      s.set_Erestn (s.par.Ec * s.w.z)
    else
      andThen (yf m s s.par.xcrn s.w.nn s.par.rc) fun s =>
      andThen (zf m s s.par.xcrn s.w.nn s.par.rc) fun s =>
      andThen (s.set_frestn (s.par.fpcc * (s.w.y + s.w.nn * s.w.z * (s.w.xn - s.par.xcrn)))) fun s =>
      s.set_Erestn (s.par.Ec * s.w.z)
  else
    andThen (s.set_frestn 0) fun s =>
    s.set_Erestn 0

/-- Method `Esecpf` (lines 3707-3715). -/
def Esecpf (s : State) (e0 : ℚ) (eunp : ℚ) (funp : ℚ) (espln : ℚ) : State :=
  andThen (s.set_Esecp (s.par.Ec * (((fabs (funp / (s.par.Ec * s.par.et))) + 0.67) / ((fabs ((eunp - e0) / s.par.et)) + 0.67)))) fun s =>
  if s.w.Esecp < ((fabs (funp / ((fabs (eunp - espln)))))) then
    s.set_Esecp (fabs (funp / ((fabs (eunp - espln)))))
  else
    s

/-- Method `esplpf` (lines 3692-3696). -/
def esplpf (s : State) (eunp : ℚ) (funp : ℚ) (e0 : ℚ) (espln : ℚ) : State :=
  andThen (Esecpf s e0 eunp funp espln) fun s =>
  s.set_esplp (eunp - funp / s.w.Esecp)

/-- Method `Eplpf` (lines 3698-3705). -/
def Eplpf (m : Libm) (s : State) (e0 : ℚ) (eunp : ℚ) : State :=
  if s.par.Gap = 1 then
    s.set_Eplp (s.par.Ec / ((m.pow ((fabs ((eunp - e0) / s.par.et))) 1.1) + 1))
  else
    s.set_Eplp 0

/-- Method `delepf` (lines 3717-3720). -/
def delepf (s : State) (eunp : ℚ) (e0 : ℚ) : State :=
  s.set_delep (0.22 * (fabs (eunp - e0)))

/-- Method `delfpf` (lines 3722-3730). -/
def delfpf (s : State) (funp : ℚ) (eunp : ℚ) (e0 : ℚ) : State :=
  if eunp ≥ e0 + s.par.et / 2 then
    s.set_delfp (0.15 * funp)
  else
    s.set_delfp 0

/-- Method `fnewpf` (lines 3732-3736). -/
def fnewpf (s : State) (funp : ℚ) (eunp : ℚ) (e0 : ℚ) : State :=
  andThen (delfpf s funp eunp e0) fun s =>
  s.set_fnewp (funp - s.w.delfp)

/-- Method `Enewpf` (lines 3738-3745). -/
def Enewpf (s : State) (eunp : ℚ) (funp : ℚ) (e0 : ℚ) (espln : ℚ) : State :=
  andThen (fnewpf s funp eunp e0) fun s =>
  andThen (esplpf s eunp funp e0 espln) fun s =>
  andThen (s.set_Enewp (fmin s.par.Ec (s.w.fnewp / (eunp - s.w.esplp)))) fun s =>
  if eunp = s.w.esplp then
    s.set_Enewp s.par.Ec
  else
    s

/-- Method `esrepf` (lines 3747-3751). -/
def esrepf (s : State) (eunp : ℚ) (e0 : ℚ) : State :=
  andThen (delepf s eunp e0) fun s =>
  s.set_esrep (eunp + s.w.delep)

/-- Method `freErepf` (lines 3753-3782). -/
def freErepf (m : Libm) (s : State) (eunp : ℚ) (e0 : ℚ) : State :=
  andThen (esrepf s eunp e0) fun s =>
  andThen (s.set_xp (fabs ((s.w.esrep - e0) / s.par.et))) fun s =>
  andThen (s.set_np (s.par.Ec * s.par.et / s.par.ft)) fun s =>
  andThen (yf m s s.par.xcrp s.w.np s.par.rt) fun s =>
  andThen (zf m s s.par.xcrp s.w.np s.par.rt) fun s =>
  andThen (s.set_xcrk (fabs (s.par.xcrp - s.w.y / (s.w.np * s.w.z)))) fun s =>
  if s.w.xp ≤ s.w.xcrk then
    if s.w.xp < s.par.xcrp then
      andThen (yf m s s.w.xp s.w.np s.par.rt) fun s =>
      andThen (zf m s s.w.xp s.w.np s.par.rt) fun s =>
      andThen (s.set_frep (s.par.ft * s.w.y)) fun s =>
      s.set_Erep (s.par.Ec * s.w.z)
    else
      andThen (yf m s s.par.xcrp s.w.np s.par.rt) fun s =>
      andThen (zf m s s.par.xcrp s.w.np s.par.rt) fun s =>
      andThen (s.set_frep (s.par.ft * (s.w.y + s.w.np * s.w.z * (s.w.xp - s.par.xcrp)))) fun s =>
      s.set_Erep (s.par.Ec * s.w.z)
  else
    andThen (s.set_frep 0) fun s =>
    s.set_Erep 0

/-- Method `fnewstpf` (lines 3784-3787). -/
def fnewstpf (s : State) (funp : ℚ) (delfp : ℚ) (eunp : ℚ) (er0p : ℚ) (esplp : ℚ) (e0 : ℚ) : State :=
  s.set_fnewstp (funp - delfp * ((eunp - er0p) / (eunp - esplp)))

/-- Method `Enewstpf` (lines 3789-3792). -/
def Enewstpf (s : State) (fnewstp : ℚ) (fr0p : ℚ) (eunp : ℚ) (er0p : ℚ) : State :=
  s.set_Enewstp ((fnewstp - fr0p) / (eunp - er0p))

/-- Method `esrestpf` (lines 3794-3797). -/
def esrestpf (s : State) (eunp : ℚ) (delep : ℚ) (er0p : ℚ) (esplp : ℚ) : State :=
  s.set_esrestp (eunp + delep * (eunp - er0p) / (eunp - esplp))

/-- Method `freErestpf` (lines 3799-3829). -/
def freErestpf (m : Libm) (s : State) (eunp : ℚ) (funp : ℚ) (er0p : ℚ) (e0 : ℚ) (espln : ℚ) : State :=
  andThen (delepf s eunp e0) fun s =>
  andThen (esplpf s eunp funp e0 espln) fun s =>
  andThen (esrestpf s eunp s.w.delep er0p s.w.esplp) fun s =>
  andThen (s.set_xp (fabs ((s.w.esrestp - e0) / s.par.et))) fun s =>
  andThen (s.set_np (s.par.Ec * s.par.et / s.par.ft)) fun s =>
  andThen (yf m s s.par.xcrp s.w.np s.par.rt) fun s =>
  andThen (zf m s s.par.xcrp s.w.np s.par.rt) fun s =>
  andThen (s.set_xcrk (fabs (s.par.xcrp - s.w.y / (s.w.np * s.w.z)))) fun s =>
  if s.w.xp ≤ s.w.xcrk then
    if s.w.xp < s.par.xcrp then
      andThen (yf m s s.w.xp s.w.np s.par.rt) fun s =>
      andThen (zf m s s.w.xp s.w.np s.par.rt) fun s =>
      andThen (s.set_frestp (s.par.ft * s.w.y)) fun s =>
      s.set_Erestp (s.par.Ec * s.w.z)
    else
      andThen (yf m s s.par.xcrp s.w.np s.par.rt) fun s =>
      andThen (zf m s s.par.xcrp s.w.np s.par.rt) fun s =>
      andThen (s.set_frestp (s.par.ft * (s.w.y + s.w.np * s.w.z * (s.w.xp - s.par.xcrp)))) fun s =>
      s.set_Erestp (s.par.Ec * s.w.z)
  else
    andThen (s.set_frestp 0) fun s =>
    s.set_Erestp 0

/-- Method `e0eunpfunpf` (lines 3818-3853).  `xun`, `xup`, `e0ref`, `eunpref`,
`funpref` and `dele0` are local variables (`xup0` is `xup` before the `if`); the
values the `if` gives to `xup`, `e0ref`, `eunpref` and `funpref` are selected by
its condition. -/
def e0eunpfunpf (m : Libm) (s : State) (e0 : ℚ) (eunp : ℚ) (funp : ℚ) (eunn : ℚ) (funn : ℚ) : State :=
  let xun := (fabs (eunn / s.par.epcc))
  let xup0 := (fabs ((eunp - e0) / s.par.et))
  let xup := if xup0 < xun then xun else xup0
  let e0ref := if xup0 < xun then 0 else e0
  let eunpref := if xup0 < xun then xup * s.par.et else eunp
  andThen (
    if xup0 < xun then
      fcEtpf m s eunpref e0ref
    else
      s
    ) fun s =>
  let funpref := if xup0 < xun then s.T.Tstress else funp
  andThen (esplnf s eunn funn) fun s =>
  andThen (Eplnf m s eunn) fun s =>
  andThen (Esecpf s e0ref eunpref funpref s.w.espln) fun s =>
  let dele0 := 2 * funpref / (s.w.Esecp + s.w.Epln)
  andThen (s.set_Te0 (s.w.espln + dele0 - xup * s.par.et)) fun s =>
  andThen (s.set_Teunp (xup * s.par.et + s.T.Te0)) fun s =>
  andThen (fcEtpf m s s.T.Teunp s.T.Te0) fun s =>
  s.set_Tfunp s.T.Tstress

/-- Method `r3f` (lines 3914-3922). -/
def r3f (s : State) (eunn : ℚ) (funn : ℚ) (espln : ℚ) (Epln : ℚ) : State :=
  andThen (s.set_esi eunn) fun s =>
  andThen (s.set_fi funn) fun s =>
  andThen (s.set_Ei s.par.Ec) fun s =>
  andThen (s.set_esf espln) fun s =>
  andThen (s.set_ff 0) fun s =>
  s.set_Ef Epln

/-- Method `r9f` (lines 3924-3932). -/
def r9f (s : State) (espln : ℚ) (Epln : ℚ) (eunp : ℚ) (fnewp : ℚ) (Enewp : ℚ) : State :=
  andThen (s.set_esi espln) fun s =>
  andThen (s.set_fi 0) fun s =>
  andThen (s.set_Ei Epln) fun s =>
  andThen (s.set_esf eunp) fun s =>
  andThen (s.set_ff fnewp) fun s =>
  s.set_Ef Enewp

/-- Method `r8f` (lines 3934-3942). -/
def r8f (s : State) (eunp : ℚ) (fnewp : ℚ) (Enewp : ℚ) (esrep : ℚ) (frep : ℚ) (Erep : ℚ) : State :=
  andThen (s.set_esi eunp) fun s =>
  andThen (s.set_fi fnewp) fun s =>
  andThen (s.set_Ei Enewp) fun s =>
  andThen (s.set_esf esrep) fun s =>
  andThen (s.set_ff frep) fun s =>
  s.set_Ef Erep

/-- Method `r4f` (lines 3944-3952). -/
def r4f (s : State) (eunp : ℚ) (funp : ℚ) (esplp : ℚ) (Eplp : ℚ) : State :=
  andThen (s.set_esi eunp) fun s =>
  andThen (s.set_fi funp) fun s =>
  andThen (s.set_Ei s.par.Ec) fun s =>
  andThen (s.set_esf esplp) fun s =>
  andThen (s.set_ff 0) fun s =>
  s.set_Ef Eplp

/-- Method `r10f` (lines 3954-3962). -/
def r10f (s : State) (esplp : ℚ) (Eplp : ℚ) (eunn : ℚ) (fnewn : ℚ) (Enewn : ℚ) : State :=
  andThen (s.set_esi esplp) fun s =>
  andThen (s.set_fi 0) fun s =>
  andThen (s.set_Ei Eplp) fun s =>
  andThen (s.set_esf eunn) fun s =>
  andThen (s.set_ff fnewn) fun s =>
  s.set_Ef Enewn

/-- Method `r7f` (lines 3964-3972). -/
def r7f (s : State) (eunn : ℚ) (fnewn : ℚ) (Enewn : ℚ) (esren : ℚ) (fren : ℚ) (Eren : ℚ) : State :=
  andThen (s.set_esi eunn) fun s =>
  andThen (s.set_fi fnewn) fun s =>
  andThen (s.set_Ei Enewn) fun s =>
  andThen (s.set_esf esren) fun s =>
  andThen (s.set_ff fren) fun s =>
  s.set_Ef Eren

/-- Method `fcEturf` (lines 4113-4141). -/
def fcEturf (m : Libm) (s : State) (es : ℚ) (esi : ℚ) (fi : ℚ) (esf : ℚ) (ff : ℚ) (Ei : ℚ) (Ef : ℚ) (A : ℚ) (R : ℚ) : State :=
  let Esec := (ff - fi) / (esf - esi)
  if A = 1.0e300 ∨ A = 0 then
    andThen (s.set_fc (fi + Esec * (es - esi))) fun s =>
    s.set_Et Esec
  else if (m.pow (fabs (es - esi)) (-R)) = 0 ∨ (m.pow (fabs (es - esi)) (-R)) > 1.797e308 ∨ (m.pow (fabs (es - esi)) (-R)) < -1.797e308 then
    andThen (s.set_fc (fi + Esec * (es - esi))) fun s =>
    s.set_Et Esec
  else if Ei ≥ Esec ∧ Ef ≥ Esec then
    andThen (s.set_fc (fi + Esec * (es - esi))) fun s =>
    s.set_Et Esec
  else if Ei ≤ Esec ∧ Ef ≤ Esec then
    andThen (s.set_fc (fi + Esec * (es - esi))) fun s =>
    s.set_Et Esec
  else
    andThen (s.set_fc (fi + (es - esi) * (Ei + A * (m.pow (fabs (es - esi)) R)))) fun s =>
    andThen (s.set_Et (Ei + A * (R + 1) * (m.pow (fabs (es - esi)) R))) fun s =>
    if s.w.Et > 1.797e308 ∨ s.w.Et < -1.797e308 then
      andThen (s.set_fc (fi + Esec * (es - esi))) fun s =>
      s.set_Et Esec
    else
      s

/-- Method `r12f` (lines 3974-3985). -/
def r12f (m : Libm) (s : State) (er : ℚ) (fr : ℚ) (ea : ℚ) (fca : ℚ) (Eta : ℚ) (A : ℚ) (R : ℚ) : State :=
  andThen (s.set_esi er) fun s =>
  andThen (s.set_fi fr) fun s =>
  andThen (s.set_Ei s.par.Ec) fun s =>
  andThen (s.set_esf ea) fun s =>
  andThen (s.set_ff fca) fun s =>
  andThen (s.set_Ef Eta) fun s =>
  andThen (fcEturf m s ea s.w.esi s.w.fi s.w.esf s.w.ff s.w.Ei s.w.Ef A R) fun s =>
  andThen (s.set_ff s.w.fc) fun s =>
  s.set_Ef s.w.Et

/-- Method `r11f` (lines 3987-3998). -/
def r11f (m : Libm) (s : State) (er : ℚ) (fr : ℚ) (eb : ℚ) (fcb : ℚ) (Etb : ℚ) (A : ℚ) (R : ℚ) : State :=
  andThen (s.set_esi er) fun s =>
  andThen (s.set_fi fr) fun s =>
  andThen (s.set_Ei s.par.Ec) fun s =>
  andThen (s.set_esf eb) fun s =>
  andThen (s.set_ff fcb) fun s =>
  andThen (s.set_Ef Etb) fun s =>
  andThen (fcEturf m s eb s.w.esi s.w.fi s.w.esf s.w.ff s.w.Ei s.w.Ef A R) fun s =>
  andThen (s.set_ff s.w.fc) fun s =>
  s.set_Ef s.w.Et

/-- Method `r13f` (lines 4000-4008). -/
def r13f (s : State) (ed : ℚ) (eunn : ℚ) (fnewn : ℚ) (Enewn : ℚ) : State :=
  andThen (s.set_esi ed) fun s =>
  andThen (s.set_fi 0) fun s =>
  andThen (s.set_Ei 0) fun s =>
  andThen (s.set_esf eunn) fun s =>
  andThen (s.set_ff fnewn) fun s =>
  s.set_Ef Enewn

/-- Method `r14f` (lines 4010-4018). -/
def r14f (s : State) (er : ℚ) (fr : ℚ) (eb : ℚ) : State :=
  andThen (s.set_esi er) fun s =>
  andThen (s.set_fi fr) fun s =>
  andThen (s.set_Ei s.par.Ec) fun s =>
  andThen (s.set_esf eb) fun s =>
  andThen (s.set_ff 0) fun s =>
  s.set_Ef 0

/-- Method `r15f` (lines 4020-4031). -/
def r15f (m : Libm) (s : State) (er : ℚ) (fr : ℚ) (ea : ℚ) (fca : ℚ) (Eta : ℚ) (A : ℚ) (R : ℚ) : State :=
  andThen (s.set_esi er) fun s =>
  andThen (s.set_fi fr) fun s =>
  andThen (s.set_Ei s.par.Ec) fun s =>
  andThen (s.set_esf ea) fun s =>
  andThen (s.set_ff fca) fun s =>
  andThen (s.set_Ef Eta) fun s =>
  andThen (fcEturf m s ea s.w.esi s.w.fi s.w.esf s.w.ff s.w.Ei s.w.Ef A R) fun s =>
  andThen (s.set_ff s.w.fc) fun s =>
  s.set_Ef s.w.Et

/-- Method `r66f` (lines 4033-4037). -/
def r66f (s : State) (e : ℚ) (e0 : ℚ) : State :=
  andThen (s.set_Tstress 0) fun s =>
  s.set_Ttangent 0

/-- Method `r88f` (lines 4039-4057). -/
def r88f (s : State) (e : ℚ) (e0 : ℚ) (er0p : ℚ) (fr0p : ℚ) (eunp : ℚ) (fnewstp : ℚ) (Enewstp : ℚ) (esrestp : ℚ) (frestp : ℚ) (Erestp : ℚ) : State :=
  andThen (
      if (e - e0) ≥ (er0p - e0) ∧ (e - e0) ≤ (eunp - e0) then
        andThen (s.set_esi er0p) fun s =>
        andThen (s.set_fi fr0p) fun s =>
        andThen (s.set_Ei s.par.Ec) fun s =>
        andThen (s.set_esf eunp) fun s =>
        andThen (s.set_ff fnewstp) fun s =>
        s.set_Ef Enewstp
      else
        s
    ) fun s =>
  if (e - e0) > (eunp - e0) ∧ (e - e0) < (esrestp - e0) then
    andThen (s.set_esi eunp) fun s =>
    andThen (s.set_fi fnewstp) fun s =>
    andThen (s.set_Ei Enewstp) fun s =>
    andThen (s.set_esf esrestp) fun s =>
    andThen (s.set_ff frestp) fun s =>
    s.set_Ef Erestp
  else
    s

/-- Method `r77f` (lines 4059-4078). -/
def r77f (s : State) (e : ℚ) (e0 : ℚ) (er0n : ℚ) (fr0n : ℚ) (eunn : ℚ) (fnewstn : ℚ) (Enewstn : ℚ) (esrestn : ℚ) (frestn : ℚ) (Erestn : ℚ) : State :=
  andThen (
      if e ≤ er0n ∧ e ≥ eunn then
        andThen (s.set_esi er0n) fun s =>
        andThen (s.set_fi fr0n) fun s =>
        andThen (s.set_Ei s.par.Ec) fun s =>
        andThen (s.set_esf eunn) fun s =>
        andThen (s.set_ff fnewstn) fun s =>
        s.set_Ef Enewstn
      else
        s
    ) fun s =>
  if e < eunn ∧ e > esrestn then
    andThen (s.set_esi eunn) fun s =>
    andThen (s.set_fi fnewstn) fun s =>
    andThen (s.set_Ei Enewstn) fun s =>
    andThen (s.set_esf esrestn) fun s =>
    andThen (s.set_ff frestn) fun s =>
    s.set_Ef Erestn
  else
    s

/-- Method `ea1112f` (lines 4080-4083). -/
def ea1112f (s : State) (eb : ℚ) (espln : ℚ) (esplp : ℚ) (eunn : ℚ) (eunp : ℚ) : State :=
  s.set_Tea (espln + ((eunn - eb) / (eunn - esplp)) * (eunp - espln))

/-- Method `eb1112f` (lines 4085-4088). -/
def eb1112f (s : State) (ea : ℚ) (espln : ℚ) (esplp : ℚ) (eunn : ℚ) (eunp : ℚ) : State :=
  s.set_Teb (eunn - ((ea - espln) / (eunp - espln)) * (eunn - esplp))

/-- Method `eb1415f` (lines 4090-4093). -/
def eb1415f (s : State) (ea : ℚ) (fa : ℚ) (Esecn : ℚ) : State :=
  s.set_Teb (ea - fa / Esecn)

/-- Method `RAf` (lines 4095-4111). -/
def RAf (m : Libm) (s : State) (esi : ℚ) (fi : ℚ) (Ei : ℚ) (esf : ℚ) (ff : ℚ) (Ef : ℚ) : State :=
  let Esec := (ff - fi) / (esf - esi)
  andThen (s.set_R ((Ef - Esec) / (Esec - Ei))) fun s =>
  let check := (m.pow (fabs (esf - esi)) s.w.R)
  if check = 0 ∨ check > 1.797e308 ∨ check < -1.797e308 ∨ Esec = Ei then
    s.set_A (1.0e-300)
  else
    andThen (s.set_A ((Esec - Ei) / (m.pow (fabs (esf - esi)) s.w.R))) fun s =>
    if s.w.A > 1.797e308 ∨ s.w.A < -1.797e308 then
      s.set_A 1.0e300
    else
      s

/-- Method `commitState` (lines 4158-4184). -/
def commitState (s : State) : State :=
  andThen (s.set_Ceunn s.T.Teunn) fun s =>
  andThen (s.set_Cfunn s.T.Tfunn) fun s =>
  andThen (s.set_Ceunp s.T.Teunp) fun s =>
  andThen (s.set_Cfunp s.T.Tfunp) fun s =>
  andThen (s.set_Cer s.T.Ter) fun s =>
  andThen (s.set_Cfr s.T.Tfr) fun s =>
  andThen (s.set_Cer0n s.T.Ter0n) fun s =>
  andThen (s.set_Cfr0n s.T.Tfr0n) fun s =>
  andThen (s.set_Cer0p s.T.Ter0p) fun s =>
  andThen (s.set_Cfr0p s.T.Tfr0p) fun s =>
  andThen (s.set_Ce0 s.T.Te0) fun s =>
  andThen (s.set_Cea s.T.Tea) fun s =>
  andThen (s.set_Ceb s.T.Teb) fun s =>
  andThen (s.set_Ced s.T.Ted) fun s =>
  andThen (s.set_Cinc s.T.Tinc) fun s =>
  andThen (s.set_Crule s.T.Trule) fun s =>
  andThen (s.set_Cstrain s.T.Tstrain) fun s =>
  andThen (s.set_Cstress s.T.Tstress) fun s =>
  s.set_Ctangent s.T.Ttangent

/-- Method `revertToLastCommit` (lines 4201-4227). -/
def revertToLastCommit (s : State) : State :=
  andThen (s.set_Teunn s.C.Ceunn) fun s =>
  andThen (s.set_Tfunn s.C.Cfunn) fun s =>
  andThen (s.set_Teunp s.C.Ceunp) fun s =>
  andThen (s.set_Tfunp s.C.Cfunp) fun s =>
  andThen (s.set_Ter s.C.Cer) fun s =>
  andThen (s.set_Tfr s.C.Cfr) fun s =>
  andThen (s.set_Ter0n s.C.Cer0n) fun s =>
  andThen (s.set_Tfr0n s.C.Cfr0n) fun s =>
  andThen (s.set_Ter0p s.C.Cer0p) fun s =>
  andThen (s.set_Tfr0p s.C.Cfr0p) fun s =>
  andThen (s.set_Te0 s.C.Ce0) fun s =>
  andThen (s.set_Tea s.C.Cea) fun s =>
  andThen (s.set_Teb s.C.Ceb) fun s =>
  andThen (s.set_Ted s.C.Ced) fun s =>
  andThen (s.set_Tinc s.C.Cinc) fun s =>
  andThen (s.set_Trule s.C.Crule) fun s =>
  andThen (s.set_Tstrain s.C.Cstrain) fun s =>
  andThen (s.set_Tstress s.C.Cstress) fun s =>
  s.set_Ttangent s.C.Ctangent

/-- Method `revertToStart` (lines 4230-4262). -/
def revertToStart (s : State) : State :=
  let Ec0 := s.par.Ec
  andThen (s.set_Ceunn 0) fun s =>
  andThen (s.set_Cfunn 0) fun s =>
  andThen (s.set_Ceunp 0) fun s =>
  andThen (s.set_Cfunp 0) fun s =>
  andThen (s.set_Cer 0) fun s =>
  andThen (s.set_Cfr 0) fun s =>
  andThen (s.set_Cer0n 0) fun s =>
  andThen (s.set_Cfr0n 0) fun s =>
  andThen (s.set_Cer0p 0) fun s =>
  andThen (s.set_Cfr0p 0) fun s =>
  andThen (s.set_Ce0 0) fun s =>
  andThen (s.set_Cea 0) fun s =>
  andThen (s.set_Ceb 0) fun s =>
  andThen (s.set_Ced 0) fun s =>
  andThen (s.set_Cinc 0) fun s =>
  andThen (s.set_Crule 0) fun s =>
  andThen (s.set_Cstrain 0) fun s =>
  andThen (s.set_Cstress 0) fun s =>
  andThen (s.set_Ctangent Ec0) fun s =>
  revertToLastCommit s

/-- Lines 310-334 of `setTrialStrain`. -/
def setTrialStrain_L310_L334 (m : Libm) (s : State) (strain : ℚ) : State :=
  andThen (
      if s.T.Tstrain > s.C.Cstrain then
        s.set_Tinc 1
      else if s.T.Tstrain < s.C.Cstrain then
        s.set_Tinc (-1)
      else
        s.set_Tinc s.C.Cinc
    ) fun s =>
  andThen (s.set_Teunn s.C.Ceunn) fun s =>
  andThen (s.set_Tfunn s.C.Cfunn) fun s =>
  andThen (s.set_Teunp s.C.Ceunp) fun s =>
  andThen (s.set_Tfunp s.C.Cfunp) fun s =>
  andThen (s.set_Ter s.C.Cer) fun s =>
  andThen (s.set_Tfr s.C.Cfr) fun s =>
  andThen (s.set_Ter0n s.C.Cer0n) fun s =>
  andThen (s.set_Tfr0n s.C.Cfr0n) fun s =>
  andThen (s.set_Ter0p s.C.Cer0p) fun s =>
  andThen (s.set_Tfr0p s.C.Cfr0p) fun s =>
  andThen (s.set_Te0 s.C.Ce0) fun s =>
  andThen (s.set_Tea s.C.Cea) fun s =>
  andThen (s.set_Teb s.C.Ceb) fun s =>
  andThen (s.set_Ted s.C.Ced) fun s =>
  s.set_Trule s.C.Crule

/-- Lines 336-362 of `setTrialStrain`. -/
def setTrialStrain_L336_L362 (m : Libm) (s : State) (strain : ℚ) : State :=
  andThen (esplnf s s.T.Teunn s.T.Tfunn) fun s =>
  andThen (Eplnf m s s.T.Teunn) fun s =>
  andThen (Esecnf s s.T.Teunn s.T.Tfunn) fun s =>
  andThen (delenf s s.T.Teunn) fun s =>
  andThen (delfnf m s s.T.Teunn s.T.Tfunn) fun s =>
  andThen (fnewnf m s s.T.Teunn s.T.Tfunn) fun s =>
  andThen (Enewnf m s s.T.Teunn s.T.Tfunn) fun s =>
  andThen (esrenf s s.T.Teunn) fun s =>
  andThen (freErenf m s s.T.Teunn) fun s =>
  andThen (fnewstnf s s.T.Tfunn s.w.delfn s.T.Teunn s.T.Ter0n s.w.espln) fun s =>
  andThen (Enewstnf s s.w.fnewstn s.T.Tfr0n s.T.Teunn s.T.Ter0n) fun s =>
  andThen (esrestnf s s.T.Teunn s.w.delen s.T.Ter0n s.w.espln) fun s =>
  andThen (freErestnf m s s.T.Teunn s.T.Tfunn s.T.Ter0n) fun s =>
  andThen (esplpf s s.T.Teunp s.T.Tfunp s.T.Te0 s.w.espln) fun s =>
  andThen (Eplpf m s s.T.Te0 s.T.Teunp) fun s =>
  andThen (Esecpf s s.T.Te0 s.T.Teunp s.T.Tfunp s.w.espln) fun s =>
  andThen (delepf s s.T.Teunp s.T.Te0) fun s =>
  andThen (delfpf s s.T.Tfunp s.T.Teunp s.T.Te0) fun s =>
  andThen (fnewpf s s.T.Tfunp s.T.Teunp s.T.Te0) fun s =>
  andThen (Enewpf s s.T.Teunp s.T.Tfunp s.T.Te0 s.w.espln) fun s =>
  andThen (esrepf s s.T.Teunp s.T.Te0) fun s =>
  andThen (freErepf m s s.T.Teunp s.T.Te0) fun s =>
  andThen (fnewstpf s s.T.Tfunp s.w.delfp s.T.Teunp s.T.Ter0p s.w.esplp s.T.Te0) fun s =>
  andThen (Enewstpf s s.w.fnewstp s.T.Tfr0p s.T.Teunp s.T.Ter0p) fun s =>
  andThen (esrestpf s s.T.Teunp s.w.delep s.T.Ter0p s.w.esplp) fun s =>
  freErestpf m s s.T.Teunp s.T.Tfunp s.T.Ter0p s.T.Te0 s.w.espln

/-- Lines 371-382 of `setTrialStrain`. -/
def setTrialStrain_L371_L382 (m : Libm) (s : State) (strain : ℚ) : State :=
  andThen (s.set_Teunn s.C.Cstrain) fun s =>
  andThen (s.set_Tfunn s.C.Cstress) fun s =>
  andThen (e0eunpfunpf m s s.T.Te0 s.T.Teunp s.T.Tfunp s.T.Teunn s.T.Tfunn) fun s =>
  andThen (esplnf s s.T.Teunn s.T.Tfunn) fun s =>
  andThen (Eplnf m s s.T.Teunn) fun s =>
  andThen (fnewpf s s.T.Tfunp s.T.Teunp s.T.Te0) fun s =>
  andThen (Enewpf s s.T.Teunp s.T.Tfunp s.T.Te0 s.w.espln) fun s =>
  andThen (esrepf s s.T.Teunp s.T.Te0) fun s =>
  freErepf m s s.T.Teunp s.T.Te0

/-- Lines 437-504 of `setTrialStrain`: the branch `if (Tea<=espln)`. -/
def setTrialStrain_L437 (m : Libm) (s : State) (strain : ℚ) : State :=
  if s.T.Tstrain ≤ s.T.Tea then
    andThen (r3f s s.T.Teunn s.T.Tfunn s.w.espln s.w.Epln) fun s =>
    andThen (RAf m s s.w.esi s.w.fi s.w.Ei s.w.esf s.w.ff s.w.Ef) fun s =>
    andThen (fcEturf m s s.T.Tea s.w.esi s.w.fi s.w.esf s.w.ff s.w.Ei s.w.Ef s.w.A s.w.R) fun s =>
    andThen (s.set_fca s.w.fc) fun s =>
    andThen (s.set_Eta s.w.Et) fun s =>
    andThen (s.set_esi s.T.Ter) fun s =>
    andThen (s.set_fi s.T.Tfr) fun s =>
    andThen (s.set_Ei s.par.Ec) fun s =>
    andThen (s.set_esf s.T.Tea) fun s =>
    andThen (RAf m s s.w.esi s.w.fi s.w.Ei s.w.esf s.w.fca s.w.Eta) fun s =>
    andThen (r12f m s s.T.Ter s.T.Tfr s.T.Tea s.w.fca s.w.Eta s.w.A s.w.R) fun s =>
    andThen (s.set_Trule 12) fun s =>
    andThen (fcEturf m s s.T.Tstrain s.w.esi s.w.fi s.w.esf s.w.ff s.w.Ei s.w.Ef s.w.A s.w.R) fun s =>
    andThen (s.set_Tstress s.w.fc) fun s =>
    s.set_Ttangent s.w.Et
  else if s.T.Tstrain ≤ s.w.espln then
    andThen (r3f s s.T.Teunn s.T.Tfunn s.w.espln s.w.Epln) fun s =>
    andThen (s.set_Trule 3) fun s =>
    andThen (RAf m s s.w.esi s.w.fi s.w.Ei s.w.esf s.w.ff s.w.Ef) fun s =>
    andThen (fcEturf m s s.T.Tstrain s.w.esi s.w.fi s.w.esf s.w.ff s.w.Ei s.w.Ef s.w.A s.w.R) fun s =>
    andThen (s.set_Tstress s.w.fc) fun s =>
    s.set_Ttangent s.w.Et
  else if s.T.Tstrain ≤ s.T.Teunp then
    andThen (r9f s s.w.espln s.w.Epln s.T.Teunp s.w.fnewp s.w.Enewp) fun s =>
    andThen (s.set_Trule 9) fun s =>
    andThen (RAf m s s.w.esi s.w.fi s.w.Ei s.w.esf s.w.ff s.w.Ef) fun s =>
    andThen (fcEturf m s s.T.Tstrain s.w.esi s.w.fi s.w.esf s.w.ff s.w.Ei s.w.Ef s.w.A s.w.R) fun s =>
    andThen (s.set_Tstress s.w.fc) fun s =>
    s.set_Ttangent s.w.Et
  else if s.T.Tstrain ≤ s.w.esrep then
    andThen (r8f s s.T.Teunp s.w.fnewp s.w.Enewp s.w.esrep s.w.frep s.w.Erep) fun s =>
    andThen (s.set_Trule 8) fun s =>
    andThen (RAf m s s.w.esi s.w.fi s.w.Ei s.w.esf s.w.ff s.w.Ef) fun s =>
    andThen (fcEturf m s s.T.Tstrain s.w.esi s.w.fi s.w.esf s.w.ff s.w.Ei s.w.Ef s.w.A s.w.R) fun s =>
    andThen (s.set_Tstress s.w.fc) fun s =>
    s.set_Ttangent s.w.Et
  else
    fcEtpf m s s.T.Tstrain s.T.Te0

/-- Lines 427-639 of `setTrialStrain`: the branch `if (Crule==10.0)`. -/
def setTrialStrain_L427 (m : Libm) (s : State) (strain : ℚ) : State :=
  andThen (s.set_Ter s.C.Cstrain) fun s =>
  andThen (s.set_Tfr s.C.Cstress) fun s =>
  andThen (s.set_Teb s.T.Ter) fun s =>
  andThen (s.set_fb s.T.Tfr) fun s =>
  andThen (ea1112f s s.T.Teb s.w.espln s.w.esplp s.T.Teunn s.T.Teunp) fun s =>
  if s.T.Tea ≤ s.w.espln then
    setTrialStrain_L437 m s strain
  else if s.T.Tea ≤ s.T.Teunp then
    if s.T.Tstrain ≤ s.T.Tea then
      andThen (r9f s s.w.espln s.w.Epln s.T.Teunp s.w.fnewp s.w.Enewp) fun s =>
      andThen (RAf m s s.w.esi s.w.fi s.w.Ei s.w.esf s.w.ff s.w.Ef) fun s =>
      andThen (fcEturf m s s.T.Tea s.w.esi s.w.fi s.w.esf s.w.ff s.w.Ei s.w.Ef s.w.A s.w.R) fun s =>
      andThen (s.set_fca s.w.fc) fun s =>
      andThen (s.set_Eta s.w.Et) fun s =>
      andThen (s.set_esi s.T.Ter) fun s =>
      andThen (s.set_fi s.T.Tfr) fun s =>
      andThen (s.set_Ei s.par.Ec) fun s =>
      andThen (s.set_esf s.T.Tea) fun s =>
      andThen (RAf m s s.w.esi s.w.fi s.w.Ei s.w.esf s.w.fca s.w.Eta) fun s =>
      andThen (r12f m s s.T.Ter s.T.Tfr s.T.Tea s.w.fca s.w.Eta s.w.A s.w.R) fun s =>
      andThen (s.set_Trule 12) fun s =>
      andThen (fcEturf m s s.T.Tstrain s.w.esi s.w.fi s.w.esf s.w.ff s.w.Ei s.w.Ef s.w.A s.w.R) fun s =>
      andThen (s.set_Tstress s.w.fc) fun s =>
      s.set_Ttangent s.w.Et
    else if s.T.Tstrain ≤ s.T.Teunp then
      andThen (r9f s s.w.espln s.w.Epln s.T.Teunp s.w.fnewp s.w.Enewp) fun s =>
      andThen (s.set_Trule 9) fun s =>
      andThen (RAf m s s.w.esi s.w.fi s.w.Ei s.w.esf s.w.ff s.w.Ef) fun s =>
      andThen (fcEturf m s s.T.Tstrain s.w.esi s.w.fi s.w.esf s.w.ff s.w.Ei s.w.Ef s.w.A s.w.R) fun s =>
      andThen (s.set_Tstress s.w.fc) fun s =>
      s.set_Ttangent s.w.Et
    else if s.T.Tstrain ≤ s.w.esrep then
      andThen (r8f s s.T.Teunp s.w.fnewp s.w.Enewp s.w.esrep s.w.frep s.w.Erep) fun s =>
      andThen (s.set_Trule 8) fun s =>
      andThen (RAf m s s.w.esi s.w.fi s.w.Ei s.w.esf s.w.ff s.w.Ef) fun s =>
      andThen (fcEturf m s s.T.Tstrain s.w.esi s.w.fi s.w.esf s.w.ff s.w.Ei s.w.Ef s.w.A s.w.R) fun s =>
      andThen (s.set_Tstress s.w.fc) fun s =>
      s.set_Ttangent s.w.Et
    else
      fcEtpf m s s.T.Tstrain s.T.Te0
  else if s.T.Tea ≤ s.w.esrep then
    if s.T.Tstrain ≤ s.T.Tea then
      andThen (r8f s s.T.Teunp s.w.fnewp s.w.Enewp s.w.esrep s.w.frep s.w.Erep) fun s =>
      andThen (RAf m s s.w.esi s.w.fi s.w.Ei s.w.esf s.w.ff s.w.Ef) fun s =>
      andThen (fcEturf m s s.T.Tea s.w.esi s.w.fi s.w.esf s.w.ff s.w.Ei s.w.Ef s.w.A s.w.R) fun s =>
      andThen (s.set_fca s.w.fc) fun s =>
      andThen (s.set_Eta s.w.Et) fun s =>
      andThen (s.set_esi s.T.Ter) fun s =>
      andThen (s.set_fi s.T.Tfr) fun s =>
      andThen (s.set_Ei s.par.Ec) fun s =>
      andThen (s.set_esf s.T.Tea) fun s =>
      andThen (RAf m s s.w.esi s.w.fi s.w.Ei s.w.esf s.w.fca s.w.Eta) fun s =>
      andThen (r12f m s s.T.Ter s.T.Tfr s.T.Tea s.w.fca s.w.Eta s.w.A s.w.R) fun s =>
      andThen (s.set_Trule 12) fun s =>
      andThen (fcEturf m s s.T.Tstrain s.w.esi s.w.fi s.w.esf s.w.ff s.w.Ei s.w.Ef s.w.A s.w.R) fun s =>
      andThen (s.set_Tstress s.w.fc) fun s =>
      s.set_Ttangent s.w.Et
    else if s.T.Tstrain ≤ s.w.esrep then
      andThen (r8f s s.T.Teunp s.w.fnewp s.w.Enewp s.w.esrep s.w.frep s.w.Erep) fun s =>
      andThen (s.set_Trule 8) fun s =>
      andThen (RAf m s s.w.esi s.w.fi s.w.Ei s.w.esf s.w.ff s.w.Ef) fun s =>
      andThen (fcEturf m s s.T.Tstrain s.w.esi s.w.fi s.w.esf s.w.ff s.w.Ei s.w.Ef s.w.A s.w.R) fun s =>
      andThen (s.set_Tstress s.w.fc) fun s =>
      s.set_Ttangent s.w.Et
    else
      fcEtpf m s s.T.Tstrain s.T.Te0
  else
    if s.T.Tstrain ≤ s.T.Tea then
      andThen (fcEtpf m s s.T.Tea s.T.Te0) fun s =>
      andThen (s.set_fca s.T.Tstress) fun s =>
      andThen (s.set_Eta s.T.Ttangent) fun s =>
      andThen (s.set_esi s.T.Ter) fun s =>
      andThen (s.set_fi s.T.Tfr) fun s =>
      andThen (s.set_Ei s.par.Ec) fun s =>
      andThen (s.set_esf s.T.Tea) fun s =>
      andThen (RAf m s s.w.esi s.w.fi s.w.Ei s.w.esf s.w.fca s.w.Eta) fun s =>
      andThen (r12f m s s.T.Ter s.T.Tfr s.T.Tea s.w.fca s.w.Eta s.w.A s.w.R) fun s =>
      andThen (s.set_Trule 12) fun s =>
      andThen (fcEturf m s s.T.Tstrain s.w.esi s.w.fi s.w.esf s.w.ff s.w.Ei s.w.Ef s.w.A s.w.R) fun s =>
      andThen (s.set_Tstress s.w.fc) fun s =>
      s.set_Ttangent s.w.Et
    else
      fcEtpf m s s.T.Tstrain s.T.Te0

/-- Lines 649-716 of `setTrialStrain`: the branch `if (Tea<=espln)`. -/
def setTrialStrain_L649 (m : Libm) (s : State) (strain : ℚ) : State :=
  if s.T.Tstrain ≤ s.T.Tea then
    andThen (r3f s s.T.Teunn s.T.Tfunn s.w.espln s.w.Epln) fun s =>
    andThen (RAf m s s.w.esi s.w.fi s.w.Ei s.w.esf s.w.ff s.w.Ef) fun s =>
    andThen (fcEturf m s s.T.Tea s.w.esi s.w.fi s.w.esf s.w.ff s.w.Ei s.w.Ef s.w.A s.w.R) fun s =>
    andThen (s.set_fca s.w.fc) fun s =>
    andThen (s.set_Eta s.w.Et) fun s =>
    andThen (s.set_esi s.T.Ter) fun s =>
    andThen (s.set_fi s.T.Tfr) fun s =>
    andThen (s.set_Ei s.par.Ec) fun s =>
    andThen (s.set_esf s.T.Tea) fun s =>
    andThen (RAf m s s.w.esi s.w.fi s.w.Ei s.w.esf s.w.fca s.w.Eta) fun s =>
    andThen (r12f m s s.T.Ter s.T.Tfr s.T.Tea s.w.fca s.w.Eta s.w.A s.w.R) fun s =>
    andThen (s.set_Trule 12) fun s =>
    andThen (fcEturf m s s.T.Tstrain s.w.esi s.w.fi s.w.esf s.w.ff s.w.Ei s.w.Ef s.w.A s.w.R) fun s =>
    andThen (s.set_Tstress s.w.fc) fun s =>
    s.set_Ttangent s.w.Et
  else if s.T.Tstrain ≤ s.w.espln then
    andThen (r3f s s.T.Teunn s.T.Tfunn s.w.espln s.w.Epln) fun s =>
    andThen (s.set_Trule 3) fun s =>
    andThen (RAf m s s.w.esi s.w.fi s.w.Ei s.w.esf s.w.ff s.w.Ef) fun s =>
    andThen (fcEturf m s s.T.Tstrain s.w.esi s.w.fi s.w.esf s.w.ff s.w.Ei s.w.Ef s.w.A s.w.R) fun s =>
    andThen (s.set_Tstress s.w.fc) fun s =>
    s.set_Ttangent s.w.Et
  else if s.T.Tstrain ≤ s.T.Teunp then
    andThen (r9f s s.w.espln s.w.Epln s.T.Teunp s.w.fnewp s.w.Enewp) fun s =>
    andThen (s.set_Trule 9) fun s =>
    andThen (RAf m s s.w.esi s.w.fi s.w.Ei s.w.esf s.w.ff s.w.Ef) fun s =>
    andThen (fcEturf m s s.T.Tstrain s.w.esi s.w.fi s.w.esf s.w.ff s.w.Ei s.w.Ef s.w.A s.w.R) fun s =>
    andThen (s.set_Tstress s.w.fc) fun s =>
    s.set_Ttangent s.w.Et
  else if s.T.Tstrain ≤ s.w.esrep then
    andThen (r8f s s.T.Teunp s.w.fnewp s.w.Enewp s.w.esrep s.w.frep s.w.Erep) fun s =>
    andThen (s.set_Trule 8) fun s =>
    andThen (RAf m s s.w.esi s.w.fi s.w.Ei s.w.esf s.w.ff s.w.Ef) fun s =>
    andThen (fcEturf m s s.T.Tstrain s.w.esi s.w.fi s.w.esf s.w.ff s.w.Ei s.w.Ef s.w.A s.w.R) fun s =>
    andThen (s.set_Tstress s.w.fc) fun s =>
    s.set_Ttangent s.w.Et
  else
    fcEtpf m s s.T.Tstrain s.T.Te0

/-- Lines 647-850 of `setTrialStrain`: the branch `if (Teb!=Ter0p)`. -/
def setTrialStrain_L647 (m : Libm) (s : State) (strain : ℚ) : State :=
  if s.T.Tea ≤ s.w.espln then
    setTrialStrain_L649 m s strain
  else if s.T.Tea ≤ s.T.Teunp then
    if s.T.Tstrain ≤ s.T.Tea then
      andThen (r9f s s.w.espln s.w.Epln s.T.Teunp s.w.fnewp s.w.Enewp) fun s =>
      andThen (RAf m s s.w.esi s.w.fi s.w.Ei s.w.esf s.w.ff s.w.Ef) fun s =>
      andThen (fcEturf m s s.T.Tea s.w.esi s.w.fi s.w.esf s.w.ff s.w.Ei s.w.Ef s.w.A s.w.R) fun s =>
      andThen (s.set_fca s.w.fc) fun s =>
      andThen (s.set_Eta s.w.Et) fun s =>
      andThen (s.set_esi s.T.Ter) fun s =>
      andThen (s.set_fi s.T.Tfr) fun s =>
      andThen (s.set_Ei s.par.Ec) fun s =>
      andThen (s.set_esf s.T.Tea) fun s =>
      andThen (RAf m s s.w.esi s.w.fi s.w.Ei s.w.esf s.w.fca s.w.Eta) fun s =>
      andThen (r12f m s s.T.Ter s.T.Tfr s.T.Tea s.w.fca s.w.Eta s.w.A s.w.R) fun s =>
      andThen (s.set_Trule 12) fun s =>
      andThen (fcEturf m s s.T.Tstrain s.w.esi s.w.fi s.w.esf s.w.ff s.w.Ei s.w.Ef s.w.A s.w.R) fun s =>
      andThen (s.set_Tstress s.w.fc) fun s =>
      s.set_Ttangent s.w.Et
    else if s.T.Tstrain ≤ s.T.Teunp then
      andThen (r9f s s.w.espln s.w.Epln s.T.Teunp s.w.fnewp s.w.Enewp) fun s =>
      andThen (s.set_Trule 9) fun s =>
      andThen (RAf m s s.w.esi s.w.fi s.w.Ei s.w.esf s.w.ff s.w.Ef) fun s =>
      andThen (fcEturf m s s.T.Tstrain s.w.esi s.w.fi s.w.esf s.w.ff s.w.Ei s.w.Ef s.w.A s.w.R) fun s =>
      andThen (s.set_Tstress s.w.fc) fun s =>
      s.set_Ttangent s.w.Et
    else if s.T.Tstrain ≤ s.w.esrep then
      andThen (r8f s s.T.Teunp s.w.fnewp s.w.Enewp s.w.esrep s.w.frep s.w.Erep) fun s =>
      andThen (s.set_Trule 8) fun s =>
      andThen (RAf m s s.w.esi s.w.fi s.w.Ei s.w.esf s.w.ff s.w.Ef) fun s =>
      andThen (fcEturf m s s.T.Tstrain s.w.esi s.w.fi s.w.esf s.w.ff s.w.Ei s.w.Ef s.w.A s.w.R) fun s =>
      andThen (s.set_Tstress s.w.fc) fun s =>
      s.set_Ttangent s.w.Et
    else
      fcEtpf m s s.T.Tstrain s.T.Te0
  else if s.T.Tea ≤ s.w.esrep then
    if s.T.Tstrain ≤ s.T.Tea then
      andThen (r8f s s.T.Teunp s.w.fnewp s.w.Enewp s.w.esrep s.w.frep s.w.Erep) fun s =>
      andThen (RAf m s s.w.esi s.w.fi s.w.Ei s.w.esf s.w.ff s.w.Ef) fun s =>
      andThen (fcEturf m s s.T.Tea s.w.esi s.w.fi s.w.esf s.w.ff s.w.Ei s.w.Ef s.w.A s.w.R) fun s =>
      andThen (s.set_fca s.w.fc) fun s =>
      andThen (s.set_Eta s.w.Et) fun s =>
      andThen (s.set_esi s.T.Ter) fun s =>
      andThen (s.set_fi s.T.Tfr) fun s =>
      andThen (s.set_Ei s.par.Ec) fun s =>
      andThen (s.set_esf s.T.Tea) fun s =>
      andThen (RAf m s s.w.esi s.w.fi s.w.Ei s.w.esf s.w.fca s.w.Eta) fun s =>
      andThen (r12f m s s.T.Ter s.T.Tfr s.T.Tea s.w.fca s.w.Eta s.w.A s.w.R) fun s =>
      andThen (s.set_Trule 12) fun s =>
      andThen (fcEturf m s s.T.Tstrain s.w.esi s.w.fi s.w.esf s.w.ff s.w.Ei s.w.Ef s.w.A s.w.R) fun s =>
      andThen (s.set_Tstress s.w.fc) fun s =>
      s.set_Ttangent s.w.Et
    else if s.T.Tstrain ≤ s.w.esrep then
      andThen (r8f s s.T.Teunp s.w.fnewp s.w.Enewp s.w.esrep s.w.frep s.w.Erep) fun s =>
      andThen (s.set_Trule 8) fun s =>
      andThen (RAf m s s.w.esi s.w.fi s.w.Ei s.w.esf s.w.ff s.w.Ef) fun s =>
      andThen (fcEturf m s s.T.Tstrain s.w.esi s.w.fi s.w.esf s.w.ff s.w.Ei s.w.Ef s.w.A s.w.R) fun s =>
      andThen (s.set_Tstress s.w.fc) fun s =>
      s.set_Ttangent s.w.Et
    else
      fcEtpf m s s.T.Tstrain s.T.Te0
  else
    if s.T.Tstrain ≤ s.T.Tea then
      andThen (fcEtpf m s s.T.Tea s.T.Te0) fun s =>
      andThen (s.set_fca s.T.Tstress) fun s =>
      andThen (s.set_Eta s.T.Ttangent) fun s =>
      andThen (s.set_esi s.T.Ter) fun s =>
      andThen (s.set_fi s.T.Tfr) fun s =>
      andThen (s.set_Ei s.par.Ec) fun s =>
      andThen (s.set_esf s.T.Tea) fun s =>
      andThen (RAf m s s.w.esi s.w.fi s.w.Ei s.w.esf s.w.fca s.w.Eta) fun s =>
      andThen (r12f m s s.T.Ter s.T.Tfr s.T.Tea s.w.fca s.w.Eta s.w.A s.w.R) fun s =>
      andThen (s.set_Trule 12) fun s =>
      andThen (fcEturf m s s.T.Tstrain s.w.esi s.w.fi s.w.esf s.w.ff s.w.Ei s.w.Ef s.w.A s.w.R) fun s =>
      andThen (s.set_Tstress s.w.fc) fun s =>
      s.set_Ttangent s.w.Et
    else
      fcEtpf m s s.T.Tstrain s.T.Te0

/-- Lines 855-924 of `setTrialStrain`: the last `else` branch of the `if` chain that starts at line 647. -/
def setTrialStrain_L647_else (m : Libm) (s : State) (strain : ℚ) : State :=
  if s.T.Tea ≤ s.w.esrestp then
    if s.T.Tstrain ≤ s.T.Tea then
      andThen (r88f s s.T.Tea s.T.Te0 s.T.Ter0p s.T.Tfr0p s.T.Teunp s.w.fnewstp s.w.Enewstp s.w.esrestp s.w.frestp s.w.Erestp) fun s =>
      andThen (RAf m s s.w.esi s.w.fi s.w.Ei s.w.esf s.w.ff s.w.Ef) fun s =>
      andThen (fcEturf m s s.T.Tea s.w.esi s.w.fi s.w.esf s.w.ff s.w.Ei s.w.Ef s.w.A s.w.R) fun s =>
      andThen (s.set_esi s.T.Ter) fun s =>
      andThen (s.set_fi s.T.Tfr) fun s =>
      andThen (s.set_Ei s.par.Ec) fun s =>
      andThen (s.set_esf s.T.Tea) fun s =>
      andThen (RAf m s s.w.esi s.w.fi s.w.Ei s.w.esf s.w.fca s.w.Eta) fun s =>
      andThen (r12f m s s.T.Ter s.T.Tfr s.T.Tea s.w.fca s.w.Eta s.w.A s.w.R) fun s =>
      andThen (s.set_Trule 12) fun s =>
      andThen (fcEturf m s s.T.Tstrain s.w.esi s.w.fi s.w.esf s.w.ff s.w.Ei s.w.Ef s.w.A s.w.R) fun s =>
      andThen (s.set_Tstress s.w.fc) fun s =>
      s.set_Ttangent s.w.Et
    else if s.T.Tstrain < s.w.esrestp then
      andThen (r88f s s.T.Tstrain s.T.Te0 s.T.Ter0p s.T.Tfr0p s.T.Teunp s.w.fnewstp s.w.Enewstp s.w.esrestp s.w.frestp s.w.Erestp) fun s =>
      andThen (s.set_Trule 88) fun s =>
      andThen (RAf m s s.w.esi s.w.fi s.w.Ei s.w.esf s.w.ff s.w.Ef) fun s =>
      andThen (fcEturf m s s.T.Tstrain s.w.esi s.w.fi s.w.esf s.w.ff s.w.Ei s.w.Ef s.w.A s.w.R) fun s =>
      andThen (s.set_Tstress s.w.fc) fun s =>
      s.set_Ttangent s.w.Et
    else
      fcEtpf m s s.T.Tstrain s.T.Te0
  else
    if s.T.Tstrain ≤ s.T.Tea then
      andThen (fcEtpf m s s.T.Tea s.T.Te0) fun s =>
      andThen (s.set_fca s.T.Tstress) fun s =>
      andThen (s.set_Eta s.T.Ttangent) fun s =>
      andThen (s.set_esi s.T.Ter) fun s =>
      andThen (s.set_fi s.T.Tfr) fun s =>
      andThen (s.set_Ei s.par.Ec) fun s =>
      andThen (s.set_esf s.T.Tea) fun s =>
      andThen (RAf m s s.w.esi s.w.fi s.w.Ei s.w.esf s.w.fca s.w.Eta) fun s =>
      andThen (r12f m s s.T.Ter s.T.Tfr s.T.Tea s.w.fca s.w.Eta s.w.A s.w.R) fun s =>
      andThen (s.set_Trule 12) fun s =>
      andThen (fcEturf m s s.T.Tstrain s.w.esi s.w.fi s.w.esf s.w.ff s.w.Ei s.w.Ef s.w.A s.w.R) fun s =>
      andThen (s.set_Tstress s.w.fc) fun s =>
      s.set_Ttangent s.w.Et
    else
      fcEtpf m s s.T.Tstrain s.T.Te0

/-- Lines 642-925 of `setTrialStrain`: the branch `if (Crule==11.0)`. -/
def setTrialStrain_L642 (m : Libm) (s : State) (strain : ℚ) : State :=
  andThen (s.set_Ter s.C.Cstrain) fun s =>
  andThen (s.set_Tfr s.C.Cstress) fun s =>
  if s.T.Teb ≠ s.T.Ter0p then
    setTrialStrain_L647 m s strain
  else
    setTrialStrain_L647_else m s strain

/-- Lines 1012-1079 of `setTrialStrain`: the branch `if (Tea<=espln)`. -/
def setTrialStrain_L1012 (m : Libm) (s : State) (strain : ℚ) : State :=
  if s.T.Tstrain ≤ s.T.Tea then
    andThen (r3f s s.T.Teunn s.T.Tfunn s.w.espln s.w.Epln) fun s =>
    andThen (RAf m s s.w.esi s.w.fi s.w.Ei s.w.esf s.w.ff s.w.Ef) fun s =>
    andThen (fcEturf m s s.T.Tea s.w.esi s.w.fi s.w.esf s.w.ff s.w.Ei s.w.Ef s.w.A s.w.R) fun s =>
    andThen (s.set_fca s.w.fc) fun s =>
    andThen (s.set_Eta s.w.Et) fun s =>
    andThen (s.set_esi s.T.Ter) fun s =>
    andThen (s.set_fi s.T.Tfr) fun s =>
    andThen (s.set_Ei s.par.Ec) fun s =>
    andThen (s.set_esf s.T.Tea) fun s =>
    andThen (RAf m s s.w.esi s.w.fi s.w.Ei s.w.esf s.w.fca s.w.Eta) fun s =>
    andThen (r12f m s s.T.Ter s.T.Tfr s.T.Tea s.w.fca s.w.Eta s.w.A s.w.R) fun s =>
    andThen (s.set_Trule 12) fun s =>
    andThen (fcEturf m s s.T.Tstrain s.w.esi s.w.fi s.w.esf s.w.ff s.w.Ei s.w.Ef s.w.A s.w.R) fun s =>
    andThen (s.set_Tstress s.w.fc) fun s =>
    s.set_Ttangent s.w.Et
  else if s.T.Tstrain ≤ s.w.espln then
    andThen (r3f s s.T.Teunn s.T.Tfunn s.w.espln s.w.Epln) fun s =>
    andThen (s.set_Trule 3) fun s =>
    andThen (RAf m s s.w.esi s.w.fi s.w.Ei s.w.esf s.w.ff s.w.Ef) fun s =>
    andThen (fcEturf m s s.T.Tstrain s.w.esi s.w.fi s.w.esf s.w.ff s.w.Ei s.w.Ef s.w.A s.w.R) fun s =>
    andThen (s.set_Tstress s.w.fc) fun s =>
    s.set_Ttangent s.w.Et
  else if s.T.Tstrain ≤ s.T.Teunp then
    andThen (r9f s s.w.espln s.w.Epln s.T.Teunp s.w.fnewp s.w.Enewp) fun s =>
    andThen (s.set_Trule 9) fun s =>
    andThen (RAf m s s.w.esi s.w.fi s.w.Ei s.w.esf s.w.ff s.w.Ef) fun s =>
    andThen (fcEturf m s s.T.Tstrain s.w.esi s.w.fi s.w.esf s.w.ff s.w.Ei s.w.Ef s.w.A s.w.R) fun s =>
    andThen (s.set_Tstress s.w.fc) fun s =>
    s.set_Ttangent s.w.Et
  else if s.T.Tstrain ≤ s.w.esrep then
    andThen (r8f s s.T.Teunp s.w.fnewp s.w.Enewp s.w.esrep s.w.frep s.w.Erep) fun s =>
    andThen (s.set_Trule 8) fun s =>
    andThen (RAf m s s.w.esi s.w.fi s.w.Ei s.w.esf s.w.ff s.w.Ef) fun s =>
    andThen (fcEturf m s s.T.Tstrain s.w.esi s.w.fi s.w.esf s.w.ff s.w.Ei s.w.Ef s.w.A s.w.R) fun s =>
    andThen (s.set_Tstress s.w.fc) fun s =>
    s.set_Ttangent s.w.Et
  else
    fcEtpf m s s.T.Tstrain s.T.Te0

/-- Lines 1004-1211 of `setTrialStrain`: the branch `if (Cstrain>=Teunn)`. -/
def setTrialStrain_L1004 (m : Libm) (s : State) (strain : ℚ) : State :=
  andThen (s.set_Ter s.C.Cstrain) fun s =>
  andThen (s.set_Tfr s.C.Cstress) fun s =>
  andThen (s.set_Teb s.T.Ter) fun s =>
  andThen (s.set_Tea s.T.Ter0n) fun s =>
  if s.T.Tea ≤ s.w.espln then
    setTrialStrain_L1012 m s strain
  else if s.T.Tea ≤ s.T.Teunp then
    if s.T.Tstrain ≤ s.T.Tea then
      andThen (r9f s s.w.espln s.w.Epln s.T.Teunp s.w.fnewp s.w.Enewp) fun s =>
      andThen (RAf m s s.w.esi s.w.fi s.w.Ei s.w.esf s.w.ff s.w.Ef) fun s =>
      andThen (fcEturf m s s.T.Tea s.w.esi s.w.fi s.w.esf s.w.ff s.w.Ei s.w.Ef s.w.A s.w.R) fun s =>
      andThen (s.set_fca s.w.fc) fun s =>
      andThen (s.set_Eta s.w.Et) fun s =>
      andThen (s.set_esi s.T.Ter) fun s =>
      andThen (s.set_fi s.T.Tfr) fun s =>
      andThen (s.set_Ei s.par.Ec) fun s =>
      andThen (s.set_esf s.T.Tea) fun s =>
      andThen (RAf m s s.w.esi s.w.fi s.w.Ei s.w.esf s.w.fca s.w.Eta) fun s =>
      andThen (r12f m s s.T.Ter s.T.Tfr s.T.Tea s.w.fca s.w.Eta s.w.A s.w.R) fun s =>
      andThen (s.set_Trule 12) fun s =>
      andThen (fcEturf m s s.T.Tstrain s.w.esi s.w.fi s.w.esf s.w.ff s.w.Ei s.w.Ef s.w.A s.w.R) fun s =>
      andThen (s.set_Tstress s.w.fc) fun s =>
      s.set_Ttangent s.w.Et
    else if s.T.Tstrain ≤ s.T.Teunp then
      andThen (r9f s s.w.espln s.w.Epln s.T.Teunp s.w.fnewp s.w.Enewp) fun s =>
      andThen (s.set_Trule 9) fun s =>
      andThen (RAf m s s.w.esi s.w.fi s.w.Ei s.w.esf s.w.ff s.w.Ef) fun s =>
      andThen (fcEturf m s s.T.Tstrain s.w.esi s.w.fi s.w.esf s.w.ff s.w.Ei s.w.Ef s.w.A s.w.R) fun s =>
      andThen (s.set_Tstress s.w.fc) fun s =>
      s.set_Ttangent s.w.Et
    else if s.T.Tstrain ≤ s.w.esrep then
      andThen (r8f s s.T.Teunp s.w.fnewp s.w.Enewp s.w.esrep s.w.frep s.w.Erep) fun s =>
      andThen (s.set_Trule 8) fun s =>
      andThen (RAf m s s.w.esi s.w.fi s.w.Ei s.w.esf s.w.ff s.w.Ef) fun s =>
      andThen (fcEturf m s s.T.Tstrain s.w.esi s.w.fi s.w.esf s.w.ff s.w.Ei s.w.Ef s.w.A s.w.R) fun s =>
      andThen (s.set_Tstress s.w.fc) fun s =>
      s.set_Ttangent s.w.Et
    else
      fcEtpf m s s.T.Tstrain s.T.Te0
  else if s.T.Tea ≤ s.w.esrep then
    if s.T.Tstrain ≤ s.T.Tea then
      andThen (r8f s s.T.Teunp s.w.fnewp s.w.Enewp s.w.esrep s.w.frep s.w.Erep) fun s =>
      andThen (RAf m s s.w.esi s.w.fi s.w.Ei s.w.esf s.w.ff s.w.Ef) fun s =>
      andThen (fcEturf m s s.T.Tea s.w.esi s.w.fi s.w.esf s.w.ff s.w.Ei s.w.Ef s.w.A s.w.R) fun s =>
      andThen (s.set_fca s.w.fc) fun s =>
      andThen (s.set_Eta s.w.Et) fun s =>
      andThen (s.set_esi s.T.Ter) fun s =>
      andThen (s.set_fi s.T.Tfr) fun s =>
      andThen (s.set_Ei s.par.Ec) fun s =>
      andThen (s.set_esf s.T.Tea) fun s =>
      andThen (RAf m s s.w.esi s.w.fi s.w.Ei s.w.esf s.w.fca s.w.Eta) fun s =>
      andThen (r12f m s s.T.Ter s.T.Tfr s.T.Tea s.w.fca s.w.Eta s.w.A s.w.R) fun s =>
      andThen (s.set_Trule 12) fun s =>
      andThen (fcEturf m s s.T.Tstrain s.w.esi s.w.fi s.w.esf s.w.ff s.w.Ei s.w.Ef s.w.A s.w.R) fun s =>
      andThen (s.set_Tstress s.w.fc) fun s =>
      s.set_Ttangent s.w.Et
    else if s.T.Tstrain ≤ s.w.esrep then
      andThen (r8f s s.T.Teunp s.w.fnewp s.w.Enewp s.w.esrep s.w.frep s.w.Erep) fun s =>
      andThen (s.set_Trule 8) fun s =>
      andThen (RAf m s s.w.esi s.w.fi s.w.Ei s.w.esf s.w.ff s.w.Ef) fun s =>
      andThen (fcEturf m s s.T.Tstrain s.w.esi s.w.fi s.w.esf s.w.ff s.w.Ei s.w.Ef s.w.A s.w.R) fun s =>
      andThen (s.set_Tstress s.w.fc) fun s =>
      s.set_Ttangent s.w.Et
    else
      fcEtpf m s s.T.Tstrain s.T.Te0
  else
    if s.T.Tstrain ≤ s.T.Tea then
      andThen (fcEtpf m s s.T.Tea s.T.Te0) fun s =>
      andThen (s.set_fca s.T.Tstress) fun s =>
      andThen (s.set_Eta s.T.Ttangent) fun s =>
      andThen (s.set_esi s.T.Ter) fun s =>
      andThen (s.set_fi s.T.Tfr) fun s =>
      andThen (s.set_Ei s.par.Ec) fun s =>
      andThen (s.set_esf s.T.Tea) fun s =>
      andThen (RAf m s s.w.esi s.w.fi s.w.Ei s.w.esf s.w.fca s.w.Eta) fun s =>
      andThen (r12f m s s.T.Ter s.T.Tfr s.T.Tea s.w.fca s.w.Eta s.w.A s.w.R) fun s =>
      andThen (s.set_Trule 12) fun s =>
      andThen (fcEturf m s s.T.Tstrain s.w.esi s.w.fi s.w.esf s.w.ff s.w.Ei s.w.Ef s.w.A s.w.R) fun s =>
      andThen (s.set_Tstress s.w.fc) fun s =>
      s.set_Ttangent s.w.Et
    else
      fcEtpf m s s.T.Tstrain s.T.Te0

/-- Lines 1002-1269 of `setTrialStrain`: the branch `if (Crule==77.0)`. -/
def setTrialStrain_L1002 (m : Libm) (s : State) (strain : ℚ) : State :=
  if s.C.Cstrain ≥ s.T.Teunn then
    setTrialStrain_L1004 m s strain
  else
    andThen (s.set_Teunn s.C.Cstrain) fun s =>
    andThen (s.set_Tfunn s.C.Cstress) fun s =>
    andThen (e0eunpfunpf m s s.T.Te0 s.T.Teunp s.T.Tfunp s.T.Teunn s.T.Tfunn) fun s =>
    andThen (esplnf s s.T.Teunn s.T.Tfunn) fun s =>
    andThen (Eplnf m s s.T.Teunn) fun s =>
    andThen (fnewpf s s.T.Tfunp s.T.Teunp s.T.Te0) fun s =>
    andThen (Enewpf s s.T.Teunp s.T.Tfunp s.T.Te0 s.w.espln) fun s =>
    andThen (esrepf s s.T.Teunp s.T.Te0) fun s =>
    andThen (freErepf m s s.T.Teunp s.T.Te0) fun s =>
    if s.T.Tstrain ≤ s.w.espln then
      andThen (r3f s s.T.Teunn s.T.Tfunn s.w.espln s.w.Epln) fun s =>
      andThen (s.set_Trule 3) fun s =>
      andThen (RAf m s s.w.esi s.w.fi s.w.Ei s.w.esf s.w.ff s.w.Ef) fun s =>
      andThen (fcEturf m s s.T.Tstrain s.w.esi s.w.fi s.w.esf s.w.ff s.w.Ei s.w.Ef s.w.A s.w.R) fun s =>
      andThen (s.set_Tstress s.w.fc) fun s =>
      s.set_Ttangent s.w.Et
    else if s.T.Tstrain ≤ s.T.Teunp then
      andThen (r9f s s.w.espln s.w.Epln s.T.Teunp s.w.fnewp s.w.Enewp) fun s =>
      andThen (s.set_Trule 9) fun s =>
      andThen (RAf m s s.w.esi s.w.fi s.w.Ei s.w.esf s.w.ff s.w.Ef) fun s =>
      andThen (fcEturf m s s.T.Tstrain s.w.esi s.w.fi s.w.esf s.w.ff s.w.Ei s.w.Ef s.w.A s.w.R) fun s =>
      andThen (s.set_Tstress s.w.fc) fun s =>
      s.set_Ttangent s.w.Et
    else if s.T.Tstrain ≤ s.w.esrep then
      andThen (r8f s s.T.Teunp s.w.fnewp s.w.Enewp s.w.esrep s.w.frep s.w.Erep) fun s =>
      andThen (s.set_Trule 8) fun s =>
      andThen (RAf m s s.w.esi s.w.fi s.w.Ei s.w.esf s.w.ff s.w.Ef) fun s =>
      andThen (fcEturf m s s.T.Tstrain s.w.esi s.w.fi s.w.esf s.w.ff s.w.Ei s.w.Ef s.w.A s.w.R) fun s =>
      andThen (s.set_Tstress s.w.fc) fun s =>
      s.set_Ttangent s.w.Et
    else
      fcEtpf m s s.T.Tstrain s.T.Te0

/-- Lines 367-1270 of `setTrialStrain`: the branch `if (Tstrain > Cstrain)`. -/
def setTrialStrain_L367 (m : Libm) (s : State) (strain : ℚ) : State :=
  if s.C.Crule = 1 ∨ s.C.Crule = 5 ∨ s.C.Crule = 7 then
    andThen (setTrialStrain_L371_L382 m s strain) fun s =>
    if s.T.Tstrain ≤ s.w.espln then
      andThen (r3f s s.T.Teunn s.T.Tfunn s.w.espln s.w.Epln) fun s =>
      andThen (s.set_Trule 3) fun s =>
      andThen (RAf m s s.w.esi s.w.fi s.w.Ei s.w.esf s.w.ff s.w.Ef) fun s =>
      andThen (fcEturf m s s.T.Tstrain s.w.esi s.w.fi s.w.esf s.w.ff s.w.Ei s.w.Ef s.w.A s.w.R) fun s =>
      andThen (s.set_Tstress s.w.fc) fun s =>
      s.set_Ttangent s.w.Et
    else if s.T.Tstrain ≤ s.T.Teunp then
      andThen (r9f s s.w.espln s.w.Epln s.T.Teunp s.w.fnewp s.w.Enewp) fun s =>
      andThen (s.set_Trule 9) fun s =>
      andThen (RAf m s s.w.esi s.w.fi s.w.Ei s.w.esf s.w.ff s.w.Ef) fun s =>
      andThen (fcEturf m s s.T.Tstrain s.w.esi s.w.fi s.w.esf s.w.ff s.w.Ei s.w.Ef s.w.A s.w.R) fun s =>
      andThen (s.set_Tstress s.w.fc) fun s =>
      s.set_Ttangent s.w.Et
    else if s.T.Tstrain ≤ s.w.esrep then
      andThen (r8f s s.T.Teunp s.w.fnewp s.w.Enewp s.w.esrep s.w.frep s.w.Erep) fun s =>
      andThen (s.set_Trule 8) fun s =>
      andThen (RAf m s s.w.esi s.w.fi s.w.Ei s.w.esf s.w.ff s.w.Ef) fun s =>
      andThen (fcEturf m s s.T.Tstrain s.w.esi s.w.fi s.w.esf s.w.ff s.w.Ei s.w.Ef s.w.A s.w.R) fun s =>
      andThen (s.set_Tstress s.w.fc) fun s =>
      s.set_Ttangent s.w.Et
    else
      fcEtpf m s s.T.Tstrain s.T.Te0
  else if s.C.Crule = 10 then
    setTrialStrain_L427 m s strain
  else if s.C.Crule = 11 then
    setTrialStrain_L642 m s strain
  else if s.C.Crule = 13 ∨ s.C.Crule = 15 then
    andThen (s.set_Ter s.C.Cstrain) fun s =>
    andThen (s.set_Tfr s.C.Cstress) fun s =>
    andThen (
        if s.C.Crule = 13 then
          andThen (s.set_Tea s.T.Ter) fun s =>
          andThen (s.set_fa s.T.Tfr) fun s =>
          eb1415f s s.T.Tea s.w.fa s.w.Esecn
        else if s.C.Crule = 15 then
          andThen (s.set_Tea s.C.Cea) fun s =>
          s.set_Teb s.C.Ceb
        else
          s
      ) fun s =>
    if s.T.Tstrain ≤ s.T.Teb then
      andThen (r14f s s.T.Ter s.T.Tfr s.T.Teb) fun s =>
      andThen (s.set_Trule 14) fun s =>
      andThen (RAf m s s.w.esi s.w.fi s.w.Ei s.w.esf s.w.ff s.w.Ef) fun s =>
      andThen (fcEturf m s s.T.Tstrain s.w.esi s.w.fi s.w.esf s.w.ff s.w.Ei s.w.Ef s.w.A s.w.R) fun s =>
      andThen (s.set_Tstress s.w.fc) fun s =>
      s.set_Ttangent s.w.Et
    else if s.T.Tstrain < s.T.Teunp then
      andThen (r66f s s.T.Tstrain s.T.Te0) fun s =>
      s.set_Trule 66
    else
      andThen (fcEtpr6f s s.T.Tstrain s.T.Te0) fun s =>
      s.set_Trule 6
  else if s.C.Crule = 4 then
    andThen (s.set_Ter0p s.C.Cstrain) fun s =>
    andThen (s.set_Tfr0p s.C.Cstress) fun s =>
    andThen (s.set_Teb s.T.Ter0p) fun s =>
    andThen (fnewstpf s s.T.Tfunp s.w.delfp s.T.Teunp s.T.Ter0p s.w.esplp s.T.Te0) fun s =>
    andThen (Enewstpf s s.w.fnewstp s.T.Tfr0p s.T.Teunp s.T.Ter0p) fun s =>
    andThen (esrestpf s s.T.Teunp s.w.delep s.T.Ter0p s.w.esplp) fun s =>
    andThen (freErestpf m s s.T.Teunp s.T.Tfunp s.T.Ter0p s.T.Te0 s.w.espln) fun s =>
    if s.T.Tstrain < s.w.esrestp then
      andThen (r88f s s.T.Tstrain s.T.Te0 s.T.Ter0p s.T.Tfr0p s.T.Teunp s.w.fnewstp s.w.Enewstp s.w.esrestp s.w.frestp s.w.Erestp) fun s =>
      andThen (s.set_Trule 88) fun s =>
      andThen (RAf m s s.w.esi s.w.fi s.w.Ei s.w.esf s.w.ff s.w.Ef) fun s =>
      andThen (fcEturf m s s.T.Tstrain s.w.esi s.w.fi s.w.esf s.w.ff s.w.Ei s.w.Ef s.w.A s.w.R) fun s =>
      andThen (s.set_Tstress s.w.fc) fun s =>
      s.set_Ttangent s.w.Et
    else
      fcEtpf m s s.T.Tstrain s.T.Te0
  else if s.C.Crule = 77 then
    setTrialStrain_L1002 m s strain
  else
    s

/-- Lines 1423-1506 of `setTrialStrain`: the branch `if (Teb>=esplp)`. -/
def setTrialStrain_L1423 (m : Libm) (s : State) (strain : ℚ) : State :=
  if s.T.Tstrain ≥ s.T.Teb then
    andThen (r4f s s.T.Teunp s.T.Tfunp s.w.esplp s.w.Eplp) fun s =>
    andThen (RAf m s s.w.esi s.w.fi s.w.Ei s.w.esf s.w.ff s.w.Ef) fun s =>
    andThen (fcEturf m s s.T.Teb s.w.esi s.w.fi s.w.esf s.w.ff s.w.Ei s.w.Ef s.w.A s.w.R) fun s =>
    andThen (s.set_fcb s.w.fc) fun s =>
    andThen (s.set_Etb s.w.Et) fun s =>
    andThen (s.set_esi s.T.Ter) fun s =>
    andThen (s.set_fi s.T.Tfr) fun s =>
    andThen (s.set_Ei s.par.Ec) fun s =>
    andThen (s.set_esf s.T.Teb) fun s =>
    andThen (RAf m s s.w.esi s.w.fi s.w.Ei s.w.esf s.w.fcb s.w.Etb) fun s =>
    andThen (r11f m s s.T.Ter s.T.Tfr s.T.Teb s.w.fcb s.w.Etb s.w.A s.w.R) fun s =>
    andThen (s.set_Trule 11) fun s =>
    andThen (fcEturf m s s.T.Tstrain s.w.esi s.w.fi s.w.esf s.w.ff s.w.Ei s.w.Ef s.w.A s.w.R) fun s =>
    andThen (s.set_Tstress s.w.fc) fun s =>
    s.set_Ttangent s.w.Et
  else if s.T.Tstrain ≥ s.w.esplp then
    andThen (r4f s s.T.Teunp s.T.Tfunp s.w.esplp s.w.Eplp) fun s =>
    andThen (s.set_Trule 4) fun s =>
    andThen (RAf m s s.w.esi s.w.fi s.w.Ei s.w.esf s.w.ff s.w.Ef) fun s =>
    andThen (fcEturf m s s.T.Tstrain s.w.esi s.w.fi s.w.esf s.w.ff s.w.Ei s.w.Ef s.w.A s.w.R) fun s =>
    andThen (s.set_Tstress s.w.fc) fun s =>
    s.set_Ttangent s.w.Et
  else if s.T.Tstrain ≥ s.T.Teunn then
    andThen (r10f s s.w.esplp s.w.Eplp s.T.Teunn s.w.fnewn s.w.Enewn) fun s =>
    andThen (s.set_Trule 10) fun s =>
    andThen (RAf m s s.w.esi s.w.fi s.w.Ei s.w.esf s.w.ff s.w.Ef) fun s =>
    andThen (fcEturf m s s.T.Tstrain s.w.esi s.w.fi s.w.esf s.w.ff s.w.Ei s.w.Ef s.w.A s.w.R) fun s =>
    andThen (s.set_Esectest ((s.w.ff - s.w.fi) / (s.w.esf - s.w.esi))) fun s =>
    andThen (
        if s.w.Et = s.w.Esectest then
          if s.T.Tstrain ≥ s.w.espln then
            andThen (s.set_fc 0) fun s =>
            andThen (s.set_Et 0) fun s =>
            s.set_Trule 10
          else
            andThen (s.set_Et s.w.Enewn) fun s =>
            andThen (s.set_fc (s.w.Et * (s.T.Tstrain - s.w.espln))) fun s =>
            s.set_Trule 10
        else
          s
      ) fun s =>
    andThen (s.set_Tstress s.w.fc) fun s =>
    s.set_Ttangent s.w.Et
  else if s.T.Tstrain ≥ s.w.esren then
    andThen (r7f s s.T.Teunn s.w.fnewn s.w.Enewn s.w.esren s.w.fren s.w.Eren) fun s =>
    andThen (s.set_Trule 7) fun s =>
    andThen (RAf m s s.w.esi s.w.fi s.w.Ei s.w.esf s.w.ff s.w.Ef) fun s =>
    andThen (fcEturf m s s.T.Tstrain s.w.esi s.w.fi s.w.esf s.w.ff s.w.Ei s.w.Ef s.w.A s.w.R) fun s =>
    andThen (s.set_Tstress s.w.fc) fun s =>
    s.set_Ttangent s.w.Et
  else
    fcEtnf m s s.T.Tstrain

/-- Lines 1509-1602 of `setTrialStrain`: the branch `if (Teb>=Teunn)`. -/
def setTrialStrain_L1509 (m : Libm) (s : State) (strain : ℚ) : State :=
  if s.T.Tstrain ≥ s.T.Teb then
    andThen (r10f s s.w.esplp s.w.Eplp s.T.Teunn s.w.fnewn s.w.Enewn) fun s =>
    andThen (s.set_esi10 s.w.esi) fun s =>
    andThen (s.set_fi10 s.w.fi) fun s =>
    andThen (s.set_Ei10 s.w.Ei) fun s =>
    andThen (s.set_esf10 s.w.esf) fun s =>
    andThen (s.set_ff10 s.w.ff) fun s =>
    andThen (s.set_Ef10 s.w.Ef) fun s =>
    andThen (RAf m s s.w.esi10 s.w.fi10 s.w.Ei10 s.w.esf10 s.w.ff10 s.w.Ef10) fun s =>
    andThen (s.set_R10 s.w.R) fun s =>
    andThen (s.set_A10 s.w.A) fun s =>
    andThen (fcEturf m s s.T.Teb s.w.esi10 s.w.fi10 s.w.esf10 s.w.ff10 s.w.Ei10 s.w.Ef10 s.w.A10 s.w.R10) fun s =>
    andThen (s.set_fcb s.w.fc) fun s =>
    andThen (s.set_Etb s.w.Et) fun s =>
    andThen (s.set_Esectest10 ((s.w.ff10 - s.w.fi10) / (s.w.esf10 - s.w.esi10))) fun s =>
    andThen (
        if s.w.Etb = s.w.Esectest10 then
          if s.T.Teb ≥ s.w.espln then
            andThen (s.set_fcb 0) fun s =>
            s.set_Etb 0
          else
            andThen (s.set_Etb s.w.Enewn) fun s =>
            s.set_fcb (s.w.Etb * (s.T.Teb - s.w.espln))
        else
          s
      ) fun s =>
    andThen (s.set_esi s.T.Ter) fun s =>
    andThen (s.set_fi s.T.Tfr) fun s =>
    andThen (s.set_Ei s.par.Ec) fun s =>
    andThen (s.set_esf s.T.Teb) fun s =>
    andThen (RAf m s s.w.esi s.w.fi s.w.Ei s.w.esf s.w.fcb s.w.Etb) fun s =>
    andThen (r11f m s s.T.Ter s.T.Tfr s.T.Teb s.w.fcb s.w.Etb s.w.A s.w.R) fun s =>
    andThen (s.set_Trule 11) fun s =>
    andThen (fcEturf m s s.T.Tstrain s.w.esi s.w.fi s.w.esf s.w.ff s.w.Ei s.w.Ef s.w.A s.w.R) fun s =>
    andThen (s.set_Tstress s.w.fc) fun s =>
    s.set_Ttangent s.w.Et
  else if s.T.Tstrain ≥ s.T.Teunn then
    andThen (r10f s s.w.esplp s.w.Eplp s.T.Teunn s.w.fnewn s.w.Enewn) fun s =>
    andThen (s.set_Trule 10) fun s =>
    andThen (RAf m s s.w.esi s.w.fi s.w.Ei s.w.esf s.w.ff s.w.Ef) fun s =>
    andThen (fcEturf m s s.T.Tstrain s.w.esi s.w.fi s.w.esf s.w.ff s.w.Ei s.w.Ef s.w.A s.w.R) fun s =>
    andThen (s.set_Esectest ((s.w.ff - s.w.fi) / (s.w.esf - s.w.esi))) fun s =>
    andThen (
        if s.w.Et = s.w.Esectest then
          if s.T.Tstrain ≥ s.w.espln then
            andThen (s.set_fc 0) fun s =>
            andThen (s.set_Et 0) fun s =>
            s.set_Trule 10
          else
            andThen (s.set_Et s.w.Enewn) fun s =>
            andThen (s.set_fc (s.w.Et * (s.T.Tstrain - s.w.espln))) fun s =>
            s.set_Trule 10
        else
          s
      ) fun s =>
    andThen (s.set_Tstress s.w.fc) fun s =>
    s.set_Ttangent s.w.Et
  else if s.T.Tstrain ≥ s.w.esren then
    andThen (r7f s s.T.Teunn s.w.fnewn s.w.Enewn s.w.esren s.w.fren s.w.Eren) fun s =>
    andThen (s.set_Trule 7) fun s =>
    andThen (RAf m s s.w.esi s.w.fi s.w.Ei s.w.esf s.w.ff s.w.Ef) fun s =>
    andThen (fcEturf m s s.T.Tstrain s.w.esi s.w.fi s.w.esf s.w.ff s.w.Ei s.w.Ef s.w.A s.w.R) fun s =>
    andThen (s.set_Tstress s.w.fc) fun s =>
    s.set_Ttangent s.w.Et
  else
    fcEtnf m s s.T.Tstrain

/-- Lines 1421-1680 of `setTrialStrain`: the branch `if (Tea!=Ter0n)`. -/
def setTrialStrain_L1421 (m : Libm) (s : State) (strain : ℚ) : State :=
  if s.T.Teb ≥ s.w.esplp then
    setTrialStrain_L1423 m s strain
  else if s.T.Teb ≥ s.T.Teunn then
    setTrialStrain_L1509 m s strain
  else if s.T.Teb ≥ s.w.esren then
    if s.T.Tstrain ≥ s.T.Teb then
      andThen (r7f s s.T.Teunn s.w.fnewn s.w.Enewn s.w.esren s.w.fren s.w.Eren) fun s =>
      andThen (RAf m s s.w.esi s.w.fi s.w.Ei s.w.esf s.w.ff s.w.Ef) fun s =>
      andThen (fcEturf m s s.T.Teb s.w.esi s.w.fi s.w.esf s.w.ff s.w.Ei s.w.Ef s.w.A s.w.R) fun s =>
      andThen (s.set_fcb s.w.fc) fun s =>
      andThen (s.set_Etb s.w.Et) fun s =>
      andThen (s.set_esi s.T.Ter) fun s =>
      andThen (s.set_fi s.T.Tfr) fun s =>
      andThen (s.set_Ei s.par.Ec) fun s =>
      andThen (s.set_esf s.T.Teb) fun s =>
      andThen (RAf m s s.w.esi s.w.fi s.w.Ei s.w.esf s.w.fcb s.w.Etb) fun s =>
      andThen (r11f m s s.T.Ter s.T.Tfr s.T.Teb s.w.fcb s.w.Etb s.w.A s.w.R) fun s =>
      andThen (s.set_Trule 11) fun s =>
      andThen (fcEturf m s s.T.Tstrain s.w.esi s.w.fi s.w.esf s.w.ff s.w.Ei s.w.Ef s.w.A s.w.R) fun s =>
      andThen (s.set_Tstress s.w.fc) fun s =>
      s.set_Ttangent s.w.Et
    else if s.T.Tstrain ≥ s.w.esren then
      andThen (r7f s s.T.Teunn s.w.fnewn s.w.Enewn s.w.esren s.w.fren s.w.Eren) fun s =>
      andThen (s.set_Trule 7) fun s =>
      andThen (RAf m s s.w.esi s.w.fi s.w.Ei s.w.esf s.w.ff s.w.Ef) fun s =>
      andThen (fcEturf m s s.T.Tstrain s.w.esi s.w.fi s.w.esf s.w.ff s.w.Ei s.w.Ef s.w.A s.w.R) fun s =>
      andThen (s.set_Tstress s.w.fc) fun s =>
      s.set_Ttangent s.w.Et
    else
      fcEtnf m s s.T.Tstrain
  else
    if s.T.Tstrain ≥ s.T.Teb then
      andThen (fcEtnf m s s.T.Teb) fun s =>
      andThen (s.set_fcb s.T.Tstress) fun s =>
      andThen (s.set_Etb s.T.Ttangent) fun s =>
      andThen (s.set_esi s.T.Ter) fun s =>
      andThen (s.set_fi s.T.Tfr) fun s =>
      andThen (s.set_Ei s.par.Ec) fun s =>
      andThen (s.set_esf s.T.Teb) fun s =>
      andThen (RAf m s s.w.esi s.w.fi s.w.Ei s.w.esf s.w.fcb s.w.Etb) fun s =>
      andThen (r11f m s s.T.Ter s.T.Tfr s.T.Teb s.w.fcb s.w.Eta s.w.A s.w.R) fun s =>
      andThen (s.set_Trule 11) fun s =>
      andThen (fcEturf m s s.T.Tstrain s.w.esi s.w.fi s.w.esf s.w.ff s.w.Ei s.w.Ef s.w.A s.w.R) fun s =>
      andThen (s.set_Tstress s.w.fc) fun s =>
      s.set_Ttangent s.w.Et
    else
      fcEtnf m s s.T.Tstrain

/-- Lines 1685-1758 of `setTrialStrain`: the last `else` branch of the `if` chain that starts at line 1421. -/
def setTrialStrain_L1421_else (m : Libm) (s : State) (strain : ℚ) : State :=
  if s.T.Teb ≥ s.w.esrestn then
    if s.T.Tstrain ≥ s.T.Teb then
      andThen (r77f s s.T.Teb s.T.Te0 s.T.Ter0n s.T.Tfr0n s.T.Teunn s.w.fnewstn s.w.Enewstn s.w.esrestn s.w.frestn s.w.Erestn) fun s =>
      andThen (RAf m s s.w.esi s.w.fi s.w.Ei s.w.esf s.w.ff s.w.Ef) fun s =>
      andThen (fcEturf m s s.T.Teb s.w.esi s.w.fi s.w.esf s.w.ff s.w.Ei s.w.Ef s.w.A s.w.R) fun s =>
      andThen (s.set_fcb s.w.fc) fun s =>
      andThen (s.set_Etb s.w.Et) fun s =>
      andThen (s.set_esi s.T.Ter) fun s =>
      andThen (s.set_fi s.T.Tfr) fun s =>
      andThen (s.set_Ei s.par.Ec) fun s =>
      andThen (s.set_esf s.T.Teb) fun s =>
      andThen (RAf m s s.w.esi s.w.fi s.w.Ei s.w.esf s.w.fcb s.w.Etb) fun s =>
      andThen (r11f m s s.T.Ter s.T.Tfr s.T.Teb s.w.fcb s.w.Etb s.w.A s.w.R) fun s =>
      andThen (s.set_Trule 11) fun s =>
      andThen (fcEturf m s s.T.Tstrain s.w.esi s.w.fi s.w.esf s.w.ff s.w.Ei s.w.Ef s.w.A s.w.R) fun s =>
      andThen (s.set_Tstress s.w.fc) fun s =>
      s.set_Ttangent s.w.Et
    else if s.T.Tstrain > s.w.esrestn then
      andThen (r77f s s.T.Tstrain s.T.Te0 s.T.Ter0n s.T.Tfr0n s.T.Teunn s.w.fnewstn s.w.Enewstn s.w.esrestn s.w.frestn s.w.Erestn) fun s =>
      andThen (s.set_Trule 77) fun s =>
      andThen (RAf m s s.w.esi s.w.fi s.w.Ei s.w.esf s.w.ff s.w.Ef) fun s =>
      andThen (fcEturf m s s.T.Tstrain s.w.esi s.w.fi s.w.esf s.w.ff s.w.Ei s.w.Ef s.w.A s.w.R) fun s =>
      andThen (s.set_Tstress s.w.fc) fun s =>
      s.set_Ttangent s.w.Et
    else
      fcEtnf m s s.T.Tstrain
  else
    if s.T.Tstrain ≥ s.T.Teb then
      andThen (fcEtnf m s s.T.Teb) fun s =>
      andThen (s.set_fcb s.T.Tstress) fun s =>
      andThen (s.set_Etb s.T.Ttangent) fun s =>
      andThen (s.set_esi s.T.Ter) fun s =>
      andThen (s.set_fi s.T.Tfr) fun s =>
      andThen (s.set_Ei s.par.Ec) fun s =>
      andThen (s.set_esf s.T.Teb) fun s =>
      andThen (RAf m s s.w.esi s.w.fi s.w.Ei s.w.esf s.w.fcb s.w.Etb) fun s =>
      andThen (r11f m s s.T.Ter s.T.Tfr s.T.Teb s.w.fcb s.w.Etb s.w.A s.w.R) fun s =>
      andThen (s.set_Trule 11) fun s =>
      andThen (fcEturf m s s.T.Tstrain s.w.esi s.w.fi s.w.esf s.w.ff s.w.Ei s.w.Ef s.w.A s.w.R) fun s =>
      andThen (s.set_Tstress s.w.fc) fun s =>
      s.set_Ttangent s.w.Et
    else
      fcEtnf m s s.T.Tstrain

/-- Lines 1419-1759 of `setTrialStrain`: the branch `if (Crule==11.0)`. -/
def setTrialStrain_L1419 (m : Libm) (s : State) (strain : ℚ) : State :=
  if s.T.Tea ≠ s.T.Ter0n then
    setTrialStrain_L1421 m s strain
  else
    setTrialStrain_L1421_else m s strain

/-- Lines 1762-1861 of `setTrialStrain`: the branch `if (Crule==15.0)`. -/
def setTrialStrain_L1762 (m : Libm) (s : State) (strain : ℚ) : State :=
  if s.T.Tstrain ≥ s.T.Tea then
    andThen (r13f s s.T.Ted s.T.Teunn s.w.fnewn s.w.Enewn) fun s =>
    andThen (s.set_esi13 s.w.esi) fun s =>
    andThen (s.set_fi13 s.w.fi) fun s =>
    andThen (s.set_Ei13 s.w.Ei) fun s =>
    andThen (s.set_esf13 s.w.esf) fun s =>
    andThen (s.set_ff13 s.w.ff) fun s =>
    andThen (s.set_Ef13 s.w.Ef) fun s =>
    andThen (RAf m s s.w.esi13 s.w.fi13 s.w.Ei13 s.w.esf13 s.w.ff13 s.w.Ef13) fun s =>
    andThen (s.set_R13 s.w.R) fun s =>
    andThen (s.set_A13 s.w.A) fun s =>
    andThen (fcEturf m s s.T.Tea s.w.esi13 s.w.fi13 s.w.esf13 s.w.ff13 s.w.Ei13 s.w.Ef13 s.w.A13 s.w.R13) fun s =>
    andThen (s.set_fca s.w.fc) fun s =>
    andThen (s.set_Eta s.w.Et) fun s =>
    andThen (s.set_Esectest13 ((s.w.ff13 - s.w.fi13) / (s.w.esf13 - s.w.esi13))) fun s =>
    andThen (
        if s.w.Eta = s.w.Esectest13 then
          if s.T.Tea ≥ s.w.espln then
            andThen (s.set_fca 0) fun s =>
            s.set_Eta 0
          else
            andThen (s.set_Eta s.w.Enewn) fun s =>
            s.set_fca (s.w.Et * (s.T.Tea - s.w.espln))
        else
          s
      ) fun s =>
    andThen (s.set_esi s.T.Ter) fun s =>
    andThen (s.set_fi s.T.Tfr) fun s =>
    andThen (s.set_Ei s.par.Ec) fun s =>
    andThen (s.set_esf s.T.Tea) fun s =>
    andThen (RAf m s s.w.esi s.w.fi s.w.Ei s.w.esf s.w.fca s.w.Eta) fun s =>
    andThen (r15f m s s.T.Ter s.T.Tfr s.T.Tea s.w.fca s.w.Eta s.w.A s.w.R) fun s =>
    andThen (s.set_Trule 15) fun s =>
    andThen (fcEturf m s s.T.Tstrain s.w.esi s.w.fi s.w.esf s.w.ff s.w.Ei s.w.Ef s.w.A s.w.R) fun s =>
    andThen (s.set_Tstress s.w.fc) fun s =>
    s.set_Ttangent s.w.Et
  else if s.T.Tstrain ≥ s.T.Teunn then
    andThen (r13f s s.T.Ted s.T.Teunn s.w.fnewn s.w.Enewn) fun s =>
    andThen (s.set_Trule 13) fun s =>
    andThen (RAf m s s.w.esi s.w.fi s.w.Ei s.w.esf s.w.ff s.w.Ef) fun s =>
    andThen (fcEturf m s s.T.Tstrain s.w.esi s.w.fi s.w.esf s.w.ff s.w.Ei s.w.Ef s.w.A s.w.R) fun s =>
    andThen (s.set_Esectest ((s.w.ff - s.w.fi) / (s.w.esf - s.w.esi))) fun s =>
    andThen (
        if s.w.Et = s.w.Esectest then
          if s.T.Tstrain ≥ s.w.espln then
            andThen (s.set_fc 0) fun s =>
            andThen (s.set_Et 0) fun s =>
            s.set_Trule 13
          else
            andThen (s.set_Et s.w.Enewn) fun s =>
            andThen (s.set_fc (s.w.Et * (s.T.Tstrain - s.w.espln))) fun s =>
            s.set_Trule 13
        else
          s
      ) fun s =>
    andThen (s.set_Tstress s.w.fc) fun s =>
    s.set_Ttangent s.w.Et
  else if s.T.Tstrain ≥ s.w.esren then
    andThen (r7f s s.T.Teunn s.w.fnewn s.w.Enewn s.w.esren s.w.fren s.w.Eren) fun s =>
    andThen (s.set_Trule 7) fun s =>
    andThen (RAf m s s.w.esi s.w.fi s.w.Ei s.w.esf s.w.ff s.w.Ef) fun s =>
    andThen (fcEturf m s s.T.Tstrain s.w.esi s.w.fi s.w.esf s.w.ff s.w.Ei s.w.Ef s.w.A s.w.R) fun s =>
    andThen (s.set_Tstress s.w.fc) fun s =>
    s.set_Ttangent s.w.Et
  else
    fcEtnf m s s.T.Tstrain

/-- Lines 1279-1862 of `setTrialStrain`: the last `else` branch of the `if` chain that starts at line 367. -/
def setTrialStrain_L367_else (m : Libm) (s : State) (strain : ℚ) : State :=
  if s.C.Crule = 4 ∨ s.C.Crule = 10 ∨ s.C.Crule = 7 then
    if s.T.Tstrain ≥ s.w.esplp then
      andThen (r4f s s.T.Teunp s.T.Tfunp s.w.esplp s.w.Eplp) fun s =>
      andThen (s.set_Trule 4) fun s =>
      andThen (RAf m s s.w.esi s.w.fi s.w.Ei s.w.esf s.w.ff s.w.Ef) fun s =>
      andThen (fcEturf m s s.T.Tstrain s.w.esi s.w.fi s.w.esf s.w.ff s.w.Ei s.w.Ef s.w.A s.w.R) fun s =>
      andThen (s.set_Tstress s.w.fc) fun s =>
      s.set_Ttangent s.w.Et
    else if s.T.Tstrain ≥ s.T.Teunn then
      andThen (r10f s s.w.esplp s.w.Eplp s.T.Teunn s.w.fnewn s.w.Enewn) fun s =>
      andThen (s.set_Trule 10) fun s =>
      andThen (RAf m s s.w.esi s.w.fi s.w.Ei s.w.esf s.w.ff s.w.Ef) fun s =>
      andThen (fcEturf m s s.T.Tstrain s.w.esi s.w.fi s.w.esf s.w.ff s.w.Ei s.w.Ef s.w.A s.w.R) fun s =>
      andThen (s.set_Esectest ((s.w.ff - s.w.fi) / (s.w.esf - s.w.esi))) fun s =>
      andThen (
          if s.w.Et = s.w.Esectest then
            if s.T.Tstrain ≥ s.w.espln then
              andThen (s.set_fc 0) fun s =>
              andThen (s.set_Et 0) fun s =>
              s.set_Trule 10
            else
              andThen (s.set_Et s.w.Enewn) fun s =>
              andThen (s.set_fc (s.w.Et * (s.T.Tstrain - s.w.espln))) fun s =>
              s.set_Trule 10
          else
            s
        ) fun s =>
      andThen (s.set_Tstress s.w.fc) fun s =>
      s.set_Ttangent s.w.Et
    else if s.T.Tstrain ≥ s.w.esren then
      andThen (r7f s s.T.Teunn s.w.fnewn s.w.Enewn s.w.esren s.w.fren s.w.Eren) fun s =>
      andThen (s.set_Trule 7) fun s =>
      andThen (RAf m s s.w.esi s.w.fi s.w.Ei s.w.esf s.w.ff s.w.Ef) fun s =>
      andThen (fcEturf m s s.T.Tstrain s.w.esi s.w.fi s.w.esf s.w.ff s.w.Ei s.w.Ef s.w.A s.w.R) fun s =>
      andThen (s.set_Tstress s.w.fc) fun s =>
      s.set_Ttangent s.w.Et
    else
      fcEtnf m s s.T.Tstrain
  else if s.C.Crule = 1 ∨ s.C.Crule = 5 then
    fcEtnf m s s.T.Tstrain
  else if s.C.Crule = 77 then
    if s.T.Tstrain > s.w.esrestn then
      andThen (r77f s s.T.Tstrain s.T.Te0 s.T.Ter0n s.T.Tfr0n s.T.Teunn s.w.fnewstn s.w.Enewstn s.w.esrestn s.w.frestn s.w.Erestn) fun s =>
      andThen (s.set_Trule 77) fun s =>
      andThen (RAf m s s.w.esi s.w.fi s.w.Ei s.w.esf s.w.ff s.w.Ef) fun s =>
      andThen (fcEturf m s s.T.Tstrain s.w.esi s.w.fi s.w.esf s.w.ff s.w.Ei s.w.Ef s.w.A s.w.R) fun s =>
      andThen (s.set_Tstress s.w.fc) fun s =>
      s.set_Ttangent s.w.Et
    else
      fcEtnf m s s.T.Tstrain
  else if s.C.Crule = 13 then
    if s.T.Tstrain ≥ s.T.Teunn then
      andThen (r13f s s.T.Ted s.T.Teunn s.w.fnewn s.w.Enewn) fun s =>
      andThen (s.set_Trule 13) fun s =>
      andThen (RAf m s s.w.esi s.w.fi s.w.Ei s.w.esf s.w.ff s.w.Ef) fun s =>
      andThen (fcEturf m s s.T.Tstrain s.w.esi s.w.fi s.w.esf s.w.ff s.w.Ei s.w.Ef s.w.A s.w.R) fun s =>
      andThen (s.set_Esectest ((s.w.ff - s.w.fi) / (s.w.esf - s.w.esi))) fun s =>
      andThen (
          if s.w.Et = s.w.Esectest then
            if s.T.Tstrain ≥ s.w.espln then
              andThen (s.set_fc 0) fun s =>
              andThen (s.set_Et 0) fun s =>
              s.set_Trule 13
            else
              andThen (s.set_Et s.w.Enewn) fun s =>
              andThen (s.set_fc (s.w.Et * (s.T.Tstrain - s.w.espln))) fun s =>
              s.set_Trule 13
          else
            s
        ) fun s =>
      andThen (s.set_Tstress s.w.fc) fun s =>
      s.set_Ttangent s.w.Et
    else if s.T.Tstrain ≥ s.w.esren then
      andThen (r7f s s.T.Teunn s.w.fnewn s.w.Enewn s.w.esren s.w.fren s.w.Eren) fun s =>
      andThen (s.set_Trule 7) fun s =>
      andThen (RAf m s s.w.esi s.w.fi s.w.Ei s.w.esf s.w.ff s.w.Ef) fun s =>
      andThen (fcEturf m s s.T.Tstrain s.w.esi s.w.fi s.w.esf s.w.ff s.w.Ei s.w.Ef s.w.A s.w.R) fun s =>
      andThen (s.set_Tstress s.w.fc) fun s =>
      s.set_Ttangent s.w.Et
    else
      fcEtnf m s s.T.Tstrain
  else if s.C.Crule = 11 then
    setTrialStrain_L1419 m s strain
  else if s.C.Crule = 15 then
    setTrialStrain_L1762 m s strain
  else
    s

/-- Lines 365-1863 of `setTrialStrain`: the branch `if (Cinc==-1.0)`. -/
def setTrialStrain_L365 (m : Libm) (s : State) (strain : ℚ) : State :=
  if s.T.Tstrain > s.C.Cstrain then
    setTrialStrain_L367 m s strain
  else
    setTrialStrain_L367_else m s strain

/-- Lines 1877-1889 of `setTrialStrain`. -/
def setTrialStrain_L1877_L1889 (m : Libm) (s : State) (strain : ℚ) : State :=
  andThen (s.set_Teunp s.C.Cstrain) fun s =>
  andThen (s.set_Tfunp s.C.Cstress) fun s =>
  andThen (fcEtnf m s s.T.Teunn) fun s =>
  andThen (s.set_Tfunn s.T.Tstress) fun s =>
  andThen (s.set_Ter s.C.Cstrain) fun s =>
  andThen (s.set_Tfr s.C.Cstress) fun s =>
  andThen (s.set_Ted s.T.Ter) fun s =>
  andThen (fnewnf m s s.T.Teunn s.T.Tfunn) fun s =>
  Enewnf m s s.T.Teunn s.T.Tfunn

/-- Lines 1874-1935 of `setTrialStrain`: the branch `if (fabs(Cstress) == 0.0)`. -/
def setTrialStrain_L1874 (m : Libm) (s : State) (strain : ℚ) : State :=
  andThen (setTrialStrain_L1877_L1889 m s strain) fun s =>
  if s.T.Tstrain ≥ s.T.Teunn then
    andThen (r13f s s.T.Ted s.T.Teunn s.w.fnewn s.w.Enewn) fun s =>
    andThen (s.set_Trule 13) fun s =>
    andThen (RAf m s s.w.esi s.w.fi s.w.Ei s.w.esf s.w.ff s.w.Ef) fun s =>
    andThen (fcEturf m s s.T.Tstrain s.w.esi s.w.fi s.w.esf s.w.ff s.w.Ei s.w.Ef s.w.A s.w.R) fun s =>
    andThen (s.set_Esectest ((s.w.ff - s.w.fi) / (s.w.esf - s.w.esi))) fun s =>
    andThen (
        if s.w.Et = s.w.Esectest then
          if s.T.Tstrain ≥ s.w.espln then
            andThen (s.set_fc 0) fun s =>
            andThen (s.set_Et 0) fun s =>
            s.set_Trule 13
          else
            andThen (s.set_Et s.w.Enewn) fun s =>
            andThen (s.set_fc (s.w.Et * (s.T.Tstrain - s.w.espln))) fun s =>
            s.set_Trule 13
        else
          s
      ) fun s =>
    andThen (s.set_Tstress s.w.fc) fun s =>
    s.set_Ttangent s.w.Et
  else if s.T.Tstrain ≥ s.w.esren then
    andThen (r7f s s.T.Teunn s.w.fnewn s.w.Enewn s.w.esren s.w.fren s.w.Eren) fun s =>
    andThen (s.set_Trule 7) fun s =>
    andThen (RAf m s s.w.esi s.w.fi s.w.Ei s.w.esf s.w.ff s.w.Ef) fun s =>
    andThen (fcEturf m s s.T.Tstrain s.w.esi s.w.fi s.w.esf s.w.ff s.w.Ei s.w.Ef s.w.A s.w.R) fun s =>
    andThen (s.set_Tstress s.w.fc) fun s =>
    s.set_Ttangent s.w.Et
  else
    fcEtnf m s s.T.Tstrain

/-- Lines 1937-2004 of `setTrialStrain`: the branch `if (Crule==2.0 || Crule==8.0)`. -/
def setTrialStrain_L1937 (m : Libm) (s : State) (strain : ℚ) : State :=
  andThen (s.set_Teunp s.C.Cstrain) fun s =>
  andThen (fcEtpf m s s.T.Teunp s.T.Te0) fun s =>
  andThen (s.set_Tfunp s.T.Tstress) fun s =>
  andThen (Esecpf s s.T.Te0 s.T.Teunp s.T.Tfunp s.w.espln) fun s =>
  andThen (esplpf s s.T.Teunp s.T.Tfunp s.T.Te0 s.w.espln) fun s =>
  andThen (Eplpf m s s.T.Te0 s.T.Teunp) fun s =>
  if s.T.Tstrain ≥ s.w.esplp then
    andThen (r4f s s.T.Teunp s.T.Tfunp s.w.esplp s.w.Eplp) fun s =>
    andThen (s.set_Trule 4) fun s =>
    andThen (RAf m s s.w.esi s.w.fi s.w.Ei s.w.esf s.w.ff s.w.Ef) fun s =>
    andThen (fcEturf m s s.T.Tstrain s.w.esi s.w.fi s.w.esf s.w.ff s.w.Ei s.w.Ef s.w.A s.w.R) fun s =>
    andThen (s.set_Tstress s.w.fc) fun s =>
    s.set_Ttangent s.w.Et
  else if s.T.Tstrain ≥ s.T.Teunn then
    andThen (r10f s s.w.esplp s.w.Eplp s.T.Teunn s.w.fnewn s.w.Enewn) fun s =>
    andThen (s.set_Trule 10) fun s =>
    andThen (RAf m s s.w.esi s.w.fi s.w.Ei s.w.esf s.w.ff s.w.Ef) fun s =>
    andThen (fcEturf m s s.T.Tstrain s.w.esi s.w.fi s.w.esf s.w.ff s.w.Ei s.w.Ef s.w.A s.w.R) fun s =>
    andThen (s.set_Esectest ((s.w.ff - s.w.fi) / (s.w.esf - s.w.esi))) fun s =>
    andThen (
        if s.w.Et = s.w.Esectest then
          if s.T.Tstrain ≥ s.w.espln then
            andThen (s.set_fc 0) fun s =>
            andThen (s.set_Et 0) fun s =>
            s.set_Trule 10
          else
            andThen (s.set_Et s.w.Enewn) fun s =>
            andThen (s.set_fc (s.w.Et * (s.T.Tstrain - s.w.espln))) fun s =>
            s.set_Trule 10
        else
          s
      ) fun s =>
    andThen (s.set_Tstress s.w.fc) fun s =>
    s.set_Ttangent s.w.Et
  else if s.T.Tstrain ≥ s.w.esren then
    andThen (r7f s s.T.Teunn s.w.fnewn s.w.Enewn s.w.esren s.w.fren s.w.Eren) fun s =>
    andThen (s.set_Trule 7) fun s =>
    andThen (RAf m s s.w.esi s.w.fi s.w.Ei s.w.esf s.w.ff s.w.Ef) fun s =>
    andThen (fcEturf m s s.T.Tstrain s.w.esi s.w.fi s.w.esf s.w.ff s.w.Ei s.w.Ef s.w.A s.w.R) fun s =>
    andThen (s.set_Tstress s.w.fc) fun s =>
    s.set_Ttangent s.w.Et
  else
    fcEtnf m s s.T.Tstrain

/-- Lines 2016-2098 of `setTrialStrain`: the branch `if (Teb>=esplp)`. -/
def setTrialStrain_L2016 (m : Libm) (s : State) (strain : ℚ) : State :=
  if s.T.Tstrain ≥ s.T.Teb then
    andThen (r4f s s.T.Teunp s.T.Tfunp s.w.esplp s.w.Eplp) fun s =>
    andThen (RAf m s s.w.esi s.w.fi s.w.Ei s.w.esf s.w.ff s.w.Ef) fun s =>
    andThen (fcEturf m s s.T.Teb s.w.esi s.w.fi s.w.esf s.w.ff s.w.Ei s.w.Ef s.w.A s.w.R) fun s =>
    andThen (s.set_fcb s.w.fc) fun s =>
    andThen (s.set_Etb s.w.Et) fun s =>
    andThen (s.set_esi s.T.Ter) fun s =>
    andThen (s.set_fi s.T.Tfr) fun s =>
    andThen (s.set_Ei s.par.Ec) fun s =>
    andThen (s.set_esf s.T.Teb) fun s =>
    andThen (RAf m s s.w.esi s.w.fi s.w.Ei s.w.esf s.w.fcb s.w.Etb) fun s =>
    andThen (r11f m s s.T.Ter s.T.Tfr s.T.Teb s.w.fcb s.w.Etb s.w.A s.w.R) fun s =>
    andThen (s.set_Trule 11) fun s =>
    andThen (fcEturf m s s.T.Tstrain s.w.esi s.w.fi s.w.esf s.w.ff s.w.Ei s.w.Ef s.w.A s.w.R) fun s =>
    andThen (s.set_Tstress s.w.fc) fun s =>
    s.set_Ttangent s.w.Et
  else if s.T.Tstrain ≥ s.w.esplp then
    andThen (r4f s s.T.Teunp s.T.Tfunp s.w.esplp s.w.Eplp) fun s =>
    andThen (s.set_Trule 4) fun s =>
    andThen (RAf m s s.w.esi s.w.fi s.w.Ei s.w.esf s.w.ff s.w.Ef) fun s =>
    andThen (fcEturf m s s.T.Tstrain s.w.esi s.w.fi s.w.esf s.w.ff s.w.Ei s.w.Ef s.w.A s.w.R) fun s =>
    andThen (s.set_Tstress s.w.fc) fun s =>
    s.set_Ttangent s.w.Et
  else if s.T.Tstrain ≥ s.T.Teunn then
    andThen (r10f s s.w.esplp s.w.Eplp s.T.Teunn s.w.fnewn s.w.Enewn) fun s =>
    andThen (s.set_Trule 10) fun s =>
    andThen (RAf m s s.w.esi s.w.fi s.w.Ei s.w.esf s.w.ff s.w.Ef) fun s =>
    andThen (fcEturf m s s.T.Tstrain s.w.esi s.w.fi s.w.esf s.w.ff s.w.Ei s.w.Ef s.w.A s.w.R) fun s =>
    andThen (s.set_Esectest ((s.w.ff - s.w.fi) / (s.w.esf - s.w.esi))) fun s =>
    andThen (
        if s.w.Et = s.w.Esectest then
          if s.T.Tstrain ≥ s.w.espln then
            andThen (s.set_fc 0) fun s =>
            andThen (s.set_Et 0) fun s =>
            s.set_Trule 10
          else
            andThen (s.set_Et s.w.Enewn) fun s =>
            andThen (s.set_fc (s.w.Et * (s.T.Tstrain - s.w.espln))) fun s =>
            s.set_Trule 10
        else
          s
      ) fun s =>
    andThen (s.set_Tstress s.w.fc) fun s =>
    s.set_Ttangent s.w.Et
  else if s.T.Tstrain ≥ s.w.esren then
    andThen (r7f s s.T.Teunn s.w.fnewn s.w.Enewn s.w.esren s.w.fren s.w.Eren) fun s =>
    andThen (s.set_Trule 7) fun s =>
    andThen (RAf m s s.w.esi s.w.fi s.w.Ei s.w.esf s.w.ff s.w.Ef) fun s =>
    andThen (fcEturf m s s.T.Tstrain s.w.esi s.w.fi s.w.esf s.w.ff s.w.Ei s.w.Ef s.w.A s.w.R) fun s =>
    andThen (s.set_Tstress s.w.fc) fun s =>
    s.set_Ttangent s.w.Et
  else
    fcEtnf m s s.T.Tstrain

/-- Lines 2101-2193 of `setTrialStrain`: the branch `if (Teb>=Teunn)`. -/
def setTrialStrain_L2101 (m : Libm) (s : State) (strain : ℚ) : State :=
  if s.T.Tstrain ≥ s.T.Teb then
    andThen (r10f s s.w.esplp s.w.Eplp s.T.Teunn s.w.fnewn s.w.Enewn) fun s =>
    andThen (s.set_esi10 s.w.esi) fun s =>
    andThen (s.set_fi10 s.w.fi) fun s =>
    andThen (s.set_Ei10 s.w.Ei) fun s =>
    andThen (s.set_esf10 s.w.esf) fun s =>
    andThen (s.set_ff10 s.w.ff) fun s =>
    andThen (s.set_Ef10 s.w.Ef) fun s =>
    andThen (RAf m s s.w.esi10 s.w.fi10 s.w.Ei10 s.w.esf10 s.w.ff10 s.w.Ef10) fun s =>
    andThen (s.set_R10 s.w.R) fun s =>
    andThen (s.set_A10 s.w.A) fun s =>
    andThen (fcEturf m s s.T.Teb s.w.esi10 s.w.fi10 s.w.esf10 s.w.ff10 s.w.Ei10 s.w.Ef10 s.w.A10 s.w.R10) fun s =>
    andThen (s.set_fcb s.w.fc) fun s =>
    andThen (s.set_Etb s.w.Et) fun s =>
    andThen (s.set_Esectest10 ((s.w.ff10 - s.w.fi10) / (s.w.esf10 - s.w.esi10))) fun s =>
    andThen (
        if s.w.Etb = s.w.Esectest10 then
          if s.T.Teb ≥ s.w.espln then
            andThen (s.set_fcb 0) fun s =>
            s.set_Etb 0
          else
            andThen (s.set_Etb s.w.Enewn) fun s =>
            s.set_fcb (s.w.Etb * (s.T.Teb - s.w.espln))
        else
          s
      ) fun s =>
    andThen (s.set_esi s.T.Ter) fun s =>
    andThen (s.set_fi s.T.Tfr) fun s =>
    andThen (s.set_Ei s.par.Ec) fun s =>
    andThen (s.set_esf s.T.Teb) fun s =>
    andThen (RAf m s s.w.esi s.w.fi s.w.Ei s.w.esf s.w.fcb s.w.Etb) fun s =>
    andThen (r11f m s s.T.Ter s.T.Tfr s.T.Teb s.w.fcb s.w.Etb s.w.A s.w.R) fun s =>
    andThen (s.set_Trule 11) fun s =>
    andThen (fcEturf m s s.T.Tstrain s.w.esi s.w.fi s.w.esf s.w.ff s.w.Ei s.w.Ef s.w.A s.w.R) fun s =>
    andThen (s.set_Tstress s.w.fc) fun s =>
    s.set_Ttangent s.w.Et
  else if s.T.Tstrain ≥ s.T.Teunn then
    andThen (r10f s s.w.esplp s.w.Eplp s.T.Teunn s.w.fnewn s.w.Enewn) fun s =>
    andThen (s.set_Trule 10) fun s =>
    andThen (RAf m s s.w.esi s.w.fi s.w.Ei s.w.esf s.w.ff s.w.Ef) fun s =>
    andThen (fcEturf m s s.T.Tstrain s.w.esi s.w.fi s.w.esf s.w.ff s.w.Ei s.w.Ef s.w.A s.w.R) fun s =>
    andThen (s.set_Esectest ((s.w.ff - s.w.fi) / (s.w.esf - s.w.esi))) fun s =>
    andThen (
        if s.w.Et = s.w.Esectest then
          if s.T.Tstrain ≥ s.w.espln then
            andThen (s.set_fc 0) fun s =>
            andThen (s.set_Et 0) fun s =>
            s.set_Trule 10
          else
            andThen (s.set_Et s.w.Enewn) fun s =>
            andThen (s.set_fc (s.w.Et * (s.T.Tstrain - s.w.espln))) fun s =>
            s.set_Trule 10
        else
          s
      ) fun s =>
    andThen (s.set_Tstress s.w.fc) fun s =>
    s.set_Ttangent s.w.Et
  else if s.T.Tstrain ≥ s.w.esren then
    andThen (r7f s s.T.Teunn s.w.fnewn s.w.Enewn s.w.esren s.w.fren s.w.Eren) fun s =>
    andThen (s.set_Trule 7) fun s =>
    andThen (RAf m s s.w.esi s.w.fi s.w.Ei s.w.esf s.w.ff s.w.Ef) fun s =>
    andThen (fcEturf m s s.T.Tstrain s.w.esi s.w.fi s.w.esf s.w.ff s.w.Ei s.w.Ef s.w.A s.w.R) fun s =>
    andThen (s.set_Tstress s.w.fc) fun s =>
    s.set_Ttangent s.w.Et
  else
    fcEtnf m s s.T.Tstrain

/-- Lines 2006-2268 of `setTrialStrain`: the branch `if (Crule==9.0)`. -/
def setTrialStrain_L2006 (m : Libm) (s : State) (strain : ℚ) : State :=
  andThen (s.set_Ter s.C.Cstrain) fun s =>
  andThen (s.set_Tfr s.C.Cstress) fun s =>
  andThen (s.set_Tea s.T.Ter) fun s =>
  andThen (s.set_fa s.T.Tfr) fun s =>
  andThen (eb1112f s s.T.Tea s.w.espln s.w.esplp s.T.Teunn s.T.Teunp) fun s =>
  if s.T.Teb ≥ s.w.esplp then
    setTrialStrain_L2016 m s strain
  else if s.T.Teb ≥ s.T.Teunn then
    setTrialStrain_L2101 m s strain
  else if s.T.Teb ≥ s.w.esren then
    if s.T.Tstrain ≥ s.T.Teb then
      andThen (r7f s s.T.Teunn s.w.fnewn s.w.Enewn s.w.esren s.w.fren s.w.Eren) fun s =>
      andThen (RAf m s s.w.esi s.w.fi s.w.Ei s.w.esf s.w.ff s.w.Ef) fun s =>
      andThen (fcEturf m s s.T.Teb s.w.esi s.w.fi s.w.esf s.w.ff s.w.Ei s.w.Ef s.w.A s.w.R) fun s =>
      andThen (s.set_fcb s.w.fc) fun s =>
      andThen (s.set_Etb s.w.Et) fun s =>
      andThen (s.set_esi s.T.Ter) fun s =>
      andThen (s.set_fi s.T.Tfr) fun s =>
      andThen (s.set_Ei s.par.Ec) fun s =>
      andThen (s.set_esf s.T.Teb) fun s =>
      andThen (RAf m s s.w.esi s.w.fi s.w.Ei s.w.esf s.w.fcb s.w.Etb) fun s =>
      andThen (r11f m s s.T.Ter s.T.Tfr s.T.Teb s.w.fcb s.w.Etb s.w.A s.w.R) fun s =>
      andThen (s.set_Trule 11) fun s =>
      andThen (fcEturf m s s.T.Tstrain s.w.esi s.w.fi s.w.esf s.w.ff s.w.Ei s.w.Ef s.w.A s.w.R) fun s =>
      andThen (s.set_Tstress s.w.fc) fun s =>
      s.set_Ttangent s.w.Et
    else if s.T.Tstrain ≥ s.w.esren then
      andThen (r7f s s.T.Teunn s.w.fnewn s.w.Enewn s.w.esren s.w.fren s.w.Eren) fun s =>
      andThen (s.set_Trule 7) fun s =>
      andThen (RAf m s s.w.esi s.w.fi s.w.Ei s.w.esf s.w.ff s.w.Ef) fun s =>
      andThen (fcEturf m s s.T.Tstrain s.w.esi s.w.fi s.w.esf s.w.ff s.w.Ei s.w.Ef s.w.A s.w.R) fun s =>
      andThen (s.set_Tstress s.w.fc) fun s =>
      s.set_Ttangent s.w.Et
    else
      fcEtnf m s s.T.Tstrain
  else
    if s.T.Tstrain ≥ s.T.Teb then
      andThen (fcEtnf m s s.T.Teb) fun s =>
      andThen (s.set_fcb s.T.Tstress) fun s =>
      andThen (s.set_Etb s.T.Ttangent) fun s =>
      andThen (s.set_esi s.T.Ter) fun s =>
      andThen (s.set_fi s.T.Tfr) fun s =>
      andThen (s.set_Ei s.par.Ec) fun s =>
      andThen (s.set_esf s.T.Teb) fun s =>
      andThen (RAf m s s.w.esi s.w.fi s.w.Ei s.w.esf s.w.fcb s.w.Etb) fun s =>
      andThen (r11f m s s.T.Ter s.T.Tfr s.T.Teb s.w.fcb s.w.Eta s.w.A s.w.R) fun s =>
      andThen (s.set_Trule 11) fun s =>
      andThen (fcEturf m s s.T.Tstrain s.w.esi s.w.fi s.w.esf s.w.ff s.w.Ei s.w.Ef s.w.A s.w.R) fun s =>
      andThen (s.set_Tstress s.w.fc) fun s =>
      s.set_Ttangent s.w.Et
    else
      fcEtnf m s s.T.Tstrain

/-- Lines 2278-2361 of `setTrialStrain`: the branch `if (Teb>=esplp)`. -/
def setTrialStrain_L2278 (m : Libm) (s : State) (strain : ℚ) : State :=
  if s.T.Tstrain ≥ s.T.Teb then
    andThen (r4f s s.T.Teunp s.T.Tfunp s.w.esplp s.w.Eplp) fun s =>
    andThen (RAf m s s.w.esi s.w.fi s.w.Ei s.w.esf s.w.ff s.w.Ef) fun s =>
    andThen (fcEturf m s s.T.Teb s.w.esi s.w.fi s.w.esf s.w.ff s.w.Ei s.w.Ef s.w.A s.w.R) fun s =>
    andThen (s.set_fcb s.w.fc) fun s =>
    andThen (s.set_Etb s.w.Et) fun s =>
    andThen (s.set_esi s.T.Ter) fun s =>
    andThen (s.set_fi s.T.Tfr) fun s =>
    andThen (s.set_Ei s.par.Ec) fun s =>
    andThen (s.set_esf s.T.Teb) fun s =>
    andThen (RAf m s s.w.esi s.w.fi s.w.Ei s.w.esf s.w.fcb s.w.Etb) fun s =>
    andThen (r11f m s s.T.Ter s.T.Tfr s.T.Teb s.w.fcb s.w.Etb s.w.A s.w.R) fun s =>
    andThen (s.set_Trule 11) fun s =>
    andThen (fcEturf m s s.T.Tstrain s.w.esi s.w.fi s.w.esf s.w.ff s.w.Ei s.w.Ef s.w.A s.w.R) fun s =>
    andThen (s.set_Tstress s.w.fc) fun s =>
    s.set_Ttangent s.w.Et
  else if s.T.Tstrain ≥ s.w.esplp then
    andThen (r4f s s.T.Teunp s.T.Tfunp s.w.esplp s.w.Eplp) fun s =>
    andThen (s.set_Trule 4) fun s =>
    andThen (RAf m s s.w.esi s.w.fi s.w.Ei s.w.esf s.w.ff s.w.Ef) fun s =>
    andThen (fcEturf m s s.T.Tstrain s.w.esi s.w.fi s.w.esf s.w.ff s.w.Ei s.w.Ef s.w.A s.w.R) fun s =>
    andThen (s.set_Tstress s.w.fc) fun s =>
    s.set_Ttangent s.w.Et
  else if s.T.Tstrain ≥ s.T.Teunn then
    andThen (r10f s s.w.esplp s.w.Eplp s.T.Teunn s.w.fnewn s.w.Enewn) fun s =>
    andThen (s.set_Trule 10) fun s =>
    andThen (RAf m s s.w.esi s.w.fi s.w.Ei s.w.esf s.w.ff s.w.Ef) fun s =>
    andThen (fcEturf m s s.T.Tstrain s.w.esi s.w.fi s.w.esf s.w.ff s.w.Ei s.w.Ef s.w.A s.w.R) fun s =>
    andThen (s.set_Esectest ((s.w.ff - s.w.fi) / (s.w.esf - s.w.esi))) fun s =>
    andThen (
        if s.w.Et = s.w.Esectest then
          if s.T.Tstrain ≥ s.w.espln then
            andThen (s.set_fc 0) fun s =>
            andThen (s.set_Et 0) fun s =>
            s.set_Trule 10
          else
            andThen (s.set_Et s.w.Enewn) fun s =>
            andThen (s.set_fc (s.w.Et * (s.T.Tstrain - s.w.espln))) fun s =>
            s.set_Trule 10
        else
          s
      ) fun s =>
    andThen (s.set_Tstress s.w.fc) fun s =>
    s.set_Ttangent s.w.Et
  else if s.T.Tstrain ≥ s.w.esren then
    andThen (r7f s s.T.Teunn s.w.fnewn s.w.Enewn s.w.esren s.w.fren s.w.Eren) fun s =>
    andThen (s.set_Trule 7) fun s =>
    andThen (RAf m s s.w.esi s.w.fi s.w.Ei s.w.esf s.w.ff s.w.Ef) fun s =>
    andThen (fcEturf m s s.T.Tstrain s.w.esi s.w.fi s.w.esf s.w.ff s.w.Ei s.w.Ef s.w.A s.w.R) fun s =>
    andThen (s.set_Tstress s.w.fc) fun s =>
    s.set_Ttangent s.w.Et
  else
    fcEtnf m s s.T.Tstrain

/-- Lines 2364-2456 of `setTrialStrain`: the branch `if (Teb>=Teunn)`. -/
def setTrialStrain_L2364 (m : Libm) (s : State) (strain : ℚ) : State :=
  if s.T.Tstrain ≥ s.T.Teb then
    andThen (r10f s s.w.esplp s.w.Eplp s.T.Teunn s.w.fnewn s.w.Enewn) fun s =>
    andThen (s.set_esi10 s.w.esi) fun s =>
    andThen (s.set_fi10 s.w.fi) fun s =>
    andThen (s.set_Ei10 s.w.Ei) fun s =>
    andThen (s.set_esf10 s.w.esf) fun s =>
    andThen (s.set_ff10 s.w.ff) fun s =>
    andThen (s.set_Ef10 s.w.Ef) fun s =>
    andThen (RAf m s s.w.esi10 s.w.fi10 s.w.Ei10 s.w.esf10 s.w.ff10 s.w.Ef10) fun s =>
    andThen (s.set_R10 s.w.R) fun s =>
    andThen (s.set_A10 s.w.A) fun s =>
    andThen (fcEturf m s s.T.Teb s.w.esi10 s.w.fi10 s.w.esf10 s.w.ff10 s.w.Ei10 s.w.Ef10 s.w.A10 s.w.R10) fun s =>
    andThen (s.set_fcb s.w.fc) fun s =>
    andThen (s.set_Etb s.w.Et) fun s =>
    andThen (s.set_Esectest10 ((s.w.ff10 - s.w.fi10) / (s.w.esf10 - s.w.esi10))) fun s =>
    andThen (
        if s.w.Etb = s.w.Esectest10 then
          if s.T.Teb ≥ s.w.espln then
            andThen (s.set_fcb 0) fun s =>
            s.set_Etb 0
          else
            andThen (s.set_Etb s.w.Enewn) fun s =>
            s.set_fcb (s.w.Etb * (s.T.Teb - s.w.espln))
        else
          s
      ) fun s =>
    andThen (s.set_esi s.T.Ter) fun s =>
    andThen (s.set_fi s.T.Tfr) fun s =>
    andThen (s.set_Ei s.par.Ec) fun s =>
    andThen (s.set_esf s.T.Teb) fun s =>
    andThen (RAf m s s.w.esi s.w.fi s.w.Ei s.w.esf s.w.fcb s.w.Etb) fun s =>
    andThen (r11f m s s.T.Ter s.T.Tfr s.T.Teb s.w.fcb s.w.Etb s.w.A s.w.R) fun s =>
    andThen (s.set_Trule 11) fun s =>
    andThen (fcEturf m s s.T.Tstrain s.w.esi s.w.fi s.w.esf s.w.ff s.w.Ei s.w.Ef s.w.A s.w.R) fun s =>
    andThen (s.set_Tstress s.w.fc) fun s =>
    s.set_Ttangent s.w.Et
  else if s.T.Tstrain ≥ s.T.Teunn then
    andThen (r10f s s.w.esplp s.w.Eplp s.T.Teunn s.w.fnewn s.w.Enewn) fun s =>
    andThen (s.set_Trule 10) fun s =>
    andThen (RAf m s s.w.esi s.w.fi s.w.Ei s.w.esf s.w.ff s.w.Ef) fun s =>
    andThen (fcEturf m s s.T.Tstrain s.w.esi s.w.fi s.w.esf s.w.ff s.w.Ei s.w.Ef s.w.A s.w.R) fun s =>
    andThen (s.set_Esectest ((s.w.ff - s.w.fi) / (s.w.esf - s.w.esi))) fun s =>
    andThen (
        if s.w.Et = s.w.Esectest then
          if s.T.Tstrain ≥ s.w.espln then
            andThen (s.set_fc 0) fun s =>
            andThen (s.set_Et 0) fun s =>
            s.set_Trule 10
          else
            andThen (s.set_Et s.w.Enewn) fun s =>
            andThen (s.set_fc (s.w.Et * (s.T.Tstrain - s.w.espln))) fun s =>
            s.set_Trule 10
        else
          s
      ) fun s =>
    andThen (s.set_Tstress s.w.fc) fun s =>
    s.set_Ttangent s.w.Et
  else if s.T.Tstrain ≥ s.w.esren then
    andThen (r7f s s.T.Teunn s.w.fnewn s.w.Enewn s.w.esren s.w.fren s.w.Eren) fun s =>
    andThen (s.set_Trule 7) fun s =>
    andThen (RAf m s s.w.esi s.w.fi s.w.Ei s.w.esf s.w.ff s.w.Ef) fun s =>
    andThen (fcEturf m s s.T.Tstrain s.w.esi s.w.fi s.w.esf s.w.ff s.w.Ei s.w.Ef s.w.A s.w.R) fun s =>
    andThen (s.set_Tstress s.w.fc) fun s =>
    s.set_Ttangent s.w.Et
  else
    fcEtnf m s s.T.Tstrain

/-- Lines 2276-2530 of `setTrialStrain`: the branch `if (Tea!=Ter0n)`. -/
def setTrialStrain_L2276 (m : Libm) (s : State) (strain : ℚ) : State :=
  if s.T.Teb ≥ s.w.esplp then
    setTrialStrain_L2278 m s strain
  else if s.T.Teb ≥ s.T.Teunn then
    setTrialStrain_L2364 m s strain
  else if s.T.Teb ≥ s.w.esren then
    if s.T.Tstrain ≥ s.T.Teb then
      andThen (r7f s s.T.Teunn s.w.fnewn s.w.Enewn s.w.esren s.w.fren s.w.Eren) fun s =>
      andThen (RAf m s s.w.esi s.w.fi s.w.Ei s.w.esf s.w.ff s.w.Ef) fun s =>
      andThen (fcEturf m s s.T.Teb s.w.esi s.w.fi s.w.esf s.w.ff s.w.Ei s.w.Ef s.w.A s.w.R) fun s =>
      andThen (s.set_fcb s.w.fc) fun s =>
      andThen (s.set_Etb s.w.Et) fun s =>
      andThen (s.set_esi s.T.Ter) fun s =>
      andThen (s.set_fi s.T.Tfr) fun s =>
      andThen (s.set_Ei s.par.Ec) fun s =>
      andThen (s.set_esf s.T.Teb) fun s =>
      andThen (RAf m s s.w.esi s.w.fi s.w.Ei s.w.esf s.w.fcb s.w.Etb) fun s =>
      andThen (r11f m s s.T.Ter s.T.Tfr s.T.Teb s.w.fcb s.w.Etb s.w.A s.w.R) fun s =>
      andThen (s.set_Trule 11) fun s =>
      andThen (fcEturf m s s.T.Tstrain s.w.esi s.w.fi s.w.esf s.w.ff s.w.Ei s.w.Ef s.w.A s.w.R) fun s =>
      andThen (s.set_Tstress s.w.fc) fun s =>
      s.set_Ttangent s.w.Et
    else if s.T.Tstrain ≥ s.w.esren then
      andThen (r7f s s.T.Teunn s.w.fnewn s.w.Enewn s.w.esren s.w.fren s.w.Eren) fun s =>
      andThen (s.set_Trule 7) fun s =>
      andThen (RAf m s s.w.esi s.w.fi s.w.Ei s.w.esf s.w.ff s.w.Ef) fun s =>
      andThen (fcEturf m s s.T.Tstrain s.w.esi s.w.fi s.w.esf s.w.ff s.w.Ei s.w.Ef s.w.A s.w.R) fun s =>
      andThen (s.set_Tstress s.w.fc) fun s =>
      s.set_Ttangent s.w.Et
    else
      fcEtnf m s s.T.Tstrain
  else
    if s.T.Tstrain ≥ s.T.Teb then
      andThen (fcEtnf m s s.T.Teb) fun s =>
      andThen (s.set_fcb s.T.Tstress) fun s =>
      andThen (s.set_Etb s.T.Ttangent) fun s =>
      andThen (s.set_esi s.T.Ter) fun s =>
      andThen (s.set_fi s.T.Tfr) fun s =>
      andThen (s.set_Ei s.par.Ec) fun s =>
      andThen (s.set_esf s.T.Teb) fun s =>
      andThen (RAf m s s.w.esi s.w.fi s.w.Ei s.w.esf s.w.fcb s.w.Etb) fun s =>
      andThen (r11f m s s.T.Ter s.T.Tfr s.T.Teb s.w.fcb s.w.Eta s.w.A s.w.R) fun s =>
      andThen (s.set_Trule 11) fun s =>
      andThen (fcEturf m s s.T.Tstrain s.w.esi s.w.fi s.w.esf s.w.ff s.w.Ei s.w.Ef s.w.A s.w.R) fun s =>
      andThen (s.set_Tstress s.w.fc) fun s =>
      s.set_Ttangent s.w.Et
    else
      fcEtnf m s s.T.Tstrain

/-- Lines 2535-2607 of `setTrialStrain`: the last `else` branch of the `if` chain that starts at line 2276. -/
def setTrialStrain_L2276_else (m : Libm) (s : State) (strain : ℚ) : State :=
  if s.T.Teb ≥ s.w.esrestn then
    if s.T.Tstrain ≥ s.T.Teb then
      andThen (r77f s s.T.Teb s.T.Te0 s.T.Ter0n s.T.Tfr0n s.T.Teunn s.w.fnewstn s.w.Enewstn s.w.esrestn s.w.frestn s.w.Erestn) fun s =>
      andThen (RAf m s s.w.esi s.w.fi s.w.Ei s.w.esf s.w.ff s.w.Ef) fun s =>
      andThen (fcEturf m s s.T.Teb s.w.esi s.w.fi s.w.esf s.w.ff s.w.Ei s.w.Ef s.w.A s.w.R) fun s =>
      andThen (s.set_fcb s.w.fc) fun s =>
      andThen (s.set_Etb s.w.Et) fun s =>
      andThen (s.set_esi s.T.Ter) fun s =>
      andThen (s.set_fi s.T.Tfr) fun s =>
      andThen (s.set_Ei s.par.Ec) fun s =>
      andThen (s.set_esf s.T.Teb) fun s =>
      andThen (RAf m s s.w.esi s.w.fi s.w.Ei s.w.esf s.w.fcb s.w.Etb) fun s =>
      andThen (r11f m s s.T.Ter s.T.Tfr s.T.Teb s.w.fcb s.w.Etb s.w.A s.w.R) fun s =>
      andThen (s.set_Trule 11) fun s =>
      andThen (fcEturf m s s.T.Tstrain s.w.esi s.w.fi s.w.esf s.w.ff s.w.Ei s.w.Ef s.w.A s.w.R) fun s =>
      andThen (s.set_Tstress s.w.fc) fun s =>
      s.set_Ttangent s.w.Et
    else if s.T.Tstrain > s.w.esrestn then
      andThen (r77f s s.T.Tstrain s.T.Te0 s.T.Ter0n s.T.Tfr0n s.T.Teunn s.w.fnewstn s.w.Enewstn s.w.esrestn s.w.frestn s.w.Erestn) fun s =>
      andThen (s.set_Trule 77) fun s =>
      andThen (RAf m s s.w.esi s.w.fi s.w.Ei s.w.esf s.w.ff s.w.Ef) fun s =>
      andThen (fcEturf m s s.T.Tstrain s.w.esi s.w.fi s.w.esf s.w.ff s.w.Ei s.w.Ef s.w.A s.w.R) fun s =>
      andThen (s.set_Tstress s.w.fc) fun s =>
      s.set_Ttangent s.w.Et
    else
      fcEtnf m s s.T.Tstrain
  else
    if s.T.Tstrain ≥ s.T.Teb then
      andThen (fcEtnf m s s.T.Teb) fun s =>
      andThen (s.set_fcb s.T.Tstress) fun s =>
      andThen (s.set_Etb s.T.Ttangent) fun s =>
      andThen (s.set_esi s.T.Ter) fun s =>
      andThen (s.set_fi s.T.Tfr) fun s =>
      andThen (s.set_Ei s.par.Ec) fun s =>
      andThen (s.set_esf s.T.Teb) fun s =>
      andThen (RAf m s s.w.esi s.w.fi s.w.Ei s.w.esf s.w.fcb s.w.Etb) fun s =>
      andThen (r11f m s s.T.Ter s.T.Tfr s.T.Teb s.w.fcb s.w.Etb s.w.A s.w.R) fun s =>
      andThen (s.set_Trule 11) fun s =>
      andThen (fcEturf m s s.T.Tstrain s.w.esi s.w.fi s.w.esf s.w.ff s.w.Ei s.w.Ef s.w.A s.w.R) fun s =>
      andThen (s.set_Tstress s.w.fc) fun s =>
      s.set_Ttangent s.w.Et
    else
      fcEtnf m s s.T.Tstrain

/-- Lines 2271-2608 of `setTrialStrain`: the branch `if (Crule==12.0)`. -/
def setTrialStrain_L2271 (m : Libm) (s : State) (strain : ℚ) : State :=
  andThen (s.set_Ter s.C.Cstrain) fun s =>
  andThen (s.set_Tfr s.C.Cstress) fun s =>
  if s.T.Tea ≠ s.T.Ter0n then
    setTrialStrain_L2276 m s strain
  else
    setTrialStrain_L2276_else m s strain

/-- Lines 2611-2707 of `setTrialStrain`: the branch `if (Crule==14.0)`. -/
def setTrialStrain_L2611 (m : Libm) (s : State) (strain : ℚ) : State :=
  andThen (s.set_Ter s.C.Cstrain) fun s =>
  andThen (s.set_Tfr s.C.Cstress) fun s =>
  if s.T.Tstrain ≥ s.T.Tea then
    andThen (r13f s s.T.Ted s.T.Teunn s.w.fnewn s.w.Enewn) fun s =>
    andThen (s.set_esi13 s.w.esi) fun s =>
    andThen (s.set_fi13 s.w.fi) fun s =>
    andThen (s.set_Ei13 s.w.Ei) fun s =>
    andThen (s.set_esf13 s.w.esf) fun s =>
    andThen (s.set_ff13 s.w.ff) fun s =>
    andThen (s.set_Ef13 s.w.Ef) fun s =>
    andThen (RAf m s s.w.esi13 s.w.fi13 s.w.Ei13 s.w.esf13 s.w.ff13 s.w.Ef13) fun s =>
    andThen (s.set_R13 s.w.R) fun s =>
    andThen (s.set_A13 s.w.A) fun s =>
    andThen (fcEturf m s s.T.Tea s.w.esi13 s.w.fi13 s.w.esf13 s.w.ff13 s.w.Ei13 s.w.Ef13 s.w.A13 s.w.R13) fun s =>
    andThen (s.set_fca s.w.fc) fun s =>
    andThen (s.set_Eta s.w.Et) fun s =>
    andThen (s.set_Esectest13 ((s.w.ff13 - s.w.fi13) / (s.w.esf13 - s.w.esi13))) fun s =>
    andThen (
        if s.w.Eta = s.w.Esectest13 then
          if s.T.Tea ≥ s.w.espln then
            andThen (s.set_fca 0) fun s =>
            s.set_Eta 0
          else
            andThen (s.set_Eta s.w.Enewn) fun s =>
            s.set_fca (s.w.Et * (s.T.Tea - s.w.espln))
        else
          s
      ) fun s =>
    andThen (s.set_esi s.T.Ter) fun s =>
    andThen (s.set_fi s.T.Tfr) fun s =>
    andThen (s.set_Ei s.par.Ec) fun s =>
    andThen (s.set_esf s.T.Tea) fun s =>
    andThen (RAf m s s.w.esi s.w.fi s.w.Ei s.w.esf s.w.fca s.w.Eta) fun s =>
    andThen (r15f m s s.T.Ter s.T.Tfr s.T.Tea s.w.fca s.w.Eta s.w.A s.w.R) fun s =>
    andThen (s.set_Trule 15) fun s =>
    andThen (fcEturf m s s.T.Tstrain s.w.esi s.w.fi s.w.esf s.w.ff s.w.Ei s.w.Ef s.w.A s.w.R) fun s =>
    andThen (s.set_Tstress s.w.fc) fun s =>
    s.set_Ttangent s.w.Et
  else if s.T.Tstrain ≥ s.T.Teunn then
    andThen (r13f s s.T.Ted s.T.Teunn s.w.fnewn s.w.Enewn) fun s =>
    andThen (s.set_Trule 13) fun s =>
    andThen (RAf m s s.w.esi s.w.fi s.w.Ei s.w.esf s.w.ff s.w.Ef) fun s =>
    andThen (fcEturf m s s.T.Tstrain s.w.esi s.w.fi s.w.esf s.w.ff s.w.Ei s.w.Ef s.w.A s.w.R) fun s =>
    andThen (s.set_Esectest ((s.w.ff - s.w.fi) / (s.w.esf - s.w.esi))) fun s =>
    andThen (
        if s.w.Et = s.w.Esectest then
          if s.T.Tstrain ≥ s.w.espln then
            andThen (s.set_fc 0) fun s =>
            andThen (s.set_Et 0) fun s =>
            s.set_Trule 13
          else
            andThen (s.set_Et s.w.Enewn) fun s =>
            andThen (s.set_fc (s.w.Et * (s.T.Tstrain - s.w.espln))) fun s =>
            s.set_Trule 13
        else
          s
      ) fun s =>
    andThen (s.set_Tstress s.w.fc) fun s =>
    s.set_Ttangent s.w.Et
  else if s.T.Tstrain ≥ s.w.esren then
    andThen (r7f s s.T.Teunn s.w.fnewn s.w.Enewn s.w.esren s.w.fren s.w.Eren) fun s =>
    andThen (s.set_Trule 7) fun s =>
    andThen (RAf m s s.w.esi s.w.fi s.w.Ei s.w.esf s.w.ff s.w.Ef) fun s =>
    andThen (fcEturf m s s.T.Tstrain s.w.esi s.w.fi s.w.esf s.w.ff s.w.Ei s.w.Ef s.w.A s.w.R) fun s =>
    andThen (s.set_Tstress s.w.fc) fun s =>
    s.set_Ttangent s.w.Et
  else
    fcEtnf m s s.T.Tstrain

/-- Lines 2751-2832 of `setTrialStrain`: the branch `if (Teb>=esplp)`. -/
def setTrialStrain_L2751 (m : Libm) (s : State) (strain : ℚ) : State :=
  if s.T.Tstrain ≥ s.T.Teb then
    andThen (r4f s s.T.Teunp s.T.Tfunp s.w.esplp s.w.Eplp) fun s =>
    andThen (RAf m s s.w.esi s.w.fi s.w.Ei s.w.esf s.w.ff s.w.Ef) fun s =>
    andThen (fcEturf m s s.T.Teb s.w.esi s.w.fi s.w.esf s.w.ff s.w.Ei s.w.Ef s.w.A s.w.R) fun s =>
    andThen (s.set_fcb s.w.fc) fun s =>
    andThen (s.set_Etb s.w.Et) fun s =>
    andThen (s.set_esi s.T.Ter) fun s =>
    andThen (s.set_fi s.T.Tfr) fun s =>
    andThen (s.set_Ei s.par.Ec) fun s =>
    andThen (s.set_esf s.T.Teb) fun s =>
    andThen (RAf m s s.w.esi s.w.fi s.w.Ei s.w.esf s.w.fcb s.w.Etb) fun s =>
    andThen (r11f m s s.T.Ter s.T.Tfr s.T.Teb s.w.fcb s.w.Etb s.w.A s.w.R) fun s =>
    andThen (s.set_Trule 11) fun s =>
    andThen (fcEturf m s s.T.Tstrain s.w.esi s.w.fi s.w.esf s.w.ff s.w.Ei s.w.Ef s.w.A s.w.R) fun s =>
    andThen (s.set_Tstress s.w.fc) fun s =>
    s.set_Ttangent s.w.Et
  else if s.T.Tstrain ≥ s.w.esplp then
    andThen (r4f s s.T.Teunp s.T.Tfunp s.w.esplp s.w.Eplp) fun s =>
    andThen (s.set_Trule 4) fun s =>
    andThen (RAf m s s.w.esi s.w.fi s.w.Ei s.w.esf s.w.ff s.w.Ef) fun s =>
    andThen (fcEturf m s s.T.Tstrain s.w.esi s.w.fi s.w.esf s.w.ff s.w.Ei s.w.Ef s.w.A s.w.R) fun s =>
    andThen (s.set_Tstress s.w.fc) fun s =>
    s.set_Ttangent s.w.Et
  else if s.T.Tstrain ≥ s.T.Teunn then
    andThen (r10f s s.w.esplp s.w.Eplp s.T.Teunn s.w.fnewn s.w.Enewn) fun s =>
    andThen (s.set_Trule 10) fun s =>
    andThen (RAf m s s.w.esi s.w.fi s.w.Ei s.w.esf s.w.ff s.w.Ef) fun s =>
    andThen (fcEturf m s s.T.Tstrain s.w.esi s.w.fi s.w.esf s.w.ff s.w.Ei s.w.Ef s.w.A s.w.R) fun s =>
    andThen (s.set_Esectest ((s.w.ff - s.w.fi) / (s.w.esf - s.w.esi))) fun s =>
    andThen (
        if s.w.Et = s.w.Esectest then
          if s.T.Tstrain ≥ s.w.espln then
            andThen (s.set_fc 0) fun s =>
            andThen (s.set_Et 0) fun s =>
            s.set_Trule 10
          else
            andThen (s.set_Et s.w.Enewn) fun s =>
            andThen (s.set_fc (s.w.Et * (s.T.Tstrain - s.w.espln))) fun s =>
            s.set_Trule 10
        else
          s
      ) fun s =>
    andThen (s.set_Tstress s.w.fc) fun s =>
    s.set_Ttangent s.w.Et
  else if s.T.Tstrain ≥ s.w.esren then
    andThen (r7f s s.T.Teunn s.w.fnewn s.w.Enewn s.w.esren s.w.fren s.w.Eren) fun s =>
    andThen (s.set_Trule 7) fun s =>
    andThen (RAf m s s.w.esi s.w.fi s.w.Ei s.w.esf s.w.ff s.w.Ef) fun s =>
    andThen (fcEturf m s s.T.Tstrain s.w.esi s.w.fi s.w.esf s.w.ff s.w.Ei s.w.Ef s.w.A s.w.R) fun s =>
    andThen (s.set_Tstress s.w.fc) fun s =>
    s.set_Ttangent s.w.Et
  else
    fcEtnf m s s.T.Tstrain

/-- Lines 2835-2927 of `setTrialStrain`: the branch `if (Teb>=Teunn)`. -/
def setTrialStrain_L2835 (m : Libm) (s : State) (strain : ℚ) : State :=
  if s.T.Tstrain ≥ s.T.Teb then
    andThen (r10f s s.w.esplp s.w.Eplp s.T.Teunn s.w.fnewn s.w.Enewn) fun s =>
    andThen (s.set_esi10 s.w.esi) fun s =>
    andThen (s.set_fi10 s.w.fi) fun s =>
    andThen (s.set_Ei10 s.w.Ei) fun s =>
    andThen (s.set_esf10 s.w.esf) fun s =>
    andThen (s.set_ff10 s.w.ff) fun s =>
    andThen (s.set_Ef10 s.w.Ef) fun s =>
    andThen (RAf m s s.w.esi10 s.w.fi10 s.w.Ei10 s.w.esf10 s.w.ff10 s.w.Ef10) fun s =>
    andThen (s.set_R10 s.w.R) fun s =>
    andThen (s.set_A10 s.w.A) fun s =>
    andThen (fcEturf m s s.T.Teb s.w.esi10 s.w.fi10 s.w.esf10 s.w.ff10 s.w.Ei10 s.w.Ef10 s.w.A10 s.w.R10) fun s =>
    andThen (s.set_fcb s.w.fc) fun s =>
    andThen (s.set_Etb s.w.Et) fun s =>
    andThen (s.set_Esectest10 ((s.w.ff10 - s.w.fi10) / (s.w.esf10 - s.w.esi10))) fun s =>
    andThen (
        if s.w.Etb = s.w.Esectest10 then
          if s.T.Teb ≥ s.w.espln then
            andThen (s.set_fcb 0) fun s =>
            s.set_Etb 0
          else
            andThen (s.set_Etb s.w.Enewn) fun s =>
            s.set_fcb (s.w.Etb * (s.T.Teb - s.w.espln))
        else
          s
      ) fun s =>
    andThen (s.set_esi s.T.Ter) fun s =>
    andThen (s.set_fi s.T.Tfr) fun s =>
    andThen (s.set_Ei s.par.Ec) fun s =>
    andThen (s.set_esf s.T.Teb) fun s =>
    andThen (RAf m s s.w.esi s.w.fi s.w.Ei s.w.esf s.w.fcb s.w.Etb) fun s =>
    andThen (r11f m s s.T.Ter s.T.Tfr s.T.Tea s.w.fcb s.w.Etb s.w.A s.w.R) fun s =>
    andThen (s.set_Trule 11) fun s =>
    andThen (fcEturf m s s.T.Tstrain s.w.esi s.w.fi s.w.esf s.w.ff s.w.Ei s.w.Ef s.w.A s.w.R) fun s =>
    andThen (s.set_Tstress s.w.fc) fun s =>
    s.set_Ttangent s.w.Et
  else if s.T.Tstrain ≥ s.T.Teunn then
    andThen (r10f s s.w.esplp s.w.Eplp s.T.Teunn s.w.fnewn s.w.Enewn) fun s =>
    andThen (s.set_Trule 10) fun s =>
    andThen (RAf m s s.w.esi s.w.fi s.w.Ei s.w.esf s.w.ff s.w.Ef) fun s =>
    andThen (fcEturf m s s.T.Tstrain s.w.esi s.w.fi s.w.esf s.w.ff s.w.Ei s.w.Ef s.w.A s.w.R) fun s =>
    andThen (s.set_Esectest ((s.w.ff - s.w.fi) / (s.w.esf - s.w.esi))) fun s =>
    andThen (
        if s.w.Et = s.w.Esectest then
          if s.T.Tstrain ≥ s.w.espln then
            andThen (s.set_fc 0) fun s =>
            andThen (s.set_Et 0) fun s =>
            s.set_Trule 10
          else
            andThen (s.set_Et s.w.Enewn) fun s =>
            andThen (s.set_fc (s.w.Et * (s.T.Tstrain - s.w.espln))) fun s =>
            s.set_Trule 10
        else
          s
      ) fun s =>
    andThen (s.set_Tstress s.w.fc) fun s =>
    s.set_Ttangent s.w.Et
  else if s.T.Tstrain ≥ s.w.esren then
    andThen (r7f s s.T.Teunn s.w.fnewn s.w.Enewn s.w.esren s.w.fren s.w.Eren) fun s =>
    andThen (s.set_Trule 7) fun s =>
    andThen (RAf m s s.w.esi s.w.fi s.w.Ei s.w.esf s.w.ff s.w.Ef) fun s =>
    andThen (fcEturf m s s.T.Tstrain s.w.esi s.w.fi s.w.esf s.w.ff s.w.Ei s.w.Ef s.w.A s.w.R) fun s =>
    andThen (s.set_Tstress s.w.fc) fun s =>
    s.set_Ttangent s.w.Et
  else
    fcEtnf m s s.T.Tstrain

/-- Lines 2742-3002 of `setTrialStrain`: the branch `if (Cstrain<=Teunp)`. -/
def setTrialStrain_L2742 (m : Libm) (s : State) (strain : ℚ) : State :=
  andThen (s.set_Ter s.C.Cstrain) fun s =>
  andThen (s.set_Tfr s.C.Cstress) fun s =>
  andThen (s.set_Tea s.T.Ter) fun s =>
  andThen (s.set_Teb s.T.Ter0p) fun s =>
  if s.T.Teb ≥ s.w.esplp then
    setTrialStrain_L2751 m s strain
  else if s.T.Teb ≥ s.T.Teunn then
    setTrialStrain_L2835 m s strain
  else if s.T.Teb ≥ s.w.esren then
    if s.T.Tstrain ≥ s.T.Teb then
      andThen (r7f s s.T.Teunn s.w.fnewn s.w.Enewn s.w.esren s.w.fren s.w.Eren) fun s =>
      andThen (RAf m s s.w.esi s.w.fi s.w.Ei s.w.esf s.w.ff s.w.Ef) fun s =>
      andThen (fcEturf m s s.T.Teb s.w.esi s.w.fi s.w.esf s.w.ff s.w.Ei s.w.Ef s.w.A s.w.R) fun s =>
      andThen (s.set_fcb s.w.fc) fun s =>
      andThen (s.set_Etb s.w.Et) fun s =>
      andThen (s.set_esi s.T.Ter) fun s =>
      andThen (s.set_fi s.T.Tfr) fun s =>
      andThen (s.set_Ei s.par.Ec) fun s =>
      andThen (s.set_esf s.T.Teb) fun s =>
      andThen (RAf m s s.w.esi s.w.fi s.w.Ei s.w.esf s.w.fcb s.w.Etb) fun s =>
      andThen (r11f m s s.T.Ter s.T.Tfr s.T.Teb s.w.fcb s.w.Etb s.w.A s.w.R) fun s =>
      andThen (s.set_Trule 11) fun s =>
      andThen (fcEturf m s s.T.Tstrain s.w.esi s.w.fi s.w.esf s.w.ff s.w.Ei s.w.Ef s.w.A s.w.R) fun s =>
      andThen (s.set_Tstress s.w.fc) fun s =>
      s.set_Ttangent s.w.Et
    else if s.T.Tstrain ≥ s.w.esren then
      andThen (r7f s s.T.Teunn s.w.fnewn s.w.Enewn s.w.esren s.w.fren s.w.Eren) fun s =>
      andThen (s.set_Trule 7) fun s =>
      andThen (RAf m s s.w.esi s.w.fi s.w.Ei s.w.esf s.w.ff s.w.Ef) fun s =>
      andThen (fcEturf m s s.T.Tstrain s.w.esi s.w.fi s.w.esf s.w.ff s.w.Ei s.w.Ef s.w.A s.w.R) fun s =>
      andThen (s.set_Tstress s.w.fc) fun s =>
      s.set_Ttangent s.w.Et
    else
      fcEtnf m s s.T.Tstrain
  else
    if s.T.Tstrain ≥ s.T.Teb then
      andThen (fcEtnf m s s.T.Teb) fun s =>
      andThen (s.set_fcb s.T.Tstress) fun s =>
      andThen (s.set_Etb s.T.Ttangent) fun s =>
      andThen (s.set_esi s.T.Ter) fun s =>
      andThen (s.set_fi s.T.Tfr) fun s =>
      andThen (s.set_Ei s.par.Ec) fun s =>
      andThen (s.set_esf s.T.Teb) fun s =>
      andThen (RAf m s s.w.esi s.w.fi s.w.Ei s.w.esf s.w.fcb s.w.Etb) fun s =>
      andThen (r11f m s s.T.Ter s.T.Tfr s.T.Teb s.w.fcb s.w.Etb s.w.A s.w.R) fun s =>
      andThen (s.set_Trule 11) fun s =>
      andThen (fcEturf m s s.T.Tstrain s.w.esi s.w.fi s.w.esf s.w.ff s.w.Ei s.w.Ef s.w.A s.w.R) fun s =>
      andThen (s.set_Tstress s.w.fc) fun s =>
      s.set_Ttangent s.w.Et
    else
      fcEtnf m s s.T.Tstrain

/-- Lines 3007-3068 of `setTrialStrain`: the last `else` branch of the `if` chain that starts at line 2742. -/
def setTrialStrain_L2742_else (m : Libm) (s : State) (strain : ℚ) : State :=
  andThen (s.set_Teunp s.C.Cstrain) fun s =>
  andThen (fcEtpf m s s.T.Teunp s.T.Te0) fun s =>
  andThen (s.set_Tfunp s.T.Tstress) fun s =>
  andThen (esplpf s s.T.Teunp s.T.Tfunp s.T.Te0 s.w.espln) fun s =>
  andThen (Eplpf m s s.T.Te0 s.T.Teunp) fun s =>
  if s.T.Tstrain ≥ s.w.esplp then
    andThen (r4f s s.T.Teunp s.T.Tfunp s.w.esplp s.w.Eplp) fun s =>
    andThen (s.set_Trule 4) fun s =>
    andThen (RAf m s s.w.esi s.w.fi s.w.Ei s.w.esf s.w.ff s.w.Ef) fun s =>
    andThen (fcEturf m s s.T.Tstrain s.w.esi s.w.fi s.w.esf s.w.ff s.w.Ei s.w.Ef s.w.A s.w.R) fun s =>
    andThen (s.set_Tstress s.w.fc) fun s =>
    s.set_Ttangent s.w.Et
  else if s.T.Tstrain ≥ s.T.Teunn then
    andThen (r10f s s.w.esplp s.w.Eplp s.T.Teunn s.w.fnewn s.w.Enewn) fun s =>
    andThen (s.set_Trule 10) fun s =>
    andThen (RAf m s s.w.esi s.w.fi s.w.Ei s.w.esf s.w.ff s.w.Ef) fun s =>
    andThen (fcEturf m s s.T.Tstrain s.w.esi s.w.fi s.w.esf s.w.ff s.w.Ei s.w.Ef s.w.A s.w.R) fun s =>
    andThen (s.set_Esectest ((s.w.ff - s.w.fi) / (s.w.esf - s.w.esi))) fun s =>
    andThen (
        if s.w.Et = s.w.Esectest then
          if s.T.Tstrain ≥ s.w.espln then
            andThen (s.set_fc 0) fun s =>
            andThen (s.set_Et 0) fun s =>
            s.set_Trule 10
          else
            andThen (s.set_Et s.w.Enewn) fun s =>
            andThen (s.set_fc (s.w.Et * (s.T.Tstrain - s.w.espln))) fun s =>
            s.set_Trule 10
        else
          s
      ) fun s =>
    andThen (s.set_Tstress s.w.fc) fun s =>
    s.set_Ttangent s.w.Et
  else if s.T.Tstrain ≥ s.w.esren then
    andThen (r7f s s.T.Teunn s.w.fnewn s.w.Enewn s.w.esren s.w.fren s.w.Eren) fun s =>
    andThen (s.set_Trule 7) fun s =>
    andThen (RAf m s s.w.esi s.w.fi s.w.Ei s.w.esf s.w.ff s.w.Ef) fun s =>
    andThen (fcEturf m s s.T.Tstrain s.w.esi s.w.fi s.w.esf s.w.ff s.w.Ei s.w.Ef s.w.A s.w.R) fun s =>
    andThen (s.set_Tstress s.w.fc) fun s =>
    s.set_Ttangent s.w.Et
  else
    fcEtnf m s s.T.Tstrain

/-- Lines 2740-3069 of `setTrialStrain`: the branch `if (Crule==88.0)`. -/
def setTrialStrain_L2740 (m : Libm) (s : State) (strain : ℚ) : State :=
  if s.C.Cstrain ≤ s.T.Teunp then
    setTrialStrain_L2742 m s strain
  else
    setTrialStrain_L2742_else m s strain

/-- Lines 1871-3070 of `setTrialStrain`: the branch `if (Tstrain<Cstrain)`. -/
def setTrialStrain_L1871 (m : Libm) (s : State) (strain : ℚ) : State :=
  if (fabs s.C.Cstress) = 0 then
    setTrialStrain_L1874 m s strain
  else if s.C.Crule = 2 ∨ s.C.Crule = 8 then
    setTrialStrain_L1937 m s strain
  else if s.C.Crule = 9 then
    setTrialStrain_L2006 m s strain
  else if s.C.Crule = 12 then
    setTrialStrain_L2271 m s strain
  else if s.C.Crule = 14 then
    setTrialStrain_L2611 m s strain
  else if s.C.Crule = 3 then
    andThen (s.set_Ter0n s.C.Cstrain) fun s =>
    andThen (s.set_Tfr0n s.C.Cstress) fun s =>
    andThen (s.set_Tea s.T.Ter0n) fun s =>
    andThen (fnewstnf s s.T.Tfunn s.w.delfn s.T.Teunn s.T.Ter0n s.w.espln) fun s =>
    andThen (Enewstnf s s.w.fnewstn s.T.Tfr0n s.T.Teunn s.T.Ter0n) fun s =>
    andThen (esrestnf s s.T.Teunn s.w.delen s.T.Ter0n s.w.espln) fun s =>
    andThen (freErestnf m s s.T.Teunn s.T.Tfunn s.T.Ter0n) fun s =>
    if s.T.Tstrain > s.w.esrestn then
      andThen (r77f s s.T.Tstrain s.T.Te0 s.T.Ter0n s.T.Tfr0n s.T.Teunn s.w.fnewstn s.w.Enewstn s.w.esrestn s.w.frestn s.w.Erestn) fun s =>
      andThen (s.set_Trule 77) fun s =>
      andThen (RAf m s s.w.esi s.w.fi s.w.Ei s.w.esf s.w.ff s.w.Ef) fun s =>
      andThen (fcEturf m s s.T.Tstrain s.w.esi s.w.fi s.w.esf s.w.ff s.w.Ei s.w.Ef s.w.A s.w.R) fun s =>
      andThen (s.set_Tstress s.w.fc) fun s =>
      s.set_Ttangent s.w.Et
    else
      fcEtnf m s s.T.Tstrain
  else if s.C.Crule = 88 then
    setTrialStrain_L2740 m s strain
  else
    s

/-- Lines 3161-3227 of `setTrialStrain`: the branch `if (Tea<=espln)`. -/
def setTrialStrain_L3161 (m : Libm) (s : State) (strain : ℚ) : State :=
  if s.T.Tstrain ≤ s.T.Tea then
    andThen (r3f s s.T.Teunn s.T.Tfunn s.w.espln s.w.Epln) fun s =>
    andThen (RAf m s s.w.esi s.w.fi s.w.Ei s.w.esf s.w.ff s.w.Ef) fun s =>
    andThen (fcEturf m s s.T.Tea s.w.esi s.w.fi s.w.esf s.w.ff s.w.Ei s.w.Ef s.w.A s.w.R) fun s =>
    andThen (s.set_fca s.w.fc) fun s =>
    andThen (s.set_Eta s.w.Et) fun s =>
    andThen (s.set_esi s.T.Ter) fun s =>
    andThen (s.set_fi s.T.Tfr) fun s =>
    andThen (s.set_Ei s.par.Ec) fun s =>
    andThen (s.set_esf s.T.Tea) fun s =>
    andThen (RAf m s s.w.esi s.w.fi s.w.Ei s.w.esf s.w.fca s.w.Eta) fun s =>
    andThen (r12f m s s.T.Ter s.T.Tfr s.T.Tea s.w.fca s.w.Eta s.w.A s.w.R) fun s =>
    andThen (s.set_Trule 12) fun s =>
    andThen (fcEturf m s s.T.Tstrain s.w.esi s.w.fi s.w.esf s.w.ff s.w.Ei s.w.Ef s.w.A s.w.R) fun s =>
    andThen (s.set_Tstress s.w.fc) fun s =>
    s.set_Ttangent s.w.Et
  else if s.T.Tstrain ≤ s.w.espln then
    andThen (r3f s s.T.Teunn s.T.Tfunn s.w.espln s.w.Epln) fun s =>
    andThen (s.set_Trule 3) fun s =>
    andThen (RAf m s s.w.esi s.w.fi s.w.Ei s.w.esf s.w.ff s.w.Ef) fun s =>
    andThen (fcEturf m s s.T.Tstrain s.w.esi s.w.fi s.w.esf s.w.ff s.w.Ei s.w.Ef s.w.A s.w.R) fun s =>
    andThen (s.set_Tstress s.w.fc) fun s =>
    s.set_Ttangent s.w.Et
  else if s.T.Tstrain ≤ s.T.Teunp then
    andThen (r9f s s.w.espln s.w.Epln s.T.Teunp s.w.fnewp s.w.Enewp) fun s =>
    andThen (s.set_Trule 9) fun s =>
    andThen (RAf m s s.w.esi s.w.fi s.w.Ei s.w.esf s.w.ff s.w.Ef) fun s =>
    andThen (fcEturf m s s.T.Tstrain s.w.esi s.w.fi s.w.esf s.w.ff s.w.Ei s.w.Ef s.w.A s.w.R) fun s =>
    andThen (s.set_Tstress s.w.fc) fun s =>
    s.set_Ttangent s.w.Et
  else if s.T.Tstrain ≤ s.w.esrep then
    andThen (r8f s s.T.Teunp s.w.fnewp s.w.Enewp s.w.esrep s.w.frep s.w.Erep) fun s =>
    andThen (s.set_Trule 8) fun s =>
    andThen (RAf m s s.w.esi s.w.fi s.w.Ei s.w.esf s.w.ff s.w.Ef) fun s =>
    andThen (fcEturf m s s.T.Tstrain s.w.esi s.w.fi s.w.esf s.w.ff s.w.Ei s.w.Ef s.w.A s.w.R) fun s =>
    andThen (s.set_Tstress s.w.fc) fun s =>
    s.set_Ttangent s.w.Et
  else
    fcEtpf m s s.T.Tstrain s.T.Te0

/-- Lines 3159-3359 of `setTrialStrain`: the branch `if (Teb!=Ter0p)`. -/
def setTrialStrain_L3159 (m : Libm) (s : State) (strain : ℚ) : State :=
  if s.T.Tea ≤ s.w.espln then
    setTrialStrain_L3161 m s strain
  else if s.T.Tea ≤ s.T.Teunp then
    if s.T.Tstrain ≤ s.T.Tea then
      andThen (r9f s s.w.espln s.w.Epln s.T.Teunp s.w.fnewp s.w.Enewp) fun s =>
      andThen (RAf m s s.w.esi s.w.fi s.w.Ei s.w.esf s.w.ff s.w.Ef) fun s =>
      andThen (fcEturf m s s.T.Tea s.w.esi s.w.fi s.w.esf s.w.ff s.w.Ei s.w.Ef s.w.A s.w.R) fun s =>
      andThen (s.set_fca s.w.fc) fun s =>
      andThen (s.set_Eta s.w.Et) fun s =>
      andThen (s.set_esi s.T.Ter) fun s =>
      andThen (s.set_fi s.T.Tfr) fun s =>
      andThen (s.set_Ei s.par.Ec) fun s =>
      andThen (s.set_esf s.T.Tea) fun s =>
      andThen (RAf m s s.w.esi s.w.fi s.w.Ei s.w.esf s.w.fca s.w.Eta) fun s =>
      andThen (r12f m s s.T.Ter s.T.Tfr s.T.Tea s.w.fca s.w.Eta s.w.A s.w.R) fun s =>
      andThen (s.set_Trule 12) fun s =>
      andThen (fcEturf m s s.T.Tstrain s.w.esi s.w.fi s.w.esf s.w.ff s.w.Ei s.w.Ef s.w.A s.w.R) fun s =>
      andThen (s.set_Tstress s.w.fc) fun s =>
      s.set_Ttangent s.w.Et
    else if s.T.Tstrain ≤ s.T.Teunp then
      andThen (r9f s s.w.espln s.w.Epln s.T.Teunp s.w.fnewp s.w.Enewp) fun s =>
      andThen (s.set_Trule 9) fun s =>
      andThen (RAf m s s.w.esi s.w.fi s.w.Ei s.w.esf s.w.ff s.w.Ef) fun s =>
      andThen (fcEturf m s s.T.Tstrain s.w.esi s.w.fi s.w.esf s.w.ff s.w.Ei s.w.Ef s.w.A s.w.R) fun s =>
      andThen (s.set_Tstress s.w.fc) fun s =>
      s.set_Ttangent s.w.Et
    else if s.T.Tstrain ≤ s.w.esrep then
      andThen (r8f s s.T.Teunp s.w.fnewp s.w.Enewp s.w.esrep s.w.frep s.w.Erep) fun s =>
      andThen (s.set_Trule 8) fun s =>
      andThen (RAf m s s.w.esi s.w.fi s.w.Ei s.w.esf s.w.ff s.w.Ef) fun s =>
      andThen (fcEturf m s s.T.Tstrain s.w.esi s.w.fi s.w.esf s.w.ff s.w.Ei s.w.Ef s.w.A s.w.R) fun s =>
      andThen (s.set_Tstress s.w.fc) fun s =>
      s.set_Ttangent s.w.Et
    else
      fcEtpf m s s.T.Tstrain s.T.Te0
  else if s.T.Tea ≤ s.w.esrep then
    if s.T.Tstrain ≤ s.T.Tea then
      andThen (r8f s s.T.Teunp s.w.fnewp s.w.Enewp s.w.esrep s.w.frep s.w.Erep) fun s =>
      andThen (RAf m s s.w.esi s.w.fi s.w.Ei s.w.esf s.w.ff s.w.Ef) fun s =>
      andThen (fcEturf m s s.T.Tea s.w.esi s.w.fi s.w.esf s.w.ff s.w.Ei s.w.Ef s.w.A s.w.R) fun s =>
      andThen (s.set_fca s.w.fc) fun s =>
      andThen (s.set_Eta s.w.Et) fun s =>
      andThen (s.set_esi s.T.Ter) fun s =>
      andThen (s.set_fi s.T.Tfr) fun s =>
      andThen (s.set_Ei s.par.Ec) fun s =>
      andThen (s.set_esf s.T.Tea) fun s =>
      andThen (RAf m s s.w.esi s.w.fi s.w.Ei s.w.esf s.w.fca s.w.Eta) fun s =>
      andThen (r12f m s s.T.Ter s.T.Tfr s.T.Tea s.w.fca s.w.Eta s.w.A s.w.R) fun s =>
      andThen (s.set_Trule 12) fun s =>
      andThen (fcEturf m s s.T.Tstrain s.w.esi s.w.fi s.w.esf s.w.ff s.w.Ei s.w.Ef s.w.A s.w.R) fun s =>
      andThen (s.set_Tstress s.w.fc) fun s =>
      s.set_Ttangent s.w.Et
    else if s.T.Tstrain ≤ s.w.esrep then
      andThen (r8f s s.T.Teunp s.w.fnewp s.w.Enewp s.w.esrep s.w.frep s.w.Erep) fun s =>
      andThen (s.set_Trule 8) fun s =>
      andThen (RAf m s s.w.esi s.w.fi s.w.Ei s.w.esf s.w.ff s.w.Ef) fun s =>
      andThen (fcEturf m s s.T.Tstrain s.w.esi s.w.fi s.w.esf s.w.ff s.w.Ei s.w.Ef s.w.A s.w.R) fun s =>
      andThen (s.set_Tstress s.w.fc) fun s =>
      s.set_Ttangent s.w.Et
    else
      fcEtpf m s s.T.Tstrain s.T.Te0
  else
    if s.T.Tstrain ≤ s.T.Tea then
      andThen (fcEtpf m s s.T.Tea s.T.Te0) fun s =>
      andThen (s.set_fca s.T.Tstress) fun s =>
      andThen (s.set_Eta s.T.Ttangent) fun s =>
      andThen (s.set_esi s.T.Ter) fun s =>
      andThen (s.set_fi s.T.Tfr) fun s =>
      andThen (s.set_Ei s.par.Ec) fun s =>
      andThen (s.set_esf s.T.Tea) fun s =>
      andThen (RAf m s s.w.esi s.w.fi s.w.Ei s.w.esf s.w.fca s.w.Eta) fun s =>
      andThen (r12f m s s.T.Ter s.T.Tfr s.T.Tea s.w.fca s.w.Eta s.w.A s.w.R) fun s =>
      andThen (s.set_Trule 12) fun s =>
      andThen (fcEturf m s s.T.Tstrain s.w.esi s.w.fi s.w.esf s.w.ff s.w.Ei s.w.Ef s.w.A s.w.R) fun s =>
      andThen (s.set_Tstress s.w.fc) fun s =>
      s.set_Ttangent s.w.Et
    else
      fcEtpf m s s.T.Tstrain s.T.Te0

/-- Lines 3364-3433 of `setTrialStrain`: the last `else` branch of the `if` chain that starts at line 3159. -/
def setTrialStrain_L3159_else (m : Libm) (s : State) (strain : ℚ) : State :=
  if s.T.Tea ≤ s.w.esrestp then
    if s.T.Tstrain ≤ s.T.Tea then
      andThen (r88f s s.T.Tea s.T.Te0 s.T.Ter0p s.T.Tfr0p s.T.Teunp s.w.fnewstp s.w.Enewstp s.w.esrestp s.w.frestp s.w.Erestp) fun s =>
      andThen (RAf m s s.w.esi s.w.fi s.w.Ei s.w.esf s.w.ff s.w.Ef) fun s =>
      andThen (fcEturf m s s.T.Tea s.w.esi s.w.fi s.w.esf s.w.ff s.w.Ei s.w.Ef s.w.A s.w.R) fun s =>
      andThen (s.set_esi s.T.Ter) fun s =>
      andThen (s.set_fi s.T.Tfr) fun s =>
      andThen (s.set_Ei s.par.Ec) fun s =>
      andThen (s.set_esf s.T.Tea) fun s =>
      andThen (RAf m s s.w.esi s.w.fi s.w.Ei s.w.esf s.w.fca s.w.Eta) fun s =>
      andThen (r12f m s s.T.Ter s.T.Tfr s.T.Tea s.w.fca s.w.Eta s.w.A s.w.R) fun s =>
      andThen (s.set_Trule 12) fun s =>
      andThen (fcEturf m s s.T.Tstrain s.w.esi s.w.fi s.w.esf s.w.ff s.w.Ei s.w.Ef s.w.A s.w.R) fun s =>
      andThen (s.set_Tstress s.w.fc) fun s =>
      s.set_Ttangent s.w.Et
    else if s.T.Tstrain ≤ s.w.esrestp then
      andThen (r88f s s.T.Tstrain s.T.Te0 s.T.Ter0p s.T.Tfr0p s.T.Teunp s.w.fnewstp s.w.Enewstp s.w.esrestp s.w.frestp s.w.Erestp) fun s =>
      andThen (s.set_Trule 88) fun s =>
      andThen (RAf m s s.w.esi s.w.fi s.w.Ei s.w.esf s.w.ff s.w.Ef) fun s =>
      andThen (fcEturf m s s.T.Tstrain s.w.esi s.w.fi s.w.esf s.w.ff s.w.Ei s.w.Ef s.w.A s.w.R) fun s =>
      andThen (s.set_Tstress s.w.fc) fun s =>
      s.set_Ttangent s.w.Et
    else
      fcEtpf m s s.T.Tstrain s.T.Te0
  else
    if s.T.Tstrain ≤ s.T.Tea then
      andThen (fcEtpf m s s.T.Tea s.T.Te0) fun s =>
      andThen (s.set_fca s.T.Tstress) fun s =>
      andThen (s.set_Eta s.T.Ttangent) fun s =>
      andThen (s.set_esi s.T.Ter) fun s =>
      andThen (s.set_fi s.T.Tfr) fun s =>
      andThen (s.set_Ei s.par.Ec) fun s =>
      andThen (s.set_esf s.T.Tea) fun s =>
      andThen (RAf m s s.w.esi s.w.fi s.w.Ei s.w.esf s.w.fca s.w.Eta) fun s =>
      andThen (r12f m s s.T.Ter s.T.Tfr s.T.Tea s.w.fca s.w.Eta s.w.A s.w.R) fun s =>
      andThen (s.set_Trule 12) fun s =>
      andThen (fcEturf m s s.T.Tstrain s.w.esi s.w.fi s.w.esf s.w.ff s.w.Ei s.w.Ef s.w.A s.w.R) fun s =>
      andThen (s.set_Tstress s.w.fc) fun s =>
      s.set_Ttangent s.w.Et
    else
      fcEtpf m s s.T.Tstrain s.T.Te0

/-- Lines 3157-3434 of `setTrialStrain`: the branch `if (Crule==12.0)`. -/
def setTrialStrain_L3157 (m : Libm) (s : State) (strain : ℚ) : State :=
  if s.T.Teb ≠ s.T.Ter0p then
    setTrialStrain_L3159 m s strain
  else
    setTrialStrain_L3159_else m s strain

/-- Lines 3082-3477 of `setTrialStrain`: the last `else` branch of the `if` chain that starts at line 1871. -/
def setTrialStrain_L1871_else (m : Libm) (s : State) (strain : ℚ) : State :=
  if s.C.Crule = 3 ∨ s.C.Crule = 9 ∨ s.C.Crule = 8 then
    if s.T.Tstrain ≤ s.w.espln then
      andThen (r3f s s.T.Teunn s.T.Tfunn s.w.espln s.w.Epln) fun s =>
      andThen (s.set_Trule 3) fun s =>
      andThen (RAf m s s.w.esi s.w.fi s.w.Ei s.w.esf s.w.ff s.w.Ef) fun s =>
      andThen (fcEturf m s s.T.Tstrain s.w.esi s.w.fi s.w.esf s.w.ff s.w.Ei s.w.Ef s.w.A s.w.R) fun s =>
      andThen (s.set_Tstress s.w.fc) fun s =>
      s.set_Ttangent s.w.Et
    else if s.T.Tstrain ≤ s.T.Teunp then
      andThen (r9f s s.w.espln s.w.Epln s.T.Teunp s.w.fnewp s.w.Enewp) fun s =>
      andThen (s.set_Trule 9) fun s =>
      andThen (RAf m s s.w.esi s.w.fi s.w.Ei s.w.esf s.w.ff s.w.Ef) fun s =>
      andThen (fcEturf m s s.T.Tstrain s.w.esi s.w.fi s.w.esf s.w.ff s.w.Ei s.w.Ef s.w.A s.w.R) fun s =>
      andThen (s.set_Tstress s.w.fc) fun s =>
      s.set_Ttangent s.w.Et
    else if s.T.Tstrain ≤ s.w.esrep then
      andThen (r8f s s.T.Teunp s.w.fnewp s.w.Enewp s.w.esrep s.w.frep s.w.Erep) fun s =>
      andThen (s.set_Trule 8) fun s =>
      andThen (RAf m s s.w.esi s.w.fi s.w.Ei s.w.esf s.w.ff s.w.Ef) fun s =>
      andThen (fcEturf m s s.T.Tstrain s.w.esi s.w.fi s.w.esf s.w.ff s.w.Ei s.w.Ef s.w.A s.w.R) fun s =>
      andThen (s.set_Tstress s.w.fc) fun s =>
      s.set_Ttangent s.w.Et
    else
      fcEtpf m s s.T.Tstrain s.T.Te0
  else if s.C.Crule = 2 then
    fcEtpf m s s.T.Tstrain s.T.Te0
  else if s.C.Crule = 6 then
    andThen (fcEtpr6f s s.T.Tstrain s.T.Te0) fun s =>
    s.set_Trule 6
  else if s.C.Crule = 88 then
    if s.T.Tstrain < s.w.esrestp then
      andThen (r88f s s.T.Tstrain s.T.Te0 s.T.Ter0p s.T.Tfr0p s.T.Teunp s.w.fnewstp s.w.Enewstp s.w.esrestp s.w.frestp s.w.Erestp) fun s =>
      andThen (s.set_Trule 88) fun s =>
      andThen (RAf m s s.w.esi s.w.fi s.w.Ei s.w.esf s.w.ff s.w.Ef) fun s =>
      andThen (fcEturf m s s.T.Tstrain s.w.esi s.w.fi s.w.esf s.w.ff s.w.Ei s.w.Ef s.w.A s.w.R) fun s =>
      andThen (s.set_Tstress s.w.fc) fun s =>
      s.set_Ttangent s.w.Et
    else
      fcEtpf m s s.T.Tstrain s.T.Te0
  else if s.C.Crule = 12 then
    setTrialStrain_L3157 m s strain
  else if s.C.Crule = 14 then
    if s.T.Tstrain ≤ s.T.Teb then
      andThen (r14f s s.T.Ter s.T.Tfr s.T.Teb) fun s =>
      andThen (s.set_Trule 14) fun s =>
      andThen (RAf m s s.w.esi s.w.fi s.w.Ei s.w.esf s.w.ff s.w.Ef) fun s =>
      andThen (fcEturf m s s.T.Tstrain s.w.esi s.w.fi s.w.esf s.w.ff s.w.Ei s.w.Ef s.w.A s.w.R) fun s =>
      andThen (s.set_Tstress s.w.fc) fun s =>
      s.set_Ttangent s.w.Et
    else if s.T.Tstrain < s.T.Teunp then
      andThen (r66f s s.T.Tstrain s.T.Te0) fun s =>
      s.set_Trule 66
    else
      andThen (fcEtpr6f s s.T.Tstrain s.T.Te0) fun s =>
      s.set_Trule 6
  else if s.C.Crule = 66 then
    if s.T.Tstrain < s.T.Teunp then
      andThen (r66f s s.T.Tstrain s.T.Te0) fun s =>
      s.set_Trule 66
    else
      andThen (fcEtpr6f s s.T.Tstrain s.T.Te0) fun s =>
      s.set_Trule 6
  else
    s

/-- Lines 1871-3479 of `setTrialStrain`: the last `else` branch of the `if` chain that starts at line 365. -/
def setTrialStrain_L365_else (m : Libm) (s : State) (strain : ℚ) : State :=
  if s.T.Tstrain < s.C.Cstrain then
    setTrialStrain_L1871 m s strain
  else
    setTrialStrain_L1871_else m s strain

/-- Lines 310-3481 of `setTrialStrain`: the last `else` branch of the `if` chain that starts at line 242. -/
def setTrialStrain_L276_else (m : Libm) (s : State) (strain : ℚ) : State :=
  andThen (setTrialStrain_L310_L334 m s strain) fun s =>
  andThen (setTrialStrain_L336_L362 m s strain) fun s =>
  if s.C.Cinc = -1 then
    setTrialStrain_L365 m s strain
  else
    setTrialStrain_L365_else m s strain

/-- Method `setTrialStrain(strain, strainRate)` (lines 234-3485); `strainRate` is not
used by the body. -/
def setTrialStrain (m : Libm) (s : State) (strain : ℚ) : State :=
  andThen (revertToLastCommit s) fun s =>
  andThen (s.set_Tstrain strain) fun s =>
  if s.par.mon = 1 then
    andThen (
        if s.T.Tstrain < 0 then
          andThen (fcEtnf m s s.T.Tstrain) fun s =>
          s.set_Tinc (-1)
        else if s.T.Tstrain > 0 then
          andThen (fcEtpf m s s.T.Tstrain s.C.Ce0) fun s =>
          s.set_Tinc 1
        else
          andThen (s.set_Tstress 0) fun s =>
          andThen (s.set_Ttangent s.par.Ec) fun s =>
          andThen (s.set_Trule 0) fun s =>
          s.set_Tinc 0
      ) fun s =>
    andThen (s.set_Teunn 0) fun s =>
    andThen (s.set_Tfunn 0) fun s =>
    andThen (s.set_Teunp 0) fun s =>
    andThen (s.set_Tfunp 0) fun s =>
    andThen (s.set_Ter 0) fun s =>
    andThen (s.set_Tfr 0) fun s =>
    andThen (s.set_Ter0n 0) fun s =>
    andThen (s.set_Tfr0n 0) fun s =>
    andThen (s.set_Ter0p 0) fun s =>
    andThen (s.set_Tfr0p 0) fun s =>
    andThen (s.set_Te0 0) fun s =>
    andThen (s.set_Tea 0) fun s =>
    andThen (s.set_Teb 0) fun s =>
    s.set_Ted 0
  else if s.C.Cinc = 0 then
    andThen (
        if s.T.Tstrain < 0 then
          andThen (fcEtnf m s s.T.Tstrain) fun s =>
          s.set_Tinc (-1)
        else if s.T.Tstrain > 0 then
          andThen (fcEtpf m s s.T.Tstrain s.C.Ce0) fun s =>
          s.set_Tinc 1
        else
          andThen (s.set_Tstress 0) fun s =>
          andThen (s.set_Ttangent s.par.Ec) fun s =>
          andThen (s.set_Trule 0) fun s =>
          s.set_Tinc 0
      ) fun s =>
    andThen (s.set_Teunn 0) fun s =>
    andThen (s.set_Tfunn 0) fun s =>
    andThen (s.set_Teunp 0) fun s =>
    andThen (s.set_Tfunp 0) fun s =>
    andThen (s.set_Ter 0) fun s =>
    andThen (s.set_Tfr 0) fun s =>
    andThen (s.set_Ter0n 0) fun s =>
    andThen (s.set_Tfr0n 0) fun s =>
    andThen (s.set_Ter0p 0) fun s =>
    andThen (s.set_Tfr0p 0) fun s =>
    andThen (s.set_Te0 0) fun s =>
    andThen (s.set_Tea 0) fun s =>
    andThen (s.set_Teb 0) fun s =>
    s.set_Ted 0
  else
    setTrialStrain_L276_else m s strain
/-- Method `getStress` (lines 4143-4146). -/
def getStress (s : State) : ℚ := s.T.Tstress

/-- Method `getStrain` (lines 4148-4151). -/
def getStrain (s : State) : ℚ := s.T.Tstrain

/-- Method `getTangent` (lines 4153-4156). -/
def getTangent (s : State) : ℚ := s.T.Ttangent

/-- The member initialisers `Ceunn(0.0), ..., Ctangent(0.0)` of the constructors. -/
def Committed.init : Committed where
  Ceunn := 0
  Cfunn := 0
  Ceunp := 0
  Cfunp := 0
  Cer := 0
  Cfr := 0
  Cer0n := 0
  Cfr0n := 0
  Cer0p := 0
  Cfr0p := 0
  Ce0 := 0
  Cea := 0
  Ceb := 0
  Ced := 0
  Cinc := 0
  Crule := 0
  Cstrain := 0
  Cstress := 0
  Ctangent := 0

/-- The three constructors with material parameters (lines 139-197) have the same
member initialisers and body, and differ in `mon` and `Gap`.  The trial variables
are set by `revertToLastCommit`; the other members are not initialised and keep the
values they have in `u`. -/
def construct (tag : Int) (FPCC EPCC EC RC XCRN FT ET RT XCRP : ℚ) (MON GAP : Int)
    (u : State) : State :=
  revertToLastCommit
    { u with
      par := { tag := tag, fpcc := FPCC, epcc := EPCC, Ec := EC, rc := RC, xcrn := XCRN,
               ft := FT, et := ET, rt := RT, xcrp := XCRP, mon := MON, Gap := GAP }
      C := Committed.init }

/-- Typical constructor (lines 139-157): `mon = 0`, `Gap = 0`. -/
def new (tag : Int) (FPCC EPCC EC RC XCRN FT ET RT XCRP : ℚ) (u : State) : State :=
  construct tag FPCC EPCC EC RC XCRN FT ET RT XCRP 0 0 u

/-- Constructor for the monotonic relationship only (lines 159-177): `mon = MON`, `Gap = 0`. -/
def newMon (tag : Int) (FPCC EPCC EC RC XCRN FT ET RT XCRP : ℚ) (MON : Int) (u : State) :
    State :=
  construct tag FPCC EPCC EC RC XCRN FT ET RT XCRP MON 0 u

/-- Constructor for optional gradual gap closure (lines 179-197): `mon = 0`, `Gap = GAP`. -/
def newGap (tag : Int) (FPCC EPCC EC RC XCRN FT ET RT XCRP : ℚ) (GAP DUMMY : Int) (u : State) :
    State :=
  construct tag FPCC EPCC EC RC XCRN FT ET RT XCRP 0 GAP u

/-- The objects after each `setTrialStrain` of a loading history in which every trial
strain of the list is committed (`commitState`) before the next one is set. -/
def loadPath (m : Libm) : State → List ℚ → List State
  | _, [] => []
  | s, x :: xs => setTrialStrain m s x :: loadPath m (commitState (setTrialStrain m s x)) xs

/-- `Frame s t`: the object `t` has the input parameters, the committed variables and
the trial strain of `s`. -/
def Frame (s t : State) : Prop := t.par = s.par ∧ t.C = s.C ∧ t.T.Tstrain = s.T.Tstrain

/-- `Keeps s t`: the object `t` has the input parameters, the committed variables and
the trial variables of `s`; only working storage differs. -/
def Keeps (s t : State) : Prop := t.par = s.par ∧ t.C = s.C ∧ t.T = s.T

/-- `Same f s t`: the observation `f` has the same value on the objects `s` and `t`. -/
def Same {α : Type} (f : State → α) (s t : State) : Prop := f t = f s

/-- `Post Q t`: the assertion `Q` holds of the object `t`. -/
def Post (Q : State → Prop) (t : State) : Prop := Q t

/-- `OnEnvelope m s x t`: the trial stress, tangent and rule of the object `t` are those that
`fcEtnf` computes for the strain `x` from the object `s`, and the trial increment of `t` is
`-1`. -/
def OnEnvelope (m : Libm) (s : State) (x : ℚ) (t : State) : Prop :=
  t.T.Tstress = (fcEtnf m s x).T.Tstress ∧ t.T.Ttangent = (fcEtnf m s x).T.Ttangent ∧
  t.T.Trule = (fcEtnf m s x).T.Trule ∧ t.T.Tinc = -1

/-- `Unloading s t`: the object `t` has the parameters, the committed variables and the
trial strain of `s`, and its unloading point `(Teunn, Tfunn)` is the committed point of `s`. -/
def Unloading (s t : State) : Prop :=
  t.par = s.par ∧ t.C = s.C ∧ t.T.Tstrain = s.T.Tstrain ∧
  t.T.Teunn = s.C.Cstrain ∧ t.T.Tfunn = s.C.Cstress

/-- An object with every member zero, used as the storage handed to a constructor. -/
def State.zero : State where
  par := { tag := 0, fpcc := 0, epcc := 0, Ec := 0, rc := 0, xcrn := 0, ft := 0, et := 0,
           rt := 0, xcrp := 0, mon := 0, Gap := 0 }
  C := Committed.init
  T := ⟨0, 0, 0, 0, 0, 0, 0, 0, 0, 0, 0, 0, 0, 0, 0, 0, 0, 0, 0⟩
  w := ⟨0, 0, 0, 0, 0, 0, 0, 0, 0, 0, 0, 0, 0, 0, 0, 0, 0, 0, 0, 0, 0, 0, 0, 0, 0,
        0, 0, 0, 0, 0, 0, 0, 0, 0, 0, 0, 0, 0, 0, 0, 0, 0, 0, 0, 0, 0, 0, 0, 0, 0,
        0, 0, 0, 0, 0, 0, 0, 0, 0, 0, 0, 0, 0, 0, 0, 0, 0, 0, 0, 0, 0, 0, 0⟩

/-- An instance of the typical constructor used in the examples: `fpcc = -30`,
`epcc = -0.002`, `Ec = 30000`, `rc = 7`, `xcrn = 2`, `ft = 3`, `et = 0.0001`, `rt = 2`,
`xcrp = 3`. -/
def specimen : State := new 1 (-30) (-0.002) 30000 7 2 3 0.0001 2 3 State.zero

/-- An object with the parameters of `specimen` whose committed variables place it on rule 11
(`Crule = 11`, `Cinc = -1`) between the reversal point `(Cer, Cfr) = (-0.001, -15)` and the
target strain `Ceb = -0.002`, which is below the unloading strain `Ceunn = -0.0001`.  These
are the values that `recvSelf` installs from a vector that holds them; the working storage
is zero. -/
def rule11Object : State :=
  { par := { tag := 1, fpcc := -30, epcc := -0.002, Ec := 30000, rc := 7, xcrn := 2, ft := 3,
             et := 0.0001, rt := 2, xcrp := 3, mon := 0, Gap := 0 }
    C := { Ceunn := -0.0001, Cfunn := -2.5, Ceunp := 0.00002, Cfunp := 0.5, Cer := -0.001,
           Cfr := -15, Cer0n := 0, Cfr0n := 0, Cer0p := 0, Cfr0p := 0, Ce0 := 0,
           Cea := 0.00005, Ceb := -0.002, Ced := 0, Cinc := -1, Crule := 11,
           Cstrain := -0.0012, Cstress := -20.4, Ctangent := 24000 }
    T := State.zero.T
    w := State.zero.w }

/-- Default constructor `ConcreteCM()` (lines 199-213): tag 0, every input parameter and
committed variable zero, and the body of the other constructors. -/
def newDefault (u : State) : State := construct 0 0 0 0 0 0 0 0 0 0 0 0 u

/-- Method `sendSelf` (lines 4305-4353): the vector `data` of 31 entries handed to
`theChannel.sendVector`.  The method returns the status that the channel reports. -/
def sendSelf (s : State) : List ℚ :=
  [(s.par.tag : ℚ), s.par.fpcc, s.par.epcc, s.par.Ec, s.par.rc, s.par.xcrn, s.par.ft, s.par.et,
   s.par.rt, s.par.xcrp, (s.par.mon : ℚ), (s.par.Gap : ℚ),
   s.C.Ceunn, s.C.Cfunn, s.C.Ceunp, s.C.Cfunp, s.C.Cer, s.C.Cfr, s.C.Cer0n, s.C.Cfr0n,
   s.C.Cer0p, s.C.Cfr0p, s.C.Ce0, s.C.Cea, s.C.Ceb, s.C.Ced, s.C.Cinc, s.C.Crule,
   s.C.Cstrain, s.C.Cstress, s.C.Ctangent]

/-- Method `recvSelf` (lines 4355-4412).  `res` is the status returned by
`theChannel.recvVector` and `data` the vector it has filled; the result is the object
after the call and the returned status.  The assignments of the `else` branch are written
as one record: the input parameters from `data(0)` to `data(11)`, the committed variables
from `data(12)` to `data(30)`, and the trial strain, stress and tangent from the committed
ones just assigned. -/
def recvSelf (s : State) (res : Int) (data : List ℚ) : State × Int :=
  if res < 0 then
    ({ s with par := { s.par with tag := 0 } }, res)
  else
    ({ par := { tag := toInt (data.getD 0 0), fpcc := data.getD 1 0, epcc := data.getD 2 0,
                Ec := data.getD 3 0, rc := data.getD 4 0, xcrn := data.getD 5 0,
                ft := data.getD 6 0, et := data.getD 7 0, rt := data.getD 8 0,
                xcrp := data.getD 9 0, mon := toInt (data.getD 10 0),
                Gap := toInt (data.getD 11 0) }
       C := { Ceunn := data.getD 12 0, Cfunn := data.getD 13 0, Ceunp := data.getD 14 0,
              Cfunp := data.getD 15 0, Cer := data.getD 16 0, Cfr := data.getD 17 0,
              Cer0n := data.getD 18 0, Cfr0n := data.getD 19 0, Cer0p := data.getD 20 0,
              Cfr0p := data.getD 21 0, Ce0 := data.getD 22 0, Cea := data.getD 23 0,
              Ceb := data.getD 24 0, Ced := data.getD 25 0, Cinc := data.getD 26 0,
              Crule := data.getD 27 0, Cstrain := data.getD 28 0, Cstress := data.getD 29 0,
              Ctangent := data.getD 30 0 }
       T := { s.T with Tstrain := data.getD 28 0, Tstress := data.getD 29 0,
                       Ttangent := data.getD 30 0 }
       w := s.w }, res)

/-- `FirstLoading m s e t`: the trial stress, tangent, rule and increment of `t` are those
of a first loading of `s` to the strain `e`: the compression envelope `fcEtnf` below zero,
the tension envelope `fcEtpf` above zero, and the unloaded state at zero. -/
def FirstLoading (m : Libm) (s : State) (e : ℚ) (t : State) : Prop :=
  (e < 0 → t.T.Tstress = (fcEtnf m s e).T.Tstress ∧
    t.T.Ttangent = (fcEtnf m s e).T.Ttangent ∧
    (t.T.Trule = 1 ∨ t.T.Trule = 5) ∧ t.T.Tinc = -1) ∧
  (e > 0 → t.T.Tstress = (fcEtpf m s e s.C.Ce0).T.Tstress ∧
    t.T.Ttangent = (fcEtpf m s e s.C.Ce0).T.Ttangent ∧
    (t.T.Trule = 2 ∨ t.T.Trule = 6) ∧ t.T.Tinc = 1) ∧
  (e = 0 → t.T.Tstress = 0 ∧ t.T.Ttangent = s.par.Ec ∧ t.T.Trule = 0 ∧ t.T.Tinc = 0)

/-- `HistoryZero t`: the fourteen trial history variables of `t` are zero. -/
def HistoryZero (t : State) : Prop :=
  t.T.Teunn = 0 ∧ t.T.Tfunn = 0 ∧ t.T.Teunp = 0 ∧ t.T.Tfunp = 0 ∧ t.T.Ter = 0 ∧ t.T.Tfr = 0 ∧
  t.T.Ter0n = 0 ∧ t.T.Tfr0n = 0 ∧ t.T.Ter0p = 0 ∧ t.T.Tfr0p = 0 ∧ t.T.Te0 = 0 ∧ t.T.Tea = 0 ∧
  t.T.Teb = 0 ∧ t.T.Ted = 0

/-- The object after a loading history in which every strain of the list is set by
`setTrialStrain` and committed by `commitState`. -/
def afterHistory (m : Libm) (s : State) (xs : List ℚ) : State :=
  xs.foldl (fun c x => commitState (setTrialStrain m c x)) s

/-- Lines 859-863 of `setTrialStrain` (the same statements are at lines 3368-3372): rule 88
is evaluated at the strain `Tea`, which leaves its stress and tangent in `fc` and `Et`. -/
def rule88AtTea (m : Libm) (s : State) : State :=
  andThen (r88f s s.T.Tea s.T.Te0 s.T.Ter0p s.T.Tfr0p s.T.Teunp s.w.fnewstp s.w.Enewstp s.w.esrestp s.w.frestp s.w.Erestp) fun s =>
  andThen (RAf m s s.w.esi s.w.fi s.w.Ei s.w.esf s.w.ff s.w.Ef) fun s =>
  fcEturf m s s.T.Tea s.w.esi s.w.fi s.w.esf s.w.ff s.w.Ei s.w.Ef s.w.A s.w.R

/-- The instance of the reversal scenario: `fpcc = -27.6`, `epcc = -0.0045`, `Ec = 25000`,
with the shape parameters of `specimen` and `ft = 2`. -/
def scenario : State := new 1 (-27.6) (-0.0045) 25000 7 2 2 0.0001 2 3 State.zero

/-- The instance `scenario` after the committed strains `0` and `-0.002`. -/
def scenarioCommitted : State := afterHistory Libm.sample scenario [0, -0.002]

/-- An instance of the constructor for the monotonic relationship (`mon = 1`) with the
parameters of `specimen`, committed at the strain `-0.002`. -/
def monotonicCommitted : State :=
  afterHistory Libm.sample (newMon 1 (-30) (-0.002) 30000 7 2 3 0.0001 2 3 1 State.zero) [-0.002]

/-- The object `specimen` after the committed strains `0.0001, 0, 0.0001, 0`: cracked in
tension, unloaded, reloaded on rule 88 and unloaded again on rule 11. -/
def rule12History : State := afterHistory Libm.sample specimen [0.0001, 0, 0.0001, 0]

/-- Constructor `ConcreteCM(int tag)` (lines 217-227): the base class gets the tag, no data
member is initialised, so each keeps the value it has in `u`, and the body calls
`revertToLastCommit`. -/
def newTag (tag : Int) (u : State) : State :=
  revertToLastCommit { u with par := { u.par with tag := tag } }

/-- Method `getCopy` (lines 4264-4303): the object `theCopy` that it returns.  `u` holds
the values of the members of the new object before the constructor runs. -/
def getCopy (s : State) (u : State) : State :=
  let theCopy := newTag s.par.tag u
  { theCopy with
    par := { theCopy.par with
      fpcc := s.par.fpcc, epcc := s.par.epcc, Ec := s.par.Ec, rc := s.par.rc,
      xcrn := s.par.xcrn, ft := s.par.ft, et := s.par.et, rt := s.par.rt,
      xcrp := s.par.xcrp, mon := s.par.mon, Gap := s.par.Gap }
    C := { theCopy.C with
      Ceunn := s.C.Ceunn, Cfunn := s.C.Cfunn, Ceunp := s.C.Ceunp, Cfunp := s.C.Cfunp,
      Cer := s.C.Cer, Cfr := s.C.Cfr, Cer0n := s.C.Cer0n, Cfr0n := s.C.Cfr0n,
      Cer0p := s.C.Cer0p, Cfr0p := s.C.Cfr0p, Ce0 := s.C.Ce0, Cea := s.C.Cea,
      Ceb := s.C.Ceb, Ced := s.C.Ced, Cinc := s.C.Cinc, Crule := s.C.Crule,
      Cstrain := s.C.Cstrain, Cstress := s.C.Cstress, Ctangent := s.C.Ctangent } }

/-- Lines 1817-1843 of `setTrialStrain` (the same statements are at lines 2668-2691): the
branch of rule 13, which leaves the stress and the tangent of rule 13 at the trial strain
in `Tstress` and `Ttangent`. -/
def rule13Branch (m : Libm) (s : State) : State :=
  andThen (r13f s s.T.Ted s.T.Teunn s.w.fnewn s.w.Enewn) fun s =>
  andThen (s.set_Trule 13) fun s =>
  andThen (RAf m s s.w.esi s.w.fi s.w.Ei s.w.esf s.w.ff s.w.Ef) fun s =>
  andThen (fcEturf m s s.T.Tstrain s.w.esi s.w.fi s.w.esf s.w.ff s.w.Ei s.w.Ef s.w.A s.w.R) fun s =>
  andThen (s.set_Esectest ((s.w.ff - s.w.fi) / (s.w.esf - s.w.esi))) fun s =>
  andThen (
      if s.w.Et = s.w.Esectest then
        if s.T.Tstrain ≥ s.w.espln then
          andThen (s.set_fc 0) fun s =>
          andThen (s.set_Et 0) fun s =>
          s.set_Trule 13
        else
          andThen (s.set_Et s.w.Enewn) fun s =>
          andThen (s.set_fc (s.w.Et * (s.T.Tstrain - s.w.espln))) fun s =>
          s.set_Trule 13
      else
        s
    ) fun s =>
  andThen (s.set_Tstress s.w.fc) fun s =>
  s.set_Ttangent s.w.Et

/-- The object `specimen` after the committed strains
`-0.003, 0, -0.003, -0.0016, -0.003, -0.0025`: crushed, unloaded, reloaded on rule 13,
unloaded to rule 66, reloaded on rule 13 and unloaded again on rule 14. -/
def rule15History : State :=
  afterHistory Libm.sample specimen [-0.003, 0, -0.003, -0.0016, -0.003, -0.0025]

/-- The rules of the negative direction. -/
def NegRule (r : ℚ) : Prop :=
  r = 1 ∨ r = 5 ∨ r = 4 ∨ r = 10 ∨ r = 7 ∨ r = 11 ∨ r = 13 ∨ r = 15 ∨ r = 77

/-- The rules of the positive direction. -/
def PosRule (r : ℚ) : Prop :=
  r = 2 ∨ r = 6 ∨ r = 3 ∨ r = 9 ∨ r = 8 ∨ r = 12 ∨ r = 14 ∨ r = 66 ∨ r = 88

/-- `RuleClass inc rule`: the rule agrees with the direction: no direction and rule 0, the
negative direction and a rule of the negative direction, or the positive direction and a
rule of the positive direction. -/
def RuleClass (inc rule : ℚ) : Prop :=
  (inc = 0 ∧ rule = 0) ∨ (inc = -1 ∧ NegRule rule) ∨ (inc = 1 ∧ PosRule rule)

/-- `CommOK c`: the committed rule agrees with the committed direction, and the committed
stress is 0 on the rules 6 and 66. -/
def CommOK (c : Committed) : Prop :=
  RuleClass c.Cinc c.Crule ∧ ((c.Crule = 6 ∨ c.Crule = 66) → c.Cstress = 0)

/-- `CommittedOK t`: the committed variables of `t` satisfy `CommOK`. -/
def CommittedOK (t : State) : Prop := CommOK t.C

/-- `TrialOK t`: the trial rule agrees with the trial direction, and the trial stress is 0
on the rules 6 and 66. -/
def TrialOK (t : State) : Prop :=
  RuleClass t.T.Tinc t.T.Trule ∧ ((t.T.Trule = 6 ∨ t.T.Trule = 66) → t.T.Tstress = 0)

/-- `KeepsRule s t`: the object `t` has the committed variables and the trial direction,
rule, stress and tangent of `s`. -/
def KeepsRule (s t : State) : Prop :=
  t.C = s.C ∧ t.T.Tinc = s.T.Tinc ∧ t.T.Trule = s.T.Trule ∧ t.T.Tstress = s.T.Tstress ∧
  t.T.Ttangent = s.T.Ttangent

/-- `KeepsStress s t`: the object `t` has the committed variables and the trial direction,
rule and stress of `s`. -/
def KeepsStress (s t : State) : Prop :=
  t.C = s.C ∧ t.T.Tinc = s.T.Tinc ∧ t.T.Trule = s.T.Trule ∧ t.T.Tstress = s.T.Tstress

/-- No knowledge of the rule. -/
def AnyR (_ : ℚ) : Prop := True

/-- The rule is `k`. -/
def IsRule (k r : ℚ) : Prop := r = k

/-- The rule is 1 or 5, the rules of the envelope in compression. -/
def Rule15R (r : ℚ) : Prop := r = 1 ∨ r = 5

/-- `KR R z r f`: the rule `r` satisfies `R`, and if `z` holds the stress `f` is 0. -/
def KR (R : ℚ → Prop) (z : Bool) (r f : ℚ) : Prop := R r ∧ (z = true → f = 0)

/-- The rule is 2, or it is 6 and the stress is 0: the envelope in tension. -/
def Rule26 (r f : ℚ) : Prop := r = 2 ∨ (r = 6 ∧ f = 0)

/-- `Track c d G x`: the object `x` has the committed variables `c` and the trial
direction `d`, and its trial rule and stress satisfy `G`. -/
def Track (c : Committed) (d : ℚ) (G : ℚ → ℚ → Prop) (x : State) : Prop :=
  x.C = c ∧ x.T.Tinc = d ∧ G x.T.Trule x.T.Tstress

/-- The objects that a constructor with input parameters, `setTrialStrain` and `commitState`
produce. -/
inductive Reachable (m : Libm) : State → Prop where
  | construct (tag : Int) (FPCC EPCC EC RC XCRN FT ET RT XCRP : ℚ) (MON GAP : Int) (u : State) :
      Reachable m (construct tag FPCC EPCC EC RC XCRN FT ET RT XCRP MON GAP u)
  | setTrialStrain (s : State) (strain : ℚ) :
      Reachable m s → Reachable m (setTrialStrain m s strain)
  | commitState (s : State) : Reachable m s → Reachable m (commitState s)

/-- `Dispatched s strain`: in the cyclic part of `setTrialStrain` the committed rule of `s`
satisfies one of the conditions of the `if` chain over `Crule` that the trial strain
selects: the chain that starts at line 369 (`Cinc = -1`, `Tstrain > Cstrain`), at line 1279
(`Cinc = -1`, otherwise), at line 1874 (`Cinc` not `-1`, `Tstrain < Cstrain`) and at
line 3082 (`Cinc` not `-1`, otherwise).  None of the chains has a final `else`. -/
def Dispatched (s : State) (strain : ℚ) : Prop :=
  if s.C.Cinc = -1 then
    if strain > s.C.Cstrain then
      (s.C.Crule = 1 ∨ s.C.Crule = 5 ∨ s.C.Crule = 7) ∨ s.C.Crule = 10 ∨ s.C.Crule = 11 ∨
      (s.C.Crule = 13 ∨ s.C.Crule = 15) ∨ s.C.Crule = 4 ∨ s.C.Crule = 77
    else
      (s.C.Crule = 4 ∨ s.C.Crule = 10 ∨ s.C.Crule = 7) ∨ (s.C.Crule = 1 ∨ s.C.Crule = 5) ∨
      s.C.Crule = 77 ∨ s.C.Crule = 13 ∨ s.C.Crule = 11 ∨ s.C.Crule = 15
  else
    if strain < s.C.Cstrain then
      (fabs s.C.Cstress) = 0 ∨ (s.C.Crule = 2 ∨ s.C.Crule = 8) ∨ s.C.Crule = 9 ∨
      s.C.Crule = 12 ∨ s.C.Crule = 14 ∨ s.C.Crule = 3 ∨ s.C.Crule = 88
    else
      (s.C.Crule = 3 ∨ s.C.Crule = 9 ∨ s.C.Crule = 8) ∨ s.C.Crule = 2 ∨ s.C.Crule = 6 ∨
      s.C.Crule = 88 ∨ s.C.Crule = 12 ∨ s.C.Crule = 14 ∨ s.C.Crule = 66

/-- `MonotonicResponse m s e t`: the trial stress, tangent and rule of `t` are those of the
monotonic envelopes of `s` at the strain `e`: the compression envelope `fcEtnf` below zero,
the tension envelope `fcEtpf` (shifted by `Ce0`) above zero, and the stress 0, the tangent
`Ec` and the rule 0 at zero. -/
def MonotonicResponse (m : Libm) (s : State) (e : ℚ) (t : State) : Prop :=
  (e < 0 → t.T.Tstress = (fcEtnf m s e).T.Tstress ∧
    t.T.Ttangent = (fcEtnf m s e).T.Ttangent ∧ t.T.Trule = (fcEtnf m s e).T.Trule) ∧
  (e > 0 → t.T.Tstress = (fcEtpf m s e s.C.Ce0).T.Tstress ∧
    t.T.Ttangent = (fcEtpf m s e s.C.Ce0).T.Ttangent ∧
    t.T.Trule = (fcEtpf m s e s.C.Ce0).T.Trule) ∧
  (e = 0 → t.T.Tstress = 0 ∧ t.T.Ttangent = s.par.Ec ∧ t.T.Trule = 0)

/-- The specimen constructed for the monotonic relationship only (`mon = 1`). -/
def monSpecimen : State := newMon 1 (-30) (-0.002) 30000 7 2 3 0.0001 2 3 1 State.zero

/-- The monotonic-only specimen after the committed strains `-0.003` and `0.0002`. -/
def monHistory : State :=
  commitState (setTrialStrain Libm.sample
    (commitState (setTrialStrain Libm.sample monSpecimen (-0.003))) 0.0002)

/-- The local `nn` of `fcEtnf` (line 3491). -/
def fcEtnf_nn (s : State) : ℚ := fabs (s.par.Ec * s.par.epcc / s.par.fpcc)

/-- The value `y` that `fcEtnf` computes at the critical ratio `xcrn` (line 3492). -/
def fcEtnf_y (m : Libm) (s : State) : ℚ := (yf m s s.par.xcrn (fcEtnf_nn s) s.par.rc).w.y

/-- The value `z` that `fcEtnf` computes at the critical ratio `xcrn` (line 3493). -/
def fcEtnf_z (m : Libm) (s : State) : ℚ := (zf m s s.par.xcrn (fcEtnf_nn s) s.par.rc).w.z

/-- The spalling ratio `xsp` that `fcEtnf` computes (line 3494). -/
def fcEtnf_xsp (m : Libm) (s : State) : ℚ :=
  fabs (s.par.xcrn - fcEtnf_y m s / (fcEtnf_nn s * fcEtnf_z m s))

/-- The local variable `Esec` of `RAf` and `fcEturf`: the secant slope between the anchors. -/
abbrev secantSlope (esi fi esf ff : ℚ) : ℚ := (ff - fi) / (esf - esi)

/-- The value that `RAf` assigns to `R` (line 4098). -/
abbrev fitExponent (esi fi Ei esf ff Ef : ℚ) : ℚ :=
  (Ef - (ff - fi) / (esf - esi)) / ((ff - fi) / (esf - esi) - Ei)

/-- Path condition of the last branch of `fcEturf` (lines 4135-4140), the power law: none
of the four conditions of the `if` chain holds, and the tangent computed by the power
law is within `±1.797e308`. -/
abbrev takesPowerLaw (m : Libm) (es esi fi esf ff Ei Ef A R : ℚ) : Prop :=
  ¬ (A = 1.0e300 ∨ A = 0) ∧
  ¬ (m.pow (fabs (es - esi)) (-R) = 0 ∨ m.pow (fabs (es - esi)) (-R) > 1.797e308 ∨
      m.pow (fabs (es - esi)) (-R) < -1.797e308) ∧
  ¬ (Ei ≥ (ff - fi) / (esf - esi) ∧ Ef ≥ (ff - fi) / (esf - esi)) ∧
  ¬ (Ei ≤ (ff - fi) / (esf - esi) ∧ Ef ≤ (ff - fi) / (esf - esi)) ∧
  ¬ (Ei + A * (R + 1) * m.pow (fabs (es - esi)) R > 1.797e308 ∨
      Ei + A * (R + 1) * m.pow (fabs (es - esi)) R < -1.797e308)

/-- The overflow guards of `fcEturf` (lines 4117, 4121 and 4137): `A` is `1.0e300` or zero,
`pow(fabs(es-esi),-R)` is zero or beyond `±1.797e308`, or the tangent of the power law is
beyond `±1.797e308`. -/
abbrev overflowGuard (m : Libm) (es esi Ei A R : ℚ) : Prop :=
  (A = 1.0e300 ∨ A = 0) ∨
  (m.pow (fabs (es - esi)) (-R) = 0 ∨ m.pow (fabs (es - esi)) (-R) > 1.797e308 ∨
      m.pow (fabs (es - esi)) (-R) < -1.797e308) ∨
  (Ei + A * (R + 1) * m.pow (fabs (es - esi)) R > 1.797e308 ∨
      Ei + A * (R + 1) * m.pow (fabs (es - esi)) R < -1.797e308)

/-- Path condition of the closed-form assignment of `A` in `RAf` (line 4105) that is not
replaced by `1.0e300` afterwards: `check` is neither zero nor beyond `±1.797e308`, the
secant slope differs from `Ei`, and the quotient is within `±1.797e308`. -/
abbrev closedFormA (m : Libm) (esi fi Ei esf ff Ef : ℚ) : Prop :=
  ¬ (m.pow (fabs (esf - esi)) ((Ef - (ff - fi) / (esf - esi)) / ((ff - fi) / (esf - esi) - Ei)) = 0 ∨
      m.pow (fabs (esf - esi)) ((Ef - (ff - fi) / (esf - esi)) / ((ff - fi) / (esf - esi) - Ei))
        > 1.797e308 ∨
      m.pow (fabs (esf - esi)) ((Ef - (ff - fi) / (esf - esi)) / ((ff - fi) / (esf - esi) - Ei))
        < -1.797e308 ∨
      (ff - fi) / (esf - esi) = Ei) ∧
  ¬ (((ff - fi) / (esf - esi) - Ei) /
        m.pow (fabs (esf - esi)) ((Ef - (ff - fi) / (esf - esi)) / ((ff - fi) / (esf - esi) - Ei))
        > 1.797e308 ∨
      ((ff - fi) / (esf - esi) - Ei) /
        m.pow (fabs (esf - esi)) ((Ef - (ff - fi) / (esf - esi)) / ((ff - fi) / (esf - esi) - Ei))
        < -1.797e308)

end ConcreteCM

namespace ResidNodeRecorder

/-- The local `nProcOuts` of `record` (lines 506-514 of `ResidNodeRecorder.cpp`): the number
of processed outputs per dof for `nVals = numValidNodes` nodes and the group size
`procGrpNum`.  The division is the division of `int`, which truncates. -/
def nProcOuts (numValidNodes procGrpNum : Int) : Int :=
  let nVals := numValidNodes
  if procGrpNum = -1 then
    1
  else
    let nProcOuts := Int.tdiv nVals procGrpNum
    if nProcOuts * procGrpNum < nVals then nProcOuts + 1 else nProcOuts

/-- The local `numValidResponse` of the method that sets the recorder up (lines 901-922): the
number of columns of the matrix `data` that line 925 allocates. -/
def numValidResponse (numValidNodes numDOF procGrpNum procDataMethod dataFlag : Int)
    (echoTimeFlag : Bool) : Int :=
  let nVals := numValidNodes
  let nProcOuts :=
    if procGrpNum = -1 then
      if procDataMethod ≠ 0 then 1 else nVals
    else
      let nProcOuts := Int.tdiv nVals procGrpNum
      if nProcOuts * procGrpNum < nVals then nProcOuts + 1 else nProcOuts
  let numValidResponse := nProcOuts * numDOF
  let numValidResponse := if dataFlag = 10000 then numValidNodes else numValidResponse
  if echoTimeFlag = true then numValidResponse + 1 else numValidResponse

/-- The column `cnt` that `record` writes for the processed output `i` of the dof `j`
(line 547). -/
def cnt (numValidNodes : Int) (echoTimeFlag : Bool) (i j : Int) : Int :=
  i * numValidNodes + j + (if echoTimeFlag then 1 else 0)

/-- The variables of the loop over the nodes in `record` (lines 515-521): the array `vals`,
the index `iGrpN` of the entry that the pointer `val` refers to, and `nextGrpN`. -/
structure Groups where
  vals : List ℚ
  iGrpN : Nat
  nextGrpN : Int
  deriving DecidableEq

/-- Lines 534-543 of `record`: the `if` chain over `procDataMethod` that updates the entry
`*val` of the group with the response `val1`; the result is the new `*val`. -/
def record_L534_L543 (procDataMethod : Int) (val val1 : ℚ) : ℚ :=
  if procDataMethod = 1 then val + val1
  else if procDataMethod = 2 ∧ val1 > val then val1
  else if procDataMethod = 3 ∧ val1 < val then val1
  else if procDataMethod = 4 ∧ fabs val1 > val then fabs val1
  else if procDataMethod = 5 ∧ fabs val1 < val then fabs val1
  else val

/-- The body of the loop over the nodes in `record` (lines 523-544) for the node `i` with
the response `val1`. -/
def nodeStep (procGrpNum procDataMethod : Int) (st : Groups) (i : Nat) (val1 : ℚ) : Groups :=
  let st :=
    if procGrpNum ≠ -1 ∧ (i : Int) = st.nextGrpN then
      { st with iGrpN := st.iGrpN + 1, nextGrpN := st.nextGrpN + procGrpNum }
    else st
  let val := st.vals.getD st.iGrpN 0
  let val := if i = 0 ∧ procDataMethod ≠ 1 then fabs val1 else val
  let val := record_L534_L543 procDataMethod val val1
  { st with vals := st.vals.set st.iGrpN val }

/-- The loop over the nodes in `record` (lines 522-545), from the node `i` on; the list
holds the responses `val1` of the nodes that are left. -/
def nodeLoop (procGrpNum procDataMethod : Int) : Groups → Nat → List ℚ → Groups
  | st, _, [] => st
  | st, i, val1 :: rest =>
    nodeLoop procGrpNum procDataMethod (nodeStep procGrpNum procDataMethod st i val1) (i + 1) rest

/-- The array `vals` of one dof after the loop over the nodes (lines 506-545); `resp` holds
the responses of the `numValidNodes` nodes at that dof. -/
def groupValues (procGrpNum procDataMethod : Int) (resp : List ℚ) : List ℚ :=
  (nodeLoop procGrpNum procDataMethod
    { vals := List.replicate (nProcOuts resp.length procGrpNum).toNat 0,
      iGrpN := 0, nextGrpN := procGrpNum } 0 resp).vals

/-- The assignments `(*data)(0, cnt) = *val` of `record` in processed mode (lines 503-554),
in the order in which they are made, as pairs of the column and the value; `respVecs`
holds the response vector of every node. -/
def recordProcessed (numDOF : Nat) (procGrpNum procDataMethod : Int) (echoTimeFlag : Bool)
    (respVecs : List (List ℚ)) : List (Int × ℚ) :=
  (List.range numDOF).flatMap fun j =>
    let vals := groupValues procGrpNum procDataMethod (respVecs.map fun r => r.getD j 0)
    (List.range (nProcOuts respVecs.length procGrpNum).toNat).map fun (i : Nat) =>
      (cnt respVecs.length echoTimeFlag i j, vals.getD i 0)

end ResidNodeRecorder

/-- The value of `toInt` at an integer. -/
theorem toInt_intCast (n : Int) : toInt (n : ℚ) = n := by
  have hf : ∀ k : Int, Rat.floor (k : ℚ) = k := fun k => by
    rw [Rat.floor_def']; simp
  unfold toInt
  split_ifs with h
  · exact hf n
  · have e : (-(n : ℚ)) = ((-n : Int) : ℚ) := by push_cast; rfl
    rw [e, hf]
    ring

namespace Concrete02Thermal

/-- The compression envelope reads only the four active compression parameters. -/
theorem Compr_Envlp_congr (s t : State) (x : ℚ) (h1 : t.fc = s.fc) (h2 : t.epsc0 = s.epsc0)
    (h3 : t.fcu = s.fcu) (h4 : t.epscu = s.epscu) : Compr_Envlp t x = Compr_Envlp s x := by
  unfold Compr_Envlp
  rw [h1, h2, h3, h4]

/-- A trial strain below the committed minimum strain is evaluated on the compression
envelope and becomes the new minimum strain. -/
theorem setTrialStrain_below (s : State) (x : ℚ) (h : x < s.ecminP) :
    (setTrialStrain s x).sig = (Compr_Envlp s x).1 ∧ (setTrialStrain s x).ecmin = x := by
  have hc : Compr_Envlp { s with ecmin := s.ecminP, dept := s.deptP, eps := x } x
      = Compr_Envlp s x := Compr_Envlp_congr _ _ _ rfl rfl rfl rfl
  constructor
  · unfold setTrialStrain
    simp only [if_pos h]
    exact congrArg Prod.fst hc
  · unfold setTrialStrain
    simp only [if_pos h]

/-- The active parameters, the construction-time inputs and the committed variables are
not assigned by `setTrialStrain`. -/
theorem setTrialStrain_unchanged (s : State) (x : ℚ) :
    (setTrialStrain s x).ecminP = s.ecminP ∧ (setTrialStrain s x).deptP = s.deptP ∧
    (setTrialStrain s x).epsP = s.epsP ∧ (setTrialStrain s x).sigP = s.sigP ∧
    (setTrialStrain s x).eP = s.eP ∧ (setTrialStrain s x).TempP = s.TempP ∧
    (setTrialStrain s x).fc = s.fc ∧ (setTrialStrain s x).epsc0 = s.epsc0 ∧
    (setTrialStrain s x).fcu = s.fcu ∧ (setTrialStrain s x).epscu = s.epscu ∧
    (setTrialStrain s x).rat = s.rat ∧ (setTrialStrain s x).ft = s.ft ∧
    (setTrialStrain s x).Ets = s.Ets := by
  unfold setTrialStrain
  simp only []
  split_ifs <;> simp

/-- Along a strictly decreasing history that starts below the committed minimum strain,
every stress is the compression envelope of the active parameters at the trial strain. -/
theorem loadPath_envelope (s0 : State) (xs : List ℚ) :
    ∀ s : State, s.fc = s0.fc → s.epsc0 = s0.epsc0 → s.fcu = s0.fcu → s.epscu = s0.epscu →
      List.Chain (fun a b => b < a) s.ecminP xs →
      (loadPath s xs).map getStress = xs.map (fun x => (Compr_Envlp s0 x).1) := by
  induction xs with
  | nil => intro s _ _ _ _ _; rfl
  | cons x xs ih =>
    intro s h1 h2 h3 h4 hch
    rw [List.chain_cons] at hch
    obtain ⟨hx, hrest⟩ := hch
    have hb := setTrialStrain_below s x hx
    have hu := setTrialStrain_unchanged s x
    obtain ⟨_, _, _, _, _, _, u1, u2, u3, u4, _⟩ := hu
    have hs : getStress (setTrialStrain s x) = (Compr_Envlp s0 x).1 := by
      show (setTrialStrain s x).sig = _
      rw [hb.1, Compr_Envlp_congr s0 s x h1 h2 h3 h4]
    have hmin : (commitState (setTrialStrain s x)).ecminP = x := hb.2
    simp only [loadPath, List.map_cons, hs]
    congr 1
    apply ih (commitState (setTrialStrain s x))
    · exact u1.trans h1
    · exact u2.trans h2
    · exact u3.trans h3
    · exact u4.trans h4
    · rw [hmin]; exact hrest

/-- C1. Thermal model: from a freshly constructed instance with `fc < 0` and `epsc0 < 0`,
along every strictly decreasing sequence of negative trial strains, each committed after
`setTrialStrain`, the stress after each call is the compression envelope `Compr_Envlp` at
that strain; and the trial strain `epsc0` gives the stress `fc` exactly. -/
theorem thermal_monotonic_compression_traces_envelope (tag : Int)
    (fc epsc0 fcu epscu rat ft Ets : ℚ) (u : State) (hfc : fc < 0) (he : epsc0 < 0) :
    (∀ xs : List ℚ, List.Chain' (fun a b => b < a) xs → (∀ x ∈ xs, x < 0) →
      (loadPath (new tag fc epsc0 fcu epscu rat ft Ets u) xs).map getStress
        = xs.map (fun x => (Compr_Envlp (new tag fc epsc0 fcu epscu rat ft Ets u) x).1)) ∧
    getStress (setTrialStrain (new tag fc epsc0 fcu epscu rat ft Ets u) epsc0) = fc := by
  constructor
  · intro xs hch hneg
    apply loadPath_envelope _ xs _ rfl rfl rfl rfl
    cases xs with
    | nil => exact List.Chain.nil
    | cons x xs =>
      rw [List.chain_cons]
      exact ⟨hneg x (List.mem_cons_self x xs), hch⟩
  · have hb := (setTrialStrain_below (new tag fc epsc0 fcu epscu rat ft Ets u) epsc0 he).1
    show (setTrialStrain (new tag fc epsc0 fcu epscu rat ft Ets u) epsc0).sig = fc
    rw [hb]
    have hne : epsc0 ≠ 0 := ne_of_lt he
    show (Compr_Envlp (new tag fc epsc0 fcu epscu rat ft Ets u) epsc0).1 = fc
    unfold Compr_Envlp
    simp only [new, ge_iff_le, le_refl, if_true]
    rw [div_self hne]
    ring

/-- Witness of C1: the instance `fc = -30`, `epsc0 = -0.002`. -/
theorem thermal_monotonic_compression_witness :
    ((-30 : ℚ) < 0 ∧ (-0.002 : ℚ) < 0) ∧
    ((∀ xs : List ℚ, List.Chain' (fun a b => b < a) xs → (∀ x ∈ xs, x < 0) →
      (loadPath (new 1 (-30) (-0.002) (-6) (-0.01) 0.1 3 1500 State.zero) xs).map getStress
        = xs.map (fun x => (Compr_Envlp (new 1 (-30) (-0.002) (-6) (-0.01) 0.1 3 1500 State.zero) x).1)) ∧
    getStress (setTrialStrain (new 1 (-30) (-0.002) (-6) (-0.01) 0.1 3 1500 State.zero) (-0.002)) = -30) :=
  ⟨⟨by norm_num, by norm_num⟩,
    thermal_monotonic_compression_traces_envelope 1 (-30) (-0.002) (-6) (-0.01) 0.1 3 1500
      State.zero (by norm_num) (by norm_num)⟩

/-- The stresses of the history `-0.001, -0.002, -0.015, -0.03` of the instance
`fc = -30`, `epsc0 = -0.002`, `fcu = -6`, `epscu = -0.01`: rising branch, peak, and residual plateau. -/
theorem thermal_monotonic_compression_values :
    (loadPath (new 1 (-30) (-0.002) (-6) (-0.01) 0.1 3 1500 State.zero)
      [-0.001, -0.002, -0.006, -0.03]).map getStress = [-22.5, -30, -18, -6] := by
  decide!

end Concrete02Thermal

namespace Concrete02Thermal

/-- A property of both branches of a conditional is a property of the conditional. -/
theorem of_ite {α : Type} (P : α → Prop) (c : Prop) [Decidable c] (a b : α)
    (ha : c → P a) (hb : ¬ c → P b) : P (if c then a else b) := by
  by_cases h : c
  · rw [if_pos h]; exact ha h
  · rw [if_neg h]; exact hb h

/-- The table of the tensile strength assigns `ft` and `Ets` only. -/
theorem getElongTangent_L258_L271_keeps (s : State) :
    KeepsCompr s (getElongTangent_L258_L271 s) := by
  unfold getElongTangent_L258_L271
  repeat (first
    | exact ⟨rfl, rfl, rfl, rfl, rfl, rfl, rfl, rfl, rfl, rfl⟩
    | (apply of_ite (KeepsCompr s) <;> intro _))

/-- Up to 80 degrees the table of the tensile strength stores `ftT` and leaves `Ets`. -/
theorem getElongTangent_L258_L271_low (s : State) (h : s.Temp ≤ 80) :
    (getElongTangent_L258_L271 s).ft = s.ftT ∧ (getElongTangent_L258_L271 s).Ets = s.Ets := by
  unfold getElongTangent_L258_L271
  rw [if_pos h]
  exact ⟨rfl, rfl⟩

/-- The table of the compressive strength assigns `fc`, `epsc0`, `fcu`, `epscu` only. -/
theorem getElongTangent_L276_L351_keeps (s : State) :
    KeepsTens s (getElongTangent_L276_L351 s) := by
  unfold getElongTangent_L276_L351
  repeat (first
    | exact ⟨rfl, rfl, rfl, rfl, rfl, rfl, rfl, rfl⟩
    | (apply of_ite (KeepsTens s) <;> intro _))

/-- Up to 80 degrees the table of the compressive strength stores the strengths `fcT` and
`fcuT` and the strains of the table, not `epsc0T` and `epscuT`. -/
theorem getElongTangent_L276_L351_low (s : State) (h : s.Temp ≤ 80) :
    LowTable s (getElongTangent_L276_L351 s) := by
  unfold getElongTangent_L276_L351
  refine of_ite (LowTable s) _ _ _ (fun h0 => ?_)
    (fun h0 => of_ite (LowTable s) _ _ _ (fun _ => ?_) (fun h80 => absurd h h80))
  · refine ⟨rfl, rfl, ?_, ?_⟩
    · rw [if_pos h0]
    · rw [if_pos h0]
  · refine ⟨rfl, rfl, ?_, ?_⟩
    · rw [if_neg h0]
      show -(0.0025 + (0.004 - 0.0025) * (s.Temp - 0) / (80 - 0)) = -(0.0025 + 0.0015 * s.Temp / 80)
      norm_num
    · rw [if_neg h0]
      show -(0.0200 + (0.0225 - 0.0200) * (s.Temp - 0) / (80 - 0)) = -(0.02 + 0.0025 * s.Temp / 80)
      norm_num

/-- Above 1080 degrees the table of the compressive strength assigns nothing. -/
theorem getElongTangent_L276_L351_high (s : State) (h : 1080 < s.Temp) :
    getElongTangent_L276_L351 s = s := by
  unfold getElongTangent_L276_L351
  repeat (first
    | rfl
    | (exfalso; linarith)
    | (apply of_ite (fun t => t = s) <;> intro _))

/-- The thermal elongation step assigns `ThermalElongation` only. -/
theorem getElongTangent_L358_L369_keeps (s : State) :
    KeepsParams s (getElongTangent_L358_L369 s) := by
  unfold getElongTangent_L358_L369
  repeat (first
    | exact ⟨rfl, rfl, rfl, rfl, rfl, rfl, rfl, rfl, rfl, rfl, rfl⟩
    | (apply of_ite (KeepsParams s) <;> intro _))

/-- Above 1180 degrees the thermal elongation step assigns nothing. -/
theorem getElongTangent_L358_L369_high (s : State) (h : 1180 < s.Temp) :
    getElongTangent_L358_L369 s = s := by
  unfold getElongTangent_L358_L369
  repeat (first
    | rfl
    | (exfalso; linarith)
    | (apply of_ite (fun t => t = s) <;> intro _))

/-- The temperatures and construction-time strengths of the object before the cooling
part. -/
theorem heated_temps (s : State) (TempT TempTmax : ℚ) :
    (heated s TempT TempTmax).Temp = TempT ∧ (heated s TempT TempTmax).TempP = s.TempP ∧
    (heated s TempT TempTmax).Tempmax = TempTmax ∧
    (heated s TempT TempTmax).fcT = s.fcT ∧ (heated s TempT TempTmax).fcuT = s.fcuT := by
  obtain ⟨_, _, _, _, a1, a2, a3, a4, a5, _⟩ :=
    getElongTangent_L258_L271_keeps { s with Temp := TempT, Tempmax := TempTmax }
  obtain ⟨_, _, b1, b2, b3, b4, b5, _⟩ := getElongTangent_L276_L351_keeps
    (getElongTangent_L258_L271 { s with Temp := TempT, Tempmax := TempTmax })
  obtain ⟨_, _, _, _, _, _, c1, c2, c3, c4, c5⟩ := getElongTangent_L358_L369_keeps
    (getElongTangent_L276_L351
      (getElongTangent_L258_L271 { s with Temp := TempT, Tempmax := TempTmax }))
  unfold heated
  exact ⟨c1.trans (b1.trans a1), c2.trans (b2.trans a2), c5.trans (b5.trans a5),
    c3.trans (b3.trans a3), c4.trans (b4.trans a4)⟩

/-- Without cooling `getElongTangent` stops after the three tables. -/
theorem getElongTangent_heating (s : State) (TempT TempTmax : ℚ) (u : Cooling)
    (hP : ¬ TempT < s.TempP) :
    (getElongTangent s TempT TempTmax u).obj = heated s TempT TempTmax := by
  obtain ⟨hT, hTP, _⟩ := heated_temps s TempT TempTmax
  have hc : ¬ (heated s TempT TempTmax).Temp < (heated s TempT TempTmax).TempP := by
    rw [hT, hTP]; exact hP
  show (if (heated s TempT TempTmax).Temp < (heated s TempT TempTmax).TempP then _ else _) = _
  rw [if_neg hc]
  rfl

/-- The three cooling steps read `Tempmax`, `fcT` and `fcuT` only. -/
theorem getElongTangent_L400_L460_congr (s t : State) (c : Cooling)
    (h1 : t.Tempmax = s.Tempmax) (h2 : t.fcT = s.fcT) (h3 : t.fcuT = s.fcuT) :
    getElongTangent_L400_L460 t c = getElongTangent_L400_L460 s c := by
  unfold getElongTangent_L400_L460
  rw [h1, h2, h3]

/-- The second cooling step reads `Tempmax`, `fcT` and `fcuT` only. -/
theorem getElongTangent_L462_L479_congr (s t : State) (c : Cooling)
    (h1 : t.Tempmax = s.Tempmax) (h2 : t.fcT = s.fcT) (h3 : t.fcuT = s.fcuT) :
    getElongTangent_L462_L479 t c = getElongTangent_L462_L479 s c := by
  unfold getElongTangent_L462_L479
  rw [h1, h2, h3]

/-- The first cooling step for a maximum temperature in `(0, 1080]`. -/
theorem getElongTangent_L400_L460_spec (s : State) (u : Cooling) (h0 : 0 < s.Tempmax)
    (h1 : s.Tempmax ≤ 1080) : KappaOK s (getElongTangent_L400_L460 s u) := by
  unfold getElongTangent_L400_L460
  repeat (first
    | (exfalso; linarith)
    | (refine ⟨?_, ?_, ?_, ?_⟩ <;> dsimp only <;>
        first
        | (intro _ _; exfalso; linarith)
        | (intro _ _; norm_num; linarith)
        | (norm_num; done)
        | (norm_num; linarith))
    | (apply of_ite (KappaOK s) <;> intro _))

/-- The second cooling step for a maximum temperature in `(0, 1080]` and a negative
construction-time strength `fcT`. -/
theorem getElongTangent_L462_L479_spec (s : State) (c : Cooling) (hf : s.fcT < 0)
    (h0 : 0 < s.Tempmax) (h1 : s.Tempmax ≤ 1080) (hk : KappaOK s c) :
    AmbOK c (getElongTangent_L462_L479 s c) := by
  obtain ⟨k0, k1, kf, ka⟩ := hk
  unfold getElongTangent_L462_L479
  refine of_ite (AmbOK c) _ _ _ (fun h => absurd h (not_lt.2 h0.le)) fun _ => ?_
  refine of_ite (AmbOK c) _ _ _ (fun h80 => ?_) fun h80 => ?_
  · refine ⟨rfl, ?_⟩
    show c.fcmax ≤ c.kappa * s.fcT
    rw [kf, mul_comm]
  · refine of_ite (AmbOK c) _ _ _ (fun h280 => ?_) fun h280 => ?_
    · refine ⟨rfl, ?_⟩
      show c.fcmax ≤ (1 - (0.235 * (s.Tempmax - 80) / 200)) * s.fcT
      rw [kf, mul_comm]
      exact mul_le_mul_of_nonpos_right (ka (not_le.1 h80) h280) hf.le
    · refine of_ite (AmbOK c) _ _ _ (fun _ => ?_) fun h => absurd h1 h
      refine ⟨rfl, ?_⟩
      show c.fcmax ≤ 0.9 * c.kappa * s.fcT
      rw [kf, mul_comm]
      have hp : 0 < c.kappa * (-s.fcT) := mul_pos k0 (neg_pos.2 hf)
      norm_num
      nlinarith

/-- The maximum-temperature strength is not above the strength of the cooled concrete. -/
theorem coolingStrengths_order (s : State) (TempTmax : ℚ) (u : Cooling) (hf : s.fcT < 0)
    (h0 : 0 < TempTmax) (h1 : TempTmax ≤ 1080) :
    (coolingStrengths s TempTmax u).fcmax ≤ (coolingStrengths s TempTmax u).fcamb := by
  have hk := getElongTangent_L400_L460_spec { s with Tempmax := TempTmax } u h0 h1
  have ha := getElongTangent_L462_L479_spec { s with Tempmax := TempTmax } _ hf h0 h1 hk
  unfold coolingStrengths
  rw [ha.1]
  exact ha.2

/-- While cooling, the stored compressive strength is the interpolation between the
strengths `fcmax` and `fcamb` of the cooling part. -/
theorem getElongTangent_cooling_fc (s : State) (TempT TempTmax : ℚ) (u : Cooling)
    (hP : TempT < s.TempP) :
    (getElongTangent s TempT TempTmax u).obj.fc
      = (coolingStrengths s TempTmax u).fcmax
        - (((coolingStrengths s TempTmax u).fcmax - (coolingStrengths s TempTmax u).fcamb)
            * (TempTmax - TempT) / TempTmax) := by
  obtain ⟨hT, hTP, hTm, hfT, hfuT⟩ := heated_temps s TempT TempTmax
  have hc : (heated s TempT TempTmax).Temp < (heated s TempT TempTmax).TempP := by
    rw [hT, hTP]; exact hP
  have e1 : getElongTangent_L400_L460 (heated s TempT TempTmax) u
      = getElongTangent_L400_L460 { s with Tempmax := TempTmax } u :=
    getElongTangent_L400_L460_congr _ _ u hTm hfT hfuT
  have e2 : ∀ c, getElongTangent_L462_L479 (heated s TempT TempTmax) c
      = getElongTangent_L462_L479 { s with Tempmax := TempTmax } c :=
    fun c => getElongTangent_L462_L479_congr _ _ c hTm hfT hfuT
  have e : (getElongTangent s TempT TempTmax u).obj
      = getElongTangent_L383_L550 (heated s TempT TempTmax) u := by
    show (if (heated s TempT TempTmax).Temp < (heated s TempT TempTmax).TempP
      then _ else _) = _
    rw [if_pos hc]
    rfl
  rw [e]
  show (getElongTangent_L462_L479 (heated s TempT TempTmax)
            (getElongTangent_L400_L460 (heated s TempT TempTmax) u)).fcmax
        - (((getElongTangent_L462_L479 (heated s TempT TempTmax)
            (getElongTangent_L400_L460 (heated s TempT TempTmax) u)).fcmax
           - (getElongTangent_L462_L479 (heated s TempT TempTmax)
            (getElongTangent_L400_L460 (heated s TempT TempTmax) u)).fcamb)
            * ((heated s TempT TempTmax).Tempmax - (heated s TempT TempTmax).Temp)
            / (heated s TempT TempTmax).Tempmax) = _
  rw [e1, e2, hT, hTm]
  rfl

/-- C14 (amended). Thermal model up to the first breakpoint: after `getElongTangent` with
`TempT <= 80` and `TempT` not below the committed temperature, the strengths `fc`, `fcu`
and `ft` are the construction inputs `fcT`, `fcuT` and `ftT`, and `Ets` is left as it was
before the call; the strains `epsc0` and `epscu` are those of the table (`-0.0025` and
`-0.02` up to 0 degrees, then growing linearly to `-0.004` and `-0.0225` at 80 degrees),
whatever `epsc0T` and `epscuT` are. -/
theorem getElongTangent_upto_first_breakpoint (s : State) (TempT TempTmax : ℚ) (u : Cooling)
    (h80 : TempT ≤ 80) (hP : ¬ TempT < s.TempP) :
    (getElongTangent s TempT TempTmax u).obj.fc = s.fcT ∧
    (getElongTangent s TempT TempTmax u).obj.fcu = s.fcuT ∧
    (getElongTangent s TempT TempTmax u).obj.ft = s.ftT ∧
    (getElongTangent s TempT TempTmax u).obj.Ets = s.Ets ∧
    (getElongTangent s TempT TempTmax u).obj.epsc0
      = (if TempT ≤ 0 then -0.0025 else -(0.0025 + 0.0015 * TempT / 80)) ∧
    (getElongTangent s TempT TempTmax u).obj.epscu
      = (if TempT ≤ 0 then -0.02 else -(0.02 + 0.0025 * TempT / 80)) := by
  rw [getElongTangent_heating s TempT TempTmax u hP]
  unfold heated
  obtain ⟨_, _, _, _, a1, _, a3, a4, _, _⟩ :=
    getElongTangent_L258_L271_keeps { s with Temp := TempT, Tempmax := TempTmax }
  have a1 : (getElongTangent_L258_L271 { s with Temp := TempT, Tempmax := TempTmax }).Temp
      = TempT := a1
  obtain ⟨l1, l2⟩ :=
    getElongTangent_L258_L271_low { s with Temp := TempT, Tempmax := TempTmax } h80
  obtain ⟨b1, b2, _⟩ := getElongTangent_L276_L351_keeps
    (getElongTangent_L258_L271 { s with Temp := TempT, Tempmax := TempTmax })
  obtain ⟨t1, t2, t3, t4⟩ := getElongTangent_L276_L351_low
    (getElongTangent_L258_L271 { s with Temp := TempT, Tempmax := TempTmax })
    (by rw [a1]; exact h80)
  rw [a1] at t3 t4
  obtain ⟨c1, c2, c3, c4, c5, c6, _⟩ := getElongTangent_L358_L369_keeps
    (getElongTangent_L276_L351
      (getElongTangent_L258_L271 { s with Temp := TempT, Tempmax := TempTmax }))
  exact ⟨c1.trans (t1.trans a3), c3.trans (t2.trans a4), c5.trans (b1.trans l1),
    c6.trans (b2.trans l2), c2.trans t3, c4.trans t4⟩

/-- Witness of C14: the specimen at 20 degrees. -/
theorem getElongTangent_upto_first_breakpoint_witness :
    ((20 : ℚ) ≤ 80 ∧ ¬ (20 : ℚ) < specimen.TempP) ∧
    ((getElongTangent specimen 20 20 Cooling.zero).obj.fc = specimen.fcT ∧
    (getElongTangent specimen 20 20 Cooling.zero).obj.fcu = specimen.fcuT ∧
    (getElongTangent specimen 20 20 Cooling.zero).obj.ft = specimen.ftT ∧
    (getElongTangent specimen 20 20 Cooling.zero).obj.Ets = specimen.Ets ∧
    (getElongTangent specimen 20 20 Cooling.zero).obj.epsc0
      = (if (20 : ℚ) ≤ 0 then -0.0025 else -(0.0025 + 0.0015 * 20 / 80)) ∧
    (getElongTangent specimen 20 20 Cooling.zero).obj.epscu
      = (if (20 : ℚ) ≤ 0 then -0.02 else -(0.02 + 0.0025 * 20 / 80))) :=
  ⟨⟨by norm_num, by decide!⟩,
    getElongTangent_upto_first_breakpoint specimen 20 20 Cooling.zero (by norm_num) (by decide!)⟩

/-- Counterexample to C14 as stated: at 20 degrees the specimen built with
`epsc0T = -0.002` and `epscuT = -0.01` has `epsc0 = -0.002875` and `epscu = -0.020625`;
and after a trial at 300 degrees that was not committed, the call at 50 degrees leaves
`Ets = 12600`, not `EtsT = 1500`. -/
theorem getElongTangent_upto_first_breakpoint_not_identity :
    ¬ (20 : ℚ) < specimen.TempP ∧
    (getElongTangent specimen 20 20 Cooling.zero).obj.epsc0 = -0.002875 ∧
    specimen.epsc0T = -0.002 ∧
    (getElongTangent specimen 20 20 Cooling.zero).obj.epscu = -0.020625 ∧
    specimen.epscuT = -0.01 ∧
    ¬ (50 : ℚ) < (getElongTangent specimen 300 300 Cooling.zero).obj.TempP ∧
    (getElongTangent (getElongTangent specimen 300 300 Cooling.zero).obj 50 300
      Cooling.zero).obj.Ets = 12600 ∧
    (getElongTangent specimen 300 300 Cooling.zero).obj.EtsT = 1500 := by
  decide!

/-- C16. Thermal model, temperature out of range: for `TempT > 1080` not below the
committed temperature, `getElongTangent` leaves `fc`, `epsc0`, `fcu`, `epscu` as they
were and returns 0; for `TempT > 1180` it leaves the thermal elongation as well. -/
theorem getElongTangent_out_of_range (s : State) (TempT TempTmax : ℚ) (u : Cooling)
    (h : 1080 < TempT) (hP : ¬ TempT < s.TempP) :
    (getElongTangent s TempT TempTmax u).obj.fc = s.fc ∧
    (getElongTangent s TempT TempTmax u).obj.epsc0 = s.epsc0 ∧
    (getElongTangent s TempT TempTmax u).obj.fcu = s.fcu ∧
    (getElongTangent s TempT TempTmax u).obj.epscu = s.epscu ∧
    (getElongTangent s TempT TempTmax u).ret = 0 ∧
    (1180 < TempT →
      (getElongTangent s TempT TempTmax u).obj.ThermalElongation = s.ThermalElongation) := by
  rw [getElongTangent_heating s TempT TempTmax u hP]
  unfold heated
  obtain ⟨a1, a2, a3, a4, a5, _, _, _, _, a10⟩ :=
    getElongTangent_L258_L271_keeps { s with Temp := TempT, Tempmax := TempTmax }
  have a5 : (getElongTangent_L258_L271 { s with Temp := TempT, Tempmax := TempTmax }).Temp
      = TempT := a5
  have e2 := getElongTangent_L276_L351_high
    (getElongTangent_L258_L271 { s with Temp := TempT, Tempmax := TempTmax })
    (by rw [a5]; exact h)
  rw [e2]
  obtain ⟨c1, c2, c3, c4, _⟩ := getElongTangent_L358_L369_keeps
    (getElongTangent_L258_L271 { s with Temp := TempT, Tempmax := TempTmax })
  refine ⟨c1.trans a1, c2.trans a2, c3.trans a3, c4.trans a4, rfl, fun h2 => ?_⟩
  rw [getElongTangent_L358_L369_high _ (by rw [a5]; exact h2)]
  exact a10

/-- Witness of C16: the specimen at 1200 degrees. -/
theorem getElongTangent_out_of_range_witness :
    ((1080 : ℚ) < 1200 ∧ ¬ (1200 : ℚ) < specimen.TempP) ∧
    ((getElongTangent specimen 1200 1200 Cooling.zero).obj.fc = specimen.fc ∧
    (getElongTangent specimen 1200 1200 Cooling.zero).obj.epsc0 = specimen.epsc0 ∧
    (getElongTangent specimen 1200 1200 Cooling.zero).obj.fcu = specimen.fcu ∧
    (getElongTangent specimen 1200 1200 Cooling.zero).obj.epscu = specimen.epscu ∧
    (getElongTangent specimen 1200 1200 Cooling.zero).ret = 0 ∧
    ((1180 : ℚ) < 1200 →
      (getElongTangent specimen 1200 1200 Cooling.zero).obj.ThermalElongation
        = specimen.ThermalElongation)) :=
  ⟨⟨by norm_num, by decide!⟩,
    getElongTangent_out_of_range specimen 1200 1200 Cooling.zero (by norm_num) (by decide!)⟩

/-- C15. Thermal model, cooling: with `fcT < 0` and `0 < TempTmax <= 1080`, for every
temperature `0 <= T <= TempTmax` below the committed temperature the strength `fc` stored
by `getElongTangent` lies between the max-temperature strength `fcmax` and the
ambient-cooled strength `fcamb` of the cooling part; it equals `fcamb` at `T = 0`; and it
does not decrease as the temperature decreases. -/
theorem cooling_strength_bounded_and_monotone (s : State) (TempTmax : ℚ) (u : Cooling)
    (hf : s.fcT < 0) (h0 : 0 < TempTmax) (h1 : TempTmax ≤ 1080) :
    (∀ T : ℚ, 0 ≤ T → T ≤ TempTmax → T < s.TempP →
      (coolingStrengths s TempTmax u).fcmax ≤ (getElongTangent s T TempTmax u).obj.fc ∧
      (getElongTangent s T TempTmax u).obj.fc ≤ (coolingStrengths s TempTmax u).fcamb) ∧
    (0 < s.TempP →
      (getElongTangent s 0 TempTmax u).obj.fc = (coolingStrengths s TempTmax u).fcamb) ∧
    (∀ T1 T2 : ℚ, 0 ≤ T1 → T1 ≤ T2 → T2 ≤ TempTmax → T2 < s.TempP →
      (getElongTangent s T2 TempTmax u).obj.fc ≤ (getElongTangent s T1 TempTmax u).obj.fc) := by
  have ho := coolingStrengths_order s TempTmax u hf h0 h1
  have hne : TempTmax ≠ 0 := ne_of_gt h0
  have key : ∀ T : ℚ, (coolingStrengths s TempTmax u).fcmax
        - (((coolingStrengths s TempTmax u).fcmax - (coolingStrengths s TempTmax u).fcamb)
            * (TempTmax - T) / TempTmax)
      = (coolingStrengths s TempTmax u).fcmax
        + ((coolingStrengths s TempTmax u).fcamb - (coolingStrengths s TempTmax u).fcmax)
            * ((TempTmax - T) / TempTmax) := fun T => by ring
  refine ⟨fun T hT0 hT1 hTP => ?_, fun hP => ?_, fun T1 T2 h10 h12 h2m h2P => ?_⟩
  · rw [getElongTangent_cooling_fc s T TempTmax u hTP, key]
    have r0 : 0 ≤ (TempTmax - T) / TempTmax := div_nonneg (by linarith) h0.le
    have r1 : (TempTmax - T) / TempTmax ≤ 1 := by
      rw [div_le_one h0]; linarith
    constructor
    · nlinarith [mul_nonneg (sub_nonneg.2 ho) r0]
    · nlinarith [mul_nonneg (sub_nonneg.2 ho) (sub_nonneg.2 r1)]
  · rw [getElongTangent_cooling_fc s 0 TempTmax u hP, key, sub_zero, div_self hne]
    ring
  · rw [getElongTangent_cooling_fc s T2 TempTmax u h2P,
      getElongTangent_cooling_fc s T1 TempTmax u (lt_of_le_of_lt h12 h2P), key, key]
    have hr : (TempTmax - T2) / TempTmax ≤ (TempTmax - T1) / TempTmax :=
      div_le_div_of_nonneg_right (by linarith) h0.le
    nlinarith [mul_le_mul_of_nonneg_left hr (sub_nonneg.2 ho)]

/-- Witness of C15: the specimen heated to 500 degrees and committed there, cooling from
the maximum temperature 500. -/
theorem cooling_strength_bounded_and_monotone_witness :
    (heatedSpecimen.fcT < 0 ∧ (0 : ℚ) < 500 ∧ (500 : ℚ) ≤ 1080) ∧
    ((∀ T : ℚ, 0 ≤ T → T ≤ 500 → T < heatedSpecimen.TempP →
      (coolingStrengths heatedSpecimen 500 Cooling.zero).fcmax
        ≤ (getElongTangent heatedSpecimen T 500 Cooling.zero).obj.fc ∧
      (getElongTangent heatedSpecimen T 500 Cooling.zero).obj.fc
        ≤ (coolingStrengths heatedSpecimen 500 Cooling.zero).fcamb) ∧
    (0 < heatedSpecimen.TempP →
      (getElongTangent heatedSpecimen 0 500 Cooling.zero).obj.fc
        = (coolingStrengths heatedSpecimen 500 Cooling.zero).fcamb) ∧
    (∀ T1 T2 : ℚ, 0 ≤ T1 → T1 ≤ T2 → T2 ≤ 500 → T2 < heatedSpecimen.TempP →
      (getElongTangent heatedSpecimen T2 500 Cooling.zero).obj.fc
        ≤ (getElongTangent heatedSpecimen T1 500 Cooling.zero).obj.fc)) :=
  ⟨⟨by decide!, by norm_num, by norm_num⟩,
    cooling_strength_bounded_and_monotone heatedSpecimen 500 Cooling.zero (by decide!)
      (by norm_num) (by norm_num)⟩

/-- The strengths of the heated specimen while it cools from 500 degrees: `-17.1` is the
strength at 500 degrees, `-15.39` the strength of the cooled concrete. -/
theorem cooling_strength_values :
    heatedSpecimen.TempP = 500 ∧
    (coolingStrengths heatedSpecimen 500 Cooling.zero).fcmax = -17.1 ∧
    (coolingStrengths heatedSpecimen 500 Cooling.zero).fcamb = -15.39 ∧
    (getElongTangent heatedSpecimen 200 500 Cooling.zero).obj.fc = -16.074 ∧
    (getElongTangent heatedSpecimen 0 500 Cooling.zero).obj.fc = -15.39 := by
  decide!

/-- C17 (code defect). Thermal model: the tangent reported after `setTrialStrain` can be
exactly 0.  The specimen (`fc = -30`, `epsc0 = -0.002`, `ft = 3`, `Ets = 1500`) loaded in
tension to the strain 0.003, beyond the end 0.0021 of tension softening, reports the
clamped tangent `1e-10`; committed there and reloaded to the strain 0.001 it reports the
stress 0 with the tangent 0, because the tangent taken from `Tens_Envlp` is replaced by
`sicn/dept = 0/0.003`.  The fresh specimen at the peak strain `epsc0` reports the
tangent 0 as well. -/
theorem tangent_exactly_zero :
    (specimen.fc < 0 ∧ specimen.epsc0 < 0 ∧ 0 ≤ specimen.ft ∧ 0 < specimen.Ets) ∧
    getTangent (setTrialStrain specimen 0.003) = 1.0e-10 ∧
    getStress (setTrialStrain (commitState (setTrialStrain specimen 0.003)) 0.001) = 0 ∧
    getTangent (setTrialStrain (commitState (setTrialStrain specimen 0.003)) 0.001) = 0 ∧
    getTangent (setTrialStrain specimen (-0.002)) = 0 := by
  decide!

/-- C19 (code defect). Thermal model: `sendSelf` followed by a successful `recvSelf` into
a default-constructed object gives the receiver the sender's active parameters, `rat`,
committed strain history, committed strain, stress and tangent and tag, but not the
construction-time values `fcT`, `epsc0T`, `fcuT`, `epscuT`, `ftT`, `EtsT` nor the
committed temperature `TempP`: the receiver keeps in them whatever its storage `r` held.
For the specimen heated to 500 degrees the receiver has `fc = -17.1` with `fcT = 0`
instead of `-30`, and `TempP = 0` instead of `500`. -/
theorem recvSelf_misses_construction_inputs :
    (∀ s r : State,
      ((recvSelf (newDefault r) 0 (sendSelf s)).1.fc = s.fc ∧
       (recvSelf (newDefault r) 0 (sendSelf s)).1.epsc0 = s.epsc0 ∧
       (recvSelf (newDefault r) 0 (sendSelf s)).1.fcu = s.fcu ∧
       (recvSelf (newDefault r) 0 (sendSelf s)).1.epscu = s.epscu ∧
       (recvSelf (newDefault r) 0 (sendSelf s)).1.rat = s.rat ∧
       (recvSelf (newDefault r) 0 (sendSelf s)).1.ft = s.ft ∧
       (recvSelf (newDefault r) 0 (sendSelf s)).1.Ets = s.Ets ∧
       (recvSelf (newDefault r) 0 (sendSelf s)).1.ecminP = s.ecminP ∧
       (recvSelf (newDefault r) 0 (sendSelf s)).1.deptP = s.deptP ∧
       (recvSelf (newDefault r) 0 (sendSelf s)).1.epsP = s.epsP ∧
       (recvSelf (newDefault r) 0 (sendSelf s)).1.sigP = s.sigP ∧
       (recvSelf (newDefault r) 0 (sendSelf s)).1.eP = s.eP ∧
       (recvSelf (newDefault r) 0 (sendSelf s)).1.tag = s.tag) ∧
      ((recvSelf (newDefault r) 0 (sendSelf s)).1.fcT = r.fcT ∧
       (recvSelf (newDefault r) 0 (sendSelf s)).1.epsc0T = r.epsc0T ∧
       (recvSelf (newDefault r) 0 (sendSelf s)).1.fcuT = r.fcuT ∧
       (recvSelf (newDefault r) 0 (sendSelf s)).1.epscuT = r.epscuT ∧
       (recvSelf (newDefault r) 0 (sendSelf s)).1.ftT = r.ftT ∧
       (recvSelf (newDefault r) 0 (sendSelf s)).1.EtsT = r.EtsT ∧
       (recvSelf (newDefault r) 0 (sendSelf s)).1.TempP = r.TempP)) ∧
    (heatedSpecimen.fcT = -30 ∧ heatedSpecimen.TempP = 500 ∧
     (recvSelf (newDefault State.zero) 0 (sendSelf heatedSpecimen)).1.fc = -17.1 ∧
     (recvSelf (newDefault State.zero) 0 (sendSelf heatedSpecimen)).1.fcT = 0 ∧
     (recvSelf (newDefault State.zero) 0 (sendSelf heatedSpecimen)).1.TempP = 0 ∧
     (recvSelf (newDefault State.zero) 0 (sendSelf heatedSpecimen)).2 = 0) := by
  refine ⟨fun s r => ⟨⟨rfl, rfl, rfl, rfl, rfl, rfl, rfl, rfl, rfl, rfl, rfl, rfl, ?_⟩,
    ⟨rfl, rfl, rfl, rfl, rfl, rfl, rfl⟩⟩, by decide!⟩
  exact toInt_intCast s.tag

end Concrete02Thermal
namespace Concrete02Thermal

/-- The stress that `setTrialStrain` stores on the unloading and reloading branch
(lines 171-183): the elastic prediction `sigP + ec0*deps`, raised to `sigmin` and then
lowered to `sigmax`. -/
theorem setTrialStrain_unloading (s : State) (x : ℚ) (h1 : ¬ x < s.ecminP)
    (h2 : x ≤ ept s) :
    (setTrialStrain s x).sig =
      (if (if s.sigP + s.fc * 2 / s.epsc0 * (x - s.epsP) ≤ sigmm s + er s * (x - s.ecminP)
            then sigmm s + er s * (x - s.ecminP)
            else s.sigP + s.fc * 2 / s.epsc0 * (x - s.epsP)) ≥ er s * 0.5 * (x - ept s)
        then er s * 0.5 * (x - ept s)
        else (if s.sigP + s.fc * 2 / s.epsc0 * (x - s.epsP) ≤ sigmm s + er s * (x - s.ecminP)
            then sigmm s + er s * (x - s.ecminP)
            else s.sigP + s.fc * 2 / s.epsc0 * (x - s.epsP))) := by
  have hc : Compr_Envlp { s with ecmin := s.ecminP, dept := s.deptP, eps := x } s.ecminP
      = Compr_Envlp s s.ecminP := Compr_Envlp_congr _ _ _ rfl rfl rfl rfl
  have h2c : x ≤ s.ecminP - (Compr_Envlp s s.ecminP).1 /
      (((Compr_Envlp s s.ecminP).1 - s.fc * 2 / s.epsc0 *
          ((s.fcu - s.rat * (s.fc * 2 / s.epsc0) * s.epscu) /
            (s.fc * 2 / s.epsc0 * (1 - s.rat)))) /
        (s.ecminP - (s.fcu - s.rat * (s.fc * 2 / s.epsc0) * s.epscu) /
            (s.fc * 2 / s.epsc0 * (1 - s.rat)))) := h2
  unfold setTrialStrain
  simp only [if_neg h1, hc, if_pos h2c]
  unfold er ept sigmm epsr er sigmm epsr
  split_ifs <;> rfl

/-- C26. Thermal model, unloading and reloading branch: when the trial strain is not below
the minimum strain, does not exceed `ept`, and the reloading slope `er` is positive, the
stress after `setTrialStrain` lies between `sigmin = sigmm + er*(eps - ecmin)` and
`sigmax = 0.5*er*(eps - ept)`, and is not positive. -/
theorem unloading_stress_between_sigmin_sigmax (s : State) (x : ℚ) (h1 : ¬ x < s.ecminP)
    (h2 : x ≤ ept s) (h3 : 0 < er s) :
    sigmm s + er s * (x - s.ecminP) ≤ (setTrialStrain s x).sig ∧
    (setTrialStrain s x).sig ≤ er s * 0.5 * (x - ept s) ∧
    (setTrialStrain s x).sig ≤ 0 := by
  have hne : er s ≠ 0 := ne_of_gt h3
  have key : sigmm s = er s * (s.ecminP - ept s) := by
    unfold ept
    field_simp
  have hmin : sigmm s + er s * (x - s.ecminP) = er s * (x - ept s) := by
    rw [key]; ring
  have hle : er s * (x - ept s) ≤ 0 :=
    mul_nonpos_of_nonneg_of_nonpos h3.le (sub_nonpos.2 h2)
  have hmax : er s * 0.5 * (x - ept s) = 0.5 * (er s * (x - ept s)) := by ring
  rw [setTrialStrain_unloading s x h1 h2, hmin, hmax]
  split_ifs with ha hb hb
  · refine ⟨?_, le_refl _, ?_⟩ <;> norm_num <;> linarith
  · refine ⟨le_refl _, ?_, hle⟩
    norm_num at hb ⊢
    linarith
  · refine ⟨?_, le_refl _, ?_⟩ <;> norm_num <;> linarith
  · refine ⟨?_, ?_, ?_⟩
    · exact le_of_lt (not_le.1 ha)
    · exact le_of_lt (not_le.1 hb)
    · have := not_le.1 hb
      norm_num at this ⊢
      linarith

/-- Witness of C26: the specimen committed at the strain `-0.003` and reloaded to
`-0.0028`. -/
theorem unloading_stress_between_sigmin_sigmax_witness :
    (¬ (-0.0028 : ℚ) < crushedSpecimen.ecminP ∧ (-0.0028 : ℚ) ≤ ept crushedSpecimen ∧
      0 < er crushedSpecimen) ∧
    (sigmm crushedSpecimen + er crushedSpecimen * (-0.0028 - crushedSpecimen.ecminP)
        ≤ (setTrialStrain crushedSpecimen (-0.0028)).sig ∧
    (setTrialStrain crushedSpecimen (-0.0028)).sig
        ≤ er crushedSpecimen * 0.5 * (-0.0028 - ept crushedSpecimen) ∧
    (setTrialStrain crushedSpecimen (-0.0028)).sig ≤ 0) :=
  ⟨⟨by decide!, by decide!, by decide!⟩,
    unloading_stress_between_sigmin_sigmax crushedSpecimen (-0.0028)
      (by decide!) (by decide!) (by decide!)⟩

/-- The unloading branch of the specimen committed at `-0.003`: `sigmm = -27`,
`er = 13800`, and the stress `-21` at the strain `-0.0028` lies between `-24.24` and
`-12.12`. -/
theorem unloading_stress_values :
    sigmm crushedSpecimen = -27 ∧ er crushedSpecimen = 13800 ∧
    (setTrialStrain crushedSpecimen (-0.0028)).sig = -21 ∧
    sigmm crushedSpecimen + er crushedSpecimen * (-0.0028 - crushedSpecimen.ecminP) = -24.24 ∧
    er crushedSpecimen * 0.5 * (-0.0028 - ept crushedSpecimen) = -12.12 := by
  decide!

/-- C22 (code defect). Thermal model: `revertToStart` resets the committed strain history,
strain and stress and the committed tangent `2*fc/epsc0`, and leaves the tag and the
parameters `fc`, `epsc0`, `fcu`, `epscu`, `rat`, `ft`, `Ets`; but it leaves the committed
temperature `TempP` as it was, not 0 as at construction.  The specimen committed at 500
degrees keeps `TempP = 500` after `revertToStart`; the next `getElongTangent` at 20
degrees then takes the cooling part and stores `ft = 0`, where the fresh specimen stores
`ft = 3`. -/
theorem revertToStart_keeps_committed_temperature :
    (∀ s : State,
      ((revertToStart s).ecminP = 0 ∧ (revertToStart s).deptP = 0 ∧
        (revertToStart s).epsP = 0 ∧ (revertToStart s).sigP = 0 ∧
        (revertToStart s).eP = 2 * s.fc / s.epsc0) ∧
      ((revertToStart s).tag = s.tag ∧ (revertToStart s).fc = s.fc ∧
        (revertToStart s).epsc0 = s.epsc0 ∧ (revertToStart s).fcu = s.fcu ∧
        (revertToStart s).epscu = s.epscu ∧ (revertToStart s).rat = s.rat ∧
        (revertToStart s).ft = s.ft ∧ (revertToStart s).Ets = s.Ets) ∧
      (revertToStart s).TempP = s.TempP) ∧
    (∀ (tag : Int) (fc epsc0 fcu epscu rat ft Ets : ℚ) (u : State),
      (new tag fc epsc0 fcu epscu rat ft Ets u).TempP = 0) ∧
    (heatedSpecimen.TempP = 500 ∧ (revertToStart heatedSpecimen).TempP = 500 ∧
      (getElongTangent (revertToStart heatedSpecimen) 20 20 Cooling.zero).obj.ft = 0 ∧
      (getElongTangent specimen 20 20 Cooling.zero).obj.ft = 3) := by
  refine ⟨fun s => ⟨⟨rfl, rfl, rfl, rfl, rfl⟩, ⟨rfl, rfl, rfl, rfl, rfl, rfl, rfl, rfl⟩, rfl⟩,
    fun _ _ _ _ _ _ _ _ _ => rfl, by decide!⟩

/-- C24 (code defect). Thermal model: `getCopy` builds a new object from the tag and the
active parameters, so the committed state of the copy is that of a fresh object
(`ecminP = deptP = epsP = sigP = 0`, `eP = 2*fc/epsc0`, `TempP = 0`), whatever the original
has committed, and the construction-time strength `fcT` of the copy is the active `fc` of
the original.  The specimen committed at the strain `-0.003` has `ecminP = -0.003` and
`sigP = -27`, its copy has 0 and 0; reloaded to `-0.0028` the original gives the stress
`-21`, the copy the envelope stress `-27.6`. -/
theorem getCopy_resets_committed_state :
    (∀ s u : State,
      ((getCopy s u).tag = s.tag ∧ (getCopy s u).fc = s.fc ∧ (getCopy s u).epsc0 = s.epsc0 ∧
        (getCopy s u).fcu = s.fcu ∧ (getCopy s u).epscu = s.epscu ∧
        (getCopy s u).rat = s.rat ∧ (getCopy s u).ft = s.ft ∧ (getCopy s u).Ets = s.Ets) ∧
      ((getCopy s u).ecminP = 0 ∧ (getCopy s u).deptP = 0 ∧ (getCopy s u).epsP = 0 ∧
        (getCopy s u).sigP = 0 ∧ (getCopy s u).eP = 2 * s.fc / s.epsc0 ∧
        (getCopy s u).TempP = 0) ∧
      (getCopy s u).fcT = s.fc) ∧
    (crushedSpecimen.ecminP = -0.003 ∧ crushedSpecimen.epsP = -0.003 ∧
      crushedSpecimen.sigP = -27 ∧
      (getCopy crushedSpecimen State.zero).ecminP = 0 ∧
      (getCopy crushedSpecimen State.zero).epsP = 0 ∧
      (getCopy crushedSpecimen State.zero).sigP = 0 ∧
      getStress (setTrialStrain crushedSpecimen (-0.0028)) = -21 ∧
      getStress (setTrialStrain (getCopy crushedSpecimen State.zero) (-0.0028)) = -27.6) ∧
    (heatedSpecimen.fcT = -30 ∧ (getCopy heatedSpecimen State.zero).fcT = -17.1 ∧
      heatedSpecimen.TempP = 500 ∧ (getCopy heatedSpecimen State.zero).TempP = 0) := by
  refine ⟨fun s u => ⟨⟨rfl, rfl, rfl, rfl, rfl, rfl, rfl, rfl⟩,
    ⟨rfl, rfl, rfl, rfl, rfl, rfl⟩, rfl⟩, by decide!, by decide!⟩

/-- The compression envelope as a function of the strain is continuous when
`epscu < epsc0 < 0`: the parabola meets the line at `epsc0`, the line the plateau at `epscu`. -/
theorem Compr_Envlp_continuous (s : State) (h1 : s.epscu < s.epsc0) (h2 : s.epsc0 < 0) :
    Continuous (fun x : ℚ => (Compr_Envlp s x).1) := by
  have hne : s.epscu - s.epsc0 ≠ 0 := ne_of_lt (sub_neg.2 h1)
  have e : (fun x : ℚ => (Compr_Envlp s x).1) =
      fun x => if s.epsc0 ≤ x then s.fc * (x / s.epsc0) * (2 - x / s.epsc0)
        else if x ≤ s.epscu then s.fcu
        else (s.fcu - s.fc) * (x - s.epsc0) / (s.epscu - s.epsc0) + s.fc := by
    funext x
    unfold Compr_Envlp
    simp only [ge_iff_le, gt_iff_lt]
    split_ifs with a b c c
    · rfl
    · exact absurd b (not_lt.2 c)
    · rfl
    · rfl
    · exact absurd (not_le.1 c) b
  rw [e]
  refine Continuous.if_le (by fun_prop) ?_ continuous_const continuous_id ?_
  · refine Continuous.if_le continuous_const (by fun_prop) continuous_id continuous_const ?_
    intro x hx
    rw [hx]
    field_simp
  · intro x hx
    have h3 : ¬ x ≤ s.epscu := by rw [← hx]; exact not_le.2 h1
    rw [if_neg h3, ← hx, sub_self, mul_zero, zero_div, zero_add]
    rw [div_self (ne_of_lt h2)]
    ring

/-- C30. Thermal compression envelope with `epscu < epsc0 < 0`: `Compr_Envlp` returns
`fc*r*(2-r)` with `r = eps/epsc0` for `eps >= epsc0`, the straight line from `(epsc0, fc)`
to `(epscu, fcu)` for `epscu < eps < epsc0`, and `fcu` with the tangent `1e-10` for
`eps <= epscu`; the stress is a continuous function of the strain, with the value `fc` at
`epsc0` and `fcu` at `epscu`, and 0 at the strain 0; and when `fc <= fcu <= 0` the stress
lies between `fc` and 0 for every strain `eps <= 0`. -/
theorem Compr_Envlp_shape (s : State) (h1 : s.epscu < s.epsc0) (h2 : s.epsc0 < 0) :
    (∀ x : ℚ, s.epsc0 ≤ x →
      (Compr_Envlp s x).1 = s.fc * (x / s.epsc0) * (2 - x / s.epsc0)) ∧
    (∀ x : ℚ, s.epscu < x → x < s.epsc0 →
      (Compr_Envlp s x).1 = (s.fcu - s.fc) * (x - s.epsc0) / (s.epscu - s.epsc0) + s.fc) ∧
    (∀ x : ℚ, x ≤ s.epscu → Compr_Envlp s x = (s.fcu, 1.0e-10)) ∧
    Continuous (fun x : ℚ => (Compr_Envlp s x).1) ∧
    (Compr_Envlp s s.epsc0).1 = s.fc ∧ (Compr_Envlp s s.epscu).1 = s.fcu ∧
    (Compr_Envlp s 0).1 = 0 ∧
    (s.fc ≤ s.fcu → s.fcu ≤ 0 → ∀ x : ℚ, x ≤ 0 →
      s.fc ≤ (Compr_Envlp s x).1 ∧ (Compr_Envlp s x).1 ≤ 0) := by
  have hne : s.epsc0 ≠ 0 := ne_of_lt h2
  have hq : ∀ x : ℚ, s.epsc0 ≤ x →
      (Compr_Envlp s x).1 = s.fc * (x / s.epsc0) * (2 - x / s.epsc0) := by
    intro x hx
    unfold Compr_Envlp
    simp only [ge_iff_le, if_pos hx]
  have hl : ∀ x : ℚ, s.epscu < x → x < s.epsc0 →
      (Compr_Envlp s x).1 = (s.fcu - s.fc) * (x - s.epsc0) / (s.epscu - s.epsc0) + s.fc := by
    intro x hx hx2
    unfold Compr_Envlp
    simp only [ge_iff_le, gt_iff_lt, if_neg (not_le.2 hx2), if_pos hx]
  have hf : ∀ x : ℚ, x ≤ s.epscu → Compr_Envlp s x = (s.fcu, 1.0e-10) := by
    intro x hx
    unfold Compr_Envlp
    simp only [ge_iff_le, gt_iff_lt, if_neg (not_le.2 (lt_of_le_of_lt hx h1)),
      if_neg (not_lt.2 hx)]
  refine ⟨hq, hl, hf, Compr_Envlp_continuous s h1 h2, ?_, ?_, ?_, ?_⟩
  · rw [hq _ (le_refl _), div_self hne]; ring
  · rw [hf _ (le_refl _)]
  · rw [hq _ h2.le]; simp
  · intro hfc hfu x hx
    have hfc0 : s.fc ≤ 0 := le_trans hfc hfu
    by_cases a : s.epsc0 ≤ x
    · rw [hq x a]
      have r0 : 0 ≤ x / s.epsc0 := div_nonneg_of_nonpos hx h2.le
      have r1 : x / s.epsc0 ≤ 1 := by
        rw [div_le_one_of_neg h2]; exact a
      have p0 : 0 ≤ x / s.epsc0 * (2 - x / s.epsc0) := mul_nonneg r0 (by linarith)
      have p1 : x / s.epsc0 * (2 - x / s.epsc0) ≤ 1 := by nlinarith [sq_nonneg (x / s.epsc0 - 1)]
      rw [mul_assoc]
      constructor
      · nlinarith
      · exact mul_nonpos_of_nonpos_of_nonneg hfc0 p0
    · by_cases b : s.epscu < x
      · rw [hl x b (not_le.1 a)]
        have hd : s.epscu - s.epsc0 < 0 := sub_neg.2 h1
        have t0 : 0 ≤ (x - s.epsc0) / (s.epscu - s.epsc0) :=
          div_nonneg_of_nonpos (by linarith [not_le.1 a]) hd.le
        have t1 : (x - s.epsc0) / (s.epscu - s.epsc0) ≤ 1 := by
          rw [div_le_one_of_neg hd]; linarith
        rw [mul_div_assoc]
        constructor
        · nlinarith [mul_nonneg (sub_nonneg.2 hfc) t0]
        · nlinarith [mul_nonneg (sub_nonneg.2 hfc) (sub_nonneg.2 t1)]
      · rw [hf x (not_lt.1 b)]
        exact ⟨hfc, hfu⟩

/-- Witness of C30: the specimen, with `epscu = -0.01 < epsc0 = -0.002 < 0`. -/
theorem Compr_Envlp_shape_witness :
    (specimen.epscu < specimen.epsc0 ∧ specimen.epsc0 < 0) ∧
    ((∀ x : ℚ, specimen.epsc0 ≤ x →
      (Compr_Envlp specimen x).1
        = specimen.fc * (x / specimen.epsc0) * (2 - x / specimen.epsc0)) ∧
    (∀ x : ℚ, specimen.epscu < x → x < specimen.epsc0 →
      (Compr_Envlp specimen x).1
        = (specimen.fcu - specimen.fc) * (x - specimen.epsc0)
            / (specimen.epscu - specimen.epsc0) + specimen.fc) ∧
    (∀ x : ℚ, x ≤ specimen.epscu → Compr_Envlp specimen x = (specimen.fcu, 1.0e-10)) ∧
    Continuous (fun x : ℚ => (Compr_Envlp specimen x).1) ∧
    (Compr_Envlp specimen specimen.epsc0).1 = specimen.fc ∧
    (Compr_Envlp specimen specimen.epscu).1 = specimen.fcu ∧
    (Compr_Envlp specimen 0).1 = 0 ∧
    (specimen.fc ≤ specimen.fcu → specimen.fcu ≤ 0 → ∀ x : ℚ, x ≤ 0 →
      specimen.fc ≤ (Compr_Envlp specimen x).1 ∧ (Compr_Envlp specimen x).1 ≤ 0)) :=
  ⟨⟨by decide!, by decide!⟩, Compr_Envlp_shape specimen (by decide!) (by decide!)⟩

/-- The thermal elongation that the step of lines 358-369 stores. -/
theorem getElongTangent_L358_L369_value (s : State) :
    (getElongTangent_L358_L369 s).ThermalElongation =
      (if s.Temp ≤ 1 then 9.213e-6 * s.Temp
        else if s.Temp ≤ 680 then -1.8e-4 + 9e-6 * (s.Temp + 20) + 2.3e-11 * (s.Temp + 20) ^ 3
        else if s.Temp ≤ 1180 then 14.009e-3 else s.ThermalElongation) := by
  unfold getElongTangent_L358_L369
  split_ifs
  · show (s.Temp - 0) * 9.213e-6 = 9.213e-6 * s.Temp
    ring
  · show -1.8e-4 + 9e-6 * (s.Temp + 20) + 2.3e-11 * (s.Temp + 20) * (s.Temp + 20) * (s.Temp + 20)
      = -1.8e-4 + 9e-6 * (s.Temp + 20) + 2.3e-11 * (s.Temp + 20) ^ 3
    ring
  · rfl
  · rfl

/-- The reference argument `Elong` that `getElongTangent` returns is the thermal
elongation stored by the step of lines 358-369 at the temperature `TempT`. -/
theorem getElongTangent_Elong (s : State) (TempT TempTmax : ℚ) (u : Cooling)
    (h : TempT ≤ 1180) :
    (getElongTangent s TempT TempTmax u).Elong =
      (if TempT ≤ 1 then 9.213e-6 * TempT
        else if TempT ≤ 680 then -1.8e-4 + 9e-6 * (TempT + 20) + 2.3e-11 * (TempT + 20) ^ 3
        else 14.009e-3) := by
  obtain ⟨_, _, _, _, a1, _⟩ :=
    getElongTangent_L258_L271_keeps { s with Temp := TempT, Tempmax := TempTmax }
  obtain ⟨_, _, b1, _⟩ := getElongTangent_L276_L351_keeps
    (getElongTangent_L258_L271 { s with Temp := TempT, Tempmax := TempTmax })
  have hT : (getElongTangent_L276_L351
      (getElongTangent_L258_L271 { s with Temp := TempT, Tempmax := TempTmax })).Temp = TempT :=
    b1.trans a1
  show (getElongTangent_L358_L369 (getElongTangent_L276_L351
      (getElongTangent_L258_L271 { s with Temp := TempT, Tempmax := TempTmax }))).ThermalElongation
    = _
  rw [getElongTangent_L358_L369_value, hT, if_pos h]

/-- C29. Thermal free strain: for `TempT <= 1180`, `getElongTangent` returns
`Elong = 9.213e-6*TempT` for `TempT <= 1`, `-1.8e-4 + 9e-6*(TempT+20) + 2.3e-11*(TempT+20)^3`
for `1 < TempT <= 680`, and `14.009e-3` for `680 < TempT <= 1180`.  The value at 680 is the
plateau value `14.009e-3`; between two temperatures in `(1, 1180]` the elongation grows by
at most `4.3e-5` per degree, so it is continuous there; and it does not decrease with the
temperature over all temperatures up to 1180, whatever the objects are. -/
theorem thermal_elongation_formula :
    (∀ (s : State) (T Tmax : ℚ) (u : Cooling), T ≤ 1180 →
      (getElongTangent s T Tmax u).Elong =
        (if T ≤ 1 then 9.213e-6 * T
          else if T ≤ 680 then -1.8e-4 + 9e-6 * (T + 20) + 2.3e-11 * (T + 20) ^ 3
          else 14.009e-3)) ∧
    (∀ (s : State) (Tmax : ℚ) (u : Cooling),
      (getElongTangent s 680 Tmax u).Elong = 14.009e-3) ∧
    (∀ (s t : State) (a b Tmax Tmax2 : ℚ) (u v : Cooling), 1 < a → a ≤ b → b ≤ 1180 →
      (getElongTangent t b Tmax2 v).Elong - (getElongTangent s a Tmax u).Elong
        ≤ 4.3e-5 * (b - a)) ∧
    (∀ (s t : State) (a b Tmax Tmax2 : ℚ) (u v : Cooling), a ≤ b → b ≤ 1180 →
      (getElongTangent s a Tmax u).Elong ≤ (getElongTangent t b Tmax2 v).Elong) := by
  have cube : ∀ a b : ℚ, 1 < a → a ≤ b → b ≤ 680 →
      0 ≤ (b + 20) ^ 3 - (a + 20) ^ 3 ∧ (b + 20) ^ 3 - (a + 20) ^ 3 ≤ 1470000 * (b - a) := by
    intro a b ha hab hb
    have e : (b + 20) ^ 3 - (a + 20) ^ 3
        = (b - a) * ((b + 20) ^ 2 + (b + 20) * (a + 20) + (a + 20) ^ 2) := by ring
    have h0 : 0 ≤ b - a := sub_nonneg.2 hab
    have p1 : 0 ≤ (b + 20) ^ 2 + (b + 20) * (a + 20) + (a + 20) ^ 2 := by
      nlinarith [mul_pos (show (0:ℚ) < b + 20 by linarith) (show (0:ℚ) < a + 20 by linarith)]
    have p2 : (b + 20) ^ 2 + (b + 20) * (a + 20) + (a + 20) ^ 2 ≤ 1470000 := by
      nlinarith [mul_nonneg (show (0:ℚ) ≤ 700 - (b + 20) by linarith)
          (show (0:ℚ) ≤ b + 20 by linarith),
        mul_nonneg (show (0:ℚ) ≤ 700 - (a + 20) by linarith)
          (show (0:ℚ) ≤ a + 20 by linarith),
        mul_nonneg (show (0:ℚ) ≤ 700 - (b + 20) by linarith)
          (show (0:ℚ) ≤ a + 20 by linarith),
        mul_nonneg (show (0:ℚ) ≤ 700 - (a + 20) by linarith)
          (show (0:ℚ) ≤ 700 - (b + 20) by linarith)]
    rw [e]
    exact ⟨mul_nonneg h0 p1, by nlinarith [mul_le_mul_of_nonneg_left p2 h0]⟩
  refine ⟨fun s T Tmax u h => getElongTangent_Elong s T Tmax u h, ?_, ?_, ?_⟩
  · intro s Tmax u
    rw [getElongTangent_Elong s 680 Tmax u (by norm_num)]
    norm_num
  · intro s t a b Tmax Tmax2 u v ha hab hb
    rw [getElongTangent_Elong s a Tmax u (le_trans hab hb), getElongTangent_Elong t b Tmax2 v hb,
      if_neg (not_le.2 ha), if_neg (not_le.2 (lt_of_lt_of_le ha hab))]
    by_cases hb6 : b ≤ 680
    · have c := cube a b ha hab hb6
      rw [if_pos hb6, if_pos (le_trans hab hb6)]
      norm_num
      linarith [c.1, c.2]
    · rw [if_neg hb6]
      by_cases ha6 : a ≤ 680
      · have c := cube a 680 ha ha6 (le_refl _)
        rw [if_pos ha6]
        norm_num at c ⊢
        linarith [c.1, c.2, not_le.1 hb6]
      · rw [if_neg ha6]
        norm_num
        linarith
  · intro s t a b Tmax Tmax2 u v hab hb
    rw [getElongTangent_Elong s a Tmax u (le_trans hab hb), getElongTangent_Elong t b Tmax2 v hb]
    by_cases ha1 : a ≤ 1
    · rw [if_pos ha1]
      by_cases hb1 : b ≤ 1
      · rw [if_pos hb1]
        norm_num
        linarith
      · rw [if_neg hb1]
        by_cases hb6 : b ≤ 680
        · rw [if_pos hb6]
          have hp : (21 : ℚ) ^ 3 ≤ (b + 20) ^ 3 :=
            pow_le_pow_left₀ (by norm_num) (by linarith [not_le.1 hb1]) 3
          norm_num at hp ⊢
          linarith [not_le.1 hb1]
        · rw [if_neg hb6]
          norm_num
          linarith
    · have ha1' := not_le.1 ha1
      rw [if_neg ha1, if_neg (not_le.2 (lt_of_lt_of_le ha1' hab))]
      by_cases hb6 : b ≤ 680
      · have c := cube a b ha1' hab hb6
        rw [if_pos hb6, if_pos (le_trans hab hb6)]
        linarith [c.1]
      · rw [if_neg hb6]
        by_cases ha6 : a ≤ 680
        · have c := cube a 680 ha1' ha6 (le_refl _)
          rw [if_pos ha6]
          norm_num at c ⊢
          linarith [c.1]
        · rw [if_neg ha6]

/-- Two falls in a row add up. -/
theorem FallsBy_trans (L d e x y z : ℚ) (h1 : FallsBy L d x y) (h2 : FallsBy L e y z) :
    FallsBy L (d + e) x z := by
  unfold FallsBy at *
  constructor
  · linarith [h1.1, h2.1]
  · linarith [h1.2, h2.2]

/-- A table whose rows fall by at most `L` per unit and join at the bounds falls by at
most `L` per unit between any two arguments up to one of its bounds. -/
theorem chainEval_falls (L d : ℚ) (rows : List (ℚ × (ℚ → ℚ))) :
    ∀ (lo : ℚ), ChainOK L lo rows → ∀ a b : ℚ, lo ≤ a → a ≤ b → (∃ r ∈ rows, b ≤ r.1) →
      FallsBy L (b - a) (chainEval rows d a) (chainEval rows d b) := by
  induction rows with
  | nil =>
    intro lo _ a b _ _ hb
    obtain ⟨r, hr, _⟩ := hb
    cases hr
  | cons r rs ih =>
    intro lo h a b hlo hab hb
    obtain ⟨h1, h2, h3, h4⟩ := h
    show FallsBy L (b - a) (if a ≤ r.1 then r.2 a else chainEval rs d a)
      (if b ≤ r.1 then r.2 b else chainEval rs d b)
    by_cases hbr : b ≤ r.1
    · rw [if_pos hbr, if_pos (le_trans hab hbr)]
      exact h2 a b hlo hab hbr
    · have hb2 : ∃ p ∈ rs, b ≤ p.1 := by
        obtain ⟨p, hp, hpb⟩ := hb
        rcases List.mem_cons.1 hp with e | e
        · rw [e] at hpb; exact absurd hpb hbr
        · exact ⟨p, e, hpb⟩
      rw [if_neg hbr]
      by_cases har : a ≤ r.1
      · rw [if_pos har]
        have s1 := h2 a r.1 hlo har (le_refl _)
        have s2 := ih r.1 h4 r.1 b (le_refl _) (le_of_lt (not_le.1 hbr)) hb2
        have e : chainEval rs d r.1 = r.2 r.1 := by
          cases rs with
          | nil =>
            obtain ⟨p, hp, _⟩ := hb2
            cases hp
          | cons q qs =>
            show (if r.1 ≤ q.1 then q.2 r.1 else chainEval qs d r.1) = r.2 r.1
            rw [if_pos h4.1]
            exact (h3 q rfl).symm
        rw [e] at s2
        have s3 := FallsBy_trans L _ _ _ _ _ s1 s2
        have e2 : r.1 - a + (b - r.1) = b - a := by ring
        rw [e2] at s3
        exact s3
      · rw [if_neg har]
        exact ih r.1 h4 a b (le_of_lt (not_le.1 har)) hab hb2


/-- A field of a conditional is the conditional of the fields. -/
theorem proj_ite {α β : Type} (f : α → β) (c : Prop) [Decidable c] (a b : α) (x y : β)
    (ha : f a = x) (hb : f b = y) : f (if c then a else b) = if c then x else y := by
  by_cases h : c
  · rw [if_pos h, if_pos h]; exact ha
  · rw [if_neg h, if_neg h]; exact hb

/-- The strength `fc` that the table of lines 276-351 stores, row by row. -/
theorem getElongTangent_L276_L351_fc (s : State) :
    (getElongTangent_L276_L351 s).fc =
     (
      if s.Temp ≤ 0 then s.fcT
      else if s.Temp ≤ 80 then s.fcT
      else if s.Temp ≤ 180 then s.fcT * (1 - (s.Temp - 80) * 0.05 / 100)
      else if s.Temp ≤ 280 then s.fcT * (0.95 - (s.Temp - 180) * 0.1 / 100)
      else if s.Temp ≤ 380 then s.fcT * (0.85 - (s.Temp - 280) * 0.1 / 100)
      else if s.Temp ≤ 480 then s.fcT * (0.75 - (s.Temp - 380) * 0.15 / 100)
      else if s.Temp ≤ 580 then s.fcT * (0.60 - (s.Temp - 480) * 0.15 / 100)
      else if s.Temp ≤ 680 then s.fcT * (0.45 - (s.Temp - 580) * 0.15 / 100)
      else if s.Temp ≤ 780 then s.fcT * (0.30 - (s.Temp - 680) * 0.15 / 100)
      else if s.Temp ≤ 880 then s.fcT * (0.15 - (s.Temp - 780) * 0.07 / 100)
      else if s.Temp ≤ 980 then s.fcT * (0.08 - (s.Temp - 880) * 0.04 / 100)
      else if s.Temp ≤ 1080 then s.fcT * (0.04 - (s.Temp - 980) * 0.03 / 100)
      else s.fc) := by
  unfold getElongTangent_L276_L351
  repeat (first
    | (with_reducible apply proj_ite State.fc)
    | rfl)

/-- The strength `fcu` that the table of lines 276-351 stores, row by row. -/
theorem getElongTangent_L276_L351_fcu (s : State) :
    (getElongTangent_L276_L351 s).fcu =
     (
      if s.Temp ≤ 0 then s.fcuT
      else if s.Temp ≤ 80 then s.fcuT
      else if s.Temp ≤ 180 then s.fcuT * (1 - (s.Temp - 80) * 0.05 / 100)
      else if s.Temp ≤ 280 then s.fcuT * (0.95 - (s.Temp - 180) * 0.1 / 100)
      else if s.Temp ≤ 380 then s.fcuT * (0.85 - (s.Temp - 280) * 0.1 / 100)
      else if s.Temp ≤ 480 then s.fcuT * (0.75 - (s.Temp - 380) * 0.15 / 100)
      else if s.Temp ≤ 580 then s.fcuT * (0.60 - (s.Temp - 480) * 0.15 / 100)
      else if s.Temp ≤ 680 then s.fcuT * (0.45 - (s.Temp - 580) * 0.15 / 100)
      else if s.Temp ≤ 780 then s.fcuT * (0.30 - (s.Temp - 680) * 0.15 / 100)
      else if s.Temp ≤ 880 then s.fcuT * (0.15 - (s.Temp - 780) * 0.07 / 100)
      else if s.Temp ≤ 980 then s.fcuT * (0.08 - (s.Temp - 880) * 0.04 / 100)
      else if s.Temp ≤ 1080 then s.fcuT * (0.04 - (s.Temp - 980) * 0.03 / 100)
      else s.fcu) := by
  unfold getElongTangent_L276_L351
  repeat (first
    | (with_reducible apply proj_ite State.fcu)
    | rfl)

/-- The strain `epsc0` that the table of lines 276-351 stores, row by row. -/
theorem getElongTangent_L276_L351_epsc0 (s : State) :
    (getElongTangent_L276_L351 s).epsc0 =
     (
      if s.Temp ≤ 0 then -0.0025
      else if s.Temp ≤ 80 then -(0.0025 + (0.004 - 0.0025) * (s.Temp - 0) / (80 - 0))
      else if s.Temp ≤ 180 then -(0.0040 + (0.0055 - 0.0040) * (s.Temp - 80) / 100)
      else if s.Temp ≤ 280 then -(0.0055 + (0.0070 - 0.0055) * (s.Temp - 180) / 100)
      else if s.Temp ≤ 380 then -(0.0070 + (0.0100 - 0.0070) * (s.Temp - 280) / 100)
      else if s.Temp ≤ 480 then -(0.0100 + (0.0150 - 0.0100) * (s.Temp - 380) / 100)
      else if s.Temp ≤ 580 then -(0.0150 + (0.0250 - 0.0150) * (s.Temp - 480) / 100)
      else if s.Temp ≤ 680 then -0.0250
      else if s.Temp ≤ 780 then -0.0250
      else if s.Temp ≤ 880 then -0.0250
      else if s.Temp ≤ 980 then -0.0250
      else if s.Temp ≤ 1080 then -0.0250
      else s.epsc0) := by
  unfold getElongTangent_L276_L351
  repeat (first
    | (with_reducible apply proj_ite State.epsc0)
    | rfl)

/-- The strain `epscu` that the table of lines 276-351 stores, row by row. -/
theorem getElongTangent_L276_L351_epscu (s : State) :
    (getElongTangent_L276_L351 s).epscu =
     (
      if s.Temp ≤ 0 then -0.02
      else if s.Temp ≤ 80 then -(0.0200 + (0.0225 - 0.0200) * (s.Temp - 0) / (80 - 0))
      else if s.Temp ≤ 180 then -(0.0225 + (0.0225 - 0.0200) * (s.Temp - 80) / 100)
      else if s.Temp ≤ 280 then -(0.0250 + 0.0025 * (s.Temp - 180) / 100)
      else if s.Temp ≤ 380 then -(0.0275 + 0.0025 * (s.Temp - 280) / 100)
      else if s.Temp ≤ 480 then -(0.03 + 0.0025 * (s.Temp - 380) / 100)
      else if s.Temp ≤ 580 then -(0.0325 + 0.0025 * (s.Temp - 480) / 100)
      else if s.Temp ≤ 680 then -(0.035 + 0.0025 * (s.Temp - 580) / 100)
      else if s.Temp ≤ 780 then -(0.0375 + 0.0025 * (s.Temp - 680) / 100)
      else if s.Temp ≤ 880 then -(0.04 + 0.0025 * (s.Temp - 780) / 100)
      else if s.Temp ≤ 980 then -(0.0425 + 0.0025 * (s.Temp - 880) / 100)
      else if s.Temp ≤ 1080 then -(0.045 + 0.0025 * (s.Temp - 980) / 100)
      else s.epscu) := by
  unfold getElongTangent_L276_L351
  repeat (first
    | (with_reducible apply proj_ite State.epscu)
    | rfl)

/-- The factor of the table of lines 276-351, row by row. -/
theorem strengthFactor_rows (T : ℚ) :
    strengthFactor T =
     (
      if T ≤ 0 then 1
      else if T ≤ 80 then 1
      else if T ≤ 180 then 1 - (T - 80) * 0.05 / 100
      else if T ≤ 280 then 0.95 - (T - 180) * 0.1 / 100
      else if T ≤ 380 then 0.85 - (T - 280) * 0.1 / 100
      else if T ≤ 480 then 0.75 - (T - 380) * 0.15 / 100
      else if T ≤ 580 then 0.60 - (T - 480) * 0.15 / 100
      else if T ≤ 680 then 0.45 - (T - 580) * 0.15 / 100
      else if T ≤ 780 then 0.30 - (T - 680) * 0.15 / 100
      else if T ≤ 880 then 0.15 - (T - 780) * 0.07 / 100
      else if T ≤ 980 then 0.08 - (T - 880) * 0.04 / 100
      else if T ≤ 1080 then 0.04 - (T - 980) * 0.03 / 100
      else 0) := by
  unfold strengthFactor
  rw [getElongTangent_L276_L351_fc]
  dsimp only
  simp only [one_mul]
  rfl

/-- The strain `epsc0` of the table of lines 276-351, row by row. -/
theorem strainTable_epsc0_rows (T : ℚ) :
    (strainTable T).1 =
     (
      if T ≤ 0 then -0.0025
      else if T ≤ 80 then -(0.0025 + (0.004 - 0.0025) * (T - 0) / (80 - 0))
      else if T ≤ 180 then -(0.0040 + (0.0055 - 0.0040) * (T - 80) / 100)
      else if T ≤ 280 then -(0.0055 + (0.0070 - 0.0055) * (T - 180) / 100)
      else if T ≤ 380 then -(0.0070 + (0.0100 - 0.0070) * (T - 280) / 100)
      else if T ≤ 480 then -(0.0100 + (0.0150 - 0.0100) * (T - 380) / 100)
      else if T ≤ 580 then -(0.0150 + (0.0250 - 0.0150) * (T - 480) / 100)
      else if T ≤ 680 then -0.0250
      else if T ≤ 780 then -0.0250
      else if T ≤ 880 then -0.0250
      else if T ≤ 980 then -0.0250
      else if T ≤ 1080 then -0.0250
      else 0) := by
  unfold strainTable
  rw [getElongTangent_L276_L351_epsc0]
  rfl

/-- The strain `epscu` of the table of lines 276-351, row by row. -/
theorem strainTable_epscu_rows (T : ℚ) :
    (strainTable T).2 =
     (
      if T ≤ 0 then -0.02
      else if T ≤ 80 then -(0.0200 + (0.0225 - 0.0200) * (T - 0) / (80 - 0))
      else if T ≤ 180 then -(0.0225 + (0.0225 - 0.0200) * (T - 80) / 100)
      else if T ≤ 280 then -(0.0250 + 0.0025 * (T - 180) / 100)
      else if T ≤ 380 then -(0.0275 + 0.0025 * (T - 280) / 100)
      else if T ≤ 480 then -(0.03 + 0.0025 * (T - 380) / 100)
      else if T ≤ 580 then -(0.0325 + 0.0025 * (T - 480) / 100)
      else if T ≤ 680 then -(0.035 + 0.0025 * (T - 580) / 100)
      else if T ≤ 780 then -(0.0375 + 0.0025 * (T - 680) / 100)
      else if T ≤ 880 then -(0.04 + 0.0025 * (T - 780) / 100)
      else if T ≤ 980 then -(0.0425 + 0.0025 * (T - 880) / 100)
      else if T ≤ 1080 then -(0.045 + 0.0025 * (T - 980) / 100)
      else 0) := by
  unfold strainTable
  rw [getElongTangent_L276_L351_epscu]
  rfl

/-- The rows `strengthRows` fall by at most `0.0015` per degree and join at the bounds. -/
theorem strengthRows_ok (lo : ℚ) (h : lo ≤ 0) : ChainOK 0.0015 lo strengthRows := by
  unfold strengthRows
  simp only [ChainOK, List.head?_cons, List.head?_nil, Option.mem_def, Option.some.injEq,
    forall_eq', and_true]
  refine ⟨h, ?_⟩
  constructorm* _ ∧ _
  all_goals first
    | (intro a b h1 h2 h3; constructor <;> linarith)
    | (intro p hn; cases hn)
    | norm_num1

/-- Between two temperatures up to 1080 degrees the factor of the table does not
grow and falls by at most `0.0015` per degree. -/
theorem strengthFactor_step (a b : ℚ) (hab : a ≤ b) (hm : b ≤ 1080) :
    FallsBy 0.0015 (b - a) (strengthFactor a) (strengthFactor b) := by
  have ea : (strengthFactor a) = chainEval strengthRows 0 a := by rw [strengthFactor_rows a]; rfl
  have eb : (strengthFactor b) = chainEval strengthRows 0 b := by rw [strengthFactor_rows b]; rfl
  rw [ea, eb]
  exact chainEval_falls 0.0015 0 strengthRows (min a 0) (strengthRows_ok _ (min_le_right _ _)) a b
    (min_le_left _ _) hab ⟨(1080, fun T => 0.04 - (T - 980) * 0.03 / 100), by simp [strengthRows], hm⟩

/-- The rows `epsc0Rows` fall by at most `1e-4` per degree and join at the bounds. -/
theorem epsc0Rows_ok (lo : ℚ) (h : lo ≤ 0) : ChainOK 1e-4 lo epsc0Rows := by
  unfold epsc0Rows
  simp only [ChainOK, List.head?_cons, List.head?_nil, Option.mem_def, Option.some.injEq,
    forall_eq', and_true]
  refine ⟨h, ?_⟩
  constructorm* _ ∧ _
  all_goals first
    | (intro a b h1 h2 h3; constructor <;> linarith)
    | (intro p hn; cases hn)
    | norm_num1

/-- Between two temperatures up to 1080 degrees the strain `epsc0` of the table does not
grow and falls by at most `1e-4` per degree. -/
theorem strainTable_epsc0_step (a b : ℚ) (hab : a ≤ b) (hm : b ≤ 1080) :
    FallsBy 1e-4 (b - a) (strainTable a).1 (strainTable b).1 := by
  have ea : (strainTable a).1 = chainEval epsc0Rows 0 a := by rw [strainTable_epsc0_rows a]; rfl
  have eb : (strainTable b).1 = chainEval epsc0Rows 0 b := by rw [strainTable_epsc0_rows b]; rfl
  rw [ea, eb]
  exact chainEval_falls 1e-4 0 epsc0Rows (min a 0) (epsc0Rows_ok _ (min_le_right _ _)) a b
    (min_le_left _ _) hab ⟨(1080, fun _ => -0.0250), by simp [epsc0Rows], hm⟩

/-- The rows `epscuRows` fall by at most `3.125e-5` per degree and join at the bounds. -/
theorem epscuRows_ok (lo : ℚ) (h : lo ≤ 0) : ChainOK 3.125e-5 lo epscuRows := by
  unfold epscuRows
  simp only [ChainOK, List.head?_cons, List.head?_nil, Option.mem_def, Option.some.injEq,
    forall_eq', and_true]
  refine ⟨h, ?_⟩
  constructorm* _ ∧ _
  all_goals first
    | (intro a b h1 h2 h3; constructor <;> linarith)
    | (intro p hn; cases hn)
    | norm_num1

/-- Between two temperatures up to 1080 degrees the strain `epscu` of the table does not
grow and falls by at most `3.125e-5` per degree. -/
theorem strainTable_epscu_step (a b : ℚ) (hab : a ≤ b) (hm : b ≤ 1080) :
    FallsBy 3.125e-5 (b - a) (strainTable a).2 (strainTable b).2 := by
  have ea : (strainTable a).2 = chainEval epscuRows 0 a := by rw [strainTable_epscu_rows a]; rfl
  have eb : (strainTable b).2 = chainEval epscuRows 0 b := by rw [strainTable_epscu_rows b]; rfl
  rw [ea, eb]
  exact chainEval_falls 3.125e-5 0 epscuRows (min a 0) (epscuRows_ok _ (min_le_right _ _)) a b
    (min_le_left _ _) hab ⟨(1080, fun T => -(0.045 + 0.0025 * (T - 980) / 100)), by simp [epscuRows], hm⟩

/-- Two conditionals on one condition are equal up to a factor when their branches are. -/
theorem ite_eq_ite_mul (c : Prop) [Decidable c] (a b x y k : ℚ)
    (ha : c → a = x * k) (hb : ¬ c → b = y * k) :
    (if c then a else b) = (if c then x else y) * k := by
  by_cases h : c
  · rw [if_pos h, if_pos h]; exact ha h
  · rw [if_neg h, if_neg h]; exact hb h

/-- Two conditionals on one condition are equal when their branches are. -/
theorem ite_eq_ite (c : Prop) [Decidable c] (a b x y : ℚ)
    (ha : c → a = x) (hb : ¬ c → b = y) :
    (if c then a else b) = (if c then x else y) := by
  by_cases h : c
  · rw [if_pos h, if_pos h]; exact ha h
  · rw [if_neg h, if_neg h]; exact hb h

/-- Up to 1080 degrees the table of lines 276-351 stores the two construction-time
strengths times the factor of the temperature, and the strains of the temperature. -/
theorem getElongTangent_L276_L351_scaled (s : State) (hm : s.Temp ≤ 1080) :
    (getElongTangent_L276_L351 s).fc = strengthFactor s.Temp * s.fcT ∧
    (getElongTangent_L276_L351 s).fcu = strengthFactor s.Temp * s.fcuT ∧
    (getElongTangent_L276_L351 s).epsc0 = (strainTable s.Temp).1 ∧
    (getElongTangent_L276_L351 s).epscu = (strainTable s.Temp).2 := by
  rw [getElongTangent_L276_L351_fc, getElongTangent_L276_L351_fcu,
    getElongTangent_L276_L351_epsc0, getElongTangent_L276_L351_epscu,
    strengthFactor_rows, strainTable_epsc0_rows, strainTable_epscu_rows]
  refine ⟨?_, ?_, ?_, ?_⟩
  · repeat (first
      | (with_reducible apply ite_eq_ite_mul <;> intro _)
      | ring1
      | (exfalso; linarith))
  · repeat (first
      | (with_reducible apply ite_eq_ite_mul <;> intro _)
      | ring1
      | (exfalso; linarith))
  · repeat (first
      | (with_reducible apply ite_eq_ite <;> intro _)
      | rfl
      | (exfalso; linarith))
  · repeat (first
      | (with_reducible apply ite_eq_ite <;> intro _)
      | rfl
      | (exfalso; linarith))

/-- C28. Heating table: for a temperature `T <= 1080` that is not below the committed
temperature (no cooling), `getElongTangent` sets `fc = k(T)*fcT` and `fcu = k(T)*fcuT` with
the one factor `k = strengthFactor`, and sets `epsc0` and `epscu` to the strains
`strainTable T` of the table.  The factor is 1 up to 80 degrees and 0.01 at 1080 degrees,
and at the bounds 80, 180, ..., 1080 of the rows it is
1, 0.95, 0.85, 0.75, 0.6, 0.45, 0.3, 0.15, 0.08, 0.04, 0.01.  Between two temperatures
`a <= b <= 1080` the factor does not grow and falls by at most `0.0015*(b-a)`, the strain
`epsc0` does not grow and falls by at most `1e-4*(b-a)`, and the strain `epscu` does not
grow and falls by at most `3.125e-5*(b-a)`; so all three are continuous at every bound of
a row, and the factor is non-increasing. -/
theorem heating_table_common_factor :
    (∀ (s : State) (T Tmax : ℚ) (u : Cooling), ¬ T < s.TempP → T ≤ 1080 →
      (getElongTangent s T Tmax u).obj.fc = strengthFactor T * s.fcT ∧
      (getElongTangent s T Tmax u).obj.fcu = strengthFactor T * s.fcuT ∧
      (getElongTangent s T Tmax u).obj.epsc0 = (strainTable T).1 ∧
      (getElongTangent s T Tmax u).obj.epscu = (strainTable T).2) ∧
    (∀ T : ℚ, T ≤ 80 → strengthFactor T = 1) ∧
    strengthFactor 1080 = 0.01 ∧
    List.map strengthFactor [80, 180, 280, 380, 480, 580, 680, 780, 880, 980, 1080]
      = [1, 0.95, 0.85, 0.75, 0.6, 0.45, 0.3, 0.15, 0.08, 0.04, 0.01] ∧
    (∀ a b : ℚ, a ≤ b → b ≤ 1080 →
      strengthFactor b ≤ strengthFactor a ∧
      strengthFactor a - strengthFactor b ≤ 0.0015 * (b - a)) ∧
    (∀ a b : ℚ, a ≤ b → b ≤ 1080 →
      (strainTable b).1 ≤ (strainTable a).1 ∧
      (strainTable a).1 - (strainTable b).1 ≤ 1e-4 * (b - a)) ∧
    (∀ a b : ℚ, a ≤ b → b ≤ 1080 →
      (strainTable b).2 ≤ (strainTable a).2 ∧
      (strainTable a).2 - (strainTable b).2 ≤ 3.125e-5 * (b - a)) := by
  refine ⟨?_, ?_, ?_, ?_, ?_, ?_, ?_⟩
  · intro s T Tmax u hP hT
    rw [getElongTangent_heating s T Tmax u hP]
    obtain ⟨_, _, _, _, a1, _, a2, a3, _⟩ :=
      getElongTangent_L258_L271_keeps { s with Temp := T, Tempmax := Tmax }
    obtain ⟨c1, c2, c3, c4, _⟩ := getElongTangent_L358_L369_keeps (getElongTangent_L276_L351
      (getElongTangent_L258_L271 { s with Temp := T, Tempmax := Tmax }))
    have hT2 : (getElongTangent_L258_L271 { s with Temp := T, Tempmax := Tmax }).Temp = T := a1
    obtain ⟨d1, d2, d3, d4⟩ := getElongTangent_L276_L351_scaled
      (getElongTangent_L258_L271 { s with Temp := T, Tempmax := Tmax }) (by rw [hT2]; exact hT)
    rw [hT2] at d1 d2 d3 d4
    unfold heated
    exact ⟨c1.trans (d1.trans (by rw [a2])), c3.trans (d2.trans (by rw [a3])),
      c2.trans d3, c4.trans d4⟩
  · intro T hT
    rw [strengthFactor_rows]
    by_cases h0 : T ≤ 0
    · rw [if_pos h0]
    · rw [if_neg h0, if_pos hT]
  · decide!
  · decide!
  · intro a b hab hb
    obtain ⟨h1, h2⟩ := strengthFactor_step a b hab hb
    exact ⟨by linarith, h2⟩
  · intro a b hab hb
    obtain ⟨h1, h2⟩ := strainTable_epsc0_step a b hab hb
    exact ⟨by linarith, h2⟩
  · intro a b hab hb
    obtain ⟨h1, h2⟩ := strainTable_epscu_step a b hab hb
    exact ⟨by linarith, h2⟩

end Concrete02Thermal

namespace Concrete02Thermal


/-- The algebra of the breakpoints of the tension envelope. -/
theorem tens_breakpoints (ft Ets E : ℚ) (hE : 0 < E) (hEts : 0 < Ets) :
    ft / E * E = ft ∧ ft - Ets * (ft * (1 / Ets + 1 / E) - ft / E) = 0 ∧
    (0 < ft → ft / E < ft * (1 / Ets + 1 / E)) := by
  have e1 : ft * (1 / Ets + 1 / E) - ft / E = ft / Ets := by ring
  refine ⟨div_mul_cancel₀ ft (ne_of_gt hE), ?_, fun h => ?_⟩
  · rw [e1, mul_div_cancel₀ ft (ne_of_gt hEts)]; ring
  · have : 0 < ft / Ets := div_pos h hEts
    linarith

/-- The stress of the tension envelope, branch by branch. -/
theorem Tens_Envlp_stress (s : State) (x : ℚ) :
    (Tens_Envlp s x).1 =
      if x ≤ Tens_Envlp_eps0 s then x * (2 * s.fc / s.epsc0)
      else if x ≤ Tens_Envlp_epsu s then s.ft - s.Ets * (x - Tens_Envlp_eps0 s)
      else 0 := by
  unfold Tens_Envlp Tens_Envlp_eps0 Tens_Envlp_epsu
  dsimp only
  split_ifs <;> rfl

/-- The tension envelope as a function of the strain is continuous when the initial
tangent, the tensile strength and the softening modulus are positive. -/
theorem Tens_Envlp_continuous (s : State) (h1 : 0 < 2 * s.fc / s.epsc0) (h2 : 0 < s.ft)
    (h3 : 0 < s.Ets) : Continuous (fun x : ℚ => (Tens_Envlp s x).1) := by
  obtain ⟨a1, a2, a3⟩ := tens_breakpoints s.ft s.Ets (2 * s.fc / s.epsc0) h1 h3
  have e : (fun x : ℚ => (Tens_Envlp s x).1) =
      fun x => if x ≤ Tens_Envlp_eps0 s then x * (2 * s.fc / s.epsc0)
        else if x ≤ Tens_Envlp_epsu s then s.ft - s.Ets * (x - Tens_Envlp_eps0 s)
        else 0 := funext (Tens_Envlp_stress s)
  rw [e]
  refine Continuous.if_le (by fun_prop) ?_ continuous_id continuous_const ?_
  · refine Continuous.if_le (by fun_prop) continuous_const continuous_id continuous_const ?_
    intro x hx
    rw [hx]
    exact a2
  · intro x hx
    have hle : Tens_Envlp_eps0 s ≤ Tens_Envlp_epsu s := le_of_lt (a3 h2)
    rw [hx, if_pos hle, sub_self, mul_zero, sub_zero]
    exact a1

/-- C31. Thermal tension envelope with `Ec0 = 2*fc/epsc0 > 0`, `ft > 0` and `Ets > 0`:
`Tens_Envlp` returns the stress `eps*Ec0` with the tangent `Ec0` up to `eps0 = ft/Ec0`, the
stress `ft - Ets*(eps - eps0)` with the tangent `-Ets` from there up to
`epsu = ft*(1/Ets + 1/Ec0)`, and the stress 0 with the tangent `1e-10` beyond `epsu`; the
stress is exactly `ft` at `eps0` and exactly 0 at `epsu`, it is a continuous function of
the strain, and it never exceeds `ft`. -/
theorem Tens_Envlp_shape (s : State) (h1 : 0 < 2 * s.fc / s.epsc0) (h2 : 0 < s.ft)
    (h3 : 0 < s.Ets) :
    (∀ x : ℚ, x ≤ Tens_Envlp_eps0 s →
      Tens_Envlp s x = (x * (2 * s.fc / s.epsc0), 2 * s.fc / s.epsc0)) ∧
    (∀ x : ℚ, Tens_Envlp_eps0 s < x → x ≤ Tens_Envlp_epsu s →
      Tens_Envlp s x = (s.ft - s.Ets * (x - Tens_Envlp_eps0 s), -s.Ets)) ∧
    (∀ x : ℚ, Tens_Envlp_epsu s < x → Tens_Envlp s x = (0, 1.0e-10)) ∧
    Tens_Envlp_eps0 s < Tens_Envlp_epsu s ∧
    (Tens_Envlp s (Tens_Envlp_eps0 s)).1 = s.ft ∧
    (Tens_Envlp s (Tens_Envlp_epsu s)).1 = 0 ∧
    Continuous (fun x : ℚ => (Tens_Envlp s x).1) ∧
    (∀ x : ℚ, (Tens_Envlp s x).1 ≤ s.ft) := by
  obtain ⟨a1, a2, a3⟩ := tens_breakpoints s.ft s.Ets (2 * s.fc / s.epsc0) h1 h3
  have hlt : Tens_Envlp_eps0 s < Tens_Envlp_epsu s := a3 h2
  have r1 : ∀ x : ℚ, x ≤ Tens_Envlp_eps0 s →
      Tens_Envlp s x = (x * (2 * s.fc / s.epsc0), 2 * s.fc / s.epsc0) := by
    intro x hx
    unfold Tens_Envlp_eps0 at hx
    unfold Tens_Envlp
    simp only [if_pos hx]
  have r2 : ∀ x : ℚ, Tens_Envlp_eps0 s < x → x ≤ Tens_Envlp_epsu s →
      Tens_Envlp s x = (s.ft - s.Ets * (x - Tens_Envlp_eps0 s), -s.Ets) := by
    intro x hx hx2
    unfold Tens_Envlp_eps0 Tens_Envlp_epsu at *
    unfold Tens_Envlp
    simp only [if_neg (not_le.2 hx), if_pos hx2]
  have r3 : ∀ x : ℚ, Tens_Envlp_epsu s < x → Tens_Envlp s x = (0, 1.0e-10) := by
    intro x hx
    have hx0 := lt_trans hlt hx
    unfold Tens_Envlp_eps0 Tens_Envlp_epsu at *
    unfold Tens_Envlp
    simp only [if_neg (not_le.2 hx), if_neg (not_le.2 hx0)]
  refine ⟨r1, r2, r3, hlt, ?_, ?_, Tens_Envlp_continuous s h1 h2 h3, fun x => ?_⟩
  · rw [r1 _ (le_refl _)]
    exact a1
  · rw [r2 _ hlt (le_refl _)]
    exact a2
  · by_cases c1 : x ≤ Tens_Envlp_eps0 s
    · rw [r1 x c1]
      show x * (2 * s.fc / s.epsc0) ≤ s.ft
      have := mul_le_mul_of_nonneg_right c1 (le_of_lt h1)
      unfold Tens_Envlp_eps0 at this
      rw [a1] at this
      exact this
    · by_cases c2 : x ≤ Tens_Envlp_epsu s
      · rw [r2 x (not_le.1 c1) c2]
        show s.ft - s.Ets * (x - Tens_Envlp_eps0 s) ≤ s.ft
        nlinarith [mul_pos h3 (sub_pos.2 (not_le.1 c1))]
      · rw [r3 x (not_le.1 c2)]
        exact le_of_lt h2

/-- Witness of C31: the specimen, with `Ec0 = 30000`, `ft = 3` and `Ets = 1500`. -/
theorem Tens_Envlp_shape_witness :
    (0 < 2 * specimen.fc / specimen.epsc0 ∧ 0 < specimen.ft ∧ 0 < specimen.Ets) ∧
    ((∀ x : ℚ, x ≤ Tens_Envlp_eps0 specimen →
      Tens_Envlp specimen x
        = (x * (2 * specimen.fc / specimen.epsc0), 2 * specimen.fc / specimen.epsc0)) ∧
    (∀ x : ℚ, Tens_Envlp_eps0 specimen < x → x ≤ Tens_Envlp_epsu specimen →
      Tens_Envlp specimen x
        = (specimen.ft - specimen.Ets * (x - Tens_Envlp_eps0 specimen), -specimen.Ets)) ∧
    (∀ x : ℚ, Tens_Envlp_epsu specimen < x → Tens_Envlp specimen x = (0, 1.0e-10)) ∧
    Tens_Envlp_eps0 specimen < Tens_Envlp_epsu specimen ∧
    (Tens_Envlp specimen (Tens_Envlp_eps0 specimen)).1 = specimen.ft ∧
    (Tens_Envlp specimen (Tens_Envlp_epsu specimen)).1 = 0 ∧
    Continuous (fun x : ℚ => (Tens_Envlp specimen x).1) ∧
    (∀ x : ℚ, (Tens_Envlp specimen x).1 ≤ specimen.ft)) :=
  ⟨⟨by decide!, by decide!, by decide!⟩,
    Tens_Envlp_shape specimen (by decide!) (by decide!) (by decide!)⟩

/-- The breakpoints of the tension envelope of the specimen: `eps0 = 0.0001` and
`epsu = 0.0021`. -/
theorem Tens_Envlp_breakpoints_specimen :
    Tens_Envlp_eps0 specimen = 0.0001 ∧ Tens_Envlp_epsu specimen = 0.0021 ∧
    Tens_Envlp specimen 0.0001 = (3, 30000) ∧ Tens_Envlp specimen 0.0011 = (1.5, -1500) ∧
    Tens_Envlp specimen 0.0021 = (0, -1500) ∧ Tens_Envlp specimen 0.003 = (0, 1.0e-10) := by
  decide!
/-- Method `setTrialStrain` at the strain 0 on a freshly constructed object with `fc < 0`,
`epsc0 < 0`, `rat ≠ 1` and `fcu ≠ rat*ec0*epscu` (so that `epsr ≠ 0`): the stress is 0 and
the tangent is `0.5*er = fc/epsc0`, because the stress `0` meets both bounds `sigmin = 0`
and `sigmax = 0` and the second clamp (line 181) assigns `e = 0.5*er` last. -/
theorem setTrialStrain_zero_fresh (tag : Int) (fc epsc0 fcu epscu rat ft Ets : ℚ) (u : State)
    (hfc : fc < 0) (he : epsc0 < 0) (hr : rat ≠ 1)
    (hp : fcu ≠ rat * (fc * 2 / epsc0) * epscu) :
    (setTrialStrain (new tag fc epsc0 fcu epscu rat ft Ets u) 0).sig = 0 ∧
    (setTrialStrain (new tag fc epsc0 fcu epscu rat ft Ets u) 0).e = fc / epsc0 := by
  have hec : 0 < fc * 2 / epsc0 := by
    apply div_pos_of_neg_of_neg <;> linarith
  have h1 : (1 : ℚ) - rat ≠ 0 := fun h => hr (by linarith)
  have hepsr : (fcu - rat * (fc * 2 / epsc0) * epscu) / (fc * 2 / epsc0 * (1 - rat)) ≠ 0 :=
    div_ne_zero (sub_ne_zero.2 hp) (mul_ne_zero (ne_of_gt hec) h1)
  have hpos : (0 : ℚ) ≥ epsc0 := le_of_lt he
  unfold setTrialStrain new
  simp only [Compr_Envlp, if_pos hpos, zero_div, mul_zero, zero_mul, sub_self, add_zero,
    zero_sub, lt_irrefl, if_false, le_refl, if_true, ge_iff_le, neg_zero, sub_zero]
  refine ⟨trivial, ?_⟩
  rw [neg_div_neg_eq, mul_div_assoc, div_self hepsr]
  ring


/-- C35. Thermal model, initial stiffness.  On a freshly constructed object with `fc < 0`,
`epsc0 < 0`, `rat ≠ 1` and `fcu ≠ rat*(2*fc/epsc0)*epscu`, `setTrialStrain` with the trial
strain 0 yields the stress 0, but its tangent is `fc/epsc0`, which is half of
`getInitialTangent() = 2*fc/epsc0` and differs from it. -/
theorem setTrialStrain_zero_tangent_is_half_initial (tag : Int)
    (fc epsc0 fcu epscu rat ft Ets : ℚ) (u : State)
    (hfc : fc < 0) (he : epsc0 < 0) (hr : rat ≠ 1)
    (hp : fcu ≠ rat * (fc * 2 / epsc0) * epscu) :
    getStress (setTrialStrain (new tag fc epsc0 fcu epscu rat ft Ets u) 0) = 0 ∧
    getTangent (setTrialStrain (new tag fc epsc0 fcu epscu rat ft Ets u) 0)
      = 0.5 * getInitialTangent (new tag fc epsc0 fcu epscu rat ft Ets u) ∧
    getTangent (setTrialStrain (new tag fc epsc0 fcu epscu rat ft Ets u) 0)
      ≠ getInitialTangent (new tag fc epsc0 fcu epscu rat ft Ets u) := by
  obtain ⟨a, b⟩ := setTrialStrain_zero_fresh tag fc epsc0 fcu epscu rat ft Ets u hfc he hr hp
  have hi : getInitialTangent (new tag fc epsc0 fcu epscu rat ft Ets u) = 2 * fc / epsc0 := rfl
  have hq : 0 < fc / epsc0 := div_pos_of_neg_of_neg hfc he
  refine ⟨a, ?_, ?_⟩
  · show (setTrialStrain (new tag fc epsc0 fcu epscu rat ft Ets u) 0).e = _
    rw [b, hi]; ring
  · show (setTrialStrain (new tag fc epsc0 fcu epscu rat ft Ets u) 0).e ≠ _
    rw [b, hi]
    intro h
    have : 2 * fc / epsc0 = 2 * (fc / epsc0) := by ring
    linarith

/-- Witness of C35: the specimen (`fc = -30`, `epsc0 = -0.002`, `fcu = -6`, `epscu = -0.01`,
`rat = 0.1`), whose tangent at the first trial strain 0 is 15000 while its initial tangent
is 30000. -/
theorem setTrialStrain_zero_tangent_is_half_initial_witness :
    ((-30 : ℚ) < 0 ∧ (-0.002 : ℚ) < 0 ∧ (0.1 : ℚ) ≠ 1 ∧
      (-6 : ℚ) ≠ 0.1 * (-30 * 2 / -0.002) * -0.01) ∧
    (getStress (setTrialStrain (new 1 (-30) (-0.002) (-6) (-0.01) 0.1 3 1500 State.zero) 0) = 0 ∧
    getTangent (setTrialStrain (new 1 (-30) (-0.002) (-6) (-0.01) 0.1 3 1500 State.zero) 0)
      = 0.5 * getInitialTangent (new 1 (-30) (-0.002) (-6) (-0.01) 0.1 3 1500 State.zero) ∧
    getTangent (setTrialStrain (new 1 (-30) (-0.002) (-6) (-0.01) 0.1 3 1500 State.zero) 0)
      ≠ getInitialTangent (new 1 (-30) (-0.002) (-6) (-0.01) 0.1 3 1500 State.zero)) :=
  ⟨⟨by norm_num, by norm_num, by norm_num, by norm_num⟩,
    setTrialStrain_zero_tangent_is_half_initial 1 (-30) (-0.002) (-6) (-0.01) 0.1 3 1500
      State.zero (by norm_num) (by norm_num) (by norm_num) (by norm_num)⟩

/-- The specimen at its first trial strain 0: stress 0, tangent 15000, initial tangent
30000. -/
theorem setTrialStrain_zero_specimen :
    getStress (setTrialStrain specimen 0) = 0 ∧ getTangent (setTrialStrain specimen 0) = 15000 ∧
    getInitialTangent specimen = 30000 := by
  decide!
/-- The returned `ET` is computed (line 371) from the values of the heating tables, before
the cooling part runs. -/
theorem getElongTangent_ET (s : State) (TempT TempTmax : ℚ) (u : Cooling) :
    (getElongTangent s TempT TempTmax u).ET
      = 1.5 * (heated s TempT TempTmax).fc / (heated s TempT TempTmax).epsc0 := rfl

/-- The values of the heating tables in the object before the cooling part, up to 1080
degrees. -/
theorem heated_scaled (s : State) (T Tmax : ℚ) (hT : T ≤ 1080) :
    (heated s T Tmax).fc = strengthFactor T * s.fcT ∧
    (heated s T Tmax).epsc0 = (strainTable T).1 := by
  obtain ⟨_, _, _, _, a1, _, a2, a3, _⟩ :=
    getElongTangent_L258_L271_keeps { s with Temp := T, Tempmax := Tmax }
  obtain ⟨c1, c2, c3, c4, _⟩ := getElongTangent_L358_L369_keeps (getElongTangent_L276_L351
    (getElongTangent_L258_L271 { s with Temp := T, Tempmax := Tmax }))
  have hT2 : (getElongTangent_L258_L271 { s with Temp := T, Tempmax := Tmax }).Temp = T := a1
  obtain ⟨d1, d2, d3, d4⟩ := getElongTangent_L276_L351_scaled
    (getElongTangent_L258_L271 { s with Temp := T, Tempmax := Tmax }) (by rw [hT2]; exact hT)
  rw [hT2] at d1 d2 d3 d4
  unfold heated
  exact ⟨c1.trans (d1.trans (by rw [a2])), c2.trans d3⟩

/-- C33. Thermal model, returned tangent against the stored parameters.  `getElongTangent`
computes `ET = 1.5*fc/epsc0` at line 371 from the values of the heating tables at `Temp`
(for `Temp <= 1080`: `1.5*strengthFactor(Temp)*fcT / strainTable(Temp).1`).  In a call
without cooling (`Temp` not below the committed temperature) these are the values the call
leaves stored, so `ET = 1.5*fc/epsc0` of the stored parameters.  In a call with cooling the
cooling part then overwrites `fc` and `epsc0`, and the returned `ET` is not `1.5*fc/epsc0`
of the stored parameters: the specimen committed at 500 degrees and cooled to 20 degrees
with `Tempmax = 500` returns `ET = 360000/23` while it stores `fc = -19323/1250` and
`epsc0 = -17/1000`, for which `1.5*fc/epsc0 = 115938/85`. -/
theorem ET_not_of_stored_parameters_when_cooling :
    (∀ (s : State) (T Tmax : ℚ) (u : Cooling), ¬ T < s.TempP →
      (getElongTangent s T Tmax u).ET
        = 1.5 * (getElongTangent s T Tmax u).obj.fc / (getElongTangent s T Tmax u).obj.epsc0) ∧
    (∀ (s : State) (T Tmax : ℚ) (u : Cooling), T ≤ 1080 →
      (getElongTangent s T Tmax u).ET = 1.5 * (strengthFactor T * s.fcT) / (strainTable T).1) ∧
    ((20 : ℚ) < heatedSpecimen.TempP ∧ (0 : ℚ) ≤ 20 ∧ (20 : ℚ) ≤ 1080 ∧
      (getElongTangent heatedSpecimen 20 500 Cooling.zero).ET = 360000 / 23 ∧
      (getElongTangent heatedSpecimen 20 500 Cooling.zero).obj.fc = -19323 / 1250 ∧
      (getElongTangent heatedSpecimen 20 500 Cooling.zero).obj.epsc0 = -17 / 1000 ∧
      1.5 * (getElongTangent heatedSpecimen 20 500 Cooling.zero).obj.fc
        / (getElongTangent heatedSpecimen 20 500 Cooling.zero).obj.epsc0 = 115938 / 85 ∧
      (getElongTangent heatedSpecimen 20 500 Cooling.zero).ET
        ≠ 1.5 * (getElongTangent heatedSpecimen 20 500 Cooling.zero).obj.fc
          / (getElongTangent heatedSpecimen 20 500 Cooling.zero).obj.epsc0) := by
  refine ⟨?_, ?_, ?_⟩
  · intro s T Tmax u hP
    rw [getElongTangent_ET, getElongTangent_heating s T Tmax u hP]
  · intro s T Tmax u hT
    obtain ⟨a, b⟩ := heated_scaled s T Tmax hT
    rw [getElongTangent_ET, a, b]
  · decide!
/-- The trial history after `setTrialStrain`: the trial strain is the argument, the minimum
strain is the smaller of the committed minimum strain and the argument, and the tension
depth is not below the committed one. -/
theorem setTrialStrain_history (s : State) (x : ℚ) :
    (setTrialStrain s x).eps = x ∧ (setTrialStrain s x).ecmin = min x s.ecminP ∧
    s.deptP ≤ (setTrialStrain s x).dept := by
  unfold setTrialStrain
  simp only []
  split_ifs with h1 h2 h3 h4 h5 h6 h7
  all_goals refine ⟨rfl, ?_, ?_⟩
  all_goals first
    | exact (min_eq_left (le_of_lt h1)).symm
    | exact (min_eq_right (not_lt.1 h1)).symm
    | exact le_refl _
    | (show s.deptP ≤ x - _
       linarith)

/-- C32. Thermal model, history invariant.  The constructor (lines 56-91) does not
initialise the trial members `ecmin` and `dept`, and `commitState` copies them to `ecminP`
and `deptP`:
an object constructed in storage where they hold 1 and -1 and committed at once has
`ecminP = 1 > 0` and `deptP = -1 < 0`, so the invariant fails in a state reached from
construction by `commitState`.  When the storage holds `ecmin <= 0` and `dept >= 0`, every
object reached from construction by `setTrialStrain`, `commitState` and
`revertToLastCommit` has `ecminP <= 0`, `ecminP <= epsP`, `deptP >= 0` and the same for the
trial members.  In every object, `setTrialStrain` followed by `commitState` does not
increase `ecminP` and does not decrease `deptP`. -/
theorem history_invariant_fails_on_uninitialised_trial_history :
    (Reached (fun _ => True)
        (commitState (new 1 (-30) (-0.002) (-6) (-0.01) 0.1 3 1500 dirtyStorage)) ∧
      (commitState (new 1 (-30) (-0.002) (-6) (-0.01) 0.1 3 1500 dirtyStorage)).ecminP = 1 ∧
      (commitState (new 1 (-30) (-0.002) (-6) (-0.01) 0.1 3 1500 dirtyStorage)).deptP = -1 ∧
      ¬ HistoryOK (commitState (new 1 (-30) (-0.002) (-6) (-0.01) 0.1 3 1500 dirtyStorage))) ∧
    (∀ s : State, Reached (fun u => u.ecmin ≤ 0 ∧ 0 ≤ u.dept) s →
      HistoryOK s ∧ TrialHistoryOK s) ∧
    (∀ (s : State) (x : ℚ),
      (commitState (setTrialStrain s x)).ecminP ≤ s.ecminP ∧
      s.deptP ≤ (commitState (setTrialStrain s x)).deptP) := by
  refine ⟨⟨?_, ?_, ?_, ?_⟩, ?_, ?_⟩
  · exact Reached.commitState _ (Reached.new 1 (-30) (-0.002) (-6) (-0.01) 0.1 3 1500 _ trivial)
  · decide!
  · decide!
  · intro h
    have h1 : (commitState (new 1 (-30) (-0.002) (-6) (-0.01) 0.1 3 1500 dirtyStorage)).ecminP
        = 1 := by decide!
    have h2 := h.1
    rw [h1] at h2
    exact absurd h2 (by norm_num)
  · intro s h
    induction h with
    | new tag fc epsc0 fcu epscu rat ft Ets u hu =>
      exact ⟨⟨le_refl _, le_refl _, le_refl _⟩, ⟨hu.1, hu.1, hu.2⟩⟩
    | setTrialStrain s x _ ih =>
      obtain ⟨⟨a1, a2, a3⟩, _⟩ := ih
      obtain ⟨b1, b2, b3, _⟩ := setTrialStrain_unchanged s x
      obtain ⟨c1, c2, c3⟩ := setTrialStrain_history s x
      refine ⟨⟨?_, ?_, ?_⟩, ⟨?_, ?_, ?_⟩⟩
      · rw [b1]; exact a1
      · rw [b1, b3]; exact a2
      · rw [b2]; exact a3
      · rw [c2]; exact le_trans (min_le_right _ _) a1
      · rw [c2, c1]; exact min_le_left _ _
      · exact le_trans a3 c3
    | commitState s _ ih =>
      obtain ⟨_, ⟨a1, a2, a3⟩⟩ := ih
      exact ⟨⟨a1, a2, a3⟩, ⟨a1, a2, a3⟩⟩
    | revertToLastCommit s _ ih =>
      obtain ⟨⟨a1, a2, a3⟩, _⟩ := ih
      exact ⟨⟨a1, a2, a3⟩, ⟨a1, a2, a3⟩⟩
  · intro s x
    obtain ⟨c1, c2, c3⟩ := setTrialStrain_history s x
    refine ⟨?_, ?_⟩
    · show (setTrialStrain s x).ecmin ≤ _
      rw [c2]; exact min_le_right _ _
    · exact c3
/-- The strength `fcmax` that the cooling table of lines 400-460 computes, row by row. -/
theorem getElongTangent_L400_L460_fcmax (s : State) (c : Cooling) :
    (getElongTangent_L400_L460 s c).fcmax =
     (
      if s.Tempmax < 0 then c.fcmax
      else if s.Tempmax ≤ 80 then s.fcT
      else if s.Tempmax ≤ 180 then s.fcT * (1 - (s.Tempmax - 80) * 0.05 / 100)
      else if s.Tempmax ≤ 280 then s.fcT * (0.95 - (s.Tempmax - 180) * 0.1 / 100)
      else if s.Tempmax ≤ 380 then s.fcT * (0.85 - (s.Tempmax - 280) * 0.1 / 100)
      else if s.Tempmax ≤ 480 then s.fcT * (0.75 - (s.Tempmax - 380) * 0.15 / 100)
      else if s.Tempmax ≤ 580 then s.fcT * (0.60 - (s.Tempmax - 480) * 0.15 / 100)
      else if s.Tempmax ≤ 680 then s.fcT * (0.45 - (s.Tempmax - 580) * 0.15 / 100)
      else if s.Tempmax ≤ 780 then s.fcT * (0.30 - (s.Tempmax - 680) * 0.15 / 100)
      else if s.Tempmax ≤ 880 then s.fcT * (0.15 - (s.Tempmax - 780) * 0.07 / 100)
      else if s.Tempmax ≤ 980 then s.fcT * (0.08 - (s.Tempmax - 880) * 0.04 / 100)
      else if s.Tempmax ≤ 1080 then s.fcT * (0.04 - (s.Tempmax - 980) * 0.03 / 100)
      else c.fcmax) := by
  unfold getElongTangent_L400_L460
  repeat (first
    | (with_reducible apply proj_ite Cooling.fcmax)
    | rfl)

/-- The strength `fcumax` that the cooling table of lines 400-460 computes, row by row. -/
theorem getElongTangent_L400_L460_fcumax (s : State) (c : Cooling) :
    (getElongTangent_L400_L460 s c).fcumax =
     (
      if s.Tempmax < 0 then c.fcumax
      else if s.Tempmax ≤ 80 then s.fcuT
      else if s.Tempmax ≤ 180 then s.fcuT * (1 - (s.Tempmax - 80) * 0.05 / 100)
      else if s.Tempmax ≤ 280 then s.fcuT * (0.95 - (s.Tempmax - 180) * 0.1 / 100)
      else if s.Tempmax ≤ 380 then s.fcuT * (0.85 - (s.Tempmax - 280) * 0.1 / 100)
      else if s.Tempmax ≤ 480 then s.fcuT * (0.75 - (s.Tempmax - 380) * 0.15 / 100)
      else if s.Tempmax ≤ 580 then s.fcuT * (0.60 - (s.Tempmax - 480) * 0.15 / 100)
      else if s.Tempmax ≤ 680 then s.fcuT * (0.45 - (s.Tempmax - 580) * 0.15 / 100)
      else if s.Tempmax ≤ 780 then s.fcuT * (0.30 - (s.Tempmax - 680) * 0.15 / 100)
      else if s.Tempmax ≤ 880 then s.fcuT * (0.15 - (s.Tempmax - 780) * 0.07 / 100)
      else if s.Tempmax ≤ 980 then s.fcuT * (0.08 - (s.Tempmax - 880) * 0.04 / 100)
      else if s.Tempmax ≤ 1080 then s.fcuT * (0.04 - (s.Tempmax - 980) * 0.03 / 100)
      else c.fcumax) := by
  unfold getElongTangent_L400_L460
  repeat (first
    | (with_reducible apply proj_ite Cooling.fcumax)
    | rfl)

/-- The strain `epsc0max` that the cooling table of lines 488-537 computes, row by row. -/
theorem getElongTangent_L488_L537_epsc0max (s : State) (c : Cooling) :
    (getElongTangent_L488_L537 s c).epsc0max =
     (
      if s.Tempmax < 0 then c.epsc0max
      else if s.Tempmax ≤ 80 then -(0.0025 + (0.004 - 0.0025) * (s.Tempmax - 0) / (80 - 0))
      else if s.Tempmax ≤ 180 then -(0.0040 + (0.0055 - 0.0040) * (s.Tempmax - 80) / 100)
      else if s.Tempmax ≤ 280 then -(0.0055 + (0.0070 - 0.0055) * (s.Tempmax - 180) / 100)
      else if s.Tempmax ≤ 380 then -(0.0070 + (0.0100 - 0.0070) * (s.Tempmax - 280) / 100)
      else if s.Tempmax ≤ 480 then -(0.0100 + (0.0150 - 0.0100) * (s.Tempmax - 380) / 100)
      else if s.Tempmax ≤ 580 then -(0.0150 + (0.0250 - 0.0150) * (s.Tempmax - 480) / 100)
      else if s.Tempmax ≤ 680 then -0.0250
      else if s.Tempmax ≤ 780 then -0.0250
      else if s.Tempmax ≤ 880 then -0.0250
      else if s.Tempmax ≤ 980 then -0.0250
      else if s.Tempmax ≤ 1080 then -0.0250
      else c.epsc0max) := by
  unfold getElongTangent_L488_L537
  repeat (first
    | (with_reducible apply proj_ite Cooling.epsc0max)
    | rfl)

/-- The strain `epscumax` that the cooling table of lines 488-537 computes, row by row. -/
theorem getElongTangent_L488_L537_epscumax (s : State) (c : Cooling) :
    (getElongTangent_L488_L537 s c).epscumax =
     (
      if s.Tempmax < 0 then c.epscumax
      else if s.Tempmax ≤ 80 then -(0.0200 + (0.0225 - 0.0200) * (s.Tempmax - 0) / (80 - 0))
      else if s.Tempmax ≤ 180 then -(0.0225 + (0.0225 - 0.0200) * (s.Tempmax - 80) / 100)
      else if s.Tempmax ≤ 280 then -(0.0250 + 0.0025 * (s.Tempmax - 180) / 100)
      else if s.Tempmax ≤ 380 then -(0.0275 + 0.0025 * (s.Tempmax - 280) / 100)
      else if s.Tempmax ≤ 480 then -(0.03 + 0.0025 * (s.Tempmax - 380) / 100)
      else if s.Tempmax ≤ 580 then -(0.0325 + 0.0025 * (s.Tempmax - 480) / 100)
      else if s.Tempmax ≤ 680 then -(0.035 + 0.0025 * (s.Tempmax - 580) / 100)
      else if s.Tempmax ≤ 780 then -(0.0375 + 0.0025 * (s.Tempmax - 680) / 100)
      else if s.Tempmax ≤ 880 then -(0.04 + 0.0025 * (s.Tempmax - 780) / 100)
      else if s.Tempmax ≤ 980 then -(0.0425 + 0.0025 * (s.Tempmax - 880) / 100)
      else if s.Tempmax ≤ 1080 then -(0.045 + 0.0025 * (s.Tempmax - 980) / 100)
      else c.epscumax) := by
  unfold getElongTangent_L488_L537
  repeat (first
    | (with_reducible apply proj_ite Cooling.epscumax)
    | rfl)
/-- The second cooling step assigns `fcamb` and `fcuamb` only. -/
theorem getElongTangent_L462_L479_keeps (s : State) (c : Cooling) :
    (getElongTangent_L462_L479 s c).fcmax = c.fcmax ∧
    (getElongTangent_L462_L479 s c).fcumax = c.fcumax := by
  unfold getElongTangent_L462_L479
  repeat (first
    | exact ⟨rfl, rfl⟩
    | refine of_ite (fun t : Cooling => t.fcmax = c.fcmax ∧ t.fcumax = c.fcumax) _ _ _
        (fun _ => ?_) (fun _ => ?_))

/-- The third cooling step assigns `epsc0max` and `epscumax` only. -/
theorem getElongTangent_L488_L537_keeps (s : State) (c : Cooling) :
    (getElongTangent_L488_L537 s c).fcmax = c.fcmax ∧
    (getElongTangent_L488_L537 s c).fcumax = c.fcumax ∧
    (getElongTangent_L488_L537 s c).fcamb = c.fcamb := by
  unfold getElongTangent_L488_L537
  repeat (first
    | exact ⟨rfl, rfl, rfl⟩
    | refine of_ite
        (fun t : Cooling => t.fcmax = c.fcmax ∧ t.fcumax = c.fcumax ∧ t.fcamb = c.fcamb) _ _ _
        (fun _ => ?_) (fun _ => ?_))

/-- The third cooling step reads `Tempmax` only. -/
theorem getElongTangent_L488_L537_congr (s t : State) (c : Cooling)
    (h1 : t.Tempmax = s.Tempmax) :
    getElongTangent_L488_L537 t c = getElongTangent_L488_L537 s c := by
  unfold getElongTangent_L488_L537
  rw [h1]

/-- For a maximum temperature from 0 to 1080 degrees the cooling tables compute the values
that the heating table of lines 276-351 stores at that temperature. -/
theorem coolingLocals_rows (s : State) (Tmax : ℚ) (u : Cooling) (h0 : 0 ≤ Tmax)
    (h1 : Tmax ≤ 1080) :
    (coolingLocals s Tmax u).fcmax = (getElongTangent_L276_L351 { s with Temp := Tmax }).fc ∧
    (coolingLocals s Tmax u).fcumax = (getElongTangent_L276_L351 { s with Temp := Tmax }).fcu ∧
    (coolingLocals s Tmax u).epsc0max
      = (getElongTangent_L276_L351 { s with Temp := Tmax }).epsc0 ∧
    (coolingLocals s Tmax u).epscumax
      = (getElongTangent_L276_L351 { s with Temp := Tmax }).epscu := by
  obtain ⟨a1, a2, _⟩ := getElongTangent_L488_L537_keeps { s with Tempmax := Tmax }
    (coolingStrengths s Tmax u)
  obtain ⟨b1, b2⟩ := getElongTangent_L462_L479_keeps { s with Tempmax := Tmax }
    (getElongTangent_L400_L460 { s with Tempmax := Tmax } u)
  have e1 : (coolingLocals s Tmax u).fcmax
      = (getElongTangent_L400_L460 { s with Tempmax := Tmax } u).fcmax := a1.trans b1
  have e2 : (coolingLocals s Tmax u).fcumax
      = (getElongTangent_L400_L460 { s with Tempmax := Tmax } u).fcumax := a2.trans b2
  have hn : ¬ Tmax < 0 := not_lt.2 h0
  refine ⟨?_, ?_, ?_, ?_⟩
  · rw [e1, getElongTangent_L400_L460_fcmax, getElongTangent_L276_L351_fc]
    dsimp only
    rw [if_neg hn]
    by_cases hz : Tmax ≤ 0
    · rw [if_pos hz, if_pos (le_trans hz (by norm_num))]
    · rw [if_neg hz]
      repeat (first
        | (with_reducible apply ite_eq_ite <;> intro _)
        | rfl
        | (exfalso; linarith))
  · rw [e2, getElongTangent_L400_L460_fcumax, getElongTangent_L276_L351_fcu]
    dsimp only
    rw [if_neg hn]
    by_cases hz : Tmax ≤ 0
    · rw [if_pos hz, if_pos (le_trans hz (by norm_num))]
    · rw [if_neg hz]
      repeat (first
        | (with_reducible apply ite_eq_ite <;> intro _)
        | rfl
        | (exfalso; linarith))
  · unfold coolingLocals
    rw [getElongTangent_L488_L537_epsc0max, getElongTangent_L276_L351_epsc0]
    dsimp only
    rw [if_neg hn]
    by_cases hz : Tmax ≤ 0
    · rw [if_pos hz, if_pos (le_trans hz (by norm_num)), le_antisymm hz h0]
      norm_num
    · rw [if_neg hz]
      repeat (first
        | (with_reducible apply ite_eq_ite <;> intro _)
        | rfl
        | (exfalso; linarith))
  · unfold coolingLocals
    rw [getElongTangent_L488_L537_epscumax, getElongTangent_L276_L351_epscu]
    dsimp only
    rw [if_neg hn]
    by_cases hz : Tmax ≤ 0
    · rw [if_pos hz, if_pos (le_trans hz (by norm_num)), le_antisymm hz h0]
      norm_num
    · rw [if_neg hz]
      repeat (first
        | (with_reducible apply ite_eq_ite <;> intro _)
        | rfl
        | (exfalso; linarith))
/-- While cooling, the stored `epsc0` is the local `epsc0max` (line 541) and the stored
`fc` is the interpolation of line 484 between the locals `fcmax` and `fcamb`. -/
theorem getElongTangent_cooling_locals (s : State) (TempT TempTmax : ℚ) (u : Cooling)
    (hP : TempT < s.TempP) :
    (getElongTangent s TempT TempTmax u).obj.epsc0 = (coolingLocals s TempTmax u).epsc0max ∧
    (getElongTangent s TempT TempTmax u).obj.fc
      = (coolingLocals s TempTmax u).fcmax
        - (((coolingLocals s TempTmax u).fcmax - (coolingLocals s TempTmax u).fcamb)
            * (TempTmax - TempT) / TempTmax) := by
  obtain ⟨hT, hTP, hTm, hfT, hfuT⟩ := heated_temps s TempT TempTmax
  have hc : (heated s TempT TempTmax).Temp < (heated s TempT TempTmax).TempP := by
    rw [hT, hTP]; exact hP
  obtain ⟨a1, _, a3⟩ := getElongTangent_L488_L537_keeps { s with Tempmax := TempTmax }
    (coolingStrengths s TempTmax u)
  have e1 : getElongTangent_L400_L460 (heated s TempT TempTmax) u
      = getElongTangent_L400_L460 { s with Tempmax := TempTmax } u :=
    getElongTangent_L400_L460_congr _ _ u hTm hfT hfuT
  have e2 : ∀ c, getElongTangent_L462_L479 (heated s TempT TempTmax) c
      = getElongTangent_L462_L479 { s with Tempmax := TempTmax } c :=
    fun c => getElongTangent_L462_L479_congr _ _ c hTm hfT hfuT
  have e3 : ∀ (t : State) (c : Cooling), t.Tempmax = TempTmax →
      (getElongTangent_L488_L537 t c).epsc0max
        = (getElongTangent_L488_L537 { s with Tempmax := TempTmax } c).epsc0max :=
    fun t c ht => congrArg Cooling.epsc0max
      (getElongTangent_L488_L537_congr { s with Tempmax := TempTmax } t c ht)
  have e : (getElongTangent s TempT TempTmax u).obj
      = getElongTangent_L383_L550 (heated s TempT TempTmax) u := by
    show (if (heated s TempT TempTmax).Temp < (heated s TempT TempTmax).TempP
      then _ else _) = _
    rw [if_pos hc]
    rfl
  constructor
  · rw [e]
    show (getElongTangent_L488_L537 _ (getElongTangent_L462_L479 (heated s TempT TempTmax)
            (getElongTangent_L400_L460 (heated s TempT TempTmax) u))).epsc0max = _
    refine (e3 _ _ ?_).trans ?_
    · exact hTm
    · rw [e1, e2]
      rfl
  · rw [getElongTangent_cooling_fc s TempT TempTmax u hP]
    show _ = (getElongTangent_L488_L537 _ (coolingStrengths s TempTmax u)).fcmax
        - (((getElongTangent_L488_L537 _ (coolingStrengths s TempTmax u)).fcmax
            - (getElongTangent_L488_L537 _ (coolingStrengths s TempTmax u)).fcamb)
            * (TempTmax - TempT) / TempTmax)
    rw [a1, a3]

/-- C34. Thermal model, cooling tables against the heating table.  For every maximum
temperature `0 <= Tempmax <= 1080` the locals `fcmax`, `fcumax`, `epsc0max` and `epscumax`
that the cooling part computes (lines 400-460 and 488-537) are the `fc`, `fcu`, `epsc0`
and `epscu` that the heating table of lines 276-351 stores at `Temp = Tempmax`.  In a call
with cooling the stored `epsc0` is `epsc0max` and the stored `fc` is
`fcmax - (fcmax - fcamb)*(Tempmax - Temp)/Tempmax`; so for `0 < Tempmax` not above the
committed temperature the stored `fc` tends to the `fc` of the heating table at `Tempmax`
as `Temp` tends to `Tempmax` from below: the strength has no jump at the onset of
cooling. -/
theorem cooling_tables_agree_with_heating_table (s : State) (Tmax : ℚ) (u : Cooling)
    (h0 : 0 ≤ Tmax) (h1 : Tmax ≤ 1080) :
    ((coolingLocals s Tmax u).fcmax = (getElongTangent_L276_L351 { s with Temp := Tmax }).fc ∧
    (coolingLocals s Tmax u).fcumax = (getElongTangent_L276_L351 { s with Temp := Tmax }).fcu ∧
    (coolingLocals s Tmax u).epsc0max
      = (getElongTangent_L276_L351 { s with Temp := Tmax }).epsc0 ∧
    (coolingLocals s Tmax u).epscumax
      = (getElongTangent_L276_L351 { s with Temp := Tmax }).epscu) ∧
    (∀ T : ℚ, T < s.TempP →
      (getElongTangent s T Tmax u).obj.epsc0
        = (getElongTangent_L276_L351 { s with Temp := Tmax }).epsc0 ∧
      (getElongTangent s T Tmax u).obj.fc
        = (getElongTangent_L276_L351 { s with Temp := Tmax }).fc
          - (((getElongTangent_L276_L351 { s with Temp := Tmax }).fc
                - (coolingLocals s Tmax u).fcamb) * (Tmax - T) / Tmax)) ∧
    (0 < Tmax → Tmax ≤ s.TempP →
      Filter.Tendsto (fun T : ℚ => (getElongTangent s T Tmax u).obj.fc)
        (nhdsWithin Tmax (Set.Iio Tmax))
        (nhds (getElongTangent_L276_L351 { s with Temp := Tmax }).fc)) := by
  obtain ⟨r1, r2, r3, r4⟩ := coolingLocals_rows s Tmax u h0 h1
  have hc : ∀ T : ℚ, T < s.TempP →
      (getElongTangent s T Tmax u).obj.epsc0
        = (getElongTangent_L276_L351 { s with Temp := Tmax }).epsc0 ∧
      (getElongTangent s T Tmax u).obj.fc
        = (getElongTangent_L276_L351 { s with Temp := Tmax }).fc
          - (((getElongTangent_L276_L351 { s with Temp := Tmax }).fc
                - (coolingLocals s Tmax u).fcamb) * (Tmax - T) / Tmax) := by
    intro T hT
    obtain ⟨c1, c2⟩ := getElongTangent_cooling_locals s T Tmax u hT
    rw [r1] at c2
    exact ⟨c1.trans r3, c2⟩
  refine ⟨⟨r1, r2, r3, r4⟩, hc, fun hpos hle => ?_⟩
  have hg : Continuous (fun T : ℚ => (getElongTangent_L276_L351 { s with Temp := Tmax }).fc
      - (((getElongTangent_L276_L351 { s with Temp := Tmax }).fc
            - (coolingLocals s Tmax u).fcamb) * (Tmax - T) / Tmax)) := by
    fun_prop
  have hl := (hg.tendsto Tmax).mono_left (nhdsWithin_le_nhds (s := Set.Iio Tmax))
  simp only [sub_self, mul_zero, zero_div, sub_zero] at hl
  refine Filter.Tendsto.congr' ?_ hl
  refine eventually_nhdsWithin_of_forall fun T hT => ?_
  exact ((hc T (lt_of_lt_of_le hT hle)).2).symm

/-- Witness of C34: the specimen committed at 500 degrees, with `Tempmax = 500`. -/
theorem cooling_tables_agree_with_heating_table_witness :
    ((0 : ℚ) ≤ 500 ∧ (500 : ℚ) ≤ 1080) ∧
    (((coolingLocals heatedSpecimen 500 Cooling.zero).fcmax
      = (getElongTangent_L276_L351 { heatedSpecimen with Temp := 500 }).fc ∧
    (coolingLocals heatedSpecimen 500 Cooling.zero).fcumax
      = (getElongTangent_L276_L351 { heatedSpecimen with Temp := 500 }).fcu ∧
    (coolingLocals heatedSpecimen 500 Cooling.zero).epsc0max
      = (getElongTangent_L276_L351 { heatedSpecimen with Temp := 500 }).epsc0 ∧
    (coolingLocals heatedSpecimen 500 Cooling.zero).epscumax
      = (getElongTangent_L276_L351 { heatedSpecimen with Temp := 500 }).epscu) ∧
    (∀ T : ℚ, T < heatedSpecimen.TempP →
      (getElongTangent heatedSpecimen T 500 Cooling.zero).obj.epsc0
        = (getElongTangent_L276_L351 { heatedSpecimen with Temp := 500 }).epsc0 ∧
      (getElongTangent heatedSpecimen T 500 Cooling.zero).obj.fc
        = (getElongTangent_L276_L351 { heatedSpecimen with Temp := 500 }).fc
          - (((getElongTangent_L276_L351 { heatedSpecimen with Temp := 500 }).fc
                - (coolingLocals heatedSpecimen 500 Cooling.zero).fcamb) * (500 - T) / 500)) ∧
    ((0 : ℚ) < 500 → 500 ≤ heatedSpecimen.TempP →
      Filter.Tendsto (fun T : ℚ => (getElongTangent heatedSpecimen T 500 Cooling.zero).obj.fc)
        (nhdsWithin 500 (Set.Iio 500))
        (nhds (getElongTangent_L276_L351 { heatedSpecimen with Temp := 500 }).fc))) :=
  ⟨⟨by norm_num, by norm_num⟩,
    cooling_tables_agree_with_heating_table heatedSpecimen 500 Cooling.zero
      (by norm_num) (by norm_num)⟩

/-- The cooling locals of the specimen for `Tempmax = 500`, and the values of the heating
table at 500 degrees. -/
theorem cooling_locals_values :
    (coolingLocals heatedSpecimen 500 Cooling.zero).fcmax = -17.1 ∧
    (coolingLocals heatedSpecimen 500 Cooling.zero).fcumax = -3.42 ∧
    (coolingLocals heatedSpecimen 500 Cooling.zero).epsc0max = -0.017 ∧
    (coolingLocals heatedSpecimen 500 Cooling.zero).epscumax = -0.033 ∧
    (getElongTangent_L276_L351 { heatedSpecimen with Temp := 500 }).fc = -17.1 ∧
    (getElongTangent_L276_L351 { heatedSpecimen with Temp := 500 }).fcu = -3.42 ∧
    (getElongTangent_L276_L351 { heatedSpecimen with Temp := 500 }).epsc0 = -0.017 ∧
    (getElongTangent_L276_L351 { heatedSpecimen with Temp := 500 }).epscu = -0.033 ∧
    heatedSpecimen.TempP = 500 := by
  decide!

end Concrete02Thermal

namespace ConcreteCM

theorem frame_refl (s : State) : Frame s s := ⟨rfl, rfl, rfl⟩

theorem frame_step {s x y : State} (hx : Frame s x) (h : Frame x y) : Frame s y :=
  ⟨h.1.trans hx.1, h.2.1.trans hx.2.1, h.2.2.trans hx.2.2⟩

theorem frame_andThen {s t : State} {k : State → State} (ht : Frame s t)
    (hk : ∀ x, Frame s x → Frame s (k x)) : Frame s (andThen t k) := hk t ht

theorem frame_ite {s a b : State} {c : Prop} [Decidable c] (ha : Frame s a) (hb : Frame s b) :
    Frame s (if c then a else b) := by
  split <;> assumption

theorem keeps_refl (s : State) : Keeps s s := ⟨rfl, rfl, rfl⟩

theorem keeps_step {s x y : State} (hx : Keeps s x) (h : Keeps x y) : Keeps s y :=
  ⟨h.1.trans hx.1, h.2.1.trans hx.2.1, h.2.2.trans hx.2.2⟩

theorem keeps_andThen {s t : State} {k : State → State} (ht : Keeps s t)
    (hk : ∀ x, Keeps s x → Keeps s (k x)) : Keeps s (andThen t k) := hk t ht

theorem keeps_ite {s a b : State} {c : Prop} [Decidable c] (ha : Keeps s a) (hb : Keeps s b) :
    Keeps s (if c then a else b) := by
  split <;> assumption

theorem Keeps.frame {s t : State} (h : Keeps s t) : Frame s t :=
  ⟨h.1, h.2.1, congrArg Trial.Tstrain h.2.2⟩


theorem same_refl {α : Type} {f : State → α} (s : State) : Same f s s := rfl

theorem same_step {α : Type} {f : State → α} {s x y : State} (hx : Same f s x) (h : Same f x y) :
    Same f s y := Eq.trans h hx

theorem same_andThen {α : Type} {f : State → α} {s t : State} {k : State → State}
    (ht : Same f s t) (hk : ∀ x, Same f s x → Same f s (k x)) : Same f s (andThen t k) := hk t ht

theorem same_ite {α : Type} {f : State → α} {s a b : State} {c : Prop} [Decidable c]
    (ha : Same f s a) (hb : Same f s b) : Same f s (if c then a else b) := by
  split <;> assumption

theorem post_andThen {Q : State → Prop} {t : State} {k : State → State} (P : State → Prop)
    (ht : P t) (hk : ∀ x, P x → Post Q (k x)) : Post Q (andThen t k) := hk t ht

theorem post_any {Q : State → Prop} {t : State} {k : State → State}
    (hk : ∀ x, Post Q (k x)) : Post Q (andThen t k) := hk t

theorem post_ite {Q : State → Prop} {a b : State} {c : Prop} [Decidable c]
    (ha : c → Post Q a) (hb : ¬c → Post Q b) : Post Q (if c then a else b) := by
  split
  · exact ha ‹_›
  · exact hb ‹_›
theorem yf_frame (m : Libm) (s : State) (x n r : ℚ) : Frame s (yf m s x n r) := by
  have h : Frame s s := frame_refl s
  exact frame_step h ⟨rfl, rfl, rfl⟩

theorem zf_frame (m : Libm) (s : State) (x n r : ℚ) : Frame s (zf m s x n r) := by
  have h : Frame s s := frame_refl s
  exact frame_step h ⟨rfl, rfl, rfl⟩

theorem r1f_frame (m : Libm) (s : State) (x n r : ℚ) : Frame s (r1f m s x n r) := by
  unfold r1f
  have h : Frame s s := frame_refl s
  exact
    frame_ite (
        frame_andThen (frame_step h (yf_frame ..)) fun _ h =>
        frame_andThen (frame_step h (zf_frame ..)) fun _ h =>
        frame_andThen (frame_step h ⟨rfl, rfl, rfl⟩) fun _ h =>
        frame_step h ⟨rfl, rfl, rfl⟩
      ) (
        frame_andThen (frame_step h (yf_frame ..)) fun _ h =>
        frame_andThen (frame_step h (zf_frame ..)) fun _ h =>
        frame_andThen (frame_step h ⟨rfl, rfl, rfl⟩) fun _ h =>
        frame_step h ⟨rfl, rfl, rfl⟩
      )

theorem r5f_frame (s : State) (x n r : ℚ) : Frame s (r5f s x n r) := by
  unfold r5f
  have h : Frame s s := frame_refl s
  exact
    frame_andThen (frame_step h ⟨rfl, rfl, rfl⟩) fun _ h =>
    frame_step h ⟨rfl, rfl, rfl⟩

theorem fcEtnf_frame (m : Libm) (s : State) (e : ℚ) : Frame s (fcEtnf m s e) := by
  unfold fcEtnf
  have h : Frame s s := frame_refl s
  exact
    frame_andThen (frame_step h ⟨rfl, rfl, rfl⟩) fun _ h =>
    frame_andThen (frame_step h ⟨rfl, rfl, rfl⟩) fun _ h =>
    frame_andThen (frame_step h (yf_frame ..)) fun _ h =>
    frame_andThen (frame_step h (zf_frame ..)) fun _ h =>
    frame_andThen (frame_step h ⟨rfl, rfl, rfl⟩) fun _ h =>
    frame_ite (
        frame_andThen (frame_step h (r1f_frame ..)) fun _ h =>
        frame_step h ⟨rfl, rfl, rfl⟩
      ) (
        frame_andThen (frame_step h (r5f_frame ..)) fun _ h =>
        frame_step h ⟨rfl, rfl, rfl⟩
      )

theorem r2f_frame (m : Libm) (s : State) (x n r : ℚ) : Frame s (r2f m s x n r) := by
  unfold r2f
  have h : Frame s s := frame_refl s
  exact
    frame_ite (
        frame_andThen (frame_step h (yf_frame ..)) fun _ h =>
        frame_andThen (frame_step h (zf_frame ..)) fun _ h =>
        frame_andThen (frame_step h ⟨rfl, rfl, rfl⟩) fun _ h =>
        frame_step h ⟨rfl, rfl, rfl⟩
      ) (
        frame_andThen (frame_step h (yf_frame ..)) fun _ h =>
        frame_andThen (frame_step h (zf_frame ..)) fun _ h =>
        frame_andThen (frame_step h ⟨rfl, rfl, rfl⟩) fun _ h =>
        frame_step h ⟨rfl, rfl, rfl⟩
      )

theorem r6f_frame (s : State) (x n r : ℚ) : Frame s (r6f s x n r) := by
  unfold r6f
  have h : Frame s s := frame_refl s
  exact
    frame_andThen (frame_step h ⟨rfl, rfl, rfl⟩) fun _ h =>
    frame_step h ⟨rfl, rfl, rfl⟩

theorem fcEtpf_frame (m : Libm) (s : State) (e e0 : ℚ) : Frame s (fcEtpf m s e e0) := by
  unfold fcEtpf
  have h : Frame s s := frame_refl s
  exact
    frame_andThen (frame_step h ⟨rfl, rfl, rfl⟩) fun _ h =>
    frame_andThen (frame_step h ⟨rfl, rfl, rfl⟩) fun _ h =>
    frame_andThen (frame_step h (yf_frame ..)) fun _ h =>
    frame_andThen (frame_step h (zf_frame ..)) fun _ h =>
    frame_andThen (frame_step h ⟨rfl, rfl, rfl⟩) fun _ h =>
    frame_ite (
        frame_andThen (frame_step h (r2f_frame ..)) fun _ h =>
        frame_step h ⟨rfl, rfl, rfl⟩
      ) (
        frame_andThen (frame_step h (r6f_frame ..)) fun _ h =>
        frame_step h ⟨rfl, rfl, rfl⟩
      )

theorem fcEtpr6f_frame (s : State) (e e0 : ℚ) : Frame s (fcEtpr6f s e e0) := by
  unfold fcEtpr6f
  have h : Frame s s := frame_refl s
  exact
    frame_andThen (frame_step h ⟨rfl, rfl, rfl⟩) fun _ h =>
    frame_andThen (frame_step h ⟨rfl, rfl, rfl⟩) fun _ h =>
    frame_andThen (frame_step h (r6f_frame ..)) fun _ h =>
    frame_step h ⟨rfl, rfl, rfl⟩

theorem Esecnf_frame (s : State) (eunn funn : ℚ) : Frame s (Esecnf s eunn funn) := by
  unfold Esecnf
  have h : Frame s s := frame_refl s
  exact
    frame_step h ⟨rfl, rfl, rfl⟩

theorem esplnf_frame (s : State) (eunn funn : ℚ) : Frame s (esplnf s eunn funn) := by
  unfold esplnf
  have h : Frame s s := frame_refl s
  exact
    frame_andThen (frame_step h (Esecnf_frame ..)) fun _ h =>
    frame_step h ⟨rfl, rfl, rfl⟩

theorem Eplnf_frame (m : Libm) (s : State) (eunn : ℚ) : Frame s (Eplnf m s eunn) := by
  unfold Eplnf
  have h : Frame s s := frame_refl s
  exact
    frame_step h ⟨rfl, rfl, rfl⟩

theorem delenf_frame (s : State) (eunn : ℚ) : Frame s (delenf s eunn) := by
  unfold delenf
  have h : Frame s s := frame_refl s
  exact
    frame_step h ⟨rfl, rfl, rfl⟩

theorem delfnf_frame (m : Libm) (s : State) (eunn funn : ℚ) : Frame s (delfnf m s eunn funn) := by
  unfold delfnf
  have h : Frame s s := frame_refl s
  exact
    frame_ite (
        frame_step h ⟨rfl, rfl, rfl⟩
      ) (
        frame_step h ⟨rfl, rfl, rfl⟩
      )

theorem fnewnf_frame (m : Libm) (s : State) (eunn funn : ℚ) : Frame s (fnewnf m s eunn funn) := by
  unfold fnewnf
  have h : Frame s s := frame_refl s
  exact
    frame_andThen (frame_step h (delfnf_frame ..)) fun _ h =>
    frame_step h ⟨rfl, rfl, rfl⟩

theorem Enewnf_frame (m : Libm) (s : State) (eunn funn : ℚ) : Frame s (Enewnf m s eunn funn) := by
  unfold Enewnf
  have h : Frame s s := frame_refl s
  exact
    frame_andThen (frame_step h (fnewnf_frame ..)) fun _ h =>
    frame_andThen (frame_step h (esplnf_frame ..)) fun _ h =>
    frame_andThen (frame_step h ⟨rfl, rfl, rfl⟩) fun _ h =>
    frame_ite (
        frame_step h ⟨rfl, rfl, rfl⟩
      ) (
        h
      )

theorem esrenf_frame (s : State) (eunn : ℚ) : Frame s (esrenf s eunn) := by
  unfold esrenf
  have h : Frame s s := frame_refl s
  exact
    frame_andThen (frame_step h (delenf_frame ..)) fun _ h =>
    frame_step h ⟨rfl, rfl, rfl⟩

theorem freErenf_frame (m : Libm) (s : State) (eunn : ℚ) : Frame s (freErenf m s eunn) := by
  unfold freErenf
  have h : Frame s s := frame_refl s
  exact
    frame_andThen (frame_step h (esrenf_frame ..)) fun _ h =>
    frame_andThen (frame_step h ⟨rfl, rfl, rfl⟩) fun _ h =>
    frame_andThen (frame_step h ⟨rfl, rfl, rfl⟩) fun _ h =>
    frame_andThen (frame_step h (yf_frame ..)) fun _ h =>
    frame_andThen (frame_step h (zf_frame ..)) fun _ h =>
    frame_andThen (frame_step h ⟨rfl, rfl, rfl⟩) fun _ h =>
    frame_ite (
        frame_ite (
            frame_andThen (frame_step h (yf_frame ..)) fun _ h =>
            frame_andThen (frame_step h (zf_frame ..)) fun _ h =>
            frame_andThen (frame_step h ⟨rfl, rfl, rfl⟩) fun _ h =>
            frame_step h ⟨rfl, rfl, rfl⟩
          ) (
            frame_andThen (frame_step h (yf_frame ..)) fun _ h =>
            frame_andThen (frame_step h (zf_frame ..)) fun _ h =>
            frame_andThen (frame_step h ⟨rfl, rfl, rfl⟩) fun _ h =>
            frame_step h ⟨rfl, rfl, rfl⟩
          )
      ) (
        frame_andThen (frame_step h ⟨rfl, rfl, rfl⟩) fun _ h =>
        frame_step h ⟨rfl, rfl, rfl⟩
      )

theorem fnewstnf_frame (s : State) (funn delfn eunn er0n espln : ℚ) : Frame s (fnewstnf s funn delfn eunn er0n espln) := by
  unfold fnewstnf
  have h : Frame s s := frame_refl s
  exact
    frame_step h ⟨rfl, rfl, rfl⟩

theorem Enewstnf_frame (s : State) (fnewstn fr0n eunn er0n : ℚ) : Frame s (Enewstnf s fnewstn fr0n eunn er0n) := by
  unfold Enewstnf
  have h : Frame s s := frame_refl s
  exact
    frame_step h ⟨rfl, rfl, rfl⟩

theorem esrestnf_frame (s : State) (eunn delen er0n espln : ℚ) : Frame s (esrestnf s eunn delen er0n espln) := by
  unfold esrestnf
  have h : Frame s s := frame_refl s
  exact
    frame_step h ⟨rfl, rfl, rfl⟩

theorem freErestnf_frame (m : Libm) (s : State) (eunn funn er0n : ℚ) : Frame s (freErestnf m s eunn funn er0n) := by
  unfold freErestnf
  have h : Frame s s := frame_refl s
  exact
    frame_andThen (frame_step h (delenf_frame ..)) fun _ h =>
    frame_andThen (frame_step h (esplnf_frame ..)) fun _ h =>
    frame_andThen (frame_step h (esrestnf_frame ..)) fun _ h =>
    frame_andThen (frame_step h ⟨rfl, rfl, rfl⟩) fun _ h =>
    frame_andThen (frame_step h ⟨rfl, rfl, rfl⟩) fun _ h =>
    frame_andThen (frame_step h (yf_frame ..)) fun _ h =>
    frame_andThen (frame_step h (zf_frame ..)) fun _ h =>
    frame_andThen (frame_step h ⟨rfl, rfl, rfl⟩) fun _ h =>
    frame_ite (
        frame_ite (
            frame_andThen (frame_step h (yf_frame ..)) fun _ h =>
            frame_andThen (frame_step h (zf_frame ..)) fun _ h =>
            frame_andThen (frame_step h ⟨rfl, rfl, rfl⟩) fun _ h =>
            frame_step h ⟨rfl, rfl, rfl⟩
          ) (
            frame_andThen (frame_step h (yf_frame ..)) fun _ h =>
            frame_andThen (frame_step h (zf_frame ..)) fun _ h =>
            frame_andThen (frame_step h ⟨rfl, rfl, rfl⟩) fun _ h =>
            frame_step h ⟨rfl, rfl, rfl⟩
          )
      ) (
        frame_andThen (frame_step h ⟨rfl, rfl, rfl⟩) fun _ h =>
        frame_step h ⟨rfl, rfl, rfl⟩
      )

theorem Esecpf_frame (s : State) (e0 eunp funp espln : ℚ) : Frame s (Esecpf s e0 eunp funp espln) := by
  unfold Esecpf
  have h : Frame s s := frame_refl s
  exact
    frame_andThen (frame_step h ⟨rfl, rfl, rfl⟩) fun _ h =>
    frame_ite (
        frame_step h ⟨rfl, rfl, rfl⟩
      ) (
        h
      )

theorem esplpf_frame (s : State) (eunp funp e0 espln : ℚ) : Frame s (esplpf s eunp funp e0 espln) := by
  unfold esplpf
  have h : Frame s s := frame_refl s
  exact
    frame_andThen (frame_step h (Esecpf_frame ..)) fun _ h =>
    frame_step h ⟨rfl, rfl, rfl⟩

theorem Eplpf_frame (m : Libm) (s : State) (e0 eunp : ℚ) : Frame s (Eplpf m s e0 eunp) := by
  unfold Eplpf
  have h : Frame s s := frame_refl s
  exact
    frame_ite (
        frame_step h ⟨rfl, rfl, rfl⟩
      ) (
        frame_step h ⟨rfl, rfl, rfl⟩
      )

theorem delepf_frame (s : State) (eunp e0 : ℚ) : Frame s (delepf s eunp e0) := by
  unfold delepf
  have h : Frame s s := frame_refl s
  exact
    frame_step h ⟨rfl, rfl, rfl⟩

theorem delfpf_frame (s : State) (funp eunp e0 : ℚ) : Frame s (delfpf s funp eunp e0) := by
  unfold delfpf
  have h : Frame s s := frame_refl s
  exact
    frame_ite (
        frame_step h ⟨rfl, rfl, rfl⟩
      ) (
        frame_step h ⟨rfl, rfl, rfl⟩
      )

theorem fnewpf_frame (s : State) (funp eunp e0 : ℚ) : Frame s (fnewpf s funp eunp e0) := by
  unfold fnewpf
  have h : Frame s s := frame_refl s
  exact
    frame_andThen (frame_step h (delfpf_frame ..)) fun _ h =>
    frame_step h ⟨rfl, rfl, rfl⟩

theorem Enewpf_frame (s : State) (eunp funp e0 espln : ℚ) : Frame s (Enewpf s eunp funp e0 espln) := by
  unfold Enewpf
  have h : Frame s s := frame_refl s
  exact
    frame_andThen (frame_step h (fnewpf_frame ..)) fun _ h =>
    frame_andThen (frame_step h (esplpf_frame ..)) fun _ h =>
    frame_andThen (frame_step h ⟨rfl, rfl, rfl⟩) fun _ h =>
    frame_ite (
        frame_step h ⟨rfl, rfl, rfl⟩
      ) (
        h
      )

theorem esrepf_frame (s : State) (eunp e0 : ℚ) : Frame s (esrepf s eunp e0) := by
  unfold esrepf
  have h : Frame s s := frame_refl s
  exact
    frame_andThen (frame_step h (delepf_frame ..)) fun _ h =>
    frame_step h ⟨rfl, rfl, rfl⟩

theorem freErepf_frame (m : Libm) (s : State) (eunp e0 : ℚ) : Frame s (freErepf m s eunp e0) := by
  unfold freErepf
  have h : Frame s s := frame_refl s
  exact
    frame_andThen (frame_step h (esrepf_frame ..)) fun _ h =>
    frame_andThen (frame_step h ⟨rfl, rfl, rfl⟩) fun _ h =>
    frame_andThen (frame_step h ⟨rfl, rfl, rfl⟩) fun _ h =>
    frame_andThen (frame_step h (yf_frame ..)) fun _ h =>
    frame_andThen (frame_step h (zf_frame ..)) fun _ h =>
    frame_andThen (frame_step h ⟨rfl, rfl, rfl⟩) fun _ h =>
    frame_ite (
        frame_ite (
            frame_andThen (frame_step h (yf_frame ..)) fun _ h =>
            frame_andThen (frame_step h (zf_frame ..)) fun _ h =>
            frame_andThen (frame_step h ⟨rfl, rfl, rfl⟩) fun _ h =>
            frame_step h ⟨rfl, rfl, rfl⟩
          ) (
            frame_andThen (frame_step h (yf_frame ..)) fun _ h =>
            frame_andThen (frame_step h (zf_frame ..)) fun _ h =>
            frame_andThen (frame_step h ⟨rfl, rfl, rfl⟩) fun _ h =>
            frame_step h ⟨rfl, rfl, rfl⟩
          )
      ) (
        frame_andThen (frame_step h ⟨rfl, rfl, rfl⟩) fun _ h =>
        frame_step h ⟨rfl, rfl, rfl⟩
      )

theorem fnewstpf_frame (s : State) (funp delfp eunp er0p esplp e0 : ℚ) : Frame s (fnewstpf s funp delfp eunp er0p esplp e0) := by
  unfold fnewstpf
  have h : Frame s s := frame_refl s
  exact
    frame_step h ⟨rfl, rfl, rfl⟩

theorem Enewstpf_frame (s : State) (fnewstp fr0p eunp er0p : ℚ) : Frame s (Enewstpf s fnewstp fr0p eunp er0p) := by
  unfold Enewstpf
  have h : Frame s s := frame_refl s
  exact
    frame_step h ⟨rfl, rfl, rfl⟩

theorem esrestpf_frame (s : State) (eunp delep er0p esplp : ℚ) : Frame s (esrestpf s eunp delep er0p esplp) := by
  unfold esrestpf
  have h : Frame s s := frame_refl s
  exact
    frame_step h ⟨rfl, rfl, rfl⟩

theorem freErestpf_frame (m : Libm) (s : State) (eunp funp er0p e0 espln : ℚ) : Frame s (freErestpf m s eunp funp er0p e0 espln) := by
  unfold freErestpf
  have h : Frame s s := frame_refl s
  exact
    frame_andThen (frame_step h (delepf_frame ..)) fun _ h =>
    frame_andThen (frame_step h (esplpf_frame ..)) fun _ h =>
    frame_andThen (frame_step h (esrestpf_frame ..)) fun _ h =>
    frame_andThen (frame_step h ⟨rfl, rfl, rfl⟩) fun _ h =>
    frame_andThen (frame_step h ⟨rfl, rfl, rfl⟩) fun _ h =>
    frame_andThen (frame_step h (yf_frame ..)) fun _ h =>
    frame_andThen (frame_step h (zf_frame ..)) fun _ h =>
    frame_andThen (frame_step h ⟨rfl, rfl, rfl⟩) fun _ h =>
    frame_ite (
        frame_ite (
            frame_andThen (frame_step h (yf_frame ..)) fun _ h =>
            frame_andThen (frame_step h (zf_frame ..)) fun _ h =>
            frame_andThen (frame_step h ⟨rfl, rfl, rfl⟩) fun _ h =>
            frame_step h ⟨rfl, rfl, rfl⟩
          ) (
            frame_andThen (frame_step h (yf_frame ..)) fun _ h =>
            frame_andThen (frame_step h (zf_frame ..)) fun _ h =>
            frame_andThen (frame_step h ⟨rfl, rfl, rfl⟩) fun _ h =>
            frame_step h ⟨rfl, rfl, rfl⟩
          )
      ) (
        frame_andThen (frame_step h ⟨rfl, rfl, rfl⟩) fun _ h =>
        frame_step h ⟨rfl, rfl, rfl⟩
      )

theorem e0eunpfunpf_frame (m : Libm) (s : State) (e0 eunp funp eunn funn : ℚ) :
    Frame s (e0eunpfunpf m s e0 eunp funp eunn funn) := by
  unfold e0eunpfunpf
  have h : Frame s s := frame_refl s
  exact
    frame_andThen (
      frame_ite (frame_step h (fcEtpf_frame ..)) h
      ) fun _ h =>
    frame_andThen (frame_step h (esplnf_frame ..)) fun _ h =>
    frame_andThen (frame_step h (Eplnf_frame ..)) fun _ h =>
    frame_andThen (frame_step h (Esecpf_frame ..)) fun _ h =>
    frame_andThen (frame_step h ⟨rfl, rfl, rfl⟩) fun _ h =>
    frame_andThen (frame_step h ⟨rfl, rfl, rfl⟩) fun _ h =>
    frame_andThen (frame_step h (fcEtpf_frame ..)) fun _ h =>
    frame_step h ⟨rfl, rfl, rfl⟩

theorem r3f_frame (s : State) (eunn funn espln Epln : ℚ) : Frame s (r3f s eunn funn espln Epln) := by
  unfold r3f
  have h : Frame s s := frame_refl s
  exact
    frame_andThen (frame_step h ⟨rfl, rfl, rfl⟩) fun _ h =>
    frame_andThen (frame_step h ⟨rfl, rfl, rfl⟩) fun _ h =>
    frame_andThen (frame_step h ⟨rfl, rfl, rfl⟩) fun _ h =>
    frame_andThen (frame_step h ⟨rfl, rfl, rfl⟩) fun _ h =>
    frame_andThen (frame_step h ⟨rfl, rfl, rfl⟩) fun _ h =>
    frame_step h ⟨rfl, rfl, rfl⟩

theorem r9f_frame (s : State) (espln Epln eunp fnewp Enewp : ℚ) : Frame s (r9f s espln Epln eunp fnewp Enewp) := by
  unfold r9f
  have h : Frame s s := frame_refl s
  exact
    frame_andThen (frame_step h ⟨rfl, rfl, rfl⟩) fun _ h =>
    frame_andThen (frame_step h ⟨rfl, rfl, rfl⟩) fun _ h =>
    frame_andThen (frame_step h ⟨rfl, rfl, rfl⟩) fun _ h =>
    frame_andThen (frame_step h ⟨rfl, rfl, rfl⟩) fun _ h =>
    frame_andThen (frame_step h ⟨rfl, rfl, rfl⟩) fun _ h =>
    frame_step h ⟨rfl, rfl, rfl⟩

theorem r8f_frame (s : State) (eunp fnewp Enewp esrep frep Erep : ℚ) : Frame s (r8f s eunp fnewp Enewp esrep frep Erep) := by
  unfold r8f
  have h : Frame s s := frame_refl s
  exact
    frame_andThen (frame_step h ⟨rfl, rfl, rfl⟩) fun _ h =>
    frame_andThen (frame_step h ⟨rfl, rfl, rfl⟩) fun _ h =>
    frame_andThen (frame_step h ⟨rfl, rfl, rfl⟩) fun _ h =>
    frame_andThen (frame_step h ⟨rfl, rfl, rfl⟩) fun _ h =>
    frame_andThen (frame_step h ⟨rfl, rfl, rfl⟩) fun _ h =>
    frame_step h ⟨rfl, rfl, rfl⟩

theorem r4f_frame (s : State) (eunp funp esplp Eplp : ℚ) : Frame s (r4f s eunp funp esplp Eplp) := by
  unfold r4f
  have h : Frame s s := frame_refl s
  exact
    frame_andThen (frame_step h ⟨rfl, rfl, rfl⟩) fun _ h =>
    frame_andThen (frame_step h ⟨rfl, rfl, rfl⟩) fun _ h =>
    frame_andThen (frame_step h ⟨rfl, rfl, rfl⟩) fun _ h =>
    frame_andThen (frame_step h ⟨rfl, rfl, rfl⟩) fun _ h =>
    frame_andThen (frame_step h ⟨rfl, rfl, rfl⟩) fun _ h =>
    frame_step h ⟨rfl, rfl, rfl⟩

theorem r10f_frame (s : State) (esplp Eplp eunn fnewn Enewn : ℚ) : Frame s (r10f s esplp Eplp eunn fnewn Enewn) := by
  unfold r10f
  have h : Frame s s := frame_refl s
  exact
    frame_andThen (frame_step h ⟨rfl, rfl, rfl⟩) fun _ h =>
    frame_andThen (frame_step h ⟨rfl, rfl, rfl⟩) fun _ h =>
    frame_andThen (frame_step h ⟨rfl, rfl, rfl⟩) fun _ h =>
    frame_andThen (frame_step h ⟨rfl, rfl, rfl⟩) fun _ h =>
    frame_andThen (frame_step h ⟨rfl, rfl, rfl⟩) fun _ h =>
    frame_step h ⟨rfl, rfl, rfl⟩

theorem r7f_frame (s : State) (eunn fnewn Enewn esren fren Eren : ℚ) : Frame s (r7f s eunn fnewn Enewn esren fren Eren) := by
  unfold r7f
  have h : Frame s s := frame_refl s
  exact
    frame_andThen (frame_step h ⟨rfl, rfl, rfl⟩) fun _ h =>
    frame_andThen (frame_step h ⟨rfl, rfl, rfl⟩) fun _ h =>
    frame_andThen (frame_step h ⟨rfl, rfl, rfl⟩) fun _ h =>
    frame_andThen (frame_step h ⟨rfl, rfl, rfl⟩) fun _ h =>
    frame_andThen (frame_step h ⟨rfl, rfl, rfl⟩) fun _ h =>
    frame_step h ⟨rfl, rfl, rfl⟩

theorem fcEturf_frame (m : Libm) (s : State) (es esi fi esf ff Ei Ef A R : ℚ) : Frame s (fcEturf m s es esi fi esf ff Ei Ef A R) := by
  unfold fcEturf
  have h : Frame s s := frame_refl s
  exact
    frame_ite (
        frame_andThen (frame_step h ⟨rfl, rfl, rfl⟩) fun _ h =>
        frame_step h ⟨rfl, rfl, rfl⟩
      ) (
        frame_ite (
            frame_andThen (frame_step h ⟨rfl, rfl, rfl⟩) fun _ h =>
            frame_step h ⟨rfl, rfl, rfl⟩
          ) (
            frame_ite (
                frame_andThen (frame_step h ⟨rfl, rfl, rfl⟩) fun _ h =>
                frame_step h ⟨rfl, rfl, rfl⟩
              ) (
                frame_ite (
                    frame_andThen (frame_step h ⟨rfl, rfl, rfl⟩) fun _ h =>
                    frame_step h ⟨rfl, rfl, rfl⟩
                  ) (
                    frame_andThen (frame_step h ⟨rfl, rfl, rfl⟩) fun _ h =>
                    frame_andThen (frame_step h ⟨rfl, rfl, rfl⟩) fun _ h =>
                    frame_ite (
                        frame_andThen (frame_step h ⟨rfl, rfl, rfl⟩) fun _ h =>
                        frame_step h ⟨rfl, rfl, rfl⟩
                      ) (
                        h
                      )
                  )
              )
          )
      )

theorem r12f_frame (m : Libm) (s : State) (er fr ea fca Eta A R : ℚ) : Frame s (r12f m s er fr ea fca Eta A R) := by
  unfold r12f
  have h : Frame s s := frame_refl s
  exact
    frame_andThen (frame_step h ⟨rfl, rfl, rfl⟩) fun _ h =>
    frame_andThen (frame_step h ⟨rfl, rfl, rfl⟩) fun _ h =>
    frame_andThen (frame_step h ⟨rfl, rfl, rfl⟩) fun _ h =>
    frame_andThen (frame_step h ⟨rfl, rfl, rfl⟩) fun _ h =>
    frame_andThen (frame_step h ⟨rfl, rfl, rfl⟩) fun _ h =>
    frame_andThen (frame_step h ⟨rfl, rfl, rfl⟩) fun _ h =>
    frame_andThen (frame_step h (fcEturf_frame ..)) fun _ h =>
    frame_andThen (frame_step h ⟨rfl, rfl, rfl⟩) fun _ h =>
    frame_step h ⟨rfl, rfl, rfl⟩

theorem r11f_frame (m : Libm) (s : State) (er fr eb fcb Etb A R : ℚ) : Frame s (r11f m s er fr eb fcb Etb A R) := by
  unfold r11f
  have h : Frame s s := frame_refl s
  exact
    frame_andThen (frame_step h ⟨rfl, rfl, rfl⟩) fun _ h =>
    frame_andThen (frame_step h ⟨rfl, rfl, rfl⟩) fun _ h =>
    frame_andThen (frame_step h ⟨rfl, rfl, rfl⟩) fun _ h =>
    frame_andThen (frame_step h ⟨rfl, rfl, rfl⟩) fun _ h =>
    frame_andThen (frame_step h ⟨rfl, rfl, rfl⟩) fun _ h =>
    frame_andThen (frame_step h ⟨rfl, rfl, rfl⟩) fun _ h =>
    frame_andThen (frame_step h (fcEturf_frame ..)) fun _ h =>
    frame_andThen (frame_step h ⟨rfl, rfl, rfl⟩) fun _ h =>
    frame_step h ⟨rfl, rfl, rfl⟩

theorem r13f_frame (s : State) (ed eunn fnewn Enewn : ℚ) : Frame s (r13f s ed eunn fnewn Enewn) := by
  unfold r13f
  have h : Frame s s := frame_refl s
  exact
    frame_andThen (frame_step h ⟨rfl, rfl, rfl⟩) fun _ h =>
    frame_andThen (frame_step h ⟨rfl, rfl, rfl⟩) fun _ h =>
    frame_andThen (frame_step h ⟨rfl, rfl, rfl⟩) fun _ h =>
    frame_andThen (frame_step h ⟨rfl, rfl, rfl⟩) fun _ h =>
    frame_andThen (frame_step h ⟨rfl, rfl, rfl⟩) fun _ h =>
    frame_step h ⟨rfl, rfl, rfl⟩

theorem r14f_frame (s : State) (er fr eb : ℚ) : Frame s (r14f s er fr eb) := by
  unfold r14f
  have h : Frame s s := frame_refl s
  exact
    frame_andThen (frame_step h ⟨rfl, rfl, rfl⟩) fun _ h =>
    frame_andThen (frame_step h ⟨rfl, rfl, rfl⟩) fun _ h =>
    frame_andThen (frame_step h ⟨rfl, rfl, rfl⟩) fun _ h =>
    frame_andThen (frame_step h ⟨rfl, rfl, rfl⟩) fun _ h =>
    frame_andThen (frame_step h ⟨rfl, rfl, rfl⟩) fun _ h =>
    frame_step h ⟨rfl, rfl, rfl⟩

theorem r15f_frame (m : Libm) (s : State) (er fr ea fca Eta A R : ℚ) : Frame s (r15f m s er fr ea fca Eta A R) := by
  unfold r15f
  have h : Frame s s := frame_refl s
  exact
    frame_andThen (frame_step h ⟨rfl, rfl, rfl⟩) fun _ h =>
    frame_andThen (frame_step h ⟨rfl, rfl, rfl⟩) fun _ h =>
    frame_andThen (frame_step h ⟨rfl, rfl, rfl⟩) fun _ h =>
    frame_andThen (frame_step h ⟨rfl, rfl, rfl⟩) fun _ h =>
    frame_andThen (frame_step h ⟨rfl, rfl, rfl⟩) fun _ h =>
    frame_andThen (frame_step h ⟨rfl, rfl, rfl⟩) fun _ h =>
    frame_andThen (frame_step h (fcEturf_frame ..)) fun _ h =>
    frame_andThen (frame_step h ⟨rfl, rfl, rfl⟩) fun _ h =>
    frame_step h ⟨rfl, rfl, rfl⟩

theorem r66f_frame (s : State) (e e0 : ℚ) : Frame s (r66f s e e0) := by
  unfold r66f
  have h : Frame s s := frame_refl s
  exact
    frame_andThen (frame_step h ⟨rfl, rfl, rfl⟩) fun _ h =>
    frame_step h ⟨rfl, rfl, rfl⟩

theorem r88f_frame (s : State) (e e0 er0p fr0p eunp fnewstp Enewstp esrestp frestp Erestp : ℚ) : Frame s (r88f s e e0 er0p fr0p eunp fnewstp Enewstp esrestp frestp Erestp) := by
  unfold r88f
  have h : Frame s s := frame_refl s
  exact
    frame_andThen (
        frame_ite (
            frame_andThen (frame_step h ⟨rfl, rfl, rfl⟩) fun _ h =>
            frame_andThen (frame_step h ⟨rfl, rfl, rfl⟩) fun _ h =>
            frame_andThen (frame_step h ⟨rfl, rfl, rfl⟩) fun _ h =>
            frame_andThen (frame_step h ⟨rfl, rfl, rfl⟩) fun _ h =>
            frame_andThen (frame_step h ⟨rfl, rfl, rfl⟩) fun _ h =>
            frame_step h ⟨rfl, rfl, rfl⟩
          ) (
            h
          )
      ) fun _ h =>
    frame_ite (
        frame_andThen (frame_step h ⟨rfl, rfl, rfl⟩) fun _ h =>
        frame_andThen (frame_step h ⟨rfl, rfl, rfl⟩) fun _ h =>
        frame_andThen (frame_step h ⟨rfl, rfl, rfl⟩) fun _ h =>
        frame_andThen (frame_step h ⟨rfl, rfl, rfl⟩) fun _ h =>
        frame_andThen (frame_step h ⟨rfl, rfl, rfl⟩) fun _ h =>
        frame_step h ⟨rfl, rfl, rfl⟩
      ) (
        h
      )

theorem r77f_frame (s : State) (e e0 er0n fr0n eunn fnewstn Enewstn esrestn frestn Erestn : ℚ) : Frame s (r77f s e e0 er0n fr0n eunn fnewstn Enewstn esrestn frestn Erestn) := by
  unfold r77f
  have h : Frame s s := frame_refl s
  exact
    frame_andThen (
        frame_ite (
            frame_andThen (frame_step h ⟨rfl, rfl, rfl⟩) fun _ h =>
            frame_andThen (frame_step h ⟨rfl, rfl, rfl⟩) fun _ h =>
            frame_andThen (frame_step h ⟨rfl, rfl, rfl⟩) fun _ h =>
            frame_andThen (frame_step h ⟨rfl, rfl, rfl⟩) fun _ h =>
            frame_andThen (frame_step h ⟨rfl, rfl, rfl⟩) fun _ h =>
            frame_step h ⟨rfl, rfl, rfl⟩
          ) (
            h
          )
      ) fun _ h =>
    frame_ite (
        frame_andThen (frame_step h ⟨rfl, rfl, rfl⟩) fun _ h =>
        frame_andThen (frame_step h ⟨rfl, rfl, rfl⟩) fun _ h =>
        frame_andThen (frame_step h ⟨rfl, rfl, rfl⟩) fun _ h =>
        frame_andThen (frame_step h ⟨rfl, rfl, rfl⟩) fun _ h =>
        frame_andThen (frame_step h ⟨rfl, rfl, rfl⟩) fun _ h =>
        frame_step h ⟨rfl, rfl, rfl⟩
      ) (
        h
      )

theorem ea1112f_frame (s : State) (eb espln esplp eunn eunp : ℚ) : Frame s (ea1112f s eb espln esplp eunn eunp) := by
  unfold ea1112f
  have h : Frame s s := frame_refl s
  exact
    frame_step h ⟨rfl, rfl, rfl⟩

theorem eb1112f_frame (s : State) (ea espln esplp eunn eunp : ℚ) : Frame s (eb1112f s ea espln esplp eunn eunp) := by
  unfold eb1112f
  have h : Frame s s := frame_refl s
  exact
    frame_step h ⟨rfl, rfl, rfl⟩

theorem eb1415f_frame (s : State) (ea fa Esecn : ℚ) : Frame s (eb1415f s ea fa Esecn) := by
  unfold eb1415f
  have h : Frame s s := frame_refl s
  exact
    frame_step h ⟨rfl, rfl, rfl⟩

theorem RAf_frame (m : Libm) (s : State) (esi fi Ei esf ff Ef : ℚ) : Frame s (RAf m s esi fi Ei esf ff Ef) := by
  unfold RAf
  have h : Frame s s := frame_refl s
  exact
    frame_andThen (frame_step h ⟨rfl, rfl, rfl⟩) fun _ h =>
    frame_ite (
        frame_step h ⟨rfl, rfl, rfl⟩
      ) (
        frame_andThen (frame_step h ⟨rfl, rfl, rfl⟩) fun _ h =>
        frame_ite (
            frame_step h ⟨rfl, rfl, rfl⟩
          ) (
            h
          )
      )

theorem setTrialStrain_L310_L334_frame (m : Libm) (s : State) (strain : ℚ) : Frame s (setTrialStrain_L310_L334 m s strain) := by
  unfold setTrialStrain_L310_L334
  have h : Frame s s := frame_refl s
  exact
    frame_andThen (
        frame_ite (
            frame_step h ⟨rfl, rfl, rfl⟩
          ) (
            frame_ite (
                frame_step h ⟨rfl, rfl, rfl⟩
              ) (
                frame_step h ⟨rfl, rfl, rfl⟩
              )
          )
      ) fun _ h =>
    frame_andThen (frame_step h ⟨rfl, rfl, rfl⟩) fun _ h =>
    frame_andThen (frame_step h ⟨rfl, rfl, rfl⟩) fun _ h =>
    frame_andThen (frame_step h ⟨rfl, rfl, rfl⟩) fun _ h =>
    frame_andThen (frame_step h ⟨rfl, rfl, rfl⟩) fun _ h =>
    frame_andThen (frame_step h ⟨rfl, rfl, rfl⟩) fun _ h =>
    frame_andThen (frame_step h ⟨rfl, rfl, rfl⟩) fun _ h =>
    frame_andThen (frame_step h ⟨rfl, rfl, rfl⟩) fun _ h =>
    frame_andThen (frame_step h ⟨rfl, rfl, rfl⟩) fun _ h =>
    frame_andThen (frame_step h ⟨rfl, rfl, rfl⟩) fun _ h =>
    frame_andThen (frame_step h ⟨rfl, rfl, rfl⟩) fun _ h =>
    frame_andThen (frame_step h ⟨rfl, rfl, rfl⟩) fun _ h =>
    frame_andThen (frame_step h ⟨rfl, rfl, rfl⟩) fun _ h =>
    frame_andThen (frame_step h ⟨rfl, rfl, rfl⟩) fun _ h =>
    frame_andThen (frame_step h ⟨rfl, rfl, rfl⟩) fun _ h =>
    frame_step h ⟨rfl, rfl, rfl⟩

theorem setTrialStrain_L336_L362_frame (m : Libm) (s : State) (strain : ℚ) : Frame s (setTrialStrain_L336_L362 m s strain) := by
  unfold setTrialStrain_L336_L362
  have h : Frame s s := frame_refl s
  exact
    frame_andThen (frame_step h (esplnf_frame ..)) fun _ h =>
    frame_andThen (frame_step h (Eplnf_frame ..)) fun _ h =>
    frame_andThen (frame_step h (Esecnf_frame ..)) fun _ h =>
    frame_andThen (frame_step h (delenf_frame ..)) fun _ h =>
    frame_andThen (frame_step h (delfnf_frame ..)) fun _ h =>
    frame_andThen (frame_step h (fnewnf_frame ..)) fun _ h =>
    frame_andThen (frame_step h (Enewnf_frame ..)) fun _ h =>
    frame_andThen (frame_step h (esrenf_frame ..)) fun _ h =>
    frame_andThen (frame_step h (freErenf_frame ..)) fun _ h =>
    frame_andThen (frame_step h (fnewstnf_frame ..)) fun _ h =>
    frame_andThen (frame_step h (Enewstnf_frame ..)) fun _ h =>
    frame_andThen (frame_step h (esrestnf_frame ..)) fun _ h =>
    frame_andThen (frame_step h (freErestnf_frame ..)) fun _ h =>
    frame_andThen (frame_step h (esplpf_frame ..)) fun _ h =>
    frame_andThen (frame_step h (Eplpf_frame ..)) fun _ h =>
    frame_andThen (frame_step h (Esecpf_frame ..)) fun _ h =>
    frame_andThen (frame_step h (delepf_frame ..)) fun _ h =>
    frame_andThen (frame_step h (delfpf_frame ..)) fun _ h =>
    frame_andThen (frame_step h (fnewpf_frame ..)) fun _ h =>
    frame_andThen (frame_step h (Enewpf_frame ..)) fun _ h =>
    frame_andThen (frame_step h (esrepf_frame ..)) fun _ h =>
    frame_andThen (frame_step h (freErepf_frame ..)) fun _ h =>
    frame_andThen (frame_step h (fnewstpf_frame ..)) fun _ h =>
    frame_andThen (frame_step h (Enewstpf_frame ..)) fun _ h =>
    frame_andThen (frame_step h (esrestpf_frame ..)) fun _ h =>
    frame_step h (freErestpf_frame ..)

theorem setTrialStrain_L371_L382_frame (m : Libm) (s : State) (strain : ℚ) : Frame s (setTrialStrain_L371_L382 m s strain) := by
  unfold setTrialStrain_L371_L382
  have h : Frame s s := frame_refl s
  exact
    frame_andThen (frame_step h ⟨rfl, rfl, rfl⟩) fun _ h =>
    frame_andThen (frame_step h ⟨rfl, rfl, rfl⟩) fun _ h =>
    frame_andThen (frame_step h (e0eunpfunpf_frame ..)) fun _ h =>
    frame_andThen (frame_step h (esplnf_frame ..)) fun _ h =>
    frame_andThen (frame_step h (Eplnf_frame ..)) fun _ h =>
    frame_andThen (frame_step h (fnewpf_frame ..)) fun _ h =>
    frame_andThen (frame_step h (Enewpf_frame ..)) fun _ h =>
    frame_andThen (frame_step h (esrepf_frame ..)) fun _ h =>
    frame_step h (freErepf_frame ..)

theorem setTrialStrain_L437_frame (m : Libm) (s : State) (strain : ℚ) : Frame s (setTrialStrain_L437 m s strain) := by
  unfold setTrialStrain_L437
  have h : Frame s s := frame_refl s
  exact
    frame_ite (
        frame_andThen (frame_step h (r3f_frame ..)) fun _ h =>
        frame_andThen (frame_step h (RAf_frame ..)) fun _ h =>
        frame_andThen (frame_step h (fcEturf_frame ..)) fun _ h =>
        frame_andThen (frame_step h ⟨rfl, rfl, rfl⟩) fun _ h =>
        frame_andThen (frame_step h ⟨rfl, rfl, rfl⟩) fun _ h =>
        frame_andThen (frame_step h ⟨rfl, rfl, rfl⟩) fun _ h =>
        frame_andThen (frame_step h ⟨rfl, rfl, rfl⟩) fun _ h =>
        frame_andThen (frame_step h ⟨rfl, rfl, rfl⟩) fun _ h =>
        frame_andThen (frame_step h ⟨rfl, rfl, rfl⟩) fun _ h =>
        frame_andThen (frame_step h (RAf_frame ..)) fun _ h =>
        frame_andThen (frame_step h (r12f_frame ..)) fun _ h =>
        frame_andThen (frame_step h ⟨rfl, rfl, rfl⟩) fun _ h =>
        frame_andThen (frame_step h (fcEturf_frame ..)) fun _ h =>
        frame_andThen (frame_step h ⟨rfl, rfl, rfl⟩) fun _ h =>
        frame_step h ⟨rfl, rfl, rfl⟩
      ) (
        frame_ite (
            frame_andThen (frame_step h (r3f_frame ..)) fun _ h =>
            frame_andThen (frame_step h ⟨rfl, rfl, rfl⟩) fun _ h =>
            frame_andThen (frame_step h (RAf_frame ..)) fun _ h =>
            frame_andThen (frame_step h (fcEturf_frame ..)) fun _ h =>
            frame_andThen (frame_step h ⟨rfl, rfl, rfl⟩) fun _ h =>
            frame_step h ⟨rfl, rfl, rfl⟩
          ) (
            frame_ite (
                frame_andThen (frame_step h (r9f_frame ..)) fun _ h =>
                frame_andThen (frame_step h ⟨rfl, rfl, rfl⟩) fun _ h =>
                frame_andThen (frame_step h (RAf_frame ..)) fun _ h =>
                frame_andThen (frame_step h (fcEturf_frame ..)) fun _ h =>
                frame_andThen (frame_step h ⟨rfl, rfl, rfl⟩) fun _ h =>
                frame_step h ⟨rfl, rfl, rfl⟩
              ) (
                frame_ite (
                    frame_andThen (frame_step h (r8f_frame ..)) fun _ h =>
                    frame_andThen (frame_step h ⟨rfl, rfl, rfl⟩) fun _ h =>
                    frame_andThen (frame_step h (RAf_frame ..)) fun _ h =>
                    frame_andThen (frame_step h (fcEturf_frame ..)) fun _ h =>
                    frame_andThen (frame_step h ⟨rfl, rfl, rfl⟩) fun _ h =>
                    frame_step h ⟨rfl, rfl, rfl⟩
                  ) (
                    frame_step h (fcEtpf_frame ..)
                  )
              )
          )
      )

theorem setTrialStrain_L427_frame (m : Libm) (s : State) (strain : ℚ) : Frame s (setTrialStrain_L427 m s strain) := by
  unfold setTrialStrain_L427
  have h : Frame s s := frame_refl s
  exact
    frame_andThen (frame_step h ⟨rfl, rfl, rfl⟩) fun _ h =>
    frame_andThen (frame_step h ⟨rfl, rfl, rfl⟩) fun _ h =>
    frame_andThen (frame_step h ⟨rfl, rfl, rfl⟩) fun _ h =>
    frame_andThen (frame_step h ⟨rfl, rfl, rfl⟩) fun _ h =>
    frame_andThen (frame_step h (ea1112f_frame ..)) fun _ h =>
    frame_ite (
        frame_step h (setTrialStrain_L437_frame ..)
      ) (
        frame_ite (
            frame_ite (
                frame_andThen (frame_step h (r9f_frame ..)) fun _ h =>
                frame_andThen (frame_step h (RAf_frame ..)) fun _ h =>
                frame_andThen (frame_step h (fcEturf_frame ..)) fun _ h =>
                frame_andThen (frame_step h ⟨rfl, rfl, rfl⟩) fun _ h =>
                frame_andThen (frame_step h ⟨rfl, rfl, rfl⟩) fun _ h =>
                frame_andThen (frame_step h ⟨rfl, rfl, rfl⟩) fun _ h =>
                frame_andThen (frame_step h ⟨rfl, rfl, rfl⟩) fun _ h =>
                frame_andThen (frame_step h ⟨rfl, rfl, rfl⟩) fun _ h =>
                frame_andThen (frame_step h ⟨rfl, rfl, rfl⟩) fun _ h =>
                frame_andThen (frame_step h (RAf_frame ..)) fun _ h =>
                frame_andThen (frame_step h (r12f_frame ..)) fun _ h =>
                frame_andThen (frame_step h ⟨rfl, rfl, rfl⟩) fun _ h =>
                frame_andThen (frame_step h (fcEturf_frame ..)) fun _ h =>
                frame_andThen (frame_step h ⟨rfl, rfl, rfl⟩) fun _ h =>
                frame_step h ⟨rfl, rfl, rfl⟩
              ) (
                frame_ite (
                    frame_andThen (frame_step h (r9f_frame ..)) fun _ h =>
                    frame_andThen (frame_step h ⟨rfl, rfl, rfl⟩) fun _ h =>
                    frame_andThen (frame_step h (RAf_frame ..)) fun _ h =>
                    frame_andThen (frame_step h (fcEturf_frame ..)) fun _ h =>
                    frame_andThen (frame_step h ⟨rfl, rfl, rfl⟩) fun _ h =>
                    frame_step h ⟨rfl, rfl, rfl⟩
                  ) (
                    frame_ite (
                        frame_andThen (frame_step h (r8f_frame ..)) fun _ h =>
                        frame_andThen (frame_step h ⟨rfl, rfl, rfl⟩) fun _ h =>
                        frame_andThen (frame_step h (RAf_frame ..)) fun _ h =>
                        frame_andThen (frame_step h (fcEturf_frame ..)) fun _ h =>
                        frame_andThen (frame_step h ⟨rfl, rfl, rfl⟩) fun _ h =>
                        frame_step h ⟨rfl, rfl, rfl⟩
                      ) (
                        frame_step h (fcEtpf_frame ..)
                      )
                  )
              )
          ) (
            frame_ite (
                frame_ite (
                    frame_andThen (frame_step h (r8f_frame ..)) fun _ h =>
                    frame_andThen (frame_step h (RAf_frame ..)) fun _ h =>
                    frame_andThen (frame_step h (fcEturf_frame ..)) fun _ h =>
                    frame_andThen (frame_step h ⟨rfl, rfl, rfl⟩) fun _ h =>
                    frame_andThen (frame_step h ⟨rfl, rfl, rfl⟩) fun _ h =>
                    frame_andThen (frame_step h ⟨rfl, rfl, rfl⟩) fun _ h =>
                    frame_andThen (frame_step h ⟨rfl, rfl, rfl⟩) fun _ h =>
                    frame_andThen (frame_step h ⟨rfl, rfl, rfl⟩) fun _ h =>
                    frame_andThen (frame_step h ⟨rfl, rfl, rfl⟩) fun _ h =>
                    frame_andThen (frame_step h (RAf_frame ..)) fun _ h =>
                    frame_andThen (frame_step h (r12f_frame ..)) fun _ h =>
                    frame_andThen (frame_step h ⟨rfl, rfl, rfl⟩) fun _ h =>
                    frame_andThen (frame_step h (fcEturf_frame ..)) fun _ h =>
                    frame_andThen (frame_step h ⟨rfl, rfl, rfl⟩) fun _ h =>
                    frame_step h ⟨rfl, rfl, rfl⟩
                  ) (
                    frame_ite (
                        frame_andThen (frame_step h (r8f_frame ..)) fun _ h =>
                        frame_andThen (frame_step h ⟨rfl, rfl, rfl⟩) fun _ h =>
                        frame_andThen (frame_step h (RAf_frame ..)) fun _ h =>
                        frame_andThen (frame_step h (fcEturf_frame ..)) fun _ h =>
                        frame_andThen (frame_step h ⟨rfl, rfl, rfl⟩) fun _ h =>
                        frame_step h ⟨rfl, rfl, rfl⟩
                      ) (
                        frame_step h (fcEtpf_frame ..)
                      )
                  )
              ) (
                frame_ite (
                    frame_andThen (frame_step h (fcEtpf_frame ..)) fun _ h =>
                    frame_andThen (frame_step h ⟨rfl, rfl, rfl⟩) fun _ h =>
                    frame_andThen (frame_step h ⟨rfl, rfl, rfl⟩) fun _ h =>
                    frame_andThen (frame_step h ⟨rfl, rfl, rfl⟩) fun _ h =>
                    frame_andThen (frame_step h ⟨rfl, rfl, rfl⟩) fun _ h =>
                    frame_andThen (frame_step h ⟨rfl, rfl, rfl⟩) fun _ h =>
                    frame_andThen (frame_step h ⟨rfl, rfl, rfl⟩) fun _ h =>
                    frame_andThen (frame_step h (RAf_frame ..)) fun _ h =>
                    frame_andThen (frame_step h (r12f_frame ..)) fun _ h =>
                    frame_andThen (frame_step h ⟨rfl, rfl, rfl⟩) fun _ h =>
                    frame_andThen (frame_step h (fcEturf_frame ..)) fun _ h =>
                    frame_andThen (frame_step h ⟨rfl, rfl, rfl⟩) fun _ h =>
                    frame_step h ⟨rfl, rfl, rfl⟩
                  ) (
                    frame_step h (fcEtpf_frame ..)
                  )
              )
          )
      )

theorem setTrialStrain_L649_frame (m : Libm) (s : State) (strain : ℚ) : Frame s (setTrialStrain_L649 m s strain) := by
  unfold setTrialStrain_L649
  have h : Frame s s := frame_refl s
  exact
    frame_ite (
        frame_andThen (frame_step h (r3f_frame ..)) fun _ h =>
        frame_andThen (frame_step h (RAf_frame ..)) fun _ h =>
        frame_andThen (frame_step h (fcEturf_frame ..)) fun _ h =>
        frame_andThen (frame_step h ⟨rfl, rfl, rfl⟩) fun _ h =>
        frame_andThen (frame_step h ⟨rfl, rfl, rfl⟩) fun _ h =>
        frame_andThen (frame_step h ⟨rfl, rfl, rfl⟩) fun _ h =>
        frame_andThen (frame_step h ⟨rfl, rfl, rfl⟩) fun _ h =>
        frame_andThen (frame_step h ⟨rfl, rfl, rfl⟩) fun _ h =>
        frame_andThen (frame_step h ⟨rfl, rfl, rfl⟩) fun _ h =>
        frame_andThen (frame_step h (RAf_frame ..)) fun _ h =>
        frame_andThen (frame_step h (r12f_frame ..)) fun _ h =>
        frame_andThen (frame_step h ⟨rfl, rfl, rfl⟩) fun _ h =>
        frame_andThen (frame_step h (fcEturf_frame ..)) fun _ h =>
        frame_andThen (frame_step h ⟨rfl, rfl, rfl⟩) fun _ h =>
        frame_step h ⟨rfl, rfl, rfl⟩
      ) (
        frame_ite (
            frame_andThen (frame_step h (r3f_frame ..)) fun _ h =>
            frame_andThen (frame_step h ⟨rfl, rfl, rfl⟩) fun _ h =>
            frame_andThen (frame_step h (RAf_frame ..)) fun _ h =>
            frame_andThen (frame_step h (fcEturf_frame ..)) fun _ h =>
            frame_andThen (frame_step h ⟨rfl, rfl, rfl⟩) fun _ h =>
            frame_step h ⟨rfl, rfl, rfl⟩
          ) (
            frame_ite (
                frame_andThen (frame_step h (r9f_frame ..)) fun _ h =>
                frame_andThen (frame_step h ⟨rfl, rfl, rfl⟩) fun _ h =>
                frame_andThen (frame_step h (RAf_frame ..)) fun _ h =>
                frame_andThen (frame_step h (fcEturf_frame ..)) fun _ h =>
                frame_andThen (frame_step h ⟨rfl, rfl, rfl⟩) fun _ h =>
                frame_step h ⟨rfl, rfl, rfl⟩
              ) (
                frame_ite (
                    frame_andThen (frame_step h (r8f_frame ..)) fun _ h =>
                    frame_andThen (frame_step h ⟨rfl, rfl, rfl⟩) fun _ h =>
                    frame_andThen (frame_step h (RAf_frame ..)) fun _ h =>
                    frame_andThen (frame_step h (fcEturf_frame ..)) fun _ h =>
                    frame_andThen (frame_step h ⟨rfl, rfl, rfl⟩) fun _ h =>
                    frame_step h ⟨rfl, rfl, rfl⟩
                  ) (
                    frame_step h (fcEtpf_frame ..)
                  )
              )
          )
      )

theorem setTrialStrain_L647_frame (m : Libm) (s : State) (strain : ℚ) : Frame s (setTrialStrain_L647 m s strain) := by
  unfold setTrialStrain_L647
  have h : Frame s s := frame_refl s
  exact
    frame_ite (
        frame_step h (setTrialStrain_L649_frame ..)
      ) (
        frame_ite (
            frame_ite (
                frame_andThen (frame_step h (r9f_frame ..)) fun _ h =>
                frame_andThen (frame_step h (RAf_frame ..)) fun _ h =>
                frame_andThen (frame_step h (fcEturf_frame ..)) fun _ h =>
                frame_andThen (frame_step h ⟨rfl, rfl, rfl⟩) fun _ h =>
                frame_andThen (frame_step h ⟨rfl, rfl, rfl⟩) fun _ h =>
                frame_andThen (frame_step h ⟨rfl, rfl, rfl⟩) fun _ h =>
                frame_andThen (frame_step h ⟨rfl, rfl, rfl⟩) fun _ h =>
                frame_andThen (frame_step h ⟨rfl, rfl, rfl⟩) fun _ h =>
                frame_andThen (frame_step h ⟨rfl, rfl, rfl⟩) fun _ h =>
                frame_andThen (frame_step h (RAf_frame ..)) fun _ h =>
                frame_andThen (frame_step h (r12f_frame ..)) fun _ h =>
                frame_andThen (frame_step h ⟨rfl, rfl, rfl⟩) fun _ h =>
                frame_andThen (frame_step h (fcEturf_frame ..)) fun _ h =>
                frame_andThen (frame_step h ⟨rfl, rfl, rfl⟩) fun _ h =>
                frame_step h ⟨rfl, rfl, rfl⟩
              ) (
                frame_ite (
                    frame_andThen (frame_step h (r9f_frame ..)) fun _ h =>
                    frame_andThen (frame_step h ⟨rfl, rfl, rfl⟩) fun _ h =>
                    frame_andThen (frame_step h (RAf_frame ..)) fun _ h =>
                    frame_andThen (frame_step h (fcEturf_frame ..)) fun _ h =>
                    frame_andThen (frame_step h ⟨rfl, rfl, rfl⟩) fun _ h =>
                    frame_step h ⟨rfl, rfl, rfl⟩
                  ) (
                    frame_ite (
                        frame_andThen (frame_step h (r8f_frame ..)) fun _ h =>
                        frame_andThen (frame_step h ⟨rfl, rfl, rfl⟩) fun _ h =>
                        frame_andThen (frame_step h (RAf_frame ..)) fun _ h =>
                        frame_andThen (frame_step h (fcEturf_frame ..)) fun _ h =>
                        frame_andThen (frame_step h ⟨rfl, rfl, rfl⟩) fun _ h =>
                        frame_step h ⟨rfl, rfl, rfl⟩
                      ) (
                        frame_step h (fcEtpf_frame ..)
                      )
                  )
              )
          ) (
            frame_ite (
                frame_ite (
                    frame_andThen (frame_step h (r8f_frame ..)) fun _ h =>
                    frame_andThen (frame_step h (RAf_frame ..)) fun _ h =>
                    frame_andThen (frame_step h (fcEturf_frame ..)) fun _ h =>
                    frame_andThen (frame_step h ⟨rfl, rfl, rfl⟩) fun _ h =>
                    frame_andThen (frame_step h ⟨rfl, rfl, rfl⟩) fun _ h =>
                    frame_andThen (frame_step h ⟨rfl, rfl, rfl⟩) fun _ h =>
                    frame_andThen (frame_step h ⟨rfl, rfl, rfl⟩) fun _ h =>
                    frame_andThen (frame_step h ⟨rfl, rfl, rfl⟩) fun _ h =>
                    frame_andThen (frame_step h ⟨rfl, rfl, rfl⟩) fun _ h =>
                    frame_andThen (frame_step h (RAf_frame ..)) fun _ h =>
                    frame_andThen (frame_step h (r12f_frame ..)) fun _ h =>
                    frame_andThen (frame_step h ⟨rfl, rfl, rfl⟩) fun _ h =>
                    frame_andThen (frame_step h (fcEturf_frame ..)) fun _ h =>
                    frame_andThen (frame_step h ⟨rfl, rfl, rfl⟩) fun _ h =>
                    frame_step h ⟨rfl, rfl, rfl⟩
                  ) (
                    frame_ite (
                        frame_andThen (frame_step h (r8f_frame ..)) fun _ h =>
                        frame_andThen (frame_step h ⟨rfl, rfl, rfl⟩) fun _ h =>
                        frame_andThen (frame_step h (RAf_frame ..)) fun _ h =>
                        frame_andThen (frame_step h (fcEturf_frame ..)) fun _ h =>
                        frame_andThen (frame_step h ⟨rfl, rfl, rfl⟩) fun _ h =>
                        frame_step h ⟨rfl, rfl, rfl⟩
                      ) (
                        frame_step h (fcEtpf_frame ..)
                      )
                  )
              ) (
                frame_ite (
                    frame_andThen (frame_step h (fcEtpf_frame ..)) fun _ h =>
                    frame_andThen (frame_step h ⟨rfl, rfl, rfl⟩) fun _ h =>
                    frame_andThen (frame_step h ⟨rfl, rfl, rfl⟩) fun _ h =>
                    frame_andThen (frame_step h ⟨rfl, rfl, rfl⟩) fun _ h =>
                    frame_andThen (frame_step h ⟨rfl, rfl, rfl⟩) fun _ h =>
                    frame_andThen (frame_step h ⟨rfl, rfl, rfl⟩) fun _ h =>
                    frame_andThen (frame_step h ⟨rfl, rfl, rfl⟩) fun _ h =>
                    frame_andThen (frame_step h (RAf_frame ..)) fun _ h =>
                    frame_andThen (frame_step h (r12f_frame ..)) fun _ h =>
                    frame_andThen (frame_step h ⟨rfl, rfl, rfl⟩) fun _ h =>
                    frame_andThen (frame_step h (fcEturf_frame ..)) fun _ h =>
                    frame_andThen (frame_step h ⟨rfl, rfl, rfl⟩) fun _ h =>
                    frame_step h ⟨rfl, rfl, rfl⟩
                  ) (
                    frame_step h (fcEtpf_frame ..)
                  )
              )
          )
      )

theorem setTrialStrain_L647_else_frame (m : Libm) (s : State) (strain : ℚ) : Frame s (setTrialStrain_L647_else m s strain) := by
  unfold setTrialStrain_L647_else
  have h : Frame s s := frame_refl s
  exact
    frame_ite (
        frame_ite (
            frame_andThen (frame_step h (r88f_frame ..)) fun _ h =>
            frame_andThen (frame_step h (RAf_frame ..)) fun _ h =>
            frame_andThen (frame_step h (fcEturf_frame ..)) fun _ h =>
            frame_andThen (frame_step h ⟨rfl, rfl, rfl⟩) fun _ h =>
            frame_andThen (frame_step h ⟨rfl, rfl, rfl⟩) fun _ h =>
            frame_andThen (frame_step h ⟨rfl, rfl, rfl⟩) fun _ h =>
            frame_andThen (frame_step h ⟨rfl, rfl, rfl⟩) fun _ h =>
            frame_andThen (frame_step h (RAf_frame ..)) fun _ h =>
            frame_andThen (frame_step h (r12f_frame ..)) fun _ h =>
            frame_andThen (frame_step h ⟨rfl, rfl, rfl⟩) fun _ h =>
            frame_andThen (frame_step h (fcEturf_frame ..)) fun _ h =>
            frame_andThen (frame_step h ⟨rfl, rfl, rfl⟩) fun _ h =>
            frame_step h ⟨rfl, rfl, rfl⟩
          ) (
            frame_ite (
                frame_andThen (frame_step h (r88f_frame ..)) fun _ h =>
                frame_andThen (frame_step h ⟨rfl, rfl, rfl⟩) fun _ h =>
                frame_andThen (frame_step h (RAf_frame ..)) fun _ h =>
                frame_andThen (frame_step h (fcEturf_frame ..)) fun _ h =>
                frame_andThen (frame_step h ⟨rfl, rfl, rfl⟩) fun _ h =>
                frame_step h ⟨rfl, rfl, rfl⟩
              ) (
                frame_step h (fcEtpf_frame ..)
              )
          )
      ) (
        frame_ite (
            frame_andThen (frame_step h (fcEtpf_frame ..)) fun _ h =>
            frame_andThen (frame_step h ⟨rfl, rfl, rfl⟩) fun _ h =>
            frame_andThen (frame_step h ⟨rfl, rfl, rfl⟩) fun _ h =>
            frame_andThen (frame_step h ⟨rfl, rfl, rfl⟩) fun _ h =>
            frame_andThen (frame_step h ⟨rfl, rfl, rfl⟩) fun _ h =>
            frame_andThen (frame_step h ⟨rfl, rfl, rfl⟩) fun _ h =>
            frame_andThen (frame_step h ⟨rfl, rfl, rfl⟩) fun _ h =>
            frame_andThen (frame_step h (RAf_frame ..)) fun _ h =>
            frame_andThen (frame_step h (r12f_frame ..)) fun _ h =>
            frame_andThen (frame_step h ⟨rfl, rfl, rfl⟩) fun _ h =>
            frame_andThen (frame_step h (fcEturf_frame ..)) fun _ h =>
            frame_andThen (frame_step h ⟨rfl, rfl, rfl⟩) fun _ h =>
            frame_step h ⟨rfl, rfl, rfl⟩
          ) (
            frame_step h (fcEtpf_frame ..)
          )
      )

theorem setTrialStrain_L642_frame (m : Libm) (s : State) (strain : ℚ) : Frame s (setTrialStrain_L642 m s strain) := by
  unfold setTrialStrain_L642
  have h : Frame s s := frame_refl s
  exact
    frame_andThen (frame_step h ⟨rfl, rfl, rfl⟩) fun _ h =>
    frame_andThen (frame_step h ⟨rfl, rfl, rfl⟩) fun _ h =>
    frame_ite (
        frame_step h (setTrialStrain_L647_frame ..)
      ) (
        frame_step h (setTrialStrain_L647_else_frame ..)
      )

theorem setTrialStrain_L1012_frame (m : Libm) (s : State) (strain : ℚ) : Frame s (setTrialStrain_L1012 m s strain) := by
  unfold setTrialStrain_L1012
  have h : Frame s s := frame_refl s
  exact
    frame_ite (
        frame_andThen (frame_step h (r3f_frame ..)) fun _ h =>
        frame_andThen (frame_step h (RAf_frame ..)) fun _ h =>
        frame_andThen (frame_step h (fcEturf_frame ..)) fun _ h =>
        frame_andThen (frame_step h ⟨rfl, rfl, rfl⟩) fun _ h =>
        frame_andThen (frame_step h ⟨rfl, rfl, rfl⟩) fun _ h =>
        frame_andThen (frame_step h ⟨rfl, rfl, rfl⟩) fun _ h =>
        frame_andThen (frame_step h ⟨rfl, rfl, rfl⟩) fun _ h =>
        frame_andThen (frame_step h ⟨rfl, rfl, rfl⟩) fun _ h =>
        frame_andThen (frame_step h ⟨rfl, rfl, rfl⟩) fun _ h =>
        frame_andThen (frame_step h (RAf_frame ..)) fun _ h =>
        frame_andThen (frame_step h (r12f_frame ..)) fun _ h =>
        frame_andThen (frame_step h ⟨rfl, rfl, rfl⟩) fun _ h =>
        frame_andThen (frame_step h (fcEturf_frame ..)) fun _ h =>
        frame_andThen (frame_step h ⟨rfl, rfl, rfl⟩) fun _ h =>
        frame_step h ⟨rfl, rfl, rfl⟩
      ) (
        frame_ite (
            frame_andThen (frame_step h (r3f_frame ..)) fun _ h =>
            frame_andThen (frame_step h ⟨rfl, rfl, rfl⟩) fun _ h =>
            frame_andThen (frame_step h (RAf_frame ..)) fun _ h =>
            frame_andThen (frame_step h (fcEturf_frame ..)) fun _ h =>
            frame_andThen (frame_step h ⟨rfl, rfl, rfl⟩) fun _ h =>
            frame_step h ⟨rfl, rfl, rfl⟩
          ) (
            frame_ite (
                frame_andThen (frame_step h (r9f_frame ..)) fun _ h =>
                frame_andThen (frame_step h ⟨rfl, rfl, rfl⟩) fun _ h =>
                frame_andThen (frame_step h (RAf_frame ..)) fun _ h =>
                frame_andThen (frame_step h (fcEturf_frame ..)) fun _ h =>
                frame_andThen (frame_step h ⟨rfl, rfl, rfl⟩) fun _ h =>
                frame_step h ⟨rfl, rfl, rfl⟩
              ) (
                frame_ite (
                    frame_andThen (frame_step h (r8f_frame ..)) fun _ h =>
                    frame_andThen (frame_step h ⟨rfl, rfl, rfl⟩) fun _ h =>
                    frame_andThen (frame_step h (RAf_frame ..)) fun _ h =>
                    frame_andThen (frame_step h (fcEturf_frame ..)) fun _ h =>
                    frame_andThen (frame_step h ⟨rfl, rfl, rfl⟩) fun _ h =>
                    frame_step h ⟨rfl, rfl, rfl⟩
                  ) (
                    frame_step h (fcEtpf_frame ..)
                  )
              )
          )
      )

theorem setTrialStrain_L1004_frame (m : Libm) (s : State) (strain : ℚ) : Frame s (setTrialStrain_L1004 m s strain) := by
  unfold setTrialStrain_L1004
  have h : Frame s s := frame_refl s
  exact
    frame_andThen (frame_step h ⟨rfl, rfl, rfl⟩) fun _ h =>
    frame_andThen (frame_step h ⟨rfl, rfl, rfl⟩) fun _ h =>
    frame_andThen (frame_step h ⟨rfl, rfl, rfl⟩) fun _ h =>
    frame_andThen (frame_step h ⟨rfl, rfl, rfl⟩) fun _ h =>
    frame_ite (
        frame_step h (setTrialStrain_L1012_frame ..)
      ) (
        frame_ite (
            frame_ite (
                frame_andThen (frame_step h (r9f_frame ..)) fun _ h =>
                frame_andThen (frame_step h (RAf_frame ..)) fun _ h =>
                frame_andThen (frame_step h (fcEturf_frame ..)) fun _ h =>
                frame_andThen (frame_step h ⟨rfl, rfl, rfl⟩) fun _ h =>
                frame_andThen (frame_step h ⟨rfl, rfl, rfl⟩) fun _ h =>
                frame_andThen (frame_step h ⟨rfl, rfl, rfl⟩) fun _ h =>
                frame_andThen (frame_step h ⟨rfl, rfl, rfl⟩) fun _ h =>
                frame_andThen (frame_step h ⟨rfl, rfl, rfl⟩) fun _ h =>
                frame_andThen (frame_step h ⟨rfl, rfl, rfl⟩) fun _ h =>
                frame_andThen (frame_step h (RAf_frame ..)) fun _ h =>
                frame_andThen (frame_step h (r12f_frame ..)) fun _ h =>
                frame_andThen (frame_step h ⟨rfl, rfl, rfl⟩) fun _ h =>
                frame_andThen (frame_step h (fcEturf_frame ..)) fun _ h =>
                frame_andThen (frame_step h ⟨rfl, rfl, rfl⟩) fun _ h =>
                frame_step h ⟨rfl, rfl, rfl⟩
              ) (
                frame_ite (
                    frame_andThen (frame_step h (r9f_frame ..)) fun _ h =>
                    frame_andThen (frame_step h ⟨rfl, rfl, rfl⟩) fun _ h =>
                    frame_andThen (frame_step h (RAf_frame ..)) fun _ h =>
                    frame_andThen (frame_step h (fcEturf_frame ..)) fun _ h =>
                    frame_andThen (frame_step h ⟨rfl, rfl, rfl⟩) fun _ h =>
                    frame_step h ⟨rfl, rfl, rfl⟩
                  ) (
                    frame_ite (
                        frame_andThen (frame_step h (r8f_frame ..)) fun _ h =>
                        frame_andThen (frame_step h ⟨rfl, rfl, rfl⟩) fun _ h =>
                        frame_andThen (frame_step h (RAf_frame ..)) fun _ h =>
                        frame_andThen (frame_step h (fcEturf_frame ..)) fun _ h =>
                        frame_andThen (frame_step h ⟨rfl, rfl, rfl⟩) fun _ h =>
                        frame_step h ⟨rfl, rfl, rfl⟩
                      ) (
                        frame_step h (fcEtpf_frame ..)
                      )
                  )
              )
          ) (
            frame_ite (
                frame_ite (
                    frame_andThen (frame_step h (r8f_frame ..)) fun _ h =>
                    frame_andThen (frame_step h (RAf_frame ..)) fun _ h =>
                    frame_andThen (frame_step h (fcEturf_frame ..)) fun _ h =>
                    frame_andThen (frame_step h ⟨rfl, rfl, rfl⟩) fun _ h =>
                    frame_andThen (frame_step h ⟨rfl, rfl, rfl⟩) fun _ h =>
                    frame_andThen (frame_step h ⟨rfl, rfl, rfl⟩) fun _ h =>
                    frame_andThen (frame_step h ⟨rfl, rfl, rfl⟩) fun _ h =>
                    frame_andThen (frame_step h ⟨rfl, rfl, rfl⟩) fun _ h =>
                    frame_andThen (frame_step h ⟨rfl, rfl, rfl⟩) fun _ h =>
                    frame_andThen (frame_step h (RAf_frame ..)) fun _ h =>
                    frame_andThen (frame_step h (r12f_frame ..)) fun _ h =>
                    frame_andThen (frame_step h ⟨rfl, rfl, rfl⟩) fun _ h =>
                    frame_andThen (frame_step h (fcEturf_frame ..)) fun _ h =>
                    frame_andThen (frame_step h ⟨rfl, rfl, rfl⟩) fun _ h =>
                    frame_step h ⟨rfl, rfl, rfl⟩
                  ) (
                    frame_ite (
                        frame_andThen (frame_step h (r8f_frame ..)) fun _ h =>
                        frame_andThen (frame_step h ⟨rfl, rfl, rfl⟩) fun _ h =>
                        frame_andThen (frame_step h (RAf_frame ..)) fun _ h =>
                        frame_andThen (frame_step h (fcEturf_frame ..)) fun _ h =>
                        frame_andThen (frame_step h ⟨rfl, rfl, rfl⟩) fun _ h =>
                        frame_step h ⟨rfl, rfl, rfl⟩
                      ) (
                        frame_step h (fcEtpf_frame ..)
                      )
                  )
              ) (
                frame_ite (
                    frame_andThen (frame_step h (fcEtpf_frame ..)) fun _ h =>
                    frame_andThen (frame_step h ⟨rfl, rfl, rfl⟩) fun _ h =>
                    frame_andThen (frame_step h ⟨rfl, rfl, rfl⟩) fun _ h =>
                    frame_andThen (frame_step h ⟨rfl, rfl, rfl⟩) fun _ h =>
                    frame_andThen (frame_step h ⟨rfl, rfl, rfl⟩) fun _ h =>
                    frame_andThen (frame_step h ⟨rfl, rfl, rfl⟩) fun _ h =>
                    frame_andThen (frame_step h ⟨rfl, rfl, rfl⟩) fun _ h =>
                    frame_andThen (frame_step h (RAf_frame ..)) fun _ h =>
                    frame_andThen (frame_step h (r12f_frame ..)) fun _ h =>
                    frame_andThen (frame_step h ⟨rfl, rfl, rfl⟩) fun _ h =>
                    frame_andThen (frame_step h (fcEturf_frame ..)) fun _ h =>
                    frame_andThen (frame_step h ⟨rfl, rfl, rfl⟩) fun _ h =>
                    frame_step h ⟨rfl, rfl, rfl⟩
                  ) (
                    frame_step h (fcEtpf_frame ..)
                  )
              )
          )
      )

theorem setTrialStrain_L1002_frame (m : Libm) (s : State) (strain : ℚ) : Frame s (setTrialStrain_L1002 m s strain) := by
  unfold setTrialStrain_L1002
  have h : Frame s s := frame_refl s
  exact
    frame_ite (
        frame_step h (setTrialStrain_L1004_frame ..)
      ) (
        frame_andThen (frame_step h ⟨rfl, rfl, rfl⟩) fun _ h =>
        frame_andThen (frame_step h ⟨rfl, rfl, rfl⟩) fun _ h =>
        frame_andThen (frame_step h (e0eunpfunpf_frame ..)) fun _ h =>
        frame_andThen (frame_step h (esplnf_frame ..)) fun _ h =>
        frame_andThen (frame_step h (Eplnf_frame ..)) fun _ h =>
        frame_andThen (frame_step h (fnewpf_frame ..)) fun _ h =>
        frame_andThen (frame_step h (Enewpf_frame ..)) fun _ h =>
        frame_andThen (frame_step h (esrepf_frame ..)) fun _ h =>
        frame_andThen (frame_step h (freErepf_frame ..)) fun _ h =>
        frame_ite (
            frame_andThen (frame_step h (r3f_frame ..)) fun _ h =>
            frame_andThen (frame_step h ⟨rfl, rfl, rfl⟩) fun _ h =>
            frame_andThen (frame_step h (RAf_frame ..)) fun _ h =>
            frame_andThen (frame_step h (fcEturf_frame ..)) fun _ h =>
            frame_andThen (frame_step h ⟨rfl, rfl, rfl⟩) fun _ h =>
            frame_step h ⟨rfl, rfl, rfl⟩
          ) (
            frame_ite (
                frame_andThen (frame_step h (r9f_frame ..)) fun _ h =>
                frame_andThen (frame_step h ⟨rfl, rfl, rfl⟩) fun _ h =>
                frame_andThen (frame_step h (RAf_frame ..)) fun _ h =>
                frame_andThen (frame_step h (fcEturf_frame ..)) fun _ h =>
                frame_andThen (frame_step h ⟨rfl, rfl, rfl⟩) fun _ h =>
                frame_step h ⟨rfl, rfl, rfl⟩
              ) (
                frame_ite (
                    frame_andThen (frame_step h (r8f_frame ..)) fun _ h =>
                    frame_andThen (frame_step h ⟨rfl, rfl, rfl⟩) fun _ h =>
                    frame_andThen (frame_step h (RAf_frame ..)) fun _ h =>
                    frame_andThen (frame_step h (fcEturf_frame ..)) fun _ h =>
                    frame_andThen (frame_step h ⟨rfl, rfl, rfl⟩) fun _ h =>
                    frame_step h ⟨rfl, rfl, rfl⟩
                  ) (
                    frame_step h (fcEtpf_frame ..)
                  )
              )
          )
      )

theorem setTrialStrain_L367_frame (m : Libm) (s : State) (strain : ℚ) : Frame s (setTrialStrain_L367 m s strain) := by
  unfold setTrialStrain_L367
  have h : Frame s s := frame_refl s
  exact
    frame_ite (
        frame_andThen (frame_step h (setTrialStrain_L371_L382_frame ..)) fun _ h =>
        frame_ite (
            frame_andThen (frame_step h (r3f_frame ..)) fun _ h =>
            frame_andThen (frame_step h ⟨rfl, rfl, rfl⟩) fun _ h =>
            frame_andThen (frame_step h (RAf_frame ..)) fun _ h =>
            frame_andThen (frame_step h (fcEturf_frame ..)) fun _ h =>
            frame_andThen (frame_step h ⟨rfl, rfl, rfl⟩) fun _ h =>
            frame_step h ⟨rfl, rfl, rfl⟩
          ) (
            frame_ite (
                frame_andThen (frame_step h (r9f_frame ..)) fun _ h =>
                frame_andThen (frame_step h ⟨rfl, rfl, rfl⟩) fun _ h =>
                frame_andThen (frame_step h (RAf_frame ..)) fun _ h =>
                frame_andThen (frame_step h (fcEturf_frame ..)) fun _ h =>
                frame_andThen (frame_step h ⟨rfl, rfl, rfl⟩) fun _ h =>
                frame_step h ⟨rfl, rfl, rfl⟩
              ) (
                frame_ite (
                    frame_andThen (frame_step h (r8f_frame ..)) fun _ h =>
                    frame_andThen (frame_step h ⟨rfl, rfl, rfl⟩) fun _ h =>
                    frame_andThen (frame_step h (RAf_frame ..)) fun _ h =>
                    frame_andThen (frame_step h (fcEturf_frame ..)) fun _ h =>
                    frame_andThen (frame_step h ⟨rfl, rfl, rfl⟩) fun _ h =>
                    frame_step h ⟨rfl, rfl, rfl⟩
                  ) (
                    frame_step h (fcEtpf_frame ..)
                  )
              )
          )
      ) (
        frame_ite (
            frame_step h (setTrialStrain_L427_frame ..)
          ) (
            frame_ite (
                frame_step h (setTrialStrain_L642_frame ..)
              ) (
                frame_ite (
                    frame_andThen (frame_step h ⟨rfl, rfl, rfl⟩) fun _ h =>
                    frame_andThen (frame_step h ⟨rfl, rfl, rfl⟩) fun _ h =>
                    frame_andThen (
                        frame_ite (
                            frame_andThen (frame_step h ⟨rfl, rfl, rfl⟩) fun _ h =>
                            frame_andThen (frame_step h ⟨rfl, rfl, rfl⟩) fun _ h =>
                            frame_step h (eb1415f_frame ..)
                          ) (
                            frame_ite (
                                frame_andThen (frame_step h ⟨rfl, rfl, rfl⟩) fun _ h =>
                                frame_step h ⟨rfl, rfl, rfl⟩
                              ) (
                                h
                              )
                          )
                      ) fun _ h =>
                    frame_ite (
                        frame_andThen (frame_step h (r14f_frame ..)) fun _ h =>
                        frame_andThen (frame_step h ⟨rfl, rfl, rfl⟩) fun _ h =>
                        frame_andThen (frame_step h (RAf_frame ..)) fun _ h =>
                        frame_andThen (frame_step h (fcEturf_frame ..)) fun _ h =>
                        frame_andThen (frame_step h ⟨rfl, rfl, rfl⟩) fun _ h =>
                        frame_step h ⟨rfl, rfl, rfl⟩
                      ) (
                        frame_ite (
                            frame_andThen (frame_step h (r66f_frame ..)) fun _ h =>
                            frame_step h ⟨rfl, rfl, rfl⟩
                          ) (
                            frame_andThen (frame_step h (fcEtpr6f_frame ..)) fun _ h =>
                            frame_step h ⟨rfl, rfl, rfl⟩
                          )
                      )
                  ) (
                    frame_ite (
                        frame_andThen (frame_step h ⟨rfl, rfl, rfl⟩) fun _ h =>
                        frame_andThen (frame_step h ⟨rfl, rfl, rfl⟩) fun _ h =>
                        frame_andThen (frame_step h ⟨rfl, rfl, rfl⟩) fun _ h =>
                        frame_andThen (frame_step h (fnewstpf_frame ..)) fun _ h =>
                        frame_andThen (frame_step h (Enewstpf_frame ..)) fun _ h =>
                        frame_andThen (frame_step h (esrestpf_frame ..)) fun _ h =>
                        frame_andThen (frame_step h (freErestpf_frame ..)) fun _ h =>
                        frame_ite (
                            frame_andThen (frame_step h (r88f_frame ..)) fun _ h =>
                            frame_andThen (frame_step h ⟨rfl, rfl, rfl⟩) fun _ h =>
                            frame_andThen (frame_step h (RAf_frame ..)) fun _ h =>
                            frame_andThen (frame_step h (fcEturf_frame ..)) fun _ h =>
                            frame_andThen (frame_step h ⟨rfl, rfl, rfl⟩) fun _ h =>
                            frame_step h ⟨rfl, rfl, rfl⟩
                          ) (
                            frame_step h (fcEtpf_frame ..)
                          )
                      ) (
                        frame_ite (
                            frame_step h (setTrialStrain_L1002_frame ..)
                          ) (
                            h
                          )
                      )
                  )
              )
          )
      )

theorem setTrialStrain_L1423_frame (m : Libm) (s : State) (strain : ℚ) : Frame s (setTrialStrain_L1423 m s strain) := by
  unfold setTrialStrain_L1423
  have h : Frame s s := frame_refl s
  exact
    frame_ite (
        frame_andThen (frame_step h (r4f_frame ..)) fun _ h =>
        frame_andThen (frame_step h (RAf_frame ..)) fun _ h =>
        frame_andThen (frame_step h (fcEturf_frame ..)) fun _ h =>
        frame_andThen (frame_step h ⟨rfl, rfl, rfl⟩) fun _ h =>
        frame_andThen (frame_step h ⟨rfl, rfl, rfl⟩) fun _ h =>
        frame_andThen (frame_step h ⟨rfl, rfl, rfl⟩) fun _ h =>
        frame_andThen (frame_step h ⟨rfl, rfl, rfl⟩) fun _ h =>
        frame_andThen (frame_step h ⟨rfl, rfl, rfl⟩) fun _ h =>
        frame_andThen (frame_step h ⟨rfl, rfl, rfl⟩) fun _ h =>
        frame_andThen (frame_step h (RAf_frame ..)) fun _ h =>
        frame_andThen (frame_step h (r11f_frame ..)) fun _ h =>
        frame_andThen (frame_step h ⟨rfl, rfl, rfl⟩) fun _ h =>
        frame_andThen (frame_step h (fcEturf_frame ..)) fun _ h =>
        frame_andThen (frame_step h ⟨rfl, rfl, rfl⟩) fun _ h =>
        frame_step h ⟨rfl, rfl, rfl⟩
      ) (
        frame_ite (
            frame_andThen (frame_step h (r4f_frame ..)) fun _ h =>
            frame_andThen (frame_step h ⟨rfl, rfl, rfl⟩) fun _ h =>
            frame_andThen (frame_step h (RAf_frame ..)) fun _ h =>
            frame_andThen (frame_step h (fcEturf_frame ..)) fun _ h =>
            frame_andThen (frame_step h ⟨rfl, rfl, rfl⟩) fun _ h =>
            frame_step h ⟨rfl, rfl, rfl⟩
          ) (
            frame_ite (
                frame_andThen (frame_step h (r10f_frame ..)) fun _ h =>
                frame_andThen (frame_step h ⟨rfl, rfl, rfl⟩) fun _ h =>
                frame_andThen (frame_step h (RAf_frame ..)) fun _ h =>
                frame_andThen (frame_step h (fcEturf_frame ..)) fun _ h =>
                frame_andThen (frame_step h ⟨rfl, rfl, rfl⟩) fun _ h =>
                frame_andThen (
                    frame_ite (
                        frame_ite (
                            frame_andThen (frame_step h ⟨rfl, rfl, rfl⟩) fun _ h =>
                            frame_andThen (frame_step h ⟨rfl, rfl, rfl⟩) fun _ h =>
                            frame_step h ⟨rfl, rfl, rfl⟩
                          ) (
                            frame_andThen (frame_step h ⟨rfl, rfl, rfl⟩) fun _ h =>
                            frame_andThen (frame_step h ⟨rfl, rfl, rfl⟩) fun _ h =>
                            frame_step h ⟨rfl, rfl, rfl⟩
                          )
                      ) (
                        h
                      )
                  ) fun _ h =>
                frame_andThen (frame_step h ⟨rfl, rfl, rfl⟩) fun _ h =>
                frame_step h ⟨rfl, rfl, rfl⟩
              ) (
                frame_ite (
                    frame_andThen (frame_step h (r7f_frame ..)) fun _ h =>
                    frame_andThen (frame_step h ⟨rfl, rfl, rfl⟩) fun _ h =>
                    frame_andThen (frame_step h (RAf_frame ..)) fun _ h =>
                    frame_andThen (frame_step h (fcEturf_frame ..)) fun _ h =>
                    frame_andThen (frame_step h ⟨rfl, rfl, rfl⟩) fun _ h =>
                    frame_step h ⟨rfl, rfl, rfl⟩
                  ) (
                    frame_step h (fcEtnf_frame ..)
                  )
              )
          )
      )

theorem setTrialStrain_L1509_frame (m : Libm) (s : State) (strain : ℚ) : Frame s (setTrialStrain_L1509 m s strain) := by
  unfold setTrialStrain_L1509
  have h : Frame s s := frame_refl s
  exact
    frame_ite (
        frame_andThen (frame_step h (r10f_frame ..)) fun _ h =>
        frame_andThen (frame_step h ⟨rfl, rfl, rfl⟩) fun _ h =>
        frame_andThen (frame_step h ⟨rfl, rfl, rfl⟩) fun _ h =>
        frame_andThen (frame_step h ⟨rfl, rfl, rfl⟩) fun _ h =>
        frame_andThen (frame_step h ⟨rfl, rfl, rfl⟩) fun _ h =>
        frame_andThen (frame_step h ⟨rfl, rfl, rfl⟩) fun _ h =>
        frame_andThen (frame_step h ⟨rfl, rfl, rfl⟩) fun _ h =>
        frame_andThen (frame_step h (RAf_frame ..)) fun _ h =>
        frame_andThen (frame_step h ⟨rfl, rfl, rfl⟩) fun _ h =>
        frame_andThen (frame_step h ⟨rfl, rfl, rfl⟩) fun _ h =>
        frame_andThen (frame_step h (fcEturf_frame ..)) fun _ h =>
        frame_andThen (frame_step h ⟨rfl, rfl, rfl⟩) fun _ h =>
        frame_andThen (frame_step h ⟨rfl, rfl, rfl⟩) fun _ h =>
        frame_andThen (frame_step h ⟨rfl, rfl, rfl⟩) fun _ h =>
        frame_andThen (
            frame_ite (
                frame_ite (
                    frame_andThen (frame_step h ⟨rfl, rfl, rfl⟩) fun _ h =>
                    frame_step h ⟨rfl, rfl, rfl⟩
                  ) (
                    frame_andThen (frame_step h ⟨rfl, rfl, rfl⟩) fun _ h =>
                    frame_step h ⟨rfl, rfl, rfl⟩
                  )
              ) (
                h
              )
          ) fun _ h =>
        frame_andThen (frame_step h ⟨rfl, rfl, rfl⟩) fun _ h =>
        frame_andThen (frame_step h ⟨rfl, rfl, rfl⟩) fun _ h =>
        frame_andThen (frame_step h ⟨rfl, rfl, rfl⟩) fun _ h =>
        frame_andThen (frame_step h ⟨rfl, rfl, rfl⟩) fun _ h =>
        frame_andThen (frame_step h (RAf_frame ..)) fun _ h =>
        frame_andThen (frame_step h (r11f_frame ..)) fun _ h =>
        frame_andThen (frame_step h ⟨rfl, rfl, rfl⟩) fun _ h =>
        frame_andThen (frame_step h (fcEturf_frame ..)) fun _ h =>
        frame_andThen (frame_step h ⟨rfl, rfl, rfl⟩) fun _ h =>
        frame_step h ⟨rfl, rfl, rfl⟩
      ) (
        frame_ite (
            frame_andThen (frame_step h (r10f_frame ..)) fun _ h =>
            frame_andThen (frame_step h ⟨rfl, rfl, rfl⟩) fun _ h =>
            frame_andThen (frame_step h (RAf_frame ..)) fun _ h =>
            frame_andThen (frame_step h (fcEturf_frame ..)) fun _ h =>
            frame_andThen (frame_step h ⟨rfl, rfl, rfl⟩) fun _ h =>
            frame_andThen (
                frame_ite (
                    frame_ite (
                        frame_andThen (frame_step h ⟨rfl, rfl, rfl⟩) fun _ h =>
                        frame_andThen (frame_step h ⟨rfl, rfl, rfl⟩) fun _ h =>
                        frame_step h ⟨rfl, rfl, rfl⟩
                      ) (
                        frame_andThen (frame_step h ⟨rfl, rfl, rfl⟩) fun _ h =>
                        frame_andThen (frame_step h ⟨rfl, rfl, rfl⟩) fun _ h =>
                        frame_step h ⟨rfl, rfl, rfl⟩
                      )
                  ) (
                    h
                  )
              ) fun _ h =>
            frame_andThen (frame_step h ⟨rfl, rfl, rfl⟩) fun _ h =>
            frame_step h ⟨rfl, rfl, rfl⟩
          ) (
            frame_ite (
                frame_andThen (frame_step h (r7f_frame ..)) fun _ h =>
                frame_andThen (frame_step h ⟨rfl, rfl, rfl⟩) fun _ h =>
                frame_andThen (frame_step h (RAf_frame ..)) fun _ h =>
                frame_andThen (frame_step h (fcEturf_frame ..)) fun _ h =>
                frame_andThen (frame_step h ⟨rfl, rfl, rfl⟩) fun _ h =>
                frame_step h ⟨rfl, rfl, rfl⟩
              ) (
                frame_step h (fcEtnf_frame ..)
              )
          )
      )

theorem setTrialStrain_L1421_frame (m : Libm) (s : State) (strain : ℚ) : Frame s (setTrialStrain_L1421 m s strain) := by
  unfold setTrialStrain_L1421
  have h : Frame s s := frame_refl s
  exact
    frame_ite (
        frame_step h (setTrialStrain_L1423_frame ..)
      ) (
        frame_ite (
            frame_step h (setTrialStrain_L1509_frame ..)
          ) (
            frame_ite (
                frame_ite (
                    frame_andThen (frame_step h (r7f_frame ..)) fun _ h =>
                    frame_andThen (frame_step h (RAf_frame ..)) fun _ h =>
                    frame_andThen (frame_step h (fcEturf_frame ..)) fun _ h =>
                    frame_andThen (frame_step h ⟨rfl, rfl, rfl⟩) fun _ h =>
                    frame_andThen (frame_step h ⟨rfl, rfl, rfl⟩) fun _ h =>
                    frame_andThen (frame_step h ⟨rfl, rfl, rfl⟩) fun _ h =>
                    frame_andThen (frame_step h ⟨rfl, rfl, rfl⟩) fun _ h =>
                    frame_andThen (frame_step h ⟨rfl, rfl, rfl⟩) fun _ h =>
                    frame_andThen (frame_step h ⟨rfl, rfl, rfl⟩) fun _ h =>
                    frame_andThen (frame_step h (RAf_frame ..)) fun _ h =>
                    frame_andThen (frame_step h (r11f_frame ..)) fun _ h =>
                    frame_andThen (frame_step h ⟨rfl, rfl, rfl⟩) fun _ h =>
                    frame_andThen (frame_step h (fcEturf_frame ..)) fun _ h =>
                    frame_andThen (frame_step h ⟨rfl, rfl, rfl⟩) fun _ h =>
                    frame_step h ⟨rfl, rfl, rfl⟩
                  ) (
                    frame_ite (
                        frame_andThen (frame_step h (r7f_frame ..)) fun _ h =>
                        frame_andThen (frame_step h ⟨rfl, rfl, rfl⟩) fun _ h =>
                        frame_andThen (frame_step h (RAf_frame ..)) fun _ h =>
                        frame_andThen (frame_step h (fcEturf_frame ..)) fun _ h =>
                        frame_andThen (frame_step h ⟨rfl, rfl, rfl⟩) fun _ h =>
                        frame_step h ⟨rfl, rfl, rfl⟩
                      ) (
                        frame_step h (fcEtnf_frame ..)
                      )
                  )
              ) (
                frame_ite (
                    frame_andThen (frame_step h (fcEtnf_frame ..)) fun _ h =>
                    frame_andThen (frame_step h ⟨rfl, rfl, rfl⟩) fun _ h =>
                    frame_andThen (frame_step h ⟨rfl, rfl, rfl⟩) fun _ h =>
                    frame_andThen (frame_step h ⟨rfl, rfl, rfl⟩) fun _ h =>
                    frame_andThen (frame_step h ⟨rfl, rfl, rfl⟩) fun _ h =>
                    frame_andThen (frame_step h ⟨rfl, rfl, rfl⟩) fun _ h =>
                    frame_andThen (frame_step h ⟨rfl, rfl, rfl⟩) fun _ h =>
                    frame_andThen (frame_step h (RAf_frame ..)) fun _ h =>
                    frame_andThen (frame_step h (r11f_frame ..)) fun _ h =>
                    frame_andThen (frame_step h ⟨rfl, rfl, rfl⟩) fun _ h =>
                    frame_andThen (frame_step h (fcEturf_frame ..)) fun _ h =>
                    frame_andThen (frame_step h ⟨rfl, rfl, rfl⟩) fun _ h =>
                    frame_step h ⟨rfl, rfl, rfl⟩
                  ) (
                    frame_step h (fcEtnf_frame ..)
                  )
              )
          )
      )

theorem setTrialStrain_L1421_else_frame (m : Libm) (s : State) (strain : ℚ) : Frame s (setTrialStrain_L1421_else m s strain) := by
  unfold setTrialStrain_L1421_else
  have h : Frame s s := frame_refl s
  exact
    frame_ite (
        frame_ite (
            frame_andThen (frame_step h (r77f_frame ..)) fun _ h =>
            frame_andThen (frame_step h (RAf_frame ..)) fun _ h =>
            frame_andThen (frame_step h (fcEturf_frame ..)) fun _ h =>
            frame_andThen (frame_step h ⟨rfl, rfl, rfl⟩) fun _ h =>
            frame_andThen (frame_step h ⟨rfl, rfl, rfl⟩) fun _ h =>
            frame_andThen (frame_step h ⟨rfl, rfl, rfl⟩) fun _ h =>
            frame_andThen (frame_step h ⟨rfl, rfl, rfl⟩) fun _ h =>
            frame_andThen (frame_step h ⟨rfl, rfl, rfl⟩) fun _ h =>
            frame_andThen (frame_step h ⟨rfl, rfl, rfl⟩) fun _ h =>
            frame_andThen (frame_step h (RAf_frame ..)) fun _ h =>
            frame_andThen (frame_step h (r11f_frame ..)) fun _ h =>
            frame_andThen (frame_step h ⟨rfl, rfl, rfl⟩) fun _ h =>
            frame_andThen (frame_step h (fcEturf_frame ..)) fun _ h =>
            frame_andThen (frame_step h ⟨rfl, rfl, rfl⟩) fun _ h =>
            frame_step h ⟨rfl, rfl, rfl⟩
          ) (
            frame_ite (
                frame_andThen (frame_step h (r77f_frame ..)) fun _ h =>
                frame_andThen (frame_step h ⟨rfl, rfl, rfl⟩) fun _ h =>
                frame_andThen (frame_step h (RAf_frame ..)) fun _ h =>
                frame_andThen (frame_step h (fcEturf_frame ..)) fun _ h =>
                frame_andThen (frame_step h ⟨rfl, rfl, rfl⟩) fun _ h =>
                frame_step h ⟨rfl, rfl, rfl⟩
              ) (
                frame_step h (fcEtnf_frame ..)
              )
          )
      ) (
        frame_ite (
            frame_andThen (frame_step h (fcEtnf_frame ..)) fun _ h =>
            frame_andThen (frame_step h ⟨rfl, rfl, rfl⟩) fun _ h =>
            frame_andThen (frame_step h ⟨rfl, rfl, rfl⟩) fun _ h =>
            frame_andThen (frame_step h ⟨rfl, rfl, rfl⟩) fun _ h =>
            frame_andThen (frame_step h ⟨rfl, rfl, rfl⟩) fun _ h =>
            frame_andThen (frame_step h ⟨rfl, rfl, rfl⟩) fun _ h =>
            frame_andThen (frame_step h ⟨rfl, rfl, rfl⟩) fun _ h =>
            frame_andThen (frame_step h (RAf_frame ..)) fun _ h =>
            frame_andThen (frame_step h (r11f_frame ..)) fun _ h =>
            frame_andThen (frame_step h ⟨rfl, rfl, rfl⟩) fun _ h =>
            frame_andThen (frame_step h (fcEturf_frame ..)) fun _ h =>
            frame_andThen (frame_step h ⟨rfl, rfl, rfl⟩) fun _ h =>
            frame_step h ⟨rfl, rfl, rfl⟩
          ) (
            frame_step h (fcEtnf_frame ..)
          )
      )

theorem setTrialStrain_L1419_frame (m : Libm) (s : State) (strain : ℚ) : Frame s (setTrialStrain_L1419 m s strain) := by
  unfold setTrialStrain_L1419
  have h : Frame s s := frame_refl s
  exact
    frame_ite (
        frame_step h (setTrialStrain_L1421_frame ..)
      ) (
        frame_step h (setTrialStrain_L1421_else_frame ..)
      )

theorem setTrialStrain_L1762_frame (m : Libm) (s : State) (strain : ℚ) : Frame s (setTrialStrain_L1762 m s strain) := by
  unfold setTrialStrain_L1762
  have h : Frame s s := frame_refl s
  exact
    frame_ite (
        frame_andThen (frame_step h (r13f_frame ..)) fun _ h =>
        frame_andThen (frame_step h ⟨rfl, rfl, rfl⟩) fun _ h =>
        frame_andThen (frame_step h ⟨rfl, rfl, rfl⟩) fun _ h =>
        frame_andThen (frame_step h ⟨rfl, rfl, rfl⟩) fun _ h =>
        frame_andThen (frame_step h ⟨rfl, rfl, rfl⟩) fun _ h =>
        frame_andThen (frame_step h ⟨rfl, rfl, rfl⟩) fun _ h =>
        frame_andThen (frame_step h ⟨rfl, rfl, rfl⟩) fun _ h =>
        frame_andThen (frame_step h (RAf_frame ..)) fun _ h =>
        frame_andThen (frame_step h ⟨rfl, rfl, rfl⟩) fun _ h =>
        frame_andThen (frame_step h ⟨rfl, rfl, rfl⟩) fun _ h =>
        frame_andThen (frame_step h (fcEturf_frame ..)) fun _ h =>
        frame_andThen (frame_step h ⟨rfl, rfl, rfl⟩) fun _ h =>
        frame_andThen (frame_step h ⟨rfl, rfl, rfl⟩) fun _ h =>
        frame_andThen (frame_step h ⟨rfl, rfl, rfl⟩) fun _ h =>
        frame_andThen (
            frame_ite (
                frame_ite (
                    frame_andThen (frame_step h ⟨rfl, rfl, rfl⟩) fun _ h =>
                    frame_step h ⟨rfl, rfl, rfl⟩
                  ) (
                    frame_andThen (frame_step h ⟨rfl, rfl, rfl⟩) fun _ h =>
                    frame_step h ⟨rfl, rfl, rfl⟩
                  )
              ) (
                h
              )
          ) fun _ h =>
        frame_andThen (frame_step h ⟨rfl, rfl, rfl⟩) fun _ h =>
        frame_andThen (frame_step h ⟨rfl, rfl, rfl⟩) fun _ h =>
        frame_andThen (frame_step h ⟨rfl, rfl, rfl⟩) fun _ h =>
        frame_andThen (frame_step h ⟨rfl, rfl, rfl⟩) fun _ h =>
        frame_andThen (frame_step h (RAf_frame ..)) fun _ h =>
        frame_andThen (frame_step h (r15f_frame ..)) fun _ h =>
        frame_andThen (frame_step h ⟨rfl, rfl, rfl⟩) fun _ h =>
        frame_andThen (frame_step h (fcEturf_frame ..)) fun _ h =>
        frame_andThen (frame_step h ⟨rfl, rfl, rfl⟩) fun _ h =>
        frame_step h ⟨rfl, rfl, rfl⟩
      ) (
        frame_ite (
            frame_andThen (frame_step h (r13f_frame ..)) fun _ h =>
            frame_andThen (frame_step h ⟨rfl, rfl, rfl⟩) fun _ h =>
            frame_andThen (frame_step h (RAf_frame ..)) fun _ h =>
            frame_andThen (frame_step h (fcEturf_frame ..)) fun _ h =>
            frame_andThen (frame_step h ⟨rfl, rfl, rfl⟩) fun _ h =>
            frame_andThen (
                frame_ite (
                    frame_ite (
                        frame_andThen (frame_step h ⟨rfl, rfl, rfl⟩) fun _ h =>
                        frame_andThen (frame_step h ⟨rfl, rfl, rfl⟩) fun _ h =>
                        frame_step h ⟨rfl, rfl, rfl⟩
                      ) (
                        frame_andThen (frame_step h ⟨rfl, rfl, rfl⟩) fun _ h =>
                        frame_andThen (frame_step h ⟨rfl, rfl, rfl⟩) fun _ h =>
                        frame_step h ⟨rfl, rfl, rfl⟩
                      )
                  ) (
                    h
                  )
              ) fun _ h =>
            frame_andThen (frame_step h ⟨rfl, rfl, rfl⟩) fun _ h =>
            frame_step h ⟨rfl, rfl, rfl⟩
          ) (
            frame_ite (
                frame_andThen (frame_step h (r7f_frame ..)) fun _ h =>
                frame_andThen (frame_step h ⟨rfl, rfl, rfl⟩) fun _ h =>
                frame_andThen (frame_step h (RAf_frame ..)) fun _ h =>
                frame_andThen (frame_step h (fcEturf_frame ..)) fun _ h =>
                frame_andThen (frame_step h ⟨rfl, rfl, rfl⟩) fun _ h =>
                frame_step h ⟨rfl, rfl, rfl⟩
              ) (
                frame_step h (fcEtnf_frame ..)
              )
          )
      )

theorem setTrialStrain_L367_else_frame (m : Libm) (s : State) (strain : ℚ) : Frame s (setTrialStrain_L367_else m s strain) := by
  unfold setTrialStrain_L367_else
  have h : Frame s s := frame_refl s
  exact
    frame_ite (
        frame_ite (
            frame_andThen (frame_step h (r4f_frame ..)) fun _ h =>
            frame_andThen (frame_step h ⟨rfl, rfl, rfl⟩) fun _ h =>
            frame_andThen (frame_step h (RAf_frame ..)) fun _ h =>
            frame_andThen (frame_step h (fcEturf_frame ..)) fun _ h =>
            frame_andThen (frame_step h ⟨rfl, rfl, rfl⟩) fun _ h =>
            frame_step h ⟨rfl, rfl, rfl⟩
          ) (
            frame_ite (
                frame_andThen (frame_step h (r10f_frame ..)) fun _ h =>
                frame_andThen (frame_step h ⟨rfl, rfl, rfl⟩) fun _ h =>
                frame_andThen (frame_step h (RAf_frame ..)) fun _ h =>
                frame_andThen (frame_step h (fcEturf_frame ..)) fun _ h =>
                frame_andThen (frame_step h ⟨rfl, rfl, rfl⟩) fun _ h =>
                frame_andThen (
                    frame_ite (
                        frame_ite (
                            frame_andThen (frame_step h ⟨rfl, rfl, rfl⟩) fun _ h =>
                            frame_andThen (frame_step h ⟨rfl, rfl, rfl⟩) fun _ h =>
                            frame_step h ⟨rfl, rfl, rfl⟩
                          ) (
                            frame_andThen (frame_step h ⟨rfl, rfl, rfl⟩) fun _ h =>
                            frame_andThen (frame_step h ⟨rfl, rfl, rfl⟩) fun _ h =>
                            frame_step h ⟨rfl, rfl, rfl⟩
                          )
                      ) (
                        h
                      )
                  ) fun _ h =>
                frame_andThen (frame_step h ⟨rfl, rfl, rfl⟩) fun _ h =>
                frame_step h ⟨rfl, rfl, rfl⟩
              ) (
                frame_ite (
                    frame_andThen (frame_step h (r7f_frame ..)) fun _ h =>
                    frame_andThen (frame_step h ⟨rfl, rfl, rfl⟩) fun _ h =>
                    frame_andThen (frame_step h (RAf_frame ..)) fun _ h =>
                    frame_andThen (frame_step h (fcEturf_frame ..)) fun _ h =>
                    frame_andThen (frame_step h ⟨rfl, rfl, rfl⟩) fun _ h =>
                    frame_step h ⟨rfl, rfl, rfl⟩
                  ) (
                    frame_step h (fcEtnf_frame ..)
                  )
              )
          )
      ) (
        frame_ite (
            frame_step h (fcEtnf_frame ..)
          ) (
            frame_ite (
                frame_ite (
                    frame_andThen (frame_step h (r77f_frame ..)) fun _ h =>
                    frame_andThen (frame_step h ⟨rfl, rfl, rfl⟩) fun _ h =>
                    frame_andThen (frame_step h (RAf_frame ..)) fun _ h =>
                    frame_andThen (frame_step h (fcEturf_frame ..)) fun _ h =>
                    frame_andThen (frame_step h ⟨rfl, rfl, rfl⟩) fun _ h =>
                    frame_step h ⟨rfl, rfl, rfl⟩
                  ) (
                    frame_step h (fcEtnf_frame ..)
                  )
              ) (
                frame_ite (
                    frame_ite (
                        frame_andThen (frame_step h (r13f_frame ..)) fun _ h =>
                        frame_andThen (frame_step h ⟨rfl, rfl, rfl⟩) fun _ h =>
                        frame_andThen (frame_step h (RAf_frame ..)) fun _ h =>
                        frame_andThen (frame_step h (fcEturf_frame ..)) fun _ h =>
                        frame_andThen (frame_step h ⟨rfl, rfl, rfl⟩) fun _ h =>
                        frame_andThen (
                            frame_ite (
                                frame_ite (
                                    frame_andThen (frame_step h ⟨rfl, rfl, rfl⟩) fun _ h =>
                                    frame_andThen (frame_step h ⟨rfl, rfl, rfl⟩) fun _ h =>
                                    frame_step h ⟨rfl, rfl, rfl⟩
                                  ) (
                                    frame_andThen (frame_step h ⟨rfl, rfl, rfl⟩) fun _ h =>
                                    frame_andThen (frame_step h ⟨rfl, rfl, rfl⟩) fun _ h =>
                                    frame_step h ⟨rfl, rfl, rfl⟩
                                  )
                              ) (
                                h
                              )
                          ) fun _ h =>
                        frame_andThen (frame_step h ⟨rfl, rfl, rfl⟩) fun _ h =>
                        frame_step h ⟨rfl, rfl, rfl⟩
                      ) (
                        frame_ite (
                            frame_andThen (frame_step h (r7f_frame ..)) fun _ h =>
                            frame_andThen (frame_step h ⟨rfl, rfl, rfl⟩) fun _ h =>
                            frame_andThen (frame_step h (RAf_frame ..)) fun _ h =>
                            frame_andThen (frame_step h (fcEturf_frame ..)) fun _ h =>
                            frame_andThen (frame_step h ⟨rfl, rfl, rfl⟩) fun _ h =>
                            frame_step h ⟨rfl, rfl, rfl⟩
                          ) (
                            frame_step h (fcEtnf_frame ..)
                          )
                      )
                  ) (
                    frame_ite (
                        frame_step h (setTrialStrain_L1419_frame ..)
                      ) (
                        frame_ite (
                            frame_step h (setTrialStrain_L1762_frame ..)
                          ) (
                            h
                          )
                      )
                  )
              )
          )
      )

theorem setTrialStrain_L365_frame (m : Libm) (s : State) (strain : ℚ) : Frame s (setTrialStrain_L365 m s strain) := by
  unfold setTrialStrain_L365
  have h : Frame s s := frame_refl s
  exact
    frame_ite (
        frame_step h (setTrialStrain_L367_frame ..)
      ) (
        frame_step h (setTrialStrain_L367_else_frame ..)
      )

theorem setTrialStrain_L1877_L1889_frame (m : Libm) (s : State) (strain : ℚ) : Frame s (setTrialStrain_L1877_L1889 m s strain) := by
  unfold setTrialStrain_L1877_L1889
  have h : Frame s s := frame_refl s
  exact
    frame_andThen (frame_step h ⟨rfl, rfl, rfl⟩) fun _ h =>
    frame_andThen (frame_step h ⟨rfl, rfl, rfl⟩) fun _ h =>
    frame_andThen (frame_step h (fcEtnf_frame ..)) fun _ h =>
    frame_andThen (frame_step h ⟨rfl, rfl, rfl⟩) fun _ h =>
    frame_andThen (frame_step h ⟨rfl, rfl, rfl⟩) fun _ h =>
    frame_andThen (frame_step h ⟨rfl, rfl, rfl⟩) fun _ h =>
    frame_andThen (frame_step h ⟨rfl, rfl, rfl⟩) fun _ h =>
    frame_andThen (frame_step h (fnewnf_frame ..)) fun _ h =>
    frame_step h (Enewnf_frame ..)

theorem setTrialStrain_L1874_frame (m : Libm) (s : State) (strain : ℚ) : Frame s (setTrialStrain_L1874 m s strain) := by
  unfold setTrialStrain_L1874
  have h : Frame s s := frame_refl s
  exact
    frame_andThen (frame_step h (setTrialStrain_L1877_L1889_frame ..)) fun _ h =>
    frame_ite (
        frame_andThen (frame_step h (r13f_frame ..)) fun _ h =>
        frame_andThen (frame_step h ⟨rfl, rfl, rfl⟩) fun _ h =>
        frame_andThen (frame_step h (RAf_frame ..)) fun _ h =>
        frame_andThen (frame_step h (fcEturf_frame ..)) fun _ h =>
        frame_andThen (frame_step h ⟨rfl, rfl, rfl⟩) fun _ h =>
        frame_andThen (
            frame_ite (
                frame_ite (
                    frame_andThen (frame_step h ⟨rfl, rfl, rfl⟩) fun _ h =>
                    frame_andThen (frame_step h ⟨rfl, rfl, rfl⟩) fun _ h =>
                    frame_step h ⟨rfl, rfl, rfl⟩
                  ) (
                    frame_andThen (frame_step h ⟨rfl, rfl, rfl⟩) fun _ h =>
                    frame_andThen (frame_step h ⟨rfl, rfl, rfl⟩) fun _ h =>
                    frame_step h ⟨rfl, rfl, rfl⟩
                  )
              ) (
                h
              )
          ) fun _ h =>
        frame_andThen (frame_step h ⟨rfl, rfl, rfl⟩) fun _ h =>
        frame_step h ⟨rfl, rfl, rfl⟩
      ) (
        frame_ite (
            frame_andThen (frame_step h (r7f_frame ..)) fun _ h =>
            frame_andThen (frame_step h ⟨rfl, rfl, rfl⟩) fun _ h =>
            frame_andThen (frame_step h (RAf_frame ..)) fun _ h =>
            frame_andThen (frame_step h (fcEturf_frame ..)) fun _ h =>
            frame_andThen (frame_step h ⟨rfl, rfl, rfl⟩) fun _ h =>
            frame_step h ⟨rfl, rfl, rfl⟩
          ) (
            frame_step h (fcEtnf_frame ..)
          )
      )

theorem setTrialStrain_L1937_frame (m : Libm) (s : State) (strain : ℚ) : Frame s (setTrialStrain_L1937 m s strain) := by
  unfold setTrialStrain_L1937
  have h : Frame s s := frame_refl s
  exact
    frame_andThen (frame_step h ⟨rfl, rfl, rfl⟩) fun _ h =>
    frame_andThen (frame_step h (fcEtpf_frame ..)) fun _ h =>
    frame_andThen (frame_step h ⟨rfl, rfl, rfl⟩) fun _ h =>
    frame_andThen (frame_step h (Esecpf_frame ..)) fun _ h =>
    frame_andThen (frame_step h (esplpf_frame ..)) fun _ h =>
    frame_andThen (frame_step h (Eplpf_frame ..)) fun _ h =>
    frame_ite (
        frame_andThen (frame_step h (r4f_frame ..)) fun _ h =>
        frame_andThen (frame_step h ⟨rfl, rfl, rfl⟩) fun _ h =>
        frame_andThen (frame_step h (RAf_frame ..)) fun _ h =>
        frame_andThen (frame_step h (fcEturf_frame ..)) fun _ h =>
        frame_andThen (frame_step h ⟨rfl, rfl, rfl⟩) fun _ h =>
        frame_step h ⟨rfl, rfl, rfl⟩
      ) (
        frame_ite (
            frame_andThen (frame_step h (r10f_frame ..)) fun _ h =>
            frame_andThen (frame_step h ⟨rfl, rfl, rfl⟩) fun _ h =>
            frame_andThen (frame_step h (RAf_frame ..)) fun _ h =>
            frame_andThen (frame_step h (fcEturf_frame ..)) fun _ h =>
            frame_andThen (frame_step h ⟨rfl, rfl, rfl⟩) fun _ h =>
            frame_andThen (
                frame_ite (
                    frame_ite (
                        frame_andThen (frame_step h ⟨rfl, rfl, rfl⟩) fun _ h =>
                        frame_andThen (frame_step h ⟨rfl, rfl, rfl⟩) fun _ h =>
                        frame_step h ⟨rfl, rfl, rfl⟩
                      ) (
                        frame_andThen (frame_step h ⟨rfl, rfl, rfl⟩) fun _ h =>
                        frame_andThen (frame_step h ⟨rfl, rfl, rfl⟩) fun _ h =>
                        frame_step h ⟨rfl, rfl, rfl⟩
                      )
                  ) (
                    h
                  )
              ) fun _ h =>
            frame_andThen (frame_step h ⟨rfl, rfl, rfl⟩) fun _ h =>
            frame_step h ⟨rfl, rfl, rfl⟩
          ) (
            frame_ite (
                frame_andThen (frame_step h (r7f_frame ..)) fun _ h =>
                frame_andThen (frame_step h ⟨rfl, rfl, rfl⟩) fun _ h =>
                frame_andThen (frame_step h (RAf_frame ..)) fun _ h =>
                frame_andThen (frame_step h (fcEturf_frame ..)) fun _ h =>
                frame_andThen (frame_step h ⟨rfl, rfl, rfl⟩) fun _ h =>
                frame_step h ⟨rfl, rfl, rfl⟩
              ) (
                frame_step h (fcEtnf_frame ..)
              )
          )
      )

theorem setTrialStrain_L2016_frame (m : Libm) (s : State) (strain : ℚ) : Frame s (setTrialStrain_L2016 m s strain) := by
  unfold setTrialStrain_L2016
  have h : Frame s s := frame_refl s
  exact
    frame_ite (
        frame_andThen (frame_step h (r4f_frame ..)) fun _ h =>
        frame_andThen (frame_step h (RAf_frame ..)) fun _ h =>
        frame_andThen (frame_step h (fcEturf_frame ..)) fun _ h =>
        frame_andThen (frame_step h ⟨rfl, rfl, rfl⟩) fun _ h =>
        frame_andThen (frame_step h ⟨rfl, rfl, rfl⟩) fun _ h =>
        frame_andThen (frame_step h ⟨rfl, rfl, rfl⟩) fun _ h =>
        frame_andThen (frame_step h ⟨rfl, rfl, rfl⟩) fun _ h =>
        frame_andThen (frame_step h ⟨rfl, rfl, rfl⟩) fun _ h =>
        frame_andThen (frame_step h ⟨rfl, rfl, rfl⟩) fun _ h =>
        frame_andThen (frame_step h (RAf_frame ..)) fun _ h =>
        frame_andThen (frame_step h (r11f_frame ..)) fun _ h =>
        frame_andThen (frame_step h ⟨rfl, rfl, rfl⟩) fun _ h =>
        frame_andThen (frame_step h (fcEturf_frame ..)) fun _ h =>
        frame_andThen (frame_step h ⟨rfl, rfl, rfl⟩) fun _ h =>
        frame_step h ⟨rfl, rfl, rfl⟩
      ) (
        frame_ite (
            frame_andThen (frame_step h (r4f_frame ..)) fun _ h =>
            frame_andThen (frame_step h ⟨rfl, rfl, rfl⟩) fun _ h =>
            frame_andThen (frame_step h (RAf_frame ..)) fun _ h =>
            frame_andThen (frame_step h (fcEturf_frame ..)) fun _ h =>
            frame_andThen (frame_step h ⟨rfl, rfl, rfl⟩) fun _ h =>
            frame_step h ⟨rfl, rfl, rfl⟩
          ) (
            frame_ite (
                frame_andThen (frame_step h (r10f_frame ..)) fun _ h =>
                frame_andThen (frame_step h ⟨rfl, rfl, rfl⟩) fun _ h =>
                frame_andThen (frame_step h (RAf_frame ..)) fun _ h =>
                frame_andThen (frame_step h (fcEturf_frame ..)) fun _ h =>
                frame_andThen (frame_step h ⟨rfl, rfl, rfl⟩) fun _ h =>
                frame_andThen (
                    frame_ite (
                        frame_ite (
                            frame_andThen (frame_step h ⟨rfl, rfl, rfl⟩) fun _ h =>
                            frame_andThen (frame_step h ⟨rfl, rfl, rfl⟩) fun _ h =>
                            frame_step h ⟨rfl, rfl, rfl⟩
                          ) (
                            frame_andThen (frame_step h ⟨rfl, rfl, rfl⟩) fun _ h =>
                            frame_andThen (frame_step h ⟨rfl, rfl, rfl⟩) fun _ h =>
                            frame_step h ⟨rfl, rfl, rfl⟩
                          )
                      ) (
                        h
                      )
                  ) fun _ h =>
                frame_andThen (frame_step h ⟨rfl, rfl, rfl⟩) fun _ h =>
                frame_step h ⟨rfl, rfl, rfl⟩
              ) (
                frame_ite (
                    frame_andThen (frame_step h (r7f_frame ..)) fun _ h =>
                    frame_andThen (frame_step h ⟨rfl, rfl, rfl⟩) fun _ h =>
                    frame_andThen (frame_step h (RAf_frame ..)) fun _ h =>
                    frame_andThen (frame_step h (fcEturf_frame ..)) fun _ h =>
                    frame_andThen (frame_step h ⟨rfl, rfl, rfl⟩) fun _ h =>
                    frame_step h ⟨rfl, rfl, rfl⟩
                  ) (
                    frame_step h (fcEtnf_frame ..)
                  )
              )
          )
      )

theorem setTrialStrain_L2101_frame (m : Libm) (s : State) (strain : ℚ) : Frame s (setTrialStrain_L2101 m s strain) := by
  unfold setTrialStrain_L2101
  have h : Frame s s := frame_refl s
  exact
    frame_ite (
        frame_andThen (frame_step h (r10f_frame ..)) fun _ h =>
        frame_andThen (frame_step h ⟨rfl, rfl, rfl⟩) fun _ h =>
        frame_andThen (frame_step h ⟨rfl, rfl, rfl⟩) fun _ h =>
        frame_andThen (frame_step h ⟨rfl, rfl, rfl⟩) fun _ h =>
        frame_andThen (frame_step h ⟨rfl, rfl, rfl⟩) fun _ h =>
        frame_andThen (frame_step h ⟨rfl, rfl, rfl⟩) fun _ h =>
        frame_andThen (frame_step h ⟨rfl, rfl, rfl⟩) fun _ h =>
        frame_andThen (frame_step h (RAf_frame ..)) fun _ h =>
        frame_andThen (frame_step h ⟨rfl, rfl, rfl⟩) fun _ h =>
        frame_andThen (frame_step h ⟨rfl, rfl, rfl⟩) fun _ h =>
        frame_andThen (frame_step h (fcEturf_frame ..)) fun _ h =>
        frame_andThen (frame_step h ⟨rfl, rfl, rfl⟩) fun _ h =>
        frame_andThen (frame_step h ⟨rfl, rfl, rfl⟩) fun _ h =>
        frame_andThen (frame_step h ⟨rfl, rfl, rfl⟩) fun _ h =>
        frame_andThen (
            frame_ite (
                frame_ite (
                    frame_andThen (frame_step h ⟨rfl, rfl, rfl⟩) fun _ h =>
                    frame_step h ⟨rfl, rfl, rfl⟩
                  ) (
                    frame_andThen (frame_step h ⟨rfl, rfl, rfl⟩) fun _ h =>
                    frame_step h ⟨rfl, rfl, rfl⟩
                  )
              ) (
                h
              )
          ) fun _ h =>
        frame_andThen (frame_step h ⟨rfl, rfl, rfl⟩) fun _ h =>
        frame_andThen (frame_step h ⟨rfl, rfl, rfl⟩) fun _ h =>
        frame_andThen (frame_step h ⟨rfl, rfl, rfl⟩) fun _ h =>
        frame_andThen (frame_step h ⟨rfl, rfl, rfl⟩) fun _ h =>
        frame_andThen (frame_step h (RAf_frame ..)) fun _ h =>
        frame_andThen (frame_step h (r11f_frame ..)) fun _ h =>
        frame_andThen (frame_step h ⟨rfl, rfl, rfl⟩) fun _ h =>
        frame_andThen (frame_step h (fcEturf_frame ..)) fun _ h =>
        frame_andThen (frame_step h ⟨rfl, rfl, rfl⟩) fun _ h =>
        frame_step h ⟨rfl, rfl, rfl⟩
      ) (
        frame_ite (
            frame_andThen (frame_step h (r10f_frame ..)) fun _ h =>
            frame_andThen (frame_step h ⟨rfl, rfl, rfl⟩) fun _ h =>
            frame_andThen (frame_step h (RAf_frame ..)) fun _ h =>
            frame_andThen (frame_step h (fcEturf_frame ..)) fun _ h =>
            frame_andThen (frame_step h ⟨rfl, rfl, rfl⟩) fun _ h =>
            frame_andThen (
                frame_ite (
                    frame_ite (
                        frame_andThen (frame_step h ⟨rfl, rfl, rfl⟩) fun _ h =>
                        frame_andThen (frame_step h ⟨rfl, rfl, rfl⟩) fun _ h =>
                        frame_step h ⟨rfl, rfl, rfl⟩
                      ) (
                        frame_andThen (frame_step h ⟨rfl, rfl, rfl⟩) fun _ h =>
                        frame_andThen (frame_step h ⟨rfl, rfl, rfl⟩) fun _ h =>
                        frame_step h ⟨rfl, rfl, rfl⟩
                      )
                  ) (
                    h
                  )
              ) fun _ h =>
            frame_andThen (frame_step h ⟨rfl, rfl, rfl⟩) fun _ h =>
            frame_step h ⟨rfl, rfl, rfl⟩
          ) (
            frame_ite (
                frame_andThen (frame_step h (r7f_frame ..)) fun _ h =>
                frame_andThen (frame_step h ⟨rfl, rfl, rfl⟩) fun _ h =>
                frame_andThen (frame_step h (RAf_frame ..)) fun _ h =>
                frame_andThen (frame_step h (fcEturf_frame ..)) fun _ h =>
                frame_andThen (frame_step h ⟨rfl, rfl, rfl⟩) fun _ h =>
                frame_step h ⟨rfl, rfl, rfl⟩
              ) (
                frame_step h (fcEtnf_frame ..)
              )
          )
      )

theorem setTrialStrain_L2006_frame (m : Libm) (s : State) (strain : ℚ) : Frame s (setTrialStrain_L2006 m s strain) := by
  unfold setTrialStrain_L2006
  have h : Frame s s := frame_refl s
  exact
    frame_andThen (frame_step h ⟨rfl, rfl, rfl⟩) fun _ h =>
    frame_andThen (frame_step h ⟨rfl, rfl, rfl⟩) fun _ h =>
    frame_andThen (frame_step h ⟨rfl, rfl, rfl⟩) fun _ h =>
    frame_andThen (frame_step h ⟨rfl, rfl, rfl⟩) fun _ h =>
    frame_andThen (frame_step h (eb1112f_frame ..)) fun _ h =>
    frame_ite (
        frame_step h (setTrialStrain_L2016_frame ..)
      ) (
        frame_ite (
            frame_step h (setTrialStrain_L2101_frame ..)
          ) (
            frame_ite (
                frame_ite (
                    frame_andThen (frame_step h (r7f_frame ..)) fun _ h =>
                    frame_andThen (frame_step h (RAf_frame ..)) fun _ h =>
                    frame_andThen (frame_step h (fcEturf_frame ..)) fun _ h =>
                    frame_andThen (frame_step h ⟨rfl, rfl, rfl⟩) fun _ h =>
                    frame_andThen (frame_step h ⟨rfl, rfl, rfl⟩) fun _ h =>
                    frame_andThen (frame_step h ⟨rfl, rfl, rfl⟩) fun _ h =>
                    frame_andThen (frame_step h ⟨rfl, rfl, rfl⟩) fun _ h =>
                    frame_andThen (frame_step h ⟨rfl, rfl, rfl⟩) fun _ h =>
                    frame_andThen (frame_step h ⟨rfl, rfl, rfl⟩) fun _ h =>
                    frame_andThen (frame_step h (RAf_frame ..)) fun _ h =>
                    frame_andThen (frame_step h (r11f_frame ..)) fun _ h =>
                    frame_andThen (frame_step h ⟨rfl, rfl, rfl⟩) fun _ h =>
                    frame_andThen (frame_step h (fcEturf_frame ..)) fun _ h =>
                    frame_andThen (frame_step h ⟨rfl, rfl, rfl⟩) fun _ h =>
                    frame_step h ⟨rfl, rfl, rfl⟩
                  ) (
                    frame_ite (
                        frame_andThen (frame_step h (r7f_frame ..)) fun _ h =>
                        frame_andThen (frame_step h ⟨rfl, rfl, rfl⟩) fun _ h =>
                        frame_andThen (frame_step h (RAf_frame ..)) fun _ h =>
                        frame_andThen (frame_step h (fcEturf_frame ..)) fun _ h =>
                        frame_andThen (frame_step h ⟨rfl, rfl, rfl⟩) fun _ h =>
                        frame_step h ⟨rfl, rfl, rfl⟩
                      ) (
                        frame_step h (fcEtnf_frame ..)
                      )
                  )
              ) (
                frame_ite (
                    frame_andThen (frame_step h (fcEtnf_frame ..)) fun _ h =>
                    frame_andThen (frame_step h ⟨rfl, rfl, rfl⟩) fun _ h =>
                    frame_andThen (frame_step h ⟨rfl, rfl, rfl⟩) fun _ h =>
                    frame_andThen (frame_step h ⟨rfl, rfl, rfl⟩) fun _ h =>
                    frame_andThen (frame_step h ⟨rfl, rfl, rfl⟩) fun _ h =>
                    frame_andThen (frame_step h ⟨rfl, rfl, rfl⟩) fun _ h =>
                    frame_andThen (frame_step h ⟨rfl, rfl, rfl⟩) fun _ h =>
                    frame_andThen (frame_step h (RAf_frame ..)) fun _ h =>
                    frame_andThen (frame_step h (r11f_frame ..)) fun _ h =>
                    frame_andThen (frame_step h ⟨rfl, rfl, rfl⟩) fun _ h =>
                    frame_andThen (frame_step h (fcEturf_frame ..)) fun _ h =>
                    frame_andThen (frame_step h ⟨rfl, rfl, rfl⟩) fun _ h =>
                    frame_step h ⟨rfl, rfl, rfl⟩
                  ) (
                    frame_step h (fcEtnf_frame ..)
                  )
              )
          )
      )

theorem setTrialStrain_L2278_frame (m : Libm) (s : State) (strain : ℚ) : Frame s (setTrialStrain_L2278 m s strain) := by
  unfold setTrialStrain_L2278
  have h : Frame s s := frame_refl s
  exact
    frame_ite (
        frame_andThen (frame_step h (r4f_frame ..)) fun _ h =>
        frame_andThen (frame_step h (RAf_frame ..)) fun _ h =>
        frame_andThen (frame_step h (fcEturf_frame ..)) fun _ h =>
        frame_andThen (frame_step h ⟨rfl, rfl, rfl⟩) fun _ h =>
        frame_andThen (frame_step h ⟨rfl, rfl, rfl⟩) fun _ h =>
        frame_andThen (frame_step h ⟨rfl, rfl, rfl⟩) fun _ h =>
        frame_andThen (frame_step h ⟨rfl, rfl, rfl⟩) fun _ h =>
        frame_andThen (frame_step h ⟨rfl, rfl, rfl⟩) fun _ h =>
        frame_andThen (frame_step h ⟨rfl, rfl, rfl⟩) fun _ h =>
        frame_andThen (frame_step h (RAf_frame ..)) fun _ h =>
        frame_andThen (frame_step h (r11f_frame ..)) fun _ h =>
        frame_andThen (frame_step h ⟨rfl, rfl, rfl⟩) fun _ h =>
        frame_andThen (frame_step h (fcEturf_frame ..)) fun _ h =>
        frame_andThen (frame_step h ⟨rfl, rfl, rfl⟩) fun _ h =>
        frame_step h ⟨rfl, rfl, rfl⟩
      ) (
        frame_ite (
            frame_andThen (frame_step h (r4f_frame ..)) fun _ h =>
            frame_andThen (frame_step h ⟨rfl, rfl, rfl⟩) fun _ h =>
            frame_andThen (frame_step h (RAf_frame ..)) fun _ h =>
            frame_andThen (frame_step h (fcEturf_frame ..)) fun _ h =>
            frame_andThen (frame_step h ⟨rfl, rfl, rfl⟩) fun _ h =>
            frame_step h ⟨rfl, rfl, rfl⟩
          ) (
            frame_ite (
                frame_andThen (frame_step h (r10f_frame ..)) fun _ h =>
                frame_andThen (frame_step h ⟨rfl, rfl, rfl⟩) fun _ h =>
                frame_andThen (frame_step h (RAf_frame ..)) fun _ h =>
                frame_andThen (frame_step h (fcEturf_frame ..)) fun _ h =>
                frame_andThen (frame_step h ⟨rfl, rfl, rfl⟩) fun _ h =>
                frame_andThen (
                    frame_ite (
                        frame_ite (
                            frame_andThen (frame_step h ⟨rfl, rfl, rfl⟩) fun _ h =>
                            frame_andThen (frame_step h ⟨rfl, rfl, rfl⟩) fun _ h =>
                            frame_step h ⟨rfl, rfl, rfl⟩
                          ) (
                            frame_andThen (frame_step h ⟨rfl, rfl, rfl⟩) fun _ h =>
                            frame_andThen (frame_step h ⟨rfl, rfl, rfl⟩) fun _ h =>
                            frame_step h ⟨rfl, rfl, rfl⟩
                          )
                      ) (
                        h
                      )
                  ) fun _ h =>
                frame_andThen (frame_step h ⟨rfl, rfl, rfl⟩) fun _ h =>
                frame_step h ⟨rfl, rfl, rfl⟩
              ) (
                frame_ite (
                    frame_andThen (frame_step h (r7f_frame ..)) fun _ h =>
                    frame_andThen (frame_step h ⟨rfl, rfl, rfl⟩) fun _ h =>
                    frame_andThen (frame_step h (RAf_frame ..)) fun _ h =>
                    frame_andThen (frame_step h (fcEturf_frame ..)) fun _ h =>
                    frame_andThen (frame_step h ⟨rfl, rfl, rfl⟩) fun _ h =>
                    frame_step h ⟨rfl, rfl, rfl⟩
                  ) (
                    frame_step h (fcEtnf_frame ..)
                  )
              )
          )
      )

theorem setTrialStrain_L2364_frame (m : Libm) (s : State) (strain : ℚ) : Frame s (setTrialStrain_L2364 m s strain) := by
  unfold setTrialStrain_L2364
  have h : Frame s s := frame_refl s
  exact
    frame_ite (
        frame_andThen (frame_step h (r10f_frame ..)) fun _ h =>
        frame_andThen (frame_step h ⟨rfl, rfl, rfl⟩) fun _ h =>
        frame_andThen (frame_step h ⟨rfl, rfl, rfl⟩) fun _ h =>
        frame_andThen (frame_step h ⟨rfl, rfl, rfl⟩) fun _ h =>
        frame_andThen (frame_step h ⟨rfl, rfl, rfl⟩) fun _ h =>
        frame_andThen (frame_step h ⟨rfl, rfl, rfl⟩) fun _ h =>
        frame_andThen (frame_step h ⟨rfl, rfl, rfl⟩) fun _ h =>
        frame_andThen (frame_step h (RAf_frame ..)) fun _ h =>
        frame_andThen (frame_step h ⟨rfl, rfl, rfl⟩) fun _ h =>
        frame_andThen (frame_step h ⟨rfl, rfl, rfl⟩) fun _ h =>
        frame_andThen (frame_step h (fcEturf_frame ..)) fun _ h =>
        frame_andThen (frame_step h ⟨rfl, rfl, rfl⟩) fun _ h =>
        frame_andThen (frame_step h ⟨rfl, rfl, rfl⟩) fun _ h =>
        frame_andThen (frame_step h ⟨rfl, rfl, rfl⟩) fun _ h =>
        frame_andThen (
            frame_ite (
                frame_ite (
                    frame_andThen (frame_step h ⟨rfl, rfl, rfl⟩) fun _ h =>
                    frame_step h ⟨rfl, rfl, rfl⟩
                  ) (
                    frame_andThen (frame_step h ⟨rfl, rfl, rfl⟩) fun _ h =>
                    frame_step h ⟨rfl, rfl, rfl⟩
                  )
              ) (
                h
              )
          ) fun _ h =>
        frame_andThen (frame_step h ⟨rfl, rfl, rfl⟩) fun _ h =>
        frame_andThen (frame_step h ⟨rfl, rfl, rfl⟩) fun _ h =>
        frame_andThen (frame_step h ⟨rfl, rfl, rfl⟩) fun _ h =>
        frame_andThen (frame_step h ⟨rfl, rfl, rfl⟩) fun _ h =>
        frame_andThen (frame_step h (RAf_frame ..)) fun _ h =>
        frame_andThen (frame_step h (r11f_frame ..)) fun _ h =>
        frame_andThen (frame_step h ⟨rfl, rfl, rfl⟩) fun _ h =>
        frame_andThen (frame_step h (fcEturf_frame ..)) fun _ h =>
        frame_andThen (frame_step h ⟨rfl, rfl, rfl⟩) fun _ h =>
        frame_step h ⟨rfl, rfl, rfl⟩
      ) (
        frame_ite (
            frame_andThen (frame_step h (r10f_frame ..)) fun _ h =>
            frame_andThen (frame_step h ⟨rfl, rfl, rfl⟩) fun _ h =>
            frame_andThen (frame_step h (RAf_frame ..)) fun _ h =>
            frame_andThen (frame_step h (fcEturf_frame ..)) fun _ h =>
            frame_andThen (frame_step h ⟨rfl, rfl, rfl⟩) fun _ h =>
            frame_andThen (
                frame_ite (
                    frame_ite (
                        frame_andThen (frame_step h ⟨rfl, rfl, rfl⟩) fun _ h =>
                        frame_andThen (frame_step h ⟨rfl, rfl, rfl⟩) fun _ h =>
                        frame_step h ⟨rfl, rfl, rfl⟩
                      ) (
                        frame_andThen (frame_step h ⟨rfl, rfl, rfl⟩) fun _ h =>
                        frame_andThen (frame_step h ⟨rfl, rfl, rfl⟩) fun _ h =>
                        frame_step h ⟨rfl, rfl, rfl⟩
                      )
                  ) (
                    h
                  )
              ) fun _ h =>
            frame_andThen (frame_step h ⟨rfl, rfl, rfl⟩) fun _ h =>
            frame_step h ⟨rfl, rfl, rfl⟩
          ) (
            frame_ite (
                frame_andThen (frame_step h (r7f_frame ..)) fun _ h =>
                frame_andThen (frame_step h ⟨rfl, rfl, rfl⟩) fun _ h =>
                frame_andThen (frame_step h (RAf_frame ..)) fun _ h =>
                frame_andThen (frame_step h (fcEturf_frame ..)) fun _ h =>
                frame_andThen (frame_step h ⟨rfl, rfl, rfl⟩) fun _ h =>
                frame_step h ⟨rfl, rfl, rfl⟩
              ) (
                frame_step h (fcEtnf_frame ..)
              )
          )
      )

theorem setTrialStrain_L2276_frame (m : Libm) (s : State) (strain : ℚ) : Frame s (setTrialStrain_L2276 m s strain) := by
  unfold setTrialStrain_L2276
  have h : Frame s s := frame_refl s
  exact
    frame_ite (
        frame_step h (setTrialStrain_L2278_frame ..)
      ) (
        frame_ite (
            frame_step h (setTrialStrain_L2364_frame ..)
          ) (
            frame_ite (
                frame_ite (
                    frame_andThen (frame_step h (r7f_frame ..)) fun _ h =>
                    frame_andThen (frame_step h (RAf_frame ..)) fun _ h =>
                    frame_andThen (frame_step h (fcEturf_frame ..)) fun _ h =>
                    frame_andThen (frame_step h ⟨rfl, rfl, rfl⟩) fun _ h =>
                    frame_andThen (frame_step h ⟨rfl, rfl, rfl⟩) fun _ h =>
                    frame_andThen (frame_step h ⟨rfl, rfl, rfl⟩) fun _ h =>
                    frame_andThen (frame_step h ⟨rfl, rfl, rfl⟩) fun _ h =>
                    frame_andThen (frame_step h ⟨rfl, rfl, rfl⟩) fun _ h =>
                    frame_andThen (frame_step h ⟨rfl, rfl, rfl⟩) fun _ h =>
                    frame_andThen (frame_step h (RAf_frame ..)) fun _ h =>
                    frame_andThen (frame_step h (r11f_frame ..)) fun _ h =>
                    frame_andThen (frame_step h ⟨rfl, rfl, rfl⟩) fun _ h =>
                    frame_andThen (frame_step h (fcEturf_frame ..)) fun _ h =>
                    frame_andThen (frame_step h ⟨rfl, rfl, rfl⟩) fun _ h =>
                    frame_step h ⟨rfl, rfl, rfl⟩
                  ) (
                    frame_ite (
                        frame_andThen (frame_step h (r7f_frame ..)) fun _ h =>
                        frame_andThen (frame_step h ⟨rfl, rfl, rfl⟩) fun _ h =>
                        frame_andThen (frame_step h (RAf_frame ..)) fun _ h =>
                        frame_andThen (frame_step h (fcEturf_frame ..)) fun _ h =>
                        frame_andThen (frame_step h ⟨rfl, rfl, rfl⟩) fun _ h =>
                        frame_step h ⟨rfl, rfl, rfl⟩
                      ) (
                        frame_step h (fcEtnf_frame ..)
                      )
                  )
              ) (
                frame_ite (
                    frame_andThen (frame_step h (fcEtnf_frame ..)) fun _ h =>
                    frame_andThen (frame_step h ⟨rfl, rfl, rfl⟩) fun _ h =>
                    frame_andThen (frame_step h ⟨rfl, rfl, rfl⟩) fun _ h =>
                    frame_andThen (frame_step h ⟨rfl, rfl, rfl⟩) fun _ h =>
                    frame_andThen (frame_step h ⟨rfl, rfl, rfl⟩) fun _ h =>
                    frame_andThen (frame_step h ⟨rfl, rfl, rfl⟩) fun _ h =>
                    frame_andThen (frame_step h ⟨rfl, rfl, rfl⟩) fun _ h =>
                    frame_andThen (frame_step h (RAf_frame ..)) fun _ h =>
                    frame_andThen (frame_step h (r11f_frame ..)) fun _ h =>
                    frame_andThen (frame_step h ⟨rfl, rfl, rfl⟩) fun _ h =>
                    frame_andThen (frame_step h (fcEturf_frame ..)) fun _ h =>
                    frame_andThen (frame_step h ⟨rfl, rfl, rfl⟩) fun _ h =>
                    frame_step h ⟨rfl, rfl, rfl⟩
                  ) (
                    frame_step h (fcEtnf_frame ..)
                  )
              )
          )
      )

theorem setTrialStrain_L2276_else_frame (m : Libm) (s : State) (strain : ℚ) : Frame s (setTrialStrain_L2276_else m s strain) := by
  unfold setTrialStrain_L2276_else
  have h : Frame s s := frame_refl s
  exact
    frame_ite (
        frame_ite (
            frame_andThen (frame_step h (r77f_frame ..)) fun _ h =>
            frame_andThen (frame_step h (RAf_frame ..)) fun _ h =>
            frame_andThen (frame_step h (fcEturf_frame ..)) fun _ h =>
            frame_andThen (frame_step h ⟨rfl, rfl, rfl⟩) fun _ h =>
            frame_andThen (frame_step h ⟨rfl, rfl, rfl⟩) fun _ h =>
            frame_andThen (frame_step h ⟨rfl, rfl, rfl⟩) fun _ h =>
            frame_andThen (frame_step h ⟨rfl, rfl, rfl⟩) fun _ h =>
            frame_andThen (frame_step h ⟨rfl, rfl, rfl⟩) fun _ h =>
            frame_andThen (frame_step h ⟨rfl, rfl, rfl⟩) fun _ h =>
            frame_andThen (frame_step h (RAf_frame ..)) fun _ h =>
            frame_andThen (frame_step h (r11f_frame ..)) fun _ h =>
            frame_andThen (frame_step h ⟨rfl, rfl, rfl⟩) fun _ h =>
            frame_andThen (frame_step h (fcEturf_frame ..)) fun _ h =>
            frame_andThen (frame_step h ⟨rfl, rfl, rfl⟩) fun _ h =>
            frame_step h ⟨rfl, rfl, rfl⟩
          ) (
            frame_ite (
                frame_andThen (frame_step h (r77f_frame ..)) fun _ h =>
                frame_andThen (frame_step h ⟨rfl, rfl, rfl⟩) fun _ h =>
                frame_andThen (frame_step h (RAf_frame ..)) fun _ h =>
                frame_andThen (frame_step h (fcEturf_frame ..)) fun _ h =>
                frame_andThen (frame_step h ⟨rfl, rfl, rfl⟩) fun _ h =>
                frame_step h ⟨rfl, rfl, rfl⟩
              ) (
                frame_step h (fcEtnf_frame ..)
              )
          )
      ) (
        frame_ite (
            frame_andThen (frame_step h (fcEtnf_frame ..)) fun _ h =>
            frame_andThen (frame_step h ⟨rfl, rfl, rfl⟩) fun _ h =>
            frame_andThen (frame_step h ⟨rfl, rfl, rfl⟩) fun _ h =>
            frame_andThen (frame_step h ⟨rfl, rfl, rfl⟩) fun _ h =>
            frame_andThen (frame_step h ⟨rfl, rfl, rfl⟩) fun _ h =>
            frame_andThen (frame_step h ⟨rfl, rfl, rfl⟩) fun _ h =>
            frame_andThen (frame_step h ⟨rfl, rfl, rfl⟩) fun _ h =>
            frame_andThen (frame_step h (RAf_frame ..)) fun _ h =>
            frame_andThen (frame_step h (r11f_frame ..)) fun _ h =>
            frame_andThen (frame_step h ⟨rfl, rfl, rfl⟩) fun _ h =>
            frame_andThen (frame_step h (fcEturf_frame ..)) fun _ h =>
            frame_andThen (frame_step h ⟨rfl, rfl, rfl⟩) fun _ h =>
            frame_step h ⟨rfl, rfl, rfl⟩
          ) (
            frame_step h (fcEtnf_frame ..)
          )
      )

theorem setTrialStrain_L2271_frame (m : Libm) (s : State) (strain : ℚ) : Frame s (setTrialStrain_L2271 m s strain) := by
  unfold setTrialStrain_L2271
  have h : Frame s s := frame_refl s
  exact
    frame_andThen (frame_step h ⟨rfl, rfl, rfl⟩) fun _ h =>
    frame_andThen (frame_step h ⟨rfl, rfl, rfl⟩) fun _ h =>
    frame_ite (
        frame_step h (setTrialStrain_L2276_frame ..)
      ) (
        frame_step h (setTrialStrain_L2276_else_frame ..)
      )

theorem setTrialStrain_L2611_frame (m : Libm) (s : State) (strain : ℚ) : Frame s (setTrialStrain_L2611 m s strain) := by
  unfold setTrialStrain_L2611
  have h : Frame s s := frame_refl s
  exact
    frame_andThen (frame_step h ⟨rfl, rfl, rfl⟩) fun _ h =>
    frame_andThen (frame_step h ⟨rfl, rfl, rfl⟩) fun _ h =>
    frame_ite (
        frame_andThen (frame_step h (r13f_frame ..)) fun _ h =>
        frame_andThen (frame_step h ⟨rfl, rfl, rfl⟩) fun _ h =>
        frame_andThen (frame_step h ⟨rfl, rfl, rfl⟩) fun _ h =>
        frame_andThen (frame_step h ⟨rfl, rfl, rfl⟩) fun _ h =>
        frame_andThen (frame_step h ⟨rfl, rfl, rfl⟩) fun _ h =>
        frame_andThen (frame_step h ⟨rfl, rfl, rfl⟩) fun _ h =>
        frame_andThen (frame_step h ⟨rfl, rfl, rfl⟩) fun _ h =>
        frame_andThen (frame_step h (RAf_frame ..)) fun _ h =>
        frame_andThen (frame_step h ⟨rfl, rfl, rfl⟩) fun _ h =>
        frame_andThen (frame_step h ⟨rfl, rfl, rfl⟩) fun _ h =>
        frame_andThen (frame_step h (fcEturf_frame ..)) fun _ h =>
        frame_andThen (frame_step h ⟨rfl, rfl, rfl⟩) fun _ h =>
        frame_andThen (frame_step h ⟨rfl, rfl, rfl⟩) fun _ h =>
        frame_andThen (frame_step h ⟨rfl, rfl, rfl⟩) fun _ h =>
        frame_andThen (
            frame_ite (
                frame_ite (
                    frame_andThen (frame_step h ⟨rfl, rfl, rfl⟩) fun _ h =>
                    frame_step h ⟨rfl, rfl, rfl⟩
                  ) (
                    frame_andThen (frame_step h ⟨rfl, rfl, rfl⟩) fun _ h =>
                    frame_step h ⟨rfl, rfl, rfl⟩
                  )
              ) (
                h
              )
          ) fun _ h =>
        frame_andThen (frame_step h ⟨rfl, rfl, rfl⟩) fun _ h =>
        frame_andThen (frame_step h ⟨rfl, rfl, rfl⟩) fun _ h =>
        frame_andThen (frame_step h ⟨rfl, rfl, rfl⟩) fun _ h =>
        frame_andThen (frame_step h ⟨rfl, rfl, rfl⟩) fun _ h =>
        frame_andThen (frame_step h (RAf_frame ..)) fun _ h =>
        frame_andThen (frame_step h (r15f_frame ..)) fun _ h =>
        frame_andThen (frame_step h ⟨rfl, rfl, rfl⟩) fun _ h =>
        frame_andThen (frame_step h (fcEturf_frame ..)) fun _ h =>
        frame_andThen (frame_step h ⟨rfl, rfl, rfl⟩) fun _ h =>
        frame_step h ⟨rfl, rfl, rfl⟩
      ) (
        frame_ite (
            frame_andThen (frame_step h (r13f_frame ..)) fun _ h =>
            frame_andThen (frame_step h ⟨rfl, rfl, rfl⟩) fun _ h =>
            frame_andThen (frame_step h (RAf_frame ..)) fun _ h =>
            frame_andThen (frame_step h (fcEturf_frame ..)) fun _ h =>
            frame_andThen (frame_step h ⟨rfl, rfl, rfl⟩) fun _ h =>
            frame_andThen (
                frame_ite (
                    frame_ite (
                        frame_andThen (frame_step h ⟨rfl, rfl, rfl⟩) fun _ h =>
                        frame_andThen (frame_step h ⟨rfl, rfl, rfl⟩) fun _ h =>
                        frame_step h ⟨rfl, rfl, rfl⟩
                      ) (
                        frame_andThen (frame_step h ⟨rfl, rfl, rfl⟩) fun _ h =>
                        frame_andThen (frame_step h ⟨rfl, rfl, rfl⟩) fun _ h =>
                        frame_step h ⟨rfl, rfl, rfl⟩
                      )
                  ) (
                    h
                  )
              ) fun _ h =>
            frame_andThen (frame_step h ⟨rfl, rfl, rfl⟩) fun _ h =>
            frame_step h ⟨rfl, rfl, rfl⟩
          ) (
            frame_ite (
                frame_andThen (frame_step h (r7f_frame ..)) fun _ h =>
                frame_andThen (frame_step h ⟨rfl, rfl, rfl⟩) fun _ h =>
                frame_andThen (frame_step h (RAf_frame ..)) fun _ h =>
                frame_andThen (frame_step h (fcEturf_frame ..)) fun _ h =>
                frame_andThen (frame_step h ⟨rfl, rfl, rfl⟩) fun _ h =>
                frame_step h ⟨rfl, rfl, rfl⟩
              ) (
                frame_step h (fcEtnf_frame ..)
              )
          )
      )

theorem setTrialStrain_L2751_frame (m : Libm) (s : State) (strain : ℚ) : Frame s (setTrialStrain_L2751 m s strain) := by
  unfold setTrialStrain_L2751
  have h : Frame s s := frame_refl s
  exact
    frame_ite (
        frame_andThen (frame_step h (r4f_frame ..)) fun _ h =>
        frame_andThen (frame_step h (RAf_frame ..)) fun _ h =>
        frame_andThen (frame_step h (fcEturf_frame ..)) fun _ h =>
        frame_andThen (frame_step h ⟨rfl, rfl, rfl⟩) fun _ h =>
        frame_andThen (frame_step h ⟨rfl, rfl, rfl⟩) fun _ h =>
        frame_andThen (frame_step h ⟨rfl, rfl, rfl⟩) fun _ h =>
        frame_andThen (frame_step h ⟨rfl, rfl, rfl⟩) fun _ h =>
        frame_andThen (frame_step h ⟨rfl, rfl, rfl⟩) fun _ h =>
        frame_andThen (frame_step h ⟨rfl, rfl, rfl⟩) fun _ h =>
        frame_andThen (frame_step h (RAf_frame ..)) fun _ h =>
        frame_andThen (frame_step h (r11f_frame ..)) fun _ h =>
        frame_andThen (frame_step h ⟨rfl, rfl, rfl⟩) fun _ h =>
        frame_andThen (frame_step h (fcEturf_frame ..)) fun _ h =>
        frame_andThen (frame_step h ⟨rfl, rfl, rfl⟩) fun _ h =>
        frame_step h ⟨rfl, rfl, rfl⟩
      ) (
        frame_ite (
            frame_andThen (frame_step h (r4f_frame ..)) fun _ h =>
            frame_andThen (frame_step h ⟨rfl, rfl, rfl⟩) fun _ h =>
            frame_andThen (frame_step h (RAf_frame ..)) fun _ h =>
            frame_andThen (frame_step h (fcEturf_frame ..)) fun _ h =>
            frame_andThen (frame_step h ⟨rfl, rfl, rfl⟩) fun _ h =>
            frame_step h ⟨rfl, rfl, rfl⟩
          ) (
            frame_ite (
                frame_andThen (frame_step h (r10f_frame ..)) fun _ h =>
                frame_andThen (frame_step h ⟨rfl, rfl, rfl⟩) fun _ h =>
                frame_andThen (frame_step h (RAf_frame ..)) fun _ h =>
                frame_andThen (frame_step h (fcEturf_frame ..)) fun _ h =>
                frame_andThen (frame_step h ⟨rfl, rfl, rfl⟩) fun _ h =>
                frame_andThen (
                    frame_ite (
                        frame_ite (
                            frame_andThen (frame_step h ⟨rfl, rfl, rfl⟩) fun _ h =>
                            frame_andThen (frame_step h ⟨rfl, rfl, rfl⟩) fun _ h =>
                            frame_step h ⟨rfl, rfl, rfl⟩
                          ) (
                            frame_andThen (frame_step h ⟨rfl, rfl, rfl⟩) fun _ h =>
                            frame_andThen (frame_step h ⟨rfl, rfl, rfl⟩) fun _ h =>
                            frame_step h ⟨rfl, rfl, rfl⟩
                          )
                      ) (
                        h
                      )
                  ) fun _ h =>
                frame_andThen (frame_step h ⟨rfl, rfl, rfl⟩) fun _ h =>
                frame_step h ⟨rfl, rfl, rfl⟩
              ) (
                frame_ite (
                    frame_andThen (frame_step h (r7f_frame ..)) fun _ h =>
                    frame_andThen (frame_step h ⟨rfl, rfl, rfl⟩) fun _ h =>
                    frame_andThen (frame_step h (RAf_frame ..)) fun _ h =>
                    frame_andThen (frame_step h (fcEturf_frame ..)) fun _ h =>
                    frame_andThen (frame_step h ⟨rfl, rfl, rfl⟩) fun _ h =>
                    frame_step h ⟨rfl, rfl, rfl⟩
                  ) (
                    frame_step h (fcEtnf_frame ..)
                  )
              )
          )
      )

theorem setTrialStrain_L2835_frame (m : Libm) (s : State) (strain : ℚ) : Frame s (setTrialStrain_L2835 m s strain) := by
  unfold setTrialStrain_L2835
  have h : Frame s s := frame_refl s
  exact
    frame_ite (
        frame_andThen (frame_step h (r10f_frame ..)) fun _ h =>
        frame_andThen (frame_step h ⟨rfl, rfl, rfl⟩) fun _ h =>
        frame_andThen (frame_step h ⟨rfl, rfl, rfl⟩) fun _ h =>
        frame_andThen (frame_step h ⟨rfl, rfl, rfl⟩) fun _ h =>
        frame_andThen (frame_step h ⟨rfl, rfl, rfl⟩) fun _ h =>
        frame_andThen (frame_step h ⟨rfl, rfl, rfl⟩) fun _ h =>
        frame_andThen (frame_step h ⟨rfl, rfl, rfl⟩) fun _ h =>
        frame_andThen (frame_step h (RAf_frame ..)) fun _ h =>
        frame_andThen (frame_step h ⟨rfl, rfl, rfl⟩) fun _ h =>
        frame_andThen (frame_step h ⟨rfl, rfl, rfl⟩) fun _ h =>
        frame_andThen (frame_step h (fcEturf_frame ..)) fun _ h =>
        frame_andThen (frame_step h ⟨rfl, rfl, rfl⟩) fun _ h =>
        frame_andThen (frame_step h ⟨rfl, rfl, rfl⟩) fun _ h =>
        frame_andThen (frame_step h ⟨rfl, rfl, rfl⟩) fun _ h =>
        frame_andThen (
            frame_ite (
                frame_ite (
                    frame_andThen (frame_step h ⟨rfl, rfl, rfl⟩) fun _ h =>
                    frame_step h ⟨rfl, rfl, rfl⟩
                  ) (
                    frame_andThen (frame_step h ⟨rfl, rfl, rfl⟩) fun _ h =>
                    frame_step h ⟨rfl, rfl, rfl⟩
                  )
              ) (
                h
              )
          ) fun _ h =>
        frame_andThen (frame_step h ⟨rfl, rfl, rfl⟩) fun _ h =>
        frame_andThen (frame_step h ⟨rfl, rfl, rfl⟩) fun _ h =>
        frame_andThen (frame_step h ⟨rfl, rfl, rfl⟩) fun _ h =>
        frame_andThen (frame_step h ⟨rfl, rfl, rfl⟩) fun _ h =>
        frame_andThen (frame_step h (RAf_frame ..)) fun _ h =>
        frame_andThen (frame_step h (r11f_frame ..)) fun _ h =>
        frame_andThen (frame_step h ⟨rfl, rfl, rfl⟩) fun _ h =>
        frame_andThen (frame_step h (fcEturf_frame ..)) fun _ h =>
        frame_andThen (frame_step h ⟨rfl, rfl, rfl⟩) fun _ h =>
        frame_step h ⟨rfl, rfl, rfl⟩
      ) (
        frame_ite (
            frame_andThen (frame_step h (r10f_frame ..)) fun _ h =>
            frame_andThen (frame_step h ⟨rfl, rfl, rfl⟩) fun _ h =>
            frame_andThen (frame_step h (RAf_frame ..)) fun _ h =>
            frame_andThen (frame_step h (fcEturf_frame ..)) fun _ h =>
            frame_andThen (frame_step h ⟨rfl, rfl, rfl⟩) fun _ h =>
            frame_andThen (
                frame_ite (
                    frame_ite (
                        frame_andThen (frame_step h ⟨rfl, rfl, rfl⟩) fun _ h =>
                        frame_andThen (frame_step h ⟨rfl, rfl, rfl⟩) fun _ h =>
                        frame_step h ⟨rfl, rfl, rfl⟩
                      ) (
                        frame_andThen (frame_step h ⟨rfl, rfl, rfl⟩) fun _ h =>
                        frame_andThen (frame_step h ⟨rfl, rfl, rfl⟩) fun _ h =>
                        frame_step h ⟨rfl, rfl, rfl⟩
                      )
                  ) (
                    h
                  )
              ) fun _ h =>
            frame_andThen (frame_step h ⟨rfl, rfl, rfl⟩) fun _ h =>
            frame_step h ⟨rfl, rfl, rfl⟩
          ) (
            frame_ite (
                frame_andThen (frame_step h (r7f_frame ..)) fun _ h =>
                frame_andThen (frame_step h ⟨rfl, rfl, rfl⟩) fun _ h =>
                frame_andThen (frame_step h (RAf_frame ..)) fun _ h =>
                frame_andThen (frame_step h (fcEturf_frame ..)) fun _ h =>
                frame_andThen (frame_step h ⟨rfl, rfl, rfl⟩) fun _ h =>
                frame_step h ⟨rfl, rfl, rfl⟩
              ) (
                frame_step h (fcEtnf_frame ..)
              )
          )
      )

theorem setTrialStrain_L2742_frame (m : Libm) (s : State) (strain : ℚ) : Frame s (setTrialStrain_L2742 m s strain) := by
  unfold setTrialStrain_L2742
  have h : Frame s s := frame_refl s
  exact
    frame_andThen (frame_step h ⟨rfl, rfl, rfl⟩) fun _ h =>
    frame_andThen (frame_step h ⟨rfl, rfl, rfl⟩) fun _ h =>
    frame_andThen (frame_step h ⟨rfl, rfl, rfl⟩) fun _ h =>
    frame_andThen (frame_step h ⟨rfl, rfl, rfl⟩) fun _ h =>
    frame_ite (
        frame_step h (setTrialStrain_L2751_frame ..)
      ) (
        frame_ite (
            frame_step h (setTrialStrain_L2835_frame ..)
          ) (
            frame_ite (
                frame_ite (
                    frame_andThen (frame_step h (r7f_frame ..)) fun _ h =>
                    frame_andThen (frame_step h (RAf_frame ..)) fun _ h =>
                    frame_andThen (frame_step h (fcEturf_frame ..)) fun _ h =>
                    frame_andThen (frame_step h ⟨rfl, rfl, rfl⟩) fun _ h =>
                    frame_andThen (frame_step h ⟨rfl, rfl, rfl⟩) fun _ h =>
                    frame_andThen (frame_step h ⟨rfl, rfl, rfl⟩) fun _ h =>
                    frame_andThen (frame_step h ⟨rfl, rfl, rfl⟩) fun _ h =>
                    frame_andThen (frame_step h ⟨rfl, rfl, rfl⟩) fun _ h =>
                    frame_andThen (frame_step h ⟨rfl, rfl, rfl⟩) fun _ h =>
                    frame_andThen (frame_step h (RAf_frame ..)) fun _ h =>
                    frame_andThen (frame_step h (r11f_frame ..)) fun _ h =>
                    frame_andThen (frame_step h ⟨rfl, rfl, rfl⟩) fun _ h =>
                    frame_andThen (frame_step h (fcEturf_frame ..)) fun _ h =>
                    frame_andThen (frame_step h ⟨rfl, rfl, rfl⟩) fun _ h =>
                    frame_step h ⟨rfl, rfl, rfl⟩
                  ) (
                    frame_ite (
                        frame_andThen (frame_step h (r7f_frame ..)) fun _ h =>
                        frame_andThen (frame_step h ⟨rfl, rfl, rfl⟩) fun _ h =>
                        frame_andThen (frame_step h (RAf_frame ..)) fun _ h =>
                        frame_andThen (frame_step h (fcEturf_frame ..)) fun _ h =>
                        frame_andThen (frame_step h ⟨rfl, rfl, rfl⟩) fun _ h =>
                        frame_step h ⟨rfl, rfl, rfl⟩
                      ) (
                        frame_step h (fcEtnf_frame ..)
                      )
                  )
              ) (
                frame_ite (
                    frame_andThen (frame_step h (fcEtnf_frame ..)) fun _ h =>
                    frame_andThen (frame_step h ⟨rfl, rfl, rfl⟩) fun _ h =>
                    frame_andThen (frame_step h ⟨rfl, rfl, rfl⟩) fun _ h =>
                    frame_andThen (frame_step h ⟨rfl, rfl, rfl⟩) fun _ h =>
                    frame_andThen (frame_step h ⟨rfl, rfl, rfl⟩) fun _ h =>
                    frame_andThen (frame_step h ⟨rfl, rfl, rfl⟩) fun _ h =>
                    frame_andThen (frame_step h ⟨rfl, rfl, rfl⟩) fun _ h =>
                    frame_andThen (frame_step h (RAf_frame ..)) fun _ h =>
                    frame_andThen (frame_step h (r11f_frame ..)) fun _ h =>
                    frame_andThen (frame_step h ⟨rfl, rfl, rfl⟩) fun _ h =>
                    frame_andThen (frame_step h (fcEturf_frame ..)) fun _ h =>
                    frame_andThen (frame_step h ⟨rfl, rfl, rfl⟩) fun _ h =>
                    frame_step h ⟨rfl, rfl, rfl⟩
                  ) (
                    frame_step h (fcEtnf_frame ..)
                  )
              )
          )
      )

theorem setTrialStrain_L2742_else_frame (m : Libm) (s : State) (strain : ℚ) : Frame s (setTrialStrain_L2742_else m s strain) := by
  unfold setTrialStrain_L2742_else
  have h : Frame s s := frame_refl s
  exact
    frame_andThen (frame_step h ⟨rfl, rfl, rfl⟩) fun _ h =>
    frame_andThen (frame_step h (fcEtpf_frame ..)) fun _ h =>
    frame_andThen (frame_step h ⟨rfl, rfl, rfl⟩) fun _ h =>
    frame_andThen (frame_step h (esplpf_frame ..)) fun _ h =>
    frame_andThen (frame_step h (Eplpf_frame ..)) fun _ h =>
    frame_ite (
        frame_andThen (frame_step h (r4f_frame ..)) fun _ h =>
        frame_andThen (frame_step h ⟨rfl, rfl, rfl⟩) fun _ h =>
        frame_andThen (frame_step h (RAf_frame ..)) fun _ h =>
        frame_andThen (frame_step h (fcEturf_frame ..)) fun _ h =>
        frame_andThen (frame_step h ⟨rfl, rfl, rfl⟩) fun _ h =>
        frame_step h ⟨rfl, rfl, rfl⟩
      ) (
        frame_ite (
            frame_andThen (frame_step h (r10f_frame ..)) fun _ h =>
            frame_andThen (frame_step h ⟨rfl, rfl, rfl⟩) fun _ h =>
            frame_andThen (frame_step h (RAf_frame ..)) fun _ h =>
            frame_andThen (frame_step h (fcEturf_frame ..)) fun _ h =>
            frame_andThen (frame_step h ⟨rfl, rfl, rfl⟩) fun _ h =>
            frame_andThen (
                frame_ite (
                    frame_ite (
                        frame_andThen (frame_step h ⟨rfl, rfl, rfl⟩) fun _ h =>
                        frame_andThen (frame_step h ⟨rfl, rfl, rfl⟩) fun _ h =>
                        frame_step h ⟨rfl, rfl, rfl⟩
                      ) (
                        frame_andThen (frame_step h ⟨rfl, rfl, rfl⟩) fun _ h =>
                        frame_andThen (frame_step h ⟨rfl, rfl, rfl⟩) fun _ h =>
                        frame_step h ⟨rfl, rfl, rfl⟩
                      )
                  ) (
                    h
                  )
              ) fun _ h =>
            frame_andThen (frame_step h ⟨rfl, rfl, rfl⟩) fun _ h =>
            frame_step h ⟨rfl, rfl, rfl⟩
          ) (
            frame_ite (
                frame_andThen (frame_step h (r7f_frame ..)) fun _ h =>
                frame_andThen (frame_step h ⟨rfl, rfl, rfl⟩) fun _ h =>
                frame_andThen (frame_step h (RAf_frame ..)) fun _ h =>
                frame_andThen (frame_step h (fcEturf_frame ..)) fun _ h =>
                frame_andThen (frame_step h ⟨rfl, rfl, rfl⟩) fun _ h =>
                frame_step h ⟨rfl, rfl, rfl⟩
              ) (
                frame_step h (fcEtnf_frame ..)
              )
          )
      )

theorem setTrialStrain_L2740_frame (m : Libm) (s : State) (strain : ℚ) : Frame s (setTrialStrain_L2740 m s strain) := by
  unfold setTrialStrain_L2740
  have h : Frame s s := frame_refl s
  exact
    frame_ite (
        frame_step h (setTrialStrain_L2742_frame ..)
      ) (
        frame_step h (setTrialStrain_L2742_else_frame ..)
      )

theorem setTrialStrain_L1871_frame (m : Libm) (s : State) (strain : ℚ) : Frame s (setTrialStrain_L1871 m s strain) := by
  unfold setTrialStrain_L1871
  have h : Frame s s := frame_refl s
  exact
    frame_ite (
        frame_step h (setTrialStrain_L1874_frame ..)
      ) (
        frame_ite (
            frame_step h (setTrialStrain_L1937_frame ..)
          ) (
            frame_ite (
                frame_step h (setTrialStrain_L2006_frame ..)
              ) (
                frame_ite (
                    frame_step h (setTrialStrain_L2271_frame ..)
                  ) (
                    frame_ite (
                        frame_step h (setTrialStrain_L2611_frame ..)
                      ) (
                        frame_ite (
                            frame_andThen (frame_step h ⟨rfl, rfl, rfl⟩) fun _ h =>
                            frame_andThen (frame_step h ⟨rfl, rfl, rfl⟩) fun _ h =>
                            frame_andThen (frame_step h ⟨rfl, rfl, rfl⟩) fun _ h =>
                            frame_andThen (frame_step h (fnewstnf_frame ..)) fun _ h =>
                            frame_andThen (frame_step h (Enewstnf_frame ..)) fun _ h =>
                            frame_andThen (frame_step h (esrestnf_frame ..)) fun _ h =>
                            frame_andThen (frame_step h (freErestnf_frame ..)) fun _ h =>
                            frame_ite (
                                frame_andThen (frame_step h (r77f_frame ..)) fun _ h =>
                                frame_andThen (frame_step h ⟨rfl, rfl, rfl⟩) fun _ h =>
                                frame_andThen (frame_step h (RAf_frame ..)) fun _ h =>
                                frame_andThen (frame_step h (fcEturf_frame ..)) fun _ h =>
                                frame_andThen (frame_step h ⟨rfl, rfl, rfl⟩) fun _ h =>
                                frame_step h ⟨rfl, rfl, rfl⟩
                              ) (
                                frame_step h (fcEtnf_frame ..)
                              )
                          ) (
                            frame_ite (
                                frame_step h (setTrialStrain_L2740_frame ..)
                              ) (
                                h
                              )
                          )
                      )
                  )
              )
          )
      )

theorem setTrialStrain_L3161_frame (m : Libm) (s : State) (strain : ℚ) : Frame s (setTrialStrain_L3161 m s strain) := by
  unfold setTrialStrain_L3161
  have h : Frame s s := frame_refl s
  exact
    frame_ite (
        frame_andThen (frame_step h (r3f_frame ..)) fun _ h =>
        frame_andThen (frame_step h (RAf_frame ..)) fun _ h =>
        frame_andThen (frame_step h (fcEturf_frame ..)) fun _ h =>
        frame_andThen (frame_step h ⟨rfl, rfl, rfl⟩) fun _ h =>
        frame_andThen (frame_step h ⟨rfl, rfl, rfl⟩) fun _ h =>
        frame_andThen (frame_step h ⟨rfl, rfl, rfl⟩) fun _ h =>
        frame_andThen (frame_step h ⟨rfl, rfl, rfl⟩) fun _ h =>
        frame_andThen (frame_step h ⟨rfl, rfl, rfl⟩) fun _ h =>
        frame_andThen (frame_step h ⟨rfl, rfl, rfl⟩) fun _ h =>
        frame_andThen (frame_step h (RAf_frame ..)) fun _ h =>
        frame_andThen (frame_step h (r12f_frame ..)) fun _ h =>
        frame_andThen (frame_step h ⟨rfl, rfl, rfl⟩) fun _ h =>
        frame_andThen (frame_step h (fcEturf_frame ..)) fun _ h =>
        frame_andThen (frame_step h ⟨rfl, rfl, rfl⟩) fun _ h =>
        frame_step h ⟨rfl, rfl, rfl⟩
      ) (
        frame_ite (
            frame_andThen (frame_step h (r3f_frame ..)) fun _ h =>
            frame_andThen (frame_step h ⟨rfl, rfl, rfl⟩) fun _ h =>
            frame_andThen (frame_step h (RAf_frame ..)) fun _ h =>
            frame_andThen (frame_step h (fcEturf_frame ..)) fun _ h =>
            frame_andThen (frame_step h ⟨rfl, rfl, rfl⟩) fun _ h =>
            frame_step h ⟨rfl, rfl, rfl⟩
          ) (
            frame_ite (
                frame_andThen (frame_step h (r9f_frame ..)) fun _ h =>
                frame_andThen (frame_step h ⟨rfl, rfl, rfl⟩) fun _ h =>
                frame_andThen (frame_step h (RAf_frame ..)) fun _ h =>
                frame_andThen (frame_step h (fcEturf_frame ..)) fun _ h =>
                frame_andThen (frame_step h ⟨rfl, rfl, rfl⟩) fun _ h =>
                frame_step h ⟨rfl, rfl, rfl⟩
              ) (
                frame_ite (
                    frame_andThen (frame_step h (r8f_frame ..)) fun _ h =>
                    frame_andThen (frame_step h ⟨rfl, rfl, rfl⟩) fun _ h =>
                    frame_andThen (frame_step h (RAf_frame ..)) fun _ h =>
                    frame_andThen (frame_step h (fcEturf_frame ..)) fun _ h =>
                    frame_andThen (frame_step h ⟨rfl, rfl, rfl⟩) fun _ h =>
                    frame_step h ⟨rfl, rfl, rfl⟩
                  ) (
                    frame_step h (fcEtpf_frame ..)
                  )
              )
          )
      )

theorem setTrialStrain_L3159_frame (m : Libm) (s : State) (strain : ℚ) : Frame s (setTrialStrain_L3159 m s strain) := by
  unfold setTrialStrain_L3159
  have h : Frame s s := frame_refl s
  exact
    frame_ite (
        frame_step h (setTrialStrain_L3161_frame ..)
      ) (
        frame_ite (
            frame_ite (
                frame_andThen (frame_step h (r9f_frame ..)) fun _ h =>
                frame_andThen (frame_step h (RAf_frame ..)) fun _ h =>
                frame_andThen (frame_step h (fcEturf_frame ..)) fun _ h =>
                frame_andThen (frame_step h ⟨rfl, rfl, rfl⟩) fun _ h =>
                frame_andThen (frame_step h ⟨rfl, rfl, rfl⟩) fun _ h =>
                frame_andThen (frame_step h ⟨rfl, rfl, rfl⟩) fun _ h =>
                frame_andThen (frame_step h ⟨rfl, rfl, rfl⟩) fun _ h =>
                frame_andThen (frame_step h ⟨rfl, rfl, rfl⟩) fun _ h =>
                frame_andThen (frame_step h ⟨rfl, rfl, rfl⟩) fun _ h =>
                frame_andThen (frame_step h (RAf_frame ..)) fun _ h =>
                frame_andThen (frame_step h (r12f_frame ..)) fun _ h =>
                frame_andThen (frame_step h ⟨rfl, rfl, rfl⟩) fun _ h =>
                frame_andThen (frame_step h (fcEturf_frame ..)) fun _ h =>
                frame_andThen (frame_step h ⟨rfl, rfl, rfl⟩) fun _ h =>
                frame_step h ⟨rfl, rfl, rfl⟩
              ) (
                frame_ite (
                    frame_andThen (frame_step h (r9f_frame ..)) fun _ h =>
                    frame_andThen (frame_step h ⟨rfl, rfl, rfl⟩) fun _ h =>
                    frame_andThen (frame_step h (RAf_frame ..)) fun _ h =>
                    frame_andThen (frame_step h (fcEturf_frame ..)) fun _ h =>
                    frame_andThen (frame_step h ⟨rfl, rfl, rfl⟩) fun _ h =>
                    frame_step h ⟨rfl, rfl, rfl⟩
                  ) (
                    frame_ite (
                        frame_andThen (frame_step h (r8f_frame ..)) fun _ h =>
                        frame_andThen (frame_step h ⟨rfl, rfl, rfl⟩) fun _ h =>
                        frame_andThen (frame_step h (RAf_frame ..)) fun _ h =>
                        frame_andThen (frame_step h (fcEturf_frame ..)) fun _ h =>
                        frame_andThen (frame_step h ⟨rfl, rfl, rfl⟩) fun _ h =>
                        frame_step h ⟨rfl, rfl, rfl⟩
                      ) (
                        frame_step h (fcEtpf_frame ..)
                      )
                  )
              )
          ) (
            frame_ite (
                frame_ite (
                    frame_andThen (frame_step h (r8f_frame ..)) fun _ h =>
                    frame_andThen (frame_step h (RAf_frame ..)) fun _ h =>
                    frame_andThen (frame_step h (fcEturf_frame ..)) fun _ h =>
                    frame_andThen (frame_step h ⟨rfl, rfl, rfl⟩) fun _ h =>
                    frame_andThen (frame_step h ⟨rfl, rfl, rfl⟩) fun _ h =>
                    frame_andThen (frame_step h ⟨rfl, rfl, rfl⟩) fun _ h =>
                    frame_andThen (frame_step h ⟨rfl, rfl, rfl⟩) fun _ h =>
                    frame_andThen (frame_step h ⟨rfl, rfl, rfl⟩) fun _ h =>
                    frame_andThen (frame_step h ⟨rfl, rfl, rfl⟩) fun _ h =>
                    frame_andThen (frame_step h (RAf_frame ..)) fun _ h =>
                    frame_andThen (frame_step h (r12f_frame ..)) fun _ h =>
                    frame_andThen (frame_step h ⟨rfl, rfl, rfl⟩) fun _ h =>
                    frame_andThen (frame_step h (fcEturf_frame ..)) fun _ h =>
                    frame_andThen (frame_step h ⟨rfl, rfl, rfl⟩) fun _ h =>
                    frame_step h ⟨rfl, rfl, rfl⟩
                  ) (
                    frame_ite (
                        frame_andThen (frame_step h (r8f_frame ..)) fun _ h =>
                        frame_andThen (frame_step h ⟨rfl, rfl, rfl⟩) fun _ h =>
                        frame_andThen (frame_step h (RAf_frame ..)) fun _ h =>
                        frame_andThen (frame_step h (fcEturf_frame ..)) fun _ h =>
                        frame_andThen (frame_step h ⟨rfl, rfl, rfl⟩) fun _ h =>
                        frame_step h ⟨rfl, rfl, rfl⟩
                      ) (
                        frame_step h (fcEtpf_frame ..)
                      )
                  )
              ) (
                frame_ite (
                    frame_andThen (frame_step h (fcEtpf_frame ..)) fun _ h =>
                    frame_andThen (frame_step h ⟨rfl, rfl, rfl⟩) fun _ h =>
                    frame_andThen (frame_step h ⟨rfl, rfl, rfl⟩) fun _ h =>
                    frame_andThen (frame_step h ⟨rfl, rfl, rfl⟩) fun _ h =>
                    frame_andThen (frame_step h ⟨rfl, rfl, rfl⟩) fun _ h =>
                    frame_andThen (frame_step h ⟨rfl, rfl, rfl⟩) fun _ h =>
                    frame_andThen (frame_step h ⟨rfl, rfl, rfl⟩) fun _ h =>
                    frame_andThen (frame_step h (RAf_frame ..)) fun _ h =>
                    frame_andThen (frame_step h (r12f_frame ..)) fun _ h =>
                    frame_andThen (frame_step h ⟨rfl, rfl, rfl⟩) fun _ h =>
                    frame_andThen (frame_step h (fcEturf_frame ..)) fun _ h =>
                    frame_andThen (frame_step h ⟨rfl, rfl, rfl⟩) fun _ h =>
                    frame_step h ⟨rfl, rfl, rfl⟩
                  ) (
                    frame_step h (fcEtpf_frame ..)
                  )
              )
          )
      )

theorem setTrialStrain_L3159_else_frame (m : Libm) (s : State) (strain : ℚ) : Frame s (setTrialStrain_L3159_else m s strain) := by
  unfold setTrialStrain_L3159_else
  have h : Frame s s := frame_refl s
  exact
    frame_ite (
        frame_ite (
            frame_andThen (frame_step h (r88f_frame ..)) fun _ h =>
            frame_andThen (frame_step h (RAf_frame ..)) fun _ h =>
            frame_andThen (frame_step h (fcEturf_frame ..)) fun _ h =>
            frame_andThen (frame_step h ⟨rfl, rfl, rfl⟩) fun _ h =>
            frame_andThen (frame_step h ⟨rfl, rfl, rfl⟩) fun _ h =>
            frame_andThen (frame_step h ⟨rfl, rfl, rfl⟩) fun _ h =>
            frame_andThen (frame_step h ⟨rfl, rfl, rfl⟩) fun _ h =>
            frame_andThen (frame_step h (RAf_frame ..)) fun _ h =>
            frame_andThen (frame_step h (r12f_frame ..)) fun _ h =>
            frame_andThen (frame_step h ⟨rfl, rfl, rfl⟩) fun _ h =>
            frame_andThen (frame_step h (fcEturf_frame ..)) fun _ h =>
            frame_andThen (frame_step h ⟨rfl, rfl, rfl⟩) fun _ h =>
            frame_step h ⟨rfl, rfl, rfl⟩
          ) (
            frame_ite (
                frame_andThen (frame_step h (r88f_frame ..)) fun _ h =>
                frame_andThen (frame_step h ⟨rfl, rfl, rfl⟩) fun _ h =>
                frame_andThen (frame_step h (RAf_frame ..)) fun _ h =>
                frame_andThen (frame_step h (fcEturf_frame ..)) fun _ h =>
                frame_andThen (frame_step h ⟨rfl, rfl, rfl⟩) fun _ h =>
                frame_step h ⟨rfl, rfl, rfl⟩
              ) (
                frame_step h (fcEtpf_frame ..)
              )
          )
      ) (
        frame_ite (
            frame_andThen (frame_step h (fcEtpf_frame ..)) fun _ h =>
            frame_andThen (frame_step h ⟨rfl, rfl, rfl⟩) fun _ h =>
            frame_andThen (frame_step h ⟨rfl, rfl, rfl⟩) fun _ h =>
            frame_andThen (frame_step h ⟨rfl, rfl, rfl⟩) fun _ h =>
            frame_andThen (frame_step h ⟨rfl, rfl, rfl⟩) fun _ h =>
            frame_andThen (frame_step h ⟨rfl, rfl, rfl⟩) fun _ h =>
            frame_andThen (frame_step h ⟨rfl, rfl, rfl⟩) fun _ h =>
            frame_andThen (frame_step h (RAf_frame ..)) fun _ h =>
            frame_andThen (frame_step h (r12f_frame ..)) fun _ h =>
            frame_andThen (frame_step h ⟨rfl, rfl, rfl⟩) fun _ h =>
            frame_andThen (frame_step h (fcEturf_frame ..)) fun _ h =>
            frame_andThen (frame_step h ⟨rfl, rfl, rfl⟩) fun _ h =>
            frame_step h ⟨rfl, rfl, rfl⟩
          ) (
            frame_step h (fcEtpf_frame ..)
          )
      )

theorem setTrialStrain_L3157_frame (m : Libm) (s : State) (strain : ℚ) : Frame s (setTrialStrain_L3157 m s strain) := by
  unfold setTrialStrain_L3157
  have h : Frame s s := frame_refl s
  exact
    frame_ite (
        frame_step h (setTrialStrain_L3159_frame ..)
      ) (
        frame_step h (setTrialStrain_L3159_else_frame ..)
      )

theorem setTrialStrain_L1871_else_frame (m : Libm) (s : State) (strain : ℚ) : Frame s (setTrialStrain_L1871_else m s strain) := by
  unfold setTrialStrain_L1871_else
  have h : Frame s s := frame_refl s
  exact
    frame_ite (
        frame_ite (
            frame_andThen (frame_step h (r3f_frame ..)) fun _ h =>
            frame_andThen (frame_step h ⟨rfl, rfl, rfl⟩) fun _ h =>
            frame_andThen (frame_step h (RAf_frame ..)) fun _ h =>
            frame_andThen (frame_step h (fcEturf_frame ..)) fun _ h =>
            frame_andThen (frame_step h ⟨rfl, rfl, rfl⟩) fun _ h =>
            frame_step h ⟨rfl, rfl, rfl⟩
          ) (
            frame_ite (
                frame_andThen (frame_step h (r9f_frame ..)) fun _ h =>
                frame_andThen (frame_step h ⟨rfl, rfl, rfl⟩) fun _ h =>
                frame_andThen (frame_step h (RAf_frame ..)) fun _ h =>
                frame_andThen (frame_step h (fcEturf_frame ..)) fun _ h =>
                frame_andThen (frame_step h ⟨rfl, rfl, rfl⟩) fun _ h =>
                frame_step h ⟨rfl, rfl, rfl⟩
              ) (
                frame_ite (
                    frame_andThen (frame_step h (r8f_frame ..)) fun _ h =>
                    frame_andThen (frame_step h ⟨rfl, rfl, rfl⟩) fun _ h =>
                    frame_andThen (frame_step h (RAf_frame ..)) fun _ h =>
                    frame_andThen (frame_step h (fcEturf_frame ..)) fun _ h =>
                    frame_andThen (frame_step h ⟨rfl, rfl, rfl⟩) fun _ h =>
                    frame_step h ⟨rfl, rfl, rfl⟩
                  ) (
                    frame_step h (fcEtpf_frame ..)
                  )
              )
          )
      ) (
        frame_ite (
            frame_step h (fcEtpf_frame ..)
          ) (
            frame_ite (
                frame_andThen (frame_step h (fcEtpr6f_frame ..)) fun _ h =>
                frame_step h ⟨rfl, rfl, rfl⟩
              ) (
                frame_ite (
                    frame_ite (
                        frame_andThen (frame_step h (r88f_frame ..)) fun _ h =>
                        frame_andThen (frame_step h ⟨rfl, rfl, rfl⟩) fun _ h =>
                        frame_andThen (frame_step h (RAf_frame ..)) fun _ h =>
                        frame_andThen (frame_step h (fcEturf_frame ..)) fun _ h =>
                        frame_andThen (frame_step h ⟨rfl, rfl, rfl⟩) fun _ h =>
                        frame_step h ⟨rfl, rfl, rfl⟩
                      ) (
                        frame_step h (fcEtpf_frame ..)
                      )
                  ) (
                    frame_ite (
                        frame_step h (setTrialStrain_L3157_frame ..)
                      ) (
                        frame_ite (
                            frame_ite (
                                frame_andThen (frame_step h (r14f_frame ..)) fun _ h =>
                                frame_andThen (frame_step h ⟨rfl, rfl, rfl⟩) fun _ h =>
                                frame_andThen (frame_step h (RAf_frame ..)) fun _ h =>
                                frame_andThen (frame_step h (fcEturf_frame ..)) fun _ h =>
                                frame_andThen (frame_step h ⟨rfl, rfl, rfl⟩) fun _ h =>
                                frame_step h ⟨rfl, rfl, rfl⟩
                              ) (
                                frame_ite (
                                    frame_andThen (frame_step h (r66f_frame ..)) fun _ h =>
                                    frame_step h ⟨rfl, rfl, rfl⟩
                                  ) (
                                    frame_andThen (frame_step h (fcEtpr6f_frame ..)) fun _ h =>
                                    frame_step h ⟨rfl, rfl, rfl⟩
                                  )
                              )
                          ) (
                            frame_ite (
                                frame_ite (
                                    frame_andThen (frame_step h (r66f_frame ..)) fun _ h =>
                                    frame_step h ⟨rfl, rfl, rfl⟩
                                  ) (
                                    frame_andThen (frame_step h (fcEtpr6f_frame ..)) fun _ h =>
                                    frame_step h ⟨rfl, rfl, rfl⟩
                                  )
                              ) (
                                h
                              )
                          )
                      )
                  )
              )
          )
      )

theorem setTrialStrain_L365_else_frame (m : Libm) (s : State) (strain : ℚ) : Frame s (setTrialStrain_L365_else m s strain) := by
  unfold setTrialStrain_L365_else
  have h : Frame s s := frame_refl s
  exact
    frame_ite (
        frame_step h (setTrialStrain_L1871_frame ..)
      ) (
        frame_step h (setTrialStrain_L1871_else_frame ..)
      )

theorem setTrialStrain_L276_else_frame (m : Libm) (s : State) (strain : ℚ) : Frame s (setTrialStrain_L276_else m s strain) := by
  unfold setTrialStrain_L276_else
  have h : Frame s s := frame_refl s
  exact
    frame_andThen (frame_step h (setTrialStrain_L310_L334_frame ..)) fun _ h =>
    frame_andThen (frame_step h (setTrialStrain_L336_L362_frame ..)) fun _ h =>
    frame_ite (
        frame_step h (setTrialStrain_L365_frame ..)
      ) (
        frame_step h (setTrialStrain_L365_else_frame ..)
      )

theorem setTrialStrain_body_frame (m : Libm) (s : State) (strain : ℚ) :
    Frame ((revertToLastCommit s).set_Tstrain strain) (setTrialStrain m s strain) := by
  unfold setTrialStrain
  have h := frame_refl ((revertToLastCommit s).set_Tstrain strain)
  exact
    frame_ite (
        frame_andThen (
            frame_ite (
                frame_andThen (frame_step h (fcEtnf_frame ..)) fun _ h =>
                frame_step h ⟨rfl, rfl, rfl⟩
              ) (
                frame_ite (
                    frame_andThen (frame_step h (fcEtpf_frame ..)) fun _ h =>
                    frame_step h ⟨rfl, rfl, rfl⟩
                  ) (
                    frame_andThen (frame_step h ⟨rfl, rfl, rfl⟩) fun _ h =>
                    frame_andThen (frame_step h ⟨rfl, rfl, rfl⟩) fun _ h =>
                    frame_andThen (frame_step h ⟨rfl, rfl, rfl⟩) fun _ h =>
                    frame_step h ⟨rfl, rfl, rfl⟩
                  )
              )
          ) fun _ h =>
        frame_andThen (frame_step h ⟨rfl, rfl, rfl⟩) fun _ h =>
        frame_andThen (frame_step h ⟨rfl, rfl, rfl⟩) fun _ h =>
        frame_andThen (frame_step h ⟨rfl, rfl, rfl⟩) fun _ h =>
        frame_andThen (frame_step h ⟨rfl, rfl, rfl⟩) fun _ h =>
        frame_andThen (frame_step h ⟨rfl, rfl, rfl⟩) fun _ h =>
        frame_andThen (frame_step h ⟨rfl, rfl, rfl⟩) fun _ h =>
        frame_andThen (frame_step h ⟨rfl, rfl, rfl⟩) fun _ h =>
        frame_andThen (frame_step h ⟨rfl, rfl, rfl⟩) fun _ h =>
        frame_andThen (frame_step h ⟨rfl, rfl, rfl⟩) fun _ h =>
        frame_andThen (frame_step h ⟨rfl, rfl, rfl⟩) fun _ h =>
        frame_andThen (frame_step h ⟨rfl, rfl, rfl⟩) fun _ h =>
        frame_andThen (frame_step h ⟨rfl, rfl, rfl⟩) fun _ h =>
        frame_andThen (frame_step h ⟨rfl, rfl, rfl⟩) fun _ h =>
        frame_step h ⟨rfl, rfl, rfl⟩
      ) (
        frame_ite (
            frame_andThen (
                frame_ite (
                    frame_andThen (frame_step h (fcEtnf_frame ..)) fun _ h =>
                    frame_step h ⟨rfl, rfl, rfl⟩
                  ) (
                    frame_ite (
                        frame_andThen (frame_step h (fcEtpf_frame ..)) fun _ h =>
                        frame_step h ⟨rfl, rfl, rfl⟩
                      ) (
                        frame_andThen (frame_step h ⟨rfl, rfl, rfl⟩) fun _ h =>
                        frame_andThen (frame_step h ⟨rfl, rfl, rfl⟩) fun _ h =>
                        frame_andThen (frame_step h ⟨rfl, rfl, rfl⟩) fun _ h =>
                        frame_step h ⟨rfl, rfl, rfl⟩
                      )
                  )
              ) fun _ h =>
            frame_andThen (frame_step h ⟨rfl, rfl, rfl⟩) fun _ h =>
            frame_andThen (frame_step h ⟨rfl, rfl, rfl⟩) fun _ h =>
            frame_andThen (frame_step h ⟨rfl, rfl, rfl⟩) fun _ h =>
            frame_andThen (frame_step h ⟨rfl, rfl, rfl⟩) fun _ h =>
            frame_andThen (frame_step h ⟨rfl, rfl, rfl⟩) fun _ h =>
            frame_andThen (frame_step h ⟨rfl, rfl, rfl⟩) fun _ h =>
            frame_andThen (frame_step h ⟨rfl, rfl, rfl⟩) fun _ h =>
            frame_andThen (frame_step h ⟨rfl, rfl, rfl⟩) fun _ h =>
            frame_andThen (frame_step h ⟨rfl, rfl, rfl⟩) fun _ h =>
            frame_andThen (frame_step h ⟨rfl, rfl, rfl⟩) fun _ h =>
            frame_andThen (frame_step h ⟨rfl, rfl, rfl⟩) fun _ h =>
            frame_andThen (frame_step h ⟨rfl, rfl, rfl⟩) fun _ h =>
            frame_andThen (frame_step h ⟨rfl, rfl, rfl⟩) fun _ h =>
            frame_step h ⟨rfl, rfl, rfl⟩
          ) (
            frame_step h (setTrialStrain_L276_else_frame ..)
          )
      )

theorem yf_keeps (m : Libm) (s : State) (x n r : ℚ) : Keeps s (yf m s x n r) := by
  have h : Keeps s s := keeps_refl s
  exact keeps_step h ⟨rfl, rfl, rfl⟩

theorem zf_keeps (m : Libm) (s : State) (x n r : ℚ) : Keeps s (zf m s x n r) := by
  have h : Keeps s s := keeps_refl s
  exact keeps_step h ⟨rfl, rfl, rfl⟩

theorem Esecnf_keeps (s : State) (eunn funn : ℚ) : Keeps s (Esecnf s eunn funn) := by
  unfold Esecnf
  have h : Keeps s s := keeps_refl s
  exact
    keeps_step h ⟨rfl, rfl, rfl⟩

theorem esplnf_keeps (s : State) (eunn funn : ℚ) : Keeps s (esplnf s eunn funn) := by
  unfold esplnf
  have h : Keeps s s := keeps_refl s
  exact
    keeps_andThen (keeps_step h (Esecnf_keeps ..)) fun _ h =>
    keeps_step h ⟨rfl, rfl, rfl⟩

theorem Eplnf_keeps (m : Libm) (s : State) (eunn : ℚ) : Keeps s (Eplnf m s eunn) := by
  unfold Eplnf
  have h : Keeps s s := keeps_refl s
  exact
    keeps_step h ⟨rfl, rfl, rfl⟩

theorem delenf_keeps (s : State) (eunn : ℚ) : Keeps s (delenf s eunn) := by
  unfold delenf
  have h : Keeps s s := keeps_refl s
  exact
    keeps_step h ⟨rfl, rfl, rfl⟩

theorem delfnf_keeps (m : Libm) (s : State) (eunn funn : ℚ) : Keeps s (delfnf m s eunn funn) := by
  unfold delfnf
  have h : Keeps s s := keeps_refl s
  exact
    keeps_ite (
        keeps_step h ⟨rfl, rfl, rfl⟩
      ) (
        keeps_step h ⟨rfl, rfl, rfl⟩
      )

theorem fnewnf_keeps (m : Libm) (s : State) (eunn funn : ℚ) : Keeps s (fnewnf m s eunn funn) := by
  unfold fnewnf
  have h : Keeps s s := keeps_refl s
  exact
    keeps_andThen (keeps_step h (delfnf_keeps ..)) fun _ h =>
    keeps_step h ⟨rfl, rfl, rfl⟩

theorem Enewnf_keeps (m : Libm) (s : State) (eunn funn : ℚ) : Keeps s (Enewnf m s eunn funn) := by
  unfold Enewnf
  have h : Keeps s s := keeps_refl s
  exact
    keeps_andThen (keeps_step h (fnewnf_keeps ..)) fun _ h =>
    keeps_andThen (keeps_step h (esplnf_keeps ..)) fun _ h =>
    keeps_andThen (keeps_step h ⟨rfl, rfl, rfl⟩) fun _ h =>
    keeps_ite (
        keeps_step h ⟨rfl, rfl, rfl⟩
      ) (
        h
      )

theorem esrenf_keeps (s : State) (eunn : ℚ) : Keeps s (esrenf s eunn) := by
  unfold esrenf
  have h : Keeps s s := keeps_refl s
  exact
    keeps_andThen (keeps_step h (delenf_keeps ..)) fun _ h =>
    keeps_step h ⟨rfl, rfl, rfl⟩

theorem freErenf_keeps (m : Libm) (s : State) (eunn : ℚ) : Keeps s (freErenf m s eunn) := by
  unfold freErenf
  have h : Keeps s s := keeps_refl s
  exact
    keeps_andThen (keeps_step h (esrenf_keeps ..)) fun _ h =>
    keeps_andThen (keeps_step h ⟨rfl, rfl, rfl⟩) fun _ h =>
    keeps_andThen (keeps_step h ⟨rfl, rfl, rfl⟩) fun _ h =>
    keeps_andThen (keeps_step h (yf_keeps ..)) fun _ h =>
    keeps_andThen (keeps_step h (zf_keeps ..)) fun _ h =>
    keeps_andThen (keeps_step h ⟨rfl, rfl, rfl⟩) fun _ h =>
    keeps_ite (
        keeps_ite (
            keeps_andThen (keeps_step h (yf_keeps ..)) fun _ h =>
            keeps_andThen (keeps_step h (zf_keeps ..)) fun _ h =>
            keeps_andThen (keeps_step h ⟨rfl, rfl, rfl⟩) fun _ h =>
            keeps_step h ⟨rfl, rfl, rfl⟩
          ) (
            keeps_andThen (keeps_step h (yf_keeps ..)) fun _ h =>
            keeps_andThen (keeps_step h (zf_keeps ..)) fun _ h =>
            keeps_andThen (keeps_step h ⟨rfl, rfl, rfl⟩) fun _ h =>
            keeps_step h ⟨rfl, rfl, rfl⟩
          )
      ) (
        keeps_andThen (keeps_step h ⟨rfl, rfl, rfl⟩) fun _ h =>
        keeps_step h ⟨rfl, rfl, rfl⟩
      )

theorem fnewstnf_keeps (s : State) (funn delfn eunn er0n espln : ℚ) : Keeps s (fnewstnf s funn delfn eunn er0n espln) := by
  unfold fnewstnf
  have h : Keeps s s := keeps_refl s
  exact
    keeps_step h ⟨rfl, rfl, rfl⟩

theorem Enewstnf_keeps (s : State) (fnewstn fr0n eunn er0n : ℚ) : Keeps s (Enewstnf s fnewstn fr0n eunn er0n) := by
  unfold Enewstnf
  have h : Keeps s s := keeps_refl s
  exact
    keeps_step h ⟨rfl, rfl, rfl⟩

theorem esrestnf_keeps (s : State) (eunn delen er0n espln : ℚ) : Keeps s (esrestnf s eunn delen er0n espln) := by
  unfold esrestnf
  have h : Keeps s s := keeps_refl s
  exact
    keeps_step h ⟨rfl, rfl, rfl⟩

theorem freErestnf_keeps (m : Libm) (s : State) (eunn funn er0n : ℚ) : Keeps s (freErestnf m s eunn funn er0n) := by
  unfold freErestnf
  have h : Keeps s s := keeps_refl s
  exact
    keeps_andThen (keeps_step h (delenf_keeps ..)) fun _ h =>
    keeps_andThen (keeps_step h (esplnf_keeps ..)) fun _ h =>
    keeps_andThen (keeps_step h (esrestnf_keeps ..)) fun _ h =>
    keeps_andThen (keeps_step h ⟨rfl, rfl, rfl⟩) fun _ h =>
    keeps_andThen (keeps_step h ⟨rfl, rfl, rfl⟩) fun _ h =>
    keeps_andThen (keeps_step h (yf_keeps ..)) fun _ h =>
    keeps_andThen (keeps_step h (zf_keeps ..)) fun _ h =>
    keeps_andThen (keeps_step h ⟨rfl, rfl, rfl⟩) fun _ h =>
    keeps_ite (
        keeps_ite (
            keeps_andThen (keeps_step h (yf_keeps ..)) fun _ h =>
            keeps_andThen (keeps_step h (zf_keeps ..)) fun _ h =>
            keeps_andThen (keeps_step h ⟨rfl, rfl, rfl⟩) fun _ h =>
            keeps_step h ⟨rfl, rfl, rfl⟩
          ) (
            keeps_andThen (keeps_step h (yf_keeps ..)) fun _ h =>
            keeps_andThen (keeps_step h (zf_keeps ..)) fun _ h =>
            keeps_andThen (keeps_step h ⟨rfl, rfl, rfl⟩) fun _ h =>
            keeps_step h ⟨rfl, rfl, rfl⟩
          )
      ) (
        keeps_andThen (keeps_step h ⟨rfl, rfl, rfl⟩) fun _ h =>
        keeps_step h ⟨rfl, rfl, rfl⟩
      )

theorem Esecpf_keeps (s : State) (e0 eunp funp espln : ℚ) : Keeps s (Esecpf s e0 eunp funp espln) := by
  unfold Esecpf
  have h : Keeps s s := keeps_refl s
  exact
    keeps_andThen (keeps_step h ⟨rfl, rfl, rfl⟩) fun _ h =>
    keeps_ite (
        keeps_step h ⟨rfl, rfl, rfl⟩
      ) (
        h
      )

theorem esplpf_keeps (s : State) (eunp funp e0 espln : ℚ) : Keeps s (esplpf s eunp funp e0 espln) := by
  unfold esplpf
  have h : Keeps s s := keeps_refl s
  exact
    keeps_andThen (keeps_step h (Esecpf_keeps ..)) fun _ h =>
    keeps_step h ⟨rfl, rfl, rfl⟩

theorem Eplpf_keeps (m : Libm) (s : State) (e0 eunp : ℚ) : Keeps s (Eplpf m s e0 eunp) := by
  unfold Eplpf
  have h : Keeps s s := keeps_refl s
  exact
    keeps_ite (
        keeps_step h ⟨rfl, rfl, rfl⟩
      ) (
        keeps_step h ⟨rfl, rfl, rfl⟩
      )

theorem delepf_keeps (s : State) (eunp e0 : ℚ) : Keeps s (delepf s eunp e0) := by
  unfold delepf
  have h : Keeps s s := keeps_refl s
  exact
    keeps_step h ⟨rfl, rfl, rfl⟩

theorem delfpf_keeps (s : State) (funp eunp e0 : ℚ) : Keeps s (delfpf s funp eunp e0) := by
  unfold delfpf
  have h : Keeps s s := keeps_refl s
  exact
    keeps_ite (
        keeps_step h ⟨rfl, rfl, rfl⟩
      ) (
        keeps_step h ⟨rfl, rfl, rfl⟩
      )

theorem fnewpf_keeps (s : State) (funp eunp e0 : ℚ) : Keeps s (fnewpf s funp eunp e0) := by
  unfold fnewpf
  have h : Keeps s s := keeps_refl s
  exact
    keeps_andThen (keeps_step h (delfpf_keeps ..)) fun _ h =>
    keeps_step h ⟨rfl, rfl, rfl⟩

theorem Enewpf_keeps (s : State) (eunp funp e0 espln : ℚ) : Keeps s (Enewpf s eunp funp e0 espln) := by
  unfold Enewpf
  have h : Keeps s s := keeps_refl s
  exact
    keeps_andThen (keeps_step h (fnewpf_keeps ..)) fun _ h =>
    keeps_andThen (keeps_step h (esplpf_keeps ..)) fun _ h =>
    keeps_andThen (keeps_step h ⟨rfl, rfl, rfl⟩) fun _ h =>
    keeps_ite (
        keeps_step h ⟨rfl, rfl, rfl⟩
      ) (
        h
      )

theorem esrepf_keeps (s : State) (eunp e0 : ℚ) : Keeps s (esrepf s eunp e0) := by
  unfold esrepf
  have h : Keeps s s := keeps_refl s
  exact
    keeps_andThen (keeps_step h (delepf_keeps ..)) fun _ h =>
    keeps_step h ⟨rfl, rfl, rfl⟩

theorem freErepf_keeps (m : Libm) (s : State) (eunp e0 : ℚ) : Keeps s (freErepf m s eunp e0) := by
  unfold freErepf
  have h : Keeps s s := keeps_refl s
  exact
    keeps_andThen (keeps_step h (esrepf_keeps ..)) fun _ h =>
    keeps_andThen (keeps_step h ⟨rfl, rfl, rfl⟩) fun _ h =>
    keeps_andThen (keeps_step h ⟨rfl, rfl, rfl⟩) fun _ h =>
    keeps_andThen (keeps_step h (yf_keeps ..)) fun _ h =>
    keeps_andThen (keeps_step h (zf_keeps ..)) fun _ h =>
    keeps_andThen (keeps_step h ⟨rfl, rfl, rfl⟩) fun _ h =>
    keeps_ite (
        keeps_ite (
            keeps_andThen (keeps_step h (yf_keeps ..)) fun _ h =>
            keeps_andThen (keeps_step h (zf_keeps ..)) fun _ h =>
            keeps_andThen (keeps_step h ⟨rfl, rfl, rfl⟩) fun _ h =>
            keeps_step h ⟨rfl, rfl, rfl⟩
          ) (
            keeps_andThen (keeps_step h (yf_keeps ..)) fun _ h =>
            keeps_andThen (keeps_step h (zf_keeps ..)) fun _ h =>
            keeps_andThen (keeps_step h ⟨rfl, rfl, rfl⟩) fun _ h =>
            keeps_step h ⟨rfl, rfl, rfl⟩
          )
      ) (
        keeps_andThen (keeps_step h ⟨rfl, rfl, rfl⟩) fun _ h =>
        keeps_step h ⟨rfl, rfl, rfl⟩
      )

theorem fnewstpf_keeps (s : State) (funp delfp eunp er0p esplp e0 : ℚ) : Keeps s (fnewstpf s funp delfp eunp er0p esplp e0) := by
  unfold fnewstpf
  have h : Keeps s s := keeps_refl s
  exact
    keeps_step h ⟨rfl, rfl, rfl⟩

theorem Enewstpf_keeps (s : State) (fnewstp fr0p eunp er0p : ℚ) : Keeps s (Enewstpf s fnewstp fr0p eunp er0p) := by
  unfold Enewstpf
  have h : Keeps s s := keeps_refl s
  exact
    keeps_step h ⟨rfl, rfl, rfl⟩

theorem esrestpf_keeps (s : State) (eunp delep er0p esplp : ℚ) : Keeps s (esrestpf s eunp delep er0p esplp) := by
  unfold esrestpf
  have h : Keeps s s := keeps_refl s
  exact
    keeps_step h ⟨rfl, rfl, rfl⟩

theorem freErestpf_keeps (m : Libm) (s : State) (eunp funp er0p e0 espln : ℚ) : Keeps s (freErestpf m s eunp funp er0p e0 espln) := by
  unfold freErestpf
  have h : Keeps s s := keeps_refl s
  exact
    keeps_andThen (keeps_step h (delepf_keeps ..)) fun _ h =>
    keeps_andThen (keeps_step h (esplpf_keeps ..)) fun _ h =>
    keeps_andThen (keeps_step h (esrestpf_keeps ..)) fun _ h =>
    keeps_andThen (keeps_step h ⟨rfl, rfl, rfl⟩) fun _ h =>
    keeps_andThen (keeps_step h ⟨rfl, rfl, rfl⟩) fun _ h =>
    keeps_andThen (keeps_step h (yf_keeps ..)) fun _ h =>
    keeps_andThen (keeps_step h (zf_keeps ..)) fun _ h =>
    keeps_andThen (keeps_step h ⟨rfl, rfl, rfl⟩) fun _ h =>
    keeps_ite (
        keeps_ite (
            keeps_andThen (keeps_step h (yf_keeps ..)) fun _ h =>
            keeps_andThen (keeps_step h (zf_keeps ..)) fun _ h =>
            keeps_andThen (keeps_step h ⟨rfl, rfl, rfl⟩) fun _ h =>
            keeps_step h ⟨rfl, rfl, rfl⟩
          ) (
            keeps_andThen (keeps_step h (yf_keeps ..)) fun _ h =>
            keeps_andThen (keeps_step h (zf_keeps ..)) fun _ h =>
            keeps_andThen (keeps_step h ⟨rfl, rfl, rfl⟩) fun _ h =>
            keeps_step h ⟨rfl, rfl, rfl⟩
          )
      ) (
        keeps_andThen (keeps_step h ⟨rfl, rfl, rfl⟩) fun _ h =>
        keeps_step h ⟨rfl, rfl, rfl⟩
      )

theorem r3f_keeps (s : State) (eunn funn espln Epln : ℚ) : Keeps s (r3f s eunn funn espln Epln) := by
  unfold r3f
  have h : Keeps s s := keeps_refl s
  exact
    keeps_andThen (keeps_step h ⟨rfl, rfl, rfl⟩) fun _ h =>
    keeps_andThen (keeps_step h ⟨rfl, rfl, rfl⟩) fun _ h =>
    keeps_andThen (keeps_step h ⟨rfl, rfl, rfl⟩) fun _ h =>
    keeps_andThen (keeps_step h ⟨rfl, rfl, rfl⟩) fun _ h =>
    keeps_andThen (keeps_step h ⟨rfl, rfl, rfl⟩) fun _ h =>
    keeps_step h ⟨rfl, rfl, rfl⟩

theorem r9f_keeps (s : State) (espln Epln eunp fnewp Enewp : ℚ) : Keeps s (r9f s espln Epln eunp fnewp Enewp) := by
  unfold r9f
  have h : Keeps s s := keeps_refl s
  exact
    keeps_andThen (keeps_step h ⟨rfl, rfl, rfl⟩) fun _ h =>
    keeps_andThen (keeps_step h ⟨rfl, rfl, rfl⟩) fun _ h =>
    keeps_andThen (keeps_step h ⟨rfl, rfl, rfl⟩) fun _ h =>
    keeps_andThen (keeps_step h ⟨rfl, rfl, rfl⟩) fun _ h =>
    keeps_andThen (keeps_step h ⟨rfl, rfl, rfl⟩) fun _ h =>
    keeps_step h ⟨rfl, rfl, rfl⟩

theorem r8f_keeps (s : State) (eunp fnewp Enewp esrep frep Erep : ℚ) : Keeps s (r8f s eunp fnewp Enewp esrep frep Erep) := by
  unfold r8f
  have h : Keeps s s := keeps_refl s
  exact
    keeps_andThen (keeps_step h ⟨rfl, rfl, rfl⟩) fun _ h =>
    keeps_andThen (keeps_step h ⟨rfl, rfl, rfl⟩) fun _ h =>
    keeps_andThen (keeps_step h ⟨rfl, rfl, rfl⟩) fun _ h =>
    keeps_andThen (keeps_step h ⟨rfl, rfl, rfl⟩) fun _ h =>
    keeps_andThen (keeps_step h ⟨rfl, rfl, rfl⟩) fun _ h =>
    keeps_step h ⟨rfl, rfl, rfl⟩

theorem r4f_keeps (s : State) (eunp funp esplp Eplp : ℚ) : Keeps s (r4f s eunp funp esplp Eplp) := by
  unfold r4f
  have h : Keeps s s := keeps_refl s
  exact
    keeps_andThen (keeps_step h ⟨rfl, rfl, rfl⟩) fun _ h =>
    keeps_andThen (keeps_step h ⟨rfl, rfl, rfl⟩) fun _ h =>
    keeps_andThen (keeps_step h ⟨rfl, rfl, rfl⟩) fun _ h =>
    keeps_andThen (keeps_step h ⟨rfl, rfl, rfl⟩) fun _ h =>
    keeps_andThen (keeps_step h ⟨rfl, rfl, rfl⟩) fun _ h =>
    keeps_step h ⟨rfl, rfl, rfl⟩

theorem r10f_keeps (s : State) (esplp Eplp eunn fnewn Enewn : ℚ) : Keeps s (r10f s esplp Eplp eunn fnewn Enewn) := by
  unfold r10f
  have h : Keeps s s := keeps_refl s
  exact
    keeps_andThen (keeps_step h ⟨rfl, rfl, rfl⟩) fun _ h =>
    keeps_andThen (keeps_step h ⟨rfl, rfl, rfl⟩) fun _ h =>
    keeps_andThen (keeps_step h ⟨rfl, rfl, rfl⟩) fun _ h =>
    keeps_andThen (keeps_step h ⟨rfl, rfl, rfl⟩) fun _ h =>
    keeps_andThen (keeps_step h ⟨rfl, rfl, rfl⟩) fun _ h =>
    keeps_step h ⟨rfl, rfl, rfl⟩

theorem r7f_keeps (s : State) (eunn fnewn Enewn esren fren Eren : ℚ) : Keeps s (r7f s eunn fnewn Enewn esren fren Eren) := by
  unfold r7f
  have h : Keeps s s := keeps_refl s
  exact
    keeps_andThen (keeps_step h ⟨rfl, rfl, rfl⟩) fun _ h =>
    keeps_andThen (keeps_step h ⟨rfl, rfl, rfl⟩) fun _ h =>
    keeps_andThen (keeps_step h ⟨rfl, rfl, rfl⟩) fun _ h =>
    keeps_andThen (keeps_step h ⟨rfl, rfl, rfl⟩) fun _ h =>
    keeps_andThen (keeps_step h ⟨rfl, rfl, rfl⟩) fun _ h =>
    keeps_step h ⟨rfl, rfl, rfl⟩

theorem fcEturf_keeps (m : Libm) (s : State) (es esi fi esf ff Ei Ef A R : ℚ) : Keeps s (fcEturf m s es esi fi esf ff Ei Ef A R) := by
  unfold fcEturf
  have h : Keeps s s := keeps_refl s
  exact
    keeps_ite (
        keeps_andThen (keeps_step h ⟨rfl, rfl, rfl⟩) fun _ h =>
        keeps_step h ⟨rfl, rfl, rfl⟩
      ) (
        keeps_ite (
            keeps_andThen (keeps_step h ⟨rfl, rfl, rfl⟩) fun _ h =>
            keeps_step h ⟨rfl, rfl, rfl⟩
          ) (
            keeps_ite (
                keeps_andThen (keeps_step h ⟨rfl, rfl, rfl⟩) fun _ h =>
                keeps_step h ⟨rfl, rfl, rfl⟩
              ) (
                keeps_ite (
                    keeps_andThen (keeps_step h ⟨rfl, rfl, rfl⟩) fun _ h =>
                    keeps_step h ⟨rfl, rfl, rfl⟩
                  ) (
                    keeps_andThen (keeps_step h ⟨rfl, rfl, rfl⟩) fun _ h =>
                    keeps_andThen (keeps_step h ⟨rfl, rfl, rfl⟩) fun _ h =>
                    keeps_ite (
                        keeps_andThen (keeps_step h ⟨rfl, rfl, rfl⟩) fun _ h =>
                        keeps_step h ⟨rfl, rfl, rfl⟩
                      ) (
                        h
                      )
                  )
              )
          )
      )

theorem r12f_keeps (m : Libm) (s : State) (er fr ea fca Eta A R : ℚ) : Keeps s (r12f m s er fr ea fca Eta A R) := by
  unfold r12f
  have h : Keeps s s := keeps_refl s
  exact
    keeps_andThen (keeps_step h ⟨rfl, rfl, rfl⟩) fun _ h =>
    keeps_andThen (keeps_step h ⟨rfl, rfl, rfl⟩) fun _ h =>
    keeps_andThen (keeps_step h ⟨rfl, rfl, rfl⟩) fun _ h =>
    keeps_andThen (keeps_step h ⟨rfl, rfl, rfl⟩) fun _ h =>
    keeps_andThen (keeps_step h ⟨rfl, rfl, rfl⟩) fun _ h =>
    keeps_andThen (keeps_step h ⟨rfl, rfl, rfl⟩) fun _ h =>
    keeps_andThen (keeps_step h (fcEturf_keeps ..)) fun _ h =>
    keeps_andThen (keeps_step h ⟨rfl, rfl, rfl⟩) fun _ h =>
    keeps_step h ⟨rfl, rfl, rfl⟩

theorem r11f_keeps (m : Libm) (s : State) (er fr eb fcb Etb A R : ℚ) : Keeps s (r11f m s er fr eb fcb Etb A R) := by
  unfold r11f
  have h : Keeps s s := keeps_refl s
  exact
    keeps_andThen (keeps_step h ⟨rfl, rfl, rfl⟩) fun _ h =>
    keeps_andThen (keeps_step h ⟨rfl, rfl, rfl⟩) fun _ h =>
    keeps_andThen (keeps_step h ⟨rfl, rfl, rfl⟩) fun _ h =>
    keeps_andThen (keeps_step h ⟨rfl, rfl, rfl⟩) fun _ h =>
    keeps_andThen (keeps_step h ⟨rfl, rfl, rfl⟩) fun _ h =>
    keeps_andThen (keeps_step h ⟨rfl, rfl, rfl⟩) fun _ h =>
    keeps_andThen (keeps_step h (fcEturf_keeps ..)) fun _ h =>
    keeps_andThen (keeps_step h ⟨rfl, rfl, rfl⟩) fun _ h =>
    keeps_step h ⟨rfl, rfl, rfl⟩

theorem r13f_keeps (s : State) (ed eunn fnewn Enewn : ℚ) : Keeps s (r13f s ed eunn fnewn Enewn) := by
  unfold r13f
  have h : Keeps s s := keeps_refl s
  exact
    keeps_andThen (keeps_step h ⟨rfl, rfl, rfl⟩) fun _ h =>
    keeps_andThen (keeps_step h ⟨rfl, rfl, rfl⟩) fun _ h =>
    keeps_andThen (keeps_step h ⟨rfl, rfl, rfl⟩) fun _ h =>
    keeps_andThen (keeps_step h ⟨rfl, rfl, rfl⟩) fun _ h =>
    keeps_andThen (keeps_step h ⟨rfl, rfl, rfl⟩) fun _ h =>
    keeps_step h ⟨rfl, rfl, rfl⟩

theorem r14f_keeps (s : State) (er fr eb : ℚ) : Keeps s (r14f s er fr eb) := by
  unfold r14f
  have h : Keeps s s := keeps_refl s
  exact
    keeps_andThen (keeps_step h ⟨rfl, rfl, rfl⟩) fun _ h =>
    keeps_andThen (keeps_step h ⟨rfl, rfl, rfl⟩) fun _ h =>
    keeps_andThen (keeps_step h ⟨rfl, rfl, rfl⟩) fun _ h =>
    keeps_andThen (keeps_step h ⟨rfl, rfl, rfl⟩) fun _ h =>
    keeps_andThen (keeps_step h ⟨rfl, rfl, rfl⟩) fun _ h =>
    keeps_step h ⟨rfl, rfl, rfl⟩

theorem r15f_keeps (m : Libm) (s : State) (er fr ea fca Eta A R : ℚ) : Keeps s (r15f m s er fr ea fca Eta A R) := by
  unfold r15f
  have h : Keeps s s := keeps_refl s
  exact
    keeps_andThen (keeps_step h ⟨rfl, rfl, rfl⟩) fun _ h =>
    keeps_andThen (keeps_step h ⟨rfl, rfl, rfl⟩) fun _ h =>
    keeps_andThen (keeps_step h ⟨rfl, rfl, rfl⟩) fun _ h =>
    keeps_andThen (keeps_step h ⟨rfl, rfl, rfl⟩) fun _ h =>
    keeps_andThen (keeps_step h ⟨rfl, rfl, rfl⟩) fun _ h =>
    keeps_andThen (keeps_step h ⟨rfl, rfl, rfl⟩) fun _ h =>
    keeps_andThen (keeps_step h (fcEturf_keeps ..)) fun _ h =>
    keeps_andThen (keeps_step h ⟨rfl, rfl, rfl⟩) fun _ h =>
    keeps_step h ⟨rfl, rfl, rfl⟩

theorem r88f_keeps (s : State) (e e0 er0p fr0p eunp fnewstp Enewstp esrestp frestp Erestp : ℚ) : Keeps s (r88f s e e0 er0p fr0p eunp fnewstp Enewstp esrestp frestp Erestp) := by
  unfold r88f
  have h : Keeps s s := keeps_refl s
  exact
    keeps_andThen (
        keeps_ite (
            keeps_andThen (keeps_step h ⟨rfl, rfl, rfl⟩) fun _ h =>
            keeps_andThen (keeps_step h ⟨rfl, rfl, rfl⟩) fun _ h =>
            keeps_andThen (keeps_step h ⟨rfl, rfl, rfl⟩) fun _ h =>
            keeps_andThen (keeps_step h ⟨rfl, rfl, rfl⟩) fun _ h =>
            keeps_andThen (keeps_step h ⟨rfl, rfl, rfl⟩) fun _ h =>
            keeps_step h ⟨rfl, rfl, rfl⟩
          ) (
            h
          )
      ) fun _ h =>
    keeps_ite (
        keeps_andThen (keeps_step h ⟨rfl, rfl, rfl⟩) fun _ h =>
        keeps_andThen (keeps_step h ⟨rfl, rfl, rfl⟩) fun _ h =>
        keeps_andThen (keeps_step h ⟨rfl, rfl, rfl⟩) fun _ h =>
        keeps_andThen (keeps_step h ⟨rfl, rfl, rfl⟩) fun _ h =>
        keeps_andThen (keeps_step h ⟨rfl, rfl, rfl⟩) fun _ h =>
        keeps_step h ⟨rfl, rfl, rfl⟩
      ) (
        h
      )

theorem r77f_keeps (s : State) (e e0 er0n fr0n eunn fnewstn Enewstn esrestn frestn Erestn : ℚ) : Keeps s (r77f s e e0 er0n fr0n eunn fnewstn Enewstn esrestn frestn Erestn) := by
  unfold r77f
  have h : Keeps s s := keeps_refl s
  exact
    keeps_andThen (
        keeps_ite (
            keeps_andThen (keeps_step h ⟨rfl, rfl, rfl⟩) fun _ h =>
            keeps_andThen (keeps_step h ⟨rfl, rfl, rfl⟩) fun _ h =>
            keeps_andThen (keeps_step h ⟨rfl, rfl, rfl⟩) fun _ h =>
            keeps_andThen (keeps_step h ⟨rfl, rfl, rfl⟩) fun _ h =>
            keeps_andThen (keeps_step h ⟨rfl, rfl, rfl⟩) fun _ h =>
            keeps_step h ⟨rfl, rfl, rfl⟩
          ) (
            h
          )
      ) fun _ h =>
    keeps_ite (
        keeps_andThen (keeps_step h ⟨rfl, rfl, rfl⟩) fun _ h =>
        keeps_andThen (keeps_step h ⟨rfl, rfl, rfl⟩) fun _ h =>
        keeps_andThen (keeps_step h ⟨rfl, rfl, rfl⟩) fun _ h =>
        keeps_andThen (keeps_step h ⟨rfl, rfl, rfl⟩) fun _ h =>
        keeps_andThen (keeps_step h ⟨rfl, rfl, rfl⟩) fun _ h =>
        keeps_step h ⟨rfl, rfl, rfl⟩
      ) (
        h
      )

theorem RAf_keeps (m : Libm) (s : State) (esi fi Ei esf ff Ef : ℚ) : Keeps s (RAf m s esi fi Ei esf ff Ef) := by
  unfold RAf
  have h : Keeps s s := keeps_refl s
  exact
    keeps_andThen (keeps_step h ⟨rfl, rfl, rfl⟩) fun _ h =>
    keeps_ite (
        keeps_step h ⟨rfl, rfl, rfl⟩
      ) (
        keeps_andThen (keeps_step h ⟨rfl, rfl, rfl⟩) fun _ h =>
        keeps_ite (
            keeps_step h ⟨rfl, rfl, rfl⟩
          ) (
            h
          )
      )

theorem setTrialStrain_L336_L362_keeps (m : Libm) (s : State) (strain : ℚ) : Keeps s (setTrialStrain_L336_L362 m s strain) := by
  unfold setTrialStrain_L336_L362
  have h : Keeps s s := keeps_refl s
  exact
    keeps_andThen (keeps_step h (esplnf_keeps ..)) fun _ h =>
    keeps_andThen (keeps_step h (Eplnf_keeps ..)) fun _ h =>
    keeps_andThen (keeps_step h (Esecnf_keeps ..)) fun _ h =>
    keeps_andThen (keeps_step h (delenf_keeps ..)) fun _ h =>
    keeps_andThen (keeps_step h (delfnf_keeps ..)) fun _ h =>
    keeps_andThen (keeps_step h (fnewnf_keeps ..)) fun _ h =>
    keeps_andThen (keeps_step h (Enewnf_keeps ..)) fun _ h =>
    keeps_andThen (keeps_step h (esrenf_keeps ..)) fun _ h =>
    keeps_andThen (keeps_step h (freErenf_keeps ..)) fun _ h =>
    keeps_andThen (keeps_step h (fnewstnf_keeps ..)) fun _ h =>
    keeps_andThen (keeps_step h (Enewstnf_keeps ..)) fun _ h =>
    keeps_andThen (keeps_step h (esrestnf_keeps ..)) fun _ h =>
    keeps_andThen (keeps_step h (freErestnf_keeps ..)) fun _ h =>
    keeps_andThen (keeps_step h (esplpf_keeps ..)) fun _ h =>
    keeps_andThen (keeps_step h (Eplpf_keeps ..)) fun _ h =>
    keeps_andThen (keeps_step h (Esecpf_keeps ..)) fun _ h =>
    keeps_andThen (keeps_step h (delepf_keeps ..)) fun _ h =>
    keeps_andThen (keeps_step h (delfpf_keeps ..)) fun _ h =>
    keeps_andThen (keeps_step h (fnewpf_keeps ..)) fun _ h =>
    keeps_andThen (keeps_step h (Enewpf_keeps ..)) fun _ h =>
    keeps_andThen (keeps_step h (esrepf_keeps ..)) fun _ h =>
    keeps_andThen (keeps_step h (freErepf_keeps ..)) fun _ h =>
    keeps_andThen (keeps_step h (fnewstpf_keeps ..)) fun _ h =>
    keeps_andThen (keeps_step h (Enewstpf_keeps ..)) fun _ h =>
    keeps_andThen (keeps_step h (esrestpf_keeps ..)) fun _ h =>
    keeps_step h (freErestpf_keeps ..)

theorem yf_keeps_xsp (m : Libm) (s : State) (x n r : ℚ) : Same (fun t => t.w.xsp) s (yf m s x n r) := by
  have h : Same (fun t => t.w.xsp) s s := same_refl s
  exact same_step h rfl

theorem zf_keeps_xsp (m : Libm) (s : State) (x n r : ℚ) : Same (fun t => t.w.xsp) s (zf m s x n r) := by
  have h : Same (fun t => t.w.xsp) s s := same_refl s
  exact same_step h rfl

theorem r1f_keeps_xsp (m : Libm) (s : State) (x n r : ℚ) : Same (fun t => t.w.xsp) s (r1f m s x n r) := by
  unfold r1f
  have h : Same (fun t => t.w.xsp) s s := same_refl s
  exact
    same_ite (
        same_andThen (same_step h (yf_keeps_xsp ..)) fun _ h =>
        same_andThen (same_step h (zf_keeps_xsp ..)) fun _ h =>
        same_andThen (same_step h rfl) fun _ h =>
        same_step h rfl
      ) (
        same_andThen (same_step h (yf_keeps_xsp ..)) fun _ h =>
        same_andThen (same_step h (zf_keeps_xsp ..)) fun _ h =>
        same_andThen (same_step h rfl) fun _ h =>
        same_step h rfl
      )

theorem r5f_keeps_xsp (s : State) (x n r : ℚ) : Same (fun t => t.w.xsp) s (r5f s x n r) := by
  unfold r5f
  have h : Same (fun t => t.w.xsp) s s := same_refl s
  exact
    same_andThen (same_step h rfl) fun _ h =>
    same_step h rfl

theorem r2f_keeps_xsp (m : Libm) (s : State) (x n r : ℚ) : Same (fun t => t.w.xsp) s (r2f m s x n r) := by
  unfold r2f
  have h : Same (fun t => t.w.xsp) s s := same_refl s
  exact
    same_ite (
        same_andThen (same_step h (yf_keeps_xsp ..)) fun _ h =>
        same_andThen (same_step h (zf_keeps_xsp ..)) fun _ h =>
        same_andThen (same_step h rfl) fun _ h =>
        same_step h rfl
      ) (
        same_andThen (same_step h (yf_keeps_xsp ..)) fun _ h =>
        same_andThen (same_step h (zf_keeps_xsp ..)) fun _ h =>
        same_andThen (same_step h rfl) fun _ h =>
        same_step h rfl
      )

theorem r6f_keeps_xsp (s : State) (x n r : ℚ) : Same (fun t => t.w.xsp) s (r6f s x n r) := by
  unfold r6f
  have h : Same (fun t => t.w.xsp) s s := same_refl s
  exact
    same_andThen (same_step h rfl) fun _ h =>
    same_step h rfl

theorem fcEtpf_keeps_xsp (m : Libm) (s : State) (e e0 : ℚ) : Same (fun t => t.w.xsp) s (fcEtpf m s e e0) := by
  unfold fcEtpf
  have h : Same (fun t => t.w.xsp) s s := same_refl s
  exact
    same_andThen (same_step h rfl) fun _ h =>
    same_andThen (same_step h rfl) fun _ h =>
    same_andThen (same_step h (yf_keeps_xsp ..)) fun _ h =>
    same_andThen (same_step h (zf_keeps_xsp ..)) fun _ h =>
    same_andThen (same_step h rfl) fun _ h =>
    same_ite (
        same_andThen (same_step h (r2f_keeps_xsp ..)) fun _ h =>
        same_step h rfl
      ) (
        same_andThen (same_step h (r6f_keeps_xsp ..)) fun _ h =>
        same_step h rfl
      )

theorem fcEtpr6f_keeps_xsp (s : State) (e e0 : ℚ) : Same (fun t => t.w.xsp) s (fcEtpr6f s e e0) := by
  unfold fcEtpr6f
  have h : Same (fun t => t.w.xsp) s s := same_refl s
  exact
    same_andThen (same_step h rfl) fun _ h =>
    same_andThen (same_step h rfl) fun _ h =>
    same_andThen (same_step h (r6f_keeps_xsp ..)) fun _ h =>
    same_step h rfl

theorem Esecnf_keeps_xsp (s : State) (eunn funn : ℚ) : Same (fun t => t.w.xsp) s (Esecnf s eunn funn) := by
  unfold Esecnf
  have h : Same (fun t => t.w.xsp) s s := same_refl s
  exact
    same_step h rfl

theorem esplnf_keeps_xsp (s : State) (eunn funn : ℚ) : Same (fun t => t.w.xsp) s (esplnf s eunn funn) := by
  unfold esplnf
  have h : Same (fun t => t.w.xsp) s s := same_refl s
  exact
    same_andThen (same_step h (Esecnf_keeps_xsp ..)) fun _ h =>
    same_step h rfl

theorem Eplnf_keeps_xsp (m : Libm) (s : State) (eunn : ℚ) : Same (fun t => t.w.xsp) s (Eplnf m s eunn) := by
  unfold Eplnf
  have h : Same (fun t => t.w.xsp) s s := same_refl s
  exact
    same_step h rfl

theorem delenf_keeps_xsp (s : State) (eunn : ℚ) : Same (fun t => t.w.xsp) s (delenf s eunn) := by
  unfold delenf
  have h : Same (fun t => t.w.xsp) s s := same_refl s
  exact
    same_step h rfl

theorem delfnf_keeps_xsp (m : Libm) (s : State) (eunn funn : ℚ) : Same (fun t => t.w.xsp) s (delfnf m s eunn funn) := by
  unfold delfnf
  have h : Same (fun t => t.w.xsp) s s := same_refl s
  exact
    same_ite (
        same_step h rfl
      ) (
        same_step h rfl
      )

theorem fnewnf_keeps_xsp (m : Libm) (s : State) (eunn funn : ℚ) : Same (fun t => t.w.xsp) s (fnewnf m s eunn funn) := by
  unfold fnewnf
  have h : Same (fun t => t.w.xsp) s s := same_refl s
  exact
    same_andThen (same_step h (delfnf_keeps_xsp ..)) fun _ h =>
    same_step h rfl

theorem Enewnf_keeps_xsp (m : Libm) (s : State) (eunn funn : ℚ) : Same (fun t => t.w.xsp) s (Enewnf m s eunn funn) := by
  unfold Enewnf
  have h : Same (fun t => t.w.xsp) s s := same_refl s
  exact
    same_andThen (same_step h (fnewnf_keeps_xsp ..)) fun _ h =>
    same_andThen (same_step h (esplnf_keeps_xsp ..)) fun _ h =>
    same_andThen (same_step h rfl) fun _ h =>
    same_ite (
        same_step h rfl
      ) (
        h
      )

theorem esrenf_keeps_xsp (s : State) (eunn : ℚ) : Same (fun t => t.w.xsp) s (esrenf s eunn) := by
  unfold esrenf
  have h : Same (fun t => t.w.xsp) s s := same_refl s
  exact
    same_andThen (same_step h (delenf_keeps_xsp ..)) fun _ h =>
    same_step h rfl

theorem fnewstnf_keeps_xsp (s : State) (funn delfn eunn er0n espln : ℚ) : Same (fun t => t.w.xsp) s (fnewstnf s funn delfn eunn er0n espln) := by
  unfold fnewstnf
  have h : Same (fun t => t.w.xsp) s s := same_refl s
  exact
    same_step h rfl

theorem Enewstnf_keeps_xsp (s : State) (fnewstn fr0n eunn er0n : ℚ) : Same (fun t => t.w.xsp) s (Enewstnf s fnewstn fr0n eunn er0n) := by
  unfold Enewstnf
  have h : Same (fun t => t.w.xsp) s s := same_refl s
  exact
    same_step h rfl

theorem esrestnf_keeps_xsp (s : State) (eunn delen er0n espln : ℚ) : Same (fun t => t.w.xsp) s (esrestnf s eunn delen er0n espln) := by
  unfold esrestnf
  have h : Same (fun t => t.w.xsp) s s := same_refl s
  exact
    same_step h rfl

theorem Esecpf_keeps_xsp (s : State) (e0 eunp funp espln : ℚ) : Same (fun t => t.w.xsp) s (Esecpf s e0 eunp funp espln) := by
  unfold Esecpf
  have h : Same (fun t => t.w.xsp) s s := same_refl s
  exact
    same_andThen (same_step h rfl) fun _ h =>
    same_ite (
        same_step h rfl
      ) (
        h
      )

theorem esplpf_keeps_xsp (s : State) (eunp funp e0 espln : ℚ) : Same (fun t => t.w.xsp) s (esplpf s eunp funp e0 espln) := by
  unfold esplpf
  have h : Same (fun t => t.w.xsp) s s := same_refl s
  exact
    same_andThen (same_step h (Esecpf_keeps_xsp ..)) fun _ h =>
    same_step h rfl

theorem Eplpf_keeps_xsp (m : Libm) (s : State) (e0 eunp : ℚ) : Same (fun t => t.w.xsp) s (Eplpf m s e0 eunp) := by
  unfold Eplpf
  have h : Same (fun t => t.w.xsp) s s := same_refl s
  exact
    same_ite (
        same_step h rfl
      ) (
        same_step h rfl
      )

theorem delepf_keeps_xsp (s : State) (eunp e0 : ℚ) : Same (fun t => t.w.xsp) s (delepf s eunp e0) := by
  unfold delepf
  have h : Same (fun t => t.w.xsp) s s := same_refl s
  exact
    same_step h rfl

theorem delfpf_keeps_xsp (s : State) (funp eunp e0 : ℚ) : Same (fun t => t.w.xsp) s (delfpf s funp eunp e0) := by
  unfold delfpf
  have h : Same (fun t => t.w.xsp) s s := same_refl s
  exact
    same_ite (
        same_step h rfl
      ) (
        same_step h rfl
      )

theorem fnewpf_keeps_xsp (s : State) (funp eunp e0 : ℚ) : Same (fun t => t.w.xsp) s (fnewpf s funp eunp e0) := by
  unfold fnewpf
  have h : Same (fun t => t.w.xsp) s s := same_refl s
  exact
    same_andThen (same_step h (delfpf_keeps_xsp ..)) fun _ h =>
    same_step h rfl

theorem Enewpf_keeps_xsp (s : State) (eunp funp e0 espln : ℚ) : Same (fun t => t.w.xsp) s (Enewpf s eunp funp e0 espln) := by
  unfold Enewpf
  have h : Same (fun t => t.w.xsp) s s := same_refl s
  exact
    same_andThen (same_step h (fnewpf_keeps_xsp ..)) fun _ h =>
    same_andThen (same_step h (esplpf_keeps_xsp ..)) fun _ h =>
    same_andThen (same_step h rfl) fun _ h =>
    same_ite (
        same_step h rfl
      ) (
        h
      )

theorem esrepf_keeps_xsp (s : State) (eunp e0 : ℚ) : Same (fun t => t.w.xsp) s (esrepf s eunp e0) := by
  unfold esrepf
  have h : Same (fun t => t.w.xsp) s s := same_refl s
  exact
    same_andThen (same_step h (delepf_keeps_xsp ..)) fun _ h =>
    same_step h rfl

theorem freErepf_keeps_xsp (m : Libm) (s : State) (eunp e0 : ℚ) : Same (fun t => t.w.xsp) s (freErepf m s eunp e0) := by
  unfold freErepf
  have h : Same (fun t => t.w.xsp) s s := same_refl s
  exact
    same_andThen (same_step h (esrepf_keeps_xsp ..)) fun _ h =>
    same_andThen (same_step h rfl) fun _ h =>
    same_andThen (same_step h rfl) fun _ h =>
    same_andThen (same_step h (yf_keeps_xsp ..)) fun _ h =>
    same_andThen (same_step h (zf_keeps_xsp ..)) fun _ h =>
    same_andThen (same_step h rfl) fun _ h =>
    same_ite (
        same_ite (
            same_andThen (same_step h (yf_keeps_xsp ..)) fun _ h =>
            same_andThen (same_step h (zf_keeps_xsp ..)) fun _ h =>
            same_andThen (same_step h rfl) fun _ h =>
            same_step h rfl
          ) (
            same_andThen (same_step h (yf_keeps_xsp ..)) fun _ h =>
            same_andThen (same_step h (zf_keeps_xsp ..)) fun _ h =>
            same_andThen (same_step h rfl) fun _ h =>
            same_step h rfl
          )
      ) (
        same_andThen (same_step h rfl) fun _ h =>
        same_step h rfl
      )

theorem fnewstpf_keeps_xsp (s : State) (funp delfp eunp er0p esplp e0 : ℚ) : Same (fun t => t.w.xsp) s (fnewstpf s funp delfp eunp er0p esplp e0) := by
  unfold fnewstpf
  have h : Same (fun t => t.w.xsp) s s := same_refl s
  exact
    same_step h rfl

theorem Enewstpf_keeps_xsp (s : State) (fnewstp fr0p eunp er0p : ℚ) : Same (fun t => t.w.xsp) s (Enewstpf s fnewstp fr0p eunp er0p) := by
  unfold Enewstpf
  have h : Same (fun t => t.w.xsp) s s := same_refl s
  exact
    same_step h rfl

theorem esrestpf_keeps_xsp (s : State) (eunp delep er0p esplp : ℚ) : Same (fun t => t.w.xsp) s (esrestpf s eunp delep er0p esplp) := by
  unfold esrestpf
  have h : Same (fun t => t.w.xsp) s s := same_refl s
  exact
    same_step h rfl

theorem freErestpf_keeps_xsp (m : Libm) (s : State) (eunp funp er0p e0 espln : ℚ) : Same (fun t => t.w.xsp) s (freErestpf m s eunp funp er0p e0 espln) := by
  unfold freErestpf
  have h : Same (fun t => t.w.xsp) s s := same_refl s
  exact
    same_andThen (same_step h (delepf_keeps_xsp ..)) fun _ h =>
    same_andThen (same_step h (esplpf_keeps_xsp ..)) fun _ h =>
    same_andThen (same_step h (esrestpf_keeps_xsp ..)) fun _ h =>
    same_andThen (same_step h rfl) fun _ h =>
    same_andThen (same_step h rfl) fun _ h =>
    same_andThen (same_step h (yf_keeps_xsp ..)) fun _ h =>
    same_andThen (same_step h (zf_keeps_xsp ..)) fun _ h =>
    same_andThen (same_step h rfl) fun _ h =>
    same_ite (
        same_ite (
            same_andThen (same_step h (yf_keeps_xsp ..)) fun _ h =>
            same_andThen (same_step h (zf_keeps_xsp ..)) fun _ h =>
            same_andThen (same_step h rfl) fun _ h =>
            same_step h rfl
          ) (
            same_andThen (same_step h (yf_keeps_xsp ..)) fun _ h =>
            same_andThen (same_step h (zf_keeps_xsp ..)) fun _ h =>
            same_andThen (same_step h rfl) fun _ h =>
            same_step h rfl
          )
      ) (
        same_andThen (same_step h rfl) fun _ h =>
        same_step h rfl
      )

theorem e0eunpfunpf_keeps_xsp (m : Libm) (s : State) (e0 eunp funp eunn funn : ℚ) :
    Same (fun t => t.w.xsp) s (e0eunpfunpf m s e0 eunp funp eunn funn) := by
  unfold e0eunpfunpf
  have h : Same (fun t => t.w.xsp) s s := same_refl s
  exact
    same_andThen (
      same_ite (same_step h (fcEtpf_keeps_xsp ..)) h
      ) fun _ h =>
    same_andThen (same_step h (esplnf_keeps_xsp ..)) fun _ h =>
    same_andThen (same_step h (Eplnf_keeps_xsp ..)) fun _ h =>
    same_andThen (same_step h (Esecpf_keeps_xsp ..)) fun _ h =>
    same_andThen (same_step h rfl) fun _ h =>
    same_andThen (same_step h rfl) fun _ h =>
    same_andThen (same_step h (fcEtpf_keeps_xsp ..)) fun _ h =>
    same_step h rfl

theorem r3f_keeps_xsp (s : State) (eunn funn espln Epln : ℚ) : Same (fun t => t.w.xsp) s (r3f s eunn funn espln Epln) := by
  unfold r3f
  have h : Same (fun t => t.w.xsp) s s := same_refl s
  exact
    same_andThen (same_step h rfl) fun _ h =>
    same_andThen (same_step h rfl) fun _ h =>
    same_andThen (same_step h rfl) fun _ h =>
    same_andThen (same_step h rfl) fun _ h =>
    same_andThen (same_step h rfl) fun _ h =>
    same_step h rfl

theorem r9f_keeps_xsp (s : State) (espln Epln eunp fnewp Enewp : ℚ) : Same (fun t => t.w.xsp) s (r9f s espln Epln eunp fnewp Enewp) := by
  unfold r9f
  have h : Same (fun t => t.w.xsp) s s := same_refl s
  exact
    same_andThen (same_step h rfl) fun _ h =>
    same_andThen (same_step h rfl) fun _ h =>
    same_andThen (same_step h rfl) fun _ h =>
    same_andThen (same_step h rfl) fun _ h =>
    same_andThen (same_step h rfl) fun _ h =>
    same_step h rfl

theorem r8f_keeps_xsp (s : State) (eunp fnewp Enewp esrep frep Erep : ℚ) : Same (fun t => t.w.xsp) s (r8f s eunp fnewp Enewp esrep frep Erep) := by
  unfold r8f
  have h : Same (fun t => t.w.xsp) s s := same_refl s
  exact
    same_andThen (same_step h rfl) fun _ h =>
    same_andThen (same_step h rfl) fun _ h =>
    same_andThen (same_step h rfl) fun _ h =>
    same_andThen (same_step h rfl) fun _ h =>
    same_andThen (same_step h rfl) fun _ h =>
    same_step h rfl

theorem r4f_keeps_xsp (s : State) (eunp funp esplp Eplp : ℚ) : Same (fun t => t.w.xsp) s (r4f s eunp funp esplp Eplp) := by
  unfold r4f
  have h : Same (fun t => t.w.xsp) s s := same_refl s
  exact
    same_andThen (same_step h rfl) fun _ h =>
    same_andThen (same_step h rfl) fun _ h =>
    same_andThen (same_step h rfl) fun _ h =>
    same_andThen (same_step h rfl) fun _ h =>
    same_andThen (same_step h rfl) fun _ h =>
    same_step h rfl

theorem r10f_keeps_xsp (s : State) (esplp Eplp eunn fnewn Enewn : ℚ) : Same (fun t => t.w.xsp) s (r10f s esplp Eplp eunn fnewn Enewn) := by
  unfold r10f
  have h : Same (fun t => t.w.xsp) s s := same_refl s
  exact
    same_andThen (same_step h rfl) fun _ h =>
    same_andThen (same_step h rfl) fun _ h =>
    same_andThen (same_step h rfl) fun _ h =>
    same_andThen (same_step h rfl) fun _ h =>
    same_andThen (same_step h rfl) fun _ h =>
    same_step h rfl

theorem r7f_keeps_xsp (s : State) (eunn fnewn Enewn esren fren Eren : ℚ) : Same (fun t => t.w.xsp) s (r7f s eunn fnewn Enewn esren fren Eren) := by
  unfold r7f
  have h : Same (fun t => t.w.xsp) s s := same_refl s
  exact
    same_andThen (same_step h rfl) fun _ h =>
    same_andThen (same_step h rfl) fun _ h =>
    same_andThen (same_step h rfl) fun _ h =>
    same_andThen (same_step h rfl) fun _ h =>
    same_andThen (same_step h rfl) fun _ h =>
    same_step h rfl

theorem fcEturf_keeps_xsp (m : Libm) (s : State) (es esi fi esf ff Ei Ef A R : ℚ) : Same (fun t => t.w.xsp) s (fcEturf m s es esi fi esf ff Ei Ef A R) := by
  unfold fcEturf
  have h : Same (fun t => t.w.xsp) s s := same_refl s
  exact
    same_ite (
        same_andThen (same_step h rfl) fun _ h =>
        same_step h rfl
      ) (
        same_ite (
            same_andThen (same_step h rfl) fun _ h =>
            same_step h rfl
          ) (
            same_ite (
                same_andThen (same_step h rfl) fun _ h =>
                same_step h rfl
              ) (
                same_ite (
                    same_andThen (same_step h rfl) fun _ h =>
                    same_step h rfl
                  ) (
                    same_andThen (same_step h rfl) fun _ h =>
                    same_andThen (same_step h rfl) fun _ h =>
                    same_ite (
                        same_andThen (same_step h rfl) fun _ h =>
                        same_step h rfl
                      ) (
                        h
                      )
                  )
              )
          )
      )

theorem r12f_keeps_xsp (m : Libm) (s : State) (er fr ea fca Eta A R : ℚ) : Same (fun t => t.w.xsp) s (r12f m s er fr ea fca Eta A R) := by
  unfold r12f
  have h : Same (fun t => t.w.xsp) s s := same_refl s
  exact
    same_andThen (same_step h rfl) fun _ h =>
    same_andThen (same_step h rfl) fun _ h =>
    same_andThen (same_step h rfl) fun _ h =>
    same_andThen (same_step h rfl) fun _ h =>
    same_andThen (same_step h rfl) fun _ h =>
    same_andThen (same_step h rfl) fun _ h =>
    same_andThen (same_step h (fcEturf_keeps_xsp ..)) fun _ h =>
    same_andThen (same_step h rfl) fun _ h =>
    same_step h rfl

theorem r11f_keeps_xsp (m : Libm) (s : State) (er fr eb fcb Etb A R : ℚ) : Same (fun t => t.w.xsp) s (r11f m s er fr eb fcb Etb A R) := by
  unfold r11f
  have h : Same (fun t => t.w.xsp) s s := same_refl s
  exact
    same_andThen (same_step h rfl) fun _ h =>
    same_andThen (same_step h rfl) fun _ h =>
    same_andThen (same_step h rfl) fun _ h =>
    same_andThen (same_step h rfl) fun _ h =>
    same_andThen (same_step h rfl) fun _ h =>
    same_andThen (same_step h rfl) fun _ h =>
    same_andThen (same_step h (fcEturf_keeps_xsp ..)) fun _ h =>
    same_andThen (same_step h rfl) fun _ h =>
    same_step h rfl

theorem r13f_keeps_xsp (s : State) (ed eunn fnewn Enewn : ℚ) : Same (fun t => t.w.xsp) s (r13f s ed eunn fnewn Enewn) := by
  unfold r13f
  have h : Same (fun t => t.w.xsp) s s := same_refl s
  exact
    same_andThen (same_step h rfl) fun _ h =>
    same_andThen (same_step h rfl) fun _ h =>
    same_andThen (same_step h rfl) fun _ h =>
    same_andThen (same_step h rfl) fun _ h =>
    same_andThen (same_step h rfl) fun _ h =>
    same_step h rfl

theorem r14f_keeps_xsp (s : State) (er fr eb : ℚ) : Same (fun t => t.w.xsp) s (r14f s er fr eb) := by
  unfold r14f
  have h : Same (fun t => t.w.xsp) s s := same_refl s
  exact
    same_andThen (same_step h rfl) fun _ h =>
    same_andThen (same_step h rfl) fun _ h =>
    same_andThen (same_step h rfl) fun _ h =>
    same_andThen (same_step h rfl) fun _ h =>
    same_andThen (same_step h rfl) fun _ h =>
    same_step h rfl

theorem r15f_keeps_xsp (m : Libm) (s : State) (er fr ea fca Eta A R : ℚ) : Same (fun t => t.w.xsp) s (r15f m s er fr ea fca Eta A R) := by
  unfold r15f
  have h : Same (fun t => t.w.xsp) s s := same_refl s
  exact
    same_andThen (same_step h rfl) fun _ h =>
    same_andThen (same_step h rfl) fun _ h =>
    same_andThen (same_step h rfl) fun _ h =>
    same_andThen (same_step h rfl) fun _ h =>
    same_andThen (same_step h rfl) fun _ h =>
    same_andThen (same_step h rfl) fun _ h =>
    same_andThen (same_step h (fcEturf_keeps_xsp ..)) fun _ h =>
    same_andThen (same_step h rfl) fun _ h =>
    same_step h rfl

theorem r66f_keeps_xsp (s : State) (e e0 : ℚ) : Same (fun t => t.w.xsp) s (r66f s e e0) := by
  unfold r66f
  have h : Same (fun t => t.w.xsp) s s := same_refl s
  exact
    same_andThen (same_step h rfl) fun _ h =>
    same_step h rfl

theorem r88f_keeps_xsp (s : State) (e e0 er0p fr0p eunp fnewstp Enewstp esrestp frestp Erestp : ℚ) : Same (fun t => t.w.xsp) s (r88f s e e0 er0p fr0p eunp fnewstp Enewstp esrestp frestp Erestp) := by
  unfold r88f
  have h : Same (fun t => t.w.xsp) s s := same_refl s
  exact
    same_andThen (
        same_ite (
            same_andThen (same_step h rfl) fun _ h =>
            same_andThen (same_step h rfl) fun _ h =>
            same_andThen (same_step h rfl) fun _ h =>
            same_andThen (same_step h rfl) fun _ h =>
            same_andThen (same_step h rfl) fun _ h =>
            same_step h rfl
          ) (
            h
          )
      ) fun _ h =>
    same_ite (
        same_andThen (same_step h rfl) fun _ h =>
        same_andThen (same_step h rfl) fun _ h =>
        same_andThen (same_step h rfl) fun _ h =>
        same_andThen (same_step h rfl) fun _ h =>
        same_andThen (same_step h rfl) fun _ h =>
        same_step h rfl
      ) (
        h
      )

theorem r77f_keeps_xsp (s : State) (e e0 er0n fr0n eunn fnewstn Enewstn esrestn frestn Erestn : ℚ) : Same (fun t => t.w.xsp) s (r77f s e e0 er0n fr0n eunn fnewstn Enewstn esrestn frestn Erestn) := by
  unfold r77f
  have h : Same (fun t => t.w.xsp) s s := same_refl s
  exact
    same_andThen (
        same_ite (
            same_andThen (same_step h rfl) fun _ h =>
            same_andThen (same_step h rfl) fun _ h =>
            same_andThen (same_step h rfl) fun _ h =>
            same_andThen (same_step h rfl) fun _ h =>
            same_andThen (same_step h rfl) fun _ h =>
            same_step h rfl
          ) (
            h
          )
      ) fun _ h =>
    same_ite (
        same_andThen (same_step h rfl) fun _ h =>
        same_andThen (same_step h rfl) fun _ h =>
        same_andThen (same_step h rfl) fun _ h =>
        same_andThen (same_step h rfl) fun _ h =>
        same_andThen (same_step h rfl) fun _ h =>
        same_step h rfl
      ) (
        h
      )

theorem ea1112f_keeps_xsp (s : State) (eb espln esplp eunn eunp : ℚ) : Same (fun t => t.w.xsp) s (ea1112f s eb espln esplp eunn eunp) := by
  unfold ea1112f
  have h : Same (fun t => t.w.xsp) s s := same_refl s
  exact
    same_step h rfl

theorem eb1112f_keeps_xsp (s : State) (ea espln esplp eunn eunp : ℚ) : Same (fun t => t.w.xsp) s (eb1112f s ea espln esplp eunn eunp) := by
  unfold eb1112f
  have h : Same (fun t => t.w.xsp) s s := same_refl s
  exact
    same_step h rfl

theorem eb1415f_keeps_xsp (s : State) (ea fa Esecn : ℚ) : Same (fun t => t.w.xsp) s (eb1415f s ea fa Esecn) := by
  unfold eb1415f
  have h : Same (fun t => t.w.xsp) s s := same_refl s
  exact
    same_step h rfl

theorem RAf_keeps_xsp (m : Libm) (s : State) (esi fi Ei esf ff Ef : ℚ) : Same (fun t => t.w.xsp) s (RAf m s esi fi Ei esf ff Ef) := by
  unfold RAf
  have h : Same (fun t => t.w.xsp) s s := same_refl s
  exact
    same_andThen (same_step h rfl) fun _ h =>
    same_ite (
        same_step h rfl
      ) (
        same_andThen (same_step h rfl) fun _ h =>
        same_ite (
            same_step h rfl
          ) (
            h
          )
      )

theorem yf_keeps_espln (m : Libm) (s : State) (x n r : ℚ) : Same (fun t => t.w.espln) s (yf m s x n r) := by
  have h : Same (fun t => t.w.espln) s s := same_refl s
  exact same_step h rfl

theorem zf_keeps_espln (m : Libm) (s : State) (x n r : ℚ) : Same (fun t => t.w.espln) s (zf m s x n r) := by
  have h : Same (fun t => t.w.espln) s s := same_refl s
  exact same_step h rfl

theorem r1f_keeps_espln (m : Libm) (s : State) (x n r : ℚ) : Same (fun t => t.w.espln) s (r1f m s x n r) := by
  unfold r1f
  have h : Same (fun t => t.w.espln) s s := same_refl s
  exact
    same_ite (
        same_andThen (same_step h (yf_keeps_espln ..)) fun _ h =>
        same_andThen (same_step h (zf_keeps_espln ..)) fun _ h =>
        same_andThen (same_step h rfl) fun _ h =>
        same_step h rfl
      ) (
        same_andThen (same_step h (yf_keeps_espln ..)) fun _ h =>
        same_andThen (same_step h (zf_keeps_espln ..)) fun _ h =>
        same_andThen (same_step h rfl) fun _ h =>
        same_step h rfl
      )

theorem r5f_keeps_espln (s : State) (x n r : ℚ) : Same (fun t => t.w.espln) s (r5f s x n r) := by
  unfold r5f
  have h : Same (fun t => t.w.espln) s s := same_refl s
  exact
    same_andThen (same_step h rfl) fun _ h =>
    same_step h rfl

theorem fcEtnf_keeps_espln (m : Libm) (s : State) (e : ℚ) : Same (fun t => t.w.espln) s (fcEtnf m s e) := by
  unfold fcEtnf
  have h : Same (fun t => t.w.espln) s s := same_refl s
  exact
    same_andThen (same_step h rfl) fun _ h =>
    same_andThen (same_step h rfl) fun _ h =>
    same_andThen (same_step h (yf_keeps_espln ..)) fun _ h =>
    same_andThen (same_step h (zf_keeps_espln ..)) fun _ h =>
    same_andThen (same_step h rfl) fun _ h =>
    same_ite (
        same_andThen (same_step h (r1f_keeps_espln ..)) fun _ h =>
        same_step h rfl
      ) (
        same_andThen (same_step h (r5f_keeps_espln ..)) fun _ h =>
        same_step h rfl
      )

theorem r2f_keeps_espln (m : Libm) (s : State) (x n r : ℚ) : Same (fun t => t.w.espln) s (r2f m s x n r) := by
  unfold r2f
  have h : Same (fun t => t.w.espln) s s := same_refl s
  exact
    same_ite (
        same_andThen (same_step h (yf_keeps_espln ..)) fun _ h =>
        same_andThen (same_step h (zf_keeps_espln ..)) fun _ h =>
        same_andThen (same_step h rfl) fun _ h =>
        same_step h rfl
      ) (
        same_andThen (same_step h (yf_keeps_espln ..)) fun _ h =>
        same_andThen (same_step h (zf_keeps_espln ..)) fun _ h =>
        same_andThen (same_step h rfl) fun _ h =>
        same_step h rfl
      )

theorem r6f_keeps_espln (s : State) (x n r : ℚ) : Same (fun t => t.w.espln) s (r6f s x n r) := by
  unfold r6f
  have h : Same (fun t => t.w.espln) s s := same_refl s
  exact
    same_andThen (same_step h rfl) fun _ h =>
    same_step h rfl

theorem fcEtpf_keeps_espln (m : Libm) (s : State) (e e0 : ℚ) : Same (fun t => t.w.espln) s (fcEtpf m s e e0) := by
  unfold fcEtpf
  have h : Same (fun t => t.w.espln) s s := same_refl s
  exact
    same_andThen (same_step h rfl) fun _ h =>
    same_andThen (same_step h rfl) fun _ h =>
    same_andThen (same_step h (yf_keeps_espln ..)) fun _ h =>
    same_andThen (same_step h (zf_keeps_espln ..)) fun _ h =>
    same_andThen (same_step h rfl) fun _ h =>
    same_ite (
        same_andThen (same_step h (r2f_keeps_espln ..)) fun _ h =>
        same_step h rfl
      ) (
        same_andThen (same_step h (r6f_keeps_espln ..)) fun _ h =>
        same_step h rfl
      )

theorem fcEtpr6f_keeps_espln (s : State) (e e0 : ℚ) : Same (fun t => t.w.espln) s (fcEtpr6f s e e0) := by
  unfold fcEtpr6f
  have h : Same (fun t => t.w.espln) s s := same_refl s
  exact
    same_andThen (same_step h rfl) fun _ h =>
    same_andThen (same_step h rfl) fun _ h =>
    same_andThen (same_step h (r6f_keeps_espln ..)) fun _ h =>
    same_step h rfl

theorem Esecnf_keeps_espln (s : State) (eunn funn : ℚ) : Same (fun t => t.w.espln) s (Esecnf s eunn funn) := by
  unfold Esecnf
  have h : Same (fun t => t.w.espln) s s := same_refl s
  exact
    same_step h rfl

theorem Eplnf_keeps_espln (m : Libm) (s : State) (eunn : ℚ) : Same (fun t => t.w.espln) s (Eplnf m s eunn) := by
  unfold Eplnf
  have h : Same (fun t => t.w.espln) s s := same_refl s
  exact
    same_step h rfl

theorem delenf_keeps_espln (s : State) (eunn : ℚ) : Same (fun t => t.w.espln) s (delenf s eunn) := by
  unfold delenf
  have h : Same (fun t => t.w.espln) s s := same_refl s
  exact
    same_step h rfl

theorem delfnf_keeps_espln (m : Libm) (s : State) (eunn funn : ℚ) : Same (fun t => t.w.espln) s (delfnf m s eunn funn) := by
  unfold delfnf
  have h : Same (fun t => t.w.espln) s s := same_refl s
  exact
    same_ite (
        same_step h rfl
      ) (
        same_step h rfl
      )

theorem fnewnf_keeps_espln (m : Libm) (s : State) (eunn funn : ℚ) : Same (fun t => t.w.espln) s (fnewnf m s eunn funn) := by
  unfold fnewnf
  have h : Same (fun t => t.w.espln) s s := same_refl s
  exact
    same_andThen (same_step h (delfnf_keeps_espln ..)) fun _ h =>
    same_step h rfl

theorem esrenf_keeps_espln (s : State) (eunn : ℚ) : Same (fun t => t.w.espln) s (esrenf s eunn) := by
  unfold esrenf
  have h : Same (fun t => t.w.espln) s s := same_refl s
  exact
    same_andThen (same_step h (delenf_keeps_espln ..)) fun _ h =>
    same_step h rfl

theorem freErenf_keeps_espln (m : Libm) (s : State) (eunn : ℚ) : Same (fun t => t.w.espln) s (freErenf m s eunn) := by
  unfold freErenf
  have h : Same (fun t => t.w.espln) s s := same_refl s
  exact
    same_andThen (same_step h (esrenf_keeps_espln ..)) fun _ h =>
    same_andThen (same_step h rfl) fun _ h =>
    same_andThen (same_step h rfl) fun _ h =>
    same_andThen (same_step h (yf_keeps_espln ..)) fun _ h =>
    same_andThen (same_step h (zf_keeps_espln ..)) fun _ h =>
    same_andThen (same_step h rfl) fun _ h =>
    same_ite (
        same_ite (
            same_andThen (same_step h (yf_keeps_espln ..)) fun _ h =>
            same_andThen (same_step h (zf_keeps_espln ..)) fun _ h =>
            same_andThen (same_step h rfl) fun _ h =>
            same_step h rfl
          ) (
            same_andThen (same_step h (yf_keeps_espln ..)) fun _ h =>
            same_andThen (same_step h (zf_keeps_espln ..)) fun _ h =>
            same_andThen (same_step h rfl) fun _ h =>
            same_step h rfl
          )
      ) (
        same_andThen (same_step h rfl) fun _ h =>
        same_step h rfl
      )

theorem fnewstnf_keeps_espln (s : State) (funn delfn eunn er0n espln : ℚ) : Same (fun t => t.w.espln) s (fnewstnf s funn delfn eunn er0n espln) := by
  unfold fnewstnf
  have h : Same (fun t => t.w.espln) s s := same_refl s
  exact
    same_step h rfl

theorem Enewstnf_keeps_espln (s : State) (fnewstn fr0n eunn er0n : ℚ) : Same (fun t => t.w.espln) s (Enewstnf s fnewstn fr0n eunn er0n) := by
  unfold Enewstnf
  have h : Same (fun t => t.w.espln) s s := same_refl s
  exact
    same_step h rfl

theorem esrestnf_keeps_espln (s : State) (eunn delen er0n espln : ℚ) : Same (fun t => t.w.espln) s (esrestnf s eunn delen er0n espln) := by
  unfold esrestnf
  have h : Same (fun t => t.w.espln) s s := same_refl s
  exact
    same_step h rfl

theorem Esecpf_keeps_espln (s : State) (e0 eunp funp espln : ℚ) : Same (fun t => t.w.espln) s (Esecpf s e0 eunp funp espln) := by
  unfold Esecpf
  have h : Same (fun t => t.w.espln) s s := same_refl s
  exact
    same_andThen (same_step h rfl) fun _ h =>
    same_ite (
        same_step h rfl
      ) (
        h
      )

theorem esplpf_keeps_espln (s : State) (eunp funp e0 espln : ℚ) : Same (fun t => t.w.espln) s (esplpf s eunp funp e0 espln) := by
  unfold esplpf
  have h : Same (fun t => t.w.espln) s s := same_refl s
  exact
    same_andThen (same_step h (Esecpf_keeps_espln ..)) fun _ h =>
    same_step h rfl

theorem Eplpf_keeps_espln (m : Libm) (s : State) (e0 eunp : ℚ) : Same (fun t => t.w.espln) s (Eplpf m s e0 eunp) := by
  unfold Eplpf
  have h : Same (fun t => t.w.espln) s s := same_refl s
  exact
    same_ite (
        same_step h rfl
      ) (
        same_step h rfl
      )

theorem delepf_keeps_espln (s : State) (eunp e0 : ℚ) : Same (fun t => t.w.espln) s (delepf s eunp e0) := by
  unfold delepf
  have h : Same (fun t => t.w.espln) s s := same_refl s
  exact
    same_step h rfl

theorem delfpf_keeps_espln (s : State) (funp eunp e0 : ℚ) : Same (fun t => t.w.espln) s (delfpf s funp eunp e0) := by
  unfold delfpf
  have h : Same (fun t => t.w.espln) s s := same_refl s
  exact
    same_ite (
        same_step h rfl
      ) (
        same_step h rfl
      )

theorem fnewpf_keeps_espln (s : State) (funp eunp e0 : ℚ) : Same (fun t => t.w.espln) s (fnewpf s funp eunp e0) := by
  unfold fnewpf
  have h : Same (fun t => t.w.espln) s s := same_refl s
  exact
    same_andThen (same_step h (delfpf_keeps_espln ..)) fun _ h =>
    same_step h rfl

theorem Enewpf_keeps_espln (s : State) (eunp funp e0 espln : ℚ) : Same (fun t => t.w.espln) s (Enewpf s eunp funp e0 espln) := by
  unfold Enewpf
  have h : Same (fun t => t.w.espln) s s := same_refl s
  exact
    same_andThen (same_step h (fnewpf_keeps_espln ..)) fun _ h =>
    same_andThen (same_step h (esplpf_keeps_espln ..)) fun _ h =>
    same_andThen (same_step h rfl) fun _ h =>
    same_ite (
        same_step h rfl
      ) (
        h
      )

theorem esrepf_keeps_espln (s : State) (eunp e0 : ℚ) : Same (fun t => t.w.espln) s (esrepf s eunp e0) := by
  unfold esrepf
  have h : Same (fun t => t.w.espln) s s := same_refl s
  exact
    same_andThen (same_step h (delepf_keeps_espln ..)) fun _ h =>
    same_step h rfl

theorem freErepf_keeps_espln (m : Libm) (s : State) (eunp e0 : ℚ) : Same (fun t => t.w.espln) s (freErepf m s eunp e0) := by
  unfold freErepf
  have h : Same (fun t => t.w.espln) s s := same_refl s
  exact
    same_andThen (same_step h (esrepf_keeps_espln ..)) fun _ h =>
    same_andThen (same_step h rfl) fun _ h =>
    same_andThen (same_step h rfl) fun _ h =>
    same_andThen (same_step h (yf_keeps_espln ..)) fun _ h =>
    same_andThen (same_step h (zf_keeps_espln ..)) fun _ h =>
    same_andThen (same_step h rfl) fun _ h =>
    same_ite (
        same_ite (
            same_andThen (same_step h (yf_keeps_espln ..)) fun _ h =>
            same_andThen (same_step h (zf_keeps_espln ..)) fun _ h =>
            same_andThen (same_step h rfl) fun _ h =>
            same_step h rfl
          ) (
            same_andThen (same_step h (yf_keeps_espln ..)) fun _ h =>
            same_andThen (same_step h (zf_keeps_espln ..)) fun _ h =>
            same_andThen (same_step h rfl) fun _ h =>
            same_step h rfl
          )
      ) (
        same_andThen (same_step h rfl) fun _ h =>
        same_step h rfl
      )

theorem fnewstpf_keeps_espln (s : State) (funp delfp eunp er0p esplp e0 : ℚ) : Same (fun t => t.w.espln) s (fnewstpf s funp delfp eunp er0p esplp e0) := by
  unfold fnewstpf
  have h : Same (fun t => t.w.espln) s s := same_refl s
  exact
    same_step h rfl

theorem Enewstpf_keeps_espln (s : State) (fnewstp fr0p eunp er0p : ℚ) : Same (fun t => t.w.espln) s (Enewstpf s fnewstp fr0p eunp er0p) := by
  unfold Enewstpf
  have h : Same (fun t => t.w.espln) s s := same_refl s
  exact
    same_step h rfl

theorem esrestpf_keeps_espln (s : State) (eunp delep er0p esplp : ℚ) : Same (fun t => t.w.espln) s (esrestpf s eunp delep er0p esplp) := by
  unfold esrestpf
  have h : Same (fun t => t.w.espln) s s := same_refl s
  exact
    same_step h rfl

theorem freErestpf_keeps_espln (m : Libm) (s : State) (eunp funp er0p e0 espln : ℚ) : Same (fun t => t.w.espln) s (freErestpf m s eunp funp er0p e0 espln) := by
  unfold freErestpf
  have h : Same (fun t => t.w.espln) s s := same_refl s
  exact
    same_andThen (same_step h (delepf_keeps_espln ..)) fun _ h =>
    same_andThen (same_step h (esplpf_keeps_espln ..)) fun _ h =>
    same_andThen (same_step h (esrestpf_keeps_espln ..)) fun _ h =>
    same_andThen (same_step h rfl) fun _ h =>
    same_andThen (same_step h rfl) fun _ h =>
    same_andThen (same_step h (yf_keeps_espln ..)) fun _ h =>
    same_andThen (same_step h (zf_keeps_espln ..)) fun _ h =>
    same_andThen (same_step h rfl) fun _ h =>
    same_ite (
        same_ite (
            same_andThen (same_step h (yf_keeps_espln ..)) fun _ h =>
            same_andThen (same_step h (zf_keeps_espln ..)) fun _ h =>
            same_andThen (same_step h rfl) fun _ h =>
            same_step h rfl
          ) (
            same_andThen (same_step h (yf_keeps_espln ..)) fun _ h =>
            same_andThen (same_step h (zf_keeps_espln ..)) fun _ h =>
            same_andThen (same_step h rfl) fun _ h =>
            same_step h rfl
          )
      ) (
        same_andThen (same_step h rfl) fun _ h =>
        same_step h rfl
      )

theorem r3f_keeps_espln (s : State) (eunn funn espln Epln : ℚ) : Same (fun t => t.w.espln) s (r3f s eunn funn espln Epln) := by
  unfold r3f
  have h : Same (fun t => t.w.espln) s s := same_refl s
  exact
    same_andThen (same_step h rfl) fun _ h =>
    same_andThen (same_step h rfl) fun _ h =>
    same_andThen (same_step h rfl) fun _ h =>
    same_andThen (same_step h rfl) fun _ h =>
    same_andThen (same_step h rfl) fun _ h =>
    same_step h rfl

theorem r9f_keeps_espln (s : State) (espln Epln eunp fnewp Enewp : ℚ) : Same (fun t => t.w.espln) s (r9f s espln Epln eunp fnewp Enewp) := by
  unfold r9f
  have h : Same (fun t => t.w.espln) s s := same_refl s
  exact
    same_andThen (same_step h rfl) fun _ h =>
    same_andThen (same_step h rfl) fun _ h =>
    same_andThen (same_step h rfl) fun _ h =>
    same_andThen (same_step h rfl) fun _ h =>
    same_andThen (same_step h rfl) fun _ h =>
    same_step h rfl

theorem r8f_keeps_espln (s : State) (eunp fnewp Enewp esrep frep Erep : ℚ) : Same (fun t => t.w.espln) s (r8f s eunp fnewp Enewp esrep frep Erep) := by
  unfold r8f
  have h : Same (fun t => t.w.espln) s s := same_refl s
  exact
    same_andThen (same_step h rfl) fun _ h =>
    same_andThen (same_step h rfl) fun _ h =>
    same_andThen (same_step h rfl) fun _ h =>
    same_andThen (same_step h rfl) fun _ h =>
    same_andThen (same_step h rfl) fun _ h =>
    same_step h rfl

theorem r4f_keeps_espln (s : State) (eunp funp esplp Eplp : ℚ) : Same (fun t => t.w.espln) s (r4f s eunp funp esplp Eplp) := by
  unfold r4f
  have h : Same (fun t => t.w.espln) s s := same_refl s
  exact
    same_andThen (same_step h rfl) fun _ h =>
    same_andThen (same_step h rfl) fun _ h =>
    same_andThen (same_step h rfl) fun _ h =>
    same_andThen (same_step h rfl) fun _ h =>
    same_andThen (same_step h rfl) fun _ h =>
    same_step h rfl

theorem r10f_keeps_espln (s : State) (esplp Eplp eunn fnewn Enewn : ℚ) : Same (fun t => t.w.espln) s (r10f s esplp Eplp eunn fnewn Enewn) := by
  unfold r10f
  have h : Same (fun t => t.w.espln) s s := same_refl s
  exact
    same_andThen (same_step h rfl) fun _ h =>
    same_andThen (same_step h rfl) fun _ h =>
    same_andThen (same_step h rfl) fun _ h =>
    same_andThen (same_step h rfl) fun _ h =>
    same_andThen (same_step h rfl) fun _ h =>
    same_step h rfl

theorem r7f_keeps_espln (s : State) (eunn fnewn Enewn esren fren Eren : ℚ) : Same (fun t => t.w.espln) s (r7f s eunn fnewn Enewn esren fren Eren) := by
  unfold r7f
  have h : Same (fun t => t.w.espln) s s := same_refl s
  exact
    same_andThen (same_step h rfl) fun _ h =>
    same_andThen (same_step h rfl) fun _ h =>
    same_andThen (same_step h rfl) fun _ h =>
    same_andThen (same_step h rfl) fun _ h =>
    same_andThen (same_step h rfl) fun _ h =>
    same_step h rfl

theorem fcEturf_keeps_espln (m : Libm) (s : State) (es esi fi esf ff Ei Ef A R : ℚ) : Same (fun t => t.w.espln) s (fcEturf m s es esi fi esf ff Ei Ef A R) := by
  unfold fcEturf
  have h : Same (fun t => t.w.espln) s s := same_refl s
  exact
    same_ite (
        same_andThen (same_step h rfl) fun _ h =>
        same_step h rfl
      ) (
        same_ite (
            same_andThen (same_step h rfl) fun _ h =>
            same_step h rfl
          ) (
            same_ite (
                same_andThen (same_step h rfl) fun _ h =>
                same_step h rfl
              ) (
                same_ite (
                    same_andThen (same_step h rfl) fun _ h =>
                    same_step h rfl
                  ) (
                    same_andThen (same_step h rfl) fun _ h =>
                    same_andThen (same_step h rfl) fun _ h =>
                    same_ite (
                        same_andThen (same_step h rfl) fun _ h =>
                        same_step h rfl
                      ) (
                        h
                      )
                  )
              )
          )
      )

theorem r12f_keeps_espln (m : Libm) (s : State) (er fr ea fca Eta A R : ℚ) : Same (fun t => t.w.espln) s (r12f m s er fr ea fca Eta A R) := by
  unfold r12f
  have h : Same (fun t => t.w.espln) s s := same_refl s
  exact
    same_andThen (same_step h rfl) fun _ h =>
    same_andThen (same_step h rfl) fun _ h =>
    same_andThen (same_step h rfl) fun _ h =>
    same_andThen (same_step h rfl) fun _ h =>
    same_andThen (same_step h rfl) fun _ h =>
    same_andThen (same_step h rfl) fun _ h =>
    same_andThen (same_step h (fcEturf_keeps_espln ..)) fun _ h =>
    same_andThen (same_step h rfl) fun _ h =>
    same_step h rfl

theorem r11f_keeps_espln (m : Libm) (s : State) (er fr eb fcb Etb A R : ℚ) : Same (fun t => t.w.espln) s (r11f m s er fr eb fcb Etb A R) := by
  unfold r11f
  have h : Same (fun t => t.w.espln) s s := same_refl s
  exact
    same_andThen (same_step h rfl) fun _ h =>
    same_andThen (same_step h rfl) fun _ h =>
    same_andThen (same_step h rfl) fun _ h =>
    same_andThen (same_step h rfl) fun _ h =>
    same_andThen (same_step h rfl) fun _ h =>
    same_andThen (same_step h rfl) fun _ h =>
    same_andThen (same_step h (fcEturf_keeps_espln ..)) fun _ h =>
    same_andThen (same_step h rfl) fun _ h =>
    same_step h rfl

theorem r13f_keeps_espln (s : State) (ed eunn fnewn Enewn : ℚ) : Same (fun t => t.w.espln) s (r13f s ed eunn fnewn Enewn) := by
  unfold r13f
  have h : Same (fun t => t.w.espln) s s := same_refl s
  exact
    same_andThen (same_step h rfl) fun _ h =>
    same_andThen (same_step h rfl) fun _ h =>
    same_andThen (same_step h rfl) fun _ h =>
    same_andThen (same_step h rfl) fun _ h =>
    same_andThen (same_step h rfl) fun _ h =>
    same_step h rfl

theorem r14f_keeps_espln (s : State) (er fr eb : ℚ) : Same (fun t => t.w.espln) s (r14f s er fr eb) := by
  unfold r14f
  have h : Same (fun t => t.w.espln) s s := same_refl s
  exact
    same_andThen (same_step h rfl) fun _ h =>
    same_andThen (same_step h rfl) fun _ h =>
    same_andThen (same_step h rfl) fun _ h =>
    same_andThen (same_step h rfl) fun _ h =>
    same_andThen (same_step h rfl) fun _ h =>
    same_step h rfl

theorem r15f_keeps_espln (m : Libm) (s : State) (er fr ea fca Eta A R : ℚ) : Same (fun t => t.w.espln) s (r15f m s er fr ea fca Eta A R) := by
  unfold r15f
  have h : Same (fun t => t.w.espln) s s := same_refl s
  exact
    same_andThen (same_step h rfl) fun _ h =>
    same_andThen (same_step h rfl) fun _ h =>
    same_andThen (same_step h rfl) fun _ h =>
    same_andThen (same_step h rfl) fun _ h =>
    same_andThen (same_step h rfl) fun _ h =>
    same_andThen (same_step h rfl) fun _ h =>
    same_andThen (same_step h (fcEturf_keeps_espln ..)) fun _ h =>
    same_andThen (same_step h rfl) fun _ h =>
    same_step h rfl

theorem r66f_keeps_espln (s : State) (e e0 : ℚ) : Same (fun t => t.w.espln) s (r66f s e e0) := by
  unfold r66f
  have h : Same (fun t => t.w.espln) s s := same_refl s
  exact
    same_andThen (same_step h rfl) fun _ h =>
    same_step h rfl

theorem r88f_keeps_espln (s : State) (e e0 er0p fr0p eunp fnewstp Enewstp esrestp frestp Erestp : ℚ) : Same (fun t => t.w.espln) s (r88f s e e0 er0p fr0p eunp fnewstp Enewstp esrestp frestp Erestp) := by
  unfold r88f
  have h : Same (fun t => t.w.espln) s s := same_refl s
  exact
    same_andThen (
        same_ite (
            same_andThen (same_step h rfl) fun _ h =>
            same_andThen (same_step h rfl) fun _ h =>
            same_andThen (same_step h rfl) fun _ h =>
            same_andThen (same_step h rfl) fun _ h =>
            same_andThen (same_step h rfl) fun _ h =>
            same_step h rfl
          ) (
            h
          )
      ) fun _ h =>
    same_ite (
        same_andThen (same_step h rfl) fun _ h =>
        same_andThen (same_step h rfl) fun _ h =>
        same_andThen (same_step h rfl) fun _ h =>
        same_andThen (same_step h rfl) fun _ h =>
        same_andThen (same_step h rfl) fun _ h =>
        same_step h rfl
      ) (
        h
      )

theorem r77f_keeps_espln (s : State) (e e0 er0n fr0n eunn fnewstn Enewstn esrestn frestn Erestn : ℚ) : Same (fun t => t.w.espln) s (r77f s e e0 er0n fr0n eunn fnewstn Enewstn esrestn frestn Erestn) := by
  unfold r77f
  have h : Same (fun t => t.w.espln) s s := same_refl s
  exact
    same_andThen (
        same_ite (
            same_andThen (same_step h rfl) fun _ h =>
            same_andThen (same_step h rfl) fun _ h =>
            same_andThen (same_step h rfl) fun _ h =>
            same_andThen (same_step h rfl) fun _ h =>
            same_andThen (same_step h rfl) fun _ h =>
            same_step h rfl
          ) (
            h
          )
      ) fun _ h =>
    same_ite (
        same_andThen (same_step h rfl) fun _ h =>
        same_andThen (same_step h rfl) fun _ h =>
        same_andThen (same_step h rfl) fun _ h =>
        same_andThen (same_step h rfl) fun _ h =>
        same_andThen (same_step h rfl) fun _ h =>
        same_step h rfl
      ) (
        h
      )

theorem ea1112f_keeps_espln (s : State) (eb espln esplp eunn eunp : ℚ) : Same (fun t => t.w.espln) s (ea1112f s eb espln esplp eunn eunp) := by
  unfold ea1112f
  have h : Same (fun t => t.w.espln) s s := same_refl s
  exact
    same_step h rfl

theorem eb1112f_keeps_espln (s : State) (ea espln esplp eunn eunp : ℚ) : Same (fun t => t.w.espln) s (eb1112f s ea espln esplp eunn eunp) := by
  unfold eb1112f
  have h : Same (fun t => t.w.espln) s s := same_refl s
  exact
    same_step h rfl

theorem eb1415f_keeps_espln (s : State) (ea fa Esecn : ℚ) : Same (fun t => t.w.espln) s (eb1415f s ea fa Esecn) := by
  unfold eb1415f
  have h : Same (fun t => t.w.espln) s s := same_refl s
  exact
    same_step h rfl

theorem RAf_keeps_espln (m : Libm) (s : State) (esi fi Ei esf ff Ef : ℚ) : Same (fun t => t.w.espln) s (RAf m s esi fi Ei esf ff Ef) := by
  unfold RAf
  have h : Same (fun t => t.w.espln) s s := same_refl s
  exact
    same_andThen (same_step h rfl) fun _ h =>
    same_ite (
        same_step h rfl
      ) (
        same_andThen (same_step h rfl) fun _ h =>
        same_ite (
            same_step h rfl
          ) (
            h
          )
      )

theorem yf_keeps_esi (m : Libm) (s : State) (x n r : ℚ) : Same (fun t => t.w.esi) s (yf m s x n r) := by
  have h : Same (fun t => t.w.esi) s s := same_refl s
  exact same_step h rfl

theorem zf_keeps_esi (m : Libm) (s : State) (x n r : ℚ) : Same (fun t => t.w.esi) s (zf m s x n r) := by
  have h : Same (fun t => t.w.esi) s s := same_refl s
  exact same_step h rfl

theorem r1f_keeps_esi (m : Libm) (s : State) (x n r : ℚ) : Same (fun t => t.w.esi) s (r1f m s x n r) := by
  unfold r1f
  have h : Same (fun t => t.w.esi) s s := same_refl s
  exact
    same_ite (
        same_andThen (same_step h (yf_keeps_esi ..)) fun _ h =>
        same_andThen (same_step h (zf_keeps_esi ..)) fun _ h =>
        same_andThen (same_step h rfl) fun _ h =>
        same_step h rfl
      ) (
        same_andThen (same_step h (yf_keeps_esi ..)) fun _ h =>
        same_andThen (same_step h (zf_keeps_esi ..)) fun _ h =>
        same_andThen (same_step h rfl) fun _ h =>
        same_step h rfl
      )

theorem r5f_keeps_esi (s : State) (x n r : ℚ) : Same (fun t => t.w.esi) s (r5f s x n r) := by
  unfold r5f
  have h : Same (fun t => t.w.esi) s s := same_refl s
  exact
    same_andThen (same_step h rfl) fun _ h =>
    same_step h rfl

theorem fcEtnf_keeps_esi (m : Libm) (s : State) (e : ℚ) : Same (fun t => t.w.esi) s (fcEtnf m s e) := by
  unfold fcEtnf
  have h : Same (fun t => t.w.esi) s s := same_refl s
  exact
    same_andThen (same_step h rfl) fun _ h =>
    same_andThen (same_step h rfl) fun _ h =>
    same_andThen (same_step h (yf_keeps_esi ..)) fun _ h =>
    same_andThen (same_step h (zf_keeps_esi ..)) fun _ h =>
    same_andThen (same_step h rfl) fun _ h =>
    same_ite (
        same_andThen (same_step h (r1f_keeps_esi ..)) fun _ h =>
        same_step h rfl
      ) (
        same_andThen (same_step h (r5f_keeps_esi ..)) fun _ h =>
        same_step h rfl
      )

theorem r2f_keeps_esi (m : Libm) (s : State) (x n r : ℚ) : Same (fun t => t.w.esi) s (r2f m s x n r) := by
  unfold r2f
  have h : Same (fun t => t.w.esi) s s := same_refl s
  exact
    same_ite (
        same_andThen (same_step h (yf_keeps_esi ..)) fun _ h =>
        same_andThen (same_step h (zf_keeps_esi ..)) fun _ h =>
        same_andThen (same_step h rfl) fun _ h =>
        same_step h rfl
      ) (
        same_andThen (same_step h (yf_keeps_esi ..)) fun _ h =>
        same_andThen (same_step h (zf_keeps_esi ..)) fun _ h =>
        same_andThen (same_step h rfl) fun _ h =>
        same_step h rfl
      )

theorem r6f_keeps_esi (s : State) (x n r : ℚ) : Same (fun t => t.w.esi) s (r6f s x n r) := by
  unfold r6f
  have h : Same (fun t => t.w.esi) s s := same_refl s
  exact
    same_andThen (same_step h rfl) fun _ h =>
    same_step h rfl

theorem fcEtpf_keeps_esi (m : Libm) (s : State) (e e0 : ℚ) : Same (fun t => t.w.esi) s (fcEtpf m s e e0) := by
  unfold fcEtpf
  have h : Same (fun t => t.w.esi) s s := same_refl s
  exact
    same_andThen (same_step h rfl) fun _ h =>
    same_andThen (same_step h rfl) fun _ h =>
    same_andThen (same_step h (yf_keeps_esi ..)) fun _ h =>
    same_andThen (same_step h (zf_keeps_esi ..)) fun _ h =>
    same_andThen (same_step h rfl) fun _ h =>
    same_ite (
        same_andThen (same_step h (r2f_keeps_esi ..)) fun _ h =>
        same_step h rfl
      ) (
        same_andThen (same_step h (r6f_keeps_esi ..)) fun _ h =>
        same_step h rfl
      )

theorem fcEtpr6f_keeps_esi (s : State) (e e0 : ℚ) : Same (fun t => t.w.esi) s (fcEtpr6f s e e0) := by
  unfold fcEtpr6f
  have h : Same (fun t => t.w.esi) s s := same_refl s
  exact
    same_andThen (same_step h rfl) fun _ h =>
    same_andThen (same_step h rfl) fun _ h =>
    same_andThen (same_step h (r6f_keeps_esi ..)) fun _ h =>
    same_step h rfl

theorem Esecnf_keeps_esi (s : State) (eunn funn : ℚ) : Same (fun t => t.w.esi) s (Esecnf s eunn funn) := by
  unfold Esecnf
  have h : Same (fun t => t.w.esi) s s := same_refl s
  exact
    same_step h rfl

theorem esplnf_keeps_esi (s : State) (eunn funn : ℚ) : Same (fun t => t.w.esi) s (esplnf s eunn funn) := by
  unfold esplnf
  have h : Same (fun t => t.w.esi) s s := same_refl s
  exact
    same_andThen (same_step h (Esecnf_keeps_esi ..)) fun _ h =>
    same_step h rfl

theorem Eplnf_keeps_esi (m : Libm) (s : State) (eunn : ℚ) : Same (fun t => t.w.esi) s (Eplnf m s eunn) := by
  unfold Eplnf
  have h : Same (fun t => t.w.esi) s s := same_refl s
  exact
    same_step h rfl

theorem delenf_keeps_esi (s : State) (eunn : ℚ) : Same (fun t => t.w.esi) s (delenf s eunn) := by
  unfold delenf
  have h : Same (fun t => t.w.esi) s s := same_refl s
  exact
    same_step h rfl

theorem delfnf_keeps_esi (m : Libm) (s : State) (eunn funn : ℚ) : Same (fun t => t.w.esi) s (delfnf m s eunn funn) := by
  unfold delfnf
  have h : Same (fun t => t.w.esi) s s := same_refl s
  exact
    same_ite (
        same_step h rfl
      ) (
        same_step h rfl
      )

theorem fnewnf_keeps_esi (m : Libm) (s : State) (eunn funn : ℚ) : Same (fun t => t.w.esi) s (fnewnf m s eunn funn) := by
  unfold fnewnf
  have h : Same (fun t => t.w.esi) s s := same_refl s
  exact
    same_andThen (same_step h (delfnf_keeps_esi ..)) fun _ h =>
    same_step h rfl

theorem Enewnf_keeps_esi (m : Libm) (s : State) (eunn funn : ℚ) : Same (fun t => t.w.esi) s (Enewnf m s eunn funn) := by
  unfold Enewnf
  have h : Same (fun t => t.w.esi) s s := same_refl s
  exact
    same_andThen (same_step h (fnewnf_keeps_esi ..)) fun _ h =>
    same_andThen (same_step h (esplnf_keeps_esi ..)) fun _ h =>
    same_andThen (same_step h rfl) fun _ h =>
    same_ite (
        same_step h rfl
      ) (
        h
      )

theorem esrenf_keeps_esi (s : State) (eunn : ℚ) : Same (fun t => t.w.esi) s (esrenf s eunn) := by
  unfold esrenf
  have h : Same (fun t => t.w.esi) s s := same_refl s
  exact
    same_andThen (same_step h (delenf_keeps_esi ..)) fun _ h =>
    same_step h rfl

theorem freErenf_keeps_esi (m : Libm) (s : State) (eunn : ℚ) : Same (fun t => t.w.esi) s (freErenf m s eunn) := by
  unfold freErenf
  have h : Same (fun t => t.w.esi) s s := same_refl s
  exact
    same_andThen (same_step h (esrenf_keeps_esi ..)) fun _ h =>
    same_andThen (same_step h rfl) fun _ h =>
    same_andThen (same_step h rfl) fun _ h =>
    same_andThen (same_step h (yf_keeps_esi ..)) fun _ h =>
    same_andThen (same_step h (zf_keeps_esi ..)) fun _ h =>
    same_andThen (same_step h rfl) fun _ h =>
    same_ite (
        same_ite (
            same_andThen (same_step h (yf_keeps_esi ..)) fun _ h =>
            same_andThen (same_step h (zf_keeps_esi ..)) fun _ h =>
            same_andThen (same_step h rfl) fun _ h =>
            same_step h rfl
          ) (
            same_andThen (same_step h (yf_keeps_esi ..)) fun _ h =>
            same_andThen (same_step h (zf_keeps_esi ..)) fun _ h =>
            same_andThen (same_step h rfl) fun _ h =>
            same_step h rfl
          )
      ) (
        same_andThen (same_step h rfl) fun _ h =>
        same_step h rfl
      )

theorem fnewstnf_keeps_esi (s : State) (funn delfn eunn er0n espln : ℚ) : Same (fun t => t.w.esi) s (fnewstnf s funn delfn eunn er0n espln) := by
  unfold fnewstnf
  have h : Same (fun t => t.w.esi) s s := same_refl s
  exact
    same_step h rfl

theorem Enewstnf_keeps_esi (s : State) (fnewstn fr0n eunn er0n : ℚ) : Same (fun t => t.w.esi) s (Enewstnf s fnewstn fr0n eunn er0n) := by
  unfold Enewstnf
  have h : Same (fun t => t.w.esi) s s := same_refl s
  exact
    same_step h rfl

theorem esrestnf_keeps_esi (s : State) (eunn delen er0n espln : ℚ) : Same (fun t => t.w.esi) s (esrestnf s eunn delen er0n espln) := by
  unfold esrestnf
  have h : Same (fun t => t.w.esi) s s := same_refl s
  exact
    same_step h rfl

theorem freErestnf_keeps_esi (m : Libm) (s : State) (eunn funn er0n : ℚ) : Same (fun t => t.w.esi) s (freErestnf m s eunn funn er0n) := by
  unfold freErestnf
  have h : Same (fun t => t.w.esi) s s := same_refl s
  exact
    same_andThen (same_step h (delenf_keeps_esi ..)) fun _ h =>
    same_andThen (same_step h (esplnf_keeps_esi ..)) fun _ h =>
    same_andThen (same_step h (esrestnf_keeps_esi ..)) fun _ h =>
    same_andThen (same_step h rfl) fun _ h =>
    same_andThen (same_step h rfl) fun _ h =>
    same_andThen (same_step h (yf_keeps_esi ..)) fun _ h =>
    same_andThen (same_step h (zf_keeps_esi ..)) fun _ h =>
    same_andThen (same_step h rfl) fun _ h =>
    same_ite (
        same_ite (
            same_andThen (same_step h (yf_keeps_esi ..)) fun _ h =>
            same_andThen (same_step h (zf_keeps_esi ..)) fun _ h =>
            same_andThen (same_step h rfl) fun _ h =>
            same_step h rfl
          ) (
            same_andThen (same_step h (yf_keeps_esi ..)) fun _ h =>
            same_andThen (same_step h (zf_keeps_esi ..)) fun _ h =>
            same_andThen (same_step h rfl) fun _ h =>
            same_step h rfl
          )
      ) (
        same_andThen (same_step h rfl) fun _ h =>
        same_step h rfl
      )

theorem Esecpf_keeps_esi (s : State) (e0 eunp funp espln : ℚ) : Same (fun t => t.w.esi) s (Esecpf s e0 eunp funp espln) := by
  unfold Esecpf
  have h : Same (fun t => t.w.esi) s s := same_refl s
  exact
    same_andThen (same_step h rfl) fun _ h =>
    same_ite (
        same_step h rfl
      ) (
        h
      )

theorem esplpf_keeps_esi (s : State) (eunp funp e0 espln : ℚ) : Same (fun t => t.w.esi) s (esplpf s eunp funp e0 espln) := by
  unfold esplpf
  have h : Same (fun t => t.w.esi) s s := same_refl s
  exact
    same_andThen (same_step h (Esecpf_keeps_esi ..)) fun _ h =>
    same_step h rfl

theorem Eplpf_keeps_esi (m : Libm) (s : State) (e0 eunp : ℚ) : Same (fun t => t.w.esi) s (Eplpf m s e0 eunp) := by
  unfold Eplpf
  have h : Same (fun t => t.w.esi) s s := same_refl s
  exact
    same_ite (
        same_step h rfl
      ) (
        same_step h rfl
      )

theorem delepf_keeps_esi (s : State) (eunp e0 : ℚ) : Same (fun t => t.w.esi) s (delepf s eunp e0) := by
  unfold delepf
  have h : Same (fun t => t.w.esi) s s := same_refl s
  exact
    same_step h rfl

theorem delfpf_keeps_esi (s : State) (funp eunp e0 : ℚ) : Same (fun t => t.w.esi) s (delfpf s funp eunp e0) := by
  unfold delfpf
  have h : Same (fun t => t.w.esi) s s := same_refl s
  exact
    same_ite (
        same_step h rfl
      ) (
        same_step h rfl
      )

theorem fnewpf_keeps_esi (s : State) (funp eunp e0 : ℚ) : Same (fun t => t.w.esi) s (fnewpf s funp eunp e0) := by
  unfold fnewpf
  have h : Same (fun t => t.w.esi) s s := same_refl s
  exact
    same_andThen (same_step h (delfpf_keeps_esi ..)) fun _ h =>
    same_step h rfl

theorem Enewpf_keeps_esi (s : State) (eunp funp e0 espln : ℚ) : Same (fun t => t.w.esi) s (Enewpf s eunp funp e0 espln) := by
  unfold Enewpf
  have h : Same (fun t => t.w.esi) s s := same_refl s
  exact
    same_andThen (same_step h (fnewpf_keeps_esi ..)) fun _ h =>
    same_andThen (same_step h (esplpf_keeps_esi ..)) fun _ h =>
    same_andThen (same_step h rfl) fun _ h =>
    same_ite (
        same_step h rfl
      ) (
        h
      )

theorem esrepf_keeps_esi (s : State) (eunp e0 : ℚ) : Same (fun t => t.w.esi) s (esrepf s eunp e0) := by
  unfold esrepf
  have h : Same (fun t => t.w.esi) s s := same_refl s
  exact
    same_andThen (same_step h (delepf_keeps_esi ..)) fun _ h =>
    same_step h rfl

theorem freErepf_keeps_esi (m : Libm) (s : State) (eunp e0 : ℚ) : Same (fun t => t.w.esi) s (freErepf m s eunp e0) := by
  unfold freErepf
  have h : Same (fun t => t.w.esi) s s := same_refl s
  exact
    same_andThen (same_step h (esrepf_keeps_esi ..)) fun _ h =>
    same_andThen (same_step h rfl) fun _ h =>
    same_andThen (same_step h rfl) fun _ h =>
    same_andThen (same_step h (yf_keeps_esi ..)) fun _ h =>
    same_andThen (same_step h (zf_keeps_esi ..)) fun _ h =>
    same_andThen (same_step h rfl) fun _ h =>
    same_ite (
        same_ite (
            same_andThen (same_step h (yf_keeps_esi ..)) fun _ h =>
            same_andThen (same_step h (zf_keeps_esi ..)) fun _ h =>
            same_andThen (same_step h rfl) fun _ h =>
            same_step h rfl
          ) (
            same_andThen (same_step h (yf_keeps_esi ..)) fun _ h =>
            same_andThen (same_step h (zf_keeps_esi ..)) fun _ h =>
            same_andThen (same_step h rfl) fun _ h =>
            same_step h rfl
          )
      ) (
        same_andThen (same_step h rfl) fun _ h =>
        same_step h rfl
      )

theorem fnewstpf_keeps_esi (s : State) (funp delfp eunp er0p esplp e0 : ℚ) : Same (fun t => t.w.esi) s (fnewstpf s funp delfp eunp er0p esplp e0) := by
  unfold fnewstpf
  have h : Same (fun t => t.w.esi) s s := same_refl s
  exact
    same_step h rfl

theorem Enewstpf_keeps_esi (s : State) (fnewstp fr0p eunp er0p : ℚ) : Same (fun t => t.w.esi) s (Enewstpf s fnewstp fr0p eunp er0p) := by
  unfold Enewstpf
  have h : Same (fun t => t.w.esi) s s := same_refl s
  exact
    same_step h rfl

theorem esrestpf_keeps_esi (s : State) (eunp delep er0p esplp : ℚ) : Same (fun t => t.w.esi) s (esrestpf s eunp delep er0p esplp) := by
  unfold esrestpf
  have h : Same (fun t => t.w.esi) s s := same_refl s
  exact
    same_step h rfl

theorem freErestpf_keeps_esi (m : Libm) (s : State) (eunp funp er0p e0 espln : ℚ) : Same (fun t => t.w.esi) s (freErestpf m s eunp funp er0p e0 espln) := by
  unfold freErestpf
  have h : Same (fun t => t.w.esi) s s := same_refl s
  exact
    same_andThen (same_step h (delepf_keeps_esi ..)) fun _ h =>
    same_andThen (same_step h (esplpf_keeps_esi ..)) fun _ h =>
    same_andThen (same_step h (esrestpf_keeps_esi ..)) fun _ h =>
    same_andThen (same_step h rfl) fun _ h =>
    same_andThen (same_step h rfl) fun _ h =>
    same_andThen (same_step h (yf_keeps_esi ..)) fun _ h =>
    same_andThen (same_step h (zf_keeps_esi ..)) fun _ h =>
    same_andThen (same_step h rfl) fun _ h =>
    same_ite (
        same_ite (
            same_andThen (same_step h (yf_keeps_esi ..)) fun _ h =>
            same_andThen (same_step h (zf_keeps_esi ..)) fun _ h =>
            same_andThen (same_step h rfl) fun _ h =>
            same_step h rfl
          ) (
            same_andThen (same_step h (yf_keeps_esi ..)) fun _ h =>
            same_andThen (same_step h (zf_keeps_esi ..)) fun _ h =>
            same_andThen (same_step h rfl) fun _ h =>
            same_step h rfl
          )
      ) (
        same_andThen (same_step h rfl) fun _ h =>
        same_step h rfl
      )

theorem e0eunpfunpf_keeps_esi (m : Libm) (s : State) (e0 eunp funp eunn funn : ℚ) :
    Same (fun t => t.w.esi) s (e0eunpfunpf m s e0 eunp funp eunn funn) := by
  unfold e0eunpfunpf
  have h : Same (fun t => t.w.esi) s s := same_refl s
  exact
    same_andThen (
      same_ite (same_step h (fcEtpf_keeps_esi ..)) h
      ) fun _ h =>
    same_andThen (same_step h (esplnf_keeps_esi ..)) fun _ h =>
    same_andThen (same_step h (Eplnf_keeps_esi ..)) fun _ h =>
    same_andThen (same_step h (Esecpf_keeps_esi ..)) fun _ h =>
    same_andThen (same_step h rfl) fun _ h =>
    same_andThen (same_step h rfl) fun _ h =>
    same_andThen (same_step h (fcEtpf_keeps_esi ..)) fun _ h =>
    same_step h rfl

theorem r66f_keeps_esi (s : State) (e e0 : ℚ) : Same (fun t => t.w.esi) s (r66f s e e0) := by
  unfold r66f
  have h : Same (fun t => t.w.esi) s s := same_refl s
  exact
    same_andThen (same_step h rfl) fun _ h =>
    same_step h rfl

theorem ea1112f_keeps_esi (s : State) (eb espln esplp eunn eunp : ℚ) : Same (fun t => t.w.esi) s (ea1112f s eb espln esplp eunn eunp) := by
  unfold ea1112f
  have h : Same (fun t => t.w.esi) s s := same_refl s
  exact
    same_step h rfl

theorem eb1112f_keeps_esi (s : State) (ea espln esplp eunn eunp : ℚ) : Same (fun t => t.w.esi) s (eb1112f s ea espln esplp eunn eunp) := by
  unfold eb1112f
  have h : Same (fun t => t.w.esi) s s := same_refl s
  exact
    same_step h rfl

theorem eb1415f_keeps_esi (s : State) (ea fa Esecn : ℚ) : Same (fun t => t.w.esi) s (eb1415f s ea fa Esecn) := by
  unfold eb1415f
  have h : Same (fun t => t.w.esi) s s := same_refl s
  exact
    same_step h rfl

theorem yf_keeps_fi (m : Libm) (s : State) (x n r : ℚ) : Same (fun t => t.w.fi) s (yf m s x n r) := by
  have h : Same (fun t => t.w.fi) s s := same_refl s
  exact same_step h rfl

theorem zf_keeps_fi (m : Libm) (s : State) (x n r : ℚ) : Same (fun t => t.w.fi) s (zf m s x n r) := by
  have h : Same (fun t => t.w.fi) s s := same_refl s
  exact same_step h rfl

theorem r1f_keeps_fi (m : Libm) (s : State) (x n r : ℚ) : Same (fun t => t.w.fi) s (r1f m s x n r) := by
  unfold r1f
  have h : Same (fun t => t.w.fi) s s := same_refl s
  exact
    same_ite (
        same_andThen (same_step h (yf_keeps_fi ..)) fun _ h =>
        same_andThen (same_step h (zf_keeps_fi ..)) fun _ h =>
        same_andThen (same_step h rfl) fun _ h =>
        same_step h rfl
      ) (
        same_andThen (same_step h (yf_keeps_fi ..)) fun _ h =>
        same_andThen (same_step h (zf_keeps_fi ..)) fun _ h =>
        same_andThen (same_step h rfl) fun _ h =>
        same_step h rfl
      )

theorem r5f_keeps_fi (s : State) (x n r : ℚ) : Same (fun t => t.w.fi) s (r5f s x n r) := by
  unfold r5f
  have h : Same (fun t => t.w.fi) s s := same_refl s
  exact
    same_andThen (same_step h rfl) fun _ h =>
    same_step h rfl

theorem fcEtnf_keeps_fi (m : Libm) (s : State) (e : ℚ) : Same (fun t => t.w.fi) s (fcEtnf m s e) := by
  unfold fcEtnf
  have h : Same (fun t => t.w.fi) s s := same_refl s
  exact
    same_andThen (same_step h rfl) fun _ h =>
    same_andThen (same_step h rfl) fun _ h =>
    same_andThen (same_step h (yf_keeps_fi ..)) fun _ h =>
    same_andThen (same_step h (zf_keeps_fi ..)) fun _ h =>
    same_andThen (same_step h rfl) fun _ h =>
    same_ite (
        same_andThen (same_step h (r1f_keeps_fi ..)) fun _ h =>
        same_step h rfl
      ) (
        same_andThen (same_step h (r5f_keeps_fi ..)) fun _ h =>
        same_step h rfl
      )

theorem r2f_keeps_fi (m : Libm) (s : State) (x n r : ℚ) : Same (fun t => t.w.fi) s (r2f m s x n r) := by
  unfold r2f
  have h : Same (fun t => t.w.fi) s s := same_refl s
  exact
    same_ite (
        same_andThen (same_step h (yf_keeps_fi ..)) fun _ h =>
        same_andThen (same_step h (zf_keeps_fi ..)) fun _ h =>
        same_andThen (same_step h rfl) fun _ h =>
        same_step h rfl
      ) (
        same_andThen (same_step h (yf_keeps_fi ..)) fun _ h =>
        same_andThen (same_step h (zf_keeps_fi ..)) fun _ h =>
        same_andThen (same_step h rfl) fun _ h =>
        same_step h rfl
      )

theorem r6f_keeps_fi (s : State) (x n r : ℚ) : Same (fun t => t.w.fi) s (r6f s x n r) := by
  unfold r6f
  have h : Same (fun t => t.w.fi) s s := same_refl s
  exact
    same_andThen (same_step h rfl) fun _ h =>
    same_step h rfl

theorem fcEtpf_keeps_fi (m : Libm) (s : State) (e e0 : ℚ) : Same (fun t => t.w.fi) s (fcEtpf m s e e0) := by
  unfold fcEtpf
  have h : Same (fun t => t.w.fi) s s := same_refl s
  exact
    same_andThen (same_step h rfl) fun _ h =>
    same_andThen (same_step h rfl) fun _ h =>
    same_andThen (same_step h (yf_keeps_fi ..)) fun _ h =>
    same_andThen (same_step h (zf_keeps_fi ..)) fun _ h =>
    same_andThen (same_step h rfl) fun _ h =>
    same_ite (
        same_andThen (same_step h (r2f_keeps_fi ..)) fun _ h =>
        same_step h rfl
      ) (
        same_andThen (same_step h (r6f_keeps_fi ..)) fun _ h =>
        same_step h rfl
      )

theorem fcEtpr6f_keeps_fi (s : State) (e e0 : ℚ) : Same (fun t => t.w.fi) s (fcEtpr6f s e e0) := by
  unfold fcEtpr6f
  have h : Same (fun t => t.w.fi) s s := same_refl s
  exact
    same_andThen (same_step h rfl) fun _ h =>
    same_andThen (same_step h rfl) fun _ h =>
    same_andThen (same_step h (r6f_keeps_fi ..)) fun _ h =>
    same_step h rfl

theorem Esecnf_keeps_fi (s : State) (eunn funn : ℚ) : Same (fun t => t.w.fi) s (Esecnf s eunn funn) := by
  unfold Esecnf
  have h : Same (fun t => t.w.fi) s s := same_refl s
  exact
    same_step h rfl

theorem esplnf_keeps_fi (s : State) (eunn funn : ℚ) : Same (fun t => t.w.fi) s (esplnf s eunn funn) := by
  unfold esplnf
  have h : Same (fun t => t.w.fi) s s := same_refl s
  exact
    same_andThen (same_step h (Esecnf_keeps_fi ..)) fun _ h =>
    same_step h rfl

theorem Eplnf_keeps_fi (m : Libm) (s : State) (eunn : ℚ) : Same (fun t => t.w.fi) s (Eplnf m s eunn) := by
  unfold Eplnf
  have h : Same (fun t => t.w.fi) s s := same_refl s
  exact
    same_step h rfl

theorem delenf_keeps_fi (s : State) (eunn : ℚ) : Same (fun t => t.w.fi) s (delenf s eunn) := by
  unfold delenf
  have h : Same (fun t => t.w.fi) s s := same_refl s
  exact
    same_step h rfl

theorem delfnf_keeps_fi (m : Libm) (s : State) (eunn funn : ℚ) : Same (fun t => t.w.fi) s (delfnf m s eunn funn) := by
  unfold delfnf
  have h : Same (fun t => t.w.fi) s s := same_refl s
  exact
    same_ite (
        same_step h rfl
      ) (
        same_step h rfl
      )

theorem fnewnf_keeps_fi (m : Libm) (s : State) (eunn funn : ℚ) : Same (fun t => t.w.fi) s (fnewnf m s eunn funn) := by
  unfold fnewnf
  have h : Same (fun t => t.w.fi) s s := same_refl s
  exact
    same_andThen (same_step h (delfnf_keeps_fi ..)) fun _ h =>
    same_step h rfl

theorem Enewnf_keeps_fi (m : Libm) (s : State) (eunn funn : ℚ) : Same (fun t => t.w.fi) s (Enewnf m s eunn funn) := by
  unfold Enewnf
  have h : Same (fun t => t.w.fi) s s := same_refl s
  exact
    same_andThen (same_step h (fnewnf_keeps_fi ..)) fun _ h =>
    same_andThen (same_step h (esplnf_keeps_fi ..)) fun _ h =>
    same_andThen (same_step h rfl) fun _ h =>
    same_ite (
        same_step h rfl
      ) (
        h
      )

theorem esrenf_keeps_fi (s : State) (eunn : ℚ) : Same (fun t => t.w.fi) s (esrenf s eunn) := by
  unfold esrenf
  have h : Same (fun t => t.w.fi) s s := same_refl s
  exact
    same_andThen (same_step h (delenf_keeps_fi ..)) fun _ h =>
    same_step h rfl

theorem freErenf_keeps_fi (m : Libm) (s : State) (eunn : ℚ) : Same (fun t => t.w.fi) s (freErenf m s eunn) := by
  unfold freErenf
  have h : Same (fun t => t.w.fi) s s := same_refl s
  exact
    same_andThen (same_step h (esrenf_keeps_fi ..)) fun _ h =>
    same_andThen (same_step h rfl) fun _ h =>
    same_andThen (same_step h rfl) fun _ h =>
    same_andThen (same_step h (yf_keeps_fi ..)) fun _ h =>
    same_andThen (same_step h (zf_keeps_fi ..)) fun _ h =>
    same_andThen (same_step h rfl) fun _ h =>
    same_ite (
        same_ite (
            same_andThen (same_step h (yf_keeps_fi ..)) fun _ h =>
            same_andThen (same_step h (zf_keeps_fi ..)) fun _ h =>
            same_andThen (same_step h rfl) fun _ h =>
            same_step h rfl
          ) (
            same_andThen (same_step h (yf_keeps_fi ..)) fun _ h =>
            same_andThen (same_step h (zf_keeps_fi ..)) fun _ h =>
            same_andThen (same_step h rfl) fun _ h =>
            same_step h rfl
          )
      ) (
        same_andThen (same_step h rfl) fun _ h =>
        same_step h rfl
      )

theorem fnewstnf_keeps_fi (s : State) (funn delfn eunn er0n espln : ℚ) : Same (fun t => t.w.fi) s (fnewstnf s funn delfn eunn er0n espln) := by
  unfold fnewstnf
  have h : Same (fun t => t.w.fi) s s := same_refl s
  exact
    same_step h rfl

theorem Enewstnf_keeps_fi (s : State) (fnewstn fr0n eunn er0n : ℚ) : Same (fun t => t.w.fi) s (Enewstnf s fnewstn fr0n eunn er0n) := by
  unfold Enewstnf
  have h : Same (fun t => t.w.fi) s s := same_refl s
  exact
    same_step h rfl

theorem esrestnf_keeps_fi (s : State) (eunn delen er0n espln : ℚ) : Same (fun t => t.w.fi) s (esrestnf s eunn delen er0n espln) := by
  unfold esrestnf
  have h : Same (fun t => t.w.fi) s s := same_refl s
  exact
    same_step h rfl

theorem freErestnf_keeps_fi (m : Libm) (s : State) (eunn funn er0n : ℚ) : Same (fun t => t.w.fi) s (freErestnf m s eunn funn er0n) := by
  unfold freErestnf
  have h : Same (fun t => t.w.fi) s s := same_refl s
  exact
    same_andThen (same_step h (delenf_keeps_fi ..)) fun _ h =>
    same_andThen (same_step h (esplnf_keeps_fi ..)) fun _ h =>
    same_andThen (same_step h (esrestnf_keeps_fi ..)) fun _ h =>
    same_andThen (same_step h rfl) fun _ h =>
    same_andThen (same_step h rfl) fun _ h =>
    same_andThen (same_step h (yf_keeps_fi ..)) fun _ h =>
    same_andThen (same_step h (zf_keeps_fi ..)) fun _ h =>
    same_andThen (same_step h rfl) fun _ h =>
    same_ite (
        same_ite (
            same_andThen (same_step h (yf_keeps_fi ..)) fun _ h =>
            same_andThen (same_step h (zf_keeps_fi ..)) fun _ h =>
            same_andThen (same_step h rfl) fun _ h =>
            same_step h rfl
          ) (
            same_andThen (same_step h (yf_keeps_fi ..)) fun _ h =>
            same_andThen (same_step h (zf_keeps_fi ..)) fun _ h =>
            same_andThen (same_step h rfl) fun _ h =>
            same_step h rfl
          )
      ) (
        same_andThen (same_step h rfl) fun _ h =>
        same_step h rfl
      )

theorem Esecpf_keeps_fi (s : State) (e0 eunp funp espln : ℚ) : Same (fun t => t.w.fi) s (Esecpf s e0 eunp funp espln) := by
  unfold Esecpf
  have h : Same (fun t => t.w.fi) s s := same_refl s
  exact
    same_andThen (same_step h rfl) fun _ h =>
    same_ite (
        same_step h rfl
      ) (
        h
      )

theorem esplpf_keeps_fi (s : State) (eunp funp e0 espln : ℚ) : Same (fun t => t.w.fi) s (esplpf s eunp funp e0 espln) := by
  unfold esplpf
  have h : Same (fun t => t.w.fi) s s := same_refl s
  exact
    same_andThen (same_step h (Esecpf_keeps_fi ..)) fun _ h =>
    same_step h rfl

theorem Eplpf_keeps_fi (m : Libm) (s : State) (e0 eunp : ℚ) : Same (fun t => t.w.fi) s (Eplpf m s e0 eunp) := by
  unfold Eplpf
  have h : Same (fun t => t.w.fi) s s := same_refl s
  exact
    same_ite (
        same_step h rfl
      ) (
        same_step h rfl
      )

theorem delepf_keeps_fi (s : State) (eunp e0 : ℚ) : Same (fun t => t.w.fi) s (delepf s eunp e0) := by
  unfold delepf
  have h : Same (fun t => t.w.fi) s s := same_refl s
  exact
    same_step h rfl

theorem delfpf_keeps_fi (s : State) (funp eunp e0 : ℚ) : Same (fun t => t.w.fi) s (delfpf s funp eunp e0) := by
  unfold delfpf
  have h : Same (fun t => t.w.fi) s s := same_refl s
  exact
    same_ite (
        same_step h rfl
      ) (
        same_step h rfl
      )

theorem fnewpf_keeps_fi (s : State) (funp eunp e0 : ℚ) : Same (fun t => t.w.fi) s (fnewpf s funp eunp e0) := by
  unfold fnewpf
  have h : Same (fun t => t.w.fi) s s := same_refl s
  exact
    same_andThen (same_step h (delfpf_keeps_fi ..)) fun _ h =>
    same_step h rfl

theorem Enewpf_keeps_fi (s : State) (eunp funp e0 espln : ℚ) : Same (fun t => t.w.fi) s (Enewpf s eunp funp e0 espln) := by
  unfold Enewpf
  have h : Same (fun t => t.w.fi) s s := same_refl s
  exact
    same_andThen (same_step h (fnewpf_keeps_fi ..)) fun _ h =>
    same_andThen (same_step h (esplpf_keeps_fi ..)) fun _ h =>
    same_andThen (same_step h rfl) fun _ h =>
    same_ite (
        same_step h rfl
      ) (
        h
      )

theorem esrepf_keeps_fi (s : State) (eunp e0 : ℚ) : Same (fun t => t.w.fi) s (esrepf s eunp e0) := by
  unfold esrepf
  have h : Same (fun t => t.w.fi) s s := same_refl s
  exact
    same_andThen (same_step h (delepf_keeps_fi ..)) fun _ h =>
    same_step h rfl

theorem freErepf_keeps_fi (m : Libm) (s : State) (eunp e0 : ℚ) : Same (fun t => t.w.fi) s (freErepf m s eunp e0) := by
  unfold freErepf
  have h : Same (fun t => t.w.fi) s s := same_refl s
  exact
    same_andThen (same_step h (esrepf_keeps_fi ..)) fun _ h =>
    same_andThen (same_step h rfl) fun _ h =>
    same_andThen (same_step h rfl) fun _ h =>
    same_andThen (same_step h (yf_keeps_fi ..)) fun _ h =>
    same_andThen (same_step h (zf_keeps_fi ..)) fun _ h =>
    same_andThen (same_step h rfl) fun _ h =>
    same_ite (
        same_ite (
            same_andThen (same_step h (yf_keeps_fi ..)) fun _ h =>
            same_andThen (same_step h (zf_keeps_fi ..)) fun _ h =>
            same_andThen (same_step h rfl) fun _ h =>
            same_step h rfl
          ) (
            same_andThen (same_step h (yf_keeps_fi ..)) fun _ h =>
            same_andThen (same_step h (zf_keeps_fi ..)) fun _ h =>
            same_andThen (same_step h rfl) fun _ h =>
            same_step h rfl
          )
      ) (
        same_andThen (same_step h rfl) fun _ h =>
        same_step h rfl
      )

theorem fnewstpf_keeps_fi (s : State) (funp delfp eunp er0p esplp e0 : ℚ) : Same (fun t => t.w.fi) s (fnewstpf s funp delfp eunp er0p esplp e0) := by
  unfold fnewstpf
  have h : Same (fun t => t.w.fi) s s := same_refl s
  exact
    same_step h rfl

theorem Enewstpf_keeps_fi (s : State) (fnewstp fr0p eunp er0p : ℚ) : Same (fun t => t.w.fi) s (Enewstpf s fnewstp fr0p eunp er0p) := by
  unfold Enewstpf
  have h : Same (fun t => t.w.fi) s s := same_refl s
  exact
    same_step h rfl

theorem esrestpf_keeps_fi (s : State) (eunp delep er0p esplp : ℚ) : Same (fun t => t.w.fi) s (esrestpf s eunp delep er0p esplp) := by
  unfold esrestpf
  have h : Same (fun t => t.w.fi) s s := same_refl s
  exact
    same_step h rfl

theorem freErestpf_keeps_fi (m : Libm) (s : State) (eunp funp er0p e0 espln : ℚ) : Same (fun t => t.w.fi) s (freErestpf m s eunp funp er0p e0 espln) := by
  unfold freErestpf
  have h : Same (fun t => t.w.fi) s s := same_refl s
  exact
    same_andThen (same_step h (delepf_keeps_fi ..)) fun _ h =>
    same_andThen (same_step h (esplpf_keeps_fi ..)) fun _ h =>
    same_andThen (same_step h (esrestpf_keeps_fi ..)) fun _ h =>
    same_andThen (same_step h rfl) fun _ h =>
    same_andThen (same_step h rfl) fun _ h =>
    same_andThen (same_step h (yf_keeps_fi ..)) fun _ h =>
    same_andThen (same_step h (zf_keeps_fi ..)) fun _ h =>
    same_andThen (same_step h rfl) fun _ h =>
    same_ite (
        same_ite (
            same_andThen (same_step h (yf_keeps_fi ..)) fun _ h =>
            same_andThen (same_step h (zf_keeps_fi ..)) fun _ h =>
            same_andThen (same_step h rfl) fun _ h =>
            same_step h rfl
          ) (
            same_andThen (same_step h (yf_keeps_fi ..)) fun _ h =>
            same_andThen (same_step h (zf_keeps_fi ..)) fun _ h =>
            same_andThen (same_step h rfl) fun _ h =>
            same_step h rfl
          )
      ) (
        same_andThen (same_step h rfl) fun _ h =>
        same_step h rfl
      )

theorem e0eunpfunpf_keeps_fi (m : Libm) (s : State) (e0 eunp funp eunn funn : ℚ) :
    Same (fun t => t.w.fi) s (e0eunpfunpf m s e0 eunp funp eunn funn) := by
  unfold e0eunpfunpf
  have h : Same (fun t => t.w.fi) s s := same_refl s
  exact
    same_andThen (
      same_ite (same_step h (fcEtpf_keeps_fi ..)) h
      ) fun _ h =>
    same_andThen (same_step h (esplnf_keeps_fi ..)) fun _ h =>
    same_andThen (same_step h (Eplnf_keeps_fi ..)) fun _ h =>
    same_andThen (same_step h (Esecpf_keeps_fi ..)) fun _ h =>
    same_andThen (same_step h rfl) fun _ h =>
    same_andThen (same_step h rfl) fun _ h =>
    same_andThen (same_step h (fcEtpf_keeps_fi ..)) fun _ h =>
    same_step h rfl

theorem r66f_keeps_fi (s : State) (e e0 : ℚ) : Same (fun t => t.w.fi) s (r66f s e e0) := by
  unfold r66f
  have h : Same (fun t => t.w.fi) s s := same_refl s
  exact
    same_andThen (same_step h rfl) fun _ h =>
    same_step h rfl

theorem ea1112f_keeps_fi (s : State) (eb espln esplp eunn eunp : ℚ) : Same (fun t => t.w.fi) s (ea1112f s eb espln esplp eunn eunp) := by
  unfold ea1112f
  have h : Same (fun t => t.w.fi) s s := same_refl s
  exact
    same_step h rfl

theorem eb1112f_keeps_fi (s : State) (ea espln esplp eunn eunp : ℚ) : Same (fun t => t.w.fi) s (eb1112f s ea espln esplp eunn eunp) := by
  unfold eb1112f
  have h : Same (fun t => t.w.fi) s s := same_refl s
  exact
    same_step h rfl

theorem eb1415f_keeps_fi (s : State) (ea fa Esecn : ℚ) : Same (fun t => t.w.fi) s (eb1415f s ea fa Esecn) := by
  unfold eb1415f
  have h : Same (fun t => t.w.fi) s s := same_refl s
  exact
    same_step h rfl

theorem yf_keeps_Ei (m : Libm) (s : State) (x n r : ℚ) : Same (fun t => t.w.Ei) s (yf m s x n r) := by
  have h : Same (fun t => t.w.Ei) s s := same_refl s
  exact same_step h rfl

theorem zf_keeps_Ei (m : Libm) (s : State) (x n r : ℚ) : Same (fun t => t.w.Ei) s (zf m s x n r) := by
  have h : Same (fun t => t.w.Ei) s s := same_refl s
  exact same_step h rfl

theorem r1f_keeps_Ei (m : Libm) (s : State) (x n r : ℚ) : Same (fun t => t.w.Ei) s (r1f m s x n r) := by
  unfold r1f
  have h : Same (fun t => t.w.Ei) s s := same_refl s
  exact
    same_ite (
        same_andThen (same_step h (yf_keeps_Ei ..)) fun _ h =>
        same_andThen (same_step h (zf_keeps_Ei ..)) fun _ h =>
        same_andThen (same_step h rfl) fun _ h =>
        same_step h rfl
      ) (
        same_andThen (same_step h (yf_keeps_Ei ..)) fun _ h =>
        same_andThen (same_step h (zf_keeps_Ei ..)) fun _ h =>
        same_andThen (same_step h rfl) fun _ h =>
        same_step h rfl
      )

theorem r5f_keeps_Ei (s : State) (x n r : ℚ) : Same (fun t => t.w.Ei) s (r5f s x n r) := by
  unfold r5f
  have h : Same (fun t => t.w.Ei) s s := same_refl s
  exact
    same_andThen (same_step h rfl) fun _ h =>
    same_step h rfl

theorem fcEtnf_keeps_Ei (m : Libm) (s : State) (e : ℚ) : Same (fun t => t.w.Ei) s (fcEtnf m s e) := by
  unfold fcEtnf
  have h : Same (fun t => t.w.Ei) s s := same_refl s
  exact
    same_andThen (same_step h rfl) fun _ h =>
    same_andThen (same_step h rfl) fun _ h =>
    same_andThen (same_step h (yf_keeps_Ei ..)) fun _ h =>
    same_andThen (same_step h (zf_keeps_Ei ..)) fun _ h =>
    same_andThen (same_step h rfl) fun _ h =>
    same_ite (
        same_andThen (same_step h (r1f_keeps_Ei ..)) fun _ h =>
        same_step h rfl
      ) (
        same_andThen (same_step h (r5f_keeps_Ei ..)) fun _ h =>
        same_step h rfl
      )

theorem r2f_keeps_Ei (m : Libm) (s : State) (x n r : ℚ) : Same (fun t => t.w.Ei) s (r2f m s x n r) := by
  unfold r2f
  have h : Same (fun t => t.w.Ei) s s := same_refl s
  exact
    same_ite (
        same_andThen (same_step h (yf_keeps_Ei ..)) fun _ h =>
        same_andThen (same_step h (zf_keeps_Ei ..)) fun _ h =>
        same_andThen (same_step h rfl) fun _ h =>
        same_step h rfl
      ) (
        same_andThen (same_step h (yf_keeps_Ei ..)) fun _ h =>
        same_andThen (same_step h (zf_keeps_Ei ..)) fun _ h =>
        same_andThen (same_step h rfl) fun _ h =>
        same_step h rfl
      )

theorem r6f_keeps_Ei (s : State) (x n r : ℚ) : Same (fun t => t.w.Ei) s (r6f s x n r) := by
  unfold r6f
  have h : Same (fun t => t.w.Ei) s s := same_refl s
  exact
    same_andThen (same_step h rfl) fun _ h =>
    same_step h rfl

theorem fcEtpf_keeps_Ei (m : Libm) (s : State) (e e0 : ℚ) : Same (fun t => t.w.Ei) s (fcEtpf m s e e0) := by
  unfold fcEtpf
  have h : Same (fun t => t.w.Ei) s s := same_refl s
  exact
    same_andThen (same_step h rfl) fun _ h =>
    same_andThen (same_step h rfl) fun _ h =>
    same_andThen (same_step h (yf_keeps_Ei ..)) fun _ h =>
    same_andThen (same_step h (zf_keeps_Ei ..)) fun _ h =>
    same_andThen (same_step h rfl) fun _ h =>
    same_ite (
        same_andThen (same_step h (r2f_keeps_Ei ..)) fun _ h =>
        same_step h rfl
      ) (
        same_andThen (same_step h (r6f_keeps_Ei ..)) fun _ h =>
        same_step h rfl
      )

theorem fcEtpr6f_keeps_Ei (s : State) (e e0 : ℚ) : Same (fun t => t.w.Ei) s (fcEtpr6f s e e0) := by
  unfold fcEtpr6f
  have h : Same (fun t => t.w.Ei) s s := same_refl s
  exact
    same_andThen (same_step h rfl) fun _ h =>
    same_andThen (same_step h rfl) fun _ h =>
    same_andThen (same_step h (r6f_keeps_Ei ..)) fun _ h =>
    same_step h rfl

theorem Esecnf_keeps_Ei (s : State) (eunn funn : ℚ) : Same (fun t => t.w.Ei) s (Esecnf s eunn funn) := by
  unfold Esecnf
  have h : Same (fun t => t.w.Ei) s s := same_refl s
  exact
    same_step h rfl

theorem esplnf_keeps_Ei (s : State) (eunn funn : ℚ) : Same (fun t => t.w.Ei) s (esplnf s eunn funn) := by
  unfold esplnf
  have h : Same (fun t => t.w.Ei) s s := same_refl s
  exact
    same_andThen (same_step h (Esecnf_keeps_Ei ..)) fun _ h =>
    same_step h rfl

theorem Eplnf_keeps_Ei (m : Libm) (s : State) (eunn : ℚ) : Same (fun t => t.w.Ei) s (Eplnf m s eunn) := by
  unfold Eplnf
  have h : Same (fun t => t.w.Ei) s s := same_refl s
  exact
    same_step h rfl

theorem delenf_keeps_Ei (s : State) (eunn : ℚ) : Same (fun t => t.w.Ei) s (delenf s eunn) := by
  unfold delenf
  have h : Same (fun t => t.w.Ei) s s := same_refl s
  exact
    same_step h rfl

theorem delfnf_keeps_Ei (m : Libm) (s : State) (eunn funn : ℚ) : Same (fun t => t.w.Ei) s (delfnf m s eunn funn) := by
  unfold delfnf
  have h : Same (fun t => t.w.Ei) s s := same_refl s
  exact
    same_ite (
        same_step h rfl
      ) (
        same_step h rfl
      )

theorem fnewnf_keeps_Ei (m : Libm) (s : State) (eunn funn : ℚ) : Same (fun t => t.w.Ei) s (fnewnf m s eunn funn) := by
  unfold fnewnf
  have h : Same (fun t => t.w.Ei) s s := same_refl s
  exact
    same_andThen (same_step h (delfnf_keeps_Ei ..)) fun _ h =>
    same_step h rfl

theorem Enewnf_keeps_Ei (m : Libm) (s : State) (eunn funn : ℚ) : Same (fun t => t.w.Ei) s (Enewnf m s eunn funn) := by
  unfold Enewnf
  have h : Same (fun t => t.w.Ei) s s := same_refl s
  exact
    same_andThen (same_step h (fnewnf_keeps_Ei ..)) fun _ h =>
    same_andThen (same_step h (esplnf_keeps_Ei ..)) fun _ h =>
    same_andThen (same_step h rfl) fun _ h =>
    same_ite (
        same_step h rfl
      ) (
        h
      )

theorem esrenf_keeps_Ei (s : State) (eunn : ℚ) : Same (fun t => t.w.Ei) s (esrenf s eunn) := by
  unfold esrenf
  have h : Same (fun t => t.w.Ei) s s := same_refl s
  exact
    same_andThen (same_step h (delenf_keeps_Ei ..)) fun _ h =>
    same_step h rfl

theorem freErenf_keeps_Ei (m : Libm) (s : State) (eunn : ℚ) : Same (fun t => t.w.Ei) s (freErenf m s eunn) := by
  unfold freErenf
  have h : Same (fun t => t.w.Ei) s s := same_refl s
  exact
    same_andThen (same_step h (esrenf_keeps_Ei ..)) fun _ h =>
    same_andThen (same_step h rfl) fun _ h =>
    same_andThen (same_step h rfl) fun _ h =>
    same_andThen (same_step h (yf_keeps_Ei ..)) fun _ h =>
    same_andThen (same_step h (zf_keeps_Ei ..)) fun _ h =>
    same_andThen (same_step h rfl) fun _ h =>
    same_ite (
        same_ite (
            same_andThen (same_step h (yf_keeps_Ei ..)) fun _ h =>
            same_andThen (same_step h (zf_keeps_Ei ..)) fun _ h =>
            same_andThen (same_step h rfl) fun _ h =>
            same_step h rfl
          ) (
            same_andThen (same_step h (yf_keeps_Ei ..)) fun _ h =>
            same_andThen (same_step h (zf_keeps_Ei ..)) fun _ h =>
            same_andThen (same_step h rfl) fun _ h =>
            same_step h rfl
          )
      ) (
        same_andThen (same_step h rfl) fun _ h =>
        same_step h rfl
      )

theorem fnewstnf_keeps_Ei (s : State) (funn delfn eunn er0n espln : ℚ) : Same (fun t => t.w.Ei) s (fnewstnf s funn delfn eunn er0n espln) := by
  unfold fnewstnf
  have h : Same (fun t => t.w.Ei) s s := same_refl s
  exact
    same_step h rfl

theorem Enewstnf_keeps_Ei (s : State) (fnewstn fr0n eunn er0n : ℚ) : Same (fun t => t.w.Ei) s (Enewstnf s fnewstn fr0n eunn er0n) := by
  unfold Enewstnf
  have h : Same (fun t => t.w.Ei) s s := same_refl s
  exact
    same_step h rfl

theorem esrestnf_keeps_Ei (s : State) (eunn delen er0n espln : ℚ) : Same (fun t => t.w.Ei) s (esrestnf s eunn delen er0n espln) := by
  unfold esrestnf
  have h : Same (fun t => t.w.Ei) s s := same_refl s
  exact
    same_step h rfl

theorem freErestnf_keeps_Ei (m : Libm) (s : State) (eunn funn er0n : ℚ) : Same (fun t => t.w.Ei) s (freErestnf m s eunn funn er0n) := by
  unfold freErestnf
  have h : Same (fun t => t.w.Ei) s s := same_refl s
  exact
    same_andThen (same_step h (delenf_keeps_Ei ..)) fun _ h =>
    same_andThen (same_step h (esplnf_keeps_Ei ..)) fun _ h =>
    same_andThen (same_step h (esrestnf_keeps_Ei ..)) fun _ h =>
    same_andThen (same_step h rfl) fun _ h =>
    same_andThen (same_step h rfl) fun _ h =>
    same_andThen (same_step h (yf_keeps_Ei ..)) fun _ h =>
    same_andThen (same_step h (zf_keeps_Ei ..)) fun _ h =>
    same_andThen (same_step h rfl) fun _ h =>
    same_ite (
        same_ite (
            same_andThen (same_step h (yf_keeps_Ei ..)) fun _ h =>
            same_andThen (same_step h (zf_keeps_Ei ..)) fun _ h =>
            same_andThen (same_step h rfl) fun _ h =>
            same_step h rfl
          ) (
            same_andThen (same_step h (yf_keeps_Ei ..)) fun _ h =>
            same_andThen (same_step h (zf_keeps_Ei ..)) fun _ h =>
            same_andThen (same_step h rfl) fun _ h =>
            same_step h rfl
          )
      ) (
        same_andThen (same_step h rfl) fun _ h =>
        same_step h rfl
      )

theorem Esecpf_keeps_Ei (s : State) (e0 eunp funp espln : ℚ) : Same (fun t => t.w.Ei) s (Esecpf s e0 eunp funp espln) := by
  unfold Esecpf
  have h : Same (fun t => t.w.Ei) s s := same_refl s
  exact
    same_andThen (same_step h rfl) fun _ h =>
    same_ite (
        same_step h rfl
      ) (
        h
      )

theorem esplpf_keeps_Ei (s : State) (eunp funp e0 espln : ℚ) : Same (fun t => t.w.Ei) s (esplpf s eunp funp e0 espln) := by
  unfold esplpf
  have h : Same (fun t => t.w.Ei) s s := same_refl s
  exact
    same_andThen (same_step h (Esecpf_keeps_Ei ..)) fun _ h =>
    same_step h rfl

theorem Eplpf_keeps_Ei (m : Libm) (s : State) (e0 eunp : ℚ) : Same (fun t => t.w.Ei) s (Eplpf m s e0 eunp) := by
  unfold Eplpf
  have h : Same (fun t => t.w.Ei) s s := same_refl s
  exact
    same_ite (
        same_step h rfl
      ) (
        same_step h rfl
      )

theorem delepf_keeps_Ei (s : State) (eunp e0 : ℚ) : Same (fun t => t.w.Ei) s (delepf s eunp e0) := by
  unfold delepf
  have h : Same (fun t => t.w.Ei) s s := same_refl s
  exact
    same_step h rfl

theorem delfpf_keeps_Ei (s : State) (funp eunp e0 : ℚ) : Same (fun t => t.w.Ei) s (delfpf s funp eunp e0) := by
  unfold delfpf
  have h : Same (fun t => t.w.Ei) s s := same_refl s
  exact
    same_ite (
        same_step h rfl
      ) (
        same_step h rfl
      )

theorem fnewpf_keeps_Ei (s : State) (funp eunp e0 : ℚ) : Same (fun t => t.w.Ei) s (fnewpf s funp eunp e0) := by
  unfold fnewpf
  have h : Same (fun t => t.w.Ei) s s := same_refl s
  exact
    same_andThen (same_step h (delfpf_keeps_Ei ..)) fun _ h =>
    same_step h rfl

theorem Enewpf_keeps_Ei (s : State) (eunp funp e0 espln : ℚ) : Same (fun t => t.w.Ei) s (Enewpf s eunp funp e0 espln) := by
  unfold Enewpf
  have h : Same (fun t => t.w.Ei) s s := same_refl s
  exact
    same_andThen (same_step h (fnewpf_keeps_Ei ..)) fun _ h =>
    same_andThen (same_step h (esplpf_keeps_Ei ..)) fun _ h =>
    same_andThen (same_step h rfl) fun _ h =>
    same_ite (
        same_step h rfl
      ) (
        h
      )

theorem esrepf_keeps_Ei (s : State) (eunp e0 : ℚ) : Same (fun t => t.w.Ei) s (esrepf s eunp e0) := by
  unfold esrepf
  have h : Same (fun t => t.w.Ei) s s := same_refl s
  exact
    same_andThen (same_step h (delepf_keeps_Ei ..)) fun _ h =>
    same_step h rfl

theorem freErepf_keeps_Ei (m : Libm) (s : State) (eunp e0 : ℚ) : Same (fun t => t.w.Ei) s (freErepf m s eunp e0) := by
  unfold freErepf
  have h : Same (fun t => t.w.Ei) s s := same_refl s
  exact
    same_andThen (same_step h (esrepf_keeps_Ei ..)) fun _ h =>
    same_andThen (same_step h rfl) fun _ h =>
    same_andThen (same_step h rfl) fun _ h =>
    same_andThen (same_step h (yf_keeps_Ei ..)) fun _ h =>
    same_andThen (same_step h (zf_keeps_Ei ..)) fun _ h =>
    same_andThen (same_step h rfl) fun _ h =>
    same_ite (
        same_ite (
            same_andThen (same_step h (yf_keeps_Ei ..)) fun _ h =>
            same_andThen (same_step h (zf_keeps_Ei ..)) fun _ h =>
            same_andThen (same_step h rfl) fun _ h =>
            same_step h rfl
          ) (
            same_andThen (same_step h (yf_keeps_Ei ..)) fun _ h =>
            same_andThen (same_step h (zf_keeps_Ei ..)) fun _ h =>
            same_andThen (same_step h rfl) fun _ h =>
            same_step h rfl
          )
      ) (
        same_andThen (same_step h rfl) fun _ h =>
        same_step h rfl
      )

theorem fnewstpf_keeps_Ei (s : State) (funp delfp eunp er0p esplp e0 : ℚ) : Same (fun t => t.w.Ei) s (fnewstpf s funp delfp eunp er0p esplp e0) := by
  unfold fnewstpf
  have h : Same (fun t => t.w.Ei) s s := same_refl s
  exact
    same_step h rfl

theorem Enewstpf_keeps_Ei (s : State) (fnewstp fr0p eunp er0p : ℚ) : Same (fun t => t.w.Ei) s (Enewstpf s fnewstp fr0p eunp er0p) := by
  unfold Enewstpf
  have h : Same (fun t => t.w.Ei) s s := same_refl s
  exact
    same_step h rfl

theorem esrestpf_keeps_Ei (s : State) (eunp delep er0p esplp : ℚ) : Same (fun t => t.w.Ei) s (esrestpf s eunp delep er0p esplp) := by
  unfold esrestpf
  have h : Same (fun t => t.w.Ei) s s := same_refl s
  exact
    same_step h rfl

theorem freErestpf_keeps_Ei (m : Libm) (s : State) (eunp funp er0p e0 espln : ℚ) : Same (fun t => t.w.Ei) s (freErestpf m s eunp funp er0p e0 espln) := by
  unfold freErestpf
  have h : Same (fun t => t.w.Ei) s s := same_refl s
  exact
    same_andThen (same_step h (delepf_keeps_Ei ..)) fun _ h =>
    same_andThen (same_step h (esplpf_keeps_Ei ..)) fun _ h =>
    same_andThen (same_step h (esrestpf_keeps_Ei ..)) fun _ h =>
    same_andThen (same_step h rfl) fun _ h =>
    same_andThen (same_step h rfl) fun _ h =>
    same_andThen (same_step h (yf_keeps_Ei ..)) fun _ h =>
    same_andThen (same_step h (zf_keeps_Ei ..)) fun _ h =>
    same_andThen (same_step h rfl) fun _ h =>
    same_ite (
        same_ite (
            same_andThen (same_step h (yf_keeps_Ei ..)) fun _ h =>
            same_andThen (same_step h (zf_keeps_Ei ..)) fun _ h =>
            same_andThen (same_step h rfl) fun _ h =>
            same_step h rfl
          ) (
            same_andThen (same_step h (yf_keeps_Ei ..)) fun _ h =>
            same_andThen (same_step h (zf_keeps_Ei ..)) fun _ h =>
            same_andThen (same_step h rfl) fun _ h =>
            same_step h rfl
          )
      ) (
        same_andThen (same_step h rfl) fun _ h =>
        same_step h rfl
      )

theorem e0eunpfunpf_keeps_Ei (m : Libm) (s : State) (e0 eunp funp eunn funn : ℚ) :
    Same (fun t => t.w.Ei) s (e0eunpfunpf m s e0 eunp funp eunn funn) := by
  unfold e0eunpfunpf
  have h : Same (fun t => t.w.Ei) s s := same_refl s
  exact
    same_andThen (
      same_ite (same_step h (fcEtpf_keeps_Ei ..)) h
      ) fun _ h =>
    same_andThen (same_step h (esplnf_keeps_Ei ..)) fun _ h =>
    same_andThen (same_step h (Eplnf_keeps_Ei ..)) fun _ h =>
    same_andThen (same_step h (Esecpf_keeps_Ei ..)) fun _ h =>
    same_andThen (same_step h rfl) fun _ h =>
    same_andThen (same_step h rfl) fun _ h =>
    same_andThen (same_step h (fcEtpf_keeps_Ei ..)) fun _ h =>
    same_step h rfl

theorem r66f_keeps_Ei (s : State) (e e0 : ℚ) : Same (fun t => t.w.Ei) s (r66f s e e0) := by
  unfold r66f
  have h : Same (fun t => t.w.Ei) s s := same_refl s
  exact
    same_andThen (same_step h rfl) fun _ h =>
    same_step h rfl

theorem ea1112f_keeps_Ei (s : State) (eb espln esplp eunn eunp : ℚ) : Same (fun t => t.w.Ei) s (ea1112f s eb espln esplp eunn eunp) := by
  unfold ea1112f
  have h : Same (fun t => t.w.Ei) s s := same_refl s
  exact
    same_step h rfl

theorem eb1112f_keeps_Ei (s : State) (ea espln esplp eunn eunp : ℚ) : Same (fun t => t.w.Ei) s (eb1112f s ea espln esplp eunn eunp) := by
  unfold eb1112f
  have h : Same (fun t => t.w.Ei) s s := same_refl s
  exact
    same_step h rfl

theorem eb1415f_keeps_Ei (s : State) (ea fa Esecn : ℚ) : Same (fun t => t.w.Ei) s (eb1415f s ea fa Esecn) := by
  unfold eb1415f
  have h : Same (fun t => t.w.Ei) s s := same_refl s
  exact
    same_step h rfl

theorem yf_keeps_Teunn (m : Libm) (s : State) (x n r : ℚ) : Same (fun t => t.T.Teunn) s (yf m s x n r) := by
  have h : Same (fun t => t.T.Teunn) s s := same_refl s
  exact same_step h rfl

theorem zf_keeps_Teunn (m : Libm) (s : State) (x n r : ℚ) : Same (fun t => t.T.Teunn) s (zf m s x n r) := by
  have h : Same (fun t => t.T.Teunn) s s := same_refl s
  exact same_step h rfl

theorem r1f_keeps_Teunn (m : Libm) (s : State) (x n r : ℚ) : Same (fun t => t.T.Teunn) s (r1f m s x n r) := by
  unfold r1f
  have h : Same (fun t => t.T.Teunn) s s := same_refl s
  exact
    same_ite (
        same_andThen (same_step h (yf_keeps_Teunn ..)) fun _ h =>
        same_andThen (same_step h (zf_keeps_Teunn ..)) fun _ h =>
        same_andThen (same_step h rfl) fun _ h =>
        same_step h rfl
      ) (
        same_andThen (same_step h (yf_keeps_Teunn ..)) fun _ h =>
        same_andThen (same_step h (zf_keeps_Teunn ..)) fun _ h =>
        same_andThen (same_step h rfl) fun _ h =>
        same_step h rfl
      )

theorem r5f_keeps_Teunn (s : State) (x n r : ℚ) : Same (fun t => t.T.Teunn) s (r5f s x n r) := by
  unfold r5f
  have h : Same (fun t => t.T.Teunn) s s := same_refl s
  exact
    same_andThen (same_step h rfl) fun _ h =>
    same_step h rfl

theorem fcEtnf_keeps_Teunn (m : Libm) (s : State) (e : ℚ) : Same (fun t => t.T.Teunn) s (fcEtnf m s e) := by
  unfold fcEtnf
  have h : Same (fun t => t.T.Teunn) s s := same_refl s
  exact
    same_andThen (same_step h rfl) fun _ h =>
    same_andThen (same_step h rfl) fun _ h =>
    same_andThen (same_step h (yf_keeps_Teunn ..)) fun _ h =>
    same_andThen (same_step h (zf_keeps_Teunn ..)) fun _ h =>
    same_andThen (same_step h rfl) fun _ h =>
    same_ite (
        same_andThen (same_step h (r1f_keeps_Teunn ..)) fun _ h =>
        same_step h rfl
      ) (
        same_andThen (same_step h (r5f_keeps_Teunn ..)) fun _ h =>
        same_step h rfl
      )

theorem r2f_keeps_Teunn (m : Libm) (s : State) (x n r : ℚ) : Same (fun t => t.T.Teunn) s (r2f m s x n r) := by
  unfold r2f
  have h : Same (fun t => t.T.Teunn) s s := same_refl s
  exact
    same_ite (
        same_andThen (same_step h (yf_keeps_Teunn ..)) fun _ h =>
        same_andThen (same_step h (zf_keeps_Teunn ..)) fun _ h =>
        same_andThen (same_step h rfl) fun _ h =>
        same_step h rfl
      ) (
        same_andThen (same_step h (yf_keeps_Teunn ..)) fun _ h =>
        same_andThen (same_step h (zf_keeps_Teunn ..)) fun _ h =>
        same_andThen (same_step h rfl) fun _ h =>
        same_step h rfl
      )

theorem r6f_keeps_Teunn (s : State) (x n r : ℚ) : Same (fun t => t.T.Teunn) s (r6f s x n r) := by
  unfold r6f
  have h : Same (fun t => t.T.Teunn) s s := same_refl s
  exact
    same_andThen (same_step h rfl) fun _ h =>
    same_step h rfl

theorem fcEtpf_keeps_Teunn (m : Libm) (s : State) (e e0 : ℚ) : Same (fun t => t.T.Teunn) s (fcEtpf m s e e0) := by
  unfold fcEtpf
  have h : Same (fun t => t.T.Teunn) s s := same_refl s
  exact
    same_andThen (same_step h rfl) fun _ h =>
    same_andThen (same_step h rfl) fun _ h =>
    same_andThen (same_step h (yf_keeps_Teunn ..)) fun _ h =>
    same_andThen (same_step h (zf_keeps_Teunn ..)) fun _ h =>
    same_andThen (same_step h rfl) fun _ h =>
    same_ite (
        same_andThen (same_step h (r2f_keeps_Teunn ..)) fun _ h =>
        same_step h rfl
      ) (
        same_andThen (same_step h (r6f_keeps_Teunn ..)) fun _ h =>
        same_step h rfl
      )

theorem fcEtpr6f_keeps_Teunn (s : State) (e e0 : ℚ) : Same (fun t => t.T.Teunn) s (fcEtpr6f s e e0) := by
  unfold fcEtpr6f
  have h : Same (fun t => t.T.Teunn) s s := same_refl s
  exact
    same_andThen (same_step h rfl) fun _ h =>
    same_andThen (same_step h rfl) fun _ h =>
    same_andThen (same_step h (r6f_keeps_Teunn ..)) fun _ h =>
    same_step h rfl

theorem Esecnf_keeps_Teunn (s : State) (eunn funn : ℚ) : Same (fun t => t.T.Teunn) s (Esecnf s eunn funn) := by
  unfold Esecnf
  have h : Same (fun t => t.T.Teunn) s s := same_refl s
  exact
    same_step h rfl

theorem esplnf_keeps_Teunn (s : State) (eunn funn : ℚ) : Same (fun t => t.T.Teunn) s (esplnf s eunn funn) := by
  unfold esplnf
  have h : Same (fun t => t.T.Teunn) s s := same_refl s
  exact
    same_andThen (same_step h (Esecnf_keeps_Teunn ..)) fun _ h =>
    same_step h rfl

theorem Eplnf_keeps_Teunn (m : Libm) (s : State) (eunn : ℚ) : Same (fun t => t.T.Teunn) s (Eplnf m s eunn) := by
  unfold Eplnf
  have h : Same (fun t => t.T.Teunn) s s := same_refl s
  exact
    same_step h rfl

theorem delenf_keeps_Teunn (s : State) (eunn : ℚ) : Same (fun t => t.T.Teunn) s (delenf s eunn) := by
  unfold delenf
  have h : Same (fun t => t.T.Teunn) s s := same_refl s
  exact
    same_step h rfl

theorem delfnf_keeps_Teunn (m : Libm) (s : State) (eunn funn : ℚ) : Same (fun t => t.T.Teunn) s (delfnf m s eunn funn) := by
  unfold delfnf
  have h : Same (fun t => t.T.Teunn) s s := same_refl s
  exact
    same_ite (
        same_step h rfl
      ) (
        same_step h rfl
      )

theorem fnewnf_keeps_Teunn (m : Libm) (s : State) (eunn funn : ℚ) : Same (fun t => t.T.Teunn) s (fnewnf m s eunn funn) := by
  unfold fnewnf
  have h : Same (fun t => t.T.Teunn) s s := same_refl s
  exact
    same_andThen (same_step h (delfnf_keeps_Teunn ..)) fun _ h =>
    same_step h rfl

theorem Enewnf_keeps_Teunn (m : Libm) (s : State) (eunn funn : ℚ) : Same (fun t => t.T.Teunn) s (Enewnf m s eunn funn) := by
  unfold Enewnf
  have h : Same (fun t => t.T.Teunn) s s := same_refl s
  exact
    same_andThen (same_step h (fnewnf_keeps_Teunn ..)) fun _ h =>
    same_andThen (same_step h (esplnf_keeps_Teunn ..)) fun _ h =>
    same_andThen (same_step h rfl) fun _ h =>
    same_ite (
        same_step h rfl
      ) (
        h
      )

theorem esrenf_keeps_Teunn (s : State) (eunn : ℚ) : Same (fun t => t.T.Teunn) s (esrenf s eunn) := by
  unfold esrenf
  have h : Same (fun t => t.T.Teunn) s s := same_refl s
  exact
    same_andThen (same_step h (delenf_keeps_Teunn ..)) fun _ h =>
    same_step h rfl

theorem freErenf_keeps_Teunn (m : Libm) (s : State) (eunn : ℚ) : Same (fun t => t.T.Teunn) s (freErenf m s eunn) := by
  unfold freErenf
  have h : Same (fun t => t.T.Teunn) s s := same_refl s
  exact
    same_andThen (same_step h (esrenf_keeps_Teunn ..)) fun _ h =>
    same_andThen (same_step h rfl) fun _ h =>
    same_andThen (same_step h rfl) fun _ h =>
    same_andThen (same_step h (yf_keeps_Teunn ..)) fun _ h =>
    same_andThen (same_step h (zf_keeps_Teunn ..)) fun _ h =>
    same_andThen (same_step h rfl) fun _ h =>
    same_ite (
        same_ite (
            same_andThen (same_step h (yf_keeps_Teunn ..)) fun _ h =>
            same_andThen (same_step h (zf_keeps_Teunn ..)) fun _ h =>
            same_andThen (same_step h rfl) fun _ h =>
            same_step h rfl
          ) (
            same_andThen (same_step h (yf_keeps_Teunn ..)) fun _ h =>
            same_andThen (same_step h (zf_keeps_Teunn ..)) fun _ h =>
            same_andThen (same_step h rfl) fun _ h =>
            same_step h rfl
          )
      ) (
        same_andThen (same_step h rfl) fun _ h =>
        same_step h rfl
      )

theorem fnewstnf_keeps_Teunn (s : State) (funn delfn eunn er0n espln : ℚ) : Same (fun t => t.T.Teunn) s (fnewstnf s funn delfn eunn er0n espln) := by
  unfold fnewstnf
  have h : Same (fun t => t.T.Teunn) s s := same_refl s
  exact
    same_step h rfl

theorem Enewstnf_keeps_Teunn (s : State) (fnewstn fr0n eunn er0n : ℚ) : Same (fun t => t.T.Teunn) s (Enewstnf s fnewstn fr0n eunn er0n) := by
  unfold Enewstnf
  have h : Same (fun t => t.T.Teunn) s s := same_refl s
  exact
    same_step h rfl

theorem esrestnf_keeps_Teunn (s : State) (eunn delen er0n espln : ℚ) : Same (fun t => t.T.Teunn) s (esrestnf s eunn delen er0n espln) := by
  unfold esrestnf
  have h : Same (fun t => t.T.Teunn) s s := same_refl s
  exact
    same_step h rfl

theorem freErestnf_keeps_Teunn (m : Libm) (s : State) (eunn funn er0n : ℚ) : Same (fun t => t.T.Teunn) s (freErestnf m s eunn funn er0n) := by
  unfold freErestnf
  have h : Same (fun t => t.T.Teunn) s s := same_refl s
  exact
    same_andThen (same_step h (delenf_keeps_Teunn ..)) fun _ h =>
    same_andThen (same_step h (esplnf_keeps_Teunn ..)) fun _ h =>
    same_andThen (same_step h (esrestnf_keeps_Teunn ..)) fun _ h =>
    same_andThen (same_step h rfl) fun _ h =>
    same_andThen (same_step h rfl) fun _ h =>
    same_andThen (same_step h (yf_keeps_Teunn ..)) fun _ h =>
    same_andThen (same_step h (zf_keeps_Teunn ..)) fun _ h =>
    same_andThen (same_step h rfl) fun _ h =>
    same_ite (
        same_ite (
            same_andThen (same_step h (yf_keeps_Teunn ..)) fun _ h =>
            same_andThen (same_step h (zf_keeps_Teunn ..)) fun _ h =>
            same_andThen (same_step h rfl) fun _ h =>
            same_step h rfl
          ) (
            same_andThen (same_step h (yf_keeps_Teunn ..)) fun _ h =>
            same_andThen (same_step h (zf_keeps_Teunn ..)) fun _ h =>
            same_andThen (same_step h rfl) fun _ h =>
            same_step h rfl
          )
      ) (
        same_andThen (same_step h rfl) fun _ h =>
        same_step h rfl
      )

theorem Esecpf_keeps_Teunn (s : State) (e0 eunp funp espln : ℚ) : Same (fun t => t.T.Teunn) s (Esecpf s e0 eunp funp espln) := by
  unfold Esecpf
  have h : Same (fun t => t.T.Teunn) s s := same_refl s
  exact
    same_andThen (same_step h rfl) fun _ h =>
    same_ite (
        same_step h rfl
      ) (
        h
      )

theorem esplpf_keeps_Teunn (s : State) (eunp funp e0 espln : ℚ) : Same (fun t => t.T.Teunn) s (esplpf s eunp funp e0 espln) := by
  unfold esplpf
  have h : Same (fun t => t.T.Teunn) s s := same_refl s
  exact
    same_andThen (same_step h (Esecpf_keeps_Teunn ..)) fun _ h =>
    same_step h rfl

theorem Eplpf_keeps_Teunn (m : Libm) (s : State) (e0 eunp : ℚ) : Same (fun t => t.T.Teunn) s (Eplpf m s e0 eunp) := by
  unfold Eplpf
  have h : Same (fun t => t.T.Teunn) s s := same_refl s
  exact
    same_ite (
        same_step h rfl
      ) (
        same_step h rfl
      )

theorem delepf_keeps_Teunn (s : State) (eunp e0 : ℚ) : Same (fun t => t.T.Teunn) s (delepf s eunp e0) := by
  unfold delepf
  have h : Same (fun t => t.T.Teunn) s s := same_refl s
  exact
    same_step h rfl

theorem delfpf_keeps_Teunn (s : State) (funp eunp e0 : ℚ) : Same (fun t => t.T.Teunn) s (delfpf s funp eunp e0) := by
  unfold delfpf
  have h : Same (fun t => t.T.Teunn) s s := same_refl s
  exact
    same_ite (
        same_step h rfl
      ) (
        same_step h rfl
      )

theorem fnewpf_keeps_Teunn (s : State) (funp eunp e0 : ℚ) : Same (fun t => t.T.Teunn) s (fnewpf s funp eunp e0) := by
  unfold fnewpf
  have h : Same (fun t => t.T.Teunn) s s := same_refl s
  exact
    same_andThen (same_step h (delfpf_keeps_Teunn ..)) fun _ h =>
    same_step h rfl

theorem Enewpf_keeps_Teunn (s : State) (eunp funp e0 espln : ℚ) : Same (fun t => t.T.Teunn) s (Enewpf s eunp funp e0 espln) := by
  unfold Enewpf
  have h : Same (fun t => t.T.Teunn) s s := same_refl s
  exact
    same_andThen (same_step h (fnewpf_keeps_Teunn ..)) fun _ h =>
    same_andThen (same_step h (esplpf_keeps_Teunn ..)) fun _ h =>
    same_andThen (same_step h rfl) fun _ h =>
    same_ite (
        same_step h rfl
      ) (
        h
      )

theorem esrepf_keeps_Teunn (s : State) (eunp e0 : ℚ) : Same (fun t => t.T.Teunn) s (esrepf s eunp e0) := by
  unfold esrepf
  have h : Same (fun t => t.T.Teunn) s s := same_refl s
  exact
    same_andThen (same_step h (delepf_keeps_Teunn ..)) fun _ h =>
    same_step h rfl

theorem freErepf_keeps_Teunn (m : Libm) (s : State) (eunp e0 : ℚ) : Same (fun t => t.T.Teunn) s (freErepf m s eunp e0) := by
  unfold freErepf
  have h : Same (fun t => t.T.Teunn) s s := same_refl s
  exact
    same_andThen (same_step h (esrepf_keeps_Teunn ..)) fun _ h =>
    same_andThen (same_step h rfl) fun _ h =>
    same_andThen (same_step h rfl) fun _ h =>
    same_andThen (same_step h (yf_keeps_Teunn ..)) fun _ h =>
    same_andThen (same_step h (zf_keeps_Teunn ..)) fun _ h =>
    same_andThen (same_step h rfl) fun _ h =>
    same_ite (
        same_ite (
            same_andThen (same_step h (yf_keeps_Teunn ..)) fun _ h =>
            same_andThen (same_step h (zf_keeps_Teunn ..)) fun _ h =>
            same_andThen (same_step h rfl) fun _ h =>
            same_step h rfl
          ) (
            same_andThen (same_step h (yf_keeps_Teunn ..)) fun _ h =>
            same_andThen (same_step h (zf_keeps_Teunn ..)) fun _ h =>
            same_andThen (same_step h rfl) fun _ h =>
            same_step h rfl
          )
      ) (
        same_andThen (same_step h rfl) fun _ h =>
        same_step h rfl
      )

theorem fnewstpf_keeps_Teunn (s : State) (funp delfp eunp er0p esplp e0 : ℚ) : Same (fun t => t.T.Teunn) s (fnewstpf s funp delfp eunp er0p esplp e0) := by
  unfold fnewstpf
  have h : Same (fun t => t.T.Teunn) s s := same_refl s
  exact
    same_step h rfl

theorem Enewstpf_keeps_Teunn (s : State) (fnewstp fr0p eunp er0p : ℚ) : Same (fun t => t.T.Teunn) s (Enewstpf s fnewstp fr0p eunp er0p) := by
  unfold Enewstpf
  have h : Same (fun t => t.T.Teunn) s s := same_refl s
  exact
    same_step h rfl

theorem esrestpf_keeps_Teunn (s : State) (eunp delep er0p esplp : ℚ) : Same (fun t => t.T.Teunn) s (esrestpf s eunp delep er0p esplp) := by
  unfold esrestpf
  have h : Same (fun t => t.T.Teunn) s s := same_refl s
  exact
    same_step h rfl

theorem freErestpf_keeps_Teunn (m : Libm) (s : State) (eunp funp er0p e0 espln : ℚ) : Same (fun t => t.T.Teunn) s (freErestpf m s eunp funp er0p e0 espln) := by
  unfold freErestpf
  have h : Same (fun t => t.T.Teunn) s s := same_refl s
  exact
    same_andThen (same_step h (delepf_keeps_Teunn ..)) fun _ h =>
    same_andThen (same_step h (esplpf_keeps_Teunn ..)) fun _ h =>
    same_andThen (same_step h (esrestpf_keeps_Teunn ..)) fun _ h =>
    same_andThen (same_step h rfl) fun _ h =>
    same_andThen (same_step h rfl) fun _ h =>
    same_andThen (same_step h (yf_keeps_Teunn ..)) fun _ h =>
    same_andThen (same_step h (zf_keeps_Teunn ..)) fun _ h =>
    same_andThen (same_step h rfl) fun _ h =>
    same_ite (
        same_ite (
            same_andThen (same_step h (yf_keeps_Teunn ..)) fun _ h =>
            same_andThen (same_step h (zf_keeps_Teunn ..)) fun _ h =>
            same_andThen (same_step h rfl) fun _ h =>
            same_step h rfl
          ) (
            same_andThen (same_step h (yf_keeps_Teunn ..)) fun _ h =>
            same_andThen (same_step h (zf_keeps_Teunn ..)) fun _ h =>
            same_andThen (same_step h rfl) fun _ h =>
            same_step h rfl
          )
      ) (
        same_andThen (same_step h rfl) fun _ h =>
        same_step h rfl
      )

theorem e0eunpfunpf_keeps_Teunn (m : Libm) (s : State) (e0 eunp funp eunn funn : ℚ) :
    Same (fun t => t.T.Teunn) s (e0eunpfunpf m s e0 eunp funp eunn funn) := by
  unfold e0eunpfunpf
  have h : Same (fun t => t.T.Teunn) s s := same_refl s
  exact
    same_andThen (
      same_ite (same_step h (fcEtpf_keeps_Teunn ..)) h
      ) fun _ h =>
    same_andThen (same_step h (esplnf_keeps_Teunn ..)) fun _ h =>
    same_andThen (same_step h (Eplnf_keeps_Teunn ..)) fun _ h =>
    same_andThen (same_step h (Esecpf_keeps_Teunn ..)) fun _ h =>
    same_andThen (same_step h rfl) fun _ h =>
    same_andThen (same_step h rfl) fun _ h =>
    same_andThen (same_step h (fcEtpf_keeps_Teunn ..)) fun _ h =>
    same_step h rfl

theorem r3f_keeps_Teunn (s : State) (eunn funn espln Epln : ℚ) : Same (fun t => t.T.Teunn) s (r3f s eunn funn espln Epln) := by
  unfold r3f
  have h : Same (fun t => t.T.Teunn) s s := same_refl s
  exact
    same_andThen (same_step h rfl) fun _ h =>
    same_andThen (same_step h rfl) fun _ h =>
    same_andThen (same_step h rfl) fun _ h =>
    same_andThen (same_step h rfl) fun _ h =>
    same_andThen (same_step h rfl) fun _ h =>
    same_step h rfl

theorem r9f_keeps_Teunn (s : State) (espln Epln eunp fnewp Enewp : ℚ) : Same (fun t => t.T.Teunn) s (r9f s espln Epln eunp fnewp Enewp) := by
  unfold r9f
  have h : Same (fun t => t.T.Teunn) s s := same_refl s
  exact
    same_andThen (same_step h rfl) fun _ h =>
    same_andThen (same_step h rfl) fun _ h =>
    same_andThen (same_step h rfl) fun _ h =>
    same_andThen (same_step h rfl) fun _ h =>
    same_andThen (same_step h rfl) fun _ h =>
    same_step h rfl

theorem r8f_keeps_Teunn (s : State) (eunp fnewp Enewp esrep frep Erep : ℚ) : Same (fun t => t.T.Teunn) s (r8f s eunp fnewp Enewp esrep frep Erep) := by
  unfold r8f
  have h : Same (fun t => t.T.Teunn) s s := same_refl s
  exact
    same_andThen (same_step h rfl) fun _ h =>
    same_andThen (same_step h rfl) fun _ h =>
    same_andThen (same_step h rfl) fun _ h =>
    same_andThen (same_step h rfl) fun _ h =>
    same_andThen (same_step h rfl) fun _ h =>
    same_step h rfl

theorem r4f_keeps_Teunn (s : State) (eunp funp esplp Eplp : ℚ) : Same (fun t => t.T.Teunn) s (r4f s eunp funp esplp Eplp) := by
  unfold r4f
  have h : Same (fun t => t.T.Teunn) s s := same_refl s
  exact
    same_andThen (same_step h rfl) fun _ h =>
    same_andThen (same_step h rfl) fun _ h =>
    same_andThen (same_step h rfl) fun _ h =>
    same_andThen (same_step h rfl) fun _ h =>
    same_andThen (same_step h rfl) fun _ h =>
    same_step h rfl

theorem r10f_keeps_Teunn (s : State) (esplp Eplp eunn fnewn Enewn : ℚ) : Same (fun t => t.T.Teunn) s (r10f s esplp Eplp eunn fnewn Enewn) := by
  unfold r10f
  have h : Same (fun t => t.T.Teunn) s s := same_refl s
  exact
    same_andThen (same_step h rfl) fun _ h =>
    same_andThen (same_step h rfl) fun _ h =>
    same_andThen (same_step h rfl) fun _ h =>
    same_andThen (same_step h rfl) fun _ h =>
    same_andThen (same_step h rfl) fun _ h =>
    same_step h rfl

theorem r7f_keeps_Teunn (s : State) (eunn fnewn Enewn esren fren Eren : ℚ) : Same (fun t => t.T.Teunn) s (r7f s eunn fnewn Enewn esren fren Eren) := by
  unfold r7f
  have h : Same (fun t => t.T.Teunn) s s := same_refl s
  exact
    same_andThen (same_step h rfl) fun _ h =>
    same_andThen (same_step h rfl) fun _ h =>
    same_andThen (same_step h rfl) fun _ h =>
    same_andThen (same_step h rfl) fun _ h =>
    same_andThen (same_step h rfl) fun _ h =>
    same_step h rfl

theorem fcEturf_keeps_Teunn (m : Libm) (s : State) (es esi fi esf ff Ei Ef A R : ℚ) : Same (fun t => t.T.Teunn) s (fcEturf m s es esi fi esf ff Ei Ef A R) := by
  unfold fcEturf
  have h : Same (fun t => t.T.Teunn) s s := same_refl s
  exact
    same_ite (
        same_andThen (same_step h rfl) fun _ h =>
        same_step h rfl
      ) (
        same_ite (
            same_andThen (same_step h rfl) fun _ h =>
            same_step h rfl
          ) (
            same_ite (
                same_andThen (same_step h rfl) fun _ h =>
                same_step h rfl
              ) (
                same_ite (
                    same_andThen (same_step h rfl) fun _ h =>
                    same_step h rfl
                  ) (
                    same_andThen (same_step h rfl) fun _ h =>
                    same_andThen (same_step h rfl) fun _ h =>
                    same_ite (
                        same_andThen (same_step h rfl) fun _ h =>
                        same_step h rfl
                      ) (
                        h
                      )
                  )
              )
          )
      )

theorem r12f_keeps_Teunn (m : Libm) (s : State) (er fr ea fca Eta A R : ℚ) : Same (fun t => t.T.Teunn) s (r12f m s er fr ea fca Eta A R) := by
  unfold r12f
  have h : Same (fun t => t.T.Teunn) s s := same_refl s
  exact
    same_andThen (same_step h rfl) fun _ h =>
    same_andThen (same_step h rfl) fun _ h =>
    same_andThen (same_step h rfl) fun _ h =>
    same_andThen (same_step h rfl) fun _ h =>
    same_andThen (same_step h rfl) fun _ h =>
    same_andThen (same_step h rfl) fun _ h =>
    same_andThen (same_step h (fcEturf_keeps_Teunn ..)) fun _ h =>
    same_andThen (same_step h rfl) fun _ h =>
    same_step h rfl

theorem r11f_keeps_Teunn (m : Libm) (s : State) (er fr eb fcb Etb A R : ℚ) : Same (fun t => t.T.Teunn) s (r11f m s er fr eb fcb Etb A R) := by
  unfold r11f
  have h : Same (fun t => t.T.Teunn) s s := same_refl s
  exact
    same_andThen (same_step h rfl) fun _ h =>
    same_andThen (same_step h rfl) fun _ h =>
    same_andThen (same_step h rfl) fun _ h =>
    same_andThen (same_step h rfl) fun _ h =>
    same_andThen (same_step h rfl) fun _ h =>
    same_andThen (same_step h rfl) fun _ h =>
    same_andThen (same_step h (fcEturf_keeps_Teunn ..)) fun _ h =>
    same_andThen (same_step h rfl) fun _ h =>
    same_step h rfl

theorem r13f_keeps_Teunn (s : State) (ed eunn fnewn Enewn : ℚ) : Same (fun t => t.T.Teunn) s (r13f s ed eunn fnewn Enewn) := by
  unfold r13f
  have h : Same (fun t => t.T.Teunn) s s := same_refl s
  exact
    same_andThen (same_step h rfl) fun _ h =>
    same_andThen (same_step h rfl) fun _ h =>
    same_andThen (same_step h rfl) fun _ h =>
    same_andThen (same_step h rfl) fun _ h =>
    same_andThen (same_step h rfl) fun _ h =>
    same_step h rfl

theorem r14f_keeps_Teunn (s : State) (er fr eb : ℚ) : Same (fun t => t.T.Teunn) s (r14f s er fr eb) := by
  unfold r14f
  have h : Same (fun t => t.T.Teunn) s s := same_refl s
  exact
    same_andThen (same_step h rfl) fun _ h =>
    same_andThen (same_step h rfl) fun _ h =>
    same_andThen (same_step h rfl) fun _ h =>
    same_andThen (same_step h rfl) fun _ h =>
    same_andThen (same_step h rfl) fun _ h =>
    same_step h rfl

theorem r15f_keeps_Teunn (m : Libm) (s : State) (er fr ea fca Eta A R : ℚ) : Same (fun t => t.T.Teunn) s (r15f m s er fr ea fca Eta A R) := by
  unfold r15f
  have h : Same (fun t => t.T.Teunn) s s := same_refl s
  exact
    same_andThen (same_step h rfl) fun _ h =>
    same_andThen (same_step h rfl) fun _ h =>
    same_andThen (same_step h rfl) fun _ h =>
    same_andThen (same_step h rfl) fun _ h =>
    same_andThen (same_step h rfl) fun _ h =>
    same_andThen (same_step h rfl) fun _ h =>
    same_andThen (same_step h (fcEturf_keeps_Teunn ..)) fun _ h =>
    same_andThen (same_step h rfl) fun _ h =>
    same_step h rfl

theorem r66f_keeps_Teunn (s : State) (e e0 : ℚ) : Same (fun t => t.T.Teunn) s (r66f s e e0) := by
  unfold r66f
  have h : Same (fun t => t.T.Teunn) s s := same_refl s
  exact
    same_andThen (same_step h rfl) fun _ h =>
    same_step h rfl

theorem r88f_keeps_Teunn (s : State) (e e0 er0p fr0p eunp fnewstp Enewstp esrestp frestp Erestp : ℚ) : Same (fun t => t.T.Teunn) s (r88f s e e0 er0p fr0p eunp fnewstp Enewstp esrestp frestp Erestp) := by
  unfold r88f
  have h : Same (fun t => t.T.Teunn) s s := same_refl s
  exact
    same_andThen (
        same_ite (
            same_andThen (same_step h rfl) fun _ h =>
            same_andThen (same_step h rfl) fun _ h =>
            same_andThen (same_step h rfl) fun _ h =>
            same_andThen (same_step h rfl) fun _ h =>
            same_andThen (same_step h rfl) fun _ h =>
            same_step h rfl
          ) (
            h
          )
      ) fun _ h =>
    same_ite (
        same_andThen (same_step h rfl) fun _ h =>
        same_andThen (same_step h rfl) fun _ h =>
        same_andThen (same_step h rfl) fun _ h =>
        same_andThen (same_step h rfl) fun _ h =>
        same_andThen (same_step h rfl) fun _ h =>
        same_step h rfl
      ) (
        h
      )

theorem r77f_keeps_Teunn (s : State) (e e0 er0n fr0n eunn fnewstn Enewstn esrestn frestn Erestn : ℚ) : Same (fun t => t.T.Teunn) s (r77f s e e0 er0n fr0n eunn fnewstn Enewstn esrestn frestn Erestn) := by
  unfold r77f
  have h : Same (fun t => t.T.Teunn) s s := same_refl s
  exact
    same_andThen (
        same_ite (
            same_andThen (same_step h rfl) fun _ h =>
            same_andThen (same_step h rfl) fun _ h =>
            same_andThen (same_step h rfl) fun _ h =>
            same_andThen (same_step h rfl) fun _ h =>
            same_andThen (same_step h rfl) fun _ h =>
            same_step h rfl
          ) (
            h
          )
      ) fun _ h =>
    same_ite (
        same_andThen (same_step h rfl) fun _ h =>
        same_andThen (same_step h rfl) fun _ h =>
        same_andThen (same_step h rfl) fun _ h =>
        same_andThen (same_step h rfl) fun _ h =>
        same_andThen (same_step h rfl) fun _ h =>
        same_step h rfl
      ) (
        h
      )

theorem ea1112f_keeps_Teunn (s : State) (eb espln esplp eunn eunp : ℚ) : Same (fun t => t.T.Teunn) s (ea1112f s eb espln esplp eunn eunp) := by
  unfold ea1112f
  have h : Same (fun t => t.T.Teunn) s s := same_refl s
  exact
    same_step h rfl

theorem eb1112f_keeps_Teunn (s : State) (ea espln esplp eunn eunp : ℚ) : Same (fun t => t.T.Teunn) s (eb1112f s ea espln esplp eunn eunp) := by
  unfold eb1112f
  have h : Same (fun t => t.T.Teunn) s s := same_refl s
  exact
    same_step h rfl

theorem eb1415f_keeps_Teunn (s : State) (ea fa Esecn : ℚ) : Same (fun t => t.T.Teunn) s (eb1415f s ea fa Esecn) := by
  unfold eb1415f
  have h : Same (fun t => t.T.Teunn) s s := same_refl s
  exact
    same_step h rfl

theorem RAf_keeps_Teunn (m : Libm) (s : State) (esi fi Ei esf ff Ef : ℚ) : Same (fun t => t.T.Teunn) s (RAf m s esi fi Ei esf ff Ef) := by
  unfold RAf
  have h : Same (fun t => t.T.Teunn) s s := same_refl s
  exact
    same_andThen (same_step h rfl) fun _ h =>
    same_ite (
        same_step h rfl
      ) (
        same_andThen (same_step h rfl) fun _ h =>
        same_ite (
            same_step h rfl
          ) (
            h
          )
      )

theorem yf_keeps_Tfunn (m : Libm) (s : State) (x n r : ℚ) : Same (fun t => t.T.Tfunn) s (yf m s x n r) := by
  have h : Same (fun t => t.T.Tfunn) s s := same_refl s
  exact same_step h rfl

theorem zf_keeps_Tfunn (m : Libm) (s : State) (x n r : ℚ) : Same (fun t => t.T.Tfunn) s (zf m s x n r) := by
  have h : Same (fun t => t.T.Tfunn) s s := same_refl s
  exact same_step h rfl

theorem r1f_keeps_Tfunn (m : Libm) (s : State) (x n r : ℚ) : Same (fun t => t.T.Tfunn) s (r1f m s x n r) := by
  unfold r1f
  have h : Same (fun t => t.T.Tfunn) s s := same_refl s
  exact
    same_ite (
        same_andThen (same_step h (yf_keeps_Tfunn ..)) fun _ h =>
        same_andThen (same_step h (zf_keeps_Tfunn ..)) fun _ h =>
        same_andThen (same_step h rfl) fun _ h =>
        same_step h rfl
      ) (
        same_andThen (same_step h (yf_keeps_Tfunn ..)) fun _ h =>
        same_andThen (same_step h (zf_keeps_Tfunn ..)) fun _ h =>
        same_andThen (same_step h rfl) fun _ h =>
        same_step h rfl
      )

theorem r5f_keeps_Tfunn (s : State) (x n r : ℚ) : Same (fun t => t.T.Tfunn) s (r5f s x n r) := by
  unfold r5f
  have h : Same (fun t => t.T.Tfunn) s s := same_refl s
  exact
    same_andThen (same_step h rfl) fun _ h =>
    same_step h rfl

theorem fcEtnf_keeps_Tfunn (m : Libm) (s : State) (e : ℚ) : Same (fun t => t.T.Tfunn) s (fcEtnf m s e) := by
  unfold fcEtnf
  have h : Same (fun t => t.T.Tfunn) s s := same_refl s
  exact
    same_andThen (same_step h rfl) fun _ h =>
    same_andThen (same_step h rfl) fun _ h =>
    same_andThen (same_step h (yf_keeps_Tfunn ..)) fun _ h =>
    same_andThen (same_step h (zf_keeps_Tfunn ..)) fun _ h =>
    same_andThen (same_step h rfl) fun _ h =>
    same_ite (
        same_andThen (same_step h (r1f_keeps_Tfunn ..)) fun _ h =>
        same_step h rfl
      ) (
        same_andThen (same_step h (r5f_keeps_Tfunn ..)) fun _ h =>
        same_step h rfl
      )

theorem r2f_keeps_Tfunn (m : Libm) (s : State) (x n r : ℚ) : Same (fun t => t.T.Tfunn) s (r2f m s x n r) := by
  unfold r2f
  have h : Same (fun t => t.T.Tfunn) s s := same_refl s
  exact
    same_ite (
        same_andThen (same_step h (yf_keeps_Tfunn ..)) fun _ h =>
        same_andThen (same_step h (zf_keeps_Tfunn ..)) fun _ h =>
        same_andThen (same_step h rfl) fun _ h =>
        same_step h rfl
      ) (
        same_andThen (same_step h (yf_keeps_Tfunn ..)) fun _ h =>
        same_andThen (same_step h (zf_keeps_Tfunn ..)) fun _ h =>
        same_andThen (same_step h rfl) fun _ h =>
        same_step h rfl
      )

theorem r6f_keeps_Tfunn (s : State) (x n r : ℚ) : Same (fun t => t.T.Tfunn) s (r6f s x n r) := by
  unfold r6f
  have h : Same (fun t => t.T.Tfunn) s s := same_refl s
  exact
    same_andThen (same_step h rfl) fun _ h =>
    same_step h rfl

theorem fcEtpf_keeps_Tfunn (m : Libm) (s : State) (e e0 : ℚ) : Same (fun t => t.T.Tfunn) s (fcEtpf m s e e0) := by
  unfold fcEtpf
  have h : Same (fun t => t.T.Tfunn) s s := same_refl s
  exact
    same_andThen (same_step h rfl) fun _ h =>
    same_andThen (same_step h rfl) fun _ h =>
    same_andThen (same_step h (yf_keeps_Tfunn ..)) fun _ h =>
    same_andThen (same_step h (zf_keeps_Tfunn ..)) fun _ h =>
    same_andThen (same_step h rfl) fun _ h =>
    same_ite (
        same_andThen (same_step h (r2f_keeps_Tfunn ..)) fun _ h =>
        same_step h rfl
      ) (
        same_andThen (same_step h (r6f_keeps_Tfunn ..)) fun _ h =>
        same_step h rfl
      )

theorem fcEtpr6f_keeps_Tfunn (s : State) (e e0 : ℚ) : Same (fun t => t.T.Tfunn) s (fcEtpr6f s e e0) := by
  unfold fcEtpr6f
  have h : Same (fun t => t.T.Tfunn) s s := same_refl s
  exact
    same_andThen (same_step h rfl) fun _ h =>
    same_andThen (same_step h rfl) fun _ h =>
    same_andThen (same_step h (r6f_keeps_Tfunn ..)) fun _ h =>
    same_step h rfl

theorem Esecnf_keeps_Tfunn (s : State) (eunn funn : ℚ) : Same (fun t => t.T.Tfunn) s (Esecnf s eunn funn) := by
  unfold Esecnf
  have h : Same (fun t => t.T.Tfunn) s s := same_refl s
  exact
    same_step h rfl

theorem esplnf_keeps_Tfunn (s : State) (eunn funn : ℚ) : Same (fun t => t.T.Tfunn) s (esplnf s eunn funn) := by
  unfold esplnf
  have h : Same (fun t => t.T.Tfunn) s s := same_refl s
  exact
    same_andThen (same_step h (Esecnf_keeps_Tfunn ..)) fun _ h =>
    same_step h rfl

theorem Eplnf_keeps_Tfunn (m : Libm) (s : State) (eunn : ℚ) : Same (fun t => t.T.Tfunn) s (Eplnf m s eunn) := by
  unfold Eplnf
  have h : Same (fun t => t.T.Tfunn) s s := same_refl s
  exact
    same_step h rfl

theorem delenf_keeps_Tfunn (s : State) (eunn : ℚ) : Same (fun t => t.T.Tfunn) s (delenf s eunn) := by
  unfold delenf
  have h : Same (fun t => t.T.Tfunn) s s := same_refl s
  exact
    same_step h rfl

theorem delfnf_keeps_Tfunn (m : Libm) (s : State) (eunn funn : ℚ) : Same (fun t => t.T.Tfunn) s (delfnf m s eunn funn) := by
  unfold delfnf
  have h : Same (fun t => t.T.Tfunn) s s := same_refl s
  exact
    same_ite (
        same_step h rfl
      ) (
        same_step h rfl
      )

theorem fnewnf_keeps_Tfunn (m : Libm) (s : State) (eunn funn : ℚ) : Same (fun t => t.T.Tfunn) s (fnewnf m s eunn funn) := by
  unfold fnewnf
  have h : Same (fun t => t.T.Tfunn) s s := same_refl s
  exact
    same_andThen (same_step h (delfnf_keeps_Tfunn ..)) fun _ h =>
    same_step h rfl

theorem Enewnf_keeps_Tfunn (m : Libm) (s : State) (eunn funn : ℚ) : Same (fun t => t.T.Tfunn) s (Enewnf m s eunn funn) := by
  unfold Enewnf
  have h : Same (fun t => t.T.Tfunn) s s := same_refl s
  exact
    same_andThen (same_step h (fnewnf_keeps_Tfunn ..)) fun _ h =>
    same_andThen (same_step h (esplnf_keeps_Tfunn ..)) fun _ h =>
    same_andThen (same_step h rfl) fun _ h =>
    same_ite (
        same_step h rfl
      ) (
        h
      )

theorem esrenf_keeps_Tfunn (s : State) (eunn : ℚ) : Same (fun t => t.T.Tfunn) s (esrenf s eunn) := by
  unfold esrenf
  have h : Same (fun t => t.T.Tfunn) s s := same_refl s
  exact
    same_andThen (same_step h (delenf_keeps_Tfunn ..)) fun _ h =>
    same_step h rfl

theorem freErenf_keeps_Tfunn (m : Libm) (s : State) (eunn : ℚ) : Same (fun t => t.T.Tfunn) s (freErenf m s eunn) := by
  unfold freErenf
  have h : Same (fun t => t.T.Tfunn) s s := same_refl s
  exact
    same_andThen (same_step h (esrenf_keeps_Tfunn ..)) fun _ h =>
    same_andThen (same_step h rfl) fun _ h =>
    same_andThen (same_step h rfl) fun _ h =>
    same_andThen (same_step h (yf_keeps_Tfunn ..)) fun _ h =>
    same_andThen (same_step h (zf_keeps_Tfunn ..)) fun _ h =>
    same_andThen (same_step h rfl) fun _ h =>
    same_ite (
        same_ite (
            same_andThen (same_step h (yf_keeps_Tfunn ..)) fun _ h =>
            same_andThen (same_step h (zf_keeps_Tfunn ..)) fun _ h =>
            same_andThen (same_step h rfl) fun _ h =>
            same_step h rfl
          ) (
            same_andThen (same_step h (yf_keeps_Tfunn ..)) fun _ h =>
            same_andThen (same_step h (zf_keeps_Tfunn ..)) fun _ h =>
            same_andThen (same_step h rfl) fun _ h =>
            same_step h rfl
          )
      ) (
        same_andThen (same_step h rfl) fun _ h =>
        same_step h rfl
      )

theorem fnewstnf_keeps_Tfunn (s : State) (funn delfn eunn er0n espln : ℚ) : Same (fun t => t.T.Tfunn) s (fnewstnf s funn delfn eunn er0n espln) := by
  unfold fnewstnf
  have h : Same (fun t => t.T.Tfunn) s s := same_refl s
  exact
    same_step h rfl

theorem Enewstnf_keeps_Tfunn (s : State) (fnewstn fr0n eunn er0n : ℚ) : Same (fun t => t.T.Tfunn) s (Enewstnf s fnewstn fr0n eunn er0n) := by
  unfold Enewstnf
  have h : Same (fun t => t.T.Tfunn) s s := same_refl s
  exact
    same_step h rfl

theorem esrestnf_keeps_Tfunn (s : State) (eunn delen er0n espln : ℚ) : Same (fun t => t.T.Tfunn) s (esrestnf s eunn delen er0n espln) := by
  unfold esrestnf
  have h : Same (fun t => t.T.Tfunn) s s := same_refl s
  exact
    same_step h rfl

theorem freErestnf_keeps_Tfunn (m : Libm) (s : State) (eunn funn er0n : ℚ) : Same (fun t => t.T.Tfunn) s (freErestnf m s eunn funn er0n) := by
  unfold freErestnf
  have h : Same (fun t => t.T.Tfunn) s s := same_refl s
  exact
    same_andThen (same_step h (delenf_keeps_Tfunn ..)) fun _ h =>
    same_andThen (same_step h (esplnf_keeps_Tfunn ..)) fun _ h =>
    same_andThen (same_step h (esrestnf_keeps_Tfunn ..)) fun _ h =>
    same_andThen (same_step h rfl) fun _ h =>
    same_andThen (same_step h rfl) fun _ h =>
    same_andThen (same_step h (yf_keeps_Tfunn ..)) fun _ h =>
    same_andThen (same_step h (zf_keeps_Tfunn ..)) fun _ h =>
    same_andThen (same_step h rfl) fun _ h =>
    same_ite (
        same_ite (
            same_andThen (same_step h (yf_keeps_Tfunn ..)) fun _ h =>
            same_andThen (same_step h (zf_keeps_Tfunn ..)) fun _ h =>
            same_andThen (same_step h rfl) fun _ h =>
            same_step h rfl
          ) (
            same_andThen (same_step h (yf_keeps_Tfunn ..)) fun _ h =>
            same_andThen (same_step h (zf_keeps_Tfunn ..)) fun _ h =>
            same_andThen (same_step h rfl) fun _ h =>
            same_step h rfl
          )
      ) (
        same_andThen (same_step h rfl) fun _ h =>
        same_step h rfl
      )

theorem Esecpf_keeps_Tfunn (s : State) (e0 eunp funp espln : ℚ) : Same (fun t => t.T.Tfunn) s (Esecpf s e0 eunp funp espln) := by
  unfold Esecpf
  have h : Same (fun t => t.T.Tfunn) s s := same_refl s
  exact
    same_andThen (same_step h rfl) fun _ h =>
    same_ite (
        same_step h rfl
      ) (
        h
      )

theorem esplpf_keeps_Tfunn (s : State) (eunp funp e0 espln : ℚ) : Same (fun t => t.T.Tfunn) s (esplpf s eunp funp e0 espln) := by
  unfold esplpf
  have h : Same (fun t => t.T.Tfunn) s s := same_refl s
  exact
    same_andThen (same_step h (Esecpf_keeps_Tfunn ..)) fun _ h =>
    same_step h rfl

theorem Eplpf_keeps_Tfunn (m : Libm) (s : State) (e0 eunp : ℚ) : Same (fun t => t.T.Tfunn) s (Eplpf m s e0 eunp) := by
  unfold Eplpf
  have h : Same (fun t => t.T.Tfunn) s s := same_refl s
  exact
    same_ite (
        same_step h rfl
      ) (
        same_step h rfl
      )

theorem delepf_keeps_Tfunn (s : State) (eunp e0 : ℚ) : Same (fun t => t.T.Tfunn) s (delepf s eunp e0) := by
  unfold delepf
  have h : Same (fun t => t.T.Tfunn) s s := same_refl s
  exact
    same_step h rfl

theorem delfpf_keeps_Tfunn (s : State) (funp eunp e0 : ℚ) : Same (fun t => t.T.Tfunn) s (delfpf s funp eunp e0) := by
  unfold delfpf
  have h : Same (fun t => t.T.Tfunn) s s := same_refl s
  exact
    same_ite (
        same_step h rfl
      ) (
        same_step h rfl
      )

theorem fnewpf_keeps_Tfunn (s : State) (funp eunp e0 : ℚ) : Same (fun t => t.T.Tfunn) s (fnewpf s funp eunp e0) := by
  unfold fnewpf
  have h : Same (fun t => t.T.Tfunn) s s := same_refl s
  exact
    same_andThen (same_step h (delfpf_keeps_Tfunn ..)) fun _ h =>
    same_step h rfl

theorem Enewpf_keeps_Tfunn (s : State) (eunp funp e0 espln : ℚ) : Same (fun t => t.T.Tfunn) s (Enewpf s eunp funp e0 espln) := by
  unfold Enewpf
  have h : Same (fun t => t.T.Tfunn) s s := same_refl s
  exact
    same_andThen (same_step h (fnewpf_keeps_Tfunn ..)) fun _ h =>
    same_andThen (same_step h (esplpf_keeps_Tfunn ..)) fun _ h =>
    same_andThen (same_step h rfl) fun _ h =>
    same_ite (
        same_step h rfl
      ) (
        h
      )

theorem esrepf_keeps_Tfunn (s : State) (eunp e0 : ℚ) : Same (fun t => t.T.Tfunn) s (esrepf s eunp e0) := by
  unfold esrepf
  have h : Same (fun t => t.T.Tfunn) s s := same_refl s
  exact
    same_andThen (same_step h (delepf_keeps_Tfunn ..)) fun _ h =>
    same_step h rfl

theorem freErepf_keeps_Tfunn (m : Libm) (s : State) (eunp e0 : ℚ) : Same (fun t => t.T.Tfunn) s (freErepf m s eunp e0) := by
  unfold freErepf
  have h : Same (fun t => t.T.Tfunn) s s := same_refl s
  exact
    same_andThen (same_step h (esrepf_keeps_Tfunn ..)) fun _ h =>
    same_andThen (same_step h rfl) fun _ h =>
    same_andThen (same_step h rfl) fun _ h =>
    same_andThen (same_step h (yf_keeps_Tfunn ..)) fun _ h =>
    same_andThen (same_step h (zf_keeps_Tfunn ..)) fun _ h =>
    same_andThen (same_step h rfl) fun _ h =>
    same_ite (
        same_ite (
            same_andThen (same_step h (yf_keeps_Tfunn ..)) fun _ h =>
            same_andThen (same_step h (zf_keeps_Tfunn ..)) fun _ h =>
            same_andThen (same_step h rfl) fun _ h =>
            same_step h rfl
          ) (
            same_andThen (same_step h (yf_keeps_Tfunn ..)) fun _ h =>
            same_andThen (same_step h (zf_keeps_Tfunn ..)) fun _ h =>
            same_andThen (same_step h rfl) fun _ h =>
            same_step h rfl
          )
      ) (
        same_andThen (same_step h rfl) fun _ h =>
        same_step h rfl
      )

theorem fnewstpf_keeps_Tfunn (s : State) (funp delfp eunp er0p esplp e0 : ℚ) : Same (fun t => t.T.Tfunn) s (fnewstpf s funp delfp eunp er0p esplp e0) := by
  unfold fnewstpf
  have h : Same (fun t => t.T.Tfunn) s s := same_refl s
  exact
    same_step h rfl

theorem Enewstpf_keeps_Tfunn (s : State) (fnewstp fr0p eunp er0p : ℚ) : Same (fun t => t.T.Tfunn) s (Enewstpf s fnewstp fr0p eunp er0p) := by
  unfold Enewstpf
  have h : Same (fun t => t.T.Tfunn) s s := same_refl s
  exact
    same_step h rfl

theorem esrestpf_keeps_Tfunn (s : State) (eunp delep er0p esplp : ℚ) : Same (fun t => t.T.Tfunn) s (esrestpf s eunp delep er0p esplp) := by
  unfold esrestpf
  have h : Same (fun t => t.T.Tfunn) s s := same_refl s
  exact
    same_step h rfl

theorem freErestpf_keeps_Tfunn (m : Libm) (s : State) (eunp funp er0p e0 espln : ℚ) : Same (fun t => t.T.Tfunn) s (freErestpf m s eunp funp er0p e0 espln) := by
  unfold freErestpf
  have h : Same (fun t => t.T.Tfunn) s s := same_refl s
  exact
    same_andThen (same_step h (delepf_keeps_Tfunn ..)) fun _ h =>
    same_andThen (same_step h (esplpf_keeps_Tfunn ..)) fun _ h =>
    same_andThen (same_step h (esrestpf_keeps_Tfunn ..)) fun _ h =>
    same_andThen (same_step h rfl) fun _ h =>
    same_andThen (same_step h rfl) fun _ h =>
    same_andThen (same_step h (yf_keeps_Tfunn ..)) fun _ h =>
    same_andThen (same_step h (zf_keeps_Tfunn ..)) fun _ h =>
    same_andThen (same_step h rfl) fun _ h =>
    same_ite (
        same_ite (
            same_andThen (same_step h (yf_keeps_Tfunn ..)) fun _ h =>
            same_andThen (same_step h (zf_keeps_Tfunn ..)) fun _ h =>
            same_andThen (same_step h rfl) fun _ h =>
            same_step h rfl
          ) (
            same_andThen (same_step h (yf_keeps_Tfunn ..)) fun _ h =>
            same_andThen (same_step h (zf_keeps_Tfunn ..)) fun _ h =>
            same_andThen (same_step h rfl) fun _ h =>
            same_step h rfl
          )
      ) (
        same_andThen (same_step h rfl) fun _ h =>
        same_step h rfl
      )

theorem e0eunpfunpf_keeps_Tfunn (m : Libm) (s : State) (e0 eunp funp eunn funn : ℚ) :
    Same (fun t => t.T.Tfunn) s (e0eunpfunpf m s e0 eunp funp eunn funn) := by
  unfold e0eunpfunpf
  have h : Same (fun t => t.T.Tfunn) s s := same_refl s
  exact
    same_andThen (
      same_ite (same_step h (fcEtpf_keeps_Tfunn ..)) h
      ) fun _ h =>
    same_andThen (same_step h (esplnf_keeps_Tfunn ..)) fun _ h =>
    same_andThen (same_step h (Eplnf_keeps_Tfunn ..)) fun _ h =>
    same_andThen (same_step h (Esecpf_keeps_Tfunn ..)) fun _ h =>
    same_andThen (same_step h rfl) fun _ h =>
    same_andThen (same_step h rfl) fun _ h =>
    same_andThen (same_step h (fcEtpf_keeps_Tfunn ..)) fun _ h =>
    same_step h rfl

theorem r3f_keeps_Tfunn (s : State) (eunn funn espln Epln : ℚ) : Same (fun t => t.T.Tfunn) s (r3f s eunn funn espln Epln) := by
  unfold r3f
  have h : Same (fun t => t.T.Tfunn) s s := same_refl s
  exact
    same_andThen (same_step h rfl) fun _ h =>
    same_andThen (same_step h rfl) fun _ h =>
    same_andThen (same_step h rfl) fun _ h =>
    same_andThen (same_step h rfl) fun _ h =>
    same_andThen (same_step h rfl) fun _ h =>
    same_step h rfl

theorem r9f_keeps_Tfunn (s : State) (espln Epln eunp fnewp Enewp : ℚ) : Same (fun t => t.T.Tfunn) s (r9f s espln Epln eunp fnewp Enewp) := by
  unfold r9f
  have h : Same (fun t => t.T.Tfunn) s s := same_refl s
  exact
    same_andThen (same_step h rfl) fun _ h =>
    same_andThen (same_step h rfl) fun _ h =>
    same_andThen (same_step h rfl) fun _ h =>
    same_andThen (same_step h rfl) fun _ h =>
    same_andThen (same_step h rfl) fun _ h =>
    same_step h rfl

theorem r8f_keeps_Tfunn (s : State) (eunp fnewp Enewp esrep frep Erep : ℚ) : Same (fun t => t.T.Tfunn) s (r8f s eunp fnewp Enewp esrep frep Erep) := by
  unfold r8f
  have h : Same (fun t => t.T.Tfunn) s s := same_refl s
  exact
    same_andThen (same_step h rfl) fun _ h =>
    same_andThen (same_step h rfl) fun _ h =>
    same_andThen (same_step h rfl) fun _ h =>
    same_andThen (same_step h rfl) fun _ h =>
    same_andThen (same_step h rfl) fun _ h =>
    same_step h rfl

theorem r4f_keeps_Tfunn (s : State) (eunp funp esplp Eplp : ℚ) : Same (fun t => t.T.Tfunn) s (r4f s eunp funp esplp Eplp) := by
  unfold r4f
  have h : Same (fun t => t.T.Tfunn) s s := same_refl s
  exact
    same_andThen (same_step h rfl) fun _ h =>
    same_andThen (same_step h rfl) fun _ h =>
    same_andThen (same_step h rfl) fun _ h =>
    same_andThen (same_step h rfl) fun _ h =>
    same_andThen (same_step h rfl) fun _ h =>
    same_step h rfl

theorem r10f_keeps_Tfunn (s : State) (esplp Eplp eunn fnewn Enewn : ℚ) : Same (fun t => t.T.Tfunn) s (r10f s esplp Eplp eunn fnewn Enewn) := by
  unfold r10f
  have h : Same (fun t => t.T.Tfunn) s s := same_refl s
  exact
    same_andThen (same_step h rfl) fun _ h =>
    same_andThen (same_step h rfl) fun _ h =>
    same_andThen (same_step h rfl) fun _ h =>
    same_andThen (same_step h rfl) fun _ h =>
    same_andThen (same_step h rfl) fun _ h =>
    same_step h rfl

theorem r7f_keeps_Tfunn (s : State) (eunn fnewn Enewn esren fren Eren : ℚ) : Same (fun t => t.T.Tfunn) s (r7f s eunn fnewn Enewn esren fren Eren) := by
  unfold r7f
  have h : Same (fun t => t.T.Tfunn) s s := same_refl s
  exact
    same_andThen (same_step h rfl) fun _ h =>
    same_andThen (same_step h rfl) fun _ h =>
    same_andThen (same_step h rfl) fun _ h =>
    same_andThen (same_step h rfl) fun _ h =>
    same_andThen (same_step h rfl) fun _ h =>
    same_step h rfl

theorem fcEturf_keeps_Tfunn (m : Libm) (s : State) (es esi fi esf ff Ei Ef A R : ℚ) : Same (fun t => t.T.Tfunn) s (fcEturf m s es esi fi esf ff Ei Ef A R) := by
  unfold fcEturf
  have h : Same (fun t => t.T.Tfunn) s s := same_refl s
  exact
    same_ite (
        same_andThen (same_step h rfl) fun _ h =>
        same_step h rfl
      ) (
        same_ite (
            same_andThen (same_step h rfl) fun _ h =>
            same_step h rfl
          ) (
            same_ite (
                same_andThen (same_step h rfl) fun _ h =>
                same_step h rfl
              ) (
                same_ite (
                    same_andThen (same_step h rfl) fun _ h =>
                    same_step h rfl
                  ) (
                    same_andThen (same_step h rfl) fun _ h =>
                    same_andThen (same_step h rfl) fun _ h =>
                    same_ite (
                        same_andThen (same_step h rfl) fun _ h =>
                        same_step h rfl
                      ) (
                        h
                      )
                  )
              )
          )
      )

theorem r12f_keeps_Tfunn (m : Libm) (s : State) (er fr ea fca Eta A R : ℚ) : Same (fun t => t.T.Tfunn) s (r12f m s er fr ea fca Eta A R) := by
  unfold r12f
  have h : Same (fun t => t.T.Tfunn) s s := same_refl s
  exact
    same_andThen (same_step h rfl) fun _ h =>
    same_andThen (same_step h rfl) fun _ h =>
    same_andThen (same_step h rfl) fun _ h =>
    same_andThen (same_step h rfl) fun _ h =>
    same_andThen (same_step h rfl) fun _ h =>
    same_andThen (same_step h rfl) fun _ h =>
    same_andThen (same_step h (fcEturf_keeps_Tfunn ..)) fun _ h =>
    same_andThen (same_step h rfl) fun _ h =>
    same_step h rfl

theorem r11f_keeps_Tfunn (m : Libm) (s : State) (er fr eb fcb Etb A R : ℚ) : Same (fun t => t.T.Tfunn) s (r11f m s er fr eb fcb Etb A R) := by
  unfold r11f
  have h : Same (fun t => t.T.Tfunn) s s := same_refl s
  exact
    same_andThen (same_step h rfl) fun _ h =>
    same_andThen (same_step h rfl) fun _ h =>
    same_andThen (same_step h rfl) fun _ h =>
    same_andThen (same_step h rfl) fun _ h =>
    same_andThen (same_step h rfl) fun _ h =>
    same_andThen (same_step h rfl) fun _ h =>
    same_andThen (same_step h (fcEturf_keeps_Tfunn ..)) fun _ h =>
    same_andThen (same_step h rfl) fun _ h =>
    same_step h rfl

theorem r13f_keeps_Tfunn (s : State) (ed eunn fnewn Enewn : ℚ) : Same (fun t => t.T.Tfunn) s (r13f s ed eunn fnewn Enewn) := by
  unfold r13f
  have h : Same (fun t => t.T.Tfunn) s s := same_refl s
  exact
    same_andThen (same_step h rfl) fun _ h =>
    same_andThen (same_step h rfl) fun _ h =>
    same_andThen (same_step h rfl) fun _ h =>
    same_andThen (same_step h rfl) fun _ h =>
    same_andThen (same_step h rfl) fun _ h =>
    same_step h rfl

theorem r14f_keeps_Tfunn (s : State) (er fr eb : ℚ) : Same (fun t => t.T.Tfunn) s (r14f s er fr eb) := by
  unfold r14f
  have h : Same (fun t => t.T.Tfunn) s s := same_refl s
  exact
    same_andThen (same_step h rfl) fun _ h =>
    same_andThen (same_step h rfl) fun _ h =>
    same_andThen (same_step h rfl) fun _ h =>
    same_andThen (same_step h rfl) fun _ h =>
    same_andThen (same_step h rfl) fun _ h =>
    same_step h rfl

theorem r15f_keeps_Tfunn (m : Libm) (s : State) (er fr ea fca Eta A R : ℚ) : Same (fun t => t.T.Tfunn) s (r15f m s er fr ea fca Eta A R) := by
  unfold r15f
  have h : Same (fun t => t.T.Tfunn) s s := same_refl s
  exact
    same_andThen (same_step h rfl) fun _ h =>
    same_andThen (same_step h rfl) fun _ h =>
    same_andThen (same_step h rfl) fun _ h =>
    same_andThen (same_step h rfl) fun _ h =>
    same_andThen (same_step h rfl) fun _ h =>
    same_andThen (same_step h rfl) fun _ h =>
    same_andThen (same_step h (fcEturf_keeps_Tfunn ..)) fun _ h =>
    same_andThen (same_step h rfl) fun _ h =>
    same_step h rfl

theorem r66f_keeps_Tfunn (s : State) (e e0 : ℚ) : Same (fun t => t.T.Tfunn) s (r66f s e e0) := by
  unfold r66f
  have h : Same (fun t => t.T.Tfunn) s s := same_refl s
  exact
    same_andThen (same_step h rfl) fun _ h =>
    same_step h rfl

theorem r88f_keeps_Tfunn (s : State) (e e0 er0p fr0p eunp fnewstp Enewstp esrestp frestp Erestp : ℚ) : Same (fun t => t.T.Tfunn) s (r88f s e e0 er0p fr0p eunp fnewstp Enewstp esrestp frestp Erestp) := by
  unfold r88f
  have h : Same (fun t => t.T.Tfunn) s s := same_refl s
  exact
    same_andThen (
        same_ite (
            same_andThen (same_step h rfl) fun _ h =>
            same_andThen (same_step h rfl) fun _ h =>
            same_andThen (same_step h rfl) fun _ h =>
            same_andThen (same_step h rfl) fun _ h =>
            same_andThen (same_step h rfl) fun _ h =>
            same_step h rfl
          ) (
            h
          )
      ) fun _ h =>
    same_ite (
        same_andThen (same_step h rfl) fun _ h =>
        same_andThen (same_step h rfl) fun _ h =>
        same_andThen (same_step h rfl) fun _ h =>
        same_andThen (same_step h rfl) fun _ h =>
        same_andThen (same_step h rfl) fun _ h =>
        same_step h rfl
      ) (
        h
      )

theorem r77f_keeps_Tfunn (s : State) (e e0 er0n fr0n eunn fnewstn Enewstn esrestn frestn Erestn : ℚ) : Same (fun t => t.T.Tfunn) s (r77f s e e0 er0n fr0n eunn fnewstn Enewstn esrestn frestn Erestn) := by
  unfold r77f
  have h : Same (fun t => t.T.Tfunn) s s := same_refl s
  exact
    same_andThen (
        same_ite (
            same_andThen (same_step h rfl) fun _ h =>
            same_andThen (same_step h rfl) fun _ h =>
            same_andThen (same_step h rfl) fun _ h =>
            same_andThen (same_step h rfl) fun _ h =>
            same_andThen (same_step h rfl) fun _ h =>
            same_step h rfl
          ) (
            h
          )
      ) fun _ h =>
    same_ite (
        same_andThen (same_step h rfl) fun _ h =>
        same_andThen (same_step h rfl) fun _ h =>
        same_andThen (same_step h rfl) fun _ h =>
        same_andThen (same_step h rfl) fun _ h =>
        same_andThen (same_step h rfl) fun _ h =>
        same_step h rfl
      ) (
        h
      )

theorem ea1112f_keeps_Tfunn (s : State) (eb espln esplp eunn eunp : ℚ) : Same (fun t => t.T.Tfunn) s (ea1112f s eb espln esplp eunn eunp) := by
  unfold ea1112f
  have h : Same (fun t => t.T.Tfunn) s s := same_refl s
  exact
    same_step h rfl

theorem eb1112f_keeps_Tfunn (s : State) (ea espln esplp eunn eunp : ℚ) : Same (fun t => t.T.Tfunn) s (eb1112f s ea espln esplp eunn eunp) := by
  unfold eb1112f
  have h : Same (fun t => t.T.Tfunn) s s := same_refl s
  exact
    same_step h rfl

theorem eb1415f_keeps_Tfunn (s : State) (ea fa Esecn : ℚ) : Same (fun t => t.T.Tfunn) s (eb1415f s ea fa Esecn) := by
  unfold eb1415f
  have h : Same (fun t => t.T.Tfunn) s s := same_refl s
  exact
    same_step h rfl

theorem RAf_keeps_Tfunn (m : Libm) (s : State) (esi fi Ei esf ff Ef : ℚ) : Same (fun t => t.T.Tfunn) s (RAf m s esi fi Ei esf ff Ef) := by
  unfold RAf
  have h : Same (fun t => t.T.Tfunn) s s := same_refl s
  exact
    same_andThen (same_step h rfl) fun _ h =>
    same_ite (
        same_step h rfl
      ) (
        same_andThen (same_step h rfl) fun _ h =>
        same_ite (
            same_step h rfl
          ) (
            h
          )
      )

theorem yf_keeps_Tinc (m : Libm) (s : State) (x n r : ℚ) : Same (fun t => t.T.Tinc) s (yf m s x n r) := by
  have h : Same (fun t => t.T.Tinc) s s := same_refl s
  exact same_step h rfl

theorem zf_keeps_Tinc (m : Libm) (s : State) (x n r : ℚ) : Same (fun t => t.T.Tinc) s (zf m s x n r) := by
  have h : Same (fun t => t.T.Tinc) s s := same_refl s
  exact same_step h rfl

theorem r1f_keeps_Tinc (m : Libm) (s : State) (x n r : ℚ) : Same (fun t => t.T.Tinc) s (r1f m s x n r) := by
  unfold r1f
  have h : Same (fun t => t.T.Tinc) s s := same_refl s
  exact
    same_ite (
        same_andThen (same_step h (yf_keeps_Tinc ..)) fun _ h =>
        same_andThen (same_step h (zf_keeps_Tinc ..)) fun _ h =>
        same_andThen (same_step h rfl) fun _ h =>
        same_step h rfl
      ) (
        same_andThen (same_step h (yf_keeps_Tinc ..)) fun _ h =>
        same_andThen (same_step h (zf_keeps_Tinc ..)) fun _ h =>
        same_andThen (same_step h rfl) fun _ h =>
        same_step h rfl
      )

theorem r5f_keeps_Tinc (s : State) (x n r : ℚ) : Same (fun t => t.T.Tinc) s (r5f s x n r) := by
  unfold r5f
  have h : Same (fun t => t.T.Tinc) s s := same_refl s
  exact
    same_andThen (same_step h rfl) fun _ h =>
    same_step h rfl

theorem fcEtnf_keeps_Tinc (m : Libm) (s : State) (e : ℚ) : Same (fun t => t.T.Tinc) s (fcEtnf m s e) := by
  unfold fcEtnf
  have h : Same (fun t => t.T.Tinc) s s := same_refl s
  exact
    same_andThen (same_step h rfl) fun _ h =>
    same_andThen (same_step h rfl) fun _ h =>
    same_andThen (same_step h (yf_keeps_Tinc ..)) fun _ h =>
    same_andThen (same_step h (zf_keeps_Tinc ..)) fun _ h =>
    same_andThen (same_step h rfl) fun _ h =>
    same_ite (
        same_andThen (same_step h (r1f_keeps_Tinc ..)) fun _ h =>
        same_step h rfl
      ) (
        same_andThen (same_step h (r5f_keeps_Tinc ..)) fun _ h =>
        same_step h rfl
      )

theorem r2f_keeps_Tinc (m : Libm) (s : State) (x n r : ℚ) : Same (fun t => t.T.Tinc) s (r2f m s x n r) := by
  unfold r2f
  have h : Same (fun t => t.T.Tinc) s s := same_refl s
  exact
    same_ite (
        same_andThen (same_step h (yf_keeps_Tinc ..)) fun _ h =>
        same_andThen (same_step h (zf_keeps_Tinc ..)) fun _ h =>
        same_andThen (same_step h rfl) fun _ h =>
        same_step h rfl
      ) (
        same_andThen (same_step h (yf_keeps_Tinc ..)) fun _ h =>
        same_andThen (same_step h (zf_keeps_Tinc ..)) fun _ h =>
        same_andThen (same_step h rfl) fun _ h =>
        same_step h rfl
      )

theorem r6f_keeps_Tinc (s : State) (x n r : ℚ) : Same (fun t => t.T.Tinc) s (r6f s x n r) := by
  unfold r6f
  have h : Same (fun t => t.T.Tinc) s s := same_refl s
  exact
    same_andThen (same_step h rfl) fun _ h =>
    same_step h rfl

theorem fcEtpf_keeps_Tinc (m : Libm) (s : State) (e e0 : ℚ) : Same (fun t => t.T.Tinc) s (fcEtpf m s e e0) := by
  unfold fcEtpf
  have h : Same (fun t => t.T.Tinc) s s := same_refl s
  exact
    same_andThen (same_step h rfl) fun _ h =>
    same_andThen (same_step h rfl) fun _ h =>
    same_andThen (same_step h (yf_keeps_Tinc ..)) fun _ h =>
    same_andThen (same_step h (zf_keeps_Tinc ..)) fun _ h =>
    same_andThen (same_step h rfl) fun _ h =>
    same_ite (
        same_andThen (same_step h (r2f_keeps_Tinc ..)) fun _ h =>
        same_step h rfl
      ) (
        same_andThen (same_step h (r6f_keeps_Tinc ..)) fun _ h =>
        same_step h rfl
      )

theorem fcEtpr6f_keeps_Tinc (s : State) (e e0 : ℚ) : Same (fun t => t.T.Tinc) s (fcEtpr6f s e e0) := by
  unfold fcEtpr6f
  have h : Same (fun t => t.T.Tinc) s s := same_refl s
  exact
    same_andThen (same_step h rfl) fun _ h =>
    same_andThen (same_step h rfl) fun _ h =>
    same_andThen (same_step h (r6f_keeps_Tinc ..)) fun _ h =>
    same_step h rfl

theorem Esecnf_keeps_Tinc (s : State) (eunn funn : ℚ) : Same (fun t => t.T.Tinc) s (Esecnf s eunn funn) := by
  unfold Esecnf
  have h : Same (fun t => t.T.Tinc) s s := same_refl s
  exact
    same_step h rfl

theorem esplnf_keeps_Tinc (s : State) (eunn funn : ℚ) : Same (fun t => t.T.Tinc) s (esplnf s eunn funn) := by
  unfold esplnf
  have h : Same (fun t => t.T.Tinc) s s := same_refl s
  exact
    same_andThen (same_step h (Esecnf_keeps_Tinc ..)) fun _ h =>
    same_step h rfl

theorem Eplnf_keeps_Tinc (m : Libm) (s : State) (eunn : ℚ) : Same (fun t => t.T.Tinc) s (Eplnf m s eunn) := by
  unfold Eplnf
  have h : Same (fun t => t.T.Tinc) s s := same_refl s
  exact
    same_step h rfl

theorem delenf_keeps_Tinc (s : State) (eunn : ℚ) : Same (fun t => t.T.Tinc) s (delenf s eunn) := by
  unfold delenf
  have h : Same (fun t => t.T.Tinc) s s := same_refl s
  exact
    same_step h rfl

theorem delfnf_keeps_Tinc (m : Libm) (s : State) (eunn funn : ℚ) : Same (fun t => t.T.Tinc) s (delfnf m s eunn funn) := by
  unfold delfnf
  have h : Same (fun t => t.T.Tinc) s s := same_refl s
  exact
    same_ite (
        same_step h rfl
      ) (
        same_step h rfl
      )

theorem fnewnf_keeps_Tinc (m : Libm) (s : State) (eunn funn : ℚ) : Same (fun t => t.T.Tinc) s (fnewnf m s eunn funn) := by
  unfold fnewnf
  have h : Same (fun t => t.T.Tinc) s s := same_refl s
  exact
    same_andThen (same_step h (delfnf_keeps_Tinc ..)) fun _ h =>
    same_step h rfl

theorem Enewnf_keeps_Tinc (m : Libm) (s : State) (eunn funn : ℚ) : Same (fun t => t.T.Tinc) s (Enewnf m s eunn funn) := by
  unfold Enewnf
  have h : Same (fun t => t.T.Tinc) s s := same_refl s
  exact
    same_andThen (same_step h (fnewnf_keeps_Tinc ..)) fun _ h =>
    same_andThen (same_step h (esplnf_keeps_Tinc ..)) fun _ h =>
    same_andThen (same_step h rfl) fun _ h =>
    same_ite (
        same_step h rfl
      ) (
        h
      )

theorem esrenf_keeps_Tinc (s : State) (eunn : ℚ) : Same (fun t => t.T.Tinc) s (esrenf s eunn) := by
  unfold esrenf
  have h : Same (fun t => t.T.Tinc) s s := same_refl s
  exact
    same_andThen (same_step h (delenf_keeps_Tinc ..)) fun _ h =>
    same_step h rfl

theorem freErenf_keeps_Tinc (m : Libm) (s : State) (eunn : ℚ) : Same (fun t => t.T.Tinc) s (freErenf m s eunn) := by
  unfold freErenf
  have h : Same (fun t => t.T.Tinc) s s := same_refl s
  exact
    same_andThen (same_step h (esrenf_keeps_Tinc ..)) fun _ h =>
    same_andThen (same_step h rfl) fun _ h =>
    same_andThen (same_step h rfl) fun _ h =>
    same_andThen (same_step h (yf_keeps_Tinc ..)) fun _ h =>
    same_andThen (same_step h (zf_keeps_Tinc ..)) fun _ h =>
    same_andThen (same_step h rfl) fun _ h =>
    same_ite (
        same_ite (
            same_andThen (same_step h (yf_keeps_Tinc ..)) fun _ h =>
            same_andThen (same_step h (zf_keeps_Tinc ..)) fun _ h =>
            same_andThen (same_step h rfl) fun _ h =>
            same_step h rfl
          ) (
            same_andThen (same_step h (yf_keeps_Tinc ..)) fun _ h =>
            same_andThen (same_step h (zf_keeps_Tinc ..)) fun _ h =>
            same_andThen (same_step h rfl) fun _ h =>
            same_step h rfl
          )
      ) (
        same_andThen (same_step h rfl) fun _ h =>
        same_step h rfl
      )

theorem fnewstnf_keeps_Tinc (s : State) (funn delfn eunn er0n espln : ℚ) : Same (fun t => t.T.Tinc) s (fnewstnf s funn delfn eunn er0n espln) := by
  unfold fnewstnf
  have h : Same (fun t => t.T.Tinc) s s := same_refl s
  exact
    same_step h rfl

theorem Enewstnf_keeps_Tinc (s : State) (fnewstn fr0n eunn er0n : ℚ) : Same (fun t => t.T.Tinc) s (Enewstnf s fnewstn fr0n eunn er0n) := by
  unfold Enewstnf
  have h : Same (fun t => t.T.Tinc) s s := same_refl s
  exact
    same_step h rfl

theorem esrestnf_keeps_Tinc (s : State) (eunn delen er0n espln : ℚ) : Same (fun t => t.T.Tinc) s (esrestnf s eunn delen er0n espln) := by
  unfold esrestnf
  have h : Same (fun t => t.T.Tinc) s s := same_refl s
  exact
    same_step h rfl

theorem freErestnf_keeps_Tinc (m : Libm) (s : State) (eunn funn er0n : ℚ) : Same (fun t => t.T.Tinc) s (freErestnf m s eunn funn er0n) := by
  unfold freErestnf
  have h : Same (fun t => t.T.Tinc) s s := same_refl s
  exact
    same_andThen (same_step h (delenf_keeps_Tinc ..)) fun _ h =>
    same_andThen (same_step h (esplnf_keeps_Tinc ..)) fun _ h =>
    same_andThen (same_step h (esrestnf_keeps_Tinc ..)) fun _ h =>
    same_andThen (same_step h rfl) fun _ h =>
    same_andThen (same_step h rfl) fun _ h =>
    same_andThen (same_step h (yf_keeps_Tinc ..)) fun _ h =>
    same_andThen (same_step h (zf_keeps_Tinc ..)) fun _ h =>
    same_andThen (same_step h rfl) fun _ h =>
    same_ite (
        same_ite (
            same_andThen (same_step h (yf_keeps_Tinc ..)) fun _ h =>
            same_andThen (same_step h (zf_keeps_Tinc ..)) fun _ h =>
            same_andThen (same_step h rfl) fun _ h =>
            same_step h rfl
          ) (
            same_andThen (same_step h (yf_keeps_Tinc ..)) fun _ h =>
            same_andThen (same_step h (zf_keeps_Tinc ..)) fun _ h =>
            same_andThen (same_step h rfl) fun _ h =>
            same_step h rfl
          )
      ) (
        same_andThen (same_step h rfl) fun _ h =>
        same_step h rfl
      )

theorem Esecpf_keeps_Tinc (s : State) (e0 eunp funp espln : ℚ) : Same (fun t => t.T.Tinc) s (Esecpf s e0 eunp funp espln) := by
  unfold Esecpf
  have h : Same (fun t => t.T.Tinc) s s := same_refl s
  exact
    same_andThen (same_step h rfl) fun _ h =>
    same_ite (
        same_step h rfl
      ) (
        h
      )

theorem esplpf_keeps_Tinc (s : State) (eunp funp e0 espln : ℚ) : Same (fun t => t.T.Tinc) s (esplpf s eunp funp e0 espln) := by
  unfold esplpf
  have h : Same (fun t => t.T.Tinc) s s := same_refl s
  exact
    same_andThen (same_step h (Esecpf_keeps_Tinc ..)) fun _ h =>
    same_step h rfl

theorem Eplpf_keeps_Tinc (m : Libm) (s : State) (e0 eunp : ℚ) : Same (fun t => t.T.Tinc) s (Eplpf m s e0 eunp) := by
  unfold Eplpf
  have h : Same (fun t => t.T.Tinc) s s := same_refl s
  exact
    same_ite (
        same_step h rfl
      ) (
        same_step h rfl
      )

theorem delepf_keeps_Tinc (s : State) (eunp e0 : ℚ) : Same (fun t => t.T.Tinc) s (delepf s eunp e0) := by
  unfold delepf
  have h : Same (fun t => t.T.Tinc) s s := same_refl s
  exact
    same_step h rfl

theorem delfpf_keeps_Tinc (s : State) (funp eunp e0 : ℚ) : Same (fun t => t.T.Tinc) s (delfpf s funp eunp e0) := by
  unfold delfpf
  have h : Same (fun t => t.T.Tinc) s s := same_refl s
  exact
    same_ite (
        same_step h rfl
      ) (
        same_step h rfl
      )

theorem fnewpf_keeps_Tinc (s : State) (funp eunp e0 : ℚ) : Same (fun t => t.T.Tinc) s (fnewpf s funp eunp e0) := by
  unfold fnewpf
  have h : Same (fun t => t.T.Tinc) s s := same_refl s
  exact
    same_andThen (same_step h (delfpf_keeps_Tinc ..)) fun _ h =>
    same_step h rfl

theorem Enewpf_keeps_Tinc (s : State) (eunp funp e0 espln : ℚ) : Same (fun t => t.T.Tinc) s (Enewpf s eunp funp e0 espln) := by
  unfold Enewpf
  have h : Same (fun t => t.T.Tinc) s s := same_refl s
  exact
    same_andThen (same_step h (fnewpf_keeps_Tinc ..)) fun _ h =>
    same_andThen (same_step h (esplpf_keeps_Tinc ..)) fun _ h =>
    same_andThen (same_step h rfl) fun _ h =>
    same_ite (
        same_step h rfl
      ) (
        h
      )

theorem esrepf_keeps_Tinc (s : State) (eunp e0 : ℚ) : Same (fun t => t.T.Tinc) s (esrepf s eunp e0) := by
  unfold esrepf
  have h : Same (fun t => t.T.Tinc) s s := same_refl s
  exact
    same_andThen (same_step h (delepf_keeps_Tinc ..)) fun _ h =>
    same_step h rfl

theorem freErepf_keeps_Tinc (m : Libm) (s : State) (eunp e0 : ℚ) : Same (fun t => t.T.Tinc) s (freErepf m s eunp e0) := by
  unfold freErepf
  have h : Same (fun t => t.T.Tinc) s s := same_refl s
  exact
    same_andThen (same_step h (esrepf_keeps_Tinc ..)) fun _ h =>
    same_andThen (same_step h rfl) fun _ h =>
    same_andThen (same_step h rfl) fun _ h =>
    same_andThen (same_step h (yf_keeps_Tinc ..)) fun _ h =>
    same_andThen (same_step h (zf_keeps_Tinc ..)) fun _ h =>
    same_andThen (same_step h rfl) fun _ h =>
    same_ite (
        same_ite (
            same_andThen (same_step h (yf_keeps_Tinc ..)) fun _ h =>
            same_andThen (same_step h (zf_keeps_Tinc ..)) fun _ h =>
            same_andThen (same_step h rfl) fun _ h =>
            same_step h rfl
          ) (
            same_andThen (same_step h (yf_keeps_Tinc ..)) fun _ h =>
            same_andThen (same_step h (zf_keeps_Tinc ..)) fun _ h =>
            same_andThen (same_step h rfl) fun _ h =>
            same_step h rfl
          )
      ) (
        same_andThen (same_step h rfl) fun _ h =>
        same_step h rfl
      )

theorem fnewstpf_keeps_Tinc (s : State) (funp delfp eunp er0p esplp e0 : ℚ) : Same (fun t => t.T.Tinc) s (fnewstpf s funp delfp eunp er0p esplp e0) := by
  unfold fnewstpf
  have h : Same (fun t => t.T.Tinc) s s := same_refl s
  exact
    same_step h rfl

theorem Enewstpf_keeps_Tinc (s : State) (fnewstp fr0p eunp er0p : ℚ) : Same (fun t => t.T.Tinc) s (Enewstpf s fnewstp fr0p eunp er0p) := by
  unfold Enewstpf
  have h : Same (fun t => t.T.Tinc) s s := same_refl s
  exact
    same_step h rfl

theorem esrestpf_keeps_Tinc (s : State) (eunp delep er0p esplp : ℚ) : Same (fun t => t.T.Tinc) s (esrestpf s eunp delep er0p esplp) := by
  unfold esrestpf
  have h : Same (fun t => t.T.Tinc) s s := same_refl s
  exact
    same_step h rfl

theorem freErestpf_keeps_Tinc (m : Libm) (s : State) (eunp funp er0p e0 espln : ℚ) : Same (fun t => t.T.Tinc) s (freErestpf m s eunp funp er0p e0 espln) := by
  unfold freErestpf
  have h : Same (fun t => t.T.Tinc) s s := same_refl s
  exact
    same_andThen (same_step h (delepf_keeps_Tinc ..)) fun _ h =>
    same_andThen (same_step h (esplpf_keeps_Tinc ..)) fun _ h =>
    same_andThen (same_step h (esrestpf_keeps_Tinc ..)) fun _ h =>
    same_andThen (same_step h rfl) fun _ h =>
    same_andThen (same_step h rfl) fun _ h =>
    same_andThen (same_step h (yf_keeps_Tinc ..)) fun _ h =>
    same_andThen (same_step h (zf_keeps_Tinc ..)) fun _ h =>
    same_andThen (same_step h rfl) fun _ h =>
    same_ite (
        same_ite (
            same_andThen (same_step h (yf_keeps_Tinc ..)) fun _ h =>
            same_andThen (same_step h (zf_keeps_Tinc ..)) fun _ h =>
            same_andThen (same_step h rfl) fun _ h =>
            same_step h rfl
          ) (
            same_andThen (same_step h (yf_keeps_Tinc ..)) fun _ h =>
            same_andThen (same_step h (zf_keeps_Tinc ..)) fun _ h =>
            same_andThen (same_step h rfl) fun _ h =>
            same_step h rfl
          )
      ) (
        same_andThen (same_step h rfl) fun _ h =>
        same_step h rfl
      )

theorem e0eunpfunpf_keeps_Tinc (m : Libm) (s : State) (e0 eunp funp eunn funn : ℚ) :
    Same (fun t => t.T.Tinc) s (e0eunpfunpf m s e0 eunp funp eunn funn) := by
  unfold e0eunpfunpf
  have h : Same (fun t => t.T.Tinc) s s := same_refl s
  exact
    same_andThen (
      same_ite (same_step h (fcEtpf_keeps_Tinc ..)) h
      ) fun _ h =>
    same_andThen (same_step h (esplnf_keeps_Tinc ..)) fun _ h =>
    same_andThen (same_step h (Eplnf_keeps_Tinc ..)) fun _ h =>
    same_andThen (same_step h (Esecpf_keeps_Tinc ..)) fun _ h =>
    same_andThen (same_step h rfl) fun _ h =>
    same_andThen (same_step h rfl) fun _ h =>
    same_andThen (same_step h (fcEtpf_keeps_Tinc ..)) fun _ h =>
    same_step h rfl

theorem r3f_keeps_Tinc (s : State) (eunn funn espln Epln : ℚ) : Same (fun t => t.T.Tinc) s (r3f s eunn funn espln Epln) := by
  unfold r3f
  have h : Same (fun t => t.T.Tinc) s s := same_refl s
  exact
    same_andThen (same_step h rfl) fun _ h =>
    same_andThen (same_step h rfl) fun _ h =>
    same_andThen (same_step h rfl) fun _ h =>
    same_andThen (same_step h rfl) fun _ h =>
    same_andThen (same_step h rfl) fun _ h =>
    same_step h rfl

theorem r9f_keeps_Tinc (s : State) (espln Epln eunp fnewp Enewp : ℚ) : Same (fun t => t.T.Tinc) s (r9f s espln Epln eunp fnewp Enewp) := by
  unfold r9f
  have h : Same (fun t => t.T.Tinc) s s := same_refl s
  exact
    same_andThen (same_step h rfl) fun _ h =>
    same_andThen (same_step h rfl) fun _ h =>
    same_andThen (same_step h rfl) fun _ h =>
    same_andThen (same_step h rfl) fun _ h =>
    same_andThen (same_step h rfl) fun _ h =>
    same_step h rfl

theorem r8f_keeps_Tinc (s : State) (eunp fnewp Enewp esrep frep Erep : ℚ) : Same (fun t => t.T.Tinc) s (r8f s eunp fnewp Enewp esrep frep Erep) := by
  unfold r8f
  have h : Same (fun t => t.T.Tinc) s s := same_refl s
  exact
    same_andThen (same_step h rfl) fun _ h =>
    same_andThen (same_step h rfl) fun _ h =>
    same_andThen (same_step h rfl) fun _ h =>
    same_andThen (same_step h rfl) fun _ h =>
    same_andThen (same_step h rfl) fun _ h =>
    same_step h rfl

theorem r4f_keeps_Tinc (s : State) (eunp funp esplp Eplp : ℚ) : Same (fun t => t.T.Tinc) s (r4f s eunp funp esplp Eplp) := by
  unfold r4f
  have h : Same (fun t => t.T.Tinc) s s := same_refl s
  exact
    same_andThen (same_step h rfl) fun _ h =>
    same_andThen (same_step h rfl) fun _ h =>
    same_andThen (same_step h rfl) fun _ h =>
    same_andThen (same_step h rfl) fun _ h =>
    same_andThen (same_step h rfl) fun _ h =>
    same_step h rfl

theorem r10f_keeps_Tinc (s : State) (esplp Eplp eunn fnewn Enewn : ℚ) : Same (fun t => t.T.Tinc) s (r10f s esplp Eplp eunn fnewn Enewn) := by
  unfold r10f
  have h : Same (fun t => t.T.Tinc) s s := same_refl s
  exact
    same_andThen (same_step h rfl) fun _ h =>
    same_andThen (same_step h rfl) fun _ h =>
    same_andThen (same_step h rfl) fun _ h =>
    same_andThen (same_step h rfl) fun _ h =>
    same_andThen (same_step h rfl) fun _ h =>
    same_step h rfl

theorem r7f_keeps_Tinc (s : State) (eunn fnewn Enewn esren fren Eren : ℚ) : Same (fun t => t.T.Tinc) s (r7f s eunn fnewn Enewn esren fren Eren) := by
  unfold r7f
  have h : Same (fun t => t.T.Tinc) s s := same_refl s
  exact
    same_andThen (same_step h rfl) fun _ h =>
    same_andThen (same_step h rfl) fun _ h =>
    same_andThen (same_step h rfl) fun _ h =>
    same_andThen (same_step h rfl) fun _ h =>
    same_andThen (same_step h rfl) fun _ h =>
    same_step h rfl

theorem fcEturf_keeps_Tinc (m : Libm) (s : State) (es esi fi esf ff Ei Ef A R : ℚ) : Same (fun t => t.T.Tinc) s (fcEturf m s es esi fi esf ff Ei Ef A R) := by
  unfold fcEturf
  have h : Same (fun t => t.T.Tinc) s s := same_refl s
  exact
    same_ite (
        same_andThen (same_step h rfl) fun _ h =>
        same_step h rfl
      ) (
        same_ite (
            same_andThen (same_step h rfl) fun _ h =>
            same_step h rfl
          ) (
            same_ite (
                same_andThen (same_step h rfl) fun _ h =>
                same_step h rfl
              ) (
                same_ite (
                    same_andThen (same_step h rfl) fun _ h =>
                    same_step h rfl
                  ) (
                    same_andThen (same_step h rfl) fun _ h =>
                    same_andThen (same_step h rfl) fun _ h =>
                    same_ite (
                        same_andThen (same_step h rfl) fun _ h =>
                        same_step h rfl
                      ) (
                        h
                      )
                  )
              )
          )
      )

theorem r12f_keeps_Tinc (m : Libm) (s : State) (er fr ea fca Eta A R : ℚ) : Same (fun t => t.T.Tinc) s (r12f m s er fr ea fca Eta A R) := by
  unfold r12f
  have h : Same (fun t => t.T.Tinc) s s := same_refl s
  exact
    same_andThen (same_step h rfl) fun _ h =>
    same_andThen (same_step h rfl) fun _ h =>
    same_andThen (same_step h rfl) fun _ h =>
    same_andThen (same_step h rfl) fun _ h =>
    same_andThen (same_step h rfl) fun _ h =>
    same_andThen (same_step h rfl) fun _ h =>
    same_andThen (same_step h (fcEturf_keeps_Tinc ..)) fun _ h =>
    same_andThen (same_step h rfl) fun _ h =>
    same_step h rfl

theorem r11f_keeps_Tinc (m : Libm) (s : State) (er fr eb fcb Etb A R : ℚ) : Same (fun t => t.T.Tinc) s (r11f m s er fr eb fcb Etb A R) := by
  unfold r11f
  have h : Same (fun t => t.T.Tinc) s s := same_refl s
  exact
    same_andThen (same_step h rfl) fun _ h =>
    same_andThen (same_step h rfl) fun _ h =>
    same_andThen (same_step h rfl) fun _ h =>
    same_andThen (same_step h rfl) fun _ h =>
    same_andThen (same_step h rfl) fun _ h =>
    same_andThen (same_step h rfl) fun _ h =>
    same_andThen (same_step h (fcEturf_keeps_Tinc ..)) fun _ h =>
    same_andThen (same_step h rfl) fun _ h =>
    same_step h rfl

theorem r13f_keeps_Tinc (s : State) (ed eunn fnewn Enewn : ℚ) : Same (fun t => t.T.Tinc) s (r13f s ed eunn fnewn Enewn) := by
  unfold r13f
  have h : Same (fun t => t.T.Tinc) s s := same_refl s
  exact
    same_andThen (same_step h rfl) fun _ h =>
    same_andThen (same_step h rfl) fun _ h =>
    same_andThen (same_step h rfl) fun _ h =>
    same_andThen (same_step h rfl) fun _ h =>
    same_andThen (same_step h rfl) fun _ h =>
    same_step h rfl

theorem r14f_keeps_Tinc (s : State) (er fr eb : ℚ) : Same (fun t => t.T.Tinc) s (r14f s er fr eb) := by
  unfold r14f
  have h : Same (fun t => t.T.Tinc) s s := same_refl s
  exact
    same_andThen (same_step h rfl) fun _ h =>
    same_andThen (same_step h rfl) fun _ h =>
    same_andThen (same_step h rfl) fun _ h =>
    same_andThen (same_step h rfl) fun _ h =>
    same_andThen (same_step h rfl) fun _ h =>
    same_step h rfl

theorem r15f_keeps_Tinc (m : Libm) (s : State) (er fr ea fca Eta A R : ℚ) : Same (fun t => t.T.Tinc) s (r15f m s er fr ea fca Eta A R) := by
  unfold r15f
  have h : Same (fun t => t.T.Tinc) s s := same_refl s
  exact
    same_andThen (same_step h rfl) fun _ h =>
    same_andThen (same_step h rfl) fun _ h =>
    same_andThen (same_step h rfl) fun _ h =>
    same_andThen (same_step h rfl) fun _ h =>
    same_andThen (same_step h rfl) fun _ h =>
    same_andThen (same_step h rfl) fun _ h =>
    same_andThen (same_step h (fcEturf_keeps_Tinc ..)) fun _ h =>
    same_andThen (same_step h rfl) fun _ h =>
    same_step h rfl

theorem r66f_keeps_Tinc (s : State) (e e0 : ℚ) : Same (fun t => t.T.Tinc) s (r66f s e e0) := by
  unfold r66f
  have h : Same (fun t => t.T.Tinc) s s := same_refl s
  exact
    same_andThen (same_step h rfl) fun _ h =>
    same_step h rfl

theorem r88f_keeps_Tinc (s : State) (e e0 er0p fr0p eunp fnewstp Enewstp esrestp frestp Erestp : ℚ) : Same (fun t => t.T.Tinc) s (r88f s e e0 er0p fr0p eunp fnewstp Enewstp esrestp frestp Erestp) := by
  unfold r88f
  have h : Same (fun t => t.T.Tinc) s s := same_refl s
  exact
    same_andThen (
        same_ite (
            same_andThen (same_step h rfl) fun _ h =>
            same_andThen (same_step h rfl) fun _ h =>
            same_andThen (same_step h rfl) fun _ h =>
            same_andThen (same_step h rfl) fun _ h =>
            same_andThen (same_step h rfl) fun _ h =>
            same_step h rfl
          ) (
            h
          )
      ) fun _ h =>
    same_ite (
        same_andThen (same_step h rfl) fun _ h =>
        same_andThen (same_step h rfl) fun _ h =>
        same_andThen (same_step h rfl) fun _ h =>
        same_andThen (same_step h rfl) fun _ h =>
        same_andThen (same_step h rfl) fun _ h =>
        same_step h rfl
      ) (
        h
      )

theorem r77f_keeps_Tinc (s : State) (e e0 er0n fr0n eunn fnewstn Enewstn esrestn frestn Erestn : ℚ) : Same (fun t => t.T.Tinc) s (r77f s e e0 er0n fr0n eunn fnewstn Enewstn esrestn frestn Erestn) := by
  unfold r77f
  have h : Same (fun t => t.T.Tinc) s s := same_refl s
  exact
    same_andThen (
        same_ite (
            same_andThen (same_step h rfl) fun _ h =>
            same_andThen (same_step h rfl) fun _ h =>
            same_andThen (same_step h rfl) fun _ h =>
            same_andThen (same_step h rfl) fun _ h =>
            same_andThen (same_step h rfl) fun _ h =>
            same_step h rfl
          ) (
            h
          )
      ) fun _ h =>
    same_ite (
        same_andThen (same_step h rfl) fun _ h =>
        same_andThen (same_step h rfl) fun _ h =>
        same_andThen (same_step h rfl) fun _ h =>
        same_andThen (same_step h rfl) fun _ h =>
        same_andThen (same_step h rfl) fun _ h =>
        same_step h rfl
      ) (
        h
      )

theorem ea1112f_keeps_Tinc (s : State) (eb espln esplp eunn eunp : ℚ) : Same (fun t => t.T.Tinc) s (ea1112f s eb espln esplp eunn eunp) := by
  unfold ea1112f
  have h : Same (fun t => t.T.Tinc) s s := same_refl s
  exact
    same_step h rfl

theorem eb1112f_keeps_Tinc (s : State) (ea espln esplp eunn eunp : ℚ) : Same (fun t => t.T.Tinc) s (eb1112f s ea espln esplp eunn eunp) := by
  unfold eb1112f
  have h : Same (fun t => t.T.Tinc) s s := same_refl s
  exact
    same_step h rfl

theorem eb1415f_keeps_Tinc (s : State) (ea fa Esecn : ℚ) : Same (fun t => t.T.Tinc) s (eb1415f s ea fa Esecn) := by
  unfold eb1415f
  have h : Same (fun t => t.T.Tinc) s s := same_refl s
  exact
    same_step h rfl

theorem RAf_keeps_Tinc (m : Libm) (s : State) (esi fi Ei esf ff Ef : ℚ) : Same (fun t => t.T.Tinc) s (RAf m s esi fi Ei esf ff Ef) := by
  unfold RAf
  have h : Same (fun t => t.T.Tinc) s s := same_refl s
  exact
    same_andThen (same_step h rfl) fun _ h =>
    same_ite (
        same_step h rfl
      ) (
        same_andThen (same_step h rfl) fun _ h =>
        same_ite (
            same_step h rfl
          ) (
            h
          )
      )


/-- Stress and tangent left in `fc`, `Et` by the secant branch of `fcEturf`. -/
theorem fcEturf_of_guard (m : Libm) (s : State) (es esi fi esf ff Ei Ef A R : ℚ)
    (h : (A = 1.0e300 ∨ A = 0) ∨
         (m.pow (fabs (es - esi)) (-R) = 0 ∨ m.pow (fabs (es - esi)) (-R) > 1.797e308 ∨
           m.pow (fabs (es - esi)) (-R) < -1.797e308) ∨
         (Ei ≥ (ff - fi) / (esf - esi) ∧ Ef ≥ (ff - fi) / (esf - esi)) ∨
         (Ei ≤ (ff - fi) / (esf - esi) ∧ Ef ≤ (ff - fi) / (esf - esi))) :
    (fcEturf m s es esi fi esf ff Ei Ef A R).w.fc = fi + (ff - fi) / (esf - esi) * (es - esi) ∧
    (fcEturf m s es esi fi esf ff Ei Ef A R).w.Et = (ff - fi) / (esf - esi) := by
  unfold fcEturf
  simp only [andThen]
  split_ifs with h1 h2 h3 h4 h5
  · exact ⟨rfl, rfl⟩
  · exact ⟨rfl, rfl⟩
  · exact ⟨rfl, rfl⟩
  · exact ⟨rfl, rfl⟩
  · exact ⟨rfl, rfl⟩
  · rcases h with h | h | h | h
    · exact absurd h h1
    · exact absurd h h2
    · exact absurd h h3
    · exact absurd h h4

/-- C6. Curve-fit fallback: when both boundary slopes are on one side of the secant slope
`Esec = (ff - fi)/(esf - esi)` (`Ei ≥ Esec` and `Ef ≥ Esec`, or both `≤`), `fcEturf` returns
the secant line, `fc = fi + Esec*(es - esi)` and `Et = Esec`, for every evaluation strain `es`
and every `A` and `R`. -/
theorem fcEturf_secant_fallback (m : Libm) (s : State) (es esi fi esf ff Ei Ef A R : ℚ)
    (hne : esf ≠ esi)
    (h : (Ei ≥ (ff - fi) / (esf - esi) ∧ Ef ≥ (ff - fi) / (esf - esi)) ∨
         (Ei ≤ (ff - fi) / (esf - esi) ∧ Ef ≤ (ff - fi) / (esf - esi))) :
    (fcEturf m s es esi fi esf ff Ei Ef A R).w.fc = fi + (ff - fi) / (esf - esi) * (es - esi) ∧
    (fcEturf m s es esi fi esf ff Ei Ef A R).w.Et = (ff - fi) / (esf - esi) :=
  fcEturf_of_guard m s es esi fi esf ff Ei Ef A R (Or.inr (Or.inr h))

/-- Witness of C6: anchors `(0, 0)` and `(1, 1)` with boundary slopes `2` and `3`, both
above the secant slope `1`, evaluated at `es = 1/2` with `A = 5`, `R = 7`. -/
theorem fcEturf_secant_fallback_witness :
    ((1 : ℚ) ≠ 0 ∧
      (((2 : ℚ) ≥ (1 - 0) / (1 - 0) ∧ (3 : ℚ) ≥ (1 - 0) / (1 - 0)) ∨
       ((2 : ℚ) ≤ (1 - 0) / (1 - 0) ∧ (3 : ℚ) ≤ (1 - 0) / (1 - 0)))) ∧
    ((fcEturf Libm.sample State.zero (1 / 2) 0 0 1 1 2 3 5 7).w.fc
        = 0 + (1 - 0) / (1 - 0) * (1 / 2 - 0) ∧
     (fcEturf Libm.sample State.zero (1 / 2) 0 0 1 1 2 3 5 7).w.Et = (1 - 0) / (1 - 0)) :=
  ⟨⟨by norm_num, by norm_num⟩,
    fcEturf_secant_fallback Libm.sample State.zero (1 / 2) 0 0 1 1 2 3 5 7 (by norm_num)
      (by norm_num)⟩



/-- The exponent computed by `RAf`. -/
theorem RAf_R (m : Libm) (s : State) (esi fi Ei esf ff Ef : ℚ) :
    (RAf m s esi fi Ei esf ff Ef).w.R
      = (Ef - (ff - fi) / (esf - esi)) / ((ff - fi) / (esf - esi) - Ei) := by
  unfold RAf
  simp only [andThen]
  split_ifs <;> rfl

/-- The scale computed by `RAf`: one of the two sentinels or the closed form. -/
theorem RAf_A (m : Libm) (s : State) (esi fi Ei esf ff Ef : ℚ) :
    (RAf m s esi fi Ei esf ff Ef).w.A = 1.0e-300 ∨
    (RAf m s esi fi Ei esf ff Ef).w.A = 1.0e300 ∨
    (closedFormA m esi fi Ei esf ff Ef ∧
      (RAf m s esi fi Ei esf ff Ef).w.A = ((ff - fi) / (esf - esi) - Ei) /
        m.pow (fabs (esf - esi)) ((Ef - (ff - fi) / (esf - esi)) / ((ff - fi) / (esf - esi) - Ei))) := by
  unfold RAf closedFormA
  simp only [andThen]
  split_ifs with h1 h2
  · exact Or.inl rfl
  · exact Or.inr (Or.inl rfl)
  · exact Or.inr (Or.inr ⟨⟨h1, h2⟩, rfl⟩)

/-- With a degenerate `check` (zero, beyond `±1.797e308`, or secant slope equal to `Ei`)
`RAf` stores the sentinel `1.0e-300`. -/
theorem RAf_A_of_degenerate (m : Libm) (s : State) (esi fi Ei esf ff Ef : ℚ)
    (h : m.pow (fabs (esf - esi)) ((Ef - (ff - fi) / (esf - esi)) / ((ff - fi) / (esf - esi) - Ei)) = 0 ∨
      m.pow (fabs (esf - esi)) ((Ef - (ff - fi) / (esf - esi)) / ((ff - fi) / (esf - esi) - Ei))
        > 1.797e308 ∨
      m.pow (fabs (esf - esi)) ((Ef - (ff - fi) / (esf - esi)) / ((ff - fi) / (esf - esi) - Ei))
        < -1.797e308 ∨
      (ff - fi) / (esf - esi) = Ei) :
    (RAf m s esi fi Ei esf ff Ef).w.A = 1.0e-300 := by
  unfold RAf
  simp only [andThen]
  split_ifs with h1 h2
  · rfl
  · exact absurd h h1
  · exact absurd h h1

/-- The closed-form scale, when `RAf` keeps it. -/
theorem RAf_A_of_closedForm (m : Libm) (s : State) (esi fi Ei esf ff Ef : ℚ)
    (h : closedFormA m esi fi Ei esf ff Ef) :
    (RAf m s esi fi Ei esf ff Ef).w.A = ((ff - fi) / (esf - esi) - Ei) /
        m.pow (fabs (esf - esi)) ((Ef - (ff - fi) / (esf - esi)) / ((ff - fi) / (esf - esi) - Ei)) := by
  unfold closedFormA at h
  unfold RAf
  simp only [andThen]
  split_ifs with h1 h2
  · exact absurd h1 h.1
  · exact absurd h2 h.2
  · rfl

/-- Stress and tangent left in `fc`, `Et` by the power-law branch of `fcEturf`. -/
theorem fcEturf_of_power (m : Libm) (s : State) (es esi fi esf ff Ei Ef A R : ℚ)
    (h : takesPowerLaw m es esi fi esf ff Ei Ef A R) :
    (fcEturf m s es esi fi esf ff Ei Ef A R).w.fc
      = fi + (es - esi) * (Ei + A * m.pow (fabs (es - esi)) R) ∧
    (fcEturf m s es esi fi esf ff Ei Ef A R).w.Et
      = Ei + A * (R + 1) * m.pow (fabs (es - esi)) R := by
  obtain ⟨h1, h2, h3, h4, h5⟩ := h
  unfold fcEturf
  simp only [andThen]
  split_ifs with g5
  · exact absurd g5 h5
  · exact ⟨rfl, rfl⟩

/-- The stress that `fcEturf` leaves in `fc` is the secant line or the power law. -/
theorem fcEturf_fc_cases (m : Libm) (s : State) (es esi fi esf ff Ei Ef A R : ℚ) :
    (fcEturf m s es esi fi esf ff Ei Ef A R).w.fc = fi + (ff - fi) / (esf - esi) * (es - esi) ∨
    (takesPowerLaw m es esi fi esf ff Ei Ef A R ∧
      (fcEturf m s es esi fi esf ff Ei Ef A R).w.fc
        = fi + (es - esi) * (Ei + A * m.pow (fabs (es - esi)) R)) := by
  by_cases hp : takesPowerLaw m es esi fi esf ff Ei Ef A R
  · exact Or.inr ⟨hp, (fcEturf_of_power m s es esi fi esf ff Ei Ef A R hp).1⟩
  · left
    unfold takesPowerLaw at hp
    unfold fcEturf
    simp only [andThen]
    split_ifs with h1 h2 h3 h4 h5
    · rfl
    · rfl
    · rfl
    · rfl
    · rfl
    · exact absurd ⟨h1, h2, h3, h4, h5⟩ hp

/-- When the secant slope is not on one side of both boundary slopes, it differs from `Ei`
and the exponent of `RAf` is positive. -/
theorem exponent_pos_of_between (Esec Ei Ef : ℚ)
    (h3 : ¬ (Ei ≥ Esec ∧ Ef ≥ Esec)) (h4 : ¬ (Ei ≤ Esec ∧ Ef ≤ Esec)) :
    Esec ≠ Ei ∧ 0 < (Ef - Esec) / (Esec - Ei) := by
  rcases lt_trichotomy Ei Esec with h | h | h
  · have hf : Esec < Ef := by
      by_contra hc
      exact h4 ⟨le_of_lt h, not_lt.mp hc⟩
    exact ⟨ne_of_gt h, div_pos (by linarith) (by linarith)⟩
  · exfalso
    rcases le_total Ef Esec with hf | hf
    · exact h4 ⟨le_of_eq h, hf⟩
    · exact h3 ⟨le_of_eq h.symm, hf⟩
  · have hf : Ef < Esec := by
      by_contra hc
      exact h3 ⟨le_of_lt h, not_lt.mp hc⟩
    refine ⟨ne_of_lt h, ?_⟩
    have : (Ef - Esec) / (Esec - Ei) = (Esec - Ef) / (Ei - Esec) := by
      rw [← neg_sub Esec Ef, ← neg_sub Ei Esec, neg_div_neg_eq]
    rw [this]
    exact div_pos (by linarith) (by linarith)


/-- Outside the power-law branch `fcEturf` leaves the secant line in `fc` and `Et`. -/
theorem fcEturf_of_not_power (m : Libm) (s : State) (es esi fi esf ff Ei Ef A R : ℚ)
    (hp : ¬ takesPowerLaw m es esi fi esf ff Ei Ef A R) :
    (fcEturf m s es esi fi esf ff Ei Ef A R).w.fc = fi + (ff - fi) / (esf - esi) * (es - esi) ∧
    (fcEturf m s es esi fi esf ff Ei Ef A R).w.Et = (ff - fi) / (esf - esi) := by
  unfold fcEturf
  simp only [andThen]
  split_ifs with h1 h2 h3 h4 h5
  · exact ⟨rfl, rfl⟩
  · exact ⟨rfl, rfl⟩
  · exact ⟨rfl, rfl⟩
  · exact ⟨rfl, rfl⟩
  · exact ⟨rfl, rfl⟩
  · exact absurd ⟨h1, h2, h3, h4, h5⟩ hp

/-- At the first anchor `fcEturf` returns the stress `fi`, in either branch. -/
theorem fcEturf_at_esi (m : Libm) (s : State) (esi fi esf ff Ei Ef A R : ℚ) :
    (fcEturf m s esi esi fi esf ff Ei Ef A R).w.fc = fi := by
  rcases fcEturf_fc_cases m s esi esi fi esf ff Ei Ef A R with h | ⟨_, h⟩
  · rw [h]; ring
  · rw [h]; ring

/-- C7 (amended). When the secant slope `Esec` lies strictly between the boundary slopes
`Ei` and `Ef`, `fcEturf`, called with the `A` and `R` of `RAf`, does not fall back to the
secant line on that account: it returns the power law `fc = fi + (es-esi)*(Ei + A*pow(|es-esi|,R))`,
`Et = Ei + A*(R+1)*pow(|es-esi|,R)` unless one of its overflow guards holds, and the secant
line exactly when one of them does. -/
theorem fcEturf_between_slopes_is_power_law (m : Libm) (s : State)
    (es esi fi esf ff Ei Ef : ℚ)
    (hb : (Ei < secantSlope esi fi esf ff ∧ secantSlope esi fi esf ff < Ef) ∨
          (Ef < secantSlope esi fi esf ff ∧ secantSlope esi fi esf ff < Ei)) :
    (¬ overflowGuard m es esi Ei (RAf m s esi fi Ei esf ff Ef).w.A (RAf m s esi fi Ei esf ff Ef).w.R →
      (fcEturf m (RAf m s esi fi Ei esf ff Ef) es esi fi esf ff Ei Ef
          (RAf m s esi fi Ei esf ff Ef).w.A (RAf m s esi fi Ei esf ff Ef).w.R).w.fc
        = fi + (es - esi) * (Ei + (RAf m s esi fi Ei esf ff Ef).w.A
            * m.pow (fabs (es - esi)) (RAf m s esi fi Ei esf ff Ef).w.R) ∧
      (fcEturf m (RAf m s esi fi Ei esf ff Ef) es esi fi esf ff Ei Ef
          (RAf m s esi fi Ei esf ff Ef).w.A (RAf m s esi fi Ei esf ff Ef).w.R).w.Et
        = Ei + (RAf m s esi fi Ei esf ff Ef).w.A * ((RAf m s esi fi Ei esf ff Ef).w.R + 1)
            * m.pow (fabs (es - esi)) (RAf m s esi fi Ei esf ff Ef).w.R) ∧
    (overflowGuard m es esi Ei (RAf m s esi fi Ei esf ff Ef).w.A (RAf m s esi fi Ei esf ff Ef).w.R →
      (fcEturf m (RAf m s esi fi Ei esf ff Ef) es esi fi esf ff Ei Ef
          (RAf m s esi fi Ei esf ff Ef).w.A (RAf m s esi fi Ei esf ff Ef).w.R).w.fc
        = fi + secantSlope esi fi esf ff * (es - esi) ∧
      (fcEturf m (RAf m s esi fi Ei esf ff Ef) es esi fi esf ff Ei Ef
          (RAf m s esi fi Ei esf ff Ef).w.A (RAf m s esi fi Ei esf ff Ef).w.R).w.Et
        = secantSlope esi fi esf ff) := by
  have h3 : ¬ (Ei ≥ (ff - fi) / (esf - esi) ∧ Ef ≥ (ff - fi) / (esf - esi)) := by
    rintro ⟨a, b⟩
    rcases hb with ⟨c, d⟩ | ⟨c, d⟩
    · exact absurd c (not_lt.mpr a)
    · exact absurd c (not_lt.mpr b)
  have h4 : ¬ (Ei ≤ (ff - fi) / (esf - esi) ∧ Ef ≤ (ff - fi) / (esf - esi)) := by
    rintro ⟨a, b⟩
    rcases hb with ⟨c, d⟩ | ⟨c, d⟩
    · exact absurd d (not_lt.mpr b)
    · exact absurd d (not_lt.mpr a)
  constructor
  · intro hg
    apply fcEturf_of_power
    exact ⟨fun h => hg (Or.inl h), fun h => hg (Or.inr (Or.inl h)), h3, h4,
      fun h => hg (Or.inr (Or.inr h))⟩
  · intro hg
    apply fcEturf_of_not_power
    rintro ⟨g1, g2, _, _, g5⟩
    rcases hg with h | h | h
    · exact g1 h
    · exact g2 h
    · exact g5 h

/-- Witness of C7 (amended): anchors `(0, 0)` with slope `2` and `(1, 1)` with slope `0`;
the secant slope `1` lies strictly between the boundary slopes. -/
theorem fcEturf_between_slopes_witness :
    (((2 : ℚ) < secantSlope 0 0 1 1 ∧ secantSlope 0 0 1 1 < 0) ∨
      ((0 : ℚ) < secantSlope 0 0 1 1 ∧ secantSlope 0 0 1 1 < 2)) ∧
    ((fcEturf Libm.sample (RAf Libm.sample State.zero 0 0 2 1 1 0) (1 / 2) 0 0 1 1 2 0
        (RAf Libm.sample State.zero 0 0 2 1 1 0).w.A
        (RAf Libm.sample State.zero 0 0 2 1 1 0).w.R).w.fc
      = 0 + (1 / 2 - 0) * (2 + (RAf Libm.sample State.zero 0 0 2 1 1 0).w.A
          * Libm.sample.pow (fabs (1 / 2 - 0)) (RAf Libm.sample State.zero 0 0 2 1 1 0).w.R)) :=
  ⟨by decide!,
    ((fcEturf_between_slopes_is_power_law Libm.sample State.zero (1 / 2) 0 0 1 1 2 0
      (by decide!)).1 (by decide!)).1⟩

/-- Counterexample to C7 as stated: with anchors `(0, 0)`, slope `2`, and `(1, 1)`, slope `0`,
the secant slope `1` lies strictly between the boundary slopes; with the `A = -1`, `R = 1`
of `RAf`, `fcEturf` at `es = 1/2` returns the power-law stress `3/4`, not the secant
stress `1/2`. -/
theorem fcEturf_between_slopes_not_secant :
    ((0 : ℚ) < secantSlope 0 0 1 1 ∧ secantSlope 0 0 1 1 < 2) ∧
    (RAf Libm.sample State.zero 0 0 2 1 1 0).w.A = -1 ∧
    (RAf Libm.sample State.zero 0 0 2 1 1 0).w.R = 1 ∧
    (fcEturf Libm.sample (RAf Libm.sample State.zero 0 0 2 1 1 0) (1 / 2) 0 0 1 1 2 0
        (RAf Libm.sample State.zero 0 0 2 1 1 0).w.A
        (RAf Libm.sample State.zero 0 0 2 1 1 0).w.R).w.fc = 3 / 4 ∧
    (0 : ℚ) + secantSlope 0 0 1 1 * (1 / 2 - 0) = 1 / 2 := by
  decide!

/-- When `check` is positive and at most `1` and the secant slope differs from `Ei`, `RAf`
stores the closed-form scale or, when that is beyond `±1.797e308`, `1.0e300`. -/
theorem RAf_A_of_check (m : Libm) (s : State) (esi fi Ei esf ff Ef : ℚ)
    (hEi : (ff - fi) / (esf - esi) ≠ Ei)
    (hc0 : 0 < m.pow (fabs (esf - esi)) (fitExponent esi fi Ei esf ff Ef))
    (hc1 : m.pow (fabs (esf - esi)) (fitExponent esi fi Ei esf ff Ef) ≤ 1) :
    (RAf m s esi fi Ei esf ff Ef).w.A = 1.0e300 ∨
    (RAf m s esi fi Ei esf ff Ef).w.A = ((ff - fi) / (esf - esi) - Ei) /
      m.pow (fabs (esf - esi)) (fitExponent esi fi Ei esf ff Ef) := by
  have hbig : (1 : ℚ) ≤ 1.797e308 := by norm_num
  have hneg : (-1.797e308 : ℚ) ≤ 0 := by norm_num
  unfold RAf
  simp only [andThen]
  split_ifs with k1 k2
  · exfalso
    have k : m.pow (fabs (esf - esi)) (fitExponent esi fi Ei esf ff Ef) = 0 ∨
        m.pow (fabs (esf - esi)) (fitExponent esi fi Ei esf ff Ef) > 1.797e308 ∨
        m.pow (fabs (esf - esi)) (fitExponent esi fi Ei esf ff Ef) < -1.797e308 ∨
        (ff - fi) / (esf - esi) = Ei := k1
    rcases k with k | k | k | k
    · exact absurd k (ne_of_gt hc0)
    · exact absurd k (not_lt.mpr (le_trans hc1 hbig))
    · exact absurd k (not_lt.mpr (le_trans hneg (le_of_lt hc0)))
    · exact absurd k hEi
  · exact Or.inl rfl
  · exact Or.inr rfl

/-- C8. C0 continuity of the curve fit: for anchors with `0 < |esf - esi| < 1` and `A`, `R`
computed by `RAf` from them, `fcEturf` returns `fc = fi` at `es = esi` and `fc = ff` at
`es = esf`, whichever branch it takes.  Of `pow` the proof uses that a base in `(0, 1)`
raised to a positive exponent lies in `(0, 1]`, at the base `|esf - esi|` and the exponent
`R`. -/
theorem fcEturf_C0_continuity (m : Libm) (s : State) (esi fi Ei esf ff Ef : ℚ)
    (hd0 : 0 < fabs (esf - esi)) (hd1 : fabs (esf - esi) < 1)
    (hpow : 0 < fitExponent esi fi Ei esf ff Ef →
      0 < m.pow (fabs (esf - esi)) (fitExponent esi fi Ei esf ff Ef) ∧
      m.pow (fabs (esf - esi)) (fitExponent esi fi Ei esf ff Ef) ≤ 1) :
    (fcEturf m (RAf m s esi fi Ei esf ff Ef) esi esi fi esf ff Ei Ef
        (RAf m s esi fi Ei esf ff Ef).w.A (RAf m s esi fi Ei esf ff Ef).w.R).w.fc = fi ∧
    (fcEturf m (RAf m s esi fi Ei esf ff Ef) esf esi fi esf ff Ei Ef
        (RAf m s esi fi Ei esf ff Ef).w.A (RAf m s esi fi Ei esf ff Ef).w.R).w.fc = ff := by
  refine ⟨fcEturf_at_esi _ _ _ _ _ _ _ _ _ _, ?_⟩
  have hne : esf - esi ≠ 0 := by
    intro h
    rw [h] at hd0
    exact absurd hd0 (by decide)
  have hsec : fi + (ff - fi) / (esf - esi) * (esf - esi) = ff := by
    field_simp
  rcases fcEturf_fc_cases m (RAf m s esi fi Ei esf ff Ef) esf esi fi esf ff Ei Ef
      (RAf m s esi fi Ei esf ff Ef).w.A (RAf m s esi fi Ei esf ff Ef).w.R with h | ⟨hp, h⟩
  · rw [h, hsec]
  · rw [h]
    obtain ⟨g1, _, h3, h4, _⟩ := hp
    obtain ⟨hEi, hR⟩ := exponent_pos_of_between _ _ _ h3 h4
    obtain ⟨hc0, hc1⟩ := hpow hR
    rcases RAf_A_of_check m s esi fi Ei esf ff Ef hEi hc0 hc1 with hA | hA
    · exact absurd (Or.inl hA) g1
    · rw [hA, RAf_R]
      have hcne : m.pow (fabs (esf - esi)) (fitExponent esi fi Ei esf ff Ef) ≠ 0 := ne_of_gt hc0
      rw [div_mul_cancel₀ _ hcne]
      have hs : Ei + ((ff - fi) / (esf - esi) - Ei) = (ff - fi) / (esf - esi) := by ring
      rw [hs, mul_comm]
      exact hsec

/-- Witness of C8: anchors `(0, 0)` with slope `2` and `(1/2, 1/2)` with slope `0`; `R = 1`
and `check = 1/2`. -/
theorem fcEturf_C0_continuity_witness :
    ((0 : ℚ) < fabs (1 / 2 - 0) ∧ fabs (1 / 2 - 0) < 1 ∧
      (0 < fitExponent 0 0 2 (1 / 2) (1 / 2) 0 →
        0 < Libm.sample.pow (fabs (1 / 2 - 0)) (fitExponent 0 0 2 (1 / 2) (1 / 2) 0) ∧
        Libm.sample.pow (fabs (1 / 2 - 0)) (fitExponent 0 0 2 (1 / 2) (1 / 2) 0) ≤ 1)) ∧
    ((fcEturf Libm.sample (RAf Libm.sample State.zero 0 0 2 (1 / 2) (1 / 2) 0) 0 0 0 (1 / 2) (1 / 2) 2 0
        (RAf Libm.sample State.zero 0 0 2 (1 / 2) (1 / 2) 0).w.A
        (RAf Libm.sample State.zero 0 0 2 (1 / 2) (1 / 2) 0).w.R).w.fc = 0 ∧
     (fcEturf Libm.sample (RAf Libm.sample State.zero 0 0 2 (1 / 2) (1 / 2) 0) (1 / 2) 0 0 (1 / 2) (1 / 2) 2 0
        (RAf Libm.sample State.zero 0 0 2 (1 / 2) (1 / 2) 0).w.A
        (RAf Libm.sample State.zero 0 0 2 (1 / 2) (1 / 2) 0).w.R).w.fc = 1 / 2) :=
  ⟨by decide!,
    fcEturf_C0_continuity Libm.sample State.zero 0 0 2 (1 / 2) (1 / 2) 0 (by decide!) (by decide!)
      (by decide!)⟩



/-- C9 (amended). Slope matching of the curve fit: let `A` and `R` be the values `RAf`
computes from the anchors (`esf ≠ esi`), with `A` the closed-form scale (neither of the
sentinels `1.0e-300`, `1.0e300` was stored), and let `fcEturf` take its power-law branch at
`es` and at `esf`.  Then `R` is positive, the tangent at `es = esf` is the target slope
`Ef`, and for `es` strictly between `esi` and `esf` the tangent is
`Et = Ei + (Ef - Ei)*pow(t,R)` with `t = |es - esi|/|esf - esi|`, which lies between `Ei`
and `Ef`.  Of `pow` the proof uses `pow(|es-esi|,R) = pow(t,R)*pow(|esf-esi|,R)` and
`0 ≤ pow(t,R) ≤ 1`. -/
theorem fcEturf_power_law_slopes (m : Libm) (s : State) (es esi fi esf ff Ei Ef A R : ℚ)
    (hne : esf ≠ esi)
    (hR : R = (RAf m s esi fi Ei esf ff Ef).w.R)
    (hA : A = (RAf m s esi fi Ei esf ff Ef).w.A)
    (hcl : closedFormA m esi fi Ei esf ff Ef)
    (hes : takesPowerLaw m es esi fi esf ff Ei Ef A R)
    (hesf : takesPowerLaw m esf esi fi esf ff Ei Ef A R)
    (hbtw : (esi < es ∧ es < esf) ∨ (esf < es ∧ es < esi))
    (hratio : m.pow (fabs (es - esi)) R
      = m.pow (fabs (es - esi) / fabs (esf - esi)) R * m.pow (fabs (esf - esi)) R)
    (hunit : 0 ≤ m.pow (fabs (es - esi) / fabs (esf - esi)) R ∧
      m.pow (fabs (es - esi) / fabs (esf - esi)) R ≤ 1) :
    0 < R ∧
    (fcEturf m (RAf m s esi fi Ei esf ff Ef) esf esi fi esf ff Ei Ef A R).w.Et = Ef ∧
    (fcEturf m (RAf m s esi fi Ei esf ff Ef) es esi fi esf ff Ei Ef A R).w.Et
      = Ei + (Ef - Ei) * m.pow (fabs (es - esi) / fabs (esf - esi)) R ∧
    min Ei Ef ≤ (fcEturf m (RAf m s esi fi Ei esf ff Ef) es esi fi esf ff Ei Ef A R).w.Et ∧
    (fcEturf m (RAf m s esi fi Ei esf ff Ef) es esi fi esf ff Ei Ef A R).w.Et ≤ max Ei Ef := by
  obtain ⟨hEi, hRpos⟩ := exponent_pos_of_between _ _ _ hes.2.2.1 hes.2.2.2.1
  have hRv : R = fitExponent esi fi Ei esf ff Ef := hR.trans (RAf_R m s esi fi Ei esf ff Ef)
  have hAv : A = ((ff - fi) / (esf - esi) - Ei) / m.pow (fabs (esf - esi)) R := by
    rw [hA, hRv]
    exact RAf_A_of_closedForm m s esi fi Ei esf ff Ef hcl
  have hc : m.pow (fabs (esf - esi)) R ≠ 0 := by
    rw [hRv]
    exact fun h => hcl.1 (Or.inl h)
  have hd : (ff - fi) / (esf - esi) - Ei ≠ 0 := sub_ne_zero.mpr hEi
  have hRmul : ((ff - fi) / (esf - esi) - Ei) * R = Ef - (ff - fi) / (esf - esi) := by
    rw [hRv]
    exact mul_div_cancel₀ _ hd
  have hsum : ((ff - fi) / (esf - esi) - Ei) * (R + 1) = Ef - Ei := by
    rw [mul_add, hRmul]; ring
  have e1 : (fcEturf m (RAf m s esi fi Ei esf ff Ef) esf esi fi esf ff Ei Ef A R).w.Et = Ef := by
    rw [(fcEturf_of_power m _ esf esi fi esf ff Ei Ef A R hesf).2, hAv]
    have : ((ff - fi) / (esf - esi) - Ei) / m.pow (fabs (esf - esi)) R * (R + 1)
        * m.pow (fabs (esf - esi)) R = ((ff - fi) / (esf - esi) - Ei) * (R + 1) := by
      field_simp
    rw [this, hsum]; ring
  have e2 : (fcEturf m (RAf m s esi fi Ei esf ff Ef) es esi fi esf ff Ei Ef A R).w.Et
      = Ei + (Ef - Ei) * m.pow (fabs (es - esi) / fabs (esf - esi)) R := by
    rw [(fcEturf_of_power m _ es esi fi esf ff Ei Ef A R hes).2, hratio, hAv]
    have : ((ff - fi) / (esf - esi) - Ei) / m.pow (fabs (esf - esi)) R * (R + 1)
        * (m.pow (fabs (es - esi) / fabs (esf - esi)) R * m.pow (fabs (esf - esi)) R)
        = ((ff - fi) / (esf - esi) - Ei) * (R + 1)
          * m.pow (fabs (es - esi) / fabs (esf - esi)) R := by
      field_simp
      ring
    rw [this, hsum]
  refine ⟨by rw [hRv]; exact hRpos, e1, e2, ?_, ?_⟩
  · rw [e2]
    obtain ⟨p0, p1⟩ := hunit
    rcases le_total Ei Ef with h | h
    · rw [min_eq_left h]
      have : 0 ≤ (Ef - Ei) * m.pow (fabs (es - esi) / fabs (esf - esi)) R :=
        mul_nonneg (by linarith) p0
      linarith
    · rw [min_eq_right h]
      have : (Ei - Ef) * m.pow (fabs (es - esi) / fabs (esf - esi)) R ≤ (Ei - Ef) * 1 :=
        mul_le_mul_of_nonneg_left p1 (by linarith)
      linarith
  · rw [e2]
    obtain ⟨p0, p1⟩ := hunit
    rcases le_total Ei Ef with h | h
    · rw [max_eq_right h]
      have : (Ef - Ei) * m.pow (fabs (es - esi) / fabs (esf - esi)) R ≤ (Ef - Ei) * 1 :=
        mul_le_mul_of_nonneg_left p1 (by linarith)
      linarith
    · rw [max_eq_left h]
      have : 0 ≤ (Ei - Ef) * m.pow (fabs (es - esi) / fabs (esf - esi)) R :=
        mul_nonneg (by linarith) p0
      linarith

/-- Witness of C9 (amended): anchors `(0, 0)` with slope `2` and `(1, 1)` with slope `0`,
evaluated at `es = 1/2`; `RAf` gives `R = 1` and `A = -1`. -/
theorem fcEturf_power_law_slopes_witness :
    (takesPowerLaw Libm.sample (1 / 2) 0 0 1 1 2 0 (-1) 1 ∧
      closedFormA Libm.sample 0 0 2 1 1 0) ∧
    (0 < (1 : ℚ) ∧
      (fcEturf Libm.sample (RAf Libm.sample State.zero 0 0 2 1 1 0) 1 0 0 1 1 2 0 (-1) 1).w.Et = 0 ∧
      (fcEturf Libm.sample (RAf Libm.sample State.zero 0 0 2 1 1 0) (1 / 2) 0 0 1 1 2 0 (-1) 1).w.Et
        = 2 + (0 - 2) * Libm.sample.pow (fabs (1 / 2 - 0) / fabs (1 - 0)) 1 ∧
      min 2 0 ≤ (fcEturf Libm.sample (RAf Libm.sample State.zero 0 0 2 1 1 0) (1 / 2) 0 0 1 1 2 0
        (-1) 1).w.Et ∧
      (fcEturf Libm.sample (RAf Libm.sample State.zero 0 0 2 1 1 0) (1 / 2) 0 0 1 1 2 0
        (-1) 1).w.Et ≤ max 2 0) :=
  ⟨by decide!,
    fcEturf_power_law_slopes Libm.sample State.zero (1 / 2) 0 0 1 1 2 0 (-1) 1 (by decide!)
      (by decide!) (by decide!) (by decide!) (by decide!) (by decide!) (by decide!) (by decide!)
      (by decide!)⟩

/-- Counterexample to C9 as stated: anchors `(0, 0)` with slope `0` and `(2, 2)` with slope
`1101`.  `RAf` computes `R = 1100`; `check = pow(2, 1100)` exceeds `1.797e308`, so `RAf`
stores the sentinel `A = 1.0e-300`.  At `es = 3/2`, strictly between the anchors, `fcEturf`
takes its power-law branch, and its tangent `1.0e-300 * 1101 * pow(3/2, 1100)` is not
`Ei + (Ef - Ei)*pow(3/4, 1100)`. -/
theorem fcEturf_power_law_with_sentinel :
    (2 : ℚ) ≠ 0 ∧ ((0 : ℚ) < 3 / 2 ∧ (3 / 2 : ℚ) < 2) ∧
    (RAf Libm.sample State.zero 0 0 0 2 2 1101).w.R = 1100 ∧
    (RAf Libm.sample State.zero 0 0 0 2 2 1101).w.A = 1.0e-300 ∧
    takesPowerLaw Libm.sample (3 / 2) 0 0 2 2 0 1101 1.0e-300 1100 ∧
    (fcEturf Libm.sample (RAf Libm.sample State.zero 0 0 0 2 2 1101) (3 / 2) 0 0 2 2 0 1101
        1.0e-300 1100).w.Et = 1.0e-300 * 1101 * (3 / 2) ^ 1100 ∧
    (1.0e-300 * 1101 * (3 / 2) ^ 1100 : ℚ)
      ≠ 0 + (1101 - 0) * Libm.sample.pow (fabs (3 / 2 - 0) / fabs (2 - 0)) 1100 := by
  decide!



/-- `revertToLastCommit` assigns the trial variables only, and gives each of them the value
of the committed variable of the same name. -/
theorem revertToLastCommit_eq (s : State) :
    revertToLastCommit s =
      { s with T := ⟨s.C.Ceunn, s.C.Cfunn, s.C.Ceunp, s.C.Cfunp, s.C.Cer, s.C.Cfr, s.C.Cer0n,
          s.C.Cfr0n, s.C.Cer0p, s.C.Cfr0p, s.C.Ce0, s.C.Cea, s.C.Ceb, s.C.Ced, s.C.Cinc,
          s.C.Crule, s.C.Cstrain, s.C.Cstress, s.C.Ctangent⟩ } := by
  rcases s with ⟨par, ⟨
      ceunn, cfunn, ceunp, cfunp, cer, cfr, cer0n, cfr0n, cer0p, cfr0p, ce0, cea, ceb, ced, cinc,
      crule, cstrain, cstress, ctangent⟩, ⟨
      teunn, tfunn, teunp, tfunp, ter, tfr, ter0n, tfr0n, ter0p, tfr0p, te0, tea, teb, ted, tinc,
      trule, tstrain, tstress, ttangent⟩, w⟩
  simp only [revertToLastCommit, andThen,
    State.set_Teunn, State.set_Tfunn, State.set_Teunp, State.set_Tfunp, State.set_Ter,
    State.set_Tfr, State.set_Ter0n, State.set_Tfr0n, State.set_Ter0p, State.set_Tfr0p,
    State.set_Te0, State.set_Tea, State.set_Teb, State.set_Ted, State.set_Tinc, State.set_Trule,
    State.set_Tstrain, State.set_Tstress, State.set_Ttangent]

/-- `commitState` assigns the committed variables only, and gives each of them the value
of the trial variable of the same name. -/
theorem commitState_eq (s : State) :
    commitState s =
      { s with C := ⟨s.T.Teunn, s.T.Tfunn, s.T.Teunp, s.T.Tfunp, s.T.Ter, s.T.Tfr, s.T.Ter0n,
          s.T.Tfr0n, s.T.Ter0p, s.T.Tfr0p, s.T.Te0, s.T.Tea, s.T.Teb, s.T.Ted, s.T.Tinc,
          s.T.Trule, s.T.Tstrain, s.T.Tstress, s.T.Ttangent⟩ } := by
  rcases s with ⟨par, ⟨
      ceunn, cfunn, ceunp, cfunp, cer, cfr, cer0n, cfr0n, cer0p, cfr0p, ce0, cea, ceb, ced, cinc,
      crule, cstrain, cstress, ctangent⟩, ⟨
      teunn, tfunn, teunp, tfunp, ter, tfr, ter0n, tfr0n, ter0p, tfr0p, te0, tea, teb, ted, tinc,
      trule, tstrain, tstress, ttangent⟩, w⟩
  simp only [commitState, andThen,
    State.set_Ceunn, State.set_Cfunn, State.set_Ceunp, State.set_Cfunp, State.set_Cer,
    State.set_Cfr, State.set_Cer0n, State.set_Cfr0n, State.set_Cer0p, State.set_Cfr0p,
    State.set_Ce0, State.set_Cea, State.set_Ceb, State.set_Ced, State.set_Cinc, State.set_Crule,
    State.set_Cstrain, State.set_Cstress, State.set_Ctangent]

/-- `setTrialStrain` leaves the input parameters and the committed variables as they are,
and the trial strain is its argument. -/
theorem setTrialStrain_frame (m : Libm) (s : State) (strain : ℚ) :
    (setTrialStrain m s strain).par = s.par ∧ (setTrialStrain m s strain).C = s.C ∧
    (setTrialStrain m s strain).T.Tstrain = strain := by
  have h := setTrialStrain_body_frame m s strain
  have e := revertToLastCommit_eq s
  refine ⟨h.1.trans ?_, h.2.1.trans ?_, h.2.2.trans ?_⟩
  · rw [e]; rfl
  · rw [e]; rfl
  · rfl

/-- The envelope stress, tangent and rule computed by `fcEtnf` depend on the input
parameters and on the strain only. -/
theorem fcEtnf_congr (m : Libm) (s t : State) (e : ℚ) (h : t.par = s.par) :
    (fcEtnf m t e).T.Tstress = (fcEtnf m s e).T.Tstress ∧
    (fcEtnf m t e).T.Ttangent = (fcEtnf m s e).T.Ttangent ∧
    (fcEtnf m t e).T.Trule = (fcEtnf m s e).T.Trule := by
  rcases s with ⟨par, C, T, w⟩
  rcases t with ⟨par2, C2, T2, w2⟩
  cases h
  simp only [fcEtnf, r1f, r5f, yf, zf, andThen, State.set_xn, State.set_nn, State.set_xsp,
    State.set_y, State.set_z, State.set_Tstress, State.set_Ttangent, State.set_Trule]
  split_ifs <;> exact ⟨rfl, rfl, rfl⟩

/-- `fcEtnf` assigns the rule 1 or the rule 5. -/
theorem fcEtnf_Trule (m : Libm) (s : State) (e : ℚ) :
    Post (fun t => t.T.Trule = 1 ∨ t.T.Trule = 5) (fcEtnf m s e) := by
  unfold fcEtnf
  exact
    post_any fun _ => post_any fun _ => post_any fun _ => post_any fun _ => post_any fun _ =>
    post_ite (fun _ => post_any fun _ => Or.inl rfl) (fun _ => post_any fun _ => Or.inr rfl)

/-- The statements of lines 310-334 set `Tinc` from the direction of the strain increment. -/
theorem setTrialStrain_L310_L334_Tinc (m : Libm) (s : State) (strain : ℚ) :
    Post (fun t => t.T.Tinc = if s.T.Tstrain > s.C.Cstrain then 1
      else if s.T.Tstrain < s.C.Cstrain then -1 else s.C.Cinc)
      (setTrialStrain_L310_L334 m s strain) := by
  unfold setTrialStrain_L310_L334
  refine post_andThen (fun t => t.T.Tinc = if s.T.Tstrain > s.C.Cstrain then 1
      else if s.T.Tstrain < s.C.Cstrain then -1 else s.C.Cinc) ?_ fun _ h => ?_
  · split_ifs <;> rfl
  · exact
      post_andThen _ h fun _ h => post_andThen _ h fun _ h => post_andThen _ h fun _ h =>
      post_andThen _ h fun _ h => post_andThen _ h fun _ h => post_andThen _ h fun _ h =>
      post_andThen _ h fun _ h => post_andThen _ h fun _ h => post_andThen _ h fun _ h =>
      post_andThen _ h fun _ h => post_andThen _ h fun _ h => post_andThen _ h fun _ h =>
      post_andThen _ h fun _ h => post_andThen _ h fun _ h => h

/-- The fourteen assignments `Teunn = 0.0; ...; Ted = 0.0` that close a first loading keep
the trial stress, tangent, rule and increment. -/
theorem onEnvelope_first (m : Libm) (s : State) (x : ℚ) (t : State)
    (h : OnEnvelope m s x t) :
    Post (OnEnvelope m s x)
      (andThen (t.set_Teunn 0) fun s =>
      andThen (s.set_Tfunn 0) fun s =>
      andThen (s.set_Teunp 0) fun s =>
      andThen (s.set_Tfunp 0) fun s =>
      andThen (s.set_Ter 0) fun s =>
      andThen (s.set_Tfr 0) fun s =>
      andThen (s.set_Ter0n 0) fun s =>
      andThen (s.set_Tfr0n 0) fun s =>
      andThen (s.set_Ter0p 0) fun s =>
      andThen (s.set_Tfr0p 0) fun s =>
      andThen (s.set_Te0 0) fun s =>
      andThen (s.set_Tea 0) fun s =>
      andThen (s.set_Teb 0) fun s =>
      s.set_Ted 0) :=
  post_andThen (OnEnvelope m s x) h fun _ h => post_andThen (OnEnvelope m s x) h fun _ h =>
  post_andThen (OnEnvelope m s x) h fun _ h => post_andThen (OnEnvelope m s x) h fun _ h =>
  post_andThen (OnEnvelope m s x) h fun _ h => post_andThen (OnEnvelope m s x) h fun _ h =>
  post_andThen (OnEnvelope m s x) h fun _ h => post_andThen (OnEnvelope m s x) h fun _ h =>
  post_andThen (OnEnvelope m s x) h fun _ h => post_andThen (OnEnvelope m s x) h fun _ h =>
  post_andThen (OnEnvelope m s x) h fun _ h => post_andThen (OnEnvelope m s x) h fun _ h =>
  post_andThen (OnEnvelope m s x) h fun _ h => h

/-- The envelope evaluation `fcEtnf(Tstrain); Tinc = -1.0;` of a first loading in compression. -/
theorem onEnvelope_fcEtnf (m : Libm) (s : State) (x : ℚ) (z : State) (hp : z.par = s.par)
    (hz : z.T.Tstrain = x) :
    OnEnvelope m s x (andThen (fcEtnf m z z.T.Tstrain) fun s => s.set_Tinc (-1)) := by
  have c := fcEtnf_congr m s z x hp
  rw [hz]
  exact ⟨c.1, c.2.1, c.2.2, rfl⟩

/-- A negative trial strain is evaluated on the compression envelope when the material is
monotonic (`mon = 1`), when nothing has been committed yet (`Cinc = 0`), or when the
committed point is on the compression envelope (rule 1 or 5, `Cinc = -1`) and the trial
strain does not exceed the committed strain. -/
theorem setTrialStrain_onEnvelope (m : Libm) (s : State) (x : ℚ) (hx : x < 0)
    (hs : s.par.mon = 1 ∨ s.C.Cinc = 0 ∨
      (s.C.Cinc = -1 ∧ (s.C.Crule = 1 ∨ s.C.Crule = 5) ∧ x ≤ s.C.Cstrain)) :
    Post (OnEnvelope m s x) (setTrialStrain m s x) := by
  unfold setTrialStrain
  refine post_andThen (fun y => y.par = s.par ∧ y.C = s.C) ?_ fun y hy => ?_
  · rw [revertToLastCommit_eq]; exact ⟨rfl, rfl⟩
  refine post_andThen (fun z => z.par = s.par ∧ z.C = s.C ∧ z.T.Tstrain = x)
    ⟨hy.1, hy.2, rfl⟩ fun z hz => ?_
  have hneg : z.T.Tstrain < 0 := by rw [hz.2.2]; exact hx
  refine post_ite (fun _ => ?_) fun hmon => post_ite (fun _ => ?_) fun hc0 => ?_
  · refine post_andThen (OnEnvelope m s x) ?_ fun t ht => onEnvelope_first m s x t ht
    rw [if_pos hneg]
    exact onEnvelope_fcEtnf m s x z hz.1 hz.2.2
  · refine post_andThen (OnEnvelope m s x) ?_ fun t ht => onEnvelope_first m s x t ht
    rw [if_pos hneg]
    exact onEnvelope_fcEtnf m s x z hz.1 hz.2.2
  · rw [hz.1] at hmon
    rw [hz.2.1] at hc0
    rcases hs with h | h | ⟨hinc, hrule, hle⟩
    · exact absurd h hmon
    · exact absurd h hc0
    unfold setTrialStrain_L276_else
    refine post_andThen
      (fun a => a.par = s.par ∧ a.C = s.C ∧ a.T.Tstrain = x ∧ a.T.Tinc = -1) ?_ fun a ha => ?_
    · have f := setTrialStrain_L310_L334_frame m z x
      have i := setTrialStrain_L310_L334_Tinc m z x
      refine ⟨f.1.trans hz.1, f.2.1.trans hz.2.1, f.2.2.trans hz.2.2, i.trans ?_⟩
      rw [hz.2.2, hz.2.1, if_neg (not_lt.mpr hle)]
      split_ifs
      · rfl
      · exact hinc
    refine post_andThen
      (fun b => b.par = s.par ∧ b.C = s.C ∧ b.T.Tstrain = x ∧ b.T.Tinc = -1) ?_ fun b hb => ?_
    · have k := setTrialStrain_L336_L362_keeps m a x
      refine ⟨k.1.trans ha.1, k.2.1.trans ha.2.1, ?_, ?_⟩
      · rw [k.2.2]; exact ha.2.2.1
      · rw [k.2.2]; exact ha.2.2.2
    have hbinc : b.C.Cinc = -1 := by rw [hb.2.1]; exact hinc
    have hbrule : b.C.Crule = 1 ∨ b.C.Crule = 5 := by rw [hb.2.1]; exact hrule
    have hble : ¬ b.T.Tstrain > b.C.Cstrain := by
      rw [hb.2.1, hb.2.2.1]; exact not_lt.mpr hle
    rw [if_pos hbinc]
    unfold setTrialStrain_L365
    rw [if_neg hble]
    unfold setTrialStrain_L367_else
    have h4 : ¬ (b.C.Crule = 4 ∨ b.C.Crule = 10 ∨ b.C.Crule = 7) := by
      rcases hbrule with h | h <;> rw [h] <;> norm_num
    rw [if_neg h4, if_pos hbrule]
    have c := fcEtnf_congr m s b x hb.1
    have i := fcEtnf_keeps_Tinc m b x
    rw [hb.2.2.1]
    exact ⟨c.1, c.2.1, c.2.2, i.trans hb.2.2.2⟩

/-- At the normalised strain `x = 1` the Tsai curve `yf` has the value `1`. -/
theorem yf_one (m : Libm) (s : State) (n r : ℚ) (hn : 0 < n) (hpow : m.pow 1 r = 1)
    (hlog : m.log10 1 = 0) : (yf m s 1 n r).w.y = 1 := by
  show n * 1 / (if r ≠ 1 then 1 + (n - r / (r - 1)) * 1 + (m.pow 1 r) / (r - 1)
    else 1 + (n - 1 + (m.log10 1)) * 1) = 1
  have hn0 : n ≠ 0 := ne_of_gt hn
  split_ifs with h
  · have hr : r - 1 ≠ 0 := sub_ne_zero.mpr h
    rw [hpow]
    have e : 1 + (n - r / (r - 1)) * 1 + 1 / (r - 1) = n := by
      field_simp
    rw [e, mul_one, div_self hn0]
  · rw [hlog]
    have e : 1 + (n - 1 + 0) * 1 = n := by ring
    rw [e, mul_one, div_self hn0]

/-- Rule 1 at the normalised strain `1`, below the critical strain: the stress is `fpcc`. -/
theorem r1f_one (m : Libm) (s : State) (n r : ℚ) (hx : 1 < s.par.xcrn) (hn : 0 < n)
    (hpow : m.pow 1 r = 1) (hlog : m.log10 1 = 0) :
    Post (fun t => t.T.Tstress = s.par.fpcc) (r1f m s 1 n r) := by
  unfold r1f
  rw [if_pos hx]
  exact
    post_andThen (fun a => a.par = s.par ∧ a.w.y = 1) ⟨rfl, yf_one m s n r hn hpow hlog⟩
      fun a ha =>
    post_andThen (fun b => b.par = s.par ∧ b.w.y = 1) ⟨ha.1, ha.2⟩ fun b hb =>
    post_andThen (fun c => c.T.Tstress = s.par.fpcc)
      (show b.par.fpcc * b.w.y = s.par.fpcc by rw [hb.1, hb.2, mul_one]) fun c hc => hc

/-- The peak of the compression envelope: when the spalling ratio `xsp` that `fcEtnf`
computes is at least `1`, the strain `epcc` is evaluated by rule 1 and its stress is `fpcc`. -/
theorem fcEtnf_peak (m : Libm) (s : State) (hf : s.par.fpcc < 0) (he : s.par.epcc < 0)
    (hE : 0 < s.par.Ec) (hx : 1 < s.par.xcrn) (hpow : m.pow 1 s.par.rc = 1)
    (hlog : m.log10 1 = 0) :
    Post (fun t => 1 ≤ t.w.xsp → t.T.Tstress = s.par.fpcc ∧ t.T.Trule = 1)
      (fcEtnf m s s.par.epcc) := by
  have h1 : fabs (s.par.epcc / s.par.epcc) = 1 := by
    rw [div_self (ne_of_lt he)]
    unfold fabs
    norm_num
  have hn : 0 < fabs (s.par.Ec * s.par.epcc / s.par.fpcc) := by
    have hpos : 0 < s.par.Ec * s.par.epcc / s.par.fpcc :=
      div_pos_of_neg_of_neg (mul_neg_of_pos_of_neg hE he) hf
    unfold fabs
    rw [if_neg (not_lt.mpr (le_of_lt hpos))]
    exact hpos
  unfold fcEtnf
  refine post_andThen (fun a => a.par = s.par ∧ a.w.xn = 1) ⟨rfl, h1⟩ fun a ha => ?_
  refine post_andThen (fun b => b.par = s.par ∧ b.w.xn = 1 ∧ 0 < b.w.nn)
    ⟨ha.1, ha.2, ?_⟩ fun b hb => ?_
  · show 0 < fabs (a.par.Ec * a.par.epcc / a.par.fpcc)
    rw [ha.1]; exact hn
  refine post_andThen (fun c => c.par = s.par ∧ c.w.xn = 1 ∧ 0 < c.w.nn)
    ⟨hb.1, hb.2.1, hb.2.2⟩ fun c hc => ?_
  refine post_andThen (fun d => d.par = s.par ∧ d.w.xn = 1 ∧ 0 < d.w.nn)
    ⟨hc.1, hc.2.1, hc.2.2⟩ fun d hd => ?_
  refine post_andThen (fun e => e.par = s.par ∧ e.w.xn = 1 ∧ 0 < e.w.nn)
    ⟨hd.1, hd.2.1, hd.2.2⟩ fun e he5 => ?_
  refine post_ite (fun _ => ?_) (fun hgt => ?_)
  · refine post_andThen (fun g => g.T.Tstress = s.par.fpcc) ?_ fun g hg => fun _ => ⟨hg, rfl⟩
    have hx5 : 1 < e.par.xcrn := by rw [he5.1]; exact hx
    have hp5 : m.pow 1 e.par.rc = 1 := by rw [he5.1]; exact hpow
    have r := r1f_one m e e.w.nn e.par.rc hx5 he5.2.2 hp5 hlog
    rw [he5.2.1, ← he5.1]
    exact r
  · refine post_andThen (fun g => g.w.xsp = e.w.xsp) (r5f_keeps_xsp ..) fun g hg => ?_
    intro h
    have h2 : 1 ≤ g.w.xsp := h
    rw [hg] at h2
    rw [he5.2.1] at hgt
    exact absurd h2 hgt

/-- The state after a commit of an object on the compression envelope. -/
theorem commitState_onEnvelope (m : Libm) (c t : State) (x : ℚ)
    (ht : OnEnvelope m c x t) (hf : t.par = c.par ∧ t.C = c.C ∧ t.T.Tstrain = x) :
    (commitState t).par = c.par ∧ (commitState t).C.Cinc = -1 ∧
    ((commitState t).C.Crule = 1 ∨ (commitState t).C.Crule = 5) ∧
    (commitState t).C.Cstrain = x := by
  rw [commitState_eq]
  refine ⟨hf.1, ht.2.2.2, ?_, hf.2.2⟩
  show t.T.Trule = 1 ∨ t.T.Trule = 5
  rw [ht.2.2.1]
  exact fcEtnf_Trule m c x

/-- Along a non-increasing history of negative strains, each committed, that starts from an
object that is monotonic, or has nothing committed, or is committed on the compression
envelope at a strain not below the first one, every stress is the envelope stress that
`fcEtnf` computes from the parameters for the strain of the step. -/
theorem loadPath_onEnvelope (m : Libm) (s0 : State) (xs : List ℚ) :
    ∀ c : State, c.par = s0.par → (∀ x ∈ xs, x < 0) →
      (c.par.mon = 1 ∨ c.C.Cinc = 0 ∨
        (c.C.Cinc = -1 ∧ (c.C.Crule = 1 ∨ c.C.Crule = 5) ∧
          List.Chain (fun a b => b ≤ a) c.C.Cstrain xs)) →
      List.Chain' (fun a b => b ≤ a) xs →
      (loadPath m c xs).map getStress = xs.map (fun x => getStress (fcEtnf m s0 x)) := by
  induction xs with
  | nil => intro c _ _ _ _; rfl
  | cons x xs ih =>
    intro c hp hneg hs hch
    have hx : x < 0 := hneg x (List.mem_cons_self x xs)
    have hs2 : c.par.mon = 1 ∨ c.C.Cinc = 0 ∨
        (c.C.Cinc = -1 ∧ (c.C.Crule = 1 ∨ c.C.Crule = 5) ∧ x ≤ c.C.Cstrain) := by
      rcases hs with h | h | ⟨h1, h2, h3⟩
      · exact Or.inl h
      · exact Or.inr (Or.inl h)
      · exact Or.inr (Or.inr ⟨h1, h2, (List.chain_cons.mp h3).1⟩)
    have ht : OnEnvelope m c x (setTrialStrain m c x) := setTrialStrain_onEnvelope m c x hx hs2
    have hf := setTrialStrain_frame m c x
    have hc := commitState_onEnvelope m c (setTrialStrain m c x) x ht hf
    have hstress : getStress (setTrialStrain m c x) = getStress (fcEtnf m s0 x) := by
      show (setTrialStrain m c x).T.Tstress = (fcEtnf m s0 x).T.Tstress
      rw [ht.1]
      exact (fcEtnf_congr m s0 c x hp).1
    simp only [loadPath, List.map_cons, hstress]
    congr 1
    apply ih (commitState (setTrialStrain m c x)) (hc.1.trans hp)
      (fun y hy => hneg y (List.mem_cons_of_mem x hy))
    · refine Or.inr (Or.inr ⟨hc.2.1, hc.2.2.1, ?_⟩)
      rw [hc.2.2.2]
      exact hch
    · exact (List.chain'_cons'.mp hch).2

/-- A constructed object has the parameters given to the constructor, and nothing committed. -/
theorem construct_eq (tag : Int) (FPCC EPCC EC RC XCRN FT ET RT XCRP : ℚ) (MON GAP : Int)
    (u : State) :
    (construct tag FPCC EPCC EC RC XCRN FT ET RT XCRP MON GAP u).par =
      { tag := tag, fpcc := FPCC, epcc := EPCC, Ec := EC, rc := RC, xcrn := XCRN,
        ft := FT, et := ET, rt := RT, xcrp := XCRP, mon := MON, Gap := GAP } ∧
    (construct tag FPCC EPCC EC RC XCRN FT ET RT XCRP MON GAP u).C = Committed.init := by
  unfold construct
  rw [revertToLastCommit_eq]
  exact ⟨rfl, rfl⟩

/-- C2. Cyclic model: for an instance fresh from any of the three constructors, with
`fpcc < 0`, `epcc < 0`, `Ec > 0`, `xcrn > 1` and a spalling ratio `xsp` (as `fcEtnf` computes
it) of at least `1`, and a library with `pow(1, rc) = 1` and `log10(1) = 0`:
`setTrialStrain(epcc)` gives the stress `fpcc` exactly, by rule 1; and along every
non-increasing sequence of negative trial strains, each committed, the stress of every step
is the stress that the compression envelope `fcEtnf` computes for the strain of that step
from the fresh instance. -/
theorem cyclic_monotonic_compression_traces_envelope (m : Libm) (tag : Int)
    (fpcc epcc Ec rc xcrn ft et rt xcrp : ℚ) (MON GAP : Int) (u : State)
    (hf : fpcc < 0) (he : epcc < 0) (hE : 0 < Ec) (hx : 1 < xcrn)
    (hpow : m.pow 1 rc = 1) (hlog : m.log10 1 = 0)
    (hsp : 1 ≤ (fcEtnf m (construct tag fpcc epcc Ec rc xcrn ft et rt xcrp MON GAP u) epcc).w.xsp) :
    (getStress (setTrialStrain m (construct tag fpcc epcc Ec rc xcrn ft et rt xcrp MON GAP u) epcc)
        = fpcc ∧
      (setTrialStrain m (construct tag fpcc epcc Ec rc xcrn ft et rt xcrp MON GAP u) epcc).T.Trule
        = 1) ∧
    ∀ xs : List ℚ, List.Chain' (fun a b => b ≤ a) xs → (∀ x ∈ xs, x < 0) →
      (loadPath m (construct tag fpcc epcc Ec rc xcrn ft et rt xcrp MON GAP u) xs).map getStress
        = xs.map (fun x =>
            getStress (fcEtnf m (construct tag fpcc epcc Ec rc xcrn ft et rt xcrp MON GAP u) x)) := by
  have hc := construct_eq tag fpcc epcc Ec rc xcrn ft et rt xcrp MON GAP u
  generalize construct tag fpcc epcc Ec rc xcrn ft et rt xcrp MON GAP u = s0 at hc hsp ⊢
  have hinc : s0.C.Cinc = 0 := by rw [hc.2]; rfl
  have e1 : s0.par.fpcc = fpcc := by rw [hc.1]
  have e2 : s0.par.epcc = epcc := by rw [hc.1]
  have e3 : s0.par.Ec = Ec := by rw [hc.1]
  have e4 : s0.par.xcrn = xcrn := by rw [hc.1]
  have e5 : s0.par.rc = rc := by rw [hc.1]
  constructor
  · have ht := setTrialStrain_onEnvelope m s0 epcc he (Or.inr (Or.inl hinc))
    have hp := fcEtnf_peak m s0 (by rw [e1]; exact hf) (by rw [e2]; exact he)
      (by rw [e3]; exact hE) (by rw [e4]; exact hx) (by rw [e5]; exact hpow) hlog
    rw [e2] at hp
    have hp2 := hp hsp
    rw [e1] at hp2
    exact ⟨ht.1.trans hp2.1, ht.2.2.1.trans hp2.2⟩
  · intro xs hch hneg
    exact loadPath_onEnvelope m s0 xs s0 rfl hneg (Or.inr (Or.inl hinc)) hch

/-- Witness of C2: the instance `fpcc = -30`, `epcc = -0.002`, `Ec = 30000`, `rc = 7`,
`xcrn = 2` of the typical constructor, evaluated with the library `Libm.sample`. -/
theorem cyclic_monotonic_compression_witness :
    (getStress (setTrialStrain Libm.sample
        (construct 1 (-30) (-0.002) 30000 7 2 3 0.0001 2 3 0 0 State.zero) (-0.002)) = -30 ∧
      (setTrialStrain Libm.sample
        (construct 1 (-30) (-0.002) 30000 7 2 3 0.0001 2 3 0 0 State.zero) (-0.002)).T.Trule = 1) ∧
    ∀ xs : List ℚ, List.Chain' (fun a b => b ≤ a) xs → (∀ x ∈ xs, x < 0) →
      (loadPath Libm.sample (construct 1 (-30) (-0.002) 30000 7 2 3 0.0001 2 3 0 0 State.zero)
          xs).map getStress
        = xs.map (fun x => getStress (fcEtnf Libm.sample
            (construct 1 (-30) (-0.002) 30000 7 2 3 0.0001 2 3 0 0 State.zero) x)) :=
  cyclic_monotonic_compression_traces_envelope Libm.sample 1 (-30) (-0.002) 30000 7 2 3 0.0001
    2 3 0 0 State.zero (by norm_num) (by norm_num) (by norm_num) (by norm_num) (by decide!)
    (by decide!) (by decide!)

/-- The stresses of the history `-0.001, -0.002, -0.002, -0.003` of that instance: the
second and third are the peak `fpcc = -30`. -/
theorem cyclic_monotonic_compression_values :
    ((loadPath Libm.sample (construct 1 (-30) (-0.002) 30000 7 2 3 0.0001 2 3 0 0 State.zero)
      [-0.001, -0.002, -0.002, -0.003]).map getStress) = [-2560 / 121, -30, -30, -512 / 29] := by
  decide!

/-- The plastic strain `espln` that `esplnf` computes depends on the input parameters and on
the unloading point only. -/
theorem esplnf_congr (s t : State) (eunn funn : ℚ) (h : t.par = s.par) :
    (esplnf t eunn funn).w.espln = (esplnf s eunn funn).w.espln := by
  show eunn - funn / (t.par.Ec * (((fabs (funn / (t.par.Ec * t.par.epcc))) + 0.57) /
      ((fabs (eunn / t.par.epcc)) + 0.57)))
    = eunn - funn / (s.par.Ec * (((fabs (funn / (s.par.Ec * s.par.epcc))) + 0.57) /
      ((fabs (eunn / s.par.epcc)) + 0.57)))
  rw [h]

/-- A statement that assigns working storage only keeps `Unloading`. -/
theorem Unloading.keeps {s x y : State} (h : Unloading s x) (k : Keeps x y) : Unloading s y :=
  ⟨k.1.trans h.1, k.2.1.trans h.2.1, (congrArg Trial.Tstrain k.2.2).trans h.2.2.1,
    (congrArg Trial.Teunn k.2.2).trans h.2.2.2.1, (congrArg Trial.Tfunn k.2.2).trans h.2.2.2.2⟩

/-- The statements of lines 371-382, which open a reversal out of rule 1, 5 or 7: the
unloading point is the committed point, and `espln` is its plastic strain. -/
theorem setTrialStrain_L371_L382_spec (m : Libm) (s : State) (strain : ℚ) :
    Post (fun t => Unloading s t ∧ t.w.espln = (esplnf s s.C.Cstrain s.C.Cstress).w.espln)
      (setTrialStrain_L371_L382 m s strain) := by
  unfold setTrialStrain_L371_L382
  refine post_andThen (fun a => a.par = s.par ∧ a.C = s.C ∧ a.T.Tstrain = s.T.Tstrain ∧
      a.T.Teunn = s.C.Cstrain) ⟨rfl, rfl, rfl, rfl⟩ fun a ha => ?_
  refine post_andThen (Unloading s)
    ⟨ha.1, ha.2.1, ha.2.2.1, ha.2.2.2, congrArg Committed.Cstress ha.2.1⟩ fun b hb => ?_
  refine post_andThen (Unloading s)
    ⟨(e0eunpfunpf_frame ..).1.trans hb.1, (e0eunpfunpf_frame ..).2.1.trans hb.2.1,
      (e0eunpfunpf_frame ..).2.2.trans hb.2.2.1,
      (e0eunpfunpf_keeps_Teunn ..).trans hb.2.2.2.1,
      (e0eunpfunpf_keeps_Tfunn ..).trans hb.2.2.2.2⟩ fun c hc => ?_
  refine post_andThen
    (fun d => Unloading s d ∧ d.w.espln = (esplnf s s.C.Cstrain s.C.Cstress).w.espln)
    ⟨hc.keeps (esplnf_keeps ..), ?_⟩ fun d hd => ?_
  · rw [hc.2.2.2.1, hc.2.2.2.2]
    exact esplnf_congr s c _ _ hc.1
  refine post_andThen
    (fun d => Unloading s d ∧ d.w.espln = (esplnf s s.C.Cstrain s.C.Cstress).w.espln)
    ⟨hd.1.keeps (Eplnf_keeps ..), (Eplnf_keeps_espln ..).trans hd.2⟩ fun d hd => ?_
  refine post_andThen
    (fun d => Unloading s d ∧ d.w.espln = (esplnf s s.C.Cstrain s.C.Cstress).w.espln)
    ⟨hd.1.keeps (fnewpf_keeps ..), (fnewpf_keeps_espln ..).trans hd.2⟩ fun d hd => ?_
  refine post_andThen
    (fun d => Unloading s d ∧ d.w.espln = (esplnf s s.C.Cstrain s.C.Cstress).w.espln)
    ⟨hd.1.keeps (Enewpf_keeps ..), (Enewpf_keeps_espln ..).trans hd.2⟩ fun d hd => ?_
  refine post_andThen
    (fun d => Unloading s d ∧ d.w.espln = (esplnf s s.C.Cstrain s.C.Cstress).w.espln)
    ⟨hd.1.keeps (esrepf_keeps ..), (esrepf_keeps_espln ..).trans hd.2⟩ fun d hd => ?_
  exact ⟨hd.1.keeps (freErepf_keeps ..), (freErepf_keeps_espln ..).trans hd.2⟩

/-- C18. Cyclic model: the vector of 31 entries written by `sendSelf`, read by a
successful `recvSelf` into a default-constructed object, gives the receiver the tag, the
input parameters and the committed variables of the sender, sets its trial strain, stress
and tangent to the committed ones, and `recvSelf` returns the status of the channel. -/
theorem sendSelf_recvSelf_round_trip (s u : State) (res : Int) (h : 0 ≤ res) :
    (recvSelf (newDefault u) res (sendSelf s)).1.par = s.par ∧
    (recvSelf (newDefault u) res (sendSelf s)).1.C = s.C ∧
    (recvSelf (newDefault u) res (sendSelf s)).1.T.Tstrain = s.C.Cstrain ∧
    (recvSelf (newDefault u) res (sendSelf s)).1.T.Tstress = s.C.Cstress ∧
    (recvSelf (newDefault u) res (sendSelf s)).1.T.Ttangent = s.C.Ctangent ∧
    (recvSelf (newDefault u) res (sendSelf s)).2 = res := by
  have hn : ¬ res < 0 := not_lt.2 h
  rcases s with ⟨⟨tag, fpcc, epcc, Ec, rc, xcrn, ft, et, rt, xcrp, mon, Gap⟩, ⟨
      ceunn, cfunn, ceunp, cfunp, cer, cfr, cer0n, cfr0n, cer0p, cfr0p, ce0, cea, ceb, ced, cinc,
      crule, cstrain, cstress, ctangent⟩, T, w⟩
  unfold recvSelf
  rw [if_neg hn]
  simp only [sendSelf, List.getD_cons_zero, List.getD_cons_succ, toInt_intCast]
  exact ⟨trivial, trivial, trivial, trivial, trivial, trivial⟩

/-- Witness of C18: the object `rule11Object` sent to a default-constructed object. -/
theorem sendSelf_recvSelf_round_trip_witness :
    (0 : Int) ≤ 0 ∧
    ((recvSelf (newDefault State.zero) 0 (sendSelf rule11Object)).1.par = rule11Object.par ∧
    (recvSelf (newDefault State.zero) 0 (sendSelf rule11Object)).1.C = rule11Object.C ∧
    (recvSelf (newDefault State.zero) 0 (sendSelf rule11Object)).1.T.Tstrain
      = rule11Object.C.Cstrain ∧
    (recvSelf (newDefault State.zero) 0 (sendSelf rule11Object)).1.T.Tstress
      = rule11Object.C.Cstress ∧
    (recvSelf (newDefault State.zero) 0 (sendSelf rule11Object)).1.T.Ttangent
      = rule11Object.C.Ctangent ∧
    (recvSelf (newDefault State.zero) 0 (sendSelf rule11Object)).2 = 0) :=
  ⟨le_refl 0, sendSelf_recvSelf_round_trip rule11Object State.zero 0 (le_refl 0)⟩

/-- C20 (amended). Cyclic model: when the channel reports a negative status, `recvSelf`
returns that status, sets the tag of the object to 0, and leaves every other member as
it was. -/
theorem recvSelf_failure_resets_tag (s : State) (res : Int) (data : List ℚ) (h : res < 0) :
    (recvSelf s res data).2 = res ∧
    (recvSelf s res data).1.par.tag = 0 ∧
    (recvSelf s res data).1.par.fpcc = s.par.fpcc ∧
    (recvSelf s res data).1.par.epcc = s.par.epcc ∧
    (recvSelf s res data).1.par.Ec = s.par.Ec ∧
    (recvSelf s res data).1.par.rc = s.par.rc ∧
    (recvSelf s res data).1.par.xcrn = s.par.xcrn ∧
    (recvSelf s res data).1.par.ft = s.par.ft ∧
    (recvSelf s res data).1.par.et = s.par.et ∧
    (recvSelf s res data).1.par.rt = s.par.rt ∧
    (recvSelf s res data).1.par.xcrp = s.par.xcrp ∧
    (recvSelf s res data).1.par.mon = s.par.mon ∧
    (recvSelf s res data).1.par.Gap = s.par.Gap ∧
    (recvSelf s res data).1.C = s.C ∧
    (recvSelf s res data).1.T = s.T ∧
    (recvSelf s res data).1.w = s.w := by
  unfold recvSelf
  rw [if_pos h]
  exact ⟨rfl, rfl, rfl, rfl, rfl, rfl, rfl, rfl, rfl, rfl, rfl, rfl, rfl, rfl, rfl, rfl⟩

/-- Witness of the amended C20: the specimen and the status `-1`. -/
theorem recvSelf_failure_resets_tag_witness :
    (-1 : Int) < 0 ∧
    ((recvSelf specimen (-1) (sendSelf rule11Object)).2 = -1 ∧
    (recvSelf specimen (-1) (sendSelf rule11Object)).1.par.tag = 0 ∧
    (recvSelf specimen (-1) (sendSelf rule11Object)).1.par.fpcc = specimen.par.fpcc ∧
    (recvSelf specimen (-1) (sendSelf rule11Object)).1.par.epcc = specimen.par.epcc ∧
    (recvSelf specimen (-1) (sendSelf rule11Object)).1.par.Ec = specimen.par.Ec ∧
    (recvSelf specimen (-1) (sendSelf rule11Object)).1.par.rc = specimen.par.rc ∧
    (recvSelf specimen (-1) (sendSelf rule11Object)).1.par.xcrn = specimen.par.xcrn ∧
    (recvSelf specimen (-1) (sendSelf rule11Object)).1.par.ft = specimen.par.ft ∧
    (recvSelf specimen (-1) (sendSelf rule11Object)).1.par.et = specimen.par.et ∧
    (recvSelf specimen (-1) (sendSelf rule11Object)).1.par.rt = specimen.par.rt ∧
    (recvSelf specimen (-1) (sendSelf rule11Object)).1.par.xcrp = specimen.par.xcrp ∧
    (recvSelf specimen (-1) (sendSelf rule11Object)).1.par.mon = specimen.par.mon ∧
    (recvSelf specimen (-1) (sendSelf rule11Object)).1.par.Gap = specimen.par.Gap ∧
    (recvSelf specimen (-1) (sendSelf rule11Object)).1.C = specimen.C ∧
    (recvSelf specimen (-1) (sendSelf rule11Object)).1.T = specimen.T ∧
    (recvSelf specimen (-1) (sendSelf rule11Object)).1.w = specimen.w) :=
  ⟨by decide, recvSelf_failure_resets_tag specimen (-1) (sendSelf rule11Object) (by decide)⟩

/-- Counterexample to C20 as stated: the specimen has the tag 1; after a `recvSelf` that
fails with the status `-1` its tag is 0, so the object is not as it was before the call. -/
theorem recvSelf_failure_changes_tag :
    specimen.par.tag = 1 ∧
    (recvSelf specimen (-1) (sendSelf rule11Object)).2 = -1 ∧
    (recvSelf specimen (-1) (sendSelf rule11Object)).1.par.tag = 0 ∧
    (recvSelf specimen (-1) (sendSelf rule11Object)).1 ≠ specimen := by
  decide!

/-- The envelope stress, tangent and rule computed by `fcEtpf` depend on the input
parameters, the strain and the shift `e0` only. -/
theorem fcEtpf_congr (m : Libm) (s t : State) (e e0 : ℚ) (h : t.par = s.par) :
    (fcEtpf m t e e0).T.Tstress = (fcEtpf m s e e0).T.Tstress ∧
    (fcEtpf m t e e0).T.Ttangent = (fcEtpf m s e e0).T.Ttangent ∧
    (fcEtpf m t e e0).T.Trule = (fcEtpf m s e e0).T.Trule := by
  rcases s with ⟨par, C, T, w⟩
  rcases t with ⟨par2, C2, T2, w2⟩
  cases h
  simp only [fcEtpf, r2f, r6f, yf, zf, andThen, State.set_xp, State.set_np, State.set_xcrk,
    State.set_y, State.set_z, State.set_Tstress, State.set_Ttangent, State.set_Trule]
  split_ifs <;> exact ⟨rfl, rfl, rfl⟩

/-- `fcEtpf` assigns the rule 2 or the rule 6. -/
theorem fcEtpf_Trule (m : Libm) (s : State) (e e0 : ℚ) :
    Post (fun t => t.T.Trule = 2 ∨ t.T.Trule = 6) (fcEtpf m s e e0) := by
  unfold fcEtpf
  exact
    post_any fun _ => post_any fun _ => post_any fun _ => post_any fun _ => post_any fun _ =>
    post_ite (fun _ => post_any fun _ => Or.inl rfl) (fun _ => post_any fun _ => Or.inr rfl)

/-- The fourteen assignments `Teunn = 0.0; ...; Ted = 0.0` that close a first loading: the
trial stress, tangent, rule and increment are kept, the history variables are zero. -/
theorem first_loading_tail (t : State) :
    Post (fun r => (r.T.Tstress = t.T.Tstress ∧ r.T.Ttangent = t.T.Ttangent ∧
        r.T.Trule = t.T.Trule ∧ r.T.Tinc = t.T.Tinc) ∧ HistoryZero r)
      (andThen (t.set_Teunn 0) fun s =>
      andThen (s.set_Tfunn 0) fun s =>
      andThen (s.set_Teunp 0) fun s =>
      andThen (s.set_Tfunp 0) fun s =>
      andThen (s.set_Ter 0) fun s =>
      andThen (s.set_Tfr 0) fun s =>
      andThen (s.set_Ter0n 0) fun s =>
      andThen (s.set_Tfr0n 0) fun s =>
      andThen (s.set_Ter0p 0) fun s =>
      andThen (s.set_Tfr0p 0) fun s =>
      andThen (s.set_Te0 0) fun s =>
      andThen (s.set_Tea 0) fun s =>
      andThen (s.set_Teb 0) fun s =>
      s.set_Ted 0) := by
  rcases t with ⟨par, C, ⟨
      teunn, tfunn, teunp, tfunp, ter, tfr, ter0n, tfr0n, ter0p, tfr0p, te0, tea, teb, ted, tinc,
      trule, tstrain, tstress, ttangent⟩, w⟩
  exact ⟨⟨rfl, rfl, rfl, rfl⟩, rfl, rfl, rfl, rfl, rfl, rfl, rfl, rfl, rfl, rfl, rfl, rfl, rfl, rfl⟩

/-- The envelope evaluation that opens a first loading (lines 244-257 and 277-290). -/
theorem first_loading_envelope (m : Libm) (s : State) (e : ℚ) (z : State)
    (hp : z.par = s.par) (hC : z.C = s.C) (hz : z.T.Tstrain = e) :
    Post (FirstLoading m s e)
      (if z.T.Tstrain < 0 then
          andThen (fcEtnf m z z.T.Tstrain) fun s =>
          s.set_Tinc (-1)
        else if z.T.Tstrain > 0 then
          andThen (fcEtpf m z z.T.Tstrain z.C.Ce0) fun s =>
          s.set_Tinc 1
        else
          andThen (z.set_Tstress 0) fun s =>
          andThen (s.set_Ttangent s.par.Ec) fun s =>
          andThen (s.set_Trule 0) fun s =>
          s.set_Tinc 0) := by
  rw [hz, hC]
  refine post_ite (fun hn => ?_) fun hn => post_ite (fun hpos => ?_) fun hpos => ?_
  · have c := fcEtnf_congr m s z e hp
    have r : (fcEtnf m z e).T.Trule = 1 ∨ (fcEtnf m z e).T.Trule = 5 := fcEtnf_Trule m z e
    exact ⟨fun _ => ⟨c.1, c.2.1, r, rfl⟩, fun h => absurd hn (not_lt.2 h.le),
      fun h => absurd hn (by rw [h]; exact lt_irrefl 0)⟩
  · have c := fcEtpf_congr m s z e s.C.Ce0 hp
    have r : (fcEtpf m z e s.C.Ce0).T.Trule = 2 ∨ (fcEtpf m z e s.C.Ce0).T.Trule = 6 :=
      fcEtpf_Trule m z e s.C.Ce0
    exact ⟨fun h => absurd h hn, fun _ => ⟨c.1, c.2.1, r, rfl⟩,
      fun h => absurd hpos (by rw [h]; exact lt_irrefl 0)⟩
  · exact ⟨fun h => absurd h hn, fun h => absurd h hpos,
      fun _ => ⟨rfl, congrArg Params.Ec hp, rfl, rfl⟩⟩

/-- C12. Cyclic model, first call: for an object whose committed increment `Cinc` is 0,
`setTrialStrain(e)` with `e < 0` stores the stress and tangent of the compression
envelope `fcEtnf`, a rule in `{1, 5}` and `Tinc = -1`; with `e > 0` the stress and tangent
of the tension envelope `fcEtpf` (shifted by `Ce0`), a rule in `{2, 6}` and `Tinc = 1`;
with `e = 0` the stress 0, the tangent `Ec`, the rule 0 and `Tinc = 0`; in the three cases
the fourteen trial history variables `Teunn` ... `Ted` are 0. -/
theorem first_call_evaluates_envelope (m : Libm) (s : State) (e : ℚ) (h0 : s.C.Cinc = 0) :
    (e < 0 → (setTrialStrain m s e).T.Tstress = (fcEtnf m s e).T.Tstress ∧
      (setTrialStrain m s e).T.Ttangent = (fcEtnf m s e).T.Ttangent ∧
      ((setTrialStrain m s e).T.Trule = 1 ∨ (setTrialStrain m s e).T.Trule = 5) ∧
      (setTrialStrain m s e).T.Tinc = -1) ∧
    (e > 0 → (setTrialStrain m s e).T.Tstress = (fcEtpf m s e s.C.Ce0).T.Tstress ∧
      (setTrialStrain m s e).T.Ttangent = (fcEtpf m s e s.C.Ce0).T.Ttangent ∧
      ((setTrialStrain m s e).T.Trule = 2 ∨ (setTrialStrain m s e).T.Trule = 6) ∧
      (setTrialStrain m s e).T.Tinc = 1) ∧
    (e = 0 → (setTrialStrain m s e).T.Tstress = 0 ∧
      (setTrialStrain m s e).T.Ttangent = s.par.Ec ∧
      (setTrialStrain m s e).T.Trule = 0 ∧ (setTrialStrain m s e).T.Tinc = 0) ∧
    ((setTrialStrain m s e).T.Teunn = 0 ∧ (setTrialStrain m s e).T.Tfunn = 0 ∧
      (setTrialStrain m s e).T.Teunp = 0 ∧ (setTrialStrain m s e).T.Tfunp = 0 ∧
      (setTrialStrain m s e).T.Ter = 0 ∧ (setTrialStrain m s e).T.Tfr = 0 ∧
      (setTrialStrain m s e).T.Ter0n = 0 ∧ (setTrialStrain m s e).T.Tfr0n = 0 ∧
      (setTrialStrain m s e).T.Ter0p = 0 ∧ (setTrialStrain m s e).T.Tfr0p = 0 ∧
      (setTrialStrain m s e).T.Te0 = 0 ∧ (setTrialStrain m s e).T.Tea = 0 ∧
      (setTrialStrain m s e).T.Teb = 0 ∧ (setTrialStrain m s e).T.Ted = 0) := by
  have key : Post (fun t => FirstLoading m s e t ∧ HistoryZero t) (setTrialStrain m s e) := by
    unfold setTrialStrain
    refine post_andThen (fun y => y.par = s.par ∧ y.C = s.C) ?_ fun y hy => ?_
    · rw [revertToLastCommit_eq]; exact ⟨rfl, rfl⟩
    refine post_andThen (fun z => z.par = s.par ∧ z.C = s.C ∧ z.T.Tstrain = e)
      ⟨hy.1, hy.2, rfl⟩ fun z hz => ?_
    have tail : ∀ t : State, FirstLoading m s e t →
        Post (fun r => FirstLoading m s e r ∧ HistoryZero r)
          (andThen (t.set_Teunn 0) fun s =>
          andThen (s.set_Tfunn 0) fun s =>
          andThen (s.set_Teunp 0) fun s =>
          andThen (s.set_Tfunp 0) fun s =>
          andThen (s.set_Ter 0) fun s =>
          andThen (s.set_Tfr 0) fun s =>
          andThen (s.set_Ter0n 0) fun s =>
          andThen (s.set_Tfr0n 0) fun s =>
          andThen (s.set_Ter0p 0) fun s =>
          andThen (s.set_Tfr0p 0) fun s =>
          andThen (s.set_Te0 0) fun s =>
          andThen (s.set_Tea 0) fun s =>
          andThen (s.set_Teb 0) fun s =>
          s.set_Ted 0) := by
      intro t ht
      obtain ⟨⟨e1, e2, e3, e4⟩, hz0⟩ := first_loading_tail t
      refine ⟨⟨fun h => ?_, fun h => ?_, fun h => ?_⟩, hz0⟩
      · rw [e1, e2, e3, e4]; exact ht.1 h
      · rw [e1, e2, e3, e4]; exact ht.2.1 h
      · rw [e1, e2, e3, e4]; exact ht.2.2 h
    refine post_ite (fun _ => ?_) fun _ => post_ite (fun _ => ?_) fun hc => ?_
    · exact post_andThen (FirstLoading m s e) (first_loading_envelope m s e z hz.1 hz.2.1 hz.2.2)
        tail
    · exact post_andThen (FirstLoading m s e) (first_loading_envelope m s e z hz.1 hz.2.1 hz.2.2)
        tail
    · rw [hz.2.1] at hc
      exact absurd h0 hc
  exact ⟨key.1.1, key.1.2.1, key.1.2.2, key.2⟩

/-- The statements that follow `r3f`, `r9f` or `r8f` in a reversal: the rule `k` is
assigned, and the unloading point is left as it is. -/
theorem rule_fit_tail (m : Libm) (d : State) (k : ℚ) :
    Post (fun t => t.T.Trule = k ∧ t.T.Teunn = d.T.Teunn ∧ t.T.Tfunn = d.T.Tfunn)
      (andThen (d.set_Trule k) fun s =>
      andThen (RAf m s s.w.esi s.w.fi s.w.Ei s.w.esf s.w.ff s.w.Ef) fun s =>
      andThen (fcEturf m s s.T.Tstrain s.w.esi s.w.fi s.w.esf s.w.ff s.w.Ei s.w.Ef s.w.A s.w.R) fun s =>
      andThen (s.set_Tstress s.w.fc) fun s =>
      s.set_Ttangent s.w.Et) := by
  refine post_andThen
    (fun e => e.T.Trule = k ∧ e.T.Teunn = d.T.Teunn ∧ e.T.Tfunn = d.T.Tfunn)
    ⟨rfl, rfl, rfl⟩ fun e he => ?_
  refine post_andThen
    (fun f => f.T.Trule = k ∧ f.T.Teunn = d.T.Teunn ∧ f.T.Tfunn = d.T.Tfunn)
    ⟨(congrArg Trial.Trule (RAf_keeps ..).2.2).trans he.1,
      (congrArg Trial.Teunn (RAf_keeps ..).2.2).trans he.2.1,
      (congrArg Trial.Tfunn (RAf_keeps ..).2.2).trans he.2.2⟩ fun f hf => ?_
  refine post_andThen
    (fun g => g.T.Trule = k ∧ g.T.Teunn = d.T.Teunn ∧ g.T.Tfunn = d.T.Tfunn)
    ⟨(congrArg Trial.Trule (fcEturf_keeps ..).2.2).trans hf.1,
      (congrArg Trial.Teunn (fcEturf_keeps ..).2.2).trans hf.2.1,
      (congrArg Trial.Tfunn (fcEturf_keeps ..).2.2).trans hf.2.2⟩ fun g hg => ?_
  exact post_andThen
    (fun g => g.T.Trule = k ∧ g.T.Teunn = d.T.Teunn ∧ g.T.Tfunn = d.T.Tfunn)
    hg fun _ h => h

/-- C11 (amended). Cyclic model, rule at a reversal: for an object that is not
monotonic-only (`mon` is not 1) whose committed state has `Cinc = -1` and `Crule` in
`{1, 5, 7}`, a trial strain above `Cstrain` records the committed point as the compression
unloading point, `(Teunn, Tfunn) = (Cstrain, Cstress)`, and is assigned a rule in
`{3, 9, 8, 2, 6}`, which is not the rule 1 of the compression envelope. -/
theorem reversal_records_unloading_point (m : Libm) (s : State) (strain : ℚ)
    (hmon : s.par.mon ≠ 1) (hinc : s.C.Cinc = -1)
    (hrule : s.C.Crule = 1 ∨ s.C.Crule = 5 ∨ s.C.Crule = 7)
    (hrev : s.C.Cstrain < strain) :
    (setTrialStrain m s strain).T.Teunn = s.C.Cstrain ∧
    (setTrialStrain m s strain).T.Tfunn = s.C.Cstress ∧
    ((setTrialStrain m s strain).T.Trule = 3 ∨ (setTrialStrain m s strain).T.Trule = 9 ∨
      (setTrialStrain m s strain).T.Trule = 8 ∨ (setTrialStrain m s strain).T.Trule = 2 ∨
      (setTrialStrain m s strain).T.Trule = 6) ∧
    (setTrialStrain m s strain).T.Trule ≠ 1 := by
  have key : Post (fun t => t.T.Teunn = s.C.Cstrain ∧ t.T.Tfunn = s.C.Cstress ∧
      (t.T.Trule = 3 ∨ t.T.Trule = 9 ∨ t.T.Trule = 8 ∨ t.T.Trule = 2 ∨ t.T.Trule = 6))
      (setTrialStrain m s strain) := by
    unfold setTrialStrain
    refine post_andThen (fun y => y.par = s.par ∧ y.C = s.C) ?_ fun y hy => ?_
    · rw [revertToLastCommit_eq]; exact ⟨rfl, rfl⟩
    refine post_andThen (fun z => z.par = s.par ∧ z.C = s.C ∧ z.T.Tstrain = strain)
      ⟨hy.1, hy.2, rfl⟩ fun z hz => ?_
    refine post_ite (fun h => ?_) fun _ => post_ite (fun h => ?_) fun _ => ?_
    · rw [hz.1] at h; exact absurd h hmon
    · rw [hz.2.1, hinc] at h; norm_num at h
    unfold setTrialStrain_L276_else
    refine post_andThen (fun a => a.par = s.par ∧ a.C = s.C ∧ a.T.Tstrain = strain) ?_
      fun a ha => ?_
    · have f := setTrialStrain_L310_L334_frame m z strain
      exact ⟨f.1.trans hz.1, f.2.1.trans hz.2.1, f.2.2.trans hz.2.2⟩
    refine post_andThen (fun b => b.par = s.par ∧ b.C = s.C ∧ b.T.Tstrain = strain) ?_
      fun b hb => ?_
    · have f := setTrialStrain_L336_L362_frame m a strain
      exact ⟨f.1.trans ha.1, f.2.1.trans ha.2.1, f.2.2.trans ha.2.2⟩
    have hbinc : b.C.Cinc = -1 := by rw [hb.2.1]; exact hinc
    have hbrule : b.C.Crule = 1 ∨ b.C.Crule = 5 ∨ b.C.Crule = 7 := by rw [hb.2.1]; exact hrule
    have hbrev : b.T.Tstrain > b.C.Cstrain := by rw [hb.2.1, hb.2.2]; exact hrev
    rw [if_pos hbinc]
    unfold setTrialStrain_L365
    rw [if_pos hbrev]
    unfold setTrialStrain_L367
    rw [if_pos hbrule]
    refine post_andThen
      (fun c => Unloading b c ∧ c.w.espln = (esplnf b b.C.Cstrain b.C.Cstress).w.espln)
      (setTrialStrain_L371_L382_spec m b strain) fun c hc => ?_
    have hn : c.T.Teunn = s.C.Cstrain := by rw [hc.1.2.2.2.1, hb.2.1]
    have hf : c.T.Tfunn = s.C.Cstress := by rw [hc.1.2.2.2.2, hb.2.1]
    refine post_ite (fun _ => ?_) fun _ => post_ite (fun _ => ?_) fun _ =>
      post_ite (fun _ => ?_) fun _ => ?_
    · refine post_andThen (fun d => d.T.Teunn = c.T.Teunn ∧ d.T.Tfunn = c.T.Tfunn)
        ⟨r3f_keeps_Teunn .., r3f_keeps_Tfunn ..⟩ fun d hd => ?_
      have r := rule_fit_tail m d 3
      exact ⟨r.2.1.trans (hd.1.trans hn), r.2.2.trans (hd.2.trans hf), Or.inl r.1⟩
    · refine post_andThen (fun d => d.T.Teunn = c.T.Teunn ∧ d.T.Tfunn = c.T.Tfunn)
        ⟨r9f_keeps_Teunn .., r9f_keeps_Tfunn ..⟩ fun d hd => ?_
      have r := rule_fit_tail m d 9
      exact ⟨r.2.1.trans (hd.1.trans hn), r.2.2.trans (hd.2.trans hf), Or.inr (Or.inl r.1)⟩
    · refine post_andThen (fun d => d.T.Teunn = c.T.Teunn ∧ d.T.Tfunn = c.T.Tfunn)
        ⟨r8f_keeps_Teunn .., r8f_keeps_Tfunn ..⟩ fun d hd => ?_
      have r := rule_fit_tail m d 8
      exact ⟨r.2.1.trans (hd.1.trans hn), r.2.2.trans (hd.2.trans hf),
        Or.inr (Or.inr (Or.inl r.1))⟩
    · have r : (fcEtpf m c c.T.Tstrain c.T.Te0).T.Trule = 2 ∨
          (fcEtpf m c c.T.Tstrain c.T.Te0).T.Trule = 6 := fcEtpf_Trule m c _ _
      refine ⟨(fcEtpf_keeps_Teunn ..).trans hn, (fcEtpf_keeps_Tfunn ..).trans hf, ?_⟩
      rcases r with r | r
      · exact Or.inr (Or.inr (Or.inr (Or.inl r)))
      · exact Or.inr (Or.inr (Or.inr (Or.inr r)))
  refine ⟨key.1, key.2.1, key.2.2, ?_⟩
  rcases key.2.2 with h | h | h | h | h <;> rw [h] <;> norm_num

/-- Witness of C12: the fresh specimen and the first trial strain `-0.001`. -/
theorem first_call_evaluates_envelope_witness :
    specimen.C.Cinc = 0 ∧
    (((-0.001 : ℚ) < 0 →
      (setTrialStrain Libm.sample specimen (-0.001)).T.Tstress
        = (fcEtnf Libm.sample specimen (-0.001)).T.Tstress ∧
      (setTrialStrain Libm.sample specimen (-0.001)).T.Ttangent
        = (fcEtnf Libm.sample specimen (-0.001)).T.Ttangent ∧
      ((setTrialStrain Libm.sample specimen (-0.001)).T.Trule = 1 ∨
        (setTrialStrain Libm.sample specimen (-0.001)).T.Trule = 5) ∧
      (setTrialStrain Libm.sample specimen (-0.001)).T.Tinc = -1) ∧
    ((-0.001 : ℚ) > 0 →
      (setTrialStrain Libm.sample specimen (-0.001)).T.Tstress
        = (fcEtpf Libm.sample specimen (-0.001) specimen.C.Ce0).T.Tstress ∧
      (setTrialStrain Libm.sample specimen (-0.001)).T.Ttangent
        = (fcEtpf Libm.sample specimen (-0.001) specimen.C.Ce0).T.Ttangent ∧
      ((setTrialStrain Libm.sample specimen (-0.001)).T.Trule = 2 ∨
        (setTrialStrain Libm.sample specimen (-0.001)).T.Trule = 6) ∧
      (setTrialStrain Libm.sample specimen (-0.001)).T.Tinc = 1) ∧
    ((-0.001 : ℚ) = 0 → (setTrialStrain Libm.sample specimen (-0.001)).T.Tstress = 0 ∧
      (setTrialStrain Libm.sample specimen (-0.001)).T.Ttangent = specimen.par.Ec ∧
      (setTrialStrain Libm.sample specimen (-0.001)).T.Trule = 0 ∧
      (setTrialStrain Libm.sample specimen (-0.001)).T.Tinc = 0) ∧
    ((setTrialStrain Libm.sample specimen (-0.001)).T.Teunn = 0 ∧
      (setTrialStrain Libm.sample specimen (-0.001)).T.Tfunn = 0 ∧
      (setTrialStrain Libm.sample specimen (-0.001)).T.Teunp = 0 ∧
      (setTrialStrain Libm.sample specimen (-0.001)).T.Tfunp = 0 ∧
      (setTrialStrain Libm.sample specimen (-0.001)).T.Ter = 0 ∧
      (setTrialStrain Libm.sample specimen (-0.001)).T.Tfr = 0 ∧
      (setTrialStrain Libm.sample specimen (-0.001)).T.Ter0n = 0 ∧
      (setTrialStrain Libm.sample specimen (-0.001)).T.Tfr0n = 0 ∧
      (setTrialStrain Libm.sample specimen (-0.001)).T.Ter0p = 0 ∧
      (setTrialStrain Libm.sample specimen (-0.001)).T.Tfr0p = 0 ∧
      (setTrialStrain Libm.sample specimen (-0.001)).T.Te0 = 0 ∧
      (setTrialStrain Libm.sample specimen (-0.001)).T.Tea = 0 ∧
      (setTrialStrain Libm.sample specimen (-0.001)).T.Teb = 0 ∧
      (setTrialStrain Libm.sample specimen (-0.001)).T.Ted = 0)) :=
  ⟨by decide!, first_call_evaluates_envelope Libm.sample specimen (-0.001) (by decide!)⟩

/-- The first calls of the fresh specimen at the strains `-0.001`, `0.00005` and `0`:
rule 1 with the stress `-22.5`, rule 2 with the stress `1.5`, and rule 0 with the stress 0
and the tangent `Ec`. -/
theorem first_call_values :
    ((setTrialStrain Libm.sample specimen (-0.001)).T.Trule = 1 ∧
      (setTrialStrain Libm.sample specimen (-0.001)).T.Tinc = -1) ∧
    ((setTrialStrain Libm.sample specimen 0.00005).T.Trule = 2 ∧
      (setTrialStrain Libm.sample specimen 0.00005).T.Tinc = 1) ∧
    ((setTrialStrain Libm.sample specimen 0).T.Trule = 0 ∧
      (setTrialStrain Libm.sample specimen 0).T.Tinc = 0 ∧
      (setTrialStrain Libm.sample specimen 0).T.Tstress = 0 ∧
      (setTrialStrain Libm.sample specimen 0).T.Ttangent = 30000) := by
  decide!

/-- Witness of the amended C11: the instance `scenario` committed at the strains `0` and
`-0.002`, and reversed to `-0.001`. -/
theorem reversal_records_unloading_point_witness :
    (scenarioCommitted.par.mon ≠ 1 ∧ scenarioCommitted.C.Cinc = -1 ∧
      (scenarioCommitted.C.Crule = 1 ∨ scenarioCommitted.C.Crule = 5 ∨
        scenarioCommitted.C.Crule = 7) ∧
      scenarioCommitted.C.Cstrain < -0.001) ∧
    ((setTrialStrain Libm.sample scenarioCommitted (-0.001)).T.Teunn
        = scenarioCommitted.C.Cstrain ∧
    (setTrialStrain Libm.sample scenarioCommitted (-0.001)).T.Tfunn
        = scenarioCommitted.C.Cstress ∧
    ((setTrialStrain Libm.sample scenarioCommitted (-0.001)).T.Trule = 3 ∨
      (setTrialStrain Libm.sample scenarioCommitted (-0.001)).T.Trule = 9 ∨
      (setTrialStrain Libm.sample scenarioCommitted (-0.001)).T.Trule = 8 ∨
      (setTrialStrain Libm.sample scenarioCommitted (-0.001)).T.Trule = 2 ∨
      (setTrialStrain Libm.sample scenarioCommitted (-0.001)).T.Trule = 6) ∧
    (setTrialStrain Libm.sample scenarioCommitted (-0.001)).T.Trule ≠ 1) :=
  ⟨⟨by decide!, by decide!, by decide!, by decide!⟩,
    reversal_records_unloading_point Libm.sample scenarioCommitted (-0.001)
      (by decide!) (by decide!) (by decide!) (by decide!)⟩

/-- The rules of the scenario `fpcc = -27.6`, `epcc = -0.0045`, `Ec = 25000` along the
committed strains `0, -0.002, -0.001, -0.004`: rule 0, the compression envelope (rule 1),
the unloading curve (rule 3) at the reversal, and the envelope again. -/
theorem reversal_scenario_rules :
    (loadPath Libm.sample scenario [0, -0.002, -0.001, -0.004]).map (fun t => t.T.Trule)
      = [0, 1, 3, 1] := by
  decide!

/-- Counterexample to C11 as stated: an instance of the constructor for the monotonic
relationship (`mon = 1`), committed on the compression envelope at the strain `-0.002`
(`Cinc = -1`, `Crule = 1`); the trial strain `-0.001` above the committed strain is
evaluated on the envelope again: the rule is 1 and `Teunn` is 0, not the committed strain. -/
theorem monotonic_reversal_stays_on_envelope :
    monotonicCommitted.par.mon = 1 ∧ monotonicCommitted.C.Cinc = -1 ∧
    monotonicCommitted.C.Crule = 1 ∧ monotonicCommitted.C.Cstrain = -0.002 ∧
    monotonicCommitted.C.Cstress = -30 ∧
    (setTrialStrain Libm.sample monotonicCommitted (-0.001)).T.Trule = 1 ∧
    (setTrialStrain Libm.sample monotonicCommitted (-0.001)).T.Teunn = 0 ∧
    (setTrialStrain Libm.sample monotonicCommitted (-0.001)).T.Tfunn = 0 := by
  decide!

/-- `fcEturf` assigns neither `fca` nor `Eta`. -/
theorem fcEturf_keeps_target (m : Libm) (s : State) (es esi fi esf ff Ei Ef A R : ℚ) :
    Same (fun t => (t.w.fca, t.w.Eta)) s (fcEturf m s es esi fi esf ff Ei Ef A R) := by
  unfold fcEturf
  have h : Same (fun t => (t.w.fca, t.w.Eta)) s s := same_refl s
  exact
    same_ite (
        same_andThen (same_step h rfl) fun _ h =>
        same_step h rfl
      ) (
        same_ite (
            same_andThen (same_step h rfl) fun _ h =>
            same_step h rfl
          ) (
            same_ite (
                same_andThen (same_step h rfl) fun _ h =>
                same_step h rfl
              ) (
                same_ite (
                    same_andThen (same_step h rfl) fun _ h =>
                    same_step h rfl
                  ) (
                    same_andThen (same_step h rfl) fun _ h =>
                    same_andThen (same_step h rfl) fun _ h =>
                    same_ite (
                        same_andThen (same_step h rfl) fun _ h =>
                        same_step h rfl
                      ) (
                        h
                      )
                  )
              )
          )
      )

/-- `RAf` assigns neither `fca` nor `Eta`. -/
theorem RAf_keeps_target (m : Libm) (s : State) (esi fi Ei esf ff Ef : ℚ) :
    Same (fun t => (t.w.fca, t.w.Eta)) s (RAf m s esi fi Ei esf ff Ef) := by
  unfold RAf
  have h : Same (fun t => (t.w.fca, t.w.Eta)) s s := same_refl s
  exact
    same_andThen (same_step h rfl) fun _ h =>
    same_ite (
        same_step h rfl
      ) (
        same_andThen (same_step h rfl) fun _ h =>
        same_ite (
            same_step h rfl
          ) (
            h
          )
      )

/-- `r88f` assigns neither `fca` nor `Eta`. -/
theorem r88f_keeps_target (s : State) (e e0 er0p fr0p eunp fnewstp Enewstp esrestp frestp Erestp : ℚ) :
    Same (fun t => (t.w.fca, t.w.Eta)) s (r88f s e e0 er0p fr0p eunp fnewstp Enewstp esrestp frestp Erestp) := by
  unfold r88f
  have h : Same (fun t => (t.w.fca, t.w.Eta)) s s := same_refl s
  exact
    same_andThen (
        same_ite (
            same_andThen (same_step h rfl) fun _ h =>
            same_andThen (same_step h rfl) fun _ h =>
            same_andThen (same_step h rfl) fun _ h =>
            same_andThen (same_step h rfl) fun _ h =>
            same_andThen (same_step h rfl) fun _ h =>
            same_step h rfl
          ) (
            h
          )
      ) fun _ h =>
    same_ite (
        same_andThen (same_step h rfl) fun _ h =>
        same_andThen (same_step h rfl) fun _ h =>
        same_andThen (same_step h rfl) fun _ h =>
        same_andThen (same_step h rfl) fun _ h =>
        same_andThen (same_step h rfl) fun _ h =>
        same_step h rfl
      ) (
        h
      )

/-- `r12f` assigns neither `fca` nor `Eta`: it reads them from its arguments. -/
theorem r12f_keeps_target (m : Libm) (s : State) (er fr ea fca Eta A R : ℚ) :
    Same (fun t => (t.w.fca, t.w.Eta)) s (r12f m s er fr ea fca Eta A R) := by
  unfold r12f
  have h : Same (fun t => (t.w.fca, t.w.Eta)) s s := same_refl s
  exact
    same_andThen (same_step h rfl) fun _ h =>
    same_andThen (same_step h rfl) fun _ h =>
    same_andThen (same_step h rfl) fun _ h =>
    same_andThen (same_step h rfl) fun _ h =>
    same_andThen (same_step h rfl) fun _ h =>
    same_andThen (same_step h rfl) fun _ h =>
    same_andThen (same_step h (fcEturf_keeps_target ..)) fun _ h =>
    same_andThen (same_step h rfl) fun _ h =>
    same_step h rfl

/-- The branch of lines 857-879 (rule 12 with the intermediate point on rule 88): for every
object that enters it, the rule 12 is assigned and the members `fca` and `Eta` are after the
branch what they were before it.  No statement of the branch assigns them, so the target
that `RAf` (line 870) and `r12f` (line 872) receive is the one left in the object by an
earlier call. -/
theorem rule12_on_rule88_keeps_target (m : Libm) (s : State) (strain : ℚ)
    (h1 : s.T.Tea ≤ s.w.esrestp) (h2 : s.T.Tstrain ≤ s.T.Tea) :
    (setTrialStrain_L647_else m s strain).T.Trule = 12 ∧
    (setTrialStrain_L647_else m s strain).w.fca = s.w.fca ∧
    (setTrialStrain_L647_else m s strain).w.Eta = s.w.Eta := by
  have key : Post (fun t => t.T.Trule = 12 ∧ (t.w.fca, t.w.Eta) = (s.w.fca, s.w.Eta))
      (setTrialStrain_L647_else m s strain) := by
    unfold setTrialStrain_L647_else
    rw [if_pos h1, if_pos h2]
    have h : Same (fun t => (t.w.fca, t.w.Eta)) s s := same_refl s
    refine post_andThen (Same (fun t => (t.w.fca, t.w.Eta)) s)
      (same_step h (r88f_keeps_target ..)) fun _ h => ?_
    refine post_andThen (Same (fun t => (t.w.fca, t.w.Eta)) s)
      (same_step h (RAf_keeps_target ..)) fun _ h => ?_
    refine post_andThen (Same (fun t => (t.w.fca, t.w.Eta)) s)
      (same_step h (fcEturf_keeps_target ..)) fun _ h => ?_
    refine post_andThen (Same (fun t => (t.w.fca, t.w.Eta)) s) (same_step h rfl) fun _ h => ?_
    refine post_andThen (Same (fun t => (t.w.fca, t.w.Eta)) s) (same_step h rfl) fun _ h => ?_
    refine post_andThen (Same (fun t => (t.w.fca, t.w.Eta)) s) (same_step h rfl) fun _ h => ?_
    refine post_andThen (Same (fun t => (t.w.fca, t.w.Eta)) s) (same_step h rfl) fun _ h => ?_
    refine post_andThen (Same (fun t => (t.w.fca, t.w.Eta)) s)
      (same_step h (RAf_keeps_target ..)) fun _ h => ?_
    refine post_andThen (Same (fun t => (t.w.fca, t.w.Eta)) s)
      (same_step h (r12f_keeps_target ..)) fun _ h => ?_
    refine post_andThen (fun t => t.T.Trule = 12 ∧ Same (fun t => (t.w.fca, t.w.Eta)) s t)
      ⟨rfl, same_step h rfl⟩ fun _ h => ?_
    refine post_andThen (fun t => t.T.Trule = 12 ∧ Same (fun t => (t.w.fca, t.w.Eta)) s t)
      ⟨(congrArg Trial.Trule (fcEturf_keeps ..).2.2).trans h.1,
        same_step h.2 (fcEturf_keeps_target ..)⟩ fun _ h => ?_
    refine post_andThen (fun t => t.T.Trule = 12 ∧ Same (fun t => (t.w.fca, t.w.Eta)) s t)
      ⟨h.1, same_step h.2 rfl⟩ fun _ h => ?_
    exact ⟨h.1, same_step h.2 rfl⟩
  exact ⟨key.1, congrArg Prod.fst key.2, congrArg Prod.snd key.2⟩

/-- C13 (code defect). Cyclic model, rule 12 with the intermediate point on rule 88: the
specimen after the committed strains `0.0001, 0, 0.0001, 0` is on rule 11; the trial strain
`0.0001` is assigned rule 12 with the intermediate strain `Tea = 0.0001`.  Rule 88 at `Tea`
has the stress `2.55` and the tangent `25500`, but the target of the second fit is
`(fca, Eta) = (0, 0)`, the values these members had before the call, and the trial stress
and tangent at `Tea` are 0.  With `fca = 2.55` and `Eta = 25500` stored in the object
before the call, the same call gives the stress `2.55`. -/
theorem rule12_target_on_rule88_is_stale :
    (rule12History.C.Crule = 11 ∧ rule12History.w.fca = 0 ∧ rule12History.w.Eta = 0) ∧
    (setTrialStrain Libm.sample rule12History 0.0001).T.Trule = 12 ∧
    (setTrialStrain Libm.sample rule12History 0.0001).T.Tea = 0.0001 ∧
    ((rule88AtTea Libm.sample (setTrialStrain Libm.sample rule12History 0.0001)).w.fc = 2.55 ∧
      (rule88AtTea Libm.sample (setTrialStrain Libm.sample rule12History 0.0001)).w.Et
        = 25500) ∧
    ((setTrialStrain Libm.sample rule12History 0.0001).w.fca = 0 ∧
      (setTrialStrain Libm.sample rule12History 0.0001).w.Eta = 0 ∧
      (setTrialStrain Libm.sample rule12History 0.0001).w.ff = 0 ∧
      (setTrialStrain Libm.sample rule12History 0.0001).w.Ef = 0) ∧
    (getStress (setTrialStrain Libm.sample rule12History 0.0001) = 0 ∧
      getTangent (setTrialStrain Libm.sample rule12History 0.0001) = 0) ∧
    getStress (setTrialStrain Libm.sample ((rule12History.set_fca 2.55).set_Eta 25500) 0.0001)
      = 2.55 := by
  decide!

/-- `revertToStart` sets every committed variable to 0 except the tangent, which it sets to
`Ec`, and gives each trial variable the value of the committed variable of the same name. -/
theorem revertToStart_eq (s : State) :
    revertToStart s =
      { s with
        C := ⟨0, 0, 0, 0, 0, 0, 0, 0, 0, 0, 0, 0, 0, 0, 0, 0, 0, 0, s.par.Ec⟩
        T := ⟨0, 0, 0, 0, 0, 0, 0, 0, 0, 0, 0, 0, 0, 0, 0, 0, 0, 0, s.par.Ec⟩ } := by
  rcases s with ⟨par, ⟨
      ceunn, cfunn, ceunp, cfunp, cer, cfr, cer0n, cfr0n, cer0p, cfr0p, ce0, cea, ceb, ced, cinc,
      crule, cstrain, cstress, ctangent⟩, ⟨
      teunn, tfunn, teunp, tfunp, ter, tfr, ter0n, tfr0n, ter0p, tfr0p, te0, tea, teb, ted, tinc,
      trule, tstrain, tstress, ttangent⟩, w⟩
  simp only [revertToStart, revertToLastCommit, andThen,
    State.set_Ceunn, State.set_Cfunn, State.set_Ceunp, State.set_Cfunp, State.set_Cer,
    State.set_Cfr, State.set_Cer0n, State.set_Cfr0n, State.set_Cer0p, State.set_Cfr0p,
    State.set_Ce0, State.set_Cea, State.set_Ceb, State.set_Ced, State.set_Cinc, State.set_Crule,
    State.set_Cstrain, State.set_Cstress, State.set_Ctangent,
    State.set_Teunn, State.set_Tfunn, State.set_Teunp, State.set_Tfunp, State.set_Ter,
    State.set_Tfr, State.set_Ter0n, State.set_Tfr0n, State.set_Ter0p, State.set_Tfr0p,
    State.set_Te0, State.set_Tea, State.set_Teb, State.set_Ted, State.set_Tinc, State.set_Trule,
    State.set_Tstrain, State.set_Tstress, State.set_Ttangent]

/-- A constructor with input parameters leaves every committed and every trial variable
at 0. -/
theorem construct_state (tag : Int) (FPCC EPCC EC RC XCRN FT ET RT XCRP : ℚ) (MON GAP : Int)
    (u : State) :
    (construct tag FPCC EPCC EC RC XCRN FT ET RT XCRP MON GAP u).C = Committed.init ∧
    (construct tag FPCC EPCC EC RC XCRN FT ET RT XCRP MON GAP u).T =
      ⟨0, 0, 0, 0, 0, 0, 0, 0, 0, 0, 0, 0, 0, 0, 0, 0, 0, 0, 0⟩ := by
  unfold construct
  rw [revertToLastCommit_eq]
  exact ⟨rfl, rfl⟩

/-- The constructor with a tag only assigns the tag and the trial variables. -/
theorem newTag_eq (tag : Int) (u : State) :
    (newTag tag u).par = { u.par with tag := tag } ∧ (newTag tag u).C = u.C := by
  unfold newTag
  rw [revertToLastCommit_eq]
  exact ⟨rfl, rfl⟩

/-- C21 (code defect). Cyclic model `revertToStart`: for every object the call leaves the
tag and the input parameters as they are, sets every committed history variable, the
committed strain and the committed stress to 0 and every trial variable to its committed
value, but sets the committed and the trial tangent to `Ec`.  Every constructor with input
parameters leaves all of them, the tangent included, at 0.  So after `revertToStart` the
tangent is not the one at construction unless `Ec = 0`: the object `specimen`
(`Ec = 30000`) has the tangent 0, and after `revertToStart` the tangent 30000. -/
theorem revertToStart_tangent_differs_from_construction :
    (∀ s : State,
      (revertToStart s).par = s.par ∧
      (revertToStart s).C = { Committed.init with Ctangent := s.par.Ec } ∧
      (revertToStart s).T =
        { Teunn := 0, Tfunn := 0, Teunp := 0, Tfunp := 0, Ter := 0, Tfr := 0, Ter0n := 0,
          Tfr0n := 0, Ter0p := 0, Tfr0p := 0, Te0 := 0, Tea := 0, Teb := 0, Ted := 0,
          Tinc := 0, Trule := 0, Tstrain := 0, Tstress := 0, Ttangent := s.par.Ec }) ∧
    (∀ (tag : Int) (FPCC EPCC EC RC XCRN FT ET RT XCRP : ℚ) (MON GAP : Int) (u : State),
      (construct tag FPCC EPCC EC RC XCRN FT ET RT XCRP MON GAP u).C = Committed.init ∧
      (construct tag FPCC EPCC EC RC XCRN FT ET RT XCRP MON GAP u).T =
        { Teunn := 0, Tfunn := 0, Teunp := 0, Tfunp := 0, Ter := 0, Tfr := 0, Ter0n := 0,
          Tfr0n := 0, Ter0p := 0, Tfr0p := 0, Te0 := 0, Tea := 0, Teb := 0, Ted := 0,
          Tinc := 0, Trule := 0, Tstrain := 0, Tstress := 0, Ttangent := 0 }) ∧
    (∀ s : State, s.par.Ec ≠ 0 →
      ∀ (tag : Int) (FPCC EPCC EC RC XCRN FT ET RT XCRP : ℚ) (MON GAP : Int) (u : State),
        getTangent (revertToStart s)
          ≠ getTangent (construct tag FPCC EPCC EC RC XCRN FT ET RT XCRP MON GAP u)) ∧
    (getTangent specimen = 0 ∧ specimen.C.Ctangent = 0 ∧
      getTangent (revertToStart specimen) = 30000 ∧
      (revertToStart specimen).C.Ctangent = 30000 ∧
      (revertToStart specimen).par = specimen.par) := by
  refine ⟨fun s => ?_, fun tag FPCC EPCC EC RC XCRN FT ET RT XCRP MON GAP u =>
    construct_state tag FPCC EPCC EC RC XCRN FT ET RT XCRP MON GAP u, ?_, ?_⟩
  · rw [revertToStart_eq]
    exact ⟨rfl, rfl, rfl⟩
  · intro s h tag FPCC EPCC EC RC XCRN FT ET RT XCRP MON GAP u
    unfold getTangent
    rw [revertToStart_eq, (construct_state tag FPCC EPCC EC RC XCRN FT ET RT XCRP MON GAP u).2]
    exact h
  · decide!

/-- C23. Cyclic model copy: for every object `s`, whatever values `u` the members of the
new object hold before its constructor runs, `getCopy` returns an object with the tag and
the eleven input parameters of `s` (the record `par`) and with the sixteen committed
history variables and the committed strain, stress and tangent of `s` (the record `C`). -/
theorem getCopy_keeps_parameters_and_committed_state (s u : State) :
    (getCopy s u).par = s.par ∧ (getCopy s u).C = s.C ∧
    (getCopy s u).par.tag = s.par.tag ∧
    (getCopy s u).C.Cstrain = s.C.Cstrain ∧ (getCopy s u).C.Cstress = s.C.Cstress ∧
    (getCopy s u).C.Ctangent = s.C.Ctangent := by
  obtain ⟨h1, h2⟩ := newTag_eq s.par.tag u
  have hp : (getCopy s u).par = s.par := by
    show ({ (newTag s.par.tag u).par with
      fpcc := s.par.fpcc, epcc := s.par.epcc, Ec := s.par.Ec, rc := s.par.rc,
      xcrn := s.par.xcrn, ft := s.par.ft, et := s.par.et, rt := s.par.rt,
      xcrp := s.par.xcrp, mon := s.par.mon, Gap := s.par.Gap } : Params) = s.par
    rw [h1]
  have hC : (getCopy s u).C = s.C := rfl
  refine ⟨hp, hC, ?_, ?_, ?_, ?_⟩
  · rw [hp]
  · rw [hC]
  · rw [hC]
  · rw [hC]

/-- C27 (code defect). Cyclic model, target of rule 15: the object `specimen` after the
committed strains `-0.003, 0, -0.003, -0.0016, -0.003, -0.0025` is on rule 14, and the
trial strain `-0.003` is assigned rule 15 with the intermediate strain `Tea = -0.003`, the
trial strain itself.  The branch of rule 13 at this trial strain applies the correction
"Fix 1" and assigns the stress `Enewn*(Tea - espln) = -11648/725` (about -16.066) and the
tangent `Enewn`; this is also the stress that rule 13 had at the strain `-0.003` earlier in
the history.  The branch of rule 15 stores the tangent `Eta = Enewn` but the target stress
`fca = Esectest13*(Tea - espln) = -88178688/5451275` (about -16.176), computed with the
secant slope that `Et` still holds, and this is the trial stress at `Tea`. -/
theorem rule15_target_differs_from_rule13 :
    rule15History.C.Crule = 14 ∧
    (setTrialStrain Libm.sample rule15History (-0.003)).T.Trule = 15 ∧
    (setTrialStrain Libm.sample rule15History (-0.003)).T.Tea = -0.003 ∧
    (setTrialStrain Libm.sample rule15History (-0.003)).T.Tstrain = -0.003 ∧
    ((rule13Branch Libm.sample (setTrialStrain Libm.sample rule15History (-0.003))).T.Trule
        = 13 ∧
      getStress (rule13Branch Libm.sample (setTrialStrain Libm.sample rule15History (-0.003)))
        = -11648 / 725 ∧
      getTangent (rule13Branch Libm.sample (setTrialStrain Libm.sample rule15History (-0.003)))
        = 68422900 / 6003) ∧
    ((setTrialStrain Libm.sample rule15History (-0.003)).w.Enewn = 68422900 / 6003 ∧
      (setTrialStrain Libm.sample rule15History (-0.003)).w.Esectest13 = 332800 / 29 ∧
      (setTrialStrain Libm.sample rule15History (-0.003)).w.Enewn
        * ((setTrialStrain Libm.sample rule15History (-0.003)).T.Tea
          - (setTrialStrain Libm.sample rule15History (-0.003)).w.espln) = -11648 / 725 ∧
      (setTrialStrain Libm.sample rule15History (-0.003)).w.Esectest13
        * ((setTrialStrain Libm.sample rule15History (-0.003)).T.Tea
          - (setTrialStrain Libm.sample rule15History (-0.003)).w.espln)
        = -88178688 / 5451275) ∧
    ((setTrialStrain Libm.sample rule15History (-0.003)).w.Eta = 68422900 / 6003 ∧
      (setTrialStrain Libm.sample rule15History (-0.003)).w.fca = -88178688 / 5451275) ∧
    (getStress (setTrialStrain Libm.sample rule15History (-0.003)) = -88178688 / 5451275 ∧
      getTangent (setTrialStrain Libm.sample rule15History (-0.003)) = 68422900 / 6003) ∧
    ((afterHistory Libm.sample specimen [-0.003, 0, -0.003, -0.0016, -0.003]).C.Crule = 13 ∧
      (afterHistory Libm.sample specimen [-0.003, 0, -0.003, -0.0016, -0.003]).C.Cstrain
        = -0.003 ∧
      (afterHistory Libm.sample specimen [-0.003, 0, -0.003, -0.0016, -0.003]).C.Cstress
        = -11648 / 725) := by
  decide!

theorem krule_refl (s : State) : KeepsRule s s := ⟨rfl, rfl, rfl, rfl, rfl⟩

theorem krule_step {s x y : State} (hx : KeepsRule s x) (h : KeepsRule x y) : KeepsRule s y :=
  ⟨h.1.trans hx.1, h.2.1.trans hx.2.1, h.2.2.1.trans hx.2.2.1, h.2.2.2.1.trans hx.2.2.2.1,
    h.2.2.2.2.trans hx.2.2.2.2⟩

theorem krule_andThen {s t : State} {k : State → State} (ht : KeepsRule s t)
    (hk : ∀ x, KeepsRule s x → KeepsRule s (k x)) : KeepsRule s (andThen t k) := hk t ht

theorem krule_ite {s a b : State} {c : Prop} [Decidable c] (ha : KeepsRule s a)
    (hb : KeepsRule s b) : KeepsRule s (if c then a else b) := by
  split <;> assumption

theorem Keeps.krule {s t : State} (h : Keeps s t) : KeepsRule s t := by
  obtain ⟨_, h2, h3⟩ := h
  exact ⟨h2, by rw [h3], by rw [h3], by rw [h3], by rw [h3]⟩

/-- A statement that keeps the committed variables and the trial direction, rule and stress
keeps what is known of them. -/
theorem track_set {c : Committed} {d : ℚ} {G : ℚ → ℚ → Prop} {x y : State}
    (h : Track c d G x) (hk : KeepsStress x y) : Track c d G y := by
  obtain ⟨h1, h2, h3⟩ := h
  obtain ⟨k1, k2, k3, k4⟩ := hk
  exact ⟨k1.trans h1, k2.trans h2, by rw [k3, k4]; exact h3⟩

theorem track_keep {c : Committed} {d : ℚ} {G : ℚ → ℚ → Prop} {x y : State}
    (h : Track c d G x) (hk : KeepsRule x y) : Track c d G y :=
  track_set h ⟨hk.1, hk.2.1, hk.2.2.1, hk.2.2.2.1⟩

theorem track_andThen {c : Committed} {d : ℚ} {G : ℚ → ℚ → Prop} {t : State}
    {k : State → State} (P : State → Prop) (ht : P t)
    (hk : ∀ x, P x → Track c d G (k x)) : Track c d G (andThen t k) := hk t ht

theorem track_ite {c : Committed} {d : ℚ} {G : ℚ → ℚ → Prop} {a b : State} {p : Prop}
    [Decidable p] (ha : p → Track c d G a) (hb : ¬p → Track c d G b) :
    Track c d G (if p then a else b) := by
  split
  · exact ha ‹_›
  · exact hb ‹_›

theorem track_any {c : Committed} {d : ℚ} {G : ℚ → ℚ → Prop} {x : State}
    (h : Track c d G x) : Track c d (KR AnyR false) x :=
  ⟨h.1, h.2.1, trivial, fun e => Bool.noConfusion e⟩

theorem track_unzero {c : Committed} {d : ℚ} {R : ℚ → Prop} {z : Bool} {x : State}
    (h : Track c d (KR R z) x) : Track c d (KR R false) x :=
  ⟨h.1, h.2.1, h.2.2.1, fun e => Bool.noConfusion e⟩

theorem track_anyrule {c : Committed} {d : ℚ} {R : ℚ → Prop} {z : Bool} {x : State}
    (h : Track c d (KR R z) x) : Track c d (KR AnyR z) x :=
  ⟨h.1, h.2.1, trivial, h.2.2.2⟩

/-- The assignment `Trule = k`. -/
theorem track_rule {c : Committed} {d : ℚ} {R : ℚ → Prop} {z : Bool} {x : State} (k : ℚ)
    (h : Track c d (KR R z) x) : Track c d (KR (IsRule k) z) (x.set_Trule k) :=
  ⟨h.1, h.2.1, rfl, h.2.2.2⟩

theorem track_rule_of26 {c : Committed} {d : ℚ} {x : State} (k : ℚ)
    (h : Track c d Rule26 x) : Track c d (KR (IsRule k) false) (x.set_Trule k) :=
  ⟨h.1, h.2.1, rfl, fun e => Bool.noConfusion e⟩

/-- An assignment to `Tstress`. -/
theorem track_stress {c : Committed} {d : ℚ} {R : ℚ → Prop} {z : Bool} {x : State} {e : ℚ}
    (h : Track c d (KR R z) x) : Track c d (KR R false) (x.set_Tstress e) :=
  ⟨h.1, h.2.1, h.2.2.1, fun e => Bool.noConfusion e⟩

/-- The assignment `Tstress = 0`. -/
theorem track_stress0 {c : Committed} {d : ℚ} {R : ℚ → Prop} {z : Bool} {x : State}
    (h : Track c d (KR R z) x) : Track c d (KR R true) (x.set_Tstress 0) :=
  ⟨h.1, h.2.1, h.2.2.1, fun _ => rfl⟩

theorem r66f_track {c : Committed} {d : ℚ} {R : ℚ → Prop} {z : Bool} {x : State} {e e0 : ℚ}
    (h : Track c d (KR R z) x) : Track c d (KR R true) (r66f x e e0) := by
  unfold r66f
  exact track_andThen (Track c d (KR R true)) (track_stress0 h) fun _ h =>
    track_set h ⟨rfl, rfl, rfl, rfl⟩

theorem r6f_stress (x : State) (a n r : ℚ) : (r6f x a n r).T.Tstress = 0 := rfl

theorem r6f_track {c : Committed} {d : ℚ} {R : ℚ → Prop} {z : Bool} {x : State} {a n r : ℚ}
    (h : Track c d (KR R z) x) : Track c d (KR R true) (r6f x a n r) := by
  unfold r6f
  exact track_andThen (Track c d (KR R true)) (track_stress0 h) fun _ h =>
    track_set h ⟨rfl, rfl, rfl, rfl⟩

/-- `fcEtnf` keeps the committed variables and the direction and assigns the rule 1 or 5. -/
theorem fcEtnf_track {c : Committed} {d : ℚ} {G : ℚ → ℚ → Prop} {x : State} {m : Libm} {e : ℚ}
    (h : Track c d G x) : Track c d (KR Rule15R false) (fcEtnf m x e) := by
  have hr : Post (fun t => t.T.Trule = 1 ∨ t.T.Trule = 5) (fcEtnf m x e) := by
    unfold fcEtnf
    exact
      post_any fun _ => post_any fun _ => post_any fun _ => post_any fun _ => post_any fun _ =>
      post_ite (fun _ => post_any fun _ => Or.inl rfl) (fun _ => post_any fun _ => Or.inr rfl)
  exact ⟨(fcEtnf_frame m x e).2.1.trans h.1, (fcEtnf_keeps_Tinc m x e).trans h.2.1, hr,
    fun e => Bool.noConfusion e⟩

/-- `fcEtpf` keeps the committed variables and the direction and assigns the rule 2, or
the rule 6 with the stress 0. -/
theorem fcEtpf_track {c : Committed} {d : ℚ} {G : ℚ → ℚ → Prop} {x : State} {m : Libm}
    {e e0 : ℚ} (h : Track c d G x) : Track c d Rule26 (fcEtpf m x e e0) := by
  have hr : Post (fun t => Rule26 t.T.Trule t.T.Tstress) (fcEtpf m x e e0) := by
    unfold fcEtpf
    exact
      post_any fun _ => post_any fun _ => post_any fun _ => post_any fun _ => post_any fun _ =>
      post_ite (fun _ => post_any fun _ => Or.inl rfl)
        (fun _ => post_andThen (fun t => t.T.Tstress = 0)
          (r6f_stress ..) fun _ h0 => Or.inr ⟨rfl, h0⟩)
  exact ⟨(fcEtpf_frame m x e e0).2.1.trans h.1, (fcEtpf_keeps_Tinc m x e e0).trans h.2.1, hr⟩

/-- `fcEtpr6f` keeps the committed variables and the direction and assigns the rule 6 with
the stress 0. -/
theorem fcEtpr6f_track {c : Committed} {d : ℚ} {G : ℚ → ℚ → Prop} {x : State} {e e0 : ℚ}
    (h : Track c d G x) : Track c d (KR (IsRule 6) true) (fcEtpr6f x e e0) := by
  unfold fcEtpr6f
  exact
    track_andThen (Track c d (KR AnyR false)) (track_set (track_any h) ⟨rfl, rfl, rfl, rfl⟩)
      fun _ h =>
    track_andThen (Track c d (KR AnyR false)) (track_set h ⟨rfl, rfl, rfl, rfl⟩) fun _ h =>
    track_andThen (Track c d (KR AnyR true)) (r6f_track h) fun _ h =>
    track_rule 6 h

/-- `e0eunpfunpf` keeps the committed variables and the direction and ends with `fcEtpf`. -/
theorem e0eunpfunpf_track {c : Committed} {d : ℚ} {G : ℚ → ℚ → Prop} {x : State} {m : Libm}
    {e0 eunp funp eunn funn : ℚ} (h : Track c d G x) :
    Track c d Rule26 (e0eunpfunpf m x e0 eunp funp eunn funn) := by
  unfold e0eunpfunpf
  exact
    track_andThen (Track c d (KR AnyR false)) (
      track_ite (fun _ => track_any (fcEtpf_track h)) (fun _ => track_any h)
      ) fun _ h =>
    track_andThen (Track c d (KR AnyR false)) (track_keep h (Keeps.krule (esplnf_keeps ..))) fun _ h =>
    track_andThen (Track c d (KR AnyR false)) (track_keep h (Keeps.krule (Eplnf_keeps ..))) fun _ h =>
    track_andThen (Track c d (KR AnyR false)) (track_keep h (Keeps.krule (Esecpf_keeps ..))) fun _ h =>
    track_andThen (Track c d (KR AnyR false)) (track_set h ⟨rfl, rfl, rfl, rfl⟩) fun _ h =>
    track_andThen (Track c d (KR AnyR false)) (track_set h ⟨rfl, rfl, rfl, rfl⟩) fun _ h =>
    track_andThen (Track c d Rule26) (fcEtpf_track h) fun _ h =>
    track_set h ⟨rfl, rfl, rfl, rfl⟩

theorem NegRule.not_zero_rule {k : ℚ} (hk : NegRule k) : ¬ (k = 6 ∨ k = 66) := by
  unfold NegRule at hk
  rintro (e | e) <;> rw [e] at hk <;> norm_num at hk

/-- A rule of the negative direction in the negative direction. -/
theorem final_neg {c : Committed} {k : ℚ} {z : Bool} {x : State} (hk : NegRule k)
    (h : Track c (-1) (KR (IsRule k) z) x) : Post TrialOK x := by
  obtain ⟨_, h2, h3, _⟩ := h
  have e : x.T.Trule = k := h3
  refine ⟨Or.inr (Or.inl ⟨h2, by rw [e]; exact hk⟩), fun h6 => ?_⟩
  rw [e] at h6
  exact absurd h6 hk.not_zero_rule

theorem final_neg15 {c : Committed} {z : Bool} {x : State}
    (h : Track c (-1) (KR Rule15R z) x) : Post TrialOK x := by
  obtain ⟨_, h2, h3, _⟩ := h
  have e : x.T.Trule = 1 ∨ x.T.Trule = 5 := h3
  refine ⟨Or.inr (Or.inl ⟨h2, ?_⟩), fun h6 => ?_⟩
  · unfold NegRule
    rcases e with e | e
    · exact Or.inl e
    · exact Or.inr (Or.inl e)
  · rcases e with e | e <;> rw [e] at h6 <;> norm_num at h6

/-- A rule of the positive direction other than 6 and 66 in the positive direction. -/
theorem final_pos {c : Committed} {k : ℚ} {z : Bool} {x : State} (hk : PosRule k)
    (hne : k ≠ 6 ∧ k ≠ 66) (h : Track c 1 (KR (IsRule k) z) x) : Post TrialOK x := by
  obtain ⟨_, h2, h3, _⟩ := h
  have e : x.T.Trule = k := h3
  refine ⟨Or.inr (Or.inr ⟨h2, by rw [e]; exact hk⟩), fun h6 => ?_⟩
  rw [e] at h6
  rcases h6 with h6 | h6
  · exact absurd h6 hne.1
  · exact absurd h6 hne.2

/-- A rule of the positive direction with the stress 0 in the positive direction. -/
theorem final_pos_zero {c : Committed} {k : ℚ} {x : State} (hk : PosRule k)
    (h : Track c 1 (KR (IsRule k) true) x) : Post TrialOK x := by
  obtain ⟨_, h2, h3, h4⟩ := h
  have e : x.T.Trule = k := h3
  exact ⟨Or.inr (Or.inr ⟨h2, by rw [e]; exact hk⟩), fun _ => h4 rfl⟩

theorem final_pos26 {c : Committed} {x : State} (h : Track c 1 Rule26 x) : Post TrialOK x := by
  obtain ⟨_, h2, h3⟩ := h
  have e : x.T.Trule = 2 ∨ (x.T.Trule = 6 ∧ x.T.Tstress = 0) := h3
  refine ⟨Or.inr (Or.inr ⟨h2, ?_⟩), fun h6 => ?_⟩
  · unfold PosRule
    rcases e with e | e
    · exact Or.inl e
    · exact Or.inr (Or.inl e.1)
  · rcases e with e | e
    · rw [e] at h6; norm_num at h6
    · exact e.2

/-- With the committed direction `-1` the committed rule is of the negative direction. -/
theorem CommOK.neg {c : Committed} (hc : CommOK c) (hci : c.Cinc = -1) : NegRule c.Crule := by
  rcases hc.1 with ⟨h, _⟩ | ⟨_, h⟩ | ⟨h, _⟩
  · rw [hci] at h; norm_num at h
  · exact h
  · rw [hci] at h; norm_num at h

/-- With the committed direction `1` the committed rule is of the positive direction. -/
theorem CommOK.pos {c : Committed} (hc : CommOK c) (hci : c.Cinc = 1) : PosRule c.Crule := by
  rcases hc.1 with ⟨h, _⟩ | ⟨h, _⟩ | ⟨_, h⟩
  · rw [hci] at h; norm_num at h
  · rw [hci] at h; norm_num at h
  · exact h

theorem fabs_eq_zero {x : ℚ} (h : x = 0) : fabs x = 0 := by
  rw [h]; unfold fabs; norm_num

/-- The chain over `Crule` that starts at line 369 does not fall through. -/
theorem fallthrough_setTrialStrain_L367 {c : Committed} {d : ℚ} {G : ℚ → ℚ → Prop} {x : State}
    (hc : CommOK c) (hci : c.Cinc = -1) (h : Track c d G x)
    (h1 : ¬ (x.C.Crule = 1 ∨ x.C.Crule = 5 ∨ x.C.Crule = 7)) (h2 : ¬ x.C.Crule = 10)
    (h3 : ¬ x.C.Crule = 11) (h4 : ¬ (x.C.Crule = 13 ∨ x.C.Crule = 15)) (h5 : ¬ x.C.Crule = 4)
    (h6 : ¬ x.C.Crule = 77) : False := by
  have hn := hc.neg hci
  rw [← h.1] at hn
  unfold NegRule at hn
  tauto

/-- The chain over `Crule` that starts at line 1279 does not fall through. -/
theorem fallthrough_setTrialStrain_L367_else {c : Committed} {d : ℚ} {G : ℚ → ℚ → Prop}
    {x : State} (hc : CommOK c) (hci : c.Cinc = -1) (h : Track c d G x)
    (h1 : ¬ (x.C.Crule = 4 ∨ x.C.Crule = 10 ∨ x.C.Crule = 7))
    (h2 : ¬ (x.C.Crule = 1 ∨ x.C.Crule = 5)) (h3 : ¬ x.C.Crule = 77) (h4 : ¬ x.C.Crule = 13)
    (h5 : ¬ x.C.Crule = 11) (h6 : ¬ x.C.Crule = 15) : False := by
  have hn := hc.neg hci
  rw [← h.1] at hn
  unfold NegRule at hn
  tauto

/-- The chain that starts at line 1874 does not fall through: the rules 6 and 66, which it
does not name, have the stress 0. -/
theorem fallthrough_setTrialStrain_L1871 {c : Committed} {d : ℚ} {G : ℚ → ℚ → Prop} {x : State}
    (hc : CommOK c) (hci : c.Cinc = 1) (h : Track c d G x)
    (h1 : ¬ (fabs x.C.Cstress) = 0) (h2 : ¬ (x.C.Crule = 2 ∨ x.C.Crule = 8))
    (h3 : ¬ x.C.Crule = 9) (h4 : ¬ x.C.Crule = 12) (h5 : ¬ x.C.Crule = 14)
    (h6 : ¬ x.C.Crule = 3) (h7 : ¬ x.C.Crule = 88) : False := by
  have hn := hc.pos hci
  have hz := hc.2
  rw [← h.1] at hn hz
  have h0 : ¬ (x.C.Crule = 6 ∨ x.C.Crule = 66) := fun e => h1 (fabs_eq_zero (hz e))
  unfold PosRule at hn
  tauto

/-- The chain over `Crule` that starts at line 3082 does not fall through. -/
theorem fallthrough_setTrialStrain_L1871_else {c : Committed} {d : ℚ} {G : ℚ → ℚ → Prop}
    {x : State} (hc : CommOK c) (hci : c.Cinc = 1) (h : Track c d G x)
    (h1 : ¬ (x.C.Crule = 3 ∨ x.C.Crule = 9 ∨ x.C.Crule = 8)) (h2 : ¬ x.C.Crule = 2)
    (h3 : ¬ x.C.Crule = 6) (h4 : ¬ x.C.Crule = 88) (h5 : ¬ x.C.Crule = 12)
    (h6 : ¬ x.C.Crule = 14) (h7 : ¬ x.C.Crule = 66) : False := by
  have hn := hc.pos hci
  rw [← h.1] at hn
  unfold PosRule at hn
  tauto
theorem negRule_1 : NegRule 1 := by unfold NegRule; norm_num

theorem negRule_5 : NegRule 5 := by unfold NegRule; norm_num

theorem negRule_4 : NegRule 4 := by unfold NegRule; norm_num

theorem negRule_10 : NegRule 10 := by unfold NegRule; norm_num

theorem negRule_7 : NegRule 7 := by unfold NegRule; norm_num

theorem negRule_11 : NegRule 11 := by unfold NegRule; norm_num

theorem negRule_13 : NegRule 13 := by unfold NegRule; norm_num

theorem negRule_15 : NegRule 15 := by unfold NegRule; norm_num

theorem negRule_77 : NegRule 77 := by unfold NegRule; norm_num

theorem posRule_2 : PosRule 2 := by unfold PosRule; norm_num

theorem rule_2_ne : (2 : ℚ) ≠ 6 ∧ (2 : ℚ) ≠ 66 := by norm_num

theorem posRule_6 : PosRule 6 := by unfold PosRule; norm_num

theorem posRule_3 : PosRule 3 := by unfold PosRule; norm_num

theorem rule_3_ne : (3 : ℚ) ≠ 6 ∧ (3 : ℚ) ≠ 66 := by norm_num

theorem posRule_9 : PosRule 9 := by unfold PosRule; norm_num

theorem rule_9_ne : (9 : ℚ) ≠ 6 ∧ (9 : ℚ) ≠ 66 := by norm_num

theorem posRule_8 : PosRule 8 := by unfold PosRule; norm_num

theorem rule_8_ne : (8 : ℚ) ≠ 6 ∧ (8 : ℚ) ≠ 66 := by norm_num

theorem posRule_12 : PosRule 12 := by unfold PosRule; norm_num

theorem rule_12_ne : (12 : ℚ) ≠ 6 ∧ (12 : ℚ) ≠ 66 := by norm_num

theorem posRule_14 : PosRule 14 := by unfold PosRule; norm_num

theorem rule_14_ne : (14 : ℚ) ≠ 6 ∧ (14 : ℚ) ≠ 66 := by norm_num

theorem posRule_66 : PosRule 66 := by unfold PosRule; norm_num

theorem posRule_88 : PosRule 88 := by unfold PosRule; norm_num

theorem rule_88_ne : (88 : ℚ) ≠ 6 ∧ (88 : ℚ) ≠ 66 := by norm_num

theorem ea1112f_keeps_rule (s : State) (eb espln esplp eunn eunp : ℚ) : KeepsRule s (ea1112f s eb espln esplp eunn eunp) := by
  unfold ea1112f
  have h : KeepsRule s s := krule_refl s
  exact
    krule_step h ⟨rfl, rfl, rfl, rfl, rfl⟩

theorem eb1112f_keeps_rule (s : State) (ea espln esplp eunn eunp : ℚ) : KeepsRule s (eb1112f s ea espln esplp eunn eunp) := by
  unfold eb1112f
  have h : KeepsRule s s := krule_refl s
  exact
    krule_step h ⟨rfl, rfl, rfl, rfl, rfl⟩

theorem eb1415f_keeps_rule (s : State) (ea fa Esecn : ℚ) : KeepsRule s (eb1415f s ea fa Esecn) := by
  unfold eb1415f
  have h : KeepsRule s s := krule_refl s
  exact
    krule_step h ⟨rfl, rfl, rfl, rfl, rfl⟩

theorem setTrialStrain_L371_L382_rule (m : Libm) (s : State) (strain : ℚ) {c : Committed} {d : ℚ}
    (h : Track c d (KR AnyR false) s) : Track c d Rule26 (setTrialStrain_L371_L382 m s strain) := by
  unfold setTrialStrain_L371_L382
  exact
    track_andThen (Track c d (KR AnyR false)) (track_set h ⟨rfl, rfl, rfl, rfl⟩) fun _ h =>
    track_andThen (Track c d (KR AnyR false)) (track_set h ⟨rfl, rfl, rfl, rfl⟩) fun _ h =>
    track_andThen (Track c d Rule26) (e0eunpfunpf_track h) fun _ h =>
    track_andThen (Track c d Rule26) (track_keep h (Keeps.krule (esplnf_keeps ..))) fun _ h =>
    track_andThen (Track c d Rule26) (track_keep h (Keeps.krule (Eplnf_keeps ..))) fun _ h =>
    track_andThen (Track c d Rule26) (track_keep h (Keeps.krule (fnewpf_keeps ..))) fun _ h =>
    track_andThen (Track c d Rule26) (track_keep h (Keeps.krule (Enewpf_keeps ..))) fun _ h =>
    track_andThen (Track c d Rule26) (track_keep h (Keeps.krule (esrepf_keeps ..))) fun _ h =>
    track_keep h (Keeps.krule (freErepf_keeps ..))

theorem setTrialStrain_L1877_L1889_rule (m : Libm) (s : State) (strain : ℚ) {c : Committed} {d : ℚ}
    (h : Track c d (KR AnyR false) s) : Track c d (KR Rule15R false) (setTrialStrain_L1877_L1889 m s strain) := by
  unfold setTrialStrain_L1877_L1889
  exact
    track_andThen (Track c d (KR AnyR false)) (track_set h ⟨rfl, rfl, rfl, rfl⟩) fun _ h =>
    track_andThen (Track c d (KR AnyR false)) (track_set h ⟨rfl, rfl, rfl, rfl⟩) fun _ h =>
    track_andThen (Track c d (KR Rule15R false)) (fcEtnf_track h) fun _ h =>
    track_andThen (Track c d (KR Rule15R false)) (track_set h ⟨rfl, rfl, rfl, rfl⟩) fun _ h =>
    track_andThen (Track c d (KR Rule15R false)) (track_set h ⟨rfl, rfl, rfl, rfl⟩) fun _ h =>
    track_andThen (Track c d (KR Rule15R false)) (track_set h ⟨rfl, rfl, rfl, rfl⟩) fun _ h =>
    track_andThen (Track c d (KR Rule15R false)) (track_set h ⟨rfl, rfl, rfl, rfl⟩) fun _ h =>
    track_andThen (Track c d (KR Rule15R false)) (track_keep h (Keeps.krule (fnewnf_keeps ..))) fun _ h =>
    track_keep h (Keeps.krule (Enewnf_keeps ..))

theorem setTrialStrain_L437_rule (m : Libm) (s : State) (strain : ℚ) (c : Committed) (hc : CommOK c)
    (hci : c.Cinc = -1) (h : Track c 1 (KR AnyR false) s) :
    Post TrialOK (setTrialStrain_L437 m s strain) := by
  unfold setTrialStrain_L437
  exact
    post_ite (fun _ =>
        post_andThen (Track c 1 (KR AnyR false)) (track_keep h (Keeps.krule (r3f_keeps ..))) fun _ h =>
        post_andThen (Track c 1 (KR AnyR false)) (track_keep h (Keeps.krule (RAf_keeps ..))) fun _ h =>
        post_andThen (Track c 1 (KR AnyR false)) (track_keep h (Keeps.krule (fcEturf_keeps ..))) fun _ h =>
        post_andThen (Track c 1 (KR AnyR false)) (track_set h ⟨rfl, rfl, rfl, rfl⟩) fun _ h =>
        post_andThen (Track c 1 (KR AnyR false)) (track_set h ⟨rfl, rfl, rfl, rfl⟩) fun _ h =>
        post_andThen (Track c 1 (KR AnyR false)) (track_set h ⟨rfl, rfl, rfl, rfl⟩) fun _ h =>
        post_andThen (Track c 1 (KR AnyR false)) (track_set h ⟨rfl, rfl, rfl, rfl⟩) fun _ h =>
        post_andThen (Track c 1 (KR AnyR false)) (track_set h ⟨rfl, rfl, rfl, rfl⟩) fun _ h =>
        post_andThen (Track c 1 (KR AnyR false)) (track_set h ⟨rfl, rfl, rfl, rfl⟩) fun _ h =>
        post_andThen (Track c 1 (KR AnyR false)) (track_keep h (Keeps.krule (RAf_keeps ..))) fun _ h =>
        post_andThen (Track c 1 (KR AnyR false)) (track_keep h (Keeps.krule (r12f_keeps ..))) fun _ h =>
        post_andThen (Track c 1 (KR (IsRule 12) false)) (track_rule 12 h) fun _ h =>
        post_andThen (Track c 1 (KR (IsRule 12) false)) (track_keep h (Keeps.krule (fcEturf_keeps ..))) fun _ h =>
        post_andThen (Track c 1 (KR (IsRule 12) false)) (track_stress h) fun _ h =>
        final_pos posRule_12 rule_12_ne (track_set h ⟨rfl, rfl, rfl, rfl⟩)
      ) (fun hn1 =>
        post_ite (fun _ =>
            post_andThen (Track c 1 (KR AnyR false)) (track_keep h (Keeps.krule (r3f_keeps ..))) fun _ h =>
            post_andThen (Track c 1 (KR (IsRule 3) false)) (track_rule 3 h) fun _ h =>
            post_andThen (Track c 1 (KR (IsRule 3) false)) (track_keep h (Keeps.krule (RAf_keeps ..))) fun _ h =>
            post_andThen (Track c 1 (KR (IsRule 3) false)) (track_keep h (Keeps.krule (fcEturf_keeps ..))) fun _ h =>
            post_andThen (Track c 1 (KR (IsRule 3) false)) (track_stress h) fun _ h =>
            final_pos posRule_3 rule_3_ne (track_set h ⟨rfl, rfl, rfl, rfl⟩)
          ) (fun hn2 =>
            post_ite (fun _ =>
                post_andThen (Track c 1 (KR AnyR false)) (track_keep h (Keeps.krule (r9f_keeps ..))) fun _ h =>
                post_andThen (Track c 1 (KR (IsRule 9) false)) (track_rule 9 h) fun _ h =>
                post_andThen (Track c 1 (KR (IsRule 9) false)) (track_keep h (Keeps.krule (RAf_keeps ..))) fun _ h =>
                post_andThen (Track c 1 (KR (IsRule 9) false)) (track_keep h (Keeps.krule (fcEturf_keeps ..))) fun _ h =>
                post_andThen (Track c 1 (KR (IsRule 9) false)) (track_stress h) fun _ h =>
                final_pos posRule_9 rule_9_ne (track_set h ⟨rfl, rfl, rfl, rfl⟩)
              ) (fun hn3 =>
                post_ite (fun _ =>
                    post_andThen (Track c 1 (KR AnyR false)) (track_keep h (Keeps.krule (r8f_keeps ..))) fun _ h =>
                    post_andThen (Track c 1 (KR (IsRule 8) false)) (track_rule 8 h) fun _ h =>
                    post_andThen (Track c 1 (KR (IsRule 8) false)) (track_keep h (Keeps.krule (RAf_keeps ..))) fun _ h =>
                    post_andThen (Track c 1 (KR (IsRule 8) false)) (track_keep h (Keeps.krule (fcEturf_keeps ..))) fun _ h =>
                    post_andThen (Track c 1 (KR (IsRule 8) false)) (track_stress h) fun _ h =>
                    final_pos posRule_8 rule_8_ne (track_set h ⟨rfl, rfl, rfl, rfl⟩)
                  ) (fun hn4 =>
                    final_pos26 (fcEtpf_track h)
                  )
              )
          )
      )

theorem setTrialStrain_L427_rule (m : Libm) (s : State) (strain : ℚ) (c : Committed) (hc : CommOK c)
    (hci : c.Cinc = -1) (h : Track c 1 (KR AnyR false) s) :
    Post TrialOK (setTrialStrain_L427 m s strain) := by
  unfold setTrialStrain_L427
  exact
    post_andThen (Track c 1 (KR AnyR false)) (track_set h ⟨rfl, rfl, rfl, rfl⟩) fun _ h =>
    post_andThen (Track c 1 (KR AnyR false)) (track_set h ⟨rfl, rfl, rfl, rfl⟩) fun _ h =>
    post_andThen (Track c 1 (KR AnyR false)) (track_set h ⟨rfl, rfl, rfl, rfl⟩) fun _ h =>
    post_andThen (Track c 1 (KR AnyR false)) (track_set h ⟨rfl, rfl, rfl, rfl⟩) fun _ h =>
    post_andThen (Track c 1 (KR AnyR false)) (track_keep h (ea1112f_keeps_rule ..)) fun _ h =>
    post_ite (fun _ =>
        setTrialStrain_L437_rule m _ strain c hc hci (h)
      ) (fun hn1 =>
        post_ite (fun _ =>
            post_ite (fun _ =>
                post_andThen (Track c 1 (KR AnyR false)) (track_keep h (Keeps.krule (r9f_keeps ..))) fun _ h =>
                post_andThen (Track c 1 (KR AnyR false)) (track_keep h (Keeps.krule (RAf_keeps ..))) fun _ h =>
                post_andThen (Track c 1 (KR AnyR false)) (track_keep h (Keeps.krule (fcEturf_keeps ..))) fun _ h =>
                post_andThen (Track c 1 (KR AnyR false)) (track_set h ⟨rfl, rfl, rfl, rfl⟩) fun _ h =>
                post_andThen (Track c 1 (KR AnyR false)) (track_set h ⟨rfl, rfl, rfl, rfl⟩) fun _ h =>
                post_andThen (Track c 1 (KR AnyR false)) (track_set h ⟨rfl, rfl, rfl, rfl⟩) fun _ h =>
                post_andThen (Track c 1 (KR AnyR false)) (track_set h ⟨rfl, rfl, rfl, rfl⟩) fun _ h =>
                post_andThen (Track c 1 (KR AnyR false)) (track_set h ⟨rfl, rfl, rfl, rfl⟩) fun _ h =>
                post_andThen (Track c 1 (KR AnyR false)) (track_set h ⟨rfl, rfl, rfl, rfl⟩) fun _ h =>
                post_andThen (Track c 1 (KR AnyR false)) (track_keep h (Keeps.krule (RAf_keeps ..))) fun _ h =>
                post_andThen (Track c 1 (KR AnyR false)) (track_keep h (Keeps.krule (r12f_keeps ..))) fun _ h =>
                post_andThen (Track c 1 (KR (IsRule 12) false)) (track_rule 12 h) fun _ h =>
                post_andThen (Track c 1 (KR (IsRule 12) false)) (track_keep h (Keeps.krule (fcEturf_keeps ..))) fun _ h =>
                post_andThen (Track c 1 (KR (IsRule 12) false)) (track_stress h) fun _ h =>
                final_pos posRule_12 rule_12_ne (track_set h ⟨rfl, rfl, rfl, rfl⟩)
              ) (fun hn3 =>
                post_ite (fun _ =>
                    post_andThen (Track c 1 (KR AnyR false)) (track_keep h (Keeps.krule (r9f_keeps ..))) fun _ h =>
                    post_andThen (Track c 1 (KR (IsRule 9) false)) (track_rule 9 h) fun _ h =>
                    post_andThen (Track c 1 (KR (IsRule 9) false)) (track_keep h (Keeps.krule (RAf_keeps ..))) fun _ h =>
                    post_andThen (Track c 1 (KR (IsRule 9) false)) (track_keep h (Keeps.krule (fcEturf_keeps ..))) fun _ h =>
                    post_andThen (Track c 1 (KR (IsRule 9) false)) (track_stress h) fun _ h =>
                    final_pos posRule_9 rule_9_ne (track_set h ⟨rfl, rfl, rfl, rfl⟩)
                  ) (fun hn4 =>
                    post_ite (fun _ =>
                        post_andThen (Track c 1 (KR AnyR false)) (track_keep h (Keeps.krule (r8f_keeps ..))) fun _ h =>
                        post_andThen (Track c 1 (KR (IsRule 8) false)) (track_rule 8 h) fun _ h =>
                        post_andThen (Track c 1 (KR (IsRule 8) false)) (track_keep h (Keeps.krule (RAf_keeps ..))) fun _ h =>
                        post_andThen (Track c 1 (KR (IsRule 8) false)) (track_keep h (Keeps.krule (fcEturf_keeps ..))) fun _ h =>
                        post_andThen (Track c 1 (KR (IsRule 8) false)) (track_stress h) fun _ h =>
                        final_pos posRule_8 rule_8_ne (track_set h ⟨rfl, rfl, rfl, rfl⟩)
                      ) (fun hn5 =>
                        final_pos26 (fcEtpf_track h)
                      )
                  )
              )
          ) (fun hn2 =>
            post_ite (fun _ =>
                post_ite (fun _ =>
                    post_andThen (Track c 1 (KR AnyR false)) (track_keep h (Keeps.krule (r8f_keeps ..))) fun _ h =>
                    post_andThen (Track c 1 (KR AnyR false)) (track_keep h (Keeps.krule (RAf_keeps ..))) fun _ h =>
                    post_andThen (Track c 1 (KR AnyR false)) (track_keep h (Keeps.krule (fcEturf_keeps ..))) fun _ h =>
                    post_andThen (Track c 1 (KR AnyR false)) (track_set h ⟨rfl, rfl, rfl, rfl⟩) fun _ h =>
                    post_andThen (Track c 1 (KR AnyR false)) (track_set h ⟨rfl, rfl, rfl, rfl⟩) fun _ h =>
                    post_andThen (Track c 1 (KR AnyR false)) (track_set h ⟨rfl, rfl, rfl, rfl⟩) fun _ h =>
                    post_andThen (Track c 1 (KR AnyR false)) (track_set h ⟨rfl, rfl, rfl, rfl⟩) fun _ h =>
                    post_andThen (Track c 1 (KR AnyR false)) (track_set h ⟨rfl, rfl, rfl, rfl⟩) fun _ h =>
                    post_andThen (Track c 1 (KR AnyR false)) (track_set h ⟨rfl, rfl, rfl, rfl⟩) fun _ h =>
                    post_andThen (Track c 1 (KR AnyR false)) (track_keep h (Keeps.krule (RAf_keeps ..))) fun _ h =>
                    post_andThen (Track c 1 (KR AnyR false)) (track_keep h (Keeps.krule (r12f_keeps ..))) fun _ h =>
                    post_andThen (Track c 1 (KR (IsRule 12) false)) (track_rule 12 h) fun _ h =>
                    post_andThen (Track c 1 (KR (IsRule 12) false)) (track_keep h (Keeps.krule (fcEturf_keeps ..))) fun _ h =>
                    post_andThen (Track c 1 (KR (IsRule 12) false)) (track_stress h) fun _ h =>
                    final_pos posRule_12 rule_12_ne (track_set h ⟨rfl, rfl, rfl, rfl⟩)
                  ) (fun hn7 =>
                    post_ite (fun _ =>
                        post_andThen (Track c 1 (KR AnyR false)) (track_keep h (Keeps.krule (r8f_keeps ..))) fun _ h =>
                        post_andThen (Track c 1 (KR (IsRule 8) false)) (track_rule 8 h) fun _ h =>
                        post_andThen (Track c 1 (KR (IsRule 8) false)) (track_keep h (Keeps.krule (RAf_keeps ..))) fun _ h =>
                        post_andThen (Track c 1 (KR (IsRule 8) false)) (track_keep h (Keeps.krule (fcEturf_keeps ..))) fun _ h =>
                        post_andThen (Track c 1 (KR (IsRule 8) false)) (track_stress h) fun _ h =>
                        final_pos posRule_8 rule_8_ne (track_set h ⟨rfl, rfl, rfl, rfl⟩)
                      ) (fun hn8 =>
                        final_pos26 (fcEtpf_track h)
                      )
                  )
              ) (fun hn6 =>
                post_ite (fun _ =>
                    post_andThen (Track c 1 Rule26) (fcEtpf_track h) fun _ h =>
                    post_andThen (Track c 1 Rule26) (track_set h ⟨rfl, rfl, rfl, rfl⟩) fun _ h =>
                    post_andThen (Track c 1 Rule26) (track_set h ⟨rfl, rfl, rfl, rfl⟩) fun _ h =>
                    post_andThen (Track c 1 Rule26) (track_set h ⟨rfl, rfl, rfl, rfl⟩) fun _ h =>
                    post_andThen (Track c 1 Rule26) (track_set h ⟨rfl, rfl, rfl, rfl⟩) fun _ h =>
                    post_andThen (Track c 1 Rule26) (track_set h ⟨rfl, rfl, rfl, rfl⟩) fun _ h =>
                    post_andThen (Track c 1 Rule26) (track_set h ⟨rfl, rfl, rfl, rfl⟩) fun _ h =>
                    post_andThen (Track c 1 Rule26) (track_keep h (Keeps.krule (RAf_keeps ..))) fun _ h =>
                    post_andThen (Track c 1 Rule26) (track_keep h (Keeps.krule (r12f_keeps ..))) fun _ h =>
                    post_andThen (Track c 1 (KR (IsRule 12) false)) (track_rule_of26 12 h) fun _ h =>
                    post_andThen (Track c 1 (KR (IsRule 12) false)) (track_keep h (Keeps.krule (fcEturf_keeps ..))) fun _ h =>
                    post_andThen (Track c 1 (KR (IsRule 12) false)) (track_stress h) fun _ h =>
                    final_pos posRule_12 rule_12_ne (track_set h ⟨rfl, rfl, rfl, rfl⟩)
                  ) (fun hn9 =>
                    final_pos26 (fcEtpf_track h)
                  )
              )
          )
      )

theorem setTrialStrain_L649_rule (m : Libm) (s : State) (strain : ℚ) (c : Committed) (hc : CommOK c)
    (hci : c.Cinc = -1) (h : Track c 1 (KR AnyR false) s) :
    Post TrialOK (setTrialStrain_L649 m s strain) := by
  unfold setTrialStrain_L649
  exact
    post_ite (fun _ =>
        post_andThen (Track c 1 (KR AnyR false)) (track_keep h (Keeps.krule (r3f_keeps ..))) fun _ h =>
        post_andThen (Track c 1 (KR AnyR false)) (track_keep h (Keeps.krule (RAf_keeps ..))) fun _ h =>
        post_andThen (Track c 1 (KR AnyR false)) (track_keep h (Keeps.krule (fcEturf_keeps ..))) fun _ h =>
        post_andThen (Track c 1 (KR AnyR false)) (track_set h ⟨rfl, rfl, rfl, rfl⟩) fun _ h =>
        post_andThen (Track c 1 (KR AnyR false)) (track_set h ⟨rfl, rfl, rfl, rfl⟩) fun _ h =>
        post_andThen (Track c 1 (KR AnyR false)) (track_set h ⟨rfl, rfl, rfl, rfl⟩) fun _ h =>
        post_andThen (Track c 1 (KR AnyR false)) (track_set h ⟨rfl, rfl, rfl, rfl⟩) fun _ h =>
        post_andThen (Track c 1 (KR AnyR false)) (track_set h ⟨rfl, rfl, rfl, rfl⟩) fun _ h =>
        post_andThen (Track c 1 (KR AnyR false)) (track_set h ⟨rfl, rfl, rfl, rfl⟩) fun _ h =>
        post_andThen (Track c 1 (KR AnyR false)) (track_keep h (Keeps.krule (RAf_keeps ..))) fun _ h =>
        post_andThen (Track c 1 (KR AnyR false)) (track_keep h (Keeps.krule (r12f_keeps ..))) fun _ h =>
        post_andThen (Track c 1 (KR (IsRule 12) false)) (track_rule 12 h) fun _ h =>
        post_andThen (Track c 1 (KR (IsRule 12) false)) (track_keep h (Keeps.krule (fcEturf_keeps ..))) fun _ h =>
        post_andThen (Track c 1 (KR (IsRule 12) false)) (track_stress h) fun _ h =>
        final_pos posRule_12 rule_12_ne (track_set h ⟨rfl, rfl, rfl, rfl⟩)
      ) (fun hn1 =>
        post_ite (fun _ =>
            post_andThen (Track c 1 (KR AnyR false)) (track_keep h (Keeps.krule (r3f_keeps ..))) fun _ h =>
            post_andThen (Track c 1 (KR (IsRule 3) false)) (track_rule 3 h) fun _ h =>
            post_andThen (Track c 1 (KR (IsRule 3) false)) (track_keep h (Keeps.krule (RAf_keeps ..))) fun _ h =>
            post_andThen (Track c 1 (KR (IsRule 3) false)) (track_keep h (Keeps.krule (fcEturf_keeps ..))) fun _ h =>
            post_andThen (Track c 1 (KR (IsRule 3) false)) (track_stress h) fun _ h =>
            final_pos posRule_3 rule_3_ne (track_set h ⟨rfl, rfl, rfl, rfl⟩)
          ) (fun hn2 =>
            post_ite (fun _ =>
                post_andThen (Track c 1 (KR AnyR false)) (track_keep h (Keeps.krule (r9f_keeps ..))) fun _ h =>
                post_andThen (Track c 1 (KR (IsRule 9) false)) (track_rule 9 h) fun _ h =>
                post_andThen (Track c 1 (KR (IsRule 9) false)) (track_keep h (Keeps.krule (RAf_keeps ..))) fun _ h =>
                post_andThen (Track c 1 (KR (IsRule 9) false)) (track_keep h (Keeps.krule (fcEturf_keeps ..))) fun _ h =>
                post_andThen (Track c 1 (KR (IsRule 9) false)) (track_stress h) fun _ h =>
                final_pos posRule_9 rule_9_ne (track_set h ⟨rfl, rfl, rfl, rfl⟩)
              ) (fun hn3 =>
                post_ite (fun _ =>
                    post_andThen (Track c 1 (KR AnyR false)) (track_keep h (Keeps.krule (r8f_keeps ..))) fun _ h =>
                    post_andThen (Track c 1 (KR (IsRule 8) false)) (track_rule 8 h) fun _ h =>
                    post_andThen (Track c 1 (KR (IsRule 8) false)) (track_keep h (Keeps.krule (RAf_keeps ..))) fun _ h =>
                    post_andThen (Track c 1 (KR (IsRule 8) false)) (track_keep h (Keeps.krule (fcEturf_keeps ..))) fun _ h =>
                    post_andThen (Track c 1 (KR (IsRule 8) false)) (track_stress h) fun _ h =>
                    final_pos posRule_8 rule_8_ne (track_set h ⟨rfl, rfl, rfl, rfl⟩)
                  ) (fun hn4 =>
                    final_pos26 (fcEtpf_track h)
                  )
              )
          )
      )

theorem setTrialStrain_L647_rule (m : Libm) (s : State) (strain : ℚ) (c : Committed) (hc : CommOK c)
    (hci : c.Cinc = -1) (h : Track c 1 (KR AnyR false) s) :
    Post TrialOK (setTrialStrain_L647 m s strain) := by
  unfold setTrialStrain_L647
  exact
    post_ite (fun _ =>
        setTrialStrain_L649_rule m _ strain c hc hci (h)
      ) (fun hn1 =>
        post_ite (fun _ =>
            post_ite (fun _ =>
                post_andThen (Track c 1 (KR AnyR false)) (track_keep h (Keeps.krule (r9f_keeps ..))) fun _ h =>
                post_andThen (Track c 1 (KR AnyR false)) (track_keep h (Keeps.krule (RAf_keeps ..))) fun _ h =>
                post_andThen (Track c 1 (KR AnyR false)) (track_keep h (Keeps.krule (fcEturf_keeps ..))) fun _ h =>
                post_andThen (Track c 1 (KR AnyR false)) (track_set h ⟨rfl, rfl, rfl, rfl⟩) fun _ h =>
                post_andThen (Track c 1 (KR AnyR false)) (track_set h ⟨rfl, rfl, rfl, rfl⟩) fun _ h =>
                post_andThen (Track c 1 (KR AnyR false)) (track_set h ⟨rfl, rfl, rfl, rfl⟩) fun _ h =>
                post_andThen (Track c 1 (KR AnyR false)) (track_set h ⟨rfl, rfl, rfl, rfl⟩) fun _ h =>
                post_andThen (Track c 1 (KR AnyR false)) (track_set h ⟨rfl, rfl, rfl, rfl⟩) fun _ h =>
                post_andThen (Track c 1 (KR AnyR false)) (track_set h ⟨rfl, rfl, rfl, rfl⟩) fun _ h =>
                post_andThen (Track c 1 (KR AnyR false)) (track_keep h (Keeps.krule (RAf_keeps ..))) fun _ h =>
                post_andThen (Track c 1 (KR AnyR false)) (track_keep h (Keeps.krule (r12f_keeps ..))) fun _ h =>
                post_andThen (Track c 1 (KR (IsRule 12) false)) (track_rule 12 h) fun _ h =>
                post_andThen (Track c 1 (KR (IsRule 12) false)) (track_keep h (Keeps.krule (fcEturf_keeps ..))) fun _ h =>
                post_andThen (Track c 1 (KR (IsRule 12) false)) (track_stress h) fun _ h =>
                final_pos posRule_12 rule_12_ne (track_set h ⟨rfl, rfl, rfl, rfl⟩)
              ) (fun hn3 =>
                post_ite (fun _ =>
                    post_andThen (Track c 1 (KR AnyR false)) (track_keep h (Keeps.krule (r9f_keeps ..))) fun _ h =>
                    post_andThen (Track c 1 (KR (IsRule 9) false)) (track_rule 9 h) fun _ h =>
                    post_andThen (Track c 1 (KR (IsRule 9) false)) (track_keep h (Keeps.krule (RAf_keeps ..))) fun _ h =>
                    post_andThen (Track c 1 (KR (IsRule 9) false)) (track_keep h (Keeps.krule (fcEturf_keeps ..))) fun _ h =>
                    post_andThen (Track c 1 (KR (IsRule 9) false)) (track_stress h) fun _ h =>
                    final_pos posRule_9 rule_9_ne (track_set h ⟨rfl, rfl, rfl, rfl⟩)
                  ) (fun hn4 =>
                    post_ite (fun _ =>
                        post_andThen (Track c 1 (KR AnyR false)) (track_keep h (Keeps.krule (r8f_keeps ..))) fun _ h =>
                        post_andThen (Track c 1 (KR (IsRule 8) false)) (track_rule 8 h) fun _ h =>
                        post_andThen (Track c 1 (KR (IsRule 8) false)) (track_keep h (Keeps.krule (RAf_keeps ..))) fun _ h =>
                        post_andThen (Track c 1 (KR (IsRule 8) false)) (track_keep h (Keeps.krule (fcEturf_keeps ..))) fun _ h =>
                        post_andThen (Track c 1 (KR (IsRule 8) false)) (track_stress h) fun _ h =>
                        final_pos posRule_8 rule_8_ne (track_set h ⟨rfl, rfl, rfl, rfl⟩)
                      ) (fun hn5 =>
                        final_pos26 (fcEtpf_track h)
                      )
                  )
              )
          ) (fun hn2 =>
            post_ite (fun _ =>
                post_ite (fun _ =>
                    post_andThen (Track c 1 (KR AnyR false)) (track_keep h (Keeps.krule (r8f_keeps ..))) fun _ h =>
                    post_andThen (Track c 1 (KR AnyR false)) (track_keep h (Keeps.krule (RAf_keeps ..))) fun _ h =>
                    post_andThen (Track c 1 (KR AnyR false)) (track_keep h (Keeps.krule (fcEturf_keeps ..))) fun _ h =>
                    post_andThen (Track c 1 (KR AnyR false)) (track_set h ⟨rfl, rfl, rfl, rfl⟩) fun _ h =>
                    post_andThen (Track c 1 (KR AnyR false)) (track_set h ⟨rfl, rfl, rfl, rfl⟩) fun _ h =>
                    post_andThen (Track c 1 (KR AnyR false)) (track_set h ⟨rfl, rfl, rfl, rfl⟩) fun _ h =>
                    post_andThen (Track c 1 (KR AnyR false)) (track_set h ⟨rfl, rfl, rfl, rfl⟩) fun _ h =>
                    post_andThen (Track c 1 (KR AnyR false)) (track_set h ⟨rfl, rfl, rfl, rfl⟩) fun _ h =>
                    post_andThen (Track c 1 (KR AnyR false)) (track_set h ⟨rfl, rfl, rfl, rfl⟩) fun _ h =>
                    post_andThen (Track c 1 (KR AnyR false)) (track_keep h (Keeps.krule (RAf_keeps ..))) fun _ h =>
                    post_andThen (Track c 1 (KR AnyR false)) (track_keep h (Keeps.krule (r12f_keeps ..))) fun _ h =>
                    post_andThen (Track c 1 (KR (IsRule 12) false)) (track_rule 12 h) fun _ h =>
                    post_andThen (Track c 1 (KR (IsRule 12) false)) (track_keep h (Keeps.krule (fcEturf_keeps ..))) fun _ h =>
                    post_andThen (Track c 1 (KR (IsRule 12) false)) (track_stress h) fun _ h =>
                    final_pos posRule_12 rule_12_ne (track_set h ⟨rfl, rfl, rfl, rfl⟩)
                  ) (fun hn7 =>
                    post_ite (fun _ =>
                        post_andThen (Track c 1 (KR AnyR false)) (track_keep h (Keeps.krule (r8f_keeps ..))) fun _ h =>
                        post_andThen (Track c 1 (KR (IsRule 8) false)) (track_rule 8 h) fun _ h =>
                        post_andThen (Track c 1 (KR (IsRule 8) false)) (track_keep h (Keeps.krule (RAf_keeps ..))) fun _ h =>
                        post_andThen (Track c 1 (KR (IsRule 8) false)) (track_keep h (Keeps.krule (fcEturf_keeps ..))) fun _ h =>
                        post_andThen (Track c 1 (KR (IsRule 8) false)) (track_stress h) fun _ h =>
                        final_pos posRule_8 rule_8_ne (track_set h ⟨rfl, rfl, rfl, rfl⟩)
                      ) (fun hn8 =>
                        final_pos26 (fcEtpf_track h)
                      )
                  )
              ) (fun hn6 =>
                post_ite (fun _ =>
                    post_andThen (Track c 1 Rule26) (fcEtpf_track h) fun _ h =>
                    post_andThen (Track c 1 Rule26) (track_set h ⟨rfl, rfl, rfl, rfl⟩) fun _ h =>
                    post_andThen (Track c 1 Rule26) (track_set h ⟨rfl, rfl, rfl, rfl⟩) fun _ h =>
                    post_andThen (Track c 1 Rule26) (track_set h ⟨rfl, rfl, rfl, rfl⟩) fun _ h =>
                    post_andThen (Track c 1 Rule26) (track_set h ⟨rfl, rfl, rfl, rfl⟩) fun _ h =>
                    post_andThen (Track c 1 Rule26) (track_set h ⟨rfl, rfl, rfl, rfl⟩) fun _ h =>
                    post_andThen (Track c 1 Rule26) (track_set h ⟨rfl, rfl, rfl, rfl⟩) fun _ h =>
                    post_andThen (Track c 1 Rule26) (track_keep h (Keeps.krule (RAf_keeps ..))) fun _ h =>
                    post_andThen (Track c 1 Rule26) (track_keep h (Keeps.krule (r12f_keeps ..))) fun _ h =>
                    post_andThen (Track c 1 (KR (IsRule 12) false)) (track_rule_of26 12 h) fun _ h =>
                    post_andThen (Track c 1 (KR (IsRule 12) false)) (track_keep h (Keeps.krule (fcEturf_keeps ..))) fun _ h =>
                    post_andThen (Track c 1 (KR (IsRule 12) false)) (track_stress h) fun _ h =>
                    final_pos posRule_12 rule_12_ne (track_set h ⟨rfl, rfl, rfl, rfl⟩)
                  ) (fun hn9 =>
                    final_pos26 (fcEtpf_track h)
                  )
              )
          )
      )

theorem setTrialStrain_L647_else_rule (m : Libm) (s : State) (strain : ℚ) (c : Committed) (hc : CommOK c)
    (hci : c.Cinc = -1) (h : Track c 1 (KR AnyR false) s) :
    Post TrialOK (setTrialStrain_L647_else m s strain) := by
  unfold setTrialStrain_L647_else
  exact
    post_ite (fun _ =>
        post_ite (fun _ =>
            post_andThen (Track c 1 (KR AnyR false)) (track_keep h (Keeps.krule (r88f_keeps ..))) fun _ h =>
            post_andThen (Track c 1 (KR AnyR false)) (track_keep h (Keeps.krule (RAf_keeps ..))) fun _ h =>
            post_andThen (Track c 1 (KR AnyR false)) (track_keep h (Keeps.krule (fcEturf_keeps ..))) fun _ h =>
            post_andThen (Track c 1 (KR AnyR false)) (track_set h ⟨rfl, rfl, rfl, rfl⟩) fun _ h =>
            post_andThen (Track c 1 (KR AnyR false)) (track_set h ⟨rfl, rfl, rfl, rfl⟩) fun _ h =>
            post_andThen (Track c 1 (KR AnyR false)) (track_set h ⟨rfl, rfl, rfl, rfl⟩) fun _ h =>
            post_andThen (Track c 1 (KR AnyR false)) (track_set h ⟨rfl, rfl, rfl, rfl⟩) fun _ h =>
            post_andThen (Track c 1 (KR AnyR false)) (track_keep h (Keeps.krule (RAf_keeps ..))) fun _ h =>
            post_andThen (Track c 1 (KR AnyR false)) (track_keep h (Keeps.krule (r12f_keeps ..))) fun _ h =>
            post_andThen (Track c 1 (KR (IsRule 12) false)) (track_rule 12 h) fun _ h =>
            post_andThen (Track c 1 (KR (IsRule 12) false)) (track_keep h (Keeps.krule (fcEturf_keeps ..))) fun _ h =>
            post_andThen (Track c 1 (KR (IsRule 12) false)) (track_stress h) fun _ h =>
            final_pos posRule_12 rule_12_ne (track_set h ⟨rfl, rfl, rfl, rfl⟩)
          ) (fun hn2 =>
            post_ite (fun _ =>
                post_andThen (Track c 1 (KR AnyR false)) (track_keep h (Keeps.krule (r88f_keeps ..))) fun _ h =>
                post_andThen (Track c 1 (KR (IsRule 88) false)) (track_rule 88 h) fun _ h =>
                post_andThen (Track c 1 (KR (IsRule 88) false)) (track_keep h (Keeps.krule (RAf_keeps ..))) fun _ h =>
                post_andThen (Track c 1 (KR (IsRule 88) false)) (track_keep h (Keeps.krule (fcEturf_keeps ..))) fun _ h =>
                post_andThen (Track c 1 (KR (IsRule 88) false)) (track_stress h) fun _ h =>
                final_pos posRule_88 rule_88_ne (track_set h ⟨rfl, rfl, rfl, rfl⟩)
              ) (fun hn3 =>
                final_pos26 (fcEtpf_track h)
              )
          )
      ) (fun hn1 =>
        post_ite (fun _ =>
            post_andThen (Track c 1 Rule26) (fcEtpf_track h) fun _ h =>
            post_andThen (Track c 1 Rule26) (track_set h ⟨rfl, rfl, rfl, rfl⟩) fun _ h =>
            post_andThen (Track c 1 Rule26) (track_set h ⟨rfl, rfl, rfl, rfl⟩) fun _ h =>
            post_andThen (Track c 1 Rule26) (track_set h ⟨rfl, rfl, rfl, rfl⟩) fun _ h =>
            post_andThen (Track c 1 Rule26) (track_set h ⟨rfl, rfl, rfl, rfl⟩) fun _ h =>
            post_andThen (Track c 1 Rule26) (track_set h ⟨rfl, rfl, rfl, rfl⟩) fun _ h =>
            post_andThen (Track c 1 Rule26) (track_set h ⟨rfl, rfl, rfl, rfl⟩) fun _ h =>
            post_andThen (Track c 1 Rule26) (track_keep h (Keeps.krule (RAf_keeps ..))) fun _ h =>
            post_andThen (Track c 1 Rule26) (track_keep h (Keeps.krule (r12f_keeps ..))) fun _ h =>
            post_andThen (Track c 1 (KR (IsRule 12) false)) (track_rule_of26 12 h) fun _ h =>
            post_andThen (Track c 1 (KR (IsRule 12) false)) (track_keep h (Keeps.krule (fcEturf_keeps ..))) fun _ h =>
            post_andThen (Track c 1 (KR (IsRule 12) false)) (track_stress h) fun _ h =>
            final_pos posRule_12 rule_12_ne (track_set h ⟨rfl, rfl, rfl, rfl⟩)
          ) (fun hn4 =>
            final_pos26 (fcEtpf_track h)
          )
      )

theorem setTrialStrain_L642_rule (m : Libm) (s : State) (strain : ℚ) (c : Committed) (hc : CommOK c)
    (hci : c.Cinc = -1) (h : Track c 1 (KR AnyR false) s) :
    Post TrialOK (setTrialStrain_L642 m s strain) := by
  unfold setTrialStrain_L642
  exact
    post_andThen (Track c 1 (KR AnyR false)) (track_set h ⟨rfl, rfl, rfl, rfl⟩) fun _ h =>
    post_andThen (Track c 1 (KR AnyR false)) (track_set h ⟨rfl, rfl, rfl, rfl⟩) fun _ h =>
    post_ite (fun _ =>
        setTrialStrain_L647_rule m _ strain c hc hci (h)
      ) (fun hn1 =>
        setTrialStrain_L647_else_rule m _ strain c hc hci (h)
      )

theorem setTrialStrain_L1012_rule (m : Libm) (s : State) (strain : ℚ) (c : Committed) (hc : CommOK c)
    (hci : c.Cinc = -1) (h : Track c 1 (KR AnyR false) s) :
    Post TrialOK (setTrialStrain_L1012 m s strain) := by
  unfold setTrialStrain_L1012
  exact
    post_ite (fun _ =>
        post_andThen (Track c 1 (KR AnyR false)) (track_keep h (Keeps.krule (r3f_keeps ..))) fun _ h =>
        post_andThen (Track c 1 (KR AnyR false)) (track_keep h (Keeps.krule (RAf_keeps ..))) fun _ h =>
        post_andThen (Track c 1 (KR AnyR false)) (track_keep h (Keeps.krule (fcEturf_keeps ..))) fun _ h =>
        post_andThen (Track c 1 (KR AnyR false)) (track_set h ⟨rfl, rfl, rfl, rfl⟩) fun _ h =>
        post_andThen (Track c 1 (KR AnyR false)) (track_set h ⟨rfl, rfl, rfl, rfl⟩) fun _ h =>
        post_andThen (Track c 1 (KR AnyR false)) (track_set h ⟨rfl, rfl, rfl, rfl⟩) fun _ h =>
        post_andThen (Track c 1 (KR AnyR false)) (track_set h ⟨rfl, rfl, rfl, rfl⟩) fun _ h =>
        post_andThen (Track c 1 (KR AnyR false)) (track_set h ⟨rfl, rfl, rfl, rfl⟩) fun _ h =>
        post_andThen (Track c 1 (KR AnyR false)) (track_set h ⟨rfl, rfl, rfl, rfl⟩) fun _ h =>
        post_andThen (Track c 1 (KR AnyR false)) (track_keep h (Keeps.krule (RAf_keeps ..))) fun _ h =>
        post_andThen (Track c 1 (KR AnyR false)) (track_keep h (Keeps.krule (r12f_keeps ..))) fun _ h =>
        post_andThen (Track c 1 (KR (IsRule 12) false)) (track_rule 12 h) fun _ h =>
        post_andThen (Track c 1 (KR (IsRule 12) false)) (track_keep h (Keeps.krule (fcEturf_keeps ..))) fun _ h =>
        post_andThen (Track c 1 (KR (IsRule 12) false)) (track_stress h) fun _ h =>
        final_pos posRule_12 rule_12_ne (track_set h ⟨rfl, rfl, rfl, rfl⟩)
      ) (fun hn1 =>
        post_ite (fun _ =>
            post_andThen (Track c 1 (KR AnyR false)) (track_keep h (Keeps.krule (r3f_keeps ..))) fun _ h =>
            post_andThen (Track c 1 (KR (IsRule 3) false)) (track_rule 3 h) fun _ h =>
            post_andThen (Track c 1 (KR (IsRule 3) false)) (track_keep h (Keeps.krule (RAf_keeps ..))) fun _ h =>
            post_andThen (Track c 1 (KR (IsRule 3) false)) (track_keep h (Keeps.krule (fcEturf_keeps ..))) fun _ h =>
            post_andThen (Track c 1 (KR (IsRule 3) false)) (track_stress h) fun _ h =>
            final_pos posRule_3 rule_3_ne (track_set h ⟨rfl, rfl, rfl, rfl⟩)
          ) (fun hn2 =>
            post_ite (fun _ =>
                post_andThen (Track c 1 (KR AnyR false)) (track_keep h (Keeps.krule (r9f_keeps ..))) fun _ h =>
                post_andThen (Track c 1 (KR (IsRule 9) false)) (track_rule 9 h) fun _ h =>
                post_andThen (Track c 1 (KR (IsRule 9) false)) (track_keep h (Keeps.krule (RAf_keeps ..))) fun _ h =>
                post_andThen (Track c 1 (KR (IsRule 9) false)) (track_keep h (Keeps.krule (fcEturf_keeps ..))) fun _ h =>
                post_andThen (Track c 1 (KR (IsRule 9) false)) (track_stress h) fun _ h =>
                final_pos posRule_9 rule_9_ne (track_set h ⟨rfl, rfl, rfl, rfl⟩)
              ) (fun hn3 =>
                post_ite (fun _ =>
                    post_andThen (Track c 1 (KR AnyR false)) (track_keep h (Keeps.krule (r8f_keeps ..))) fun _ h =>
                    post_andThen (Track c 1 (KR (IsRule 8) false)) (track_rule 8 h) fun _ h =>
                    post_andThen (Track c 1 (KR (IsRule 8) false)) (track_keep h (Keeps.krule (RAf_keeps ..))) fun _ h =>
                    post_andThen (Track c 1 (KR (IsRule 8) false)) (track_keep h (Keeps.krule (fcEturf_keeps ..))) fun _ h =>
                    post_andThen (Track c 1 (KR (IsRule 8) false)) (track_stress h) fun _ h =>
                    final_pos posRule_8 rule_8_ne (track_set h ⟨rfl, rfl, rfl, rfl⟩)
                  ) (fun hn4 =>
                    final_pos26 (fcEtpf_track h)
                  )
              )
          )
      )

theorem setTrialStrain_L1004_rule (m : Libm) (s : State) (strain : ℚ) (c : Committed) (hc : CommOK c)
    (hci : c.Cinc = -1) (h : Track c 1 (KR AnyR false) s) :
    Post TrialOK (setTrialStrain_L1004 m s strain) := by
  unfold setTrialStrain_L1004
  exact
    post_andThen (Track c 1 (KR AnyR false)) (track_set h ⟨rfl, rfl, rfl, rfl⟩) fun _ h =>
    post_andThen (Track c 1 (KR AnyR false)) (track_set h ⟨rfl, rfl, rfl, rfl⟩) fun _ h =>
    post_andThen (Track c 1 (KR AnyR false)) (track_set h ⟨rfl, rfl, rfl, rfl⟩) fun _ h =>
    post_andThen (Track c 1 (KR AnyR false)) (track_set h ⟨rfl, rfl, rfl, rfl⟩) fun _ h =>
    post_ite (fun _ =>
        setTrialStrain_L1012_rule m _ strain c hc hci (h)
      ) (fun hn1 =>
        post_ite (fun _ =>
            post_ite (fun _ =>
                post_andThen (Track c 1 (KR AnyR false)) (track_keep h (Keeps.krule (r9f_keeps ..))) fun _ h =>
                post_andThen (Track c 1 (KR AnyR false)) (track_keep h (Keeps.krule (RAf_keeps ..))) fun _ h =>
                post_andThen (Track c 1 (KR AnyR false)) (track_keep h (Keeps.krule (fcEturf_keeps ..))) fun _ h =>
                post_andThen (Track c 1 (KR AnyR false)) (track_set h ⟨rfl, rfl, rfl, rfl⟩) fun _ h =>
                post_andThen (Track c 1 (KR AnyR false)) (track_set h ⟨rfl, rfl, rfl, rfl⟩) fun _ h =>
                post_andThen (Track c 1 (KR AnyR false)) (track_set h ⟨rfl, rfl, rfl, rfl⟩) fun _ h =>
                post_andThen (Track c 1 (KR AnyR false)) (track_set h ⟨rfl, rfl, rfl, rfl⟩) fun _ h =>
                post_andThen (Track c 1 (KR AnyR false)) (track_set h ⟨rfl, rfl, rfl, rfl⟩) fun _ h =>
                post_andThen (Track c 1 (KR AnyR false)) (track_set h ⟨rfl, rfl, rfl, rfl⟩) fun _ h =>
                post_andThen (Track c 1 (KR AnyR false)) (track_keep h (Keeps.krule (RAf_keeps ..))) fun _ h =>
                post_andThen (Track c 1 (KR AnyR false)) (track_keep h (Keeps.krule (r12f_keeps ..))) fun _ h =>
                post_andThen (Track c 1 (KR (IsRule 12) false)) (track_rule 12 h) fun _ h =>
                post_andThen (Track c 1 (KR (IsRule 12) false)) (track_keep h (Keeps.krule (fcEturf_keeps ..))) fun _ h =>
                post_andThen (Track c 1 (KR (IsRule 12) false)) (track_stress h) fun _ h =>
                final_pos posRule_12 rule_12_ne (track_set h ⟨rfl, rfl, rfl, rfl⟩)
              ) (fun hn3 =>
                post_ite (fun _ =>
                    post_andThen (Track c 1 (KR AnyR false)) (track_keep h (Keeps.krule (r9f_keeps ..))) fun _ h =>
                    post_andThen (Track c 1 (KR (IsRule 9) false)) (track_rule 9 h) fun _ h =>
                    post_andThen (Track c 1 (KR (IsRule 9) false)) (track_keep h (Keeps.krule (RAf_keeps ..))) fun _ h =>
                    post_andThen (Track c 1 (KR (IsRule 9) false)) (track_keep h (Keeps.krule (fcEturf_keeps ..))) fun _ h =>
                    post_andThen (Track c 1 (KR (IsRule 9) false)) (track_stress h) fun _ h =>
                    final_pos posRule_9 rule_9_ne (track_set h ⟨rfl, rfl, rfl, rfl⟩)
                  ) (fun hn4 =>
                    post_ite (fun _ =>
                        post_andThen (Track c 1 (KR AnyR false)) (track_keep h (Keeps.krule (r8f_keeps ..))) fun _ h =>
                        post_andThen (Track c 1 (KR (IsRule 8) false)) (track_rule 8 h) fun _ h =>
                        post_andThen (Track c 1 (KR (IsRule 8) false)) (track_keep h (Keeps.krule (RAf_keeps ..))) fun _ h =>
                        post_andThen (Track c 1 (KR (IsRule 8) false)) (track_keep h (Keeps.krule (fcEturf_keeps ..))) fun _ h =>
                        post_andThen (Track c 1 (KR (IsRule 8) false)) (track_stress h) fun _ h =>
                        final_pos posRule_8 rule_8_ne (track_set h ⟨rfl, rfl, rfl, rfl⟩)
                      ) (fun hn5 =>
                        final_pos26 (fcEtpf_track h)
                      )
                  )
              )
          ) (fun hn2 =>
            post_ite (fun _ =>
                post_ite (fun _ =>
                    post_andThen (Track c 1 (KR AnyR false)) (track_keep h (Keeps.krule (r8f_keeps ..))) fun _ h =>
                    post_andThen (Track c 1 (KR AnyR false)) (track_keep h (Keeps.krule (RAf_keeps ..))) fun _ h =>
                    post_andThen (Track c 1 (KR AnyR false)) (track_keep h (Keeps.krule (fcEturf_keeps ..))) fun _ h =>
                    post_andThen (Track c 1 (KR AnyR false)) (track_set h ⟨rfl, rfl, rfl, rfl⟩) fun _ h =>
                    post_andThen (Track c 1 (KR AnyR false)) (track_set h ⟨rfl, rfl, rfl, rfl⟩) fun _ h =>
                    post_andThen (Track c 1 (KR AnyR false)) (track_set h ⟨rfl, rfl, rfl, rfl⟩) fun _ h =>
                    post_andThen (Track c 1 (KR AnyR false)) (track_set h ⟨rfl, rfl, rfl, rfl⟩) fun _ h =>
                    post_andThen (Track c 1 (KR AnyR false)) (track_set h ⟨rfl, rfl, rfl, rfl⟩) fun _ h =>
                    post_andThen (Track c 1 (KR AnyR false)) (track_set h ⟨rfl, rfl, rfl, rfl⟩) fun _ h =>
                    post_andThen (Track c 1 (KR AnyR false)) (track_keep h (Keeps.krule (RAf_keeps ..))) fun _ h =>
                    post_andThen (Track c 1 (KR AnyR false)) (track_keep h (Keeps.krule (r12f_keeps ..))) fun _ h =>
                    post_andThen (Track c 1 (KR (IsRule 12) false)) (track_rule 12 h) fun _ h =>
                    post_andThen (Track c 1 (KR (IsRule 12) false)) (track_keep h (Keeps.krule (fcEturf_keeps ..))) fun _ h =>
                    post_andThen (Track c 1 (KR (IsRule 12) false)) (track_stress h) fun _ h =>
                    final_pos posRule_12 rule_12_ne (track_set h ⟨rfl, rfl, rfl, rfl⟩)
                  ) (fun hn7 =>
                    post_ite (fun _ =>
                        post_andThen (Track c 1 (KR AnyR false)) (track_keep h (Keeps.krule (r8f_keeps ..))) fun _ h =>
                        post_andThen (Track c 1 (KR (IsRule 8) false)) (track_rule 8 h) fun _ h =>
                        post_andThen (Track c 1 (KR (IsRule 8) false)) (track_keep h (Keeps.krule (RAf_keeps ..))) fun _ h =>
                        post_andThen (Track c 1 (KR (IsRule 8) false)) (track_keep h (Keeps.krule (fcEturf_keeps ..))) fun _ h =>
                        post_andThen (Track c 1 (KR (IsRule 8) false)) (track_stress h) fun _ h =>
                        final_pos posRule_8 rule_8_ne (track_set h ⟨rfl, rfl, rfl, rfl⟩)
                      ) (fun hn8 =>
                        final_pos26 (fcEtpf_track h)
                      )
                  )
              ) (fun hn6 =>
                post_ite (fun _ =>
                    post_andThen (Track c 1 Rule26) (fcEtpf_track h) fun _ h =>
                    post_andThen (Track c 1 Rule26) (track_set h ⟨rfl, rfl, rfl, rfl⟩) fun _ h =>
                    post_andThen (Track c 1 Rule26) (track_set h ⟨rfl, rfl, rfl, rfl⟩) fun _ h =>
                    post_andThen (Track c 1 Rule26) (track_set h ⟨rfl, rfl, rfl, rfl⟩) fun _ h =>
                    post_andThen (Track c 1 Rule26) (track_set h ⟨rfl, rfl, rfl, rfl⟩) fun _ h =>
                    post_andThen (Track c 1 Rule26) (track_set h ⟨rfl, rfl, rfl, rfl⟩) fun _ h =>
                    post_andThen (Track c 1 Rule26) (track_set h ⟨rfl, rfl, rfl, rfl⟩) fun _ h =>
                    post_andThen (Track c 1 Rule26) (track_keep h (Keeps.krule (RAf_keeps ..))) fun _ h =>
                    post_andThen (Track c 1 Rule26) (track_keep h (Keeps.krule (r12f_keeps ..))) fun _ h =>
                    post_andThen (Track c 1 (KR (IsRule 12) false)) (track_rule_of26 12 h) fun _ h =>
                    post_andThen (Track c 1 (KR (IsRule 12) false)) (track_keep h (Keeps.krule (fcEturf_keeps ..))) fun _ h =>
                    post_andThen (Track c 1 (KR (IsRule 12) false)) (track_stress h) fun _ h =>
                    final_pos posRule_12 rule_12_ne (track_set h ⟨rfl, rfl, rfl, rfl⟩)
                  ) (fun hn9 =>
                    final_pos26 (fcEtpf_track h)
                  )
              )
          )
      )

theorem setTrialStrain_L1002_rule (m : Libm) (s : State) (strain : ℚ) (c : Committed) (hc : CommOK c)
    (hci : c.Cinc = -1) (h : Track c 1 (KR AnyR false) s) :
    Post TrialOK (setTrialStrain_L1002 m s strain) := by
  unfold setTrialStrain_L1002
  exact
    post_ite (fun _ =>
        setTrialStrain_L1004_rule m _ strain c hc hci (h)
      ) (fun hn1 =>
        post_andThen (Track c 1 (KR AnyR false)) (track_set h ⟨rfl, rfl, rfl, rfl⟩) fun _ h =>
        post_andThen (Track c 1 (KR AnyR false)) (track_set h ⟨rfl, rfl, rfl, rfl⟩) fun _ h =>
        post_andThen (Track c 1 Rule26) (e0eunpfunpf_track h) fun _ h =>
        post_andThen (Track c 1 Rule26) (track_keep h (Keeps.krule (esplnf_keeps ..))) fun _ h =>
        post_andThen (Track c 1 Rule26) (track_keep h (Keeps.krule (Eplnf_keeps ..))) fun _ h =>
        post_andThen (Track c 1 Rule26) (track_keep h (Keeps.krule (fnewpf_keeps ..))) fun _ h =>
        post_andThen (Track c 1 Rule26) (track_keep h (Keeps.krule (Enewpf_keeps ..))) fun _ h =>
        post_andThen (Track c 1 Rule26) (track_keep h (Keeps.krule (esrepf_keeps ..))) fun _ h =>
        post_andThen (Track c 1 Rule26) (track_keep h (Keeps.krule (freErepf_keeps ..))) fun _ h =>
        post_ite (fun _ =>
            post_andThen (Track c 1 Rule26) (track_keep h (Keeps.krule (r3f_keeps ..))) fun _ h =>
            post_andThen (Track c 1 (KR (IsRule 3) false)) (track_rule_of26 3 h) fun _ h =>
            post_andThen (Track c 1 (KR (IsRule 3) false)) (track_keep h (Keeps.krule (RAf_keeps ..))) fun _ h =>
            post_andThen (Track c 1 (KR (IsRule 3) false)) (track_keep h (Keeps.krule (fcEturf_keeps ..))) fun _ h =>
            post_andThen (Track c 1 (KR (IsRule 3) false)) (track_stress h) fun _ h =>
            final_pos posRule_3 rule_3_ne (track_set h ⟨rfl, rfl, rfl, rfl⟩)
          ) (fun hn2 =>
            post_ite (fun _ =>
                post_andThen (Track c 1 Rule26) (track_keep h (Keeps.krule (r9f_keeps ..))) fun _ h =>
                post_andThen (Track c 1 (KR (IsRule 9) false)) (track_rule_of26 9 h) fun _ h =>
                post_andThen (Track c 1 (KR (IsRule 9) false)) (track_keep h (Keeps.krule (RAf_keeps ..))) fun _ h =>
                post_andThen (Track c 1 (KR (IsRule 9) false)) (track_keep h (Keeps.krule (fcEturf_keeps ..))) fun _ h =>
                post_andThen (Track c 1 (KR (IsRule 9) false)) (track_stress h) fun _ h =>
                final_pos posRule_9 rule_9_ne (track_set h ⟨rfl, rfl, rfl, rfl⟩)
              ) (fun hn3 =>
                post_ite (fun _ =>
                    post_andThen (Track c 1 Rule26) (track_keep h (Keeps.krule (r8f_keeps ..))) fun _ h =>
                    post_andThen (Track c 1 (KR (IsRule 8) false)) (track_rule_of26 8 h) fun _ h =>
                    post_andThen (Track c 1 (KR (IsRule 8) false)) (track_keep h (Keeps.krule (RAf_keeps ..))) fun _ h =>
                    post_andThen (Track c 1 (KR (IsRule 8) false)) (track_keep h (Keeps.krule (fcEturf_keeps ..))) fun _ h =>
                    post_andThen (Track c 1 (KR (IsRule 8) false)) (track_stress h) fun _ h =>
                    final_pos posRule_8 rule_8_ne (track_set h ⟨rfl, rfl, rfl, rfl⟩)
                  ) (fun hn4 =>
                    final_pos26 (fcEtpf_track h)
                  )
              )
          )
      )

theorem setTrialStrain_L367_rule (m : Libm) (s : State) (strain : ℚ) (c : Committed) (hc : CommOK c)
    (hci : c.Cinc = -1) (h : Track c 1 (KR AnyR false) s) :
    Post TrialOK (setTrialStrain_L367 m s strain) := by
  unfold setTrialStrain_L367
  exact
    post_ite (fun _ =>
        post_andThen (Track c 1 Rule26) (setTrialStrain_L371_L382_rule m _ strain (h)) fun _ h =>
        post_ite (fun _ =>
            post_andThen (Track c 1 Rule26) (track_keep h (Keeps.krule (r3f_keeps ..))) fun _ h =>
            post_andThen (Track c 1 (KR (IsRule 3) false)) (track_rule_of26 3 h) fun _ h =>
            post_andThen (Track c 1 (KR (IsRule 3) false)) (track_keep h (Keeps.krule (RAf_keeps ..))) fun _ h =>
            post_andThen (Track c 1 (KR (IsRule 3) false)) (track_keep h (Keeps.krule (fcEturf_keeps ..))) fun _ h =>
            post_andThen (Track c 1 (KR (IsRule 3) false)) (track_stress h) fun _ h =>
            final_pos posRule_3 rule_3_ne (track_set h ⟨rfl, rfl, rfl, rfl⟩)
          ) (fun hn2 =>
            post_ite (fun _ =>
                post_andThen (Track c 1 Rule26) (track_keep h (Keeps.krule (r9f_keeps ..))) fun _ h =>
                post_andThen (Track c 1 (KR (IsRule 9) false)) (track_rule_of26 9 h) fun _ h =>
                post_andThen (Track c 1 (KR (IsRule 9) false)) (track_keep h (Keeps.krule (RAf_keeps ..))) fun _ h =>
                post_andThen (Track c 1 (KR (IsRule 9) false)) (track_keep h (Keeps.krule (fcEturf_keeps ..))) fun _ h =>
                post_andThen (Track c 1 (KR (IsRule 9) false)) (track_stress h) fun _ h =>
                final_pos posRule_9 rule_9_ne (track_set h ⟨rfl, rfl, rfl, rfl⟩)
              ) (fun hn3 =>
                post_ite (fun _ =>
                    post_andThen (Track c 1 Rule26) (track_keep h (Keeps.krule (r8f_keeps ..))) fun _ h =>
                    post_andThen (Track c 1 (KR (IsRule 8) false)) (track_rule_of26 8 h) fun _ h =>
                    post_andThen (Track c 1 (KR (IsRule 8) false)) (track_keep h (Keeps.krule (RAf_keeps ..))) fun _ h =>
                    post_andThen (Track c 1 (KR (IsRule 8) false)) (track_keep h (Keeps.krule (fcEturf_keeps ..))) fun _ h =>
                    post_andThen (Track c 1 (KR (IsRule 8) false)) (track_stress h) fun _ h =>
                    final_pos posRule_8 rule_8_ne (track_set h ⟨rfl, rfl, rfl, rfl⟩)
                  ) (fun hn4 =>
                    final_pos26 (fcEtpf_track h)
                  )
              )
          )
      ) (fun hn1 =>
        post_ite (fun _ =>
            setTrialStrain_L427_rule m _ strain c hc hci (h)
          ) (fun hn5 =>
            post_ite (fun _ =>
                setTrialStrain_L642_rule m _ strain c hc hci (h)
              ) (fun hn6 =>
                post_ite (fun _ =>
                    post_andThen (Track c 1 (KR AnyR false)) (track_set h ⟨rfl, rfl, rfl, rfl⟩) fun _ h =>
                    post_andThen (Track c 1 (KR AnyR false)) (track_set h ⟨rfl, rfl, rfl, rfl⟩) fun _ h =>
                    post_andThen (Track c 1 (KR AnyR false)) (
                        track_ite (fun _ =>
                            track_andThen (Track c 1 (KR AnyR false)) (track_set h ⟨rfl, rfl, rfl, rfl⟩) fun _ h =>
                            track_andThen (Track c 1 (KR AnyR false)) (track_set h ⟨rfl, rfl, rfl, rfl⟩) fun _ h =>
                            track_keep h (eb1415f_keeps_rule ..)
                          ) (fun _ =>
                            track_ite (fun _ =>
                                track_andThen (Track c 1 (KR AnyR false)) (track_set h ⟨rfl, rfl, rfl, rfl⟩) fun _ h =>
                                track_set h ⟨rfl, rfl, rfl, rfl⟩
                              ) (fun _ =>
                                h
                              )
                          )
                      ) fun _ h =>
                    post_ite (fun _ =>
                        post_andThen (Track c 1 (KR AnyR false)) (track_keep h (Keeps.krule (r14f_keeps ..))) fun _ h =>
                        post_andThen (Track c 1 (KR (IsRule 14) false)) (track_rule 14 h) fun _ h =>
                        post_andThen (Track c 1 (KR (IsRule 14) false)) (track_keep h (Keeps.krule (RAf_keeps ..))) fun _ h =>
                        post_andThen (Track c 1 (KR (IsRule 14) false)) (track_keep h (Keeps.krule (fcEturf_keeps ..))) fun _ h =>
                        post_andThen (Track c 1 (KR (IsRule 14) false)) (track_stress h) fun _ h =>
                        final_pos posRule_14 rule_14_ne (track_set h ⟨rfl, rfl, rfl, rfl⟩)
                      ) (fun hn8 =>
                        post_ite (fun _ =>
                            post_andThen (Track c 1 (KR AnyR true)) (r66f_track h) fun _ h =>
                            final_pos_zero posRule_66 (track_rule 66 h)
                          ) (fun hn9 =>
                            post_andThen (Track c 1 (KR (IsRule 6) true)) (fcEtpr6f_track h) fun _ h =>
                            final_pos_zero posRule_6 (track_rule 6 h)
                          )
                      )
                  ) (fun hn7 =>
                    post_ite (fun _ =>
                        post_andThen (Track c 1 (KR AnyR false)) (track_set h ⟨rfl, rfl, rfl, rfl⟩) fun _ h =>
                        post_andThen (Track c 1 (KR AnyR false)) (track_set h ⟨rfl, rfl, rfl, rfl⟩) fun _ h =>
                        post_andThen (Track c 1 (KR AnyR false)) (track_set h ⟨rfl, rfl, rfl, rfl⟩) fun _ h =>
                        post_andThen (Track c 1 (KR AnyR false)) (track_keep h (Keeps.krule (fnewstpf_keeps ..))) fun _ h =>
                        post_andThen (Track c 1 (KR AnyR false)) (track_keep h (Keeps.krule (Enewstpf_keeps ..))) fun _ h =>
                        post_andThen (Track c 1 (KR AnyR false)) (track_keep h (Keeps.krule (esrestpf_keeps ..))) fun _ h =>
                        post_andThen (Track c 1 (KR AnyR false)) (track_keep h (Keeps.krule (freErestpf_keeps ..))) fun _ h =>
                        post_ite (fun _ =>
                            post_andThen (Track c 1 (KR AnyR false)) (track_keep h (Keeps.krule (r88f_keeps ..))) fun _ h =>
                            post_andThen (Track c 1 (KR (IsRule 88) false)) (track_rule 88 h) fun _ h =>
                            post_andThen (Track c 1 (KR (IsRule 88) false)) (track_keep h (Keeps.krule (RAf_keeps ..))) fun _ h =>
                            post_andThen (Track c 1 (KR (IsRule 88) false)) (track_keep h (Keeps.krule (fcEturf_keeps ..))) fun _ h =>
                            post_andThen (Track c 1 (KR (IsRule 88) false)) (track_stress h) fun _ h =>
                            final_pos posRule_88 rule_88_ne (track_set h ⟨rfl, rfl, rfl, rfl⟩)
                          ) (fun hn11 =>
                            final_pos26 (fcEtpf_track h)
                          )
                      ) (fun hn10 =>
                        post_ite (fun _ =>
                            setTrialStrain_L1002_rule m _ strain c hc hci (h)
                          ) (fun hn12 =>
                            (fallthrough_setTrialStrain_L367 hc hci h hn1 hn5 hn6 hn7 hn10 hn12).elim
                          )
                      )
                  )
              )
          )
      )

theorem setTrialStrain_L1423_rule (m : Libm) (s : State) (strain : ℚ) (c : Committed) (hc : CommOK c)
    (hci : c.Cinc = -1) (h : Track c (-1) (KR AnyR false) s) :
    Post TrialOK (setTrialStrain_L1423 m s strain) := by
  unfold setTrialStrain_L1423
  exact
    post_ite (fun _ =>
        post_andThen (Track c (-1) (KR AnyR false)) (track_keep h (Keeps.krule (r4f_keeps ..))) fun _ h =>
        post_andThen (Track c (-1) (KR AnyR false)) (track_keep h (Keeps.krule (RAf_keeps ..))) fun _ h =>
        post_andThen (Track c (-1) (KR AnyR false)) (track_keep h (Keeps.krule (fcEturf_keeps ..))) fun _ h =>
        post_andThen (Track c (-1) (KR AnyR false)) (track_set h ⟨rfl, rfl, rfl, rfl⟩) fun _ h =>
        post_andThen (Track c (-1) (KR AnyR false)) (track_set h ⟨rfl, rfl, rfl, rfl⟩) fun _ h =>
        post_andThen (Track c (-1) (KR AnyR false)) (track_set h ⟨rfl, rfl, rfl, rfl⟩) fun _ h =>
        post_andThen (Track c (-1) (KR AnyR false)) (track_set h ⟨rfl, rfl, rfl, rfl⟩) fun _ h =>
        post_andThen (Track c (-1) (KR AnyR false)) (track_set h ⟨rfl, rfl, rfl, rfl⟩) fun _ h =>
        post_andThen (Track c (-1) (KR AnyR false)) (track_set h ⟨rfl, rfl, rfl, rfl⟩) fun _ h =>
        post_andThen (Track c (-1) (KR AnyR false)) (track_keep h (Keeps.krule (RAf_keeps ..))) fun _ h =>
        post_andThen (Track c (-1) (KR AnyR false)) (track_keep h (Keeps.krule (r11f_keeps ..))) fun _ h =>
        post_andThen (Track c (-1) (KR (IsRule 11) false)) (track_rule 11 h) fun _ h =>
        post_andThen (Track c (-1) (KR (IsRule 11) false)) (track_keep h (Keeps.krule (fcEturf_keeps ..))) fun _ h =>
        post_andThen (Track c (-1) (KR (IsRule 11) false)) (track_stress h) fun _ h =>
        final_neg negRule_11 (track_set h ⟨rfl, rfl, rfl, rfl⟩)
      ) (fun hn1 =>
        post_ite (fun _ =>
            post_andThen (Track c (-1) (KR AnyR false)) (track_keep h (Keeps.krule (r4f_keeps ..))) fun _ h =>
            post_andThen (Track c (-1) (KR (IsRule 4) false)) (track_rule 4 h) fun _ h =>
            post_andThen (Track c (-1) (KR (IsRule 4) false)) (track_keep h (Keeps.krule (RAf_keeps ..))) fun _ h =>
            post_andThen (Track c (-1) (KR (IsRule 4) false)) (track_keep h (Keeps.krule (fcEturf_keeps ..))) fun _ h =>
            post_andThen (Track c (-1) (KR (IsRule 4) false)) (track_stress h) fun _ h =>
            final_neg negRule_4 (track_set h ⟨rfl, rfl, rfl, rfl⟩)
          ) (fun hn2 =>
            post_ite (fun _ =>
                post_andThen (Track c (-1) (KR AnyR false)) (track_keep h (Keeps.krule (r10f_keeps ..))) fun _ h =>
                post_andThen (Track c (-1) (KR (IsRule 10) false)) (track_rule 10 h) fun _ h =>
                post_andThen (Track c (-1) (KR (IsRule 10) false)) (track_keep h (Keeps.krule (RAf_keeps ..))) fun _ h =>
                post_andThen (Track c (-1) (KR (IsRule 10) false)) (track_keep h (Keeps.krule (fcEturf_keeps ..))) fun _ h =>
                post_andThen (Track c (-1) (KR (IsRule 10) false)) (track_set h ⟨rfl, rfl, rfl, rfl⟩) fun _ h =>
                post_andThen (Track c (-1) (KR (IsRule 10) false)) (
                    track_ite (fun _ =>
                        track_ite (fun _ =>
                            track_andThen (Track c (-1) (KR (IsRule 10) false)) (track_set h ⟨rfl, rfl, rfl, rfl⟩) fun _ h =>
                            track_andThen (Track c (-1) (KR (IsRule 10) false)) (track_set h ⟨rfl, rfl, rfl, rfl⟩) fun _ h =>
                            track_rule 10 h
                          ) (fun _ =>
                            track_andThen (Track c (-1) (KR (IsRule 10) false)) (track_set h ⟨rfl, rfl, rfl, rfl⟩) fun _ h =>
                            track_andThen (Track c (-1) (KR (IsRule 10) false)) (track_set h ⟨rfl, rfl, rfl, rfl⟩) fun _ h =>
                            track_rule 10 h
                          )
                      ) (fun _ =>
                        h
                      )
                  ) fun _ h =>
                post_andThen (Track c (-1) (KR (IsRule 10) false)) (track_stress h) fun _ h =>
                final_neg negRule_10 (track_set h ⟨rfl, rfl, rfl, rfl⟩)
              ) (fun hn3 =>
                post_ite (fun _ =>
                    post_andThen (Track c (-1) (KR AnyR false)) (track_keep h (Keeps.krule (r7f_keeps ..))) fun _ h =>
                    post_andThen (Track c (-1) (KR (IsRule 7) false)) (track_rule 7 h) fun _ h =>
                    post_andThen (Track c (-1) (KR (IsRule 7) false)) (track_keep h (Keeps.krule (RAf_keeps ..))) fun _ h =>
                    post_andThen (Track c (-1) (KR (IsRule 7) false)) (track_keep h (Keeps.krule (fcEturf_keeps ..))) fun _ h =>
                    post_andThen (Track c (-1) (KR (IsRule 7) false)) (track_stress h) fun _ h =>
                    final_neg negRule_7 (track_set h ⟨rfl, rfl, rfl, rfl⟩)
                  ) (fun hn4 =>
                    final_neg15 (fcEtnf_track h)
                  )
              )
          )
      )

theorem setTrialStrain_L1509_rule (m : Libm) (s : State) (strain : ℚ) (c : Committed) (hc : CommOK c)
    (hci : c.Cinc = -1) (h : Track c (-1) (KR AnyR false) s) :
    Post TrialOK (setTrialStrain_L1509 m s strain) := by
  unfold setTrialStrain_L1509
  exact
    post_ite (fun _ =>
        post_andThen (Track c (-1) (KR AnyR false)) (track_keep h (Keeps.krule (r10f_keeps ..))) fun _ h =>
        post_andThen (Track c (-1) (KR AnyR false)) (track_set h ⟨rfl, rfl, rfl, rfl⟩) fun _ h =>
        post_andThen (Track c (-1) (KR AnyR false)) (track_set h ⟨rfl, rfl, rfl, rfl⟩) fun _ h =>
        post_andThen (Track c (-1) (KR AnyR false)) (track_set h ⟨rfl, rfl, rfl, rfl⟩) fun _ h =>
        post_andThen (Track c (-1) (KR AnyR false)) (track_set h ⟨rfl, rfl, rfl, rfl⟩) fun _ h =>
        post_andThen (Track c (-1) (KR AnyR false)) (track_set h ⟨rfl, rfl, rfl, rfl⟩) fun _ h =>
        post_andThen (Track c (-1) (KR AnyR false)) (track_set h ⟨rfl, rfl, rfl, rfl⟩) fun _ h =>
        post_andThen (Track c (-1) (KR AnyR false)) (track_keep h (Keeps.krule (RAf_keeps ..))) fun _ h =>
        post_andThen (Track c (-1) (KR AnyR false)) (track_set h ⟨rfl, rfl, rfl, rfl⟩) fun _ h =>
        post_andThen (Track c (-1) (KR AnyR false)) (track_set h ⟨rfl, rfl, rfl, rfl⟩) fun _ h =>
        post_andThen (Track c (-1) (KR AnyR false)) (track_keep h (Keeps.krule (fcEturf_keeps ..))) fun _ h =>
        post_andThen (Track c (-1) (KR AnyR false)) (track_set h ⟨rfl, rfl, rfl, rfl⟩) fun _ h =>
        post_andThen (Track c (-1) (KR AnyR false)) (track_set h ⟨rfl, rfl, rfl, rfl⟩) fun _ h =>
        post_andThen (Track c (-1) (KR AnyR false)) (track_set h ⟨rfl, rfl, rfl, rfl⟩) fun _ h =>
        post_andThen (Track c (-1) (KR AnyR false)) (
            track_ite (fun _ =>
                track_ite (fun _ =>
                    track_andThen (Track c (-1) (KR AnyR false)) (track_set h ⟨rfl, rfl, rfl, rfl⟩) fun _ h =>
                    track_set h ⟨rfl, rfl, rfl, rfl⟩
                  ) (fun _ =>
                    track_andThen (Track c (-1) (KR AnyR false)) (track_set h ⟨rfl, rfl, rfl, rfl⟩) fun _ h =>
                    track_set h ⟨rfl, rfl, rfl, rfl⟩
                  )
              ) (fun _ =>
                h
              )
          ) fun _ h =>
        post_andThen (Track c (-1) (KR AnyR false)) (track_set h ⟨rfl, rfl, rfl, rfl⟩) fun _ h =>
        post_andThen (Track c (-1) (KR AnyR false)) (track_set h ⟨rfl, rfl, rfl, rfl⟩) fun _ h =>
        post_andThen (Track c (-1) (KR AnyR false)) (track_set h ⟨rfl, rfl, rfl, rfl⟩) fun _ h =>
        post_andThen (Track c (-1) (KR AnyR false)) (track_set h ⟨rfl, rfl, rfl, rfl⟩) fun _ h =>
        post_andThen (Track c (-1) (KR AnyR false)) (track_keep h (Keeps.krule (RAf_keeps ..))) fun _ h =>
        post_andThen (Track c (-1) (KR AnyR false)) (track_keep h (Keeps.krule (r11f_keeps ..))) fun _ h =>
        post_andThen (Track c (-1) (KR (IsRule 11) false)) (track_rule 11 h) fun _ h =>
        post_andThen (Track c (-1) (KR (IsRule 11) false)) (track_keep h (Keeps.krule (fcEturf_keeps ..))) fun _ h =>
        post_andThen (Track c (-1) (KR (IsRule 11) false)) (track_stress h) fun _ h =>
        final_neg negRule_11 (track_set h ⟨rfl, rfl, rfl, rfl⟩)
      ) (fun hn1 =>
        post_ite (fun _ =>
            post_andThen (Track c (-1) (KR AnyR false)) (track_keep h (Keeps.krule (r10f_keeps ..))) fun _ h =>
            post_andThen (Track c (-1) (KR (IsRule 10) false)) (track_rule 10 h) fun _ h =>
            post_andThen (Track c (-1) (KR (IsRule 10) false)) (track_keep h (Keeps.krule (RAf_keeps ..))) fun _ h =>
            post_andThen (Track c (-1) (KR (IsRule 10) false)) (track_keep h (Keeps.krule (fcEturf_keeps ..))) fun _ h =>
            post_andThen (Track c (-1) (KR (IsRule 10) false)) (track_set h ⟨rfl, rfl, rfl, rfl⟩) fun _ h =>
            post_andThen (Track c (-1) (KR (IsRule 10) false)) (
                track_ite (fun _ =>
                    track_ite (fun _ =>
                        track_andThen (Track c (-1) (KR (IsRule 10) false)) (track_set h ⟨rfl, rfl, rfl, rfl⟩) fun _ h =>
                        track_andThen (Track c (-1) (KR (IsRule 10) false)) (track_set h ⟨rfl, rfl, rfl, rfl⟩) fun _ h =>
                        track_rule 10 h
                      ) (fun _ =>
                        track_andThen (Track c (-1) (KR (IsRule 10) false)) (track_set h ⟨rfl, rfl, rfl, rfl⟩) fun _ h =>
                        track_andThen (Track c (-1) (KR (IsRule 10) false)) (track_set h ⟨rfl, rfl, rfl, rfl⟩) fun _ h =>
                        track_rule 10 h
                      )
                  ) (fun _ =>
                    h
                  )
              ) fun _ h =>
            post_andThen (Track c (-1) (KR (IsRule 10) false)) (track_stress h) fun _ h =>
            final_neg negRule_10 (track_set h ⟨rfl, rfl, rfl, rfl⟩)
          ) (fun hn2 =>
            post_ite (fun _ =>
                post_andThen (Track c (-1) (KR AnyR false)) (track_keep h (Keeps.krule (r7f_keeps ..))) fun _ h =>
                post_andThen (Track c (-1) (KR (IsRule 7) false)) (track_rule 7 h) fun _ h =>
                post_andThen (Track c (-1) (KR (IsRule 7) false)) (track_keep h (Keeps.krule (RAf_keeps ..))) fun _ h =>
                post_andThen (Track c (-1) (KR (IsRule 7) false)) (track_keep h (Keeps.krule (fcEturf_keeps ..))) fun _ h =>
                post_andThen (Track c (-1) (KR (IsRule 7) false)) (track_stress h) fun _ h =>
                final_neg negRule_7 (track_set h ⟨rfl, rfl, rfl, rfl⟩)
              ) (fun hn3 =>
                final_neg15 (fcEtnf_track h)
              )
          )
      )

theorem setTrialStrain_L1421_rule (m : Libm) (s : State) (strain : ℚ) (c : Committed) (hc : CommOK c)
    (hci : c.Cinc = -1) (h : Track c (-1) (KR AnyR false) s) :
    Post TrialOK (setTrialStrain_L1421 m s strain) := by
  unfold setTrialStrain_L1421
  exact
    post_ite (fun _ =>
        setTrialStrain_L1423_rule m _ strain c hc hci (h)
      ) (fun hn1 =>
        post_ite (fun _ =>
            setTrialStrain_L1509_rule m _ strain c hc hci (h)
          ) (fun hn2 =>
            post_ite (fun _ =>
                post_ite (fun _ =>
                    post_andThen (Track c (-1) (KR AnyR false)) (track_keep h (Keeps.krule (r7f_keeps ..))) fun _ h =>
                    post_andThen (Track c (-1) (KR AnyR false)) (track_keep h (Keeps.krule (RAf_keeps ..))) fun _ h =>
                    post_andThen (Track c (-1) (KR AnyR false)) (track_keep h (Keeps.krule (fcEturf_keeps ..))) fun _ h =>
                    post_andThen (Track c (-1) (KR AnyR false)) (track_set h ⟨rfl, rfl, rfl, rfl⟩) fun _ h =>
                    post_andThen (Track c (-1) (KR AnyR false)) (track_set h ⟨rfl, rfl, rfl, rfl⟩) fun _ h =>
                    post_andThen (Track c (-1) (KR AnyR false)) (track_set h ⟨rfl, rfl, rfl, rfl⟩) fun _ h =>
                    post_andThen (Track c (-1) (KR AnyR false)) (track_set h ⟨rfl, rfl, rfl, rfl⟩) fun _ h =>
                    post_andThen (Track c (-1) (KR AnyR false)) (track_set h ⟨rfl, rfl, rfl, rfl⟩) fun _ h =>
                    post_andThen (Track c (-1) (KR AnyR false)) (track_set h ⟨rfl, rfl, rfl, rfl⟩) fun _ h =>
                    post_andThen (Track c (-1) (KR AnyR false)) (track_keep h (Keeps.krule (RAf_keeps ..))) fun _ h =>
                    post_andThen (Track c (-1) (KR AnyR false)) (track_keep h (Keeps.krule (r11f_keeps ..))) fun _ h =>
                    post_andThen (Track c (-1) (KR (IsRule 11) false)) (track_rule 11 h) fun _ h =>
                    post_andThen (Track c (-1) (KR (IsRule 11) false)) (track_keep h (Keeps.krule (fcEturf_keeps ..))) fun _ h =>
                    post_andThen (Track c (-1) (KR (IsRule 11) false)) (track_stress h) fun _ h =>
                    final_neg negRule_11 (track_set h ⟨rfl, rfl, rfl, rfl⟩)
                  ) (fun hn4 =>
                    post_ite (fun _ =>
                        post_andThen (Track c (-1) (KR AnyR false)) (track_keep h (Keeps.krule (r7f_keeps ..))) fun _ h =>
                        post_andThen (Track c (-1) (KR (IsRule 7) false)) (track_rule 7 h) fun _ h =>
                        post_andThen (Track c (-1) (KR (IsRule 7) false)) (track_keep h (Keeps.krule (RAf_keeps ..))) fun _ h =>
                        post_andThen (Track c (-1) (KR (IsRule 7) false)) (track_keep h (Keeps.krule (fcEturf_keeps ..))) fun _ h =>
                        post_andThen (Track c (-1) (KR (IsRule 7) false)) (track_stress h) fun _ h =>
                        final_neg negRule_7 (track_set h ⟨rfl, rfl, rfl, rfl⟩)
                      ) (fun hn5 =>
                        final_neg15 (fcEtnf_track h)
                      )
                  )
              ) (fun hn3 =>
                post_ite (fun _ =>
                    post_andThen (Track c (-1) (KR Rule15R false)) (fcEtnf_track h) fun _ h =>
                    post_andThen (Track c (-1) (KR Rule15R false)) (track_set h ⟨rfl, rfl, rfl, rfl⟩) fun _ h =>
                    post_andThen (Track c (-1) (KR Rule15R false)) (track_set h ⟨rfl, rfl, rfl, rfl⟩) fun _ h =>
                    post_andThen (Track c (-1) (KR Rule15R false)) (track_set h ⟨rfl, rfl, rfl, rfl⟩) fun _ h =>
                    post_andThen (Track c (-1) (KR Rule15R false)) (track_set h ⟨rfl, rfl, rfl, rfl⟩) fun _ h =>
                    post_andThen (Track c (-1) (KR Rule15R false)) (track_set h ⟨rfl, rfl, rfl, rfl⟩) fun _ h =>
                    post_andThen (Track c (-1) (KR Rule15R false)) (track_set h ⟨rfl, rfl, rfl, rfl⟩) fun _ h =>
                    post_andThen (Track c (-1) (KR Rule15R false)) (track_keep h (Keeps.krule (RAf_keeps ..))) fun _ h =>
                    post_andThen (Track c (-1) (KR Rule15R false)) (track_keep h (Keeps.krule (r11f_keeps ..))) fun _ h =>
                    post_andThen (Track c (-1) (KR (IsRule 11) false)) (track_rule 11 h) fun _ h =>
                    post_andThen (Track c (-1) (KR (IsRule 11) false)) (track_keep h (Keeps.krule (fcEturf_keeps ..))) fun _ h =>
                    post_andThen (Track c (-1) (KR (IsRule 11) false)) (track_stress h) fun _ h =>
                    final_neg negRule_11 (track_set h ⟨rfl, rfl, rfl, rfl⟩)
                  ) (fun hn6 =>
                    final_neg15 (fcEtnf_track h)
                  )
              )
          )
      )

theorem setTrialStrain_L1421_else_rule (m : Libm) (s : State) (strain : ℚ) (c : Committed) (hc : CommOK c)
    (hci : c.Cinc = -1) (h : Track c (-1) (KR AnyR false) s) :
    Post TrialOK (setTrialStrain_L1421_else m s strain) := by
  unfold setTrialStrain_L1421_else
  exact
    post_ite (fun _ =>
        post_ite (fun _ =>
            post_andThen (Track c (-1) (KR AnyR false)) (track_keep h (Keeps.krule (r77f_keeps ..))) fun _ h =>
            post_andThen (Track c (-1) (KR AnyR false)) (track_keep h (Keeps.krule (RAf_keeps ..))) fun _ h =>
            post_andThen (Track c (-1) (KR AnyR false)) (track_keep h (Keeps.krule (fcEturf_keeps ..))) fun _ h =>
            post_andThen (Track c (-1) (KR AnyR false)) (track_set h ⟨rfl, rfl, rfl, rfl⟩) fun _ h =>
            post_andThen (Track c (-1) (KR AnyR false)) (track_set h ⟨rfl, rfl, rfl, rfl⟩) fun _ h =>
            post_andThen (Track c (-1) (KR AnyR false)) (track_set h ⟨rfl, rfl, rfl, rfl⟩) fun _ h =>
            post_andThen (Track c (-1) (KR AnyR false)) (track_set h ⟨rfl, rfl, rfl, rfl⟩) fun _ h =>
            post_andThen (Track c (-1) (KR AnyR false)) (track_set h ⟨rfl, rfl, rfl, rfl⟩) fun _ h =>
            post_andThen (Track c (-1) (KR AnyR false)) (track_set h ⟨rfl, rfl, rfl, rfl⟩) fun _ h =>
            post_andThen (Track c (-1) (KR AnyR false)) (track_keep h (Keeps.krule (RAf_keeps ..))) fun _ h =>
            post_andThen (Track c (-1) (KR AnyR false)) (track_keep h (Keeps.krule (r11f_keeps ..))) fun _ h =>
            post_andThen (Track c (-1) (KR (IsRule 11) false)) (track_rule 11 h) fun _ h =>
            post_andThen (Track c (-1) (KR (IsRule 11) false)) (track_keep h (Keeps.krule (fcEturf_keeps ..))) fun _ h =>
            post_andThen (Track c (-1) (KR (IsRule 11) false)) (track_stress h) fun _ h =>
            final_neg negRule_11 (track_set h ⟨rfl, rfl, rfl, rfl⟩)
          ) (fun hn2 =>
            post_ite (fun _ =>
                post_andThen (Track c (-1) (KR AnyR false)) (track_keep h (Keeps.krule (r77f_keeps ..))) fun _ h =>
                post_andThen (Track c (-1) (KR (IsRule 77) false)) (track_rule 77 h) fun _ h =>
                post_andThen (Track c (-1) (KR (IsRule 77) false)) (track_keep h (Keeps.krule (RAf_keeps ..))) fun _ h =>
                post_andThen (Track c (-1) (KR (IsRule 77) false)) (track_keep h (Keeps.krule (fcEturf_keeps ..))) fun _ h =>
                post_andThen (Track c (-1) (KR (IsRule 77) false)) (track_stress h) fun _ h =>
                final_neg negRule_77 (track_set h ⟨rfl, rfl, rfl, rfl⟩)
              ) (fun hn3 =>
                final_neg15 (fcEtnf_track h)
              )
          )
      ) (fun hn1 =>
        post_ite (fun _ =>
            post_andThen (Track c (-1) (KR Rule15R false)) (fcEtnf_track h) fun _ h =>
            post_andThen (Track c (-1) (KR Rule15R false)) (track_set h ⟨rfl, rfl, rfl, rfl⟩) fun _ h =>
            post_andThen (Track c (-1) (KR Rule15R false)) (track_set h ⟨rfl, rfl, rfl, rfl⟩) fun _ h =>
            post_andThen (Track c (-1) (KR Rule15R false)) (track_set h ⟨rfl, rfl, rfl, rfl⟩) fun _ h =>
            post_andThen (Track c (-1) (KR Rule15R false)) (track_set h ⟨rfl, rfl, rfl, rfl⟩) fun _ h =>
            post_andThen (Track c (-1) (KR Rule15R false)) (track_set h ⟨rfl, rfl, rfl, rfl⟩) fun _ h =>
            post_andThen (Track c (-1) (KR Rule15R false)) (track_set h ⟨rfl, rfl, rfl, rfl⟩) fun _ h =>
            post_andThen (Track c (-1) (KR Rule15R false)) (track_keep h (Keeps.krule (RAf_keeps ..))) fun _ h =>
            post_andThen (Track c (-1) (KR Rule15R false)) (track_keep h (Keeps.krule (r11f_keeps ..))) fun _ h =>
            post_andThen (Track c (-1) (KR (IsRule 11) false)) (track_rule 11 h) fun _ h =>
            post_andThen (Track c (-1) (KR (IsRule 11) false)) (track_keep h (Keeps.krule (fcEturf_keeps ..))) fun _ h =>
            post_andThen (Track c (-1) (KR (IsRule 11) false)) (track_stress h) fun _ h =>
            final_neg negRule_11 (track_set h ⟨rfl, rfl, rfl, rfl⟩)
          ) (fun hn4 =>
            final_neg15 (fcEtnf_track h)
          )
      )

theorem setTrialStrain_L1419_rule (m : Libm) (s : State) (strain : ℚ) (c : Committed) (hc : CommOK c)
    (hci : c.Cinc = -1) (h : Track c (-1) (KR AnyR false) s) :
    Post TrialOK (setTrialStrain_L1419 m s strain) := by
  unfold setTrialStrain_L1419
  exact
    post_ite (fun _ =>
        setTrialStrain_L1421_rule m _ strain c hc hci (h)
      ) (fun hn1 =>
        setTrialStrain_L1421_else_rule m _ strain c hc hci (h)
      )

theorem setTrialStrain_L1762_rule (m : Libm) (s : State) (strain : ℚ) (c : Committed) (hc : CommOK c)
    (hci : c.Cinc = -1) (h : Track c (-1) (KR AnyR false) s) :
    Post TrialOK (setTrialStrain_L1762 m s strain) := by
  unfold setTrialStrain_L1762
  exact
    post_ite (fun _ =>
        post_andThen (Track c (-1) (KR AnyR false)) (track_keep h (Keeps.krule (r13f_keeps ..))) fun _ h =>
        post_andThen (Track c (-1) (KR AnyR false)) (track_set h ⟨rfl, rfl, rfl, rfl⟩) fun _ h =>
        post_andThen (Track c (-1) (KR AnyR false)) (track_set h ⟨rfl, rfl, rfl, rfl⟩) fun _ h =>
        post_andThen (Track c (-1) (KR AnyR false)) (track_set h ⟨rfl, rfl, rfl, rfl⟩) fun _ h =>
        post_andThen (Track c (-1) (KR AnyR false)) (track_set h ⟨rfl, rfl, rfl, rfl⟩) fun _ h =>
        post_andThen (Track c (-1) (KR AnyR false)) (track_set h ⟨rfl, rfl, rfl, rfl⟩) fun _ h =>
        post_andThen (Track c (-1) (KR AnyR false)) (track_set h ⟨rfl, rfl, rfl, rfl⟩) fun _ h =>
        post_andThen (Track c (-1) (KR AnyR false)) (track_keep h (Keeps.krule (RAf_keeps ..))) fun _ h =>
        post_andThen (Track c (-1) (KR AnyR false)) (track_set h ⟨rfl, rfl, rfl, rfl⟩) fun _ h =>
        post_andThen (Track c (-1) (KR AnyR false)) (track_set h ⟨rfl, rfl, rfl, rfl⟩) fun _ h =>
        post_andThen (Track c (-1) (KR AnyR false)) (track_keep h (Keeps.krule (fcEturf_keeps ..))) fun _ h =>
        post_andThen (Track c (-1) (KR AnyR false)) (track_set h ⟨rfl, rfl, rfl, rfl⟩) fun _ h =>
        post_andThen (Track c (-1) (KR AnyR false)) (track_set h ⟨rfl, rfl, rfl, rfl⟩) fun _ h =>
        post_andThen (Track c (-1) (KR AnyR false)) (track_set h ⟨rfl, rfl, rfl, rfl⟩) fun _ h =>
        post_andThen (Track c (-1) (KR AnyR false)) (
            track_ite (fun _ =>
                track_ite (fun _ =>
                    track_andThen (Track c (-1) (KR AnyR false)) (track_set h ⟨rfl, rfl, rfl, rfl⟩) fun _ h =>
                    track_set h ⟨rfl, rfl, rfl, rfl⟩
                  ) (fun _ =>
                    track_andThen (Track c (-1) (KR AnyR false)) (track_set h ⟨rfl, rfl, rfl, rfl⟩) fun _ h =>
                    track_set h ⟨rfl, rfl, rfl, rfl⟩
                  )
              ) (fun _ =>
                h
              )
          ) fun _ h =>
        post_andThen (Track c (-1) (KR AnyR false)) (track_set h ⟨rfl, rfl, rfl, rfl⟩) fun _ h =>
        post_andThen (Track c (-1) (KR AnyR false)) (track_set h ⟨rfl, rfl, rfl, rfl⟩) fun _ h =>
        post_andThen (Track c (-1) (KR AnyR false)) (track_set h ⟨rfl, rfl, rfl, rfl⟩) fun _ h =>
        post_andThen (Track c (-1) (KR AnyR false)) (track_set h ⟨rfl, rfl, rfl, rfl⟩) fun _ h =>
        post_andThen (Track c (-1) (KR AnyR false)) (track_keep h (Keeps.krule (RAf_keeps ..))) fun _ h =>
        post_andThen (Track c (-1) (KR AnyR false)) (track_keep h (Keeps.krule (r15f_keeps ..))) fun _ h =>
        post_andThen (Track c (-1) (KR (IsRule 15) false)) (track_rule 15 h) fun _ h =>
        post_andThen (Track c (-1) (KR (IsRule 15) false)) (track_keep h (Keeps.krule (fcEturf_keeps ..))) fun _ h =>
        post_andThen (Track c (-1) (KR (IsRule 15) false)) (track_stress h) fun _ h =>
        final_neg negRule_15 (track_set h ⟨rfl, rfl, rfl, rfl⟩)
      ) (fun hn1 =>
        post_ite (fun _ =>
            post_andThen (Track c (-1) (KR AnyR false)) (track_keep h (Keeps.krule (r13f_keeps ..))) fun _ h =>
            post_andThen (Track c (-1) (KR (IsRule 13) false)) (track_rule 13 h) fun _ h =>
            post_andThen (Track c (-1) (KR (IsRule 13) false)) (track_keep h (Keeps.krule (RAf_keeps ..))) fun _ h =>
            post_andThen (Track c (-1) (KR (IsRule 13) false)) (track_keep h (Keeps.krule (fcEturf_keeps ..))) fun _ h =>
            post_andThen (Track c (-1) (KR (IsRule 13) false)) (track_set h ⟨rfl, rfl, rfl, rfl⟩) fun _ h =>
            post_andThen (Track c (-1) (KR (IsRule 13) false)) (
                track_ite (fun _ =>
                    track_ite (fun _ =>
                        track_andThen (Track c (-1) (KR (IsRule 13) false)) (track_set h ⟨rfl, rfl, rfl, rfl⟩) fun _ h =>
                        track_andThen (Track c (-1) (KR (IsRule 13) false)) (track_set h ⟨rfl, rfl, rfl, rfl⟩) fun _ h =>
                        track_rule 13 h
                      ) (fun _ =>
                        track_andThen (Track c (-1) (KR (IsRule 13) false)) (track_set h ⟨rfl, rfl, rfl, rfl⟩) fun _ h =>
                        track_andThen (Track c (-1) (KR (IsRule 13) false)) (track_set h ⟨rfl, rfl, rfl, rfl⟩) fun _ h =>
                        track_rule 13 h
                      )
                  ) (fun _ =>
                    h
                  )
              ) fun _ h =>
            post_andThen (Track c (-1) (KR (IsRule 13) false)) (track_stress h) fun _ h =>
            final_neg negRule_13 (track_set h ⟨rfl, rfl, rfl, rfl⟩)
          ) (fun hn2 =>
            post_ite (fun _ =>
                post_andThen (Track c (-1) (KR AnyR false)) (track_keep h (Keeps.krule (r7f_keeps ..))) fun _ h =>
                post_andThen (Track c (-1) (KR (IsRule 7) false)) (track_rule 7 h) fun _ h =>
                post_andThen (Track c (-1) (KR (IsRule 7) false)) (track_keep h (Keeps.krule (RAf_keeps ..))) fun _ h =>
                post_andThen (Track c (-1) (KR (IsRule 7) false)) (track_keep h (Keeps.krule (fcEturf_keeps ..))) fun _ h =>
                post_andThen (Track c (-1) (KR (IsRule 7) false)) (track_stress h) fun _ h =>
                final_neg negRule_7 (track_set h ⟨rfl, rfl, rfl, rfl⟩)
              ) (fun hn3 =>
                final_neg15 (fcEtnf_track h)
              )
          )
      )

theorem setTrialStrain_L367_else_rule (m : Libm) (s : State) (strain : ℚ) (c : Committed) (hc : CommOK c)
    (hci : c.Cinc = -1) (h : Track c (-1) (KR AnyR false) s) :
    Post TrialOK (setTrialStrain_L367_else m s strain) := by
  unfold setTrialStrain_L367_else
  exact
    post_ite (fun _ =>
        post_ite (fun _ =>
            post_andThen (Track c (-1) (KR AnyR false)) (track_keep h (Keeps.krule (r4f_keeps ..))) fun _ h =>
            post_andThen (Track c (-1) (KR (IsRule 4) false)) (track_rule 4 h) fun _ h =>
            post_andThen (Track c (-1) (KR (IsRule 4) false)) (track_keep h (Keeps.krule (RAf_keeps ..))) fun _ h =>
            post_andThen (Track c (-1) (KR (IsRule 4) false)) (track_keep h (Keeps.krule (fcEturf_keeps ..))) fun _ h =>
            post_andThen (Track c (-1) (KR (IsRule 4) false)) (track_stress h) fun _ h =>
            final_neg negRule_4 (track_set h ⟨rfl, rfl, rfl, rfl⟩)
          ) (fun hn2 =>
            post_ite (fun _ =>
                post_andThen (Track c (-1) (KR AnyR false)) (track_keep h (Keeps.krule (r10f_keeps ..))) fun _ h =>
                post_andThen (Track c (-1) (KR (IsRule 10) false)) (track_rule 10 h) fun _ h =>
                post_andThen (Track c (-1) (KR (IsRule 10) false)) (track_keep h (Keeps.krule (RAf_keeps ..))) fun _ h =>
                post_andThen (Track c (-1) (KR (IsRule 10) false)) (track_keep h (Keeps.krule (fcEturf_keeps ..))) fun _ h =>
                post_andThen (Track c (-1) (KR (IsRule 10) false)) (track_set h ⟨rfl, rfl, rfl, rfl⟩) fun _ h =>
                post_andThen (Track c (-1) (KR (IsRule 10) false)) (
                    track_ite (fun _ =>
                        track_ite (fun _ =>
                            track_andThen (Track c (-1) (KR (IsRule 10) false)) (track_set h ⟨rfl, rfl, rfl, rfl⟩) fun _ h =>
                            track_andThen (Track c (-1) (KR (IsRule 10) false)) (track_set h ⟨rfl, rfl, rfl, rfl⟩) fun _ h =>
                            track_rule 10 h
                          ) (fun _ =>
                            track_andThen (Track c (-1) (KR (IsRule 10) false)) (track_set h ⟨rfl, rfl, rfl, rfl⟩) fun _ h =>
                            track_andThen (Track c (-1) (KR (IsRule 10) false)) (track_set h ⟨rfl, rfl, rfl, rfl⟩) fun _ h =>
                            track_rule 10 h
                          )
                      ) (fun _ =>
                        h
                      )
                  ) fun _ h =>
                post_andThen (Track c (-1) (KR (IsRule 10) false)) (track_stress h) fun _ h =>
                final_neg negRule_10 (track_set h ⟨rfl, rfl, rfl, rfl⟩)
              ) (fun hn3 =>
                post_ite (fun _ =>
                    post_andThen (Track c (-1) (KR AnyR false)) (track_keep h (Keeps.krule (r7f_keeps ..))) fun _ h =>
                    post_andThen (Track c (-1) (KR (IsRule 7) false)) (track_rule 7 h) fun _ h =>
                    post_andThen (Track c (-1) (KR (IsRule 7) false)) (track_keep h (Keeps.krule (RAf_keeps ..))) fun _ h =>
                    post_andThen (Track c (-1) (KR (IsRule 7) false)) (track_keep h (Keeps.krule (fcEturf_keeps ..))) fun _ h =>
                    post_andThen (Track c (-1) (KR (IsRule 7) false)) (track_stress h) fun _ h =>
                    final_neg negRule_7 (track_set h ⟨rfl, rfl, rfl, rfl⟩)
                  ) (fun hn4 =>
                    final_neg15 (fcEtnf_track h)
                  )
              )
          )
      ) (fun hn1 =>
        post_ite (fun _ =>
            final_neg15 (fcEtnf_track h)
          ) (fun hn5 =>
            post_ite (fun _ =>
                post_ite (fun _ =>
                    post_andThen (Track c (-1) (KR AnyR false)) (track_keep h (Keeps.krule (r77f_keeps ..))) fun _ h =>
                    post_andThen (Track c (-1) (KR (IsRule 77) false)) (track_rule 77 h) fun _ h =>
                    post_andThen (Track c (-1) (KR (IsRule 77) false)) (track_keep h (Keeps.krule (RAf_keeps ..))) fun _ h =>
                    post_andThen (Track c (-1) (KR (IsRule 77) false)) (track_keep h (Keeps.krule (fcEturf_keeps ..))) fun _ h =>
                    post_andThen (Track c (-1) (KR (IsRule 77) false)) (track_stress h) fun _ h =>
                    final_neg negRule_77 (track_set h ⟨rfl, rfl, rfl, rfl⟩)
                  ) (fun hn7 =>
                    final_neg15 (fcEtnf_track h)
                  )
              ) (fun hn6 =>
                post_ite (fun _ =>
                    post_ite (fun _ =>
                        post_andThen (Track c (-1) (KR AnyR false)) (track_keep h (Keeps.krule (r13f_keeps ..))) fun _ h =>
                        post_andThen (Track c (-1) (KR (IsRule 13) false)) (track_rule 13 h) fun _ h =>
                        post_andThen (Track c (-1) (KR (IsRule 13) false)) (track_keep h (Keeps.krule (RAf_keeps ..))) fun _ h =>
                        post_andThen (Track c (-1) (KR (IsRule 13) false)) (track_keep h (Keeps.krule (fcEturf_keeps ..))) fun _ h =>
                        post_andThen (Track c (-1) (KR (IsRule 13) false)) (track_set h ⟨rfl, rfl, rfl, rfl⟩) fun _ h =>
                        post_andThen (Track c (-1) (KR (IsRule 13) false)) (
                            track_ite (fun _ =>
                                track_ite (fun _ =>
                                    track_andThen (Track c (-1) (KR (IsRule 13) false)) (track_set h ⟨rfl, rfl, rfl, rfl⟩) fun _ h =>
                                    track_andThen (Track c (-1) (KR (IsRule 13) false)) (track_set h ⟨rfl, rfl, rfl, rfl⟩) fun _ h =>
                                    track_rule 13 h
                                  ) (fun _ =>
                                    track_andThen (Track c (-1) (KR (IsRule 13) false)) (track_set h ⟨rfl, rfl, rfl, rfl⟩) fun _ h =>
                                    track_andThen (Track c (-1) (KR (IsRule 13) false)) (track_set h ⟨rfl, rfl, rfl, rfl⟩) fun _ h =>
                                    track_rule 13 h
                                  )
                              ) (fun _ =>
                                h
                              )
                          ) fun _ h =>
                        post_andThen (Track c (-1) (KR (IsRule 13) false)) (track_stress h) fun _ h =>
                        final_neg negRule_13 (track_set h ⟨rfl, rfl, rfl, rfl⟩)
                      ) (fun hn9 =>
                        post_ite (fun _ =>
                            post_andThen (Track c (-1) (KR AnyR false)) (track_keep h (Keeps.krule (r7f_keeps ..))) fun _ h =>
                            post_andThen (Track c (-1) (KR (IsRule 7) false)) (track_rule 7 h) fun _ h =>
                            post_andThen (Track c (-1) (KR (IsRule 7) false)) (track_keep h (Keeps.krule (RAf_keeps ..))) fun _ h =>
                            post_andThen (Track c (-1) (KR (IsRule 7) false)) (track_keep h (Keeps.krule (fcEturf_keeps ..))) fun _ h =>
                            post_andThen (Track c (-1) (KR (IsRule 7) false)) (track_stress h) fun _ h =>
                            final_neg negRule_7 (track_set h ⟨rfl, rfl, rfl, rfl⟩)
                          ) (fun hn10 =>
                            final_neg15 (fcEtnf_track h)
                          )
                      )
                  ) (fun hn8 =>
                    post_ite (fun _ =>
                        setTrialStrain_L1419_rule m _ strain c hc hci (h)
                      ) (fun hn11 =>
                        post_ite (fun _ =>
                            setTrialStrain_L1762_rule m _ strain c hc hci (h)
                          ) (fun hn12 =>
                            (fallthrough_setTrialStrain_L367_else hc hci h hn1 hn5 hn6 hn8 hn11 hn12).elim
                          )
                      )
                  )
              )
          )
      )

theorem setTrialStrain_L1874_rule (m : Libm) (s : State) (strain : ℚ) (c : Committed) (hc : CommOK c)
    (hci : c.Cinc = 1) (h : Track c (-1) (KR AnyR false) s) :
    Post TrialOK (setTrialStrain_L1874 m s strain) := by
  unfold setTrialStrain_L1874
  exact
    post_andThen (Track c (-1) (KR Rule15R false)) (setTrialStrain_L1877_L1889_rule m _ strain (h)) fun _ h =>
    post_ite (fun _ =>
        post_andThen (Track c (-1) (KR Rule15R false)) (track_keep h (Keeps.krule (r13f_keeps ..))) fun _ h =>
        post_andThen (Track c (-1) (KR (IsRule 13) false)) (track_rule 13 h) fun _ h =>
        post_andThen (Track c (-1) (KR (IsRule 13) false)) (track_keep h (Keeps.krule (RAf_keeps ..))) fun _ h =>
        post_andThen (Track c (-1) (KR (IsRule 13) false)) (track_keep h (Keeps.krule (fcEturf_keeps ..))) fun _ h =>
        post_andThen (Track c (-1) (KR (IsRule 13) false)) (track_set h ⟨rfl, rfl, rfl, rfl⟩) fun _ h =>
        post_andThen (Track c (-1) (KR (IsRule 13) false)) (
            track_ite (fun _ =>
                track_ite (fun _ =>
                    track_andThen (Track c (-1) (KR (IsRule 13) false)) (track_set h ⟨rfl, rfl, rfl, rfl⟩) fun _ h =>
                    track_andThen (Track c (-1) (KR (IsRule 13) false)) (track_set h ⟨rfl, rfl, rfl, rfl⟩) fun _ h =>
                    track_rule 13 h
                  ) (fun _ =>
                    track_andThen (Track c (-1) (KR (IsRule 13) false)) (track_set h ⟨rfl, rfl, rfl, rfl⟩) fun _ h =>
                    track_andThen (Track c (-1) (KR (IsRule 13) false)) (track_set h ⟨rfl, rfl, rfl, rfl⟩) fun _ h =>
                    track_rule 13 h
                  )
              ) (fun _ =>
                h
              )
          ) fun _ h =>
        post_andThen (Track c (-1) (KR (IsRule 13) false)) (track_stress h) fun _ h =>
        final_neg negRule_13 (track_set h ⟨rfl, rfl, rfl, rfl⟩)
      ) (fun hn1 =>
        post_ite (fun _ =>
            post_andThen (Track c (-1) (KR Rule15R false)) (track_keep h (Keeps.krule (r7f_keeps ..))) fun _ h =>
            post_andThen (Track c (-1) (KR (IsRule 7) false)) (track_rule 7 h) fun _ h =>
            post_andThen (Track c (-1) (KR (IsRule 7) false)) (track_keep h (Keeps.krule (RAf_keeps ..))) fun _ h =>
            post_andThen (Track c (-1) (KR (IsRule 7) false)) (track_keep h (Keeps.krule (fcEturf_keeps ..))) fun _ h =>
            post_andThen (Track c (-1) (KR (IsRule 7) false)) (track_stress h) fun _ h =>
            final_neg negRule_7 (track_set h ⟨rfl, rfl, rfl, rfl⟩)
          ) (fun hn2 =>
            final_neg15 (fcEtnf_track h)
          )
      )

theorem setTrialStrain_L1937_rule (m : Libm) (s : State) (strain : ℚ) (c : Committed) (hc : CommOK c)
    (hci : c.Cinc = 1) (h : Track c (-1) (KR AnyR false) s) :
    Post TrialOK (setTrialStrain_L1937 m s strain) := by
  unfold setTrialStrain_L1937
  exact
    post_andThen (Track c (-1) (KR AnyR false)) (track_set h ⟨rfl, rfl, rfl, rfl⟩) fun _ h =>
    post_andThen (Track c (-1) Rule26) (fcEtpf_track h) fun _ h =>
    post_andThen (Track c (-1) Rule26) (track_set h ⟨rfl, rfl, rfl, rfl⟩) fun _ h =>
    post_andThen (Track c (-1) Rule26) (track_keep h (Keeps.krule (Esecpf_keeps ..))) fun _ h =>
    post_andThen (Track c (-1) Rule26) (track_keep h (Keeps.krule (esplpf_keeps ..))) fun _ h =>
    post_andThen (Track c (-1) Rule26) (track_keep h (Keeps.krule (Eplpf_keeps ..))) fun _ h =>
    post_ite (fun _ =>
        post_andThen (Track c (-1) Rule26) (track_keep h (Keeps.krule (r4f_keeps ..))) fun _ h =>
        post_andThen (Track c (-1) (KR (IsRule 4) false)) (track_rule_of26 4 h) fun _ h =>
        post_andThen (Track c (-1) (KR (IsRule 4) false)) (track_keep h (Keeps.krule (RAf_keeps ..))) fun _ h =>
        post_andThen (Track c (-1) (KR (IsRule 4) false)) (track_keep h (Keeps.krule (fcEturf_keeps ..))) fun _ h =>
        post_andThen (Track c (-1) (KR (IsRule 4) false)) (track_stress h) fun _ h =>
        final_neg negRule_4 (track_set h ⟨rfl, rfl, rfl, rfl⟩)
      ) (fun hn1 =>
        post_ite (fun _ =>
            post_andThen (Track c (-1) Rule26) (track_keep h (Keeps.krule (r10f_keeps ..))) fun _ h =>
            post_andThen (Track c (-1) (KR (IsRule 10) false)) (track_rule_of26 10 h) fun _ h =>
            post_andThen (Track c (-1) (KR (IsRule 10) false)) (track_keep h (Keeps.krule (RAf_keeps ..))) fun _ h =>
            post_andThen (Track c (-1) (KR (IsRule 10) false)) (track_keep h (Keeps.krule (fcEturf_keeps ..))) fun _ h =>
            post_andThen (Track c (-1) (KR (IsRule 10) false)) (track_set h ⟨rfl, rfl, rfl, rfl⟩) fun _ h =>
            post_andThen (Track c (-1) (KR (IsRule 10) false)) (
                track_ite (fun _ =>
                    track_ite (fun _ =>
                        track_andThen (Track c (-1) (KR (IsRule 10) false)) (track_set h ⟨rfl, rfl, rfl, rfl⟩) fun _ h =>
                        track_andThen (Track c (-1) (KR (IsRule 10) false)) (track_set h ⟨rfl, rfl, rfl, rfl⟩) fun _ h =>
                        track_rule 10 h
                      ) (fun _ =>
                        track_andThen (Track c (-1) (KR (IsRule 10) false)) (track_set h ⟨rfl, rfl, rfl, rfl⟩) fun _ h =>
                        track_andThen (Track c (-1) (KR (IsRule 10) false)) (track_set h ⟨rfl, rfl, rfl, rfl⟩) fun _ h =>
                        track_rule 10 h
                      )
                  ) (fun _ =>
                    h
                  )
              ) fun _ h =>
            post_andThen (Track c (-1) (KR (IsRule 10) false)) (track_stress h) fun _ h =>
            final_neg negRule_10 (track_set h ⟨rfl, rfl, rfl, rfl⟩)
          ) (fun hn2 =>
            post_ite (fun _ =>
                post_andThen (Track c (-1) Rule26) (track_keep h (Keeps.krule (r7f_keeps ..))) fun _ h =>
                post_andThen (Track c (-1) (KR (IsRule 7) false)) (track_rule_of26 7 h) fun _ h =>
                post_andThen (Track c (-1) (KR (IsRule 7) false)) (track_keep h (Keeps.krule (RAf_keeps ..))) fun _ h =>
                post_andThen (Track c (-1) (KR (IsRule 7) false)) (track_keep h (Keeps.krule (fcEturf_keeps ..))) fun _ h =>
                post_andThen (Track c (-1) (KR (IsRule 7) false)) (track_stress h) fun _ h =>
                final_neg negRule_7 (track_set h ⟨rfl, rfl, rfl, rfl⟩)
              ) (fun hn3 =>
                final_neg15 (fcEtnf_track h)
              )
          )
      )

theorem setTrialStrain_L2016_rule (m : Libm) (s : State) (strain : ℚ) (c : Committed) (hc : CommOK c)
    (hci : c.Cinc = 1) (h : Track c (-1) (KR AnyR false) s) :
    Post TrialOK (setTrialStrain_L2016 m s strain) := by
  unfold setTrialStrain_L2016
  exact
    post_ite (fun _ =>
        post_andThen (Track c (-1) (KR AnyR false)) (track_keep h (Keeps.krule (r4f_keeps ..))) fun _ h =>
        post_andThen (Track c (-1) (KR AnyR false)) (track_keep h (Keeps.krule (RAf_keeps ..))) fun _ h =>
        post_andThen (Track c (-1) (KR AnyR false)) (track_keep h (Keeps.krule (fcEturf_keeps ..))) fun _ h =>
        post_andThen (Track c (-1) (KR AnyR false)) (track_set h ⟨rfl, rfl, rfl, rfl⟩) fun _ h =>
        post_andThen (Track c (-1) (KR AnyR false)) (track_set h ⟨rfl, rfl, rfl, rfl⟩) fun _ h =>
        post_andThen (Track c (-1) (KR AnyR false)) (track_set h ⟨rfl, rfl, rfl, rfl⟩) fun _ h =>
        post_andThen (Track c (-1) (KR AnyR false)) (track_set h ⟨rfl, rfl, rfl, rfl⟩) fun _ h =>
        post_andThen (Track c (-1) (KR AnyR false)) (track_set h ⟨rfl, rfl, rfl, rfl⟩) fun _ h =>
        post_andThen (Track c (-1) (KR AnyR false)) (track_set h ⟨rfl, rfl, rfl, rfl⟩) fun _ h =>
        post_andThen (Track c (-1) (KR AnyR false)) (track_keep h (Keeps.krule (RAf_keeps ..))) fun _ h =>
        post_andThen (Track c (-1) (KR AnyR false)) (track_keep h (Keeps.krule (r11f_keeps ..))) fun _ h =>
        post_andThen (Track c (-1) (KR (IsRule 11) false)) (track_rule 11 h) fun _ h =>
        post_andThen (Track c (-1) (KR (IsRule 11) false)) (track_keep h (Keeps.krule (fcEturf_keeps ..))) fun _ h =>
        post_andThen (Track c (-1) (KR (IsRule 11) false)) (track_stress h) fun _ h =>
        final_neg negRule_11 (track_set h ⟨rfl, rfl, rfl, rfl⟩)
      ) (fun hn1 =>
        post_ite (fun _ =>
            post_andThen (Track c (-1) (KR AnyR false)) (track_keep h (Keeps.krule (r4f_keeps ..))) fun _ h =>
            post_andThen (Track c (-1) (KR (IsRule 4) false)) (track_rule 4 h) fun _ h =>
            post_andThen (Track c (-1) (KR (IsRule 4) false)) (track_keep h (Keeps.krule (RAf_keeps ..))) fun _ h =>
            post_andThen (Track c (-1) (KR (IsRule 4) false)) (track_keep h (Keeps.krule (fcEturf_keeps ..))) fun _ h =>
            post_andThen (Track c (-1) (KR (IsRule 4) false)) (track_stress h) fun _ h =>
            final_neg negRule_4 (track_set h ⟨rfl, rfl, rfl, rfl⟩)
          ) (fun hn2 =>
            post_ite (fun _ =>
                post_andThen (Track c (-1) (KR AnyR false)) (track_keep h (Keeps.krule (r10f_keeps ..))) fun _ h =>
                post_andThen (Track c (-1) (KR (IsRule 10) false)) (track_rule 10 h) fun _ h =>
                post_andThen (Track c (-1) (KR (IsRule 10) false)) (track_keep h (Keeps.krule (RAf_keeps ..))) fun _ h =>
                post_andThen (Track c (-1) (KR (IsRule 10) false)) (track_keep h (Keeps.krule (fcEturf_keeps ..))) fun _ h =>
                post_andThen (Track c (-1) (KR (IsRule 10) false)) (track_set h ⟨rfl, rfl, rfl, rfl⟩) fun _ h =>
                post_andThen (Track c (-1) (KR (IsRule 10) false)) (
                    track_ite (fun _ =>
                        track_ite (fun _ =>
                            track_andThen (Track c (-1) (KR (IsRule 10) false)) (track_set h ⟨rfl, rfl, rfl, rfl⟩) fun _ h =>
                            track_andThen (Track c (-1) (KR (IsRule 10) false)) (track_set h ⟨rfl, rfl, rfl, rfl⟩) fun _ h =>
                            track_rule 10 h
                          ) (fun _ =>
                            track_andThen (Track c (-1) (KR (IsRule 10) false)) (track_set h ⟨rfl, rfl, rfl, rfl⟩) fun _ h =>
                            track_andThen (Track c (-1) (KR (IsRule 10) false)) (track_set h ⟨rfl, rfl, rfl, rfl⟩) fun _ h =>
                            track_rule 10 h
                          )
                      ) (fun _ =>
                        h
                      )
                  ) fun _ h =>
                post_andThen (Track c (-1) (KR (IsRule 10) false)) (track_stress h) fun _ h =>
                final_neg negRule_10 (track_set h ⟨rfl, rfl, rfl, rfl⟩)
              ) (fun hn3 =>
                post_ite (fun _ =>
                    post_andThen (Track c (-1) (KR AnyR false)) (track_keep h (Keeps.krule (r7f_keeps ..))) fun _ h =>
                    post_andThen (Track c (-1) (KR (IsRule 7) false)) (track_rule 7 h) fun _ h =>
                    post_andThen (Track c (-1) (KR (IsRule 7) false)) (track_keep h (Keeps.krule (RAf_keeps ..))) fun _ h =>
                    post_andThen (Track c (-1) (KR (IsRule 7) false)) (track_keep h (Keeps.krule (fcEturf_keeps ..))) fun _ h =>
                    post_andThen (Track c (-1) (KR (IsRule 7) false)) (track_stress h) fun _ h =>
                    final_neg negRule_7 (track_set h ⟨rfl, rfl, rfl, rfl⟩)
                  ) (fun hn4 =>
                    final_neg15 (fcEtnf_track h)
                  )
              )
          )
      )

theorem setTrialStrain_L2101_rule (m : Libm) (s : State) (strain : ℚ) (c : Committed) (hc : CommOK c)
    (hci : c.Cinc = 1) (h : Track c (-1) (KR AnyR false) s) :
    Post TrialOK (setTrialStrain_L2101 m s strain) := by
  unfold setTrialStrain_L2101
  exact
    post_ite (fun _ =>
        post_andThen (Track c (-1) (KR AnyR false)) (track_keep h (Keeps.krule (r10f_keeps ..))) fun _ h =>
        post_andThen (Track c (-1) (KR AnyR false)) (track_set h ⟨rfl, rfl, rfl, rfl⟩) fun _ h =>
        post_andThen (Track c (-1) (KR AnyR false)) (track_set h ⟨rfl, rfl, rfl, rfl⟩) fun _ h =>
        post_andThen (Track c (-1) (KR AnyR false)) (track_set h ⟨rfl, rfl, rfl, rfl⟩) fun _ h =>
        post_andThen (Track c (-1) (KR AnyR false)) (track_set h ⟨rfl, rfl, rfl, rfl⟩) fun _ h =>
        post_andThen (Track c (-1) (KR AnyR false)) (track_set h ⟨rfl, rfl, rfl, rfl⟩) fun _ h =>
        post_andThen (Track c (-1) (KR AnyR false)) (track_set h ⟨rfl, rfl, rfl, rfl⟩) fun _ h =>
        post_andThen (Track c (-1) (KR AnyR false)) (track_keep h (Keeps.krule (RAf_keeps ..))) fun _ h =>
        post_andThen (Track c (-1) (KR AnyR false)) (track_set h ⟨rfl, rfl, rfl, rfl⟩) fun _ h =>
        post_andThen (Track c (-1) (KR AnyR false)) (track_set h ⟨rfl, rfl, rfl, rfl⟩) fun _ h =>
        post_andThen (Track c (-1) (KR AnyR false)) (track_keep h (Keeps.krule (fcEturf_keeps ..))) fun _ h =>
        post_andThen (Track c (-1) (KR AnyR false)) (track_set h ⟨rfl, rfl, rfl, rfl⟩) fun _ h =>
        post_andThen (Track c (-1) (KR AnyR false)) (track_set h ⟨rfl, rfl, rfl, rfl⟩) fun _ h =>
        post_andThen (Track c (-1) (KR AnyR false)) (track_set h ⟨rfl, rfl, rfl, rfl⟩) fun _ h =>
        post_andThen (Track c (-1) (KR AnyR false)) (
            track_ite (fun _ =>
                track_ite (fun _ =>
                    track_andThen (Track c (-1) (KR AnyR false)) (track_set h ⟨rfl, rfl, rfl, rfl⟩) fun _ h =>
                    track_set h ⟨rfl, rfl, rfl, rfl⟩
                  ) (fun _ =>
                    track_andThen (Track c (-1) (KR AnyR false)) (track_set h ⟨rfl, rfl, rfl, rfl⟩) fun _ h =>
                    track_set h ⟨rfl, rfl, rfl, rfl⟩
                  )
              ) (fun _ =>
                h
              )
          ) fun _ h =>
        post_andThen (Track c (-1) (KR AnyR false)) (track_set h ⟨rfl, rfl, rfl, rfl⟩) fun _ h =>
        post_andThen (Track c (-1) (KR AnyR false)) (track_set h ⟨rfl, rfl, rfl, rfl⟩) fun _ h =>
        post_andThen (Track c (-1) (KR AnyR false)) (track_set h ⟨rfl, rfl, rfl, rfl⟩) fun _ h =>
        post_andThen (Track c (-1) (KR AnyR false)) (track_set h ⟨rfl, rfl, rfl, rfl⟩) fun _ h =>
        post_andThen (Track c (-1) (KR AnyR false)) (track_keep h (Keeps.krule (RAf_keeps ..))) fun _ h =>
        post_andThen (Track c (-1) (KR AnyR false)) (track_keep h (Keeps.krule (r11f_keeps ..))) fun _ h =>
        post_andThen (Track c (-1) (KR (IsRule 11) false)) (track_rule 11 h) fun _ h =>
        post_andThen (Track c (-1) (KR (IsRule 11) false)) (track_keep h (Keeps.krule (fcEturf_keeps ..))) fun _ h =>
        post_andThen (Track c (-1) (KR (IsRule 11) false)) (track_stress h) fun _ h =>
        final_neg negRule_11 (track_set h ⟨rfl, rfl, rfl, rfl⟩)
      ) (fun hn1 =>
        post_ite (fun _ =>
            post_andThen (Track c (-1) (KR AnyR false)) (track_keep h (Keeps.krule (r10f_keeps ..))) fun _ h =>
            post_andThen (Track c (-1) (KR (IsRule 10) false)) (track_rule 10 h) fun _ h =>
            post_andThen (Track c (-1) (KR (IsRule 10) false)) (track_keep h (Keeps.krule (RAf_keeps ..))) fun _ h =>
            post_andThen (Track c (-1) (KR (IsRule 10) false)) (track_keep h (Keeps.krule (fcEturf_keeps ..))) fun _ h =>
            post_andThen (Track c (-1) (KR (IsRule 10) false)) (track_set h ⟨rfl, rfl, rfl, rfl⟩) fun _ h =>
            post_andThen (Track c (-1) (KR (IsRule 10) false)) (
                track_ite (fun _ =>
                    track_ite (fun _ =>
                        track_andThen (Track c (-1) (KR (IsRule 10) false)) (track_set h ⟨rfl, rfl, rfl, rfl⟩) fun _ h =>
                        track_andThen (Track c (-1) (KR (IsRule 10) false)) (track_set h ⟨rfl, rfl, rfl, rfl⟩) fun _ h =>
                        track_rule 10 h
                      ) (fun _ =>
                        track_andThen (Track c (-1) (KR (IsRule 10) false)) (track_set h ⟨rfl, rfl, rfl, rfl⟩) fun _ h =>
                        track_andThen (Track c (-1) (KR (IsRule 10) false)) (track_set h ⟨rfl, rfl, rfl, rfl⟩) fun _ h =>
                        track_rule 10 h
                      )
                  ) (fun _ =>
                    h
                  )
              ) fun _ h =>
            post_andThen (Track c (-1) (KR (IsRule 10) false)) (track_stress h) fun _ h =>
            final_neg negRule_10 (track_set h ⟨rfl, rfl, rfl, rfl⟩)
          ) (fun hn2 =>
            post_ite (fun _ =>
                post_andThen (Track c (-1) (KR AnyR false)) (track_keep h (Keeps.krule (r7f_keeps ..))) fun _ h =>
                post_andThen (Track c (-1) (KR (IsRule 7) false)) (track_rule 7 h) fun _ h =>
                post_andThen (Track c (-1) (KR (IsRule 7) false)) (track_keep h (Keeps.krule (RAf_keeps ..))) fun _ h =>
                post_andThen (Track c (-1) (KR (IsRule 7) false)) (track_keep h (Keeps.krule (fcEturf_keeps ..))) fun _ h =>
                post_andThen (Track c (-1) (KR (IsRule 7) false)) (track_stress h) fun _ h =>
                final_neg negRule_7 (track_set h ⟨rfl, rfl, rfl, rfl⟩)
              ) (fun hn3 =>
                final_neg15 (fcEtnf_track h)
              )
          )
      )

theorem setTrialStrain_L2006_rule (m : Libm) (s : State) (strain : ℚ) (c : Committed) (hc : CommOK c)
    (hci : c.Cinc = 1) (h : Track c (-1) (KR AnyR false) s) :
    Post TrialOK (setTrialStrain_L2006 m s strain) := by
  unfold setTrialStrain_L2006
  exact
    post_andThen (Track c (-1) (KR AnyR false)) (track_set h ⟨rfl, rfl, rfl, rfl⟩) fun _ h =>
    post_andThen (Track c (-1) (KR AnyR false)) (track_set h ⟨rfl, rfl, rfl, rfl⟩) fun _ h =>
    post_andThen (Track c (-1) (KR AnyR false)) (track_set h ⟨rfl, rfl, rfl, rfl⟩) fun _ h =>
    post_andThen (Track c (-1) (KR AnyR false)) (track_set h ⟨rfl, rfl, rfl, rfl⟩) fun _ h =>
    post_andThen (Track c (-1) (KR AnyR false)) (track_keep h (eb1112f_keeps_rule ..)) fun _ h =>
    post_ite (fun _ =>
        setTrialStrain_L2016_rule m _ strain c hc hci (h)
      ) (fun hn1 =>
        post_ite (fun _ =>
            setTrialStrain_L2101_rule m _ strain c hc hci (h)
          ) (fun hn2 =>
            post_ite (fun _ =>
                post_ite (fun _ =>
                    post_andThen (Track c (-1) (KR AnyR false)) (track_keep h (Keeps.krule (r7f_keeps ..))) fun _ h =>
                    post_andThen (Track c (-1) (KR AnyR false)) (track_keep h (Keeps.krule (RAf_keeps ..))) fun _ h =>
                    post_andThen (Track c (-1) (KR AnyR false)) (track_keep h (Keeps.krule (fcEturf_keeps ..))) fun _ h =>
                    post_andThen (Track c (-1) (KR AnyR false)) (track_set h ⟨rfl, rfl, rfl, rfl⟩) fun _ h =>
                    post_andThen (Track c (-1) (KR AnyR false)) (track_set h ⟨rfl, rfl, rfl, rfl⟩) fun _ h =>
                    post_andThen (Track c (-1) (KR AnyR false)) (track_set h ⟨rfl, rfl, rfl, rfl⟩) fun _ h =>
                    post_andThen (Track c (-1) (KR AnyR false)) (track_set h ⟨rfl, rfl, rfl, rfl⟩) fun _ h =>
                    post_andThen (Track c (-1) (KR AnyR false)) (track_set h ⟨rfl, rfl, rfl, rfl⟩) fun _ h =>
                    post_andThen (Track c (-1) (KR AnyR false)) (track_set h ⟨rfl, rfl, rfl, rfl⟩) fun _ h =>
                    post_andThen (Track c (-1) (KR AnyR false)) (track_keep h (Keeps.krule (RAf_keeps ..))) fun _ h =>
                    post_andThen (Track c (-1) (KR AnyR false)) (track_keep h (Keeps.krule (r11f_keeps ..))) fun _ h =>
                    post_andThen (Track c (-1) (KR (IsRule 11) false)) (track_rule 11 h) fun _ h =>
                    post_andThen (Track c (-1) (KR (IsRule 11) false)) (track_keep h (Keeps.krule (fcEturf_keeps ..))) fun _ h =>
                    post_andThen (Track c (-1) (KR (IsRule 11) false)) (track_stress h) fun _ h =>
                    final_neg negRule_11 (track_set h ⟨rfl, rfl, rfl, rfl⟩)
                  ) (fun hn4 =>
                    post_ite (fun _ =>
                        post_andThen (Track c (-1) (KR AnyR false)) (track_keep h (Keeps.krule (r7f_keeps ..))) fun _ h =>
                        post_andThen (Track c (-1) (KR (IsRule 7) false)) (track_rule 7 h) fun _ h =>
                        post_andThen (Track c (-1) (KR (IsRule 7) false)) (track_keep h (Keeps.krule (RAf_keeps ..))) fun _ h =>
                        post_andThen (Track c (-1) (KR (IsRule 7) false)) (track_keep h (Keeps.krule (fcEturf_keeps ..))) fun _ h =>
                        post_andThen (Track c (-1) (KR (IsRule 7) false)) (track_stress h) fun _ h =>
                        final_neg negRule_7 (track_set h ⟨rfl, rfl, rfl, rfl⟩)
                      ) (fun hn5 =>
                        final_neg15 (fcEtnf_track h)
                      )
                  )
              ) (fun hn3 =>
                post_ite (fun _ =>
                    post_andThen (Track c (-1) (KR Rule15R false)) (fcEtnf_track h) fun _ h =>
                    post_andThen (Track c (-1) (KR Rule15R false)) (track_set h ⟨rfl, rfl, rfl, rfl⟩) fun _ h =>
                    post_andThen (Track c (-1) (KR Rule15R false)) (track_set h ⟨rfl, rfl, rfl, rfl⟩) fun _ h =>
                    post_andThen (Track c (-1) (KR Rule15R false)) (track_set h ⟨rfl, rfl, rfl, rfl⟩) fun _ h =>
                    post_andThen (Track c (-1) (KR Rule15R false)) (track_set h ⟨rfl, rfl, rfl, rfl⟩) fun _ h =>
                    post_andThen (Track c (-1) (KR Rule15R false)) (track_set h ⟨rfl, rfl, rfl, rfl⟩) fun _ h =>
                    post_andThen (Track c (-1) (KR Rule15R false)) (track_set h ⟨rfl, rfl, rfl, rfl⟩) fun _ h =>
                    post_andThen (Track c (-1) (KR Rule15R false)) (track_keep h (Keeps.krule (RAf_keeps ..))) fun _ h =>
                    post_andThen (Track c (-1) (KR Rule15R false)) (track_keep h (Keeps.krule (r11f_keeps ..))) fun _ h =>
                    post_andThen (Track c (-1) (KR (IsRule 11) false)) (track_rule 11 h) fun _ h =>
                    post_andThen (Track c (-1) (KR (IsRule 11) false)) (track_keep h (Keeps.krule (fcEturf_keeps ..))) fun _ h =>
                    post_andThen (Track c (-1) (KR (IsRule 11) false)) (track_stress h) fun _ h =>
                    final_neg negRule_11 (track_set h ⟨rfl, rfl, rfl, rfl⟩)
                  ) (fun hn6 =>
                    final_neg15 (fcEtnf_track h)
                  )
              )
          )
      )

theorem setTrialStrain_L2278_rule (m : Libm) (s : State) (strain : ℚ) (c : Committed) (hc : CommOK c)
    (hci : c.Cinc = 1) (h : Track c (-1) (KR AnyR false) s) :
    Post TrialOK (setTrialStrain_L2278 m s strain) := by
  unfold setTrialStrain_L2278
  exact
    post_ite (fun _ =>
        post_andThen (Track c (-1) (KR AnyR false)) (track_keep h (Keeps.krule (r4f_keeps ..))) fun _ h =>
        post_andThen (Track c (-1) (KR AnyR false)) (track_keep h (Keeps.krule (RAf_keeps ..))) fun _ h =>
        post_andThen (Track c (-1) (KR AnyR false)) (track_keep h (Keeps.krule (fcEturf_keeps ..))) fun _ h =>
        post_andThen (Track c (-1) (KR AnyR false)) (track_set h ⟨rfl, rfl, rfl, rfl⟩) fun _ h =>
        post_andThen (Track c (-1) (KR AnyR false)) (track_set h ⟨rfl, rfl, rfl, rfl⟩) fun _ h =>
        post_andThen (Track c (-1) (KR AnyR false)) (track_set h ⟨rfl, rfl, rfl, rfl⟩) fun _ h =>
        post_andThen (Track c (-1) (KR AnyR false)) (track_set h ⟨rfl, rfl, rfl, rfl⟩) fun _ h =>
        post_andThen (Track c (-1) (KR AnyR false)) (track_set h ⟨rfl, rfl, rfl, rfl⟩) fun _ h =>
        post_andThen (Track c (-1) (KR AnyR false)) (track_set h ⟨rfl, rfl, rfl, rfl⟩) fun _ h =>
        post_andThen (Track c (-1) (KR AnyR false)) (track_keep h (Keeps.krule (RAf_keeps ..))) fun _ h =>
        post_andThen (Track c (-1) (KR AnyR false)) (track_keep h (Keeps.krule (r11f_keeps ..))) fun _ h =>
        post_andThen (Track c (-1) (KR (IsRule 11) false)) (track_rule 11 h) fun _ h =>
        post_andThen (Track c (-1) (KR (IsRule 11) false)) (track_keep h (Keeps.krule (fcEturf_keeps ..))) fun _ h =>
        post_andThen (Track c (-1) (KR (IsRule 11) false)) (track_stress h) fun _ h =>
        final_neg negRule_11 (track_set h ⟨rfl, rfl, rfl, rfl⟩)
      ) (fun hn1 =>
        post_ite (fun _ =>
            post_andThen (Track c (-1) (KR AnyR false)) (track_keep h (Keeps.krule (r4f_keeps ..))) fun _ h =>
            post_andThen (Track c (-1) (KR (IsRule 4) false)) (track_rule 4 h) fun _ h =>
            post_andThen (Track c (-1) (KR (IsRule 4) false)) (track_keep h (Keeps.krule (RAf_keeps ..))) fun _ h =>
            post_andThen (Track c (-1) (KR (IsRule 4) false)) (track_keep h (Keeps.krule (fcEturf_keeps ..))) fun _ h =>
            post_andThen (Track c (-1) (KR (IsRule 4) false)) (track_stress h) fun _ h =>
            final_neg negRule_4 (track_set h ⟨rfl, rfl, rfl, rfl⟩)
          ) (fun hn2 =>
            post_ite (fun _ =>
                post_andThen (Track c (-1) (KR AnyR false)) (track_keep h (Keeps.krule (r10f_keeps ..))) fun _ h =>
                post_andThen (Track c (-1) (KR (IsRule 10) false)) (track_rule 10 h) fun _ h =>
                post_andThen (Track c (-1) (KR (IsRule 10) false)) (track_keep h (Keeps.krule (RAf_keeps ..))) fun _ h =>
                post_andThen (Track c (-1) (KR (IsRule 10) false)) (track_keep h (Keeps.krule (fcEturf_keeps ..))) fun _ h =>
                post_andThen (Track c (-1) (KR (IsRule 10) false)) (track_set h ⟨rfl, rfl, rfl, rfl⟩) fun _ h =>
                post_andThen (Track c (-1) (KR (IsRule 10) false)) (
                    track_ite (fun _ =>
                        track_ite (fun _ =>
                            track_andThen (Track c (-1) (KR (IsRule 10) false)) (track_set h ⟨rfl, rfl, rfl, rfl⟩) fun _ h =>
                            track_andThen (Track c (-1) (KR (IsRule 10) false)) (track_set h ⟨rfl, rfl, rfl, rfl⟩) fun _ h =>
                            track_rule 10 h
                          ) (fun _ =>
                            track_andThen (Track c (-1) (KR (IsRule 10) false)) (track_set h ⟨rfl, rfl, rfl, rfl⟩) fun _ h =>
                            track_andThen (Track c (-1) (KR (IsRule 10) false)) (track_set h ⟨rfl, rfl, rfl, rfl⟩) fun _ h =>
                            track_rule 10 h
                          )
                      ) (fun _ =>
                        h
                      )
                  ) fun _ h =>
                post_andThen (Track c (-1) (KR (IsRule 10) false)) (track_stress h) fun _ h =>
                final_neg negRule_10 (track_set h ⟨rfl, rfl, rfl, rfl⟩)
              ) (fun hn3 =>
                post_ite (fun _ =>
                    post_andThen (Track c (-1) (KR AnyR false)) (track_keep h (Keeps.krule (r7f_keeps ..))) fun _ h =>
                    post_andThen (Track c (-1) (KR (IsRule 7) false)) (track_rule 7 h) fun _ h =>
                    post_andThen (Track c (-1) (KR (IsRule 7) false)) (track_keep h (Keeps.krule (RAf_keeps ..))) fun _ h =>
                    post_andThen (Track c (-1) (KR (IsRule 7) false)) (track_keep h (Keeps.krule (fcEturf_keeps ..))) fun _ h =>
                    post_andThen (Track c (-1) (KR (IsRule 7) false)) (track_stress h) fun _ h =>
                    final_neg negRule_7 (track_set h ⟨rfl, rfl, rfl, rfl⟩)
                  ) (fun hn4 =>
                    final_neg15 (fcEtnf_track h)
                  )
              )
          )
      )

theorem setTrialStrain_L2364_rule (m : Libm) (s : State) (strain : ℚ) (c : Committed) (hc : CommOK c)
    (hci : c.Cinc = 1) (h : Track c (-1) (KR AnyR false) s) :
    Post TrialOK (setTrialStrain_L2364 m s strain) := by
  unfold setTrialStrain_L2364
  exact
    post_ite (fun _ =>
        post_andThen (Track c (-1) (KR AnyR false)) (track_keep h (Keeps.krule (r10f_keeps ..))) fun _ h =>
        post_andThen (Track c (-1) (KR AnyR false)) (track_set h ⟨rfl, rfl, rfl, rfl⟩) fun _ h =>
        post_andThen (Track c (-1) (KR AnyR false)) (track_set h ⟨rfl, rfl, rfl, rfl⟩) fun _ h =>
        post_andThen (Track c (-1) (KR AnyR false)) (track_set h ⟨rfl, rfl, rfl, rfl⟩) fun _ h =>
        post_andThen (Track c (-1) (KR AnyR false)) (track_set h ⟨rfl, rfl, rfl, rfl⟩) fun _ h =>
        post_andThen (Track c (-1) (KR AnyR false)) (track_set h ⟨rfl, rfl, rfl, rfl⟩) fun _ h =>
        post_andThen (Track c (-1) (KR AnyR false)) (track_set h ⟨rfl, rfl, rfl, rfl⟩) fun _ h =>
        post_andThen (Track c (-1) (KR AnyR false)) (track_keep h (Keeps.krule (RAf_keeps ..))) fun _ h =>
        post_andThen (Track c (-1) (KR AnyR false)) (track_set h ⟨rfl, rfl, rfl, rfl⟩) fun _ h =>
        post_andThen (Track c (-1) (KR AnyR false)) (track_set h ⟨rfl, rfl, rfl, rfl⟩) fun _ h =>
        post_andThen (Track c (-1) (KR AnyR false)) (track_keep h (Keeps.krule (fcEturf_keeps ..))) fun _ h =>
        post_andThen (Track c (-1) (KR AnyR false)) (track_set h ⟨rfl, rfl, rfl, rfl⟩) fun _ h =>
        post_andThen (Track c (-1) (KR AnyR false)) (track_set h ⟨rfl, rfl, rfl, rfl⟩) fun _ h =>
        post_andThen (Track c (-1) (KR AnyR false)) (track_set h ⟨rfl, rfl, rfl, rfl⟩) fun _ h =>
        post_andThen (Track c (-1) (KR AnyR false)) (
            track_ite (fun _ =>
                track_ite (fun _ =>
                    track_andThen (Track c (-1) (KR AnyR false)) (track_set h ⟨rfl, rfl, rfl, rfl⟩) fun _ h =>
                    track_set h ⟨rfl, rfl, rfl, rfl⟩
                  ) (fun _ =>
                    track_andThen (Track c (-1) (KR AnyR false)) (track_set h ⟨rfl, rfl, rfl, rfl⟩) fun _ h =>
                    track_set h ⟨rfl, rfl, rfl, rfl⟩
                  )
              ) (fun _ =>
                h
              )
          ) fun _ h =>
        post_andThen (Track c (-1) (KR AnyR false)) (track_set h ⟨rfl, rfl, rfl, rfl⟩) fun _ h =>
        post_andThen (Track c (-1) (KR AnyR false)) (track_set h ⟨rfl, rfl, rfl, rfl⟩) fun _ h =>
        post_andThen (Track c (-1) (KR AnyR false)) (track_set h ⟨rfl, rfl, rfl, rfl⟩) fun _ h =>
        post_andThen (Track c (-1) (KR AnyR false)) (track_set h ⟨rfl, rfl, rfl, rfl⟩) fun _ h =>
        post_andThen (Track c (-1) (KR AnyR false)) (track_keep h (Keeps.krule (RAf_keeps ..))) fun _ h =>
        post_andThen (Track c (-1) (KR AnyR false)) (track_keep h (Keeps.krule (r11f_keeps ..))) fun _ h =>
        post_andThen (Track c (-1) (KR (IsRule 11) false)) (track_rule 11 h) fun _ h =>
        post_andThen (Track c (-1) (KR (IsRule 11) false)) (track_keep h (Keeps.krule (fcEturf_keeps ..))) fun _ h =>
        post_andThen (Track c (-1) (KR (IsRule 11) false)) (track_stress h) fun _ h =>
        final_neg negRule_11 (track_set h ⟨rfl, rfl, rfl, rfl⟩)
      ) (fun hn1 =>
        post_ite (fun _ =>
            post_andThen (Track c (-1) (KR AnyR false)) (track_keep h (Keeps.krule (r10f_keeps ..))) fun _ h =>
            post_andThen (Track c (-1) (KR (IsRule 10) false)) (track_rule 10 h) fun _ h =>
            post_andThen (Track c (-1) (KR (IsRule 10) false)) (track_keep h (Keeps.krule (RAf_keeps ..))) fun _ h =>
            post_andThen (Track c (-1) (KR (IsRule 10) false)) (track_keep h (Keeps.krule (fcEturf_keeps ..))) fun _ h =>
            post_andThen (Track c (-1) (KR (IsRule 10) false)) (track_set h ⟨rfl, rfl, rfl, rfl⟩) fun _ h =>
            post_andThen (Track c (-1) (KR (IsRule 10) false)) (
                track_ite (fun _ =>
                    track_ite (fun _ =>
                        track_andThen (Track c (-1) (KR (IsRule 10) false)) (track_set h ⟨rfl, rfl, rfl, rfl⟩) fun _ h =>
                        track_andThen (Track c (-1) (KR (IsRule 10) false)) (track_set h ⟨rfl, rfl, rfl, rfl⟩) fun _ h =>
                        track_rule 10 h
                      ) (fun _ =>
                        track_andThen (Track c (-1) (KR (IsRule 10) false)) (track_set h ⟨rfl, rfl, rfl, rfl⟩) fun _ h =>
                        track_andThen (Track c (-1) (KR (IsRule 10) false)) (track_set h ⟨rfl, rfl, rfl, rfl⟩) fun _ h =>
                        track_rule 10 h
                      )
                  ) (fun _ =>
                    h
                  )
              ) fun _ h =>
            post_andThen (Track c (-1) (KR (IsRule 10) false)) (track_stress h) fun _ h =>
            final_neg negRule_10 (track_set h ⟨rfl, rfl, rfl, rfl⟩)
          ) (fun hn2 =>
            post_ite (fun _ =>
                post_andThen (Track c (-1) (KR AnyR false)) (track_keep h (Keeps.krule (r7f_keeps ..))) fun _ h =>
                post_andThen (Track c (-1) (KR (IsRule 7) false)) (track_rule 7 h) fun _ h =>
                post_andThen (Track c (-1) (KR (IsRule 7) false)) (track_keep h (Keeps.krule (RAf_keeps ..))) fun _ h =>
                post_andThen (Track c (-1) (KR (IsRule 7) false)) (track_keep h (Keeps.krule (fcEturf_keeps ..))) fun _ h =>
                post_andThen (Track c (-1) (KR (IsRule 7) false)) (track_stress h) fun _ h =>
                final_neg negRule_7 (track_set h ⟨rfl, rfl, rfl, rfl⟩)
              ) (fun hn3 =>
                final_neg15 (fcEtnf_track h)
              )
          )
      )

theorem setTrialStrain_L2276_rule (m : Libm) (s : State) (strain : ℚ) (c : Committed) (hc : CommOK c)
    (hci : c.Cinc = 1) (h : Track c (-1) (KR AnyR false) s) :
    Post TrialOK (setTrialStrain_L2276 m s strain) := by
  unfold setTrialStrain_L2276
  exact
    post_ite (fun _ =>
        setTrialStrain_L2278_rule m _ strain c hc hci (h)
      ) (fun hn1 =>
        post_ite (fun _ =>
            setTrialStrain_L2364_rule m _ strain c hc hci (h)
          ) (fun hn2 =>
            post_ite (fun _ =>
                post_ite (fun _ =>
                    post_andThen (Track c (-1) (KR AnyR false)) (track_keep h (Keeps.krule (r7f_keeps ..))) fun _ h =>
                    post_andThen (Track c (-1) (KR AnyR false)) (track_keep h (Keeps.krule (RAf_keeps ..))) fun _ h =>
                    post_andThen (Track c (-1) (KR AnyR false)) (track_keep h (Keeps.krule (fcEturf_keeps ..))) fun _ h =>
                    post_andThen (Track c (-1) (KR AnyR false)) (track_set h ⟨rfl, rfl, rfl, rfl⟩) fun _ h =>
                    post_andThen (Track c (-1) (KR AnyR false)) (track_set h ⟨rfl, rfl, rfl, rfl⟩) fun _ h =>
                    post_andThen (Track c (-1) (KR AnyR false)) (track_set h ⟨rfl, rfl, rfl, rfl⟩) fun _ h =>
                    post_andThen (Track c (-1) (KR AnyR false)) (track_set h ⟨rfl, rfl, rfl, rfl⟩) fun _ h =>
                    post_andThen (Track c (-1) (KR AnyR false)) (track_set h ⟨rfl, rfl, rfl, rfl⟩) fun _ h =>
                    post_andThen (Track c (-1) (KR AnyR false)) (track_set h ⟨rfl, rfl, rfl, rfl⟩) fun _ h =>
                    post_andThen (Track c (-1) (KR AnyR false)) (track_keep h (Keeps.krule (RAf_keeps ..))) fun _ h =>
                    post_andThen (Track c (-1) (KR AnyR false)) (track_keep h (Keeps.krule (r11f_keeps ..))) fun _ h =>
                    post_andThen (Track c (-1) (KR (IsRule 11) false)) (track_rule 11 h) fun _ h =>
                    post_andThen (Track c (-1) (KR (IsRule 11) false)) (track_keep h (Keeps.krule (fcEturf_keeps ..))) fun _ h =>
                    post_andThen (Track c (-1) (KR (IsRule 11) false)) (track_stress h) fun _ h =>
                    final_neg negRule_11 (track_set h ⟨rfl, rfl, rfl, rfl⟩)
                  ) (fun hn4 =>
                    post_ite (fun _ =>
                        post_andThen (Track c (-1) (KR AnyR false)) (track_keep h (Keeps.krule (r7f_keeps ..))) fun _ h =>
                        post_andThen (Track c (-1) (KR (IsRule 7) false)) (track_rule 7 h) fun _ h =>
                        post_andThen (Track c (-1) (KR (IsRule 7) false)) (track_keep h (Keeps.krule (RAf_keeps ..))) fun _ h =>
                        post_andThen (Track c (-1) (KR (IsRule 7) false)) (track_keep h (Keeps.krule (fcEturf_keeps ..))) fun _ h =>
                        post_andThen (Track c (-1) (KR (IsRule 7) false)) (track_stress h) fun _ h =>
                        final_neg negRule_7 (track_set h ⟨rfl, rfl, rfl, rfl⟩)
                      ) (fun hn5 =>
                        final_neg15 (fcEtnf_track h)
                      )
                  )
              ) (fun hn3 =>
                post_ite (fun _ =>
                    post_andThen (Track c (-1) (KR Rule15R false)) (fcEtnf_track h) fun _ h =>
                    post_andThen (Track c (-1) (KR Rule15R false)) (track_set h ⟨rfl, rfl, rfl, rfl⟩) fun _ h =>
                    post_andThen (Track c (-1) (KR Rule15R false)) (track_set h ⟨rfl, rfl, rfl, rfl⟩) fun _ h =>
                    post_andThen (Track c (-1) (KR Rule15R false)) (track_set h ⟨rfl, rfl, rfl, rfl⟩) fun _ h =>
                    post_andThen (Track c (-1) (KR Rule15R false)) (track_set h ⟨rfl, rfl, rfl, rfl⟩) fun _ h =>
                    post_andThen (Track c (-1) (KR Rule15R false)) (track_set h ⟨rfl, rfl, rfl, rfl⟩) fun _ h =>
                    post_andThen (Track c (-1) (KR Rule15R false)) (track_set h ⟨rfl, rfl, rfl, rfl⟩) fun _ h =>
                    post_andThen (Track c (-1) (KR Rule15R false)) (track_keep h (Keeps.krule (RAf_keeps ..))) fun _ h =>
                    post_andThen (Track c (-1) (KR Rule15R false)) (track_keep h (Keeps.krule (r11f_keeps ..))) fun _ h =>
                    post_andThen (Track c (-1) (KR (IsRule 11) false)) (track_rule 11 h) fun _ h =>
                    post_andThen (Track c (-1) (KR (IsRule 11) false)) (track_keep h (Keeps.krule (fcEturf_keeps ..))) fun _ h =>
                    post_andThen (Track c (-1) (KR (IsRule 11) false)) (track_stress h) fun _ h =>
                    final_neg negRule_11 (track_set h ⟨rfl, rfl, rfl, rfl⟩)
                  ) (fun hn6 =>
                    final_neg15 (fcEtnf_track h)
                  )
              )
          )
      )

theorem setTrialStrain_L2276_else_rule (m : Libm) (s : State) (strain : ℚ) (c : Committed) (hc : CommOK c)
    (hci : c.Cinc = 1) (h : Track c (-1) (KR AnyR false) s) :
    Post TrialOK (setTrialStrain_L2276_else m s strain) := by
  unfold setTrialStrain_L2276_else
  exact
    post_ite (fun _ =>
        post_ite (fun _ =>
            post_andThen (Track c (-1) (KR AnyR false)) (track_keep h (Keeps.krule (r77f_keeps ..))) fun _ h =>
            post_andThen (Track c (-1) (KR AnyR false)) (track_keep h (Keeps.krule (RAf_keeps ..))) fun _ h =>
            post_andThen (Track c (-1) (KR AnyR false)) (track_keep h (Keeps.krule (fcEturf_keeps ..))) fun _ h =>
            post_andThen (Track c (-1) (KR AnyR false)) (track_set h ⟨rfl, rfl, rfl, rfl⟩) fun _ h =>
            post_andThen (Track c (-1) (KR AnyR false)) (track_set h ⟨rfl, rfl, rfl, rfl⟩) fun _ h =>
            post_andThen (Track c (-1) (KR AnyR false)) (track_set h ⟨rfl, rfl, rfl, rfl⟩) fun _ h =>
            post_andThen (Track c (-1) (KR AnyR false)) (track_set h ⟨rfl, rfl, rfl, rfl⟩) fun _ h =>
            post_andThen (Track c (-1) (KR AnyR false)) (track_set h ⟨rfl, rfl, rfl, rfl⟩) fun _ h =>
            post_andThen (Track c (-1) (KR AnyR false)) (track_set h ⟨rfl, rfl, rfl, rfl⟩) fun _ h =>
            post_andThen (Track c (-1) (KR AnyR false)) (track_keep h (Keeps.krule (RAf_keeps ..))) fun _ h =>
            post_andThen (Track c (-1) (KR AnyR false)) (track_keep h (Keeps.krule (r11f_keeps ..))) fun _ h =>
            post_andThen (Track c (-1) (KR (IsRule 11) false)) (track_rule 11 h) fun _ h =>
            post_andThen (Track c (-1) (KR (IsRule 11) false)) (track_keep h (Keeps.krule (fcEturf_keeps ..))) fun _ h =>
            post_andThen (Track c (-1) (KR (IsRule 11) false)) (track_stress h) fun _ h =>
            final_neg negRule_11 (track_set h ⟨rfl, rfl, rfl, rfl⟩)
          ) (fun hn2 =>
            post_ite (fun _ =>
                post_andThen (Track c (-1) (KR AnyR false)) (track_keep h (Keeps.krule (r77f_keeps ..))) fun _ h =>
                post_andThen (Track c (-1) (KR (IsRule 77) false)) (track_rule 77 h) fun _ h =>
                post_andThen (Track c (-1) (KR (IsRule 77) false)) (track_keep h (Keeps.krule (RAf_keeps ..))) fun _ h =>
                post_andThen (Track c (-1) (KR (IsRule 77) false)) (track_keep h (Keeps.krule (fcEturf_keeps ..))) fun _ h =>
                post_andThen (Track c (-1) (KR (IsRule 77) false)) (track_stress h) fun _ h =>
                final_neg negRule_77 (track_set h ⟨rfl, rfl, rfl, rfl⟩)
              ) (fun hn3 =>
                final_neg15 (fcEtnf_track h)
              )
          )
      ) (fun hn1 =>
        post_ite (fun _ =>
            post_andThen (Track c (-1) (KR Rule15R false)) (fcEtnf_track h) fun _ h =>
            post_andThen (Track c (-1) (KR Rule15R false)) (track_set h ⟨rfl, rfl, rfl, rfl⟩) fun _ h =>
            post_andThen (Track c (-1) (KR Rule15R false)) (track_set h ⟨rfl, rfl, rfl, rfl⟩) fun _ h =>
            post_andThen (Track c (-1) (KR Rule15R false)) (track_set h ⟨rfl, rfl, rfl, rfl⟩) fun _ h =>
            post_andThen (Track c (-1) (KR Rule15R false)) (track_set h ⟨rfl, rfl, rfl, rfl⟩) fun _ h =>
            post_andThen (Track c (-1) (KR Rule15R false)) (track_set h ⟨rfl, rfl, rfl, rfl⟩) fun _ h =>
            post_andThen (Track c (-1) (KR Rule15R false)) (track_set h ⟨rfl, rfl, rfl, rfl⟩) fun _ h =>
            post_andThen (Track c (-1) (KR Rule15R false)) (track_keep h (Keeps.krule (RAf_keeps ..))) fun _ h =>
            post_andThen (Track c (-1) (KR Rule15R false)) (track_keep h (Keeps.krule (r11f_keeps ..))) fun _ h =>
            post_andThen (Track c (-1) (KR (IsRule 11) false)) (track_rule 11 h) fun _ h =>
            post_andThen (Track c (-1) (KR (IsRule 11) false)) (track_keep h (Keeps.krule (fcEturf_keeps ..))) fun _ h =>
            post_andThen (Track c (-1) (KR (IsRule 11) false)) (track_stress h) fun _ h =>
            final_neg negRule_11 (track_set h ⟨rfl, rfl, rfl, rfl⟩)
          ) (fun hn4 =>
            final_neg15 (fcEtnf_track h)
          )
      )

theorem setTrialStrain_L2271_rule (m : Libm) (s : State) (strain : ℚ) (c : Committed) (hc : CommOK c)
    (hci : c.Cinc = 1) (h : Track c (-1) (KR AnyR false) s) :
    Post TrialOK (setTrialStrain_L2271 m s strain) := by
  unfold setTrialStrain_L2271
  exact
    post_andThen (Track c (-1) (KR AnyR false)) (track_set h ⟨rfl, rfl, rfl, rfl⟩) fun _ h =>
    post_andThen (Track c (-1) (KR AnyR false)) (track_set h ⟨rfl, rfl, rfl, rfl⟩) fun _ h =>
    post_ite (fun _ =>
        setTrialStrain_L2276_rule m _ strain c hc hci (h)
      ) (fun hn1 =>
        setTrialStrain_L2276_else_rule m _ strain c hc hci (h)
      )

theorem setTrialStrain_L2611_rule (m : Libm) (s : State) (strain : ℚ) (c : Committed) (hc : CommOK c)
    (hci : c.Cinc = 1) (h : Track c (-1) (KR AnyR false) s) :
    Post TrialOK (setTrialStrain_L2611 m s strain) := by
  unfold setTrialStrain_L2611
  exact
    post_andThen (Track c (-1) (KR AnyR false)) (track_set h ⟨rfl, rfl, rfl, rfl⟩) fun _ h =>
    post_andThen (Track c (-1) (KR AnyR false)) (track_set h ⟨rfl, rfl, rfl, rfl⟩) fun _ h =>
    post_ite (fun _ =>
        post_andThen (Track c (-1) (KR AnyR false)) (track_keep h (Keeps.krule (r13f_keeps ..))) fun _ h =>
        post_andThen (Track c (-1) (KR AnyR false)) (track_set h ⟨rfl, rfl, rfl, rfl⟩) fun _ h =>
        post_andThen (Track c (-1) (KR AnyR false)) (track_set h ⟨rfl, rfl, rfl, rfl⟩) fun _ h =>
        post_andThen (Track c (-1) (KR AnyR false)) (track_set h ⟨rfl, rfl, rfl, rfl⟩) fun _ h =>
        post_andThen (Track c (-1) (KR AnyR false)) (track_set h ⟨rfl, rfl, rfl, rfl⟩) fun _ h =>
        post_andThen (Track c (-1) (KR AnyR false)) (track_set h ⟨rfl, rfl, rfl, rfl⟩) fun _ h =>
        post_andThen (Track c (-1) (KR AnyR false)) (track_set h ⟨rfl, rfl, rfl, rfl⟩) fun _ h =>
        post_andThen (Track c (-1) (KR AnyR false)) (track_keep h (Keeps.krule (RAf_keeps ..))) fun _ h =>
        post_andThen (Track c (-1) (KR AnyR false)) (track_set h ⟨rfl, rfl, rfl, rfl⟩) fun _ h =>
        post_andThen (Track c (-1) (KR AnyR false)) (track_set h ⟨rfl, rfl, rfl, rfl⟩) fun _ h =>
        post_andThen (Track c (-1) (KR AnyR false)) (track_keep h (Keeps.krule (fcEturf_keeps ..))) fun _ h =>
        post_andThen (Track c (-1) (KR AnyR false)) (track_set h ⟨rfl, rfl, rfl, rfl⟩) fun _ h =>
        post_andThen (Track c (-1) (KR AnyR false)) (track_set h ⟨rfl, rfl, rfl, rfl⟩) fun _ h =>
        post_andThen (Track c (-1) (KR AnyR false)) (track_set h ⟨rfl, rfl, rfl, rfl⟩) fun _ h =>
        post_andThen (Track c (-1) (KR AnyR false)) (
            track_ite (fun _ =>
                track_ite (fun _ =>
                    track_andThen (Track c (-1) (KR AnyR false)) (track_set h ⟨rfl, rfl, rfl, rfl⟩) fun _ h =>
                    track_set h ⟨rfl, rfl, rfl, rfl⟩
                  ) (fun _ =>
                    track_andThen (Track c (-1) (KR AnyR false)) (track_set h ⟨rfl, rfl, rfl, rfl⟩) fun _ h =>
                    track_set h ⟨rfl, rfl, rfl, rfl⟩
                  )
              ) (fun _ =>
                h
              )
          ) fun _ h =>
        post_andThen (Track c (-1) (KR AnyR false)) (track_set h ⟨rfl, rfl, rfl, rfl⟩) fun _ h =>
        post_andThen (Track c (-1) (KR AnyR false)) (track_set h ⟨rfl, rfl, rfl, rfl⟩) fun _ h =>
        post_andThen (Track c (-1) (KR AnyR false)) (track_set h ⟨rfl, rfl, rfl, rfl⟩) fun _ h =>
        post_andThen (Track c (-1) (KR AnyR false)) (track_set h ⟨rfl, rfl, rfl, rfl⟩) fun _ h =>
        post_andThen (Track c (-1) (KR AnyR false)) (track_keep h (Keeps.krule (RAf_keeps ..))) fun _ h =>
        post_andThen (Track c (-1) (KR AnyR false)) (track_keep h (Keeps.krule (r15f_keeps ..))) fun _ h =>
        post_andThen (Track c (-1) (KR (IsRule 15) false)) (track_rule 15 h) fun _ h =>
        post_andThen (Track c (-1) (KR (IsRule 15) false)) (track_keep h (Keeps.krule (fcEturf_keeps ..))) fun _ h =>
        post_andThen (Track c (-1) (KR (IsRule 15) false)) (track_stress h) fun _ h =>
        final_neg negRule_15 (track_set h ⟨rfl, rfl, rfl, rfl⟩)
      ) (fun hn1 =>
        post_ite (fun _ =>
            post_andThen (Track c (-1) (KR AnyR false)) (track_keep h (Keeps.krule (r13f_keeps ..))) fun _ h =>
            post_andThen (Track c (-1) (KR (IsRule 13) false)) (track_rule 13 h) fun _ h =>
            post_andThen (Track c (-1) (KR (IsRule 13) false)) (track_keep h (Keeps.krule (RAf_keeps ..))) fun _ h =>
            post_andThen (Track c (-1) (KR (IsRule 13) false)) (track_keep h (Keeps.krule (fcEturf_keeps ..))) fun _ h =>
            post_andThen (Track c (-1) (KR (IsRule 13) false)) (track_set h ⟨rfl, rfl, rfl, rfl⟩) fun _ h =>
            post_andThen (Track c (-1) (KR (IsRule 13) false)) (
                track_ite (fun _ =>
                    track_ite (fun _ =>
                        track_andThen (Track c (-1) (KR (IsRule 13) false)) (track_set h ⟨rfl, rfl, rfl, rfl⟩) fun _ h =>
                        track_andThen (Track c (-1) (KR (IsRule 13) false)) (track_set h ⟨rfl, rfl, rfl, rfl⟩) fun _ h =>
                        track_rule 13 h
                      ) (fun _ =>
                        track_andThen (Track c (-1) (KR (IsRule 13) false)) (track_set h ⟨rfl, rfl, rfl, rfl⟩) fun _ h =>
                        track_andThen (Track c (-1) (KR (IsRule 13) false)) (track_set h ⟨rfl, rfl, rfl, rfl⟩) fun _ h =>
                        track_rule 13 h
                      )
                  ) (fun _ =>
                    h
                  )
              ) fun _ h =>
            post_andThen (Track c (-1) (KR (IsRule 13) false)) (track_stress h) fun _ h =>
            final_neg negRule_13 (track_set h ⟨rfl, rfl, rfl, rfl⟩)
          ) (fun hn2 =>
            post_ite (fun _ =>
                post_andThen (Track c (-1) (KR AnyR false)) (track_keep h (Keeps.krule (r7f_keeps ..))) fun _ h =>
                post_andThen (Track c (-1) (KR (IsRule 7) false)) (track_rule 7 h) fun _ h =>
                post_andThen (Track c (-1) (KR (IsRule 7) false)) (track_keep h (Keeps.krule (RAf_keeps ..))) fun _ h =>
                post_andThen (Track c (-1) (KR (IsRule 7) false)) (track_keep h (Keeps.krule (fcEturf_keeps ..))) fun _ h =>
                post_andThen (Track c (-1) (KR (IsRule 7) false)) (track_stress h) fun _ h =>
                final_neg negRule_7 (track_set h ⟨rfl, rfl, rfl, rfl⟩)
              ) (fun hn3 =>
                final_neg15 (fcEtnf_track h)
              )
          )
      )

theorem setTrialStrain_L2751_rule (m : Libm) (s : State) (strain : ℚ) (c : Committed) (hc : CommOK c)
    (hci : c.Cinc = 1) (h : Track c (-1) (KR AnyR false) s) :
    Post TrialOK (setTrialStrain_L2751 m s strain) := by
  unfold setTrialStrain_L2751
  exact
    post_ite (fun _ =>
        post_andThen (Track c (-1) (KR AnyR false)) (track_keep h (Keeps.krule (r4f_keeps ..))) fun _ h =>
        post_andThen (Track c (-1) (KR AnyR false)) (track_keep h (Keeps.krule (RAf_keeps ..))) fun _ h =>
        post_andThen (Track c (-1) (KR AnyR false)) (track_keep h (Keeps.krule (fcEturf_keeps ..))) fun _ h =>
        post_andThen (Track c (-1) (KR AnyR false)) (track_set h ⟨rfl, rfl, rfl, rfl⟩) fun _ h =>
        post_andThen (Track c (-1) (KR AnyR false)) (track_set h ⟨rfl, rfl, rfl, rfl⟩) fun _ h =>
        post_andThen (Track c (-1) (KR AnyR false)) (track_set h ⟨rfl, rfl, rfl, rfl⟩) fun _ h =>
        post_andThen (Track c (-1) (KR AnyR false)) (track_set h ⟨rfl, rfl, rfl, rfl⟩) fun _ h =>
        post_andThen (Track c (-1) (KR AnyR false)) (track_set h ⟨rfl, rfl, rfl, rfl⟩) fun _ h =>
        post_andThen (Track c (-1) (KR AnyR false)) (track_set h ⟨rfl, rfl, rfl, rfl⟩) fun _ h =>
        post_andThen (Track c (-1) (KR AnyR false)) (track_keep h (Keeps.krule (RAf_keeps ..))) fun _ h =>
        post_andThen (Track c (-1) (KR AnyR false)) (track_keep h (Keeps.krule (r11f_keeps ..))) fun _ h =>
        post_andThen (Track c (-1) (KR (IsRule 11) false)) (track_rule 11 h) fun _ h =>
        post_andThen (Track c (-1) (KR (IsRule 11) false)) (track_keep h (Keeps.krule (fcEturf_keeps ..))) fun _ h =>
        post_andThen (Track c (-1) (KR (IsRule 11) false)) (track_stress h) fun _ h =>
        final_neg negRule_11 (track_set h ⟨rfl, rfl, rfl, rfl⟩)
      ) (fun hn1 =>
        post_ite (fun _ =>
            post_andThen (Track c (-1) (KR AnyR false)) (track_keep h (Keeps.krule (r4f_keeps ..))) fun _ h =>
            post_andThen (Track c (-1) (KR (IsRule 4) false)) (track_rule 4 h) fun _ h =>
            post_andThen (Track c (-1) (KR (IsRule 4) false)) (track_keep h (Keeps.krule (RAf_keeps ..))) fun _ h =>
            post_andThen (Track c (-1) (KR (IsRule 4) false)) (track_keep h (Keeps.krule (fcEturf_keeps ..))) fun _ h =>
            post_andThen (Track c (-1) (KR (IsRule 4) false)) (track_stress h) fun _ h =>
            final_neg negRule_4 (track_set h ⟨rfl, rfl, rfl, rfl⟩)
          ) (fun hn2 =>
            post_ite (fun _ =>
                post_andThen (Track c (-1) (KR AnyR false)) (track_keep h (Keeps.krule (r10f_keeps ..))) fun _ h =>
                post_andThen (Track c (-1) (KR (IsRule 10) false)) (track_rule 10 h) fun _ h =>
                post_andThen (Track c (-1) (KR (IsRule 10) false)) (track_keep h (Keeps.krule (RAf_keeps ..))) fun _ h =>
                post_andThen (Track c (-1) (KR (IsRule 10) false)) (track_keep h (Keeps.krule (fcEturf_keeps ..))) fun _ h =>
                post_andThen (Track c (-1) (KR (IsRule 10) false)) (track_set h ⟨rfl, rfl, rfl, rfl⟩) fun _ h =>
                post_andThen (Track c (-1) (KR (IsRule 10) false)) (
                    track_ite (fun _ =>
                        track_ite (fun _ =>
                            track_andThen (Track c (-1) (KR (IsRule 10) false)) (track_set h ⟨rfl, rfl, rfl, rfl⟩) fun _ h =>
                            track_andThen (Track c (-1) (KR (IsRule 10) false)) (track_set h ⟨rfl, rfl, rfl, rfl⟩) fun _ h =>
                            track_rule 10 h
                          ) (fun _ =>
                            track_andThen (Track c (-1) (KR (IsRule 10) false)) (track_set h ⟨rfl, rfl, rfl, rfl⟩) fun _ h =>
                            track_andThen (Track c (-1) (KR (IsRule 10) false)) (track_set h ⟨rfl, rfl, rfl, rfl⟩) fun _ h =>
                            track_rule 10 h
                          )
                      ) (fun _ =>
                        h
                      )
                  ) fun _ h =>
                post_andThen (Track c (-1) (KR (IsRule 10) false)) (track_stress h) fun _ h =>
                final_neg negRule_10 (track_set h ⟨rfl, rfl, rfl, rfl⟩)
              ) (fun hn3 =>
                post_ite (fun _ =>
                    post_andThen (Track c (-1) (KR AnyR false)) (track_keep h (Keeps.krule (r7f_keeps ..))) fun _ h =>
                    post_andThen (Track c (-1) (KR (IsRule 7) false)) (track_rule 7 h) fun _ h =>
                    post_andThen (Track c (-1) (KR (IsRule 7) false)) (track_keep h (Keeps.krule (RAf_keeps ..))) fun _ h =>
                    post_andThen (Track c (-1) (KR (IsRule 7) false)) (track_keep h (Keeps.krule (fcEturf_keeps ..))) fun _ h =>
                    post_andThen (Track c (-1) (KR (IsRule 7) false)) (track_stress h) fun _ h =>
                    final_neg negRule_7 (track_set h ⟨rfl, rfl, rfl, rfl⟩)
                  ) (fun hn4 =>
                    final_neg15 (fcEtnf_track h)
                  )
              )
          )
      )

theorem setTrialStrain_L2835_rule (m : Libm) (s : State) (strain : ℚ) (c : Committed) (hc : CommOK c)
    (hci : c.Cinc = 1) (h : Track c (-1) (KR AnyR false) s) :
    Post TrialOK (setTrialStrain_L2835 m s strain) := by
  unfold setTrialStrain_L2835
  exact
    post_ite (fun _ =>
        post_andThen (Track c (-1) (KR AnyR false)) (track_keep h (Keeps.krule (r10f_keeps ..))) fun _ h =>
        post_andThen (Track c (-1) (KR AnyR false)) (track_set h ⟨rfl, rfl, rfl, rfl⟩) fun _ h =>
        post_andThen (Track c (-1) (KR AnyR false)) (track_set h ⟨rfl, rfl, rfl, rfl⟩) fun _ h =>
        post_andThen (Track c (-1) (KR AnyR false)) (track_set h ⟨rfl, rfl, rfl, rfl⟩) fun _ h =>
        post_andThen (Track c (-1) (KR AnyR false)) (track_set h ⟨rfl, rfl, rfl, rfl⟩) fun _ h =>
        post_andThen (Track c (-1) (KR AnyR false)) (track_set h ⟨rfl, rfl, rfl, rfl⟩) fun _ h =>
        post_andThen (Track c (-1) (KR AnyR false)) (track_set h ⟨rfl, rfl, rfl, rfl⟩) fun _ h =>
        post_andThen (Track c (-1) (KR AnyR false)) (track_keep h (Keeps.krule (RAf_keeps ..))) fun _ h =>
        post_andThen (Track c (-1) (KR AnyR false)) (track_set h ⟨rfl, rfl, rfl, rfl⟩) fun _ h =>
        post_andThen (Track c (-1) (KR AnyR false)) (track_set h ⟨rfl, rfl, rfl, rfl⟩) fun _ h =>
        post_andThen (Track c (-1) (KR AnyR false)) (track_keep h (Keeps.krule (fcEturf_keeps ..))) fun _ h =>
        post_andThen (Track c (-1) (KR AnyR false)) (track_set h ⟨rfl, rfl, rfl, rfl⟩) fun _ h =>
        post_andThen (Track c (-1) (KR AnyR false)) (track_set h ⟨rfl, rfl, rfl, rfl⟩) fun _ h =>
        post_andThen (Track c (-1) (KR AnyR false)) (track_set h ⟨rfl, rfl, rfl, rfl⟩) fun _ h =>
        post_andThen (Track c (-1) (KR AnyR false)) (
            track_ite (fun _ =>
                track_ite (fun _ =>
                    track_andThen (Track c (-1) (KR AnyR false)) (track_set h ⟨rfl, rfl, rfl, rfl⟩) fun _ h =>
                    track_set h ⟨rfl, rfl, rfl, rfl⟩
                  ) (fun _ =>
                    track_andThen (Track c (-1) (KR AnyR false)) (track_set h ⟨rfl, rfl, rfl, rfl⟩) fun _ h =>
                    track_set h ⟨rfl, rfl, rfl, rfl⟩
                  )
              ) (fun _ =>
                h
              )
          ) fun _ h =>
        post_andThen (Track c (-1) (KR AnyR false)) (track_set h ⟨rfl, rfl, rfl, rfl⟩) fun _ h =>
        post_andThen (Track c (-1) (KR AnyR false)) (track_set h ⟨rfl, rfl, rfl, rfl⟩) fun _ h =>
        post_andThen (Track c (-1) (KR AnyR false)) (track_set h ⟨rfl, rfl, rfl, rfl⟩) fun _ h =>
        post_andThen (Track c (-1) (KR AnyR false)) (track_set h ⟨rfl, rfl, rfl, rfl⟩) fun _ h =>
        post_andThen (Track c (-1) (KR AnyR false)) (track_keep h (Keeps.krule (RAf_keeps ..))) fun _ h =>
        post_andThen (Track c (-1) (KR AnyR false)) (track_keep h (Keeps.krule (r11f_keeps ..))) fun _ h =>
        post_andThen (Track c (-1) (KR (IsRule 11) false)) (track_rule 11 h) fun _ h =>
        post_andThen (Track c (-1) (KR (IsRule 11) false)) (track_keep h (Keeps.krule (fcEturf_keeps ..))) fun _ h =>
        post_andThen (Track c (-1) (KR (IsRule 11) false)) (track_stress h) fun _ h =>
        final_neg negRule_11 (track_set h ⟨rfl, rfl, rfl, rfl⟩)
      ) (fun hn1 =>
        post_ite (fun _ =>
            post_andThen (Track c (-1) (KR AnyR false)) (track_keep h (Keeps.krule (r10f_keeps ..))) fun _ h =>
            post_andThen (Track c (-1) (KR (IsRule 10) false)) (track_rule 10 h) fun _ h =>
            post_andThen (Track c (-1) (KR (IsRule 10) false)) (track_keep h (Keeps.krule (RAf_keeps ..))) fun _ h =>
            post_andThen (Track c (-1) (KR (IsRule 10) false)) (track_keep h (Keeps.krule (fcEturf_keeps ..))) fun _ h =>
            post_andThen (Track c (-1) (KR (IsRule 10) false)) (track_set h ⟨rfl, rfl, rfl, rfl⟩) fun _ h =>
            post_andThen (Track c (-1) (KR (IsRule 10) false)) (
                track_ite (fun _ =>
                    track_ite (fun _ =>
                        track_andThen (Track c (-1) (KR (IsRule 10) false)) (track_set h ⟨rfl, rfl, rfl, rfl⟩) fun _ h =>
                        track_andThen (Track c (-1) (KR (IsRule 10) false)) (track_set h ⟨rfl, rfl, rfl, rfl⟩) fun _ h =>
                        track_rule 10 h
                      ) (fun _ =>
                        track_andThen (Track c (-1) (KR (IsRule 10) false)) (track_set h ⟨rfl, rfl, rfl, rfl⟩) fun _ h =>
                        track_andThen (Track c (-1) (KR (IsRule 10) false)) (track_set h ⟨rfl, rfl, rfl, rfl⟩) fun _ h =>
                        track_rule 10 h
                      )
                  ) (fun _ =>
                    h
                  )
              ) fun _ h =>
            post_andThen (Track c (-1) (KR (IsRule 10) false)) (track_stress h) fun _ h =>
            final_neg negRule_10 (track_set h ⟨rfl, rfl, rfl, rfl⟩)
          ) (fun hn2 =>
            post_ite (fun _ =>
                post_andThen (Track c (-1) (KR AnyR false)) (track_keep h (Keeps.krule (r7f_keeps ..))) fun _ h =>
                post_andThen (Track c (-1) (KR (IsRule 7) false)) (track_rule 7 h) fun _ h =>
                post_andThen (Track c (-1) (KR (IsRule 7) false)) (track_keep h (Keeps.krule (RAf_keeps ..))) fun _ h =>
                post_andThen (Track c (-1) (KR (IsRule 7) false)) (track_keep h (Keeps.krule (fcEturf_keeps ..))) fun _ h =>
                post_andThen (Track c (-1) (KR (IsRule 7) false)) (track_stress h) fun _ h =>
                final_neg negRule_7 (track_set h ⟨rfl, rfl, rfl, rfl⟩)
              ) (fun hn3 =>
                final_neg15 (fcEtnf_track h)
              )
          )
      )

theorem setTrialStrain_L2742_rule (m : Libm) (s : State) (strain : ℚ) (c : Committed) (hc : CommOK c)
    (hci : c.Cinc = 1) (h : Track c (-1) (KR AnyR false) s) :
    Post TrialOK (setTrialStrain_L2742 m s strain) := by
  unfold setTrialStrain_L2742
  exact
    post_andThen (Track c (-1) (KR AnyR false)) (track_set h ⟨rfl, rfl, rfl, rfl⟩) fun _ h =>
    post_andThen (Track c (-1) (KR AnyR false)) (track_set h ⟨rfl, rfl, rfl, rfl⟩) fun _ h =>
    post_andThen (Track c (-1) (KR AnyR false)) (track_set h ⟨rfl, rfl, rfl, rfl⟩) fun _ h =>
    post_andThen (Track c (-1) (KR AnyR false)) (track_set h ⟨rfl, rfl, rfl, rfl⟩) fun _ h =>
    post_ite (fun _ =>
        setTrialStrain_L2751_rule m _ strain c hc hci (h)
      ) (fun hn1 =>
        post_ite (fun _ =>
            setTrialStrain_L2835_rule m _ strain c hc hci (h)
          ) (fun hn2 =>
            post_ite (fun _ =>
                post_ite (fun _ =>
                    post_andThen (Track c (-1) (KR AnyR false)) (track_keep h (Keeps.krule (r7f_keeps ..))) fun _ h =>
                    post_andThen (Track c (-1) (KR AnyR false)) (track_keep h (Keeps.krule (RAf_keeps ..))) fun _ h =>
                    post_andThen (Track c (-1) (KR AnyR false)) (track_keep h (Keeps.krule (fcEturf_keeps ..))) fun _ h =>
                    post_andThen (Track c (-1) (KR AnyR false)) (track_set h ⟨rfl, rfl, rfl, rfl⟩) fun _ h =>
                    post_andThen (Track c (-1) (KR AnyR false)) (track_set h ⟨rfl, rfl, rfl, rfl⟩) fun _ h =>
                    post_andThen (Track c (-1) (KR AnyR false)) (track_set h ⟨rfl, rfl, rfl, rfl⟩) fun _ h =>
                    post_andThen (Track c (-1) (KR AnyR false)) (track_set h ⟨rfl, rfl, rfl, rfl⟩) fun _ h =>
                    post_andThen (Track c (-1) (KR AnyR false)) (track_set h ⟨rfl, rfl, rfl, rfl⟩) fun _ h =>
                    post_andThen (Track c (-1) (KR AnyR false)) (track_set h ⟨rfl, rfl, rfl, rfl⟩) fun _ h =>
                    post_andThen (Track c (-1) (KR AnyR false)) (track_keep h (Keeps.krule (RAf_keeps ..))) fun _ h =>
                    post_andThen (Track c (-1) (KR AnyR false)) (track_keep h (Keeps.krule (r11f_keeps ..))) fun _ h =>
                    post_andThen (Track c (-1) (KR (IsRule 11) false)) (track_rule 11 h) fun _ h =>
                    post_andThen (Track c (-1) (KR (IsRule 11) false)) (track_keep h (Keeps.krule (fcEturf_keeps ..))) fun _ h =>
                    post_andThen (Track c (-1) (KR (IsRule 11) false)) (track_stress h) fun _ h =>
                    final_neg negRule_11 (track_set h ⟨rfl, rfl, rfl, rfl⟩)
                  ) (fun hn4 =>
                    post_ite (fun _ =>
                        post_andThen (Track c (-1) (KR AnyR false)) (track_keep h (Keeps.krule (r7f_keeps ..))) fun _ h =>
                        post_andThen (Track c (-1) (KR (IsRule 7) false)) (track_rule 7 h) fun _ h =>
                        post_andThen (Track c (-1) (KR (IsRule 7) false)) (track_keep h (Keeps.krule (RAf_keeps ..))) fun _ h =>
                        post_andThen (Track c (-1) (KR (IsRule 7) false)) (track_keep h (Keeps.krule (fcEturf_keeps ..))) fun _ h =>
                        post_andThen (Track c (-1) (KR (IsRule 7) false)) (track_stress h) fun _ h =>
                        final_neg negRule_7 (track_set h ⟨rfl, rfl, rfl, rfl⟩)
                      ) (fun hn5 =>
                        final_neg15 (fcEtnf_track h)
                      )
                  )
              ) (fun hn3 =>
                post_ite (fun _ =>
                    post_andThen (Track c (-1) (KR Rule15R false)) (fcEtnf_track h) fun _ h =>
                    post_andThen (Track c (-1) (KR Rule15R false)) (track_set h ⟨rfl, rfl, rfl, rfl⟩) fun _ h =>
                    post_andThen (Track c (-1) (KR Rule15R false)) (track_set h ⟨rfl, rfl, rfl, rfl⟩) fun _ h =>
                    post_andThen (Track c (-1) (KR Rule15R false)) (track_set h ⟨rfl, rfl, rfl, rfl⟩) fun _ h =>
                    post_andThen (Track c (-1) (KR Rule15R false)) (track_set h ⟨rfl, rfl, rfl, rfl⟩) fun _ h =>
                    post_andThen (Track c (-1) (KR Rule15R false)) (track_set h ⟨rfl, rfl, rfl, rfl⟩) fun _ h =>
                    post_andThen (Track c (-1) (KR Rule15R false)) (track_set h ⟨rfl, rfl, rfl, rfl⟩) fun _ h =>
                    post_andThen (Track c (-1) (KR Rule15R false)) (track_keep h (Keeps.krule (RAf_keeps ..))) fun _ h =>
                    post_andThen (Track c (-1) (KR Rule15R false)) (track_keep h (Keeps.krule (r11f_keeps ..))) fun _ h =>
                    post_andThen (Track c (-1) (KR (IsRule 11) false)) (track_rule 11 h) fun _ h =>
                    post_andThen (Track c (-1) (KR (IsRule 11) false)) (track_keep h (Keeps.krule (fcEturf_keeps ..))) fun _ h =>
                    post_andThen (Track c (-1) (KR (IsRule 11) false)) (track_stress h) fun _ h =>
                    final_neg negRule_11 (track_set h ⟨rfl, rfl, rfl, rfl⟩)
                  ) (fun hn6 =>
                    final_neg15 (fcEtnf_track h)
                  )
              )
          )
      )

theorem setTrialStrain_L2742_else_rule (m : Libm) (s : State) (strain : ℚ) (c : Committed) (hc : CommOK c)
    (hci : c.Cinc = 1) (h : Track c (-1) (KR AnyR false) s) :
    Post TrialOK (setTrialStrain_L2742_else m s strain) := by
  unfold setTrialStrain_L2742_else
  exact
    post_andThen (Track c (-1) (KR AnyR false)) (track_set h ⟨rfl, rfl, rfl, rfl⟩) fun _ h =>
    post_andThen (Track c (-1) Rule26) (fcEtpf_track h) fun _ h =>
    post_andThen (Track c (-1) Rule26) (track_set h ⟨rfl, rfl, rfl, rfl⟩) fun _ h =>
    post_andThen (Track c (-1) Rule26) (track_keep h (Keeps.krule (esplpf_keeps ..))) fun _ h =>
    post_andThen (Track c (-1) Rule26) (track_keep h (Keeps.krule (Eplpf_keeps ..))) fun _ h =>
    post_ite (fun _ =>
        post_andThen (Track c (-1) Rule26) (track_keep h (Keeps.krule (r4f_keeps ..))) fun _ h =>
        post_andThen (Track c (-1) (KR (IsRule 4) false)) (track_rule_of26 4 h) fun _ h =>
        post_andThen (Track c (-1) (KR (IsRule 4) false)) (track_keep h (Keeps.krule (RAf_keeps ..))) fun _ h =>
        post_andThen (Track c (-1) (KR (IsRule 4) false)) (track_keep h (Keeps.krule (fcEturf_keeps ..))) fun _ h =>
        post_andThen (Track c (-1) (KR (IsRule 4) false)) (track_stress h) fun _ h =>
        final_neg negRule_4 (track_set h ⟨rfl, rfl, rfl, rfl⟩)
      ) (fun hn1 =>
        post_ite (fun _ =>
            post_andThen (Track c (-1) Rule26) (track_keep h (Keeps.krule (r10f_keeps ..))) fun _ h =>
            post_andThen (Track c (-1) (KR (IsRule 10) false)) (track_rule_of26 10 h) fun _ h =>
            post_andThen (Track c (-1) (KR (IsRule 10) false)) (track_keep h (Keeps.krule (RAf_keeps ..))) fun _ h =>
            post_andThen (Track c (-1) (KR (IsRule 10) false)) (track_keep h (Keeps.krule (fcEturf_keeps ..))) fun _ h =>
            post_andThen (Track c (-1) (KR (IsRule 10) false)) (track_set h ⟨rfl, rfl, rfl, rfl⟩) fun _ h =>
            post_andThen (Track c (-1) (KR (IsRule 10) false)) (
                track_ite (fun _ =>
                    track_ite (fun _ =>
                        track_andThen (Track c (-1) (KR (IsRule 10) false)) (track_set h ⟨rfl, rfl, rfl, rfl⟩) fun _ h =>
                        track_andThen (Track c (-1) (KR (IsRule 10) false)) (track_set h ⟨rfl, rfl, rfl, rfl⟩) fun _ h =>
                        track_rule 10 h
                      ) (fun _ =>
                        track_andThen (Track c (-1) (KR (IsRule 10) false)) (track_set h ⟨rfl, rfl, rfl, rfl⟩) fun _ h =>
                        track_andThen (Track c (-1) (KR (IsRule 10) false)) (track_set h ⟨rfl, rfl, rfl, rfl⟩) fun _ h =>
                        track_rule 10 h
                      )
                  ) (fun _ =>
                    h
                  )
              ) fun _ h =>
            post_andThen (Track c (-1) (KR (IsRule 10) false)) (track_stress h) fun _ h =>
            final_neg negRule_10 (track_set h ⟨rfl, rfl, rfl, rfl⟩)
          ) (fun hn2 =>
            post_ite (fun _ =>
                post_andThen (Track c (-1) Rule26) (track_keep h (Keeps.krule (r7f_keeps ..))) fun _ h =>
                post_andThen (Track c (-1) (KR (IsRule 7) false)) (track_rule_of26 7 h) fun _ h =>
                post_andThen (Track c (-1) (KR (IsRule 7) false)) (track_keep h (Keeps.krule (RAf_keeps ..))) fun _ h =>
                post_andThen (Track c (-1) (KR (IsRule 7) false)) (track_keep h (Keeps.krule (fcEturf_keeps ..))) fun _ h =>
                post_andThen (Track c (-1) (KR (IsRule 7) false)) (track_stress h) fun _ h =>
                final_neg negRule_7 (track_set h ⟨rfl, rfl, rfl, rfl⟩)
              ) (fun hn3 =>
                final_neg15 (fcEtnf_track h)
              )
          )
      )

theorem setTrialStrain_L2740_rule (m : Libm) (s : State) (strain : ℚ) (c : Committed) (hc : CommOK c)
    (hci : c.Cinc = 1) (h : Track c (-1) (KR AnyR false) s) :
    Post TrialOK (setTrialStrain_L2740 m s strain) := by
  unfold setTrialStrain_L2740
  exact
    post_ite (fun _ =>
        setTrialStrain_L2742_rule m _ strain c hc hci (h)
      ) (fun hn1 =>
        setTrialStrain_L2742_else_rule m _ strain c hc hci (h)
      )

theorem setTrialStrain_L1871_rule (m : Libm) (s : State) (strain : ℚ) (c : Committed) (hc : CommOK c)
    (hci : c.Cinc = 1) (h : Track c (-1) (KR AnyR false) s) :
    Post TrialOK (setTrialStrain_L1871 m s strain) := by
  unfold setTrialStrain_L1871
  exact
    post_ite (fun _ =>
        setTrialStrain_L1874_rule m _ strain c hc hci (h)
      ) (fun hn1 =>
        post_ite (fun _ =>
            setTrialStrain_L1937_rule m _ strain c hc hci (h)
          ) (fun hn2 =>
            post_ite (fun _ =>
                setTrialStrain_L2006_rule m _ strain c hc hci (h)
              ) (fun hn3 =>
                post_ite (fun _ =>
                    setTrialStrain_L2271_rule m _ strain c hc hci (h)
                  ) (fun hn4 =>
                    post_ite (fun _ =>
                        setTrialStrain_L2611_rule m _ strain c hc hci (h)
                      ) (fun hn5 =>
                        post_ite (fun _ =>
                            post_andThen (Track c (-1) (KR AnyR false)) (track_set h ⟨rfl, rfl, rfl, rfl⟩) fun _ h =>
                            post_andThen (Track c (-1) (KR AnyR false)) (track_set h ⟨rfl, rfl, rfl, rfl⟩) fun _ h =>
                            post_andThen (Track c (-1) (KR AnyR false)) (track_set h ⟨rfl, rfl, rfl, rfl⟩) fun _ h =>
                            post_andThen (Track c (-1) (KR AnyR false)) (track_keep h (Keeps.krule (fnewstnf_keeps ..))) fun _ h =>
                            post_andThen (Track c (-1) (KR AnyR false)) (track_keep h (Keeps.krule (Enewstnf_keeps ..))) fun _ h =>
                            post_andThen (Track c (-1) (KR AnyR false)) (track_keep h (Keeps.krule (esrestnf_keeps ..))) fun _ h =>
                            post_andThen (Track c (-1) (KR AnyR false)) (track_keep h (Keeps.krule (freErestnf_keeps ..))) fun _ h =>
                            post_ite (fun _ =>
                                post_andThen (Track c (-1) (KR AnyR false)) (track_keep h (Keeps.krule (r77f_keeps ..))) fun _ h =>
                                post_andThen (Track c (-1) (KR (IsRule 77) false)) (track_rule 77 h) fun _ h =>
                                post_andThen (Track c (-1) (KR (IsRule 77) false)) (track_keep h (Keeps.krule (RAf_keeps ..))) fun _ h =>
                                post_andThen (Track c (-1) (KR (IsRule 77) false)) (track_keep h (Keeps.krule (fcEturf_keeps ..))) fun _ h =>
                                post_andThen (Track c (-1) (KR (IsRule 77) false)) (track_stress h) fun _ h =>
                                final_neg negRule_77 (track_set h ⟨rfl, rfl, rfl, rfl⟩)
                              ) (fun hn7 =>
                                final_neg15 (fcEtnf_track h)
                              )
                          ) (fun hn6 =>
                            post_ite (fun _ =>
                                setTrialStrain_L2740_rule m _ strain c hc hci (h)
                              ) (fun hn8 =>
                                (fallthrough_setTrialStrain_L1871 hc hci h hn1 hn2 hn3 hn4 hn5 hn6 hn8).elim
                              )
                          )
                      )
                  )
              )
          )
      )

theorem setTrialStrain_L3161_rule (m : Libm) (s : State) (strain : ℚ) (c : Committed) (hc : CommOK c)
    (hci : c.Cinc = 1) (h : Track c 1 (KR AnyR false) s) :
    Post TrialOK (setTrialStrain_L3161 m s strain) := by
  unfold setTrialStrain_L3161
  exact
    post_ite (fun _ =>
        post_andThen (Track c 1 (KR AnyR false)) (track_keep h (Keeps.krule (r3f_keeps ..))) fun _ h =>
        post_andThen (Track c 1 (KR AnyR false)) (track_keep h (Keeps.krule (RAf_keeps ..))) fun _ h =>
        post_andThen (Track c 1 (KR AnyR false)) (track_keep h (Keeps.krule (fcEturf_keeps ..))) fun _ h =>
        post_andThen (Track c 1 (KR AnyR false)) (track_set h ⟨rfl, rfl, rfl, rfl⟩) fun _ h =>
        post_andThen (Track c 1 (KR AnyR false)) (track_set h ⟨rfl, rfl, rfl, rfl⟩) fun _ h =>
        post_andThen (Track c 1 (KR AnyR false)) (track_set h ⟨rfl, rfl, rfl, rfl⟩) fun _ h =>
        post_andThen (Track c 1 (KR AnyR false)) (track_set h ⟨rfl, rfl, rfl, rfl⟩) fun _ h =>
        post_andThen (Track c 1 (KR AnyR false)) (track_set h ⟨rfl, rfl, rfl, rfl⟩) fun _ h =>
        post_andThen (Track c 1 (KR AnyR false)) (track_set h ⟨rfl, rfl, rfl, rfl⟩) fun _ h =>
        post_andThen (Track c 1 (KR AnyR false)) (track_keep h (Keeps.krule (RAf_keeps ..))) fun _ h =>
        post_andThen (Track c 1 (KR AnyR false)) (track_keep h (Keeps.krule (r12f_keeps ..))) fun _ h =>
        post_andThen (Track c 1 (KR (IsRule 12) false)) (track_rule 12 h) fun _ h =>
        post_andThen (Track c 1 (KR (IsRule 12) false)) (track_keep h (Keeps.krule (fcEturf_keeps ..))) fun _ h =>
        post_andThen (Track c 1 (KR (IsRule 12) false)) (track_stress h) fun _ h =>
        final_pos posRule_12 rule_12_ne (track_set h ⟨rfl, rfl, rfl, rfl⟩)
      ) (fun hn1 =>
        post_ite (fun _ =>
            post_andThen (Track c 1 (KR AnyR false)) (track_keep h (Keeps.krule (r3f_keeps ..))) fun _ h =>
            post_andThen (Track c 1 (KR (IsRule 3) false)) (track_rule 3 h) fun _ h =>
            post_andThen (Track c 1 (KR (IsRule 3) false)) (track_keep h (Keeps.krule (RAf_keeps ..))) fun _ h =>
            post_andThen (Track c 1 (KR (IsRule 3) false)) (track_keep h (Keeps.krule (fcEturf_keeps ..))) fun _ h =>
            post_andThen (Track c 1 (KR (IsRule 3) false)) (track_stress h) fun _ h =>
            final_pos posRule_3 rule_3_ne (track_set h ⟨rfl, rfl, rfl, rfl⟩)
          ) (fun hn2 =>
            post_ite (fun _ =>
                post_andThen (Track c 1 (KR AnyR false)) (track_keep h (Keeps.krule (r9f_keeps ..))) fun _ h =>
                post_andThen (Track c 1 (KR (IsRule 9) false)) (track_rule 9 h) fun _ h =>
                post_andThen (Track c 1 (KR (IsRule 9) false)) (track_keep h (Keeps.krule (RAf_keeps ..))) fun _ h =>
                post_andThen (Track c 1 (KR (IsRule 9) false)) (track_keep h (Keeps.krule (fcEturf_keeps ..))) fun _ h =>
                post_andThen (Track c 1 (KR (IsRule 9) false)) (track_stress h) fun _ h =>
                final_pos posRule_9 rule_9_ne (track_set h ⟨rfl, rfl, rfl, rfl⟩)
              ) (fun hn3 =>
                post_ite (fun _ =>
                    post_andThen (Track c 1 (KR AnyR false)) (track_keep h (Keeps.krule (r8f_keeps ..))) fun _ h =>
                    post_andThen (Track c 1 (KR (IsRule 8) false)) (track_rule 8 h) fun _ h =>
                    post_andThen (Track c 1 (KR (IsRule 8) false)) (track_keep h (Keeps.krule (RAf_keeps ..))) fun _ h =>
                    post_andThen (Track c 1 (KR (IsRule 8) false)) (track_keep h (Keeps.krule (fcEturf_keeps ..))) fun _ h =>
                    post_andThen (Track c 1 (KR (IsRule 8) false)) (track_stress h) fun _ h =>
                    final_pos posRule_8 rule_8_ne (track_set h ⟨rfl, rfl, rfl, rfl⟩)
                  ) (fun hn4 =>
                    final_pos26 (fcEtpf_track h)
                  )
              )
          )
      )

theorem setTrialStrain_L3159_rule (m : Libm) (s : State) (strain : ℚ) (c : Committed) (hc : CommOK c)
    (hci : c.Cinc = 1) (h : Track c 1 (KR AnyR false) s) :
    Post TrialOK (setTrialStrain_L3159 m s strain) := by
  unfold setTrialStrain_L3159
  exact
    post_ite (fun _ =>
        setTrialStrain_L3161_rule m _ strain c hc hci (h)
      ) (fun hn1 =>
        post_ite (fun _ =>
            post_ite (fun _ =>
                post_andThen (Track c 1 (KR AnyR false)) (track_keep h (Keeps.krule (r9f_keeps ..))) fun _ h =>
                post_andThen (Track c 1 (KR AnyR false)) (track_keep h (Keeps.krule (RAf_keeps ..))) fun _ h =>
                post_andThen (Track c 1 (KR AnyR false)) (track_keep h (Keeps.krule (fcEturf_keeps ..))) fun _ h =>
                post_andThen (Track c 1 (KR AnyR false)) (track_set h ⟨rfl, rfl, rfl, rfl⟩) fun _ h =>
                post_andThen (Track c 1 (KR AnyR false)) (track_set h ⟨rfl, rfl, rfl, rfl⟩) fun _ h =>
                post_andThen (Track c 1 (KR AnyR false)) (track_set h ⟨rfl, rfl, rfl, rfl⟩) fun _ h =>
                post_andThen (Track c 1 (KR AnyR false)) (track_set h ⟨rfl, rfl, rfl, rfl⟩) fun _ h =>
                post_andThen (Track c 1 (KR AnyR false)) (track_set h ⟨rfl, rfl, rfl, rfl⟩) fun _ h =>
                post_andThen (Track c 1 (KR AnyR false)) (track_set h ⟨rfl, rfl, rfl, rfl⟩) fun _ h =>
                post_andThen (Track c 1 (KR AnyR false)) (track_keep h (Keeps.krule (RAf_keeps ..))) fun _ h =>
                post_andThen (Track c 1 (KR AnyR false)) (track_keep h (Keeps.krule (r12f_keeps ..))) fun _ h =>
                post_andThen (Track c 1 (KR (IsRule 12) false)) (track_rule 12 h) fun _ h =>
                post_andThen (Track c 1 (KR (IsRule 12) false)) (track_keep h (Keeps.krule (fcEturf_keeps ..))) fun _ h =>
                post_andThen (Track c 1 (KR (IsRule 12) false)) (track_stress h) fun _ h =>
                final_pos posRule_12 rule_12_ne (track_set h ⟨rfl, rfl, rfl, rfl⟩)
              ) (fun hn3 =>
                post_ite (fun _ =>
                    post_andThen (Track c 1 (KR AnyR false)) (track_keep h (Keeps.krule (r9f_keeps ..))) fun _ h =>
                    post_andThen (Track c 1 (KR (IsRule 9) false)) (track_rule 9 h) fun _ h =>
                    post_andThen (Track c 1 (KR (IsRule 9) false)) (track_keep h (Keeps.krule (RAf_keeps ..))) fun _ h =>
                    post_andThen (Track c 1 (KR (IsRule 9) false)) (track_keep h (Keeps.krule (fcEturf_keeps ..))) fun _ h =>
                    post_andThen (Track c 1 (KR (IsRule 9) false)) (track_stress h) fun _ h =>
                    final_pos posRule_9 rule_9_ne (track_set h ⟨rfl, rfl, rfl, rfl⟩)
                  ) (fun hn4 =>
                    post_ite (fun _ =>
                        post_andThen (Track c 1 (KR AnyR false)) (track_keep h (Keeps.krule (r8f_keeps ..))) fun _ h =>
                        post_andThen (Track c 1 (KR (IsRule 8) false)) (track_rule 8 h) fun _ h =>
                        post_andThen (Track c 1 (KR (IsRule 8) false)) (track_keep h (Keeps.krule (RAf_keeps ..))) fun _ h =>
                        post_andThen (Track c 1 (KR (IsRule 8) false)) (track_keep h (Keeps.krule (fcEturf_keeps ..))) fun _ h =>
                        post_andThen (Track c 1 (KR (IsRule 8) false)) (track_stress h) fun _ h =>
                        final_pos posRule_8 rule_8_ne (track_set h ⟨rfl, rfl, rfl, rfl⟩)
                      ) (fun hn5 =>
                        final_pos26 (fcEtpf_track h)
                      )
                  )
              )
          ) (fun hn2 =>
            post_ite (fun _ =>
                post_ite (fun _ =>
                    post_andThen (Track c 1 (KR AnyR false)) (track_keep h (Keeps.krule (r8f_keeps ..))) fun _ h =>
                    post_andThen (Track c 1 (KR AnyR false)) (track_keep h (Keeps.krule (RAf_keeps ..))) fun _ h =>
                    post_andThen (Track c 1 (KR AnyR false)) (track_keep h (Keeps.krule (fcEturf_keeps ..))) fun _ h =>
                    post_andThen (Track c 1 (KR AnyR false)) (track_set h ⟨rfl, rfl, rfl, rfl⟩) fun _ h =>
                    post_andThen (Track c 1 (KR AnyR false)) (track_set h ⟨rfl, rfl, rfl, rfl⟩) fun _ h =>
                    post_andThen (Track c 1 (KR AnyR false)) (track_set h ⟨rfl, rfl, rfl, rfl⟩) fun _ h =>
                    post_andThen (Track c 1 (KR AnyR false)) (track_set h ⟨rfl, rfl, rfl, rfl⟩) fun _ h =>
                    post_andThen (Track c 1 (KR AnyR false)) (track_set h ⟨rfl, rfl, rfl, rfl⟩) fun _ h =>
                    post_andThen (Track c 1 (KR AnyR false)) (track_set h ⟨rfl, rfl, rfl, rfl⟩) fun _ h =>
                    post_andThen (Track c 1 (KR AnyR false)) (track_keep h (Keeps.krule (RAf_keeps ..))) fun _ h =>
                    post_andThen (Track c 1 (KR AnyR false)) (track_keep h (Keeps.krule (r12f_keeps ..))) fun _ h =>
                    post_andThen (Track c 1 (KR (IsRule 12) false)) (track_rule 12 h) fun _ h =>
                    post_andThen (Track c 1 (KR (IsRule 12) false)) (track_keep h (Keeps.krule (fcEturf_keeps ..))) fun _ h =>
                    post_andThen (Track c 1 (KR (IsRule 12) false)) (track_stress h) fun _ h =>
                    final_pos posRule_12 rule_12_ne (track_set h ⟨rfl, rfl, rfl, rfl⟩)
                  ) (fun hn7 =>
                    post_ite (fun _ =>
                        post_andThen (Track c 1 (KR AnyR false)) (track_keep h (Keeps.krule (r8f_keeps ..))) fun _ h =>
                        post_andThen (Track c 1 (KR (IsRule 8) false)) (track_rule 8 h) fun _ h =>
                        post_andThen (Track c 1 (KR (IsRule 8) false)) (track_keep h (Keeps.krule (RAf_keeps ..))) fun _ h =>
                        post_andThen (Track c 1 (KR (IsRule 8) false)) (track_keep h (Keeps.krule (fcEturf_keeps ..))) fun _ h =>
                        post_andThen (Track c 1 (KR (IsRule 8) false)) (track_stress h) fun _ h =>
                        final_pos posRule_8 rule_8_ne (track_set h ⟨rfl, rfl, rfl, rfl⟩)
                      ) (fun hn8 =>
                        final_pos26 (fcEtpf_track h)
                      )
                  )
              ) (fun hn6 =>
                post_ite (fun _ =>
                    post_andThen (Track c 1 Rule26) (fcEtpf_track h) fun _ h =>
                    post_andThen (Track c 1 Rule26) (track_set h ⟨rfl, rfl, rfl, rfl⟩) fun _ h =>
                    post_andThen (Track c 1 Rule26) (track_set h ⟨rfl, rfl, rfl, rfl⟩) fun _ h =>
                    post_andThen (Track c 1 Rule26) (track_set h ⟨rfl, rfl, rfl, rfl⟩) fun _ h =>
                    post_andThen (Track c 1 Rule26) (track_set h ⟨rfl, rfl, rfl, rfl⟩) fun _ h =>
                    post_andThen (Track c 1 Rule26) (track_set h ⟨rfl, rfl, rfl, rfl⟩) fun _ h =>
                    post_andThen (Track c 1 Rule26) (track_set h ⟨rfl, rfl, rfl, rfl⟩) fun _ h =>
                    post_andThen (Track c 1 Rule26) (track_keep h (Keeps.krule (RAf_keeps ..))) fun _ h =>
                    post_andThen (Track c 1 Rule26) (track_keep h (Keeps.krule (r12f_keeps ..))) fun _ h =>
                    post_andThen (Track c 1 (KR (IsRule 12) false)) (track_rule_of26 12 h) fun _ h =>
                    post_andThen (Track c 1 (KR (IsRule 12) false)) (track_keep h (Keeps.krule (fcEturf_keeps ..))) fun _ h =>
                    post_andThen (Track c 1 (KR (IsRule 12) false)) (track_stress h) fun _ h =>
                    final_pos posRule_12 rule_12_ne (track_set h ⟨rfl, rfl, rfl, rfl⟩)
                  ) (fun hn9 =>
                    final_pos26 (fcEtpf_track h)
                  )
              )
          )
      )

theorem setTrialStrain_L3159_else_rule (m : Libm) (s : State) (strain : ℚ) (c : Committed) (hc : CommOK c)
    (hci : c.Cinc = 1) (h : Track c 1 (KR AnyR false) s) :
    Post TrialOK (setTrialStrain_L3159_else m s strain) := by
  unfold setTrialStrain_L3159_else
  exact
    post_ite (fun _ =>
        post_ite (fun _ =>
            post_andThen (Track c 1 (KR AnyR false)) (track_keep h (Keeps.krule (r88f_keeps ..))) fun _ h =>
            post_andThen (Track c 1 (KR AnyR false)) (track_keep h (Keeps.krule (RAf_keeps ..))) fun _ h =>
            post_andThen (Track c 1 (KR AnyR false)) (track_keep h (Keeps.krule (fcEturf_keeps ..))) fun _ h =>
            post_andThen (Track c 1 (KR AnyR false)) (track_set h ⟨rfl, rfl, rfl, rfl⟩) fun _ h =>
            post_andThen (Track c 1 (KR AnyR false)) (track_set h ⟨rfl, rfl, rfl, rfl⟩) fun _ h =>
            post_andThen (Track c 1 (KR AnyR false)) (track_set h ⟨rfl, rfl, rfl, rfl⟩) fun _ h =>
            post_andThen (Track c 1 (KR AnyR false)) (track_set h ⟨rfl, rfl, rfl, rfl⟩) fun _ h =>
            post_andThen (Track c 1 (KR AnyR false)) (track_keep h (Keeps.krule (RAf_keeps ..))) fun _ h =>
            post_andThen (Track c 1 (KR AnyR false)) (track_keep h (Keeps.krule (r12f_keeps ..))) fun _ h =>
            post_andThen (Track c 1 (KR (IsRule 12) false)) (track_rule 12 h) fun _ h =>
            post_andThen (Track c 1 (KR (IsRule 12) false)) (track_keep h (Keeps.krule (fcEturf_keeps ..))) fun _ h =>
            post_andThen (Track c 1 (KR (IsRule 12) false)) (track_stress h) fun _ h =>
            final_pos posRule_12 rule_12_ne (track_set h ⟨rfl, rfl, rfl, rfl⟩)
          ) (fun hn2 =>
            post_ite (fun _ =>
                post_andThen (Track c 1 (KR AnyR false)) (track_keep h (Keeps.krule (r88f_keeps ..))) fun _ h =>
                post_andThen (Track c 1 (KR (IsRule 88) false)) (track_rule 88 h) fun _ h =>
                post_andThen (Track c 1 (KR (IsRule 88) false)) (track_keep h (Keeps.krule (RAf_keeps ..))) fun _ h =>
                post_andThen (Track c 1 (KR (IsRule 88) false)) (track_keep h (Keeps.krule (fcEturf_keeps ..))) fun _ h =>
                post_andThen (Track c 1 (KR (IsRule 88) false)) (track_stress h) fun _ h =>
                final_pos posRule_88 rule_88_ne (track_set h ⟨rfl, rfl, rfl, rfl⟩)
              ) (fun hn3 =>
                final_pos26 (fcEtpf_track h)
              )
          )
      ) (fun hn1 =>
        post_ite (fun _ =>
            post_andThen (Track c 1 Rule26) (fcEtpf_track h) fun _ h =>
            post_andThen (Track c 1 Rule26) (track_set h ⟨rfl, rfl, rfl, rfl⟩) fun _ h =>
            post_andThen (Track c 1 Rule26) (track_set h ⟨rfl, rfl, rfl, rfl⟩) fun _ h =>
            post_andThen (Track c 1 Rule26) (track_set h ⟨rfl, rfl, rfl, rfl⟩) fun _ h =>
            post_andThen (Track c 1 Rule26) (track_set h ⟨rfl, rfl, rfl, rfl⟩) fun _ h =>
            post_andThen (Track c 1 Rule26) (track_set h ⟨rfl, rfl, rfl, rfl⟩) fun _ h =>
            post_andThen (Track c 1 Rule26) (track_set h ⟨rfl, rfl, rfl, rfl⟩) fun _ h =>
            post_andThen (Track c 1 Rule26) (track_keep h (Keeps.krule (RAf_keeps ..))) fun _ h =>
            post_andThen (Track c 1 Rule26) (track_keep h (Keeps.krule (r12f_keeps ..))) fun _ h =>
            post_andThen (Track c 1 (KR (IsRule 12) false)) (track_rule_of26 12 h) fun _ h =>
            post_andThen (Track c 1 (KR (IsRule 12) false)) (track_keep h (Keeps.krule (fcEturf_keeps ..))) fun _ h =>
            post_andThen (Track c 1 (KR (IsRule 12) false)) (track_stress h) fun _ h =>
            final_pos posRule_12 rule_12_ne (track_set h ⟨rfl, rfl, rfl, rfl⟩)
          ) (fun hn4 =>
            final_pos26 (fcEtpf_track h)
          )
      )

theorem setTrialStrain_L3157_rule (m : Libm) (s : State) (strain : ℚ) (c : Committed) (hc : CommOK c)
    (hci : c.Cinc = 1) (h : Track c 1 (KR AnyR false) s) :
    Post TrialOK (setTrialStrain_L3157 m s strain) := by
  unfold setTrialStrain_L3157
  exact
    post_ite (fun _ =>
        setTrialStrain_L3159_rule m _ strain c hc hci (h)
      ) (fun hn1 =>
        setTrialStrain_L3159_else_rule m _ strain c hc hci (h)
      )

theorem setTrialStrain_L1871_else_rule (m : Libm) (s : State) (strain : ℚ) (c : Committed) (hc : CommOK c)
    (hci : c.Cinc = 1) (h : Track c 1 (KR AnyR false) s) :
    Post TrialOK (setTrialStrain_L1871_else m s strain) := by
  unfold setTrialStrain_L1871_else
  exact
    post_ite (fun _ =>
        post_ite (fun _ =>
            post_andThen (Track c 1 (KR AnyR false)) (track_keep h (Keeps.krule (r3f_keeps ..))) fun _ h =>
            post_andThen (Track c 1 (KR (IsRule 3) false)) (track_rule 3 h) fun _ h =>
            post_andThen (Track c 1 (KR (IsRule 3) false)) (track_keep h (Keeps.krule (RAf_keeps ..))) fun _ h =>
            post_andThen (Track c 1 (KR (IsRule 3) false)) (track_keep h (Keeps.krule (fcEturf_keeps ..))) fun _ h =>
            post_andThen (Track c 1 (KR (IsRule 3) false)) (track_stress h) fun _ h =>
            final_pos posRule_3 rule_3_ne (track_set h ⟨rfl, rfl, rfl, rfl⟩)
          ) (fun hn2 =>
            post_ite (fun _ =>
                post_andThen (Track c 1 (KR AnyR false)) (track_keep h (Keeps.krule (r9f_keeps ..))) fun _ h =>
                post_andThen (Track c 1 (KR (IsRule 9) false)) (track_rule 9 h) fun _ h =>
                post_andThen (Track c 1 (KR (IsRule 9) false)) (track_keep h (Keeps.krule (RAf_keeps ..))) fun _ h =>
                post_andThen (Track c 1 (KR (IsRule 9) false)) (track_keep h (Keeps.krule (fcEturf_keeps ..))) fun _ h =>
                post_andThen (Track c 1 (KR (IsRule 9) false)) (track_stress h) fun _ h =>
                final_pos posRule_9 rule_9_ne (track_set h ⟨rfl, rfl, rfl, rfl⟩)
              ) (fun hn3 =>
                post_ite (fun _ =>
                    post_andThen (Track c 1 (KR AnyR false)) (track_keep h (Keeps.krule (r8f_keeps ..))) fun _ h =>
                    post_andThen (Track c 1 (KR (IsRule 8) false)) (track_rule 8 h) fun _ h =>
                    post_andThen (Track c 1 (KR (IsRule 8) false)) (track_keep h (Keeps.krule (RAf_keeps ..))) fun _ h =>
                    post_andThen (Track c 1 (KR (IsRule 8) false)) (track_keep h (Keeps.krule (fcEturf_keeps ..))) fun _ h =>
                    post_andThen (Track c 1 (KR (IsRule 8) false)) (track_stress h) fun _ h =>
                    final_pos posRule_8 rule_8_ne (track_set h ⟨rfl, rfl, rfl, rfl⟩)
                  ) (fun hn4 =>
                    final_pos26 (fcEtpf_track h)
                  )
              )
          )
      ) (fun hn1 =>
        post_ite (fun _ =>
            final_pos26 (fcEtpf_track h)
          ) (fun hn5 =>
            post_ite (fun _ =>
                post_andThen (Track c 1 (KR (IsRule 6) true)) (fcEtpr6f_track h) fun _ h =>
                final_pos_zero posRule_6 (track_rule 6 h)
              ) (fun hn6 =>
                post_ite (fun _ =>
                    post_ite (fun _ =>
                        post_andThen (Track c 1 (KR AnyR false)) (track_keep h (Keeps.krule (r88f_keeps ..))) fun _ h =>
                        post_andThen (Track c 1 (KR (IsRule 88) false)) (track_rule 88 h) fun _ h =>
                        post_andThen (Track c 1 (KR (IsRule 88) false)) (track_keep h (Keeps.krule (RAf_keeps ..))) fun _ h =>
                        post_andThen (Track c 1 (KR (IsRule 88) false)) (track_keep h (Keeps.krule (fcEturf_keeps ..))) fun _ h =>
                        post_andThen (Track c 1 (KR (IsRule 88) false)) (track_stress h) fun _ h =>
                        final_pos posRule_88 rule_88_ne (track_set h ⟨rfl, rfl, rfl, rfl⟩)
                      ) (fun hn8 =>
                        final_pos26 (fcEtpf_track h)
                      )
                  ) (fun hn7 =>
                    post_ite (fun _ =>
                        setTrialStrain_L3157_rule m _ strain c hc hci (h)
                      ) (fun hn9 =>
                        post_ite (fun _ =>
                            post_ite (fun _ =>
                                post_andThen (Track c 1 (KR AnyR false)) (track_keep h (Keeps.krule (r14f_keeps ..))) fun _ h =>
                                post_andThen (Track c 1 (KR (IsRule 14) false)) (track_rule 14 h) fun _ h =>
                                post_andThen (Track c 1 (KR (IsRule 14) false)) (track_keep h (Keeps.krule (RAf_keeps ..))) fun _ h =>
                                post_andThen (Track c 1 (KR (IsRule 14) false)) (track_keep h (Keeps.krule (fcEturf_keeps ..))) fun _ h =>
                                post_andThen (Track c 1 (KR (IsRule 14) false)) (track_stress h) fun _ h =>
                                final_pos posRule_14 rule_14_ne (track_set h ⟨rfl, rfl, rfl, rfl⟩)
                              ) (fun hn11 =>
                                post_ite (fun _ =>
                                    post_andThen (Track c 1 (KR AnyR true)) (r66f_track h) fun _ h =>
                                    final_pos_zero posRule_66 (track_rule 66 h)
                                  ) (fun hn12 =>
                                    post_andThen (Track c 1 (KR (IsRule 6) true)) (fcEtpr6f_track h) fun _ h =>
                                    final_pos_zero posRule_6 (track_rule 6 h)
                                  )
                              )
                          ) (fun hn10 =>
                            post_ite (fun _ =>
                                post_ite (fun _ =>
                                    post_andThen (Track c 1 (KR AnyR true)) (r66f_track h) fun _ h =>
                                    final_pos_zero posRule_66 (track_rule 66 h)
                                  ) (fun hn14 =>
                                    post_andThen (Track c 1 (KR (IsRule 6) true)) (fcEtpr6f_track h) fun _ h =>
                                    final_pos_zero posRule_6 (track_rule 6 h)
                                  )
                              ) (fun hn13 =>
                                (fallthrough_setTrialStrain_L1871_else hc hci h hn1 hn5 hn6 hn7 hn9 hn10 hn13).elim
                              )
                          )
                      )
                  )
              )
          )
      )

/-- The statements of lines 310-334 keep the trial stress and tangent and set the trial
rule to the committed one. -/
theorem setTrialStrain_L310_L334_stale (m : Libm) (s : State) (strain : ℚ) :
    Post (fun t => t.T.Tstress = s.T.Tstress ∧ t.T.Ttangent = s.T.Ttangent ∧
        t.T.Trule = s.C.Crule)
      (setTrialStrain_L310_L334 m s strain) := by
  have f := setTrialStrain_L310_L334_frame m s strain
  unfold setTrialStrain_L310_L334 at f ⊢
  refine post_andThen (fun t => t.C = s.C ∧ t.T.Tstress = s.T.Tstress ∧
      t.T.Ttangent = s.T.Ttangent) ?_ fun _ h => ?_
  · split_ifs <;> exact ⟨rfl, rfl, rfl⟩
  · exact
      post_andThen (fun t => t.C = s.C ∧ t.T.Tstress = s.T.Tstress ∧
        t.T.Ttangent = s.T.Ttangent) h fun _ h =>
      post_andThen (fun t => t.C = s.C ∧ t.T.Tstress = s.T.Tstress ∧
        t.T.Ttangent = s.T.Ttangent) h fun _ h =>
      post_andThen (fun t => t.C = s.C ∧ t.T.Tstress = s.T.Tstress ∧
        t.T.Ttangent = s.T.Ttangent) h fun _ h =>
      post_andThen (fun t => t.C = s.C ∧ t.T.Tstress = s.T.Tstress ∧
        t.T.Ttangent = s.T.Ttangent) h fun _ h =>
      post_andThen (fun t => t.C = s.C ∧ t.T.Tstress = s.T.Tstress ∧
        t.T.Ttangent = s.T.Ttangent) h fun _ h =>
      post_andThen (fun t => t.C = s.C ∧ t.T.Tstress = s.T.Tstress ∧
        t.T.Ttangent = s.T.Ttangent) h fun _ h =>
      post_andThen (fun t => t.C = s.C ∧ t.T.Tstress = s.T.Tstress ∧
        t.T.Ttangent = s.T.Ttangent) h fun _ h =>
      post_andThen (fun t => t.C = s.C ∧ t.T.Tstress = s.T.Tstress ∧
        t.T.Ttangent = s.T.Ttangent) h fun _ h =>
      post_andThen (fun t => t.C = s.C ∧ t.T.Tstress = s.T.Tstress ∧
        t.T.Ttangent = s.T.Ttangent) h fun _ h =>
      post_andThen (fun t => t.C = s.C ∧ t.T.Tstress = s.T.Tstress ∧
        t.T.Ttangent = s.T.Ttangent) h fun _ h =>
      post_andThen (fun t => t.C = s.C ∧ t.T.Tstress = s.T.Tstress ∧
        t.T.Ttangent = s.T.Ttangent) h fun _ h =>
      post_andThen (fun t => t.C = s.C ∧ t.T.Tstress = s.T.Tstress ∧
        t.T.Ttangent = s.T.Ttangent) h fun _ h =>
      post_andThen (fun t => t.C = s.C ∧ t.T.Tstress = s.T.Tstress ∧
        t.T.Ttangent = s.T.Ttangent) h fun _ h =>
      post_andThen (fun t => t.C = s.C ∧ t.T.Tstress = s.T.Tstress ∧
        t.T.Ttangent = s.T.Ttangent) h fun x h =>
      ⟨h.2.1, h.2.2, congrArg Committed.Crule h.1⟩

/-- After the statements of lines 310-362 the object has the committed variables it had,
its trial direction is the direction of the trial strain from the committed strain, or the
committed direction when the two strains are equal, and the trial stress, tangent and rule
are not yet assigned. -/
theorem dir_after_L336 (m : Libm) (s : State) (strain : ℚ) :
    Post (fun b => b.C = s.C ∧
        b.T.Tinc = (if b.T.Tstrain > b.C.Cstrain then 1
          else if b.T.Tstrain < b.C.Cstrain then -1 else b.C.Cinc) ∧
        b.T.Tstress = s.T.Tstress ∧ b.T.Ttangent = s.T.Ttangent ∧ b.T.Trule = s.C.Crule)
      (setTrialStrain_L336_L362 m (setTrialStrain_L310_L334 m s strain) strain) := by
  have f := setTrialStrain_L310_L334_frame m s strain
  have i := setTrialStrain_L310_L334_Tinc m s strain
  have st := setTrialStrain_L310_L334_stale m s strain
  have k := setTrialStrain_L336_L362_keeps m (setTrialStrain_L310_L334 m s strain) strain
  refine ⟨k.2.1.trans f.2.1, ?_, ?_, ?_, ?_⟩
  · rw [k.2.2, k.2.1, f.2.1, f.2.2]
    exact i
  · rw [k.2.2]; exact st.1
  · rw [k.2.2]; exact st.2.1
  · rw [k.2.2]; exact st.2.2

/-- The cyclic part of `setTrialStrain` (lines 308-3481): from committed variables that
satisfy `CommOK` with a direction other than 0 it leaves a trial rule that agrees with the
trial direction. -/
theorem setTrialStrain_L276_else_rule (m : Libm) (s : State) (strain : ℚ) (hc : CommOK s.C)
    (h0 : ¬ s.C.Cinc = 0) : Post TrialOK (setTrialStrain_L276_else m s strain) := by
  unfold setTrialStrain_L276_else
  refine post_andThen (fun a => a = setTrialStrain_L310_L334 m s strain) rfl fun a ha => ?_
  refine post_andThen (fun b => b.C = s.C ∧
      b.T.Tinc = (if b.T.Tstrain > b.C.Cstrain then 1
        else if b.T.Tstrain < b.C.Cstrain then -1 else b.C.Cinc)) ?_ fun b hb => ?_
  · rw [ha]
    exact ⟨(dir_after_L336 m s strain).1, (dir_after_L336 m s strain).2.1⟩
  obtain ⟨hC, hd⟩ := hb
  have hcb : CommOK b.C := by rw [hC]; exact hc
  refine post_ite (fun hci => ?_) (fun hci => ?_)
  · unfold setTrialStrain_L365
    refine post_ite (fun hgt => ?_) (fun hgt => ?_)
    · rw [if_pos hgt] at hd
      exact setTrialStrain_L367_rule m b strain b.C hcb hci
        ⟨rfl, hd, trivial, fun e => Bool.noConfusion e⟩
    · rw [if_neg hgt] at hd
      have hd2 : b.T.Tinc = -1 := by
        rw [hd]
        split_ifs
        · rfl
        · exact hci
      exact setTrialStrain_L367_else_rule m b strain b.C hcb hci
        ⟨rfl, hd2, trivial, fun e => Bool.noConfusion e⟩
  · have hci1 : b.C.Cinc = 1 := by
      rcases hcb.1 with ⟨h, _⟩ | ⟨h, _⟩ | ⟨h, _⟩
      · rw [hC] at h; exact absurd h h0
      · exact absurd h hci
      · exact h
    unfold setTrialStrain_L365_else
    refine post_ite (fun hlt => ?_) (fun hlt => ?_)
    · have hgt : ¬ b.T.Tstrain > b.C.Cstrain := not_lt.2 (le_of_lt hlt)
      rw [if_neg hgt, if_pos hlt] at hd
      exact setTrialStrain_L1871_rule m b strain b.C hcb hci1
        ⟨rfl, hd, trivial, fun e => Bool.noConfusion e⟩
    · have hd2 : b.T.Tinc = 1 := by
        rw [hd, if_neg hlt]
        split_ifs
        · rfl
        · exact hci1
      exact setTrialStrain_L1871_else_rule m b strain b.C hcb hci1
        ⟨rfl, hd2, trivial, fun e => Bool.noConfusion e⟩

theorem track_start (x : State) : Track x.C x.T.Tinc (KR AnyR false) x :=
  ⟨rfl, rfl, trivial, fun e => Bool.noConfusion e⟩

/-- A first loading (lines 244-273 and 277-306) leaves a trial rule that agrees with the
trial direction. -/
theorem first_loading_rule (m : Libm) (z : State) :
    Post TrialOK
      (andThen (
        if z.T.Tstrain < 0 then
          andThen (fcEtnf m z z.T.Tstrain) fun s =>
          s.set_Tinc (-1)
        else if z.T.Tstrain > 0 then
          andThen (fcEtpf m z z.T.Tstrain z.C.Ce0) fun s =>
          s.set_Tinc 1
        else
          andThen (z.set_Tstress 0) fun s =>
          andThen (s.set_Ttangent s.par.Ec) fun s =>
          andThen (s.set_Trule 0) fun s =>
          s.set_Tinc 0
      ) fun s =>
      andThen (s.set_Teunn 0) fun s =>
      andThen (s.set_Tfunn 0) fun s =>
      andThen (s.set_Teunp 0) fun s =>
      andThen (s.set_Tfunp 0) fun s =>
      andThen (s.set_Ter 0) fun s =>
      andThen (s.set_Tfr 0) fun s =>
      andThen (s.set_Ter0n 0) fun s =>
      andThen (s.set_Tfr0n 0) fun s =>
      andThen (s.set_Ter0p 0) fun s =>
      andThen (s.set_Tfr0p 0) fun s =>
      andThen (s.set_Te0 0) fun s =>
      andThen (s.set_Tea 0) fun s =>
      andThen (s.set_Teb 0) fun s =>
      s.set_Ted 0) := by
  refine post_andThen TrialOK ?_ fun t ht => ?_
  · show Post TrialOK _
    refine post_ite (fun _ => ?_) (fun _ => ?_)
    · refine post_andThen (Track z.C z.T.Tinc (KR Rule15R false))
        (fcEtnf_track (track_start z)) fun x h => ?_
      exact final_neg15 (⟨h.1, rfl, h.2.2⟩ : Track z.C (-1) (KR Rule15R false) (x.set_Tinc (-1)))
    refine post_ite (fun _ => ?_) (fun _ => ?_)
    · refine post_andThen (Track z.C z.T.Tinc Rule26)
        (fcEtpf_track (track_start z)) fun x h => ?_
      exact final_pos26 (⟨h.1, rfl, h.2.2⟩ : Track z.C 1 Rule26 (x.set_Tinc 1))
    · exact ⟨Or.inl ⟨rfl, rfl⟩, fun _ => rfl⟩
  · obtain ⟨⟨h1, _, h3, h4⟩, _⟩ := first_loading_tail t
    refine ⟨?_, ?_⟩
    · rw [h3, h4]; exact ht.1
    · rw [h3, h1]; exact ht.2

/-- `setTrialStrain` leaves a trial rule that agrees with the trial direction when the
committed rule agrees with the committed direction. -/
theorem setTrialStrain_trialOK (m : Libm) (s : State) (strain : ℚ) (hc : CommittedOK s) :
    TrialOK (setTrialStrain m s strain) := by
  unfold setTrialStrain
  show Post TrialOK _
  refine post_andThen (fun z => z.C = s.C) ?_ fun z hz => ?_
  · rw [revertToLastCommit_eq]
  refine post_andThen (fun z => z.C = s.C) hz fun z hz => ?_
  refine post_ite (fun _ => first_loading_rule m z) (fun _ => ?_)
  refine post_ite (fun _ => first_loading_rule m z) (fun h0 => ?_)
  exact setTrialStrain_L276_else_rule m z strain (by rw [hz]; exact hc) h0

/-- Every object that a constructor, `setTrialStrain` and `commitState` produce has a
trial rule that agrees with the trial direction and a committed rule that agrees with the
committed direction, with the stress 0 on the rules 6 and 66. -/
theorem reachable_ok (m : Libm) (t : State) (h : Reachable m t) : TrialOK t ∧ CommittedOK t := by
  induction h with
  | construct tag FPCC EPCC EC RC XCRN FT ET RT XCRP MON GAP u =>
    obtain ⟨hC, hT⟩ := construct_state tag FPCC EPCC EC RC XCRN FT ET RT XCRP MON GAP u
    unfold TrialOK CommittedOK CommOK
    rw [hC, hT]
    exact ⟨⟨Or.inl ⟨rfl, rfl⟩, fun _ => rfl⟩, Or.inl ⟨rfl, rfl⟩, fun _ => rfl⟩
  | setTrialStrain s strain _ ih =>
    refine ⟨setTrialStrain_trialOK m s strain ih.2, ?_⟩
    unfold CommittedOK
    rw [(setTrialStrain_frame m s strain).2.1]
    exact ih.2
  | commitState s _ ih =>
    unfold TrialOK CommittedOK CommOK
    rw [commitState_eq]
    exact ⟨ih.1, ih.1⟩

/-- On committed variables that satisfy `CommOK` with a direction other than 0, one of
the conditions of the `if` chain over `Crule` holds. -/
theorem CommOK.dispatched {s : State} (hc : CommOK s.C) (h0 : s.C.Cinc ≠ 0) (strain : ℚ) :
    Dispatched s strain := by
  unfold Dispatched
  by_cases hci : s.C.Cinc = -1
  · rw [if_pos hci]
    have hn := hc.neg hci
    unfold NegRule at hn
    split_ifs <;> tauto
  · rw [if_neg hci]
    have hci1 : s.C.Cinc = 1 := by
      rcases hc.1 with ⟨h, _⟩ | ⟨h, _⟩ | ⟨h, _⟩
      · exact absurd h h0
      · exact absurd h hci
      · exact h
    have hn := hc.pos hci1
    have hz := hc.2
    unfold PosRule at hn
    split_ifs
    · by_cases h6 : s.C.Crule = 6 ∨ s.C.Crule = 66
      · exact Or.inl (fabs_eq_zero (hz h6))
      · tauto
    · tauto
theorem setTrialStrain_L367_falls (m : Libm) (b : State) (strain : ℚ)
    (h : ¬ ((b.C.Crule = 1 ∨ b.C.Crule = 5 ∨ b.C.Crule = 7) ∨ b.C.Crule = 10 ∨ b.C.Crule = 11 ∨
      (b.C.Crule = 13 ∨ b.C.Crule = 15) ∨ b.C.Crule = 4 ∨ b.C.Crule = 77)) :
    setTrialStrain_L367 m b strain = b := by
  unfold setTrialStrain_L367
  rw [if_neg (fun e => h (Or.inl e)), if_neg (fun e => h (Or.inr (Or.inl e))),
    if_neg (fun e => h (Or.inr (Or.inr (Or.inl e)))),
    if_neg (fun e => h (Or.inr (Or.inr (Or.inr (Or.inl e))))),
    if_neg (fun e => h (Or.inr (Or.inr (Or.inr (Or.inr (Or.inl e)))))),
    if_neg (fun e => h (Or.inr (Or.inr (Or.inr (Or.inr (Or.inr e))))))]

theorem setTrialStrain_L367_else_falls (m : Libm) (b : State) (strain : ℚ)
    (h : ¬ ((b.C.Crule = 4 ∨ b.C.Crule = 10 ∨ b.C.Crule = 7) ∨ (b.C.Crule = 1 ∨ b.C.Crule = 5) ∨
      b.C.Crule = 77 ∨ b.C.Crule = 13 ∨ b.C.Crule = 11 ∨ b.C.Crule = 15)) :
    setTrialStrain_L367_else m b strain = b := by
  unfold setTrialStrain_L367_else
  rw [if_neg (fun e => h (Or.inl e)), if_neg (fun e => h (Or.inr (Or.inl e))),
    if_neg (fun e => h (Or.inr (Or.inr (Or.inl e)))),
    if_neg (fun e => h (Or.inr (Or.inr (Or.inr (Or.inl e))))),
    if_neg (fun e => h (Or.inr (Or.inr (Or.inr (Or.inr (Or.inl e)))))),
    if_neg (fun e => h (Or.inr (Or.inr (Or.inr (Or.inr (Or.inr e))))))]

theorem setTrialStrain_L1871_falls (m : Libm) (b : State) (strain : ℚ)
    (h : ¬ ((fabs b.C.Cstress) = 0 ∨ (b.C.Crule = 2 ∨ b.C.Crule = 8) ∨ b.C.Crule = 9 ∨
      b.C.Crule = 12 ∨ b.C.Crule = 14 ∨ b.C.Crule = 3 ∨ b.C.Crule = 88)) :
    setTrialStrain_L1871 m b strain = b := by
  unfold setTrialStrain_L1871
  rw [if_neg (fun e => h (Or.inl e)), if_neg (fun e => h (Or.inr (Or.inl e))),
    if_neg (fun e => h (Or.inr (Or.inr (Or.inl e)))),
    if_neg (fun e => h (Or.inr (Or.inr (Or.inr (Or.inl e))))),
    if_neg (fun e => h (Or.inr (Or.inr (Or.inr (Or.inr (Or.inl e)))))),
    if_neg (fun e => h (Or.inr (Or.inr (Or.inr (Or.inr (Or.inr (Or.inl e))))))),
    if_neg (fun e => h (Or.inr (Or.inr (Or.inr (Or.inr (Or.inr (Or.inr e)))))))]

theorem setTrialStrain_L1871_else_falls (m : Libm) (b : State) (strain : ℚ)
    (h : ¬ ((b.C.Crule = 3 ∨ b.C.Crule = 9 ∨ b.C.Crule = 8) ∨ b.C.Crule = 2 ∨ b.C.Crule = 6 ∨
      b.C.Crule = 88 ∨ b.C.Crule = 12 ∨ b.C.Crule = 14 ∨ b.C.Crule = 66)) :
    setTrialStrain_L1871_else m b strain = b := by
  unfold setTrialStrain_L1871_else
  rw [if_neg (fun e => h (Or.inl e)), if_neg (fun e => h (Or.inr (Or.inl e))),
    if_neg (fun e => h (Or.inr (Or.inr (Or.inl e)))),
    if_neg (fun e => h (Or.inr (Or.inr (Or.inr (Or.inl e))))),
    if_neg (fun e => h (Or.inr (Or.inr (Or.inr (Or.inr (Or.inl e)))))),
    if_neg (fun e => h (Or.inr (Or.inr (Or.inr (Or.inr (Or.inr (Or.inl e))))))),
    if_neg (fun e => h (Or.inr (Or.inr (Or.inr (Or.inr (Or.inr (Or.inr e)))))))]

/-- Without a condition of the `if` chain over `Crule` the cyclic part of `setTrialStrain`
assigns neither the trial stress nor the trial tangent: they keep the committed values
that `revertToLastCommit` has given them, and the trial rule is the committed one. -/
theorem setTrialStrain_not_dispatched (m : Libm) (s : State) (strain : ℚ)
    (hm : ¬ s.par.mon = 1) (h0 : ¬ s.C.Cinc = 0) (hd : ¬ Dispatched s strain) :
    (setTrialStrain m s strain).T.Tstress = s.C.Cstress ∧
    (setTrialStrain m s strain).T.Ttangent = s.C.Ctangent ∧
    (setTrialStrain m s strain).T.Trule = s.C.Crule := by
  unfold setTrialStrain
  show Post (fun t => t.T.Tstress = s.C.Cstress ∧ t.T.Ttangent = s.C.Ctangent ∧
    t.T.Trule = s.C.Crule) _
  refine post_andThen (fun z => z.par = s.par ∧ z.C = s.C ∧ z.T.Tstress = s.C.Cstress ∧
    z.T.Ttangent = s.C.Ctangent) ?_ fun z hz => ?_
  · rw [revertToLastCommit_eq]
    exact ⟨rfl, rfl, rfl, rfl⟩
  refine post_andThen (fun z => z.par = s.par ∧ z.C = s.C ∧ z.T.Tstress = s.C.Cstress ∧
    z.T.Ttangent = s.C.Ctangent ∧ z.T.Tstrain = strain) ⟨hz.1, hz.2.1, hz.2.2.1, hz.2.2.2, rfl⟩
    fun z hz => ?_
  obtain ⟨hp, hC, h1, h2, h3⟩ := hz
  rw [if_neg (by rw [hp]; exact hm), if_neg (by rw [hC]; exact h0)]
  unfold setTrialStrain_L276_else
  refine post_andThen (fun a => a = setTrialStrain_L310_L334 m z strain) rfl fun a ha => ?_
  have f := setTrialStrain_L310_L334_frame m z strain
  have k := setTrialStrain_L336_L362_keeps m (setTrialStrain_L310_L334 m z strain) strain
  refine post_andThen (fun b => b.C = s.C ∧ b.T.Tstrain = strain ∧
      b.T.Tstress = s.C.Cstress ∧ b.T.Ttangent = s.C.Ctangent ∧ b.T.Trule = s.C.Crule)
    ?_ fun b hb => ?_
  · rw [ha]
    obtain ⟨d1, _, d3, d4, d5⟩ := dir_after_L336 m z strain
    refine ⟨d1.trans hC, ?_, d3.trans h1, d4.trans h2, d5.trans (by rw [hC])⟩
    rw [k.2.2, f.2.2]; exact h3
  obtain ⟨bC, bs, b1, b2, b3⟩ := hb
  unfold Dispatched at hd
  rw [← bC, ← bs] at hd
  show Post _ (if b.C.Cinc = -1 then _ else _)
  by_cases hci : b.C.Cinc = -1
  · rw [if_pos hci] at hd ⊢
    unfold setTrialStrain_L365
    by_cases hgt : b.T.Tstrain > b.C.Cstrain
    · rw [if_pos hgt] at hd ⊢
      rw [setTrialStrain_L367_falls m b strain hd]
      exact ⟨b1, b2, b3⟩
    · rw [if_neg hgt] at hd ⊢
      rw [setTrialStrain_L367_else_falls m b strain hd]
      exact ⟨b1, b2, b3⟩
  · rw [if_neg hci] at hd ⊢
    unfold setTrialStrain_L365_else
    by_cases hlt : b.T.Tstrain < b.C.Cstrain
    · rw [if_pos hlt] at hd ⊢
      rw [setTrialStrain_L1871_falls m b strain hd]
      exact ⟨b1, b2, b3⟩
    · rw [if_neg hlt] at hd ⊢
      rw [setTrialStrain_L1871_else_falls m b strain hd]
      exact ⟨b1, b2, b3⟩

/-- C25. Cyclic model, the dispatch is exhaustive on reachable objects: every object `t`
that a constructor with input parameters (any `mon` and `Gap`), `setTrialStrain` and
`commitState` produce has `Tinc = 0` and `Trule = 0`, or `Tinc = -1` and `Trule` in
`{1, 5, 4, 10, 7, 11, 13, 15, 77}`, or `Tinc = 1` and `Trule` in
`{2, 6, 3, 9, 8, 12, 14, 66, 88}`; the same holds of its committed direction and rule; its
trial stress is 0 on the rules 6 and 66; and when the committed direction is not 0, so that
the next call of `setTrialStrain` is a cyclic one, then for every trial strain one of the
conditions of the `if` chain over `Crule` that the call reaches holds, so that the call
runs one of the branches of the chain. -/
theorem dispatch_exhaustive_on_reachable (m : Libm) (t : State) (h : Reachable m t) :
    RuleClass t.T.Tinc t.T.Trule ∧ RuleClass t.C.Cinc t.C.Crule ∧
    ((t.T.Trule = 6 ∨ t.T.Trule = 66) → t.T.Tstress = 0) ∧
    (∀ strain : ℚ, t.C.Cinc ≠ 0 → Dispatched t strain) :=
  ⟨(reachable_ok m t h).1.1, (reachable_ok m t h).2.1, (reachable_ok m t h).1.2,
    fun strain h0 => (reachable_ok m t h).2.dispatched h0 strain⟩

/-- Witness of C25: the specimen after the committed strain `-0.003`. -/
theorem dispatch_exhaustive_on_reachable_witness :
    Reachable Libm.sample (commitState (setTrialStrain Libm.sample specimen (-0.003))) ∧
    (RuleClass (commitState (setTrialStrain Libm.sample specimen (-0.003))).T.Tinc
        (commitState (setTrialStrain Libm.sample specimen (-0.003))).T.Trule ∧
      RuleClass (commitState (setTrialStrain Libm.sample specimen (-0.003))).C.Cinc
        (commitState (setTrialStrain Libm.sample specimen (-0.003))).C.Crule ∧
      (((commitState (setTrialStrain Libm.sample specimen (-0.003))).T.Trule = 6 ∨
        (commitState (setTrialStrain Libm.sample specimen (-0.003))).T.Trule = 66) →
        (commitState (setTrialStrain Libm.sample specimen (-0.003))).T.Tstress = 0) ∧
      (∀ strain : ℚ, (commitState (setTrialStrain Libm.sample specimen (-0.003))).C.Cinc ≠ 0 →
        Dispatched (commitState (setTrialStrain Libm.sample specimen (-0.003))) strain)) :=
  ⟨Reachable.commitState _ (Reachable.setTrialStrain _ _
      (Reachable.construct 1 (-30) (-0.002) 30000 7 2 3 0.0001 2 3 0 0 State.zero)),
    dispatch_exhaustive_on_reachable Libm.sample _
      (Reachable.commitState _ (Reachable.setTrialStrain _ _
        (Reachable.construct 1 (-30) (-0.002) 30000 7 2 3 0.0001 2 3 0 0 State.zero)))⟩

/-- The specimen after the committed strain `-0.003` is on rule 1 in the negative
direction, and a trial strain above it is assigned rule 3 in the positive direction. -/
theorem dispatch_example :
    (commitState (setTrialStrain Libm.sample specimen (-0.003))).C.Cinc = -1 ∧
    (commitState (setTrialStrain Libm.sample specimen (-0.003))).C.Crule = 1 ∧
    (setTrialStrain Libm.sample (commitState (setTrialStrain Libm.sample specimen (-0.003)))
      (-0.002)).T.Tinc = 1 ∧
    (setTrialStrain Libm.sample (commitState (setTrialStrain Libm.sample specimen (-0.003)))
      (-0.002)).T.Trule = 3 := by
  decide!
/-- The envelope evaluation that opens the monotonic-only branch (lines 244-257). -/
theorem monotonic_envelope (m : Libm) (s : State) (e : ℚ) (z : State)
    (hp : z.par = s.par) (hC : z.C = s.C) (hz : z.T.Tstrain = e) :
    Post (MonotonicResponse m s e)
      (if z.T.Tstrain < 0 then
          andThen (fcEtnf m z z.T.Tstrain) fun s =>
          s.set_Tinc (-1)
        else if z.T.Tstrain > 0 then
          andThen (fcEtpf m z z.T.Tstrain z.C.Ce0) fun s =>
          s.set_Tinc 1
        else
          andThen (z.set_Tstress 0) fun s =>
          andThen (s.set_Ttangent s.par.Ec) fun s =>
          andThen (s.set_Trule 0) fun s =>
          s.set_Tinc 0) := by
  rw [hz, hC]
  refine post_ite (fun hn => ?_) fun hn => post_ite (fun hpos => ?_) fun hpos => ?_
  · have c := fcEtnf_congr m s z e hp
    exact ⟨fun _ => ⟨c.1, c.2.1, c.2.2⟩, fun h => absurd hn (not_lt.2 h.le),
      fun h => absurd hn (by rw [h]; exact lt_irrefl 0)⟩
  · have c := fcEtpf_congr m s z e s.C.Ce0 hp
    exact ⟨fun h => absurd h hn, fun _ => ⟨c.1, c.2.1, c.2.2⟩,
      fun h => absurd hpos (by rw [h]; exact lt_irrefl 0)⟩
  · exact ⟨fun h => absurd h hn, fun h => absurd h hpos,
      fun _ => ⟨rfl, congrArg Params.Ec hp, rfl⟩⟩

/-- With `mon = 1`, `setTrialStrain` stores the response of the monotonic envelopes and
sets the fourteen trial history variables to zero. -/
theorem setTrialStrain_monotonic (m : Libm) (s : State) (e : ℚ) (hm : s.par.mon = 1) :
    Post (fun t => MonotonicResponse m s e t ∧ HistoryZero t) (setTrialStrain m s e) := by
  unfold setTrialStrain
  refine post_andThen (fun y => y.par = s.par ∧ y.C = s.C) ?_ fun y hy => ?_
  · rw [revertToLastCommit_eq]; exact ⟨rfl, rfl⟩
  refine post_andThen (fun z => z.par = s.par ∧ z.C = s.C ∧ z.T.Tstrain = e)
    ⟨hy.1, hy.2, rfl⟩ fun z hz => ?_
  have tail : ∀ t : State, MonotonicResponse m s e t →
      Post (fun r => MonotonicResponse m s e r ∧ HistoryZero r)
        (andThen (t.set_Teunn 0) fun s =>
        andThen (s.set_Tfunn 0) fun s =>
        andThen (s.set_Teunp 0) fun s =>
        andThen (s.set_Tfunp 0) fun s =>
        andThen (s.set_Ter 0) fun s =>
        andThen (s.set_Tfr 0) fun s =>
        andThen (s.set_Ter0n 0) fun s =>
        andThen (s.set_Tfr0n 0) fun s =>
        andThen (s.set_Ter0p 0) fun s =>
        andThen (s.set_Tfr0p 0) fun s =>
        andThen (s.set_Te0 0) fun s =>
        andThen (s.set_Tea 0) fun s =>
        andThen (s.set_Teb 0) fun s =>
        s.set_Ted 0) := by
    intro t ht
    obtain ⟨⟨e1, e2, e3, e4⟩, hz0⟩ := first_loading_tail t
    refine ⟨⟨fun h => ?_, fun h => ?_, fun h => ?_⟩, hz0⟩
    · rw [e1, e2, e3]; exact ht.1 h
    · rw [e1, e2, e3]; exact ht.2.1 h
    · rw [e1, e2, e3]; exact ht.2.2 h
  refine post_ite (fun _ => ?_) fun hc => ?_
  · exact post_andThen (MonotonicResponse m s e)
      (monotonic_envelope m s e z hz.1 hz.2.1 hz.2.2) tail
  · rw [hz.1] at hc
    exact absurd hm hc

/-- On every object that a constructor, `setTrialStrain` and `commitState` produce, the
input parameters are those of a constructor call; with `mon = 1` the committed and the trial
tension shift `Ce0`, `Te0` are zero. -/
theorem reachable_monotonic (m : Libm) (t : State) (h : Reachable m t) :
    t.par.mon = 1 → t.C.Ce0 = 0 ∧ t.T.Te0 = 0 := by
  induction h with
  | construct tag FPCC EPCC EC RC XCRN FT ET RT XCRP MON GAP u =>
    intro _
    obtain ⟨a, b⟩ := construct_state tag FPCC EPCC EC RC XCRN FT ET RT XCRP MON GAP u
    rw [a, b]
    exact ⟨rfl, rfl⟩
  | setTrialStrain s strain _ ih =>
    intro hm
    obtain ⟨f1, f2, _⟩ := setTrialStrain_frame m s strain
    rw [f1] at hm
    have k := setTrialStrain_monotonic m s strain hm
    refine ⟨?_, k.2.2.2.2.2.2.2.2.2.2.2.1⟩
    rw [f2]
    exact (ih hm).1
  | commitState s _ ih =>
    intro hm
    rw [commitState_eq] at hm ⊢
    exact ⟨(ih hm).2, (ih hm).2⟩

/-- The input parameters of an object are those it was constructed with. -/
theorem construct_par (p : Params) (u : State) :
    (construct p.tag p.fpcc p.epcc p.Ec p.rc p.xcrn p.ft p.et p.rt p.xcrp p.mon p.Gap u).par = p ∧
    (construct p.tag p.fpcc p.epcc p.Ec p.rc p.xcrn p.ft p.et p.rt p.xcrp p.mon p.Gap u).C.Ce0
      = 0 := by
  obtain ⟨a, b⟩ := construct_eq p.tag p.fpcc p.epcc p.Ec p.rc p.xcrn p.ft p.et p.rt p.xcrp
    p.mon p.Gap u
  rw [a, b]
  exact ⟨rfl, rfl⟩

/-- C36. Cyclic model, monotonic-only mode.  Let `t` be an object that a constructor,
`setTrialStrain` and `commitState` have produced, with `mon = 1`.  For every trial strain
`e` the stress, the tangent and the rule that `setTrialStrain(e)` stores in `t` are those
it stores in an instance fresh from the constructor with the parameters of `t` (in any
storage `u`), and after the call the fourteen trial history variables `Teunn`, `Tfunn`,
`Teunp`, `Tfunp`, `Ter`, `Tfr`, `Ter0n`, `Tfr0n`, `Ter0p`, `Tfr0p`, `Te0`, `Tea`, `Teb`,
`Ted` of `t` are 0. -/
theorem monotonic_mode_is_path_independent (m : Libm) (t : State) (h : Reachable m t)
    (hm : t.par.mon = 1) (e : ℚ) (u : State) :
    getStress (setTrialStrain m t e)
      = getStress (setTrialStrain m (construct t.par.tag t.par.fpcc t.par.epcc t.par.Ec
          t.par.rc t.par.xcrn t.par.ft t.par.et t.par.rt t.par.xcrp t.par.mon t.par.Gap u) e) ∧
    getTangent (setTrialStrain m t e)
      = getTangent (setTrialStrain m (construct t.par.tag t.par.fpcc t.par.epcc t.par.Ec
          t.par.rc t.par.xcrn t.par.ft t.par.et t.par.rt t.par.xcrp t.par.mon t.par.Gap u) e) ∧
    (setTrialStrain m t e).T.Trule
      = (setTrialStrain m (construct t.par.tag t.par.fpcc t.par.epcc t.par.Ec
          t.par.rc t.par.xcrn t.par.ft t.par.et t.par.rt t.par.xcrp t.par.mon t.par.Gap u)
          e).T.Trule ∧
    ((setTrialStrain m t e).T.Teunn = 0 ∧ (setTrialStrain m t e).T.Tfunn = 0 ∧
      (setTrialStrain m t e).T.Teunp = 0 ∧ (setTrialStrain m t e).T.Tfunp = 0 ∧
      (setTrialStrain m t e).T.Ter = 0 ∧ (setTrialStrain m t e).T.Tfr = 0 ∧
      (setTrialStrain m t e).T.Ter0n = 0 ∧ (setTrialStrain m t e).T.Tfr0n = 0 ∧
      (setTrialStrain m t e).T.Ter0p = 0 ∧ (setTrialStrain m t e).T.Tfr0p = 0 ∧
      (setTrialStrain m t e).T.Te0 = 0 ∧ (setTrialStrain m t e).T.Tea = 0 ∧
      (setTrialStrain m t e).T.Teb = 0 ∧ (setTrialStrain m t e).T.Ted = 0) := by
  obtain ⟨hp, h0⟩ := construct_par t.par u
  generalize construct t.par.tag t.par.fpcc t.par.epcc t.par.Ec t.par.rc t.par.xcrn t.par.ft
    t.par.et t.par.rt t.par.xcrp t.par.mon t.par.Gap u = s0 at hp h0
  have hm0 : s0.par.mon = 1 := by rw [hp]; exact hm
  obtain ⟨⟨a1, a2, a3⟩, az⟩ := setTrialStrain_monotonic m t e hm
  obtain ⟨⟨b1, b2, b3⟩, _⟩ := setTrialStrain_monotonic m s0 e hm0
  have hc : t.C.Ce0 = 0 := (reachable_monotonic m t h hm).1
  have cn := fcEtnf_congr m t s0 e hp
  have cp := fcEtpf_congr m t s0 e 0 hp
  rw [hc] at a2
  rw [h0] at b2
  refine ⟨?_, ?_, ?_, az⟩
  · show (setTrialStrain m t e).T.Tstress = (setTrialStrain m s0 e).T.Tstress
    rcases lt_trichotomy e 0 with hn | hz | hg
    · rw [(a1 hn).1, (b1 hn).1, cn.1]
    · rw [(a3 hz).1, (b3 hz).1]
    · rw [(a2 hg).1, (b2 hg).1, cp.1]
  · show (setTrialStrain m t e).T.Ttangent = (setTrialStrain m s0 e).T.Ttangent
    rcases lt_trichotomy e 0 with hn | hz | hg
    · rw [(a1 hn).2.1, (b1 hn).2.1, cn.2.1]
    · rw [(a3 hz).2.1, (b3 hz).2.1, hp]
    · rw [(a2 hg).2.1, (b2 hg).2.1, cp.2.1]
  · rcases lt_trichotomy e 0 with hn | hz | hg
    · rw [(a1 hn).2.2, (b1 hn).2.2, cn.2.2]
    · rw [(a3 hz).2.2, (b3 hz).2.2]
    · rw [(a2 hg).2.2, (b2 hg).2.2, cp.2.2]

/-- Method `commitState` leaves the input parameters as they are. -/
theorem commitState_par (s : State) : (commitState s).par = s.par := by
  rw [commitState_eq]

/-- The object `monHistory` is produced by a constructor, `setTrialStrain` and
`commitState`, and has `mon = 1`. -/
theorem monHistory_reachable : Reachable Libm.sample monHistory ∧ monHistory.par.mon = 1 := by
  unfold monHistory
  constructor
  · apply Reachable.commitState
    apply Reachable.setTrialStrain
    apply Reachable.commitState
    apply Reachable.setTrialStrain
    exact Reachable.construct 1 (-30) (-0.002) 30000 7 2 3 0.0001 2 3 1 0 State.zero
  · rw [commitState_par, (setTrialStrain_frame _ _ _).1, commitState_par,
      (setTrialStrain_frame _ _ _).1]
    unfold monSpecimen newMon
    rw [(construct_eq _ _ _ _ _ _ _ _ _ _ _ _ _).1]

/-- Witness of C36: the monotonic-only specimen after the committed strains `-0.003`,
`0.0002`, at the trial strain `-0.0015`. -/
theorem monotonic_mode_is_path_independent_witness :
    (Reachable Libm.sample monHistory ∧ monHistory.par.mon = 1) ∧
    (getStress (setTrialStrain Libm.sample monHistory (-0.0015))
      = getStress (setTrialStrain Libm.sample (construct monHistory.par.tag
          monHistory.par.fpcc monHistory.par.epcc monHistory.par.Ec monHistory.par.rc
          monHistory.par.xcrn monHistory.par.ft monHistory.par.et monHistory.par.rt
          monHistory.par.xcrp monHistory.par.mon monHistory.par.Gap State.zero) (-0.0015)) ∧
    getTangent (setTrialStrain Libm.sample monHistory (-0.0015))
      = getTangent (setTrialStrain Libm.sample (construct monHistory.par.tag
          monHistory.par.fpcc monHistory.par.epcc monHistory.par.Ec monHistory.par.rc
          monHistory.par.xcrn monHistory.par.ft monHistory.par.et monHistory.par.rt
          monHistory.par.xcrp monHistory.par.mon monHistory.par.Gap State.zero) (-0.0015)) ∧
    (setTrialStrain Libm.sample monHistory (-0.0015)).T.Trule
      = (setTrialStrain Libm.sample (construct monHistory.par.tag
          monHistory.par.fpcc monHistory.par.epcc monHistory.par.Ec monHistory.par.rc
          monHistory.par.xcrn monHistory.par.ft monHistory.par.et monHistory.par.rt
          monHistory.par.xcrp monHistory.par.mon monHistory.par.Gap State.zero)
          (-0.0015)).T.Trule ∧
    ((setTrialStrain Libm.sample monHistory (-0.0015)).T.Teunn = 0 ∧
      (setTrialStrain Libm.sample monHistory (-0.0015)).T.Tfunn = 0 ∧
      (setTrialStrain Libm.sample monHistory (-0.0015)).T.Teunp = 0 ∧
      (setTrialStrain Libm.sample monHistory (-0.0015)).T.Tfunp = 0 ∧
      (setTrialStrain Libm.sample monHistory (-0.0015)).T.Ter = 0 ∧
      (setTrialStrain Libm.sample monHistory (-0.0015)).T.Tfr = 0 ∧
      (setTrialStrain Libm.sample monHistory (-0.0015)).T.Ter0n = 0 ∧
      (setTrialStrain Libm.sample monHistory (-0.0015)).T.Tfr0n = 0 ∧
      (setTrialStrain Libm.sample monHistory (-0.0015)).T.Ter0p = 0 ∧
      (setTrialStrain Libm.sample monHistory (-0.0015)).T.Tfr0p = 0 ∧
      (setTrialStrain Libm.sample monHistory (-0.0015)).T.Te0 = 0 ∧
      (setTrialStrain Libm.sample monHistory (-0.0015)).T.Tea = 0 ∧
      (setTrialStrain Libm.sample monHistory (-0.0015)).T.Teb = 0 ∧
      (setTrialStrain Libm.sample monHistory (-0.0015)).T.Ted = 0)) :=
  ⟨monHistory_reachable,
    monotonic_mode_is_path_independent Libm.sample monHistory monHistory_reachable.1
      monHistory_reachable.2 (-0.0015) State.zero⟩

/-- The monotonic-only specimen at the trial strain `-0.0015`, fresh and after the
committed strains `-0.003` and `0.0002`: the stress `-1474560/53977` by rule 1 both
times. -/
theorem monotonic_mode_values :
    getStress (setTrialStrain Libm.sample monSpecimen (-0.0015)) = -1474560 / 53977 ∧
    (setTrialStrain Libm.sample monSpecimen (-0.0015)).T.Trule = 1 ∧
    getStress (setTrialStrain Libm.sample monHistory (-0.0015)) = -1474560 / 53977 ∧
    (setTrialStrain Libm.sample monHistory (-0.0015)).T.Trule = 1 := by
  decide!

/-- The specimen with `mon = 0` after the committed strains `-0.003` and `0.0002` is, at
the trial strain `-0.0015`, on rule 13 with the stress `-26299/5800`: its response depends
on the history. -/
theorem cyclic_mode_values :
    getStress (setTrialStrain Libm.sample
      (afterHistory Libm.sample specimen [-0.003, 0.0002]) (-0.0015)) = -26299 / 5800 ∧
    (setTrialStrain Libm.sample
      (afterHistory Libm.sample specimen [-0.003, 0.0002]) (-0.0015)).T.Trule = 13 := by
  decide!
/-- The C function `fabs` is the absolute value. -/
theorem fabs_eq_abs (x : ℚ) : fabs x = |x| := by
  unfold fabs
  split_ifs with h
  · exact (abs_of_neg h).symm
  · exact (abs_of_nonneg (not_lt.1 h)).symm

/-- The stress of rule 1 for the `nn` and `rc` of `fcEtnf`, branch by branch. -/
theorem r1f_stress (m : Libm) (s : State) (x : ℚ) :
    (r1f m s x (fcEtnf_nn s) s.par.rc).T.Tstress =
      if x < s.par.xcrn then s.par.fpcc * (yf m s x (fcEtnf_nn s) s.par.rc).w.y
      else s.par.fpcc * (fcEtnf_y m s + fcEtnf_nn s * fcEtnf_z m s * (x - s.par.xcrn)) := by
  rcases s with ⟨par, C, T, w⟩
  simp only [r1f, yf, zf, andThen, State.set_y, State.set_z, State.set_Tstress,
    State.set_Ttangent, fcEtnf_y, fcEtnf_z, fcEtnf_nn]
  split_ifs <;> rfl

/-- The spalling ratio, the stress and the rule that `fcEtnf` computes. -/
theorem fcEtnf_eval (m : Libm) (s : State) (e : ℚ) :
    (fcEtnf m s e).w.xsp = fcEtnf_xsp m s ∧
    (fcEtnf m s e).T.Tstress =
      (if fabs (e / s.par.epcc) ≤ fcEtnf_xsp m s then
        (r1f m s (fabs (e / s.par.epcc)) (fcEtnf_nn s) s.par.rc).T.Tstress
      else 0) ∧
    (fcEtnf m s e).T.Trule = (if fabs (e / s.par.epcc) ≤ fcEtnf_xsp m s then 1 else 5) := by
  rcases s with ⟨par, C, T, w⟩
  simp only [fcEtnf, r1f, r5f, yf, zf, andThen, State.set_xn, State.set_nn, State.set_xsp,
    State.set_y, State.set_z, State.set_Tstress, State.set_Ttangent, State.set_Trule,
    fcEtnf_xsp, fcEtnf_y, fcEtnf_z, fcEtnf_nn]
  split_ifs <;> exact ⟨rfl, rfl, rfl⟩

/-- The algebra of the spalling ratio: for `xcrn > 1`, `n > 0`, `y > 0` and `z < 0` the
ratio `xcrn - y/(n*z)` is its own absolute value, it is above `xcrn`, and the line
`y + n*z*(x - xcrn)` vanishes there. -/
theorem spalling_algebra (xcrn n y z : ℚ) (hx : 1 < xcrn) (hn : 0 < n) (hy : 0 < y)
    (hz : z < 0) :
    fabs (xcrn - y / (n * z)) = xcrn - y / (n * z) ∧ xcrn < xcrn - y / (n * z) ∧
    y + n * z * (xcrn - y / (n * z) - xcrn) = 0 := by
  have hnz : n * z < 0 := mul_neg_of_pos_of_neg hn hz
  have hq : y / (n * z) < 0 := div_neg_of_pos_of_neg hy hnz
  refine ⟨?_, by linarith, ?_⟩
  · rw [fabs_eq_abs, abs_of_pos]
    linarith
  · have hn0 : n ≠ 0 := ne_of_gt hn
    have hz0 : z ≠ 0 := ne_of_lt hz
    have e : n * z * (xcrn - y / (n * z) - xcrn) = -y := by
      field_simp
      ring
    linarith

/-- From the critical ratio on, the stress of `fcEtnf` is `fpcc` times the positive part of
the line `y + nn*z*(x - xcrn)`. -/
theorem fcEtnf_stress_beyond_xcrn (m : Libm) (s : State) (hx : 1 < s.par.xcrn)
    (hn : 0 < fcEtnf_nn s) (hy : 0 < fcEtnf_y m s) (hz : fcEtnf_z m s < 0) (e : ℚ)
    (he : s.par.xcrn ≤ fabs (e / s.par.epcc)) :
    (fcEtnf m s e).T.Tstress = s.par.fpcc *
      max 0 (fcEtnf_y m s + fcEtnf_nn s * fcEtnf_z m s * (fabs (e / s.par.epcc) - s.par.xcrn)) := by
  obtain ⟨a1, a2, a3⟩ := spalling_algebra s.par.xcrn (fcEtnf_nn s) (fcEtnf_y m s)
    (fcEtnf_z m s) hx hn hy hz
  have hnz : fcEtnf_nn s * fcEtnf_z m s < 0 := mul_neg_of_pos_of_neg hn hz
  have hxsp : fcEtnf_xsp m s = s.par.xcrn - fcEtnf_y m s / (fcEtnf_nn s * fcEtnf_z m s) := a1
  rw [(fcEtnf_eval m s e).2.1, r1f_stress, if_neg (not_lt.2 he)]
  generalize fabs (e / s.par.epcc) = x at he ⊢
  by_cases hc : x ≤ fcEtnf_xsp m s
  · rw [if_pos hc, max_eq_right]
    rw [hxsp] at hc
    nlinarith [mul_le_mul_of_nonpos_left (sub_le_sub_right hc s.par.xcrn) hnz.le]
  · rw [if_neg hc, max_eq_left, mul_zero]
    rw [hxsp] at hc
    have h2 := mul_lt_mul_of_neg_left (sub_lt_sub_right (not_le.1 hc) s.par.xcrn) hnz
    linarith

/-- The stress of `fcEtnf` is a continuous function of the strain at every strain whose
ratio to `epcc` is above the critical ratio. -/
theorem fcEtnf_continuousAt_beyond_xcrn (m : Libm) (s : State) (hx : 1 < s.par.xcrn)
    (hn : 0 < fcEtnf_nn s) (hy : 0 < fcEtnf_y m s) (hz : fcEtnf_z m s < 0) (e0 : ℚ)
    (he : s.par.xcrn < fabs (e0 / s.par.epcc)) :
    ContinuousAt (fun e : ℚ => (fcEtnf m s e).T.Tstress) e0 := by
  have hX : Continuous (fun e : ℚ => fabs (e / s.par.epcc)) := by
    have e1 : (fun e : ℚ => fabs (e / s.par.epcc)) = fun e => |e / s.par.epcc| :=
      funext fun e => fabs_eq_abs _
    rw [e1]
    exact (continuous_id.div_const _).abs
  have hK : Continuous (fun e : ℚ => s.par.fpcc *
      max 0 (fcEtnf_y m s + fcEtnf_nn s * fcEtnf_z m s
        * (fabs (e / s.par.epcc) - s.par.xcrn))) :=
    continuous_const.mul (continuous_const.max
      (continuous_const.add (continuous_const.mul (hX.sub continuous_const))))
  have hev : ∀ᶠ e in nhds e0, s.par.xcrn < fabs (e / s.par.epcc) :=
    (hX.tendsto e0).eventually (lt_mem_nhds he)
  exact hK.continuousAt.congr
    (hev.mono fun e h => (fcEtnf_stress_beyond_xcrn m s hx hn hy hz e h.le).symm)

/-- The two branches of rule 1 join at the critical ratio: when the library functions that
`yf` reads are continuous at `xcrn`, the stress of rule 1 is a continuous function of the
ratio `x` at `xcrn`. -/
theorem r1f_continuousAt_xcrn (m : Libm) (s : State) (hn : 0 < fcEtnf_nn s)
    (hy : 0 < fcEtnf_y m s)
    (hp : ContinuousAt (fun x : ℚ => m.pow x s.par.rc) s.par.xcrn)
    (hl : ContinuousAt m.log10 s.par.xcrn) :
    ContinuousAt (fun x : ℚ => (r1f m s x (fcEtnf_nn s) s.par.rc).T.Tstress) s.par.xcrn := by
  have hD : ContinuousAt (fun x : ℚ =>
      if s.par.rc ≠ 1 then
        1 + (fcEtnf_nn s - s.par.rc / (s.par.rc - 1)) * x + (m.pow x s.par.rc) / (s.par.rc - 1)
      else 1 + (fcEtnf_nn s - 1 + (m.log10 x)) * x) s.par.xcrn := by
    by_cases hr : s.par.rc ≠ 1
    · simp only [if_pos hr]
      exact (continuousAt_const.add (continuousAt_const.mul continuousAt_id)).add
        (hp.div_const _)
    · simp only [if_neg hr]
      exact continuousAt_const.add ((continuousAt_const.add hl).mul continuousAt_id)
  have hD0 : (if s.par.rc ≠ 1 then
        1 + (fcEtnf_nn s - s.par.rc / (s.par.rc - 1)) * s.par.xcrn
          + (m.pow s.par.xcrn s.par.rc) / (s.par.rc - 1)
      else 1 + (fcEtnf_nn s - 1 + (m.log10 s.par.xcrn)) * s.par.xcrn) ≠ 0 := by
    intro h0
    have : fcEtnf_y m s = 0 := by
      show fcEtnf_nn s * s.par.xcrn / _ = 0
      rw [h0, div_zero]
    rw [this] at hy
    exact lt_irrefl 0 hy
  have hY : ContinuousAt (fun x : ℚ => s.par.fpcc * (yf m s x (fcEtnf_nn s) s.par.rc).w.y)
      s.par.xcrn :=
    continuousAt_const.mul ((continuousAt_const.mul continuousAt_id).div hD hD0)
  have hG : Continuous (fun x : ℚ => s.par.fpcc
      * (fcEtnf_y m s + fcEtnf_nn s * fcEtnf_z m s * (x - s.par.xcrn))) := by
    fun_prop
  have e : (fun x : ℚ => (r1f m s x (fcEtnf_nn s) s.par.rc).T.Tstress) = fun x =>
      if x < s.par.xcrn then s.par.fpcc * (yf m s x (fcEtnf_nn s) s.par.rc).w.y
      else s.par.fpcc * (fcEtnf_y m s + fcEtnf_nn s * fcEtnf_z m s * (x - s.par.xcrn)) :=
    funext fun x => r1f_stress m s x
  rw [e, continuousAt_iff_continuous_left_right]
  constructor
  · refine hY.continuousWithinAt.congr (fun x hx => ?_) ?_
    · rcases lt_or_eq_of_le (show x ≤ s.par.xcrn from hx) with h | h
      · simp only [if_pos h]
      · rw [h]
        simp only [lt_irrefl, if_false, sub_self, mul_zero, add_zero]
        rfl
    · simp only [lt_irrefl, if_false, sub_self, mul_zero, add_zero]
      rfl
  · refine hG.continuousAt.continuousWithinAt.congr (fun x hx => ?_) ?_
    · simp only [if_neg (not_lt.2 (show s.par.xcrn ≤ x from hx))]
    · simp only [lt_irrefl, if_false]

/-- C37. Cyclic model, spalling.  With `nn`, `y = y(xcrn)`, `z = z(xcrn)` and
`xsp = |xcrn - y/(nn*z)|` as `fcEtnf` computes them (lines 3491-3494), and `xcrn > 1`,
`nn > 0`, `y > 0`, `z < 0`: the spalling ratio `xsp` is above `xcrn`; the stress of rule 1
at `x = xsp`, which is `fpcc*(y + nn*z*(xsp - xcrn))`, is 0; `fcEtnf` gives the stress 0 by
rule 1 at a strain whose ratio to `epcc` is `xsp` and the stress 0 by rule 5 beyond it, and
its stress is a continuous function of the strain there.  At `x = xcrn` the second branch of
rule 1 gives the stress `fpcc*y(xcrn)` of the first branch, and when the library functions
`pow(., rc)` and `log10` are continuous at `xcrn` the stress of rule 1 is a continuous
function of `x` at `xcrn`. -/
theorem spalling_switch_is_stress_continuous (m : Libm) (s : State) (hx : 1 < s.par.xcrn)
    (hn : 0 < fcEtnf_nn s) (hy : 0 < fcEtnf_y m s) (hz : fcEtnf_z m s < 0) :
    s.par.xcrn < fcEtnf_xsp m s ∧
    (∀ e : ℚ, (fcEtnf m s e).w.xsp = fcEtnf_xsp m s) ∧
    (r1f m s (fcEtnf_xsp m s) (fcEtnf_nn s) s.par.rc).T.Tstress = 0 ∧
    s.par.fpcc * (fcEtnf_y m s + fcEtnf_nn s * fcEtnf_z m s * (fcEtnf_xsp m s - s.par.xcrn))
      = 0 ∧
    (∀ e : ℚ, fabs (e / s.par.epcc) = fcEtnf_xsp m s →
      (fcEtnf m s e).T.Tstress = 0 ∧ (fcEtnf m s e).T.Trule = 1) ∧
    (∀ e : ℚ, fcEtnf_xsp m s < fabs (e / s.par.epcc) →
      (fcEtnf m s e).T.Tstress = 0 ∧ (fcEtnf m s e).T.Trule = 5) ∧
    (∀ e : ℚ, fabs (e / s.par.epcc) = fcEtnf_xsp m s →
      ContinuousAt (fun x : ℚ => (fcEtnf m s x).T.Tstress) e) ∧
    (r1f m s s.par.xcrn (fcEtnf_nn s) s.par.rc).T.Tstress
      = s.par.fpcc * (yf m s s.par.xcrn (fcEtnf_nn s) s.par.rc).w.y ∧
    (ContinuousAt (fun x : ℚ => m.pow x s.par.rc) s.par.xcrn →
      ContinuousAt m.log10 s.par.xcrn →
      ContinuousAt (fun x : ℚ => (r1f m s x (fcEtnf_nn s) s.par.rc).T.Tstress)
        s.par.xcrn) := by
  obtain ⟨a1, a2, a3⟩ := spalling_algebra s.par.xcrn (fcEtnf_nn s) (fcEtnf_y m s)
    (fcEtnf_z m s) hx hn hy hz
  have hxsp : fcEtnf_xsp m s = s.par.xcrn - fcEtnf_y m s / (fcEtnf_nn s * fcEtnf_z m s) := a1
  have hlt : s.par.xcrn < fcEtnf_xsp m s := by rw [hxsp]; exact a2
  have hline : s.par.fpcc
      * (fcEtnf_y m s + fcEtnf_nn s * fcEtnf_z m s * (fcEtnf_xsp m s - s.par.xcrn)) = 0 := by
    rw [hxsp, a3, mul_zero]
  have h1 : (r1f m s (fcEtnf_xsp m s) (fcEtnf_nn s) s.par.rc).T.Tstress = 0 := by
    rw [r1f_stress, if_neg (not_lt.2 hlt.le)]
    exact hline
  refine ⟨hlt, fun e => (fcEtnf_eval m s e).1, h1, hline, fun e he => ?_, fun e he => ?_,
    fun e he => ?_, ?_, fun hp hl => r1f_continuousAt_xcrn m s hn hy hp hl⟩
  · obtain ⟨_, b2, b3⟩ := fcEtnf_eval m s e
    rw [b2, b3, he, if_pos (le_refl _), if_pos (le_refl _)]
    exact ⟨h1, rfl⟩
  · obtain ⟨_, b2, b3⟩ := fcEtnf_eval m s e
    rw [b2, b3, if_neg (not_le.2 he), if_neg (not_le.2 he)]
    exact ⟨rfl, rfl⟩
  · exact fcEtnf_continuousAt_beyond_xcrn m s hx hn hy hz e (by rw [he]; exact hlt)
  · rw [r1f_stress, if_neg (lt_irrefl _), sub_self, mul_zero, add_zero]
    rfl

/-- Witness of C37: the specimen (`Ec = 30000`, `epcc = -0.002`, `fpcc = -30`, `rc = 7`,
`xcrn = 2`), for which `nn = 2`, `y(xcrn) = 1/6` and `z(xcrn) = -127/576`. -/
theorem spalling_switch_is_stress_continuous_witness :
    (1 < specimen.par.xcrn ∧ 0 < fcEtnf_nn specimen ∧ 0 < fcEtnf_y Libm.sample specimen ∧
      fcEtnf_z Libm.sample specimen < 0) ∧
    (specimen.par.xcrn < fcEtnf_xsp Libm.sample specimen ∧
    (∀ e : ℚ, (fcEtnf Libm.sample specimen e).w.xsp = fcEtnf_xsp Libm.sample specimen) ∧
    (r1f Libm.sample specimen (fcEtnf_xsp Libm.sample specimen) (fcEtnf_nn specimen)
      specimen.par.rc).T.Tstress = 0 ∧
    specimen.par.fpcc * (fcEtnf_y Libm.sample specimen
      + fcEtnf_nn specimen * fcEtnf_z Libm.sample specimen
        * (fcEtnf_xsp Libm.sample specimen - specimen.par.xcrn)) = 0 ∧
    (∀ e : ℚ, fabs (e / specimen.par.epcc) = fcEtnf_xsp Libm.sample specimen →
      (fcEtnf Libm.sample specimen e).T.Tstress = 0 ∧
      (fcEtnf Libm.sample specimen e).T.Trule = 1) ∧
    (∀ e : ℚ, fcEtnf_xsp Libm.sample specimen < fabs (e / specimen.par.epcc) →
      (fcEtnf Libm.sample specimen e).T.Tstress = 0 ∧
      (fcEtnf Libm.sample specimen e).T.Trule = 5) ∧
    (∀ e : ℚ, fabs (e / specimen.par.epcc) = fcEtnf_xsp Libm.sample specimen →
      ContinuousAt (fun x : ℚ => (fcEtnf Libm.sample specimen x).T.Tstress) e) ∧
    (r1f Libm.sample specimen specimen.par.xcrn (fcEtnf_nn specimen)
        specimen.par.rc).T.Tstress
      = specimen.par.fpcc
        * (yf Libm.sample specimen specimen.par.xcrn (fcEtnf_nn specimen)
            specimen.par.rc).w.y ∧
    (ContinuousAt (fun x : ℚ => Libm.sample.pow x specimen.par.rc) specimen.par.xcrn →
      ContinuousAt Libm.sample.log10 specimen.par.xcrn →
      ContinuousAt (fun x : ℚ => (r1f Libm.sample specimen x (fcEtnf_nn specimen)
        specimen.par.rc).T.Tstress) specimen.par.xcrn)) :=
  ⟨⟨by decide!, by decide!, by decide!, by decide!⟩,
    spalling_switch_is_stress_continuous Libm.sample specimen (by decide!) (by decide!)
      (by decide!) (by decide!)⟩

/-- The spalling of the specimen: `nn = 2`, `y(xcrn) = 1/6`, `z(xcrn) = -127/576` and
`xsp = 302/127`; the strain `-604/127000`, whose ratio to `epcc` is `xsp`, has the stress 0
by rule 1, the strain `-0.0045` has the stress `-325/192` by rule 1 and the strain `-0.005`
the stress 0 by rule 5. -/
theorem spalling_values :
    fcEtnf_nn specimen = 2 ∧ fcEtnf_y Libm.sample specimen = 1 / 6 ∧
    fcEtnf_z Libm.sample specimen = -127 / 576 ∧
    fcEtnf_xsp Libm.sample specimen = 302 / 127 ∧
    fabs ((-604 / 127000) / specimen.par.epcc) = 302 / 127 ∧
    (fcEtnf Libm.sample specimen (-604 / 127000)).T.Tstress = 0 ∧
    (fcEtnf Libm.sample specimen (-604 / 127000)).T.Trule = 1 ∧
    (fcEtnf Libm.sample specimen (-0.0045)).T.Tstress = -325 / 192 ∧
    (fcEtnf Libm.sample specimen (-0.0045)).T.Trule = 1 ∧
    (fcEtnf Libm.sample specimen (-0.005)).T.Tstress = 0 ∧
    (fcEtnf Libm.sample specimen (-0.005)).T.Trule = 5 := by
  decide!

/-- For the specimen and the sample library, whose `pow(x, 7)` is `x^7`, the stress of
rule 1 is a continuous function of the ratio `x` at `xcrn = 2`. -/
theorem r1f_continuousAt_xcrn_specimen :
    ContinuousAt (fun x : ℚ => (r1f Libm.sample specimen x (fcEtnf_nn specimen)
      specimen.par.rc).T.Tstress) specimen.par.xcrn := by
  refine r1f_continuousAt_xcrn Libm.sample specimen (by decide!) (by decide!) ?_ ?_
  · have e : (fun x : ℚ => Libm.sample.pow x specimen.par.rc) = fun x => x ^ 7 := by
      funext x
      have hf : Rat.floor specimen.par.rc = 7 := by decide!
      show ipow x (Rat.floor specimen.par.rc) = x ^ 7
      rw [hf]
      rfl
    rw [e]
    exact (continuous_pow 7).continuousAt
  · have e : Libm.sample.log10 = fun x => (x - 1) / 9 := rfl
    rw [e]
    exact ((continuous_id.sub continuous_const).div_const _).continuousAt
end ConcreteCM

namespace ResidNodeRecorder

/-- With at least two processed outputs per dof, every column that `record` writes is
inside the allocated `nProcOuts*numDOF` columns exactly when there are at most as many
nodes as dofs. -/
theorem cnt_in_range_iff (N D P : Int) (e : Bool) (hP : 2 ≤ P) (hD : 1 ≤ D) :
    (∀ i j : Int, 0 ≤ i → i < P → 0 ≤ j → j < D →
      cnt N e i j < P * D + (if e then 1 else 0)) ↔ N ≤ D := by
  unfold cnt
  constructor
  · intro h
    have h1 := h (P - 1) (D - 1) (by omega) (by omega) (by omega) (by omega)
    by_contra hc
    have h2 : D + 1 ≤ N := by omega
    have h3 : (P - 1) * (D + 1) ≤ (P - 1) * N :=
      mul_le_mul_of_nonneg_left h2 (by omega)
    nlinarith
  · intro h i j hi hiP hj hjD
    have h3 : i * N ≤ i * D := mul_le_mul_of_nonneg_left h hi
    have h4 : i * D ≤ (P - 1) * D := mul_le_mul_of_nonneg_right (by omega) (by omega)
    nlinarith

/-- With at least two processed outputs per dof and at least one node, distinct pairs of
output and dof are written to distinct columns exactly when there are at most as many
dofs as nodes. -/
theorem cnt_injective_iff (N D P : Int) (e : Bool) (hP : 2 ≤ P) (hN : 1 ≤ N) :
    (∀ i j k l : Int, 0 ≤ i → i < P → 0 ≤ j → j < D → 0 ≤ k → k < P → 0 ≤ l → l < D →
      cnt N e i j = cnt N e k l → i = k ∧ j = l) ↔ D ≤ N := by
  unfold cnt
  constructor
  · intro h
    by_contra hc
    have h1 := h 0 N 1 0 (by omega) (by omega) (by omega) (by omega) (by omega) (by omega)
      (by omega) (by omega) (by ring)
    omega
  · intro h i j k l hi _ hj hjD hk _ hl hlD heq
    have h1 : i * N + j = k * N + l := by linarith
    have h2 : i = k := by
      rcases lt_trichotomy i k with c | c | c
      · have : (i + 1) * N ≤ k * N := mul_le_mul_of_nonneg_right (by omega) (by omega)
        nlinarith
      · exact c
      · have : (k + 1) * N ≤ i * N := mul_le_mul_of_nonneg_right (by omega) (by omega)
        nlinarith
    refine ⟨h2, ?_⟩
    rw [h2] at h1
    linarith

/-- C38. Node recorder, processed-output mode.  For the output `i` of the dof `j`, `record`
writes the column `i*numValidNodes + j + echo` (line 547), while the matrix `data` has
`nProcOuts*numDOF + echo` columns (lines 914-925, `dataFlag` not 10000).  With 4 nodes, 1 dof
and groups of 2 nodes (`nProcOuts = 2`) the output 1 is written to the column 4 of a matrix
with 2 columns; with 2 nodes, 3 dofs and groups of 1 node the pairs `(0, 2)` and `(1, 0)`
are both written to the column 2 of a matrix with 6 columns, whose column 5 is never
written.  With one output per dof (`procGrpNum = -1`) every column is in range and the
columns are distinct.  With at least two outputs per dof, all columns are in range exactly
when `numValidNodes <= numDOF`, and distinct pairs have distinct columns exactly when
`numDOF <= numValidNodes`. -/
theorem processed_columns_out_of_range_or_colliding :
    (nProcOuts 4 2 = 2 ∧ numValidResponse 4 1 2 1 0 false = 2 ∧ cnt 4 false 1 0 = 4 ∧
      recordProcessed 1 2 1 false [[1], [2], [3], [4]] = [(0, 3), (4, 7)]) ∧
    (nProcOuts 2 1 = 2 ∧ numValidResponse 2 3 1 1 0 false = 6 ∧
      cnt 2 false 0 2 = 2 ∧ cnt 2 false 1 0 = 2 ∧
      recordProcessed 3 1 1 false [[1, 2, 3], [4, 5, 6]]
        = [(0, 1), (2, 4), (1, 2), (3, 5), (2, 3), (4, 6)]) ∧
    (∀ (N D method flag : Int) (e : Bool), method ≠ 0 → flag ≠ 10000 →
      nProcOuts N (-1) = 1 ∧
      (∀ i j : Int, 0 ≤ i → i < nProcOuts N (-1) → 0 ≤ j → j < D →
        cnt N e i j < numValidResponse N D (-1) method flag e) ∧
      (∀ i j k l : Int, 0 ≤ i → i < nProcOuts N (-1) → 0 ≤ k → k < nProcOuts N (-1) →
        cnt N e i j = cnt N e k l → i = k ∧ j = l)) ∧
    (∀ (N D g method flag : Int) (e : Bool), 1 ≤ N → 1 ≤ D → 1 ≤ g → flag ≠ 10000 →
      2 ≤ nProcOuts N g →
      numValidResponse N D g method flag e = nProcOuts N g * D + (if e then 1 else 0) ∧
      ((∀ i j : Int, 0 ≤ i → i < nProcOuts N g → 0 ≤ j → j < D →
        cnt N e i j < numValidResponse N D g method flag e) ↔ N ≤ D) ∧
      ((∀ i j k l : Int, 0 ≤ i → i < nProcOuts N g → 0 ≤ j → j < D →
          0 ≤ k → k < nProcOuts N g → 0 ≤ l → l < D →
          cnt N e i j = cnt N e k l → i = k ∧ j = l) ↔ D ≤ N)) := by
  refine ⟨by decide!, by decide!, ?_, ?_⟩
  · intro N D method flag e hm hf
    have h1 : nProcOuts N (-1) = 1 := by simp [nProcOuts]
    have h2 : numValidResponse N D (-1) method flag e = D + (if e then 1 else 0) := by
      cases e <;> simp [numValidResponse, hm, hf]
    refine ⟨h1, ?_, ?_⟩
    · intro i j hi hiP hj hjD
      rw [h1] at hiP
      have hi0 : i = 0 := by omega
      rw [h2, hi0]
      unfold cnt
      omega
    · intro i j k l hi hiP hk hkP heq
      rw [h1] at hiP hkP
      have hi0 : i = 0 := by omega
      have hk0 : k = 0 := by omega
      rw [hi0, hk0] at heq
      unfold cnt at heq
      refine ⟨by omega, ?_⟩
      omega
  · intro N D g method flag e hN hD hg hf hP
    have hg1 : g ≠ -1 := by omega
    have h2 : numValidResponse N D g method flag e
        = nProcOuts N g * D + (if e then 1 else 0) := by
      cases e <;> simp [numValidResponse, nProcOuts, hg1, hf]
    rw [h2]
    exact ⟨rfl, cnt_in_range_iff N D _ e hP hD, cnt_injective_iff N D _ e hP hN⟩


/-- Without groups (`procGrpNum = -1`) a node after the first one updates the only entry of
`vals` by the `if` chain of lines 534-543. -/
theorem nodeLoop_single (M : Int) (rest : List ℚ) :
    ∀ (a : ℚ) (i : Nat), 1 ≤ i →
      nodeLoop (-1) M { vals := [a], iGrpN := 0, nextGrpN := -1 } i rest
        = { vals := [rest.foldl (record_L534_L543 M) a], iGrpN := 0, nextGrpN := -1 } := by
  induction rest with
  | nil => intro a i _; rfl
  | cons v vs ih =>
    intro a i hi
    have hs : nodeStep (-1) M { vals := [a], iGrpN := 0, nextGrpN := -1 } i v
        = { vals := [record_L534_L543 M a v], iGrpN := 0, nextGrpN := -1 } := by
      have h0 : ¬ (i = 0 ∧ M ≠ 1) := fun h => by omega
      simp [nodeStep, h0]
    show nodeLoop (-1) M (nodeStep (-1) M _ i v) (i + 1) vs = _
    rw [hs, ih _ (i + 1) (by omega)]
    rfl

/-- Without groups the only entry of `vals` is the fold of the `if` chain of lines 534-543
over the responses, started from the first response updated with `fabs(val1)` (any method
but 1) or with 0 (method 1). -/
theorem groupValues_single (M : Int) (v0 : ℚ) (rest : List ℚ) :
    groupValues (-1) M (v0 :: rest)
      = [rest.foldl (record_L534_L543 M)
          (record_L534_L543 M (if M ≠ 1 then fabs v0 else 0) v0)] := by
  have hs : nodeStep (-1) M { vals := [0], iGrpN := 0, nextGrpN := -1 } 0 v0
      = { vals := [record_L534_L543 M (if M ≠ 1 then fabs v0 else 0) v0],
          iGrpN := 0, nextGrpN := -1 } := by
    simp [nodeStep]
  show (nodeLoop (-1) M (nodeStep (-1) M _ 0 v0) 1 rest).vals = _
  have hv : List.replicate (nProcOuts (↑(v0 :: rest).length) (-1)).toNat (0 : ℚ) = [0] := by
    simp [nProcOuts]
  rw [hv, hs, nodeLoop_single M rest _ 1 (le_refl 1)]

/-- The first response is not above its absolute value. -/
theorem le_fabs (x : ℚ) : x ≤ fabs x ∧ 0 ≤ fabs x := by
  unfold fabs
  split_ifs with h
  · constructor <;> linarith
  · constructor <;> linarith

/-- The `if` chain of lines 534-543, method by method. -/
theorem record_L534_L543_eq (a v : ℚ) :
    record_L534_L543 1 a v = a + v ∧ record_L534_L543 2 a v = max a v ∧
    record_L534_L543 3 a v = min a v ∧ record_L534_L543 4 a v = max a (fabs v) ∧
    record_L534_L543 5 a v = min a (fabs v) := by
  refine ⟨?_, ?_, ?_, ?_, ?_⟩
  · simp [record_L534_L543]
  · simp only [record_L534_L543]
    norm_num
    split_ifs with h
    · exact (max_eq_right h.le).symm
    · exact (max_eq_left (not_lt.1 h)).symm
  · simp only [record_L534_L543]
    norm_num
    split_ifs with h
    · exact (min_eq_right h.le).symm
    · exact (min_eq_left (not_lt.1 h)).symm
  · simp only [record_L534_L543]
    norm_num
    split_ifs with h
    · exact (max_eq_right h.le).symm
    · exact (max_eq_left (not_lt.1 h)).symm
  · simp only [record_L534_L543]
    norm_num
    split_ifs with h
    · exact (min_eq_right h.le).symm
    · exact (min_eq_left (not_lt.1 h)).symm

/-- C39. Node recorder, group reductions.  The array `vals` starts at 0 (line 517) and only
the node 0 replaces the entry of its group by `fabs(val1)` (lines 532-533).  So the
maximum (method 2) of the responses `-3, -5` without groups is computed as 3, not -3; with
groups of 1 node the maxima of `-1, -2` are computed as `1, 0`, the minima (method 3) of the
groups `1, -2 | 3, 5 | 4` as `-2, 0, 0` in place of `-2, 3, 4`, and the minimum absolute
values (method 5) of `1, 2` as `1, 0`.  The sums (method 1) and the maximum absolute values
(method 4) of the groups `1, -2 | 3, -5 | 4` are computed as `-1, -2, 4` and `2, 5, 4`.
Without groups (`procGrpNum = -1`), for the responses `v0, rest`: method 1 gives their
sum, method 3 their minimum, method 4 the maximum and method 5 the minimum of their absolute
values, and method 2 gives the maximum of `fabs(v0)` and `rest`. -/
theorem group_reductions_start_from_zero :
    (groupValues (-1) 2 [-3, -5] = [3] ∧ groupValues 1 2 [-1, -2] = [1, 0] ∧
      groupValues 2 3 [1, -2, 3, 5, 4] = [-2, 0, 0] ∧ groupValues 1 5 [1, 2] = [1, 0] ∧
      groupValues 2 1 [1, -2, 3, -5, 4] = [-1, -2, 4] ∧
      groupValues 2 4 [1, -2, 3, -5, 4] = [2, 5, 4]) ∧
    (∀ (v0 : ℚ) (rest : List ℚ),
      groupValues (-1) 1 (v0 :: rest) = [(v0 :: rest).sum] ∧
      groupValues (-1) 2 (v0 :: rest) = [rest.foldl max (fabs v0)] ∧
      groupValues (-1) 3 (v0 :: rest) = [rest.foldl min v0] ∧
      groupValues (-1) 4 (v0 :: rest) = [(rest.map fabs).foldl max (fabs v0)] ∧
      groupValues (-1) 5 (v0 :: rest) = [(rest.map fabs).foldl min (fabs v0)]) := by
  refine ⟨by decide!, fun v0 rest => ?_⟩
  have f1 : record_L534_L543 1 = fun a v => a + v :=
    funext fun a => funext fun v => (record_L534_L543_eq a v).1
  have f2 : record_L534_L543 2 = fun a v => max a v :=
    funext fun a => funext fun v => (record_L534_L543_eq a v).2.1
  have f3 : record_L534_L543 3 = fun a v => min a v :=
    funext fun a => funext fun v => (record_L534_L543_eq a v).2.2.1
  have f4 : record_L534_L543 4 = fun a v => max a (fabs v) :=
    funext fun a => funext fun v => (record_L534_L543_eq a v).2.2.2.1
  have f5 : record_L534_L543 5 = fun a v => min a (fabs v) :=
    funext fun a => funext fun v => (record_L534_L543_eq a v).2.2.2.2
  obtain ⟨h1, h2⟩ := le_fabs v0
  refine ⟨?_, ?_, ?_, ?_, ?_⟩
  · rw [groupValues_single, f1, List.sum_eq_foldl]
    simp
  · rw [groupValues_single, f2]
    simp only [ne_eq, OfNat.ofNat_ne_one, not_false_eq_true, if_true, max_eq_left h1]
  · rw [groupValues_single, f3]
    simp only [ne_eq, OfNat.ofNat_ne_one, not_false_eq_true, if_true, min_eq_right h1]
  · rw [groupValues_single, f4, List.foldl_map]
    simp only [ne_eq, OfNat.ofNat_ne_one, not_false_eq_true, if_true, max_self]
  · rw [groupValues_single, f5, List.foldl_map]
    simp only [ne_eq, OfNat.ofNat_ne_one, not_false_eq_true, if_true, min_self]

end ResidNodeRecorder

/-- C4. For both models `setTrialStrain` assigns trial state only.  Thermal model: the
committed variables `ecminP`, `deptP`, `epsP`, `sigP`, `eP`, `TempP` and the active
parameters `fc`, `epsc0`, `fcu`, `epscu`, `rat`, `ft`, `Ets` have after the call the values
they had before it.  Cyclic model: the same holds of every committed history and state
variable (the record `C`: `Ceunn` ... `Crule`, `Cstrain`, `Cstress`, `Ctangent`) and of the
input parameters (the record `par`: `fpcc`, `epcc`, `Ec`, `rc`, `xcrn`, `ft`, `et`, `rt`,
`xcrp`, `mon`, `Gap`, and the tag). -/
theorem setTrialStrain_assigns_only_trial_state :
    (∀ (s : Concrete02Thermal.State) (x : ℚ),
      (Concrete02Thermal.setTrialStrain s x).ecminP = s.ecminP ∧
      (Concrete02Thermal.setTrialStrain s x).deptP = s.deptP ∧
      (Concrete02Thermal.setTrialStrain s x).epsP = s.epsP ∧
      (Concrete02Thermal.setTrialStrain s x).sigP = s.sigP ∧
      (Concrete02Thermal.setTrialStrain s x).eP = s.eP ∧
      (Concrete02Thermal.setTrialStrain s x).TempP = s.TempP ∧
      (Concrete02Thermal.setTrialStrain s x).fc = s.fc ∧
      (Concrete02Thermal.setTrialStrain s x).epsc0 = s.epsc0 ∧
      (Concrete02Thermal.setTrialStrain s x).fcu = s.fcu ∧
      (Concrete02Thermal.setTrialStrain s x).epscu = s.epscu ∧
      (Concrete02Thermal.setTrialStrain s x).rat = s.rat ∧
      (Concrete02Thermal.setTrialStrain s x).ft = s.ft ∧
      (Concrete02Thermal.setTrialStrain s x).Ets = s.Ets) ∧
    (∀ (m : Libm) (s : ConcreteCM.State) (strain : ℚ),
      (ConcreteCM.setTrialStrain m s strain).C = s.C ∧
      (ConcreteCM.setTrialStrain m s strain).par = s.par) :=
  ⟨Concrete02Thermal.setTrialStrain_unchanged,
    fun m s strain => ⟨(ConcreteCM.setTrialStrain_frame m s strain).2.1,
      (ConcreteCM.setTrialStrain_frame m s strain).1⟩⟩

/-- C5. For both models and every object, `commitState` followed at once by
`revertToLastCommit` leaves the object as `commitState` left it: every trial variable and
every committed variable, hence `getStrain`, `getStress` and `getTangent`, keeps the value it
has right after `commitState`. -/
theorem commitState_then_revertToLastCommit :
    (∀ s : Concrete02Thermal.State,
      Concrete02Thermal.revertToLastCommit (Concrete02Thermal.commitState s)
        = Concrete02Thermal.commitState s) ∧
    (∀ s : ConcreteCM.State,
      ConcreteCM.revertToLastCommit (ConcreteCM.commitState s) = ConcreteCM.commitState s) :=
  ⟨fun _ => rfl, fun s => by
    rw [ConcreteCM.revertToLastCommit_eq, ConcreteCM.commitState_eq]⟩
